import Mathlib

/-!
# VP8 rate-distortion mode decision (`vp8/encoder/rdopt.c`)

A shallow embedding of the rate-distortion constants
(`compute_rd_mult`, `vp8_initialize_rd_consts`) and of the inter-mode
selector (`vp8_rd_pick_inter_mode`) together with the properties of the
adaptive threshold table and of the best-so-far record; of the motion
vector predictor, the two insertion sorts and the partition search; of the
4x4 intra search and the intra decision (`vp8_rd_pick_intra_mode`); of the
8x8 block search, the 4x4 search of a macroblock, the speed selection
(`vp8_auto_select_speed`) and the block errors; and of the frame buffer
allocation of `vp8/common/alloccommon.c`.

Conventions of the embedding.

* A C `int` is an `Int`; every arithmetic result is brought back into the
  32-bit two's-complement range by `wrap32`, an `unsigned int` result by
  `uwrap32`.  `x >> k` on an `int` is the arithmetic shift `sar x k`.
* Build-time switches (`CONFIG_DUALPRED`, ...) and constants that live in
  headers outside this translation unit are fields of `Config`.
* Routines defined in other translation units, and the pixel-domain
  routines of this one, are fields of `Ext`: functions over the
  macroblock memory `MACROBLOCK W`, where `W` stands for everything the
  selector itself never looks at (pixels, coefficients, entropy contexts).
* Floating-point expressions are not interpreted: they are fields of
  `FloatOps` and every theorem holds for all of them.
* A local without initializer is an input of the function that reads it.
* The block routines and token tables of the 4x4 intra search are fields of
  `BlockExt` and `IntraConsts`, the context tables and the routines of the
  8x8 block search fields of `QuadExt`, the memory routines of
  `alloccommon.c` fields of `AllocExt`, functions of a memory `M` that is
  passed along.
-/

namespace VP8

/-! ## Machine integers -/

/-- Largest value of a C `int`. -/
def INT_MAX : Int := 2147483647

/-- Smallest value of a C `int`. -/
def INT_MIN : Int := -2147483648

/-- Reduction of a mathematical integer to the 32-bit two's-complement range. -/
def wrap32 (x : Int) : Int := (x + 2147483648) % 4294967296 - 2147483648

/-- Reduction of a mathematical integer to the range of `unsigned int`. -/
def uwrap32 (x : Int) : Int := x % 4294967296

/-- Sum of two `int`s. -/
def iadd (a b : Int) : Int := wrap32 (a + b)

/-- Difference of two `int`s. -/
def isub (a b : Int) : Int := wrap32 (a - b)

/-- Product of two `int`s. -/
def imul (a b : Int) : Int := wrap32 (a * b)

/-- Arithmetic right shift `x >> k` of an `int` (rounds towards minus infinity). -/
def sar (x : Int) (k : Nat) : Int := x / (2 : Int) ^ k

/-- Left shift `x << k` of an `int`. -/
def shl (x : Int) (k : Nat) : Int := wrap32 (x * (2 : Int) ^ k)

/-- Quotient `a / b` of two `int`s (rounds towards zero). -/
def idiv (a b : Int) : Int := wrap32 (Int.tdiv a b)

/-- Predicate: the value is representable as a C `int`. -/
def IsInt32 (x : Int) : Prop := INT_MIN ≤ x ∧ x ≤ INT_MAX

instance (x : Int) : Decidable (IsInt32 x) := by
  unfold IsInt32
  infer_instance

/-! ## Build configuration and header constants -/

/-- Build-time switches of the translation unit and the constants it takes
from headers that are not part of it. -/
structure Config where
  /-- `#if CONFIG_DUALPRED` -/
  CONFIG_DUALPRED : Bool
  /-- `#if CONFIG_COMPRED` -/
  CONFIG_COMPRED : Bool
  /-- `#if CONFIG_T8X8` -/
  CONFIG_T8X8 : Bool
  /-- `#if CONFIG_EXTEND_QRANGE` -/
  CONFIG_EXTEND_QRANGE : Bool
  /-- `MIN_THRESHMULT` (onyx_int.h) -/
  MIN_THRESHMULT : Int
  /-- `MAX_THRESHMULT` (onyx_int.h) -/
  MAX_THRESHMULT : Int
  /-- `MAXQ` (onyxc_int.h) -/
  MAXQ : Int
  /-- `MAX_FULL_PEL_VAL` (mcomp.h) -/
  MAX_FULL_PEL_VAL : Int
  /-- `GF_ZEROMV_ZBIN_BOOST` (onyx_int.h) -/
  GF_ZEROMV_ZBIN_BOOST : Int
  /-- `LF_ZEROMV_ZBIN_BOOST` (onyx_int.h) -/
  LF_ZEROMV_ZBIN_BOOST : Int
  /-- `MV_ZBIN_BOOST` (onyx_int.h) -/
  MV_ZBIN_BOOST : Int
  /-- `mv_max` (entropymv.h) -/
  mv_max : Int
  /-- `NEW4X4` of `B_PREDICTION_MODE` (blockd.h) -/
  NEW4X4 : Int

/-- The constants of the adaptive multiplier are usable: the floor is not
negative and does not exceed the ceiling, and the ceiling is at most
`INT_MAX >> 1`, so that neither a raising step above the ceiling nor the
floor plus a quarter of a multiplier leaves the range of `int`. -/
def Config.ThreshMultOk (cfg : Config) : Prop :=
  0 ≤ cfg.MIN_THRESHMULT ∧ cfg.MIN_THRESHMULT ≤ cfg.MAX_THRESHMULT ∧
    cfg.MAX_THRESHMULT ≤ 1073741823

instance (cfg : Config) : Decidable cfg.ThreshMultOk := by
  unfold Config.ThreshMultOk
  infer_instance

/-! ## Enumerations (blockd.h) -/

/-- `MB_PREDICTION_MODE`, in the order of its declaration. -/
inductive MB_PREDICTION_MODE
  | DC_PRED
  | V_PRED
  | H_PRED
  | TM_PRED
  | I8X8_PRED
  | B_PRED
  | NEARESTMV
  | NEARMV
  | ZEROMV
  | NEWMV
  | SPLITMV
  deriving DecidableEq

/-- Numeric value of an `MB_PREDICTION_MODE` enumerator. -/
def MB_PREDICTION_MODE.toInt : MB_PREDICTION_MODE → Int
  | .DC_PRED => 0
  | .V_PRED => 1
  | .H_PRED => 2
  | .TM_PRED => 3
  | .I8X8_PRED => 4
  | .B_PRED => 5
  | .NEARESTMV => 6
  | .NEARMV => 7
  | .ZEROMV => 8
  | .NEWMV => 9
  | .SPLITMV => 10

/-- `MV_REFERENCE_FRAME`; `INTRA_FRAME` is the enumerator of value 0, which
is what `if (mbmi.ref_frame)` and the zero entries of
`vp8_second_ref_frame_order` rely on. -/
inductive MV_REFERENCE_FRAME
  | INTRA_FRAME
  | LAST_FRAME
  | GOLDEN_FRAME
  | ALTREF_FRAME
  deriving DecidableEq

/-- `cpi->common.dual_pred_mode`. -/
inductive DUALPREDMODE_TYPE
  | SINGLE_PREDICTION_ONLY
  | DUAL_PREDICTION_ONLY
  | HYBRID_PREDICTION
  deriving DecidableEq

/-- Segment-level features queried by the selector (seg_common.h). -/
inductive SEG_LVL_FEATURES
  | SEG_LVL_REF_FRAME
  | SEG_LVL_MODE
  deriving DecidableEq

open MB_PREDICTION_MODE MV_REFERENCE_FRAME DUALPREDMODE_TYPE SEG_LVL_FEATURES

/-! ## The candidate tables (lines 77-205) -/

/-- The single-prediction part of `vp8_mode_order`. -/
def vp8_mode_order_single : List MB_PREDICTION_MODE :=
  [ZEROMV, DC_PRED,
   NEARESTMV, NEARMV,
   ZEROMV, NEARESTMV,
   ZEROMV, NEARESTMV,
   NEARMV, NEARMV,
   V_PRED, H_PRED, TM_PRED,
   NEWMV, NEWMV, NEWMV,
   SPLITMV, SPLITMV, SPLITMV,
   B_PRED, I8X8_PRED]

/-- The entries `vp8_mode_order` has only under `CONFIG_DUALPRED`. -/
def vp8_mode_order_dual : List MB_PREDICTION_MODE :=
  [ZEROMV, NEARESTMV, NEARMV,
   ZEROMV, NEARESTMV, NEARMV,
   ZEROMV, NEARESTMV, NEARMV,
   NEWMV, NEWMV, NEWMV]

/-- Table `vp8_mode_order[MAX_MODES]`. -/
def vp8_mode_order (cfg : Config) : List MB_PREDICTION_MODE :=
  if cfg.CONFIG_DUALPRED then vp8_mode_order_single ++ vp8_mode_order_dual
  else vp8_mode_order_single

/-- The single-prediction part of `vp8_ref_frame_order`. -/
def vp8_ref_frame_order_single : List MV_REFERENCE_FRAME :=
  [LAST_FRAME, INTRA_FRAME,
   LAST_FRAME, LAST_FRAME,
   GOLDEN_FRAME, GOLDEN_FRAME,
   ALTREF_FRAME, ALTREF_FRAME,
   GOLDEN_FRAME, ALTREF_FRAME,
   INTRA_FRAME, INTRA_FRAME, INTRA_FRAME,
   LAST_FRAME, GOLDEN_FRAME, ALTREF_FRAME,
   LAST_FRAME, GOLDEN_FRAME, ALTREF_FRAME,
   INTRA_FRAME, INTRA_FRAME]

/-- The entries `vp8_ref_frame_order` has only under `CONFIG_DUALPRED`. -/
def vp8_ref_frame_order_dual : List MV_REFERENCE_FRAME :=
  [LAST_FRAME, LAST_FRAME, LAST_FRAME,
   ALTREF_FRAME, ALTREF_FRAME, ALTREF_FRAME,
   GOLDEN_FRAME, GOLDEN_FRAME, GOLDEN_FRAME,
   LAST_FRAME, ALTREF_FRAME, GOLDEN_FRAME]

/-- Table `vp8_ref_frame_order[MAX_MODES]`. -/
def vp8_ref_frame_order (cfg : Config) : List MV_REFERENCE_FRAME :=
  if cfg.CONFIG_DUALPRED then vp8_ref_frame_order_single ++ vp8_ref_frame_order_dual
  else vp8_ref_frame_order_single

/-- Table `vp8_second_ref_frame_order[MAX_MODES]` (exists under
`CONFIG_DUALPRED` only); its literal `0` entries are `INTRA_FRAME`. -/
def vp8_second_ref_frame_order : List MV_REFERENCE_FRAME :=
  List.replicate 21 INTRA_FRAME ++
  [GOLDEN_FRAME, GOLDEN_FRAME, GOLDEN_FRAME,
   LAST_FRAME, LAST_FRAME, LAST_FRAME,
   ALTREF_FRAME, ALTREF_FRAME, ALTREF_FRAME,
   GOLDEN_FRAME, LAST_FRAME, ALTREF_FRAME]

/-- `MAX_MODES`: the number of entries of the candidate table. -/
def MAX_MODES (cfg : Config) : Nat := (vp8_mode_order cfg).length

/-- `THR_NEWMV`: index of the NEWMV / LAST_FRAME candidate. -/
def THR_NEWMV : Nat := 13

/-- `THR_NEWG`: index of the NEWMV / GOLDEN_FRAME candidate. -/
def THR_NEWG : Nat := 14

/-- `THR_NEWA`: index of the NEWMV / ALTREF_FRAME candidate. -/
def THR_NEWA : Nat := 15

/-! ## Rate-distortion constants (lines 222-377) -/

/-- Table `rd_iifactor[32]`; an index outside the table reads as 0. -/
def rd_iifactor (i : Int) : Int :=
  if i = 0 then 4 else if i = 1 then 4 else if i = 2 then 3
  else if i = 3 then 2 else if i = 4 then 1 else 0

/-- The floating-point expressions of `vp8_initialize_rd_consts`, left
uninterpreted. -/
structure FloatOps where
  /-- `(int)((double)RDMULT * oq_factor * oq_factor)` with
  `oq_factor = 1.0 + 0.0015625 * zbin_over_quant`, from `RDMULT` and
  `zbin_over_quant` -/
  scale_oq : Int → Int → Int
  /-- `(int)pow(v, 1.25)` -/
  pow125 : Int → Int

/-- The fields of `VP8_COMP` that `vp8_initialize_rd_consts` reads. -/
structure RdConstsInput where
  /-- `cpi->zbin_over_quant` -/
  zbin_over_quant : Int
  /-- `cpi->pass` -/
  pass : Int
  /-- `cpi->common.frame_type == KEY_FRAME` -/
  is_key_frame : Bool
  /-- `cpi->twopass.next_iiratio` -/
  next_iiratio : Int
  /-- `cpi->sf.thresh_mult`, as left by `vp8_set_speed_features` -/
  thresh_mult : Nat → Int

/-- The fields of `VP8_COMP` that `vp8_initialize_rd_consts` writes. -/
structure RdConsts where
  /-- `cpi->RDMULT` -/
  RDMULT : Int
  /-- `cpi->RDDIV` -/
  RDDIV : Int
  /-- `cpi->mb.errorperbit` -/
  errorperbit : Int
  /-- `cpi->rd_threshes` -/
  rd_threshes : Nat → Int
  /-- `cpi->rd_baseline_thresh` -/
  rd_baseline_thresh : Nat → Int

/-- Function `compute_rd_mult` (lines 249-260); `vp8_dc_quant` is the
quantizer lookup of quant_common.c. -/
def compute_rd_mult (cfg : Config) (vp8_dc_quant : Int → Int → Int) (qindex : Int) : Int :=
  let q := vp8_dc_quant qindex 0
  if cfg.CONFIG_EXTEND_QRANGE then sar (imul (imul 3 q) q) 4
  else imul (imul 3 q) q

/-- Lines 280-282: the quantizer index after the clamp to `[0, MAXQ]`. -/
def clampQIndex (cfg : Config) (QIndex : Int) : Int :=
  if QIndex < 0 then 0 else if QIndex > cfg.MAXQ then cfg.MAXQ else QIndex

/-- Lines 282-305 of `vp8_initialize_rd_consts`: `cpi->RDMULT` after the
zbin extension, the two-pass bias and the clamp to 7. -/
def rdmultClamped (cfg : Config) (vp8_dc_quant : Int → Int → Int) (fp : FloatOps)
    (cpi : RdConstsInput) (QIndex : Int) : Int :=
  let QIndex := clampQIndex cfg QIndex
  let rdmult := compute_rd_mult cfg vp8_dc_quant QIndex
  let rdmult :=
    if cpi.zbin_over_quant > 0 then wrap32 (fp.scale_oq rdmult cpi.zbin_over_quant)
    else rdmult
  let rdmult :=
    if cpi.pass = 2 ∧ cpi.is_key_frame = false then
      if cpi.next_iiratio > 31 then
        iadd rdmult (sar (imul rdmult (rd_iifactor 31)) 4)
      else
        iadd rdmult (sar (imul rdmult (rd_iifactor cpi.next_iiratio)) 4)
    else rdmult
  if rdmult < 7 then 7 else rdmult

/-- Lines 327-357: one entry of the threshold loop of the two branches
(`RDDIV = 1`, reached with `RDMULT > 1000`, and `RDDIV = 100`). -/
def initThresh (rddivIsOne : Bool) (thresh_mult q : Int) : Int :=
  if rddivIsOne then
    if thresh_mult < INT_MAX then idiv (imul thresh_mult q) 100 else INT_MAX
  else
    if thresh_mult < idiv INT_MAX q then imul thresh_mult q else INT_MAX

/-- Function `vp8_initialize_rd_consts` (lines 269-377), restricted to the
rate-distortion constants and thresholds it leaves in `cpi`.  The call of
`vp8_set_speed_features` at line 310 writes the speed features only; the
`thresh_mult` it leaves is part of the input. -/
def vp8_initialize_rd_consts (cfg : Config) (vp8_dc_quant : Int → Int → Int)
    (fp : FloatOps) (cpi : RdConstsInput) (QIndex : Int) : RdConsts :=
  let rdmult := rdmultClamped cfg vp8_dc_quant fp cpi QIndex
  let QIndex := clampQIndex cfg QIndex
  let errorperbit := idiv rdmult 110
  let errorperbit := iadd errorperbit (if errorperbit = 0 then 1 else 0)
  let q :=
    if cfg.CONFIG_EXTEND_QRANGE then
      shl (wrap32 (fp.pow125 (sar (vp8_dc_quant QIndex 0) 2))) 2
    else wrap32 (fp.pow125 (vp8_dc_quant QIndex 0))
  let rdmult := if cfg.CONFIG_EXTEND_QRANGE then shl rdmult 4 else rdmult
  let q := if q < 8 then 8 else q
  if rdmult > 1000 then
    { RDMULT := idiv rdmult 100
      RDDIV := 1
      errorperbit := errorperbit
      rd_threshes := fun i => initThresh true (cpi.thresh_mult i) q
      rd_baseline_thresh := fun i => initThresh true (cpi.thresh_mult i) q }
  else
    { RDMULT := rdmult
      RDDIV := 100
      errorperbit := errorperbit
      rd_threshes := fun i => initThresh false (cpi.thresh_mult i) q
      rd_baseline_thresh := fun i => initThresh false (cpi.thresh_mult i) q }

/-! ## Data of the inter-mode selector -/

/-- `int_mv`: a motion vector with `short` components; its `as_int` view is 0
exactly when both components are 0, and two vectors have the same `as_int`
exactly when they are equal. -/
structure int_mv where
  /-- `as_mv.row` -/
  row : Int
  /-- `as_mv.col` -/
  col : Int
  deriving DecidableEq

/-- `INVALID_MV` (`0x80008000`, line 2171): both components are `0x8000`. -/
def INVALID_MV : int_mv := { row := -32768, col := -32768 }

/-- The zero vector (`as_int == 0`). -/
def zero_mv : int_mv := { row := 0, col := 0 }

/-- `union b_mode_info`.  The two views of the union are kept as two fields;
the selector only reads back the view that was written. -/
structure b_mode_info where
  /-- view `as_mode` -/
  as_mode : Int
  /-- view `mv` -/
  mv : int_mv
  deriving DecidableEq

/-- The fields of `MB_MODE_INFO` the selector reads or writes.
`second_ref_frame` and `second_mv` exist under `CONFIG_DUALPRED` only. -/
structure MB_MODE_INFO where
  /-- `mbmi.mode` -/
  mode : MB_PREDICTION_MODE
  /-- `mbmi.uv_mode` -/
  uv_mode : MB_PREDICTION_MODE
  /-- `mbmi.ref_frame` -/
  ref_frame : MV_REFERENCE_FRAME
  /-- `mbmi.second_ref_frame` -/
  second_ref_frame : MV_REFERENCE_FRAME
  /-- `mbmi.mv` -/
  mv : int_mv
  /-- `mbmi.second_mv` -/
  second_mv : int_mv
  /-- `mbmi.partitioning` -/
  partitioning : Int
  /-- `mbmi.mb_skip_coeff` -/
  mb_skip_coeff : Int
  /-- `mbmi.segment_id` -/
  segment_id : Nat
  deriving DecidableEq

/-- The record `vpx_memset(&best_mbmode, 0, sizeof(best_mbmode))` produces
(line 2165): every field has the value 0, that is `DC_PRED`, `INTRA_FRAME`
and the zero vector. -/
def zeroed_mbmode : MB_MODE_INFO :=
  { mode := DC_PRED, uv_mode := DC_PRED, ref_frame := INTRA_FRAME,
    second_ref_frame := INTRA_FRAME, mv := zero_mv, second_mv := zero_mv,
    partitioning := 0, mb_skip_coeff := 0, segment_id := 0 }

/-- The record `vpx_memset(&best_bmodes, 0, sizeof(best_bmodes))` produces
(line 2166). -/
def zeroed_bmodes : Nat → b_mode_info :=
  fun _ => { as_mode := 0, mv := zero_mv }

/-- `PARTITION_INFO`: the count of partitions and, for each, its mode and
vector. -/
structure PARTITION_INFO where
  /-- `count` -/
  count : Int
  /-- `bmi[i].mode` -/
  bmi_mode : Nat → Int
  /-- `bmi[i].mv` -/
  bmi_mv : Nat → int_mv

/-- `MACROBLOCK *x` together with its `MACROBLOCKD x->e_mbd`: the fields the
selector touches itself, and in `mem` everything else (source and
reference pixels, predictor, coefficients, entropy contexts, cost tables). -/
structure MACROBLOCK (W : Type) where
  /-- `x->e_mbd.mode_info_context->mbmi` -/
  mbmi : MB_MODE_INFO
  /-- `x->skip`, as a truth value -/
  skip : Bool
  /-- `x->mv_col_min` -/
  mv_col_min : Int
  /-- `x->mv_col_max` -/
  mv_col_max : Int
  /-- `x->mv_row_min` -/
  mv_row_min : Int
  /-- `x->mv_row_max` -/
  mv_row_max : Int
  /-- `x->rdmult` -/
  rdmult : Int
  /-- `x->rddiv` -/
  rddiv : Int
  /-- `x->errorperbit` -/
  errorperbit : Int
  /-- `x->sadperbit16` -/
  sadperbit16 : Int
  /-- `x->encode_breakout` -/
  encode_breakout : Int
  /-- `x->e_mbd.block[i].bmi` -/
  block_bmi : Nat → b_mode_info
  /-- `x->e_mbd.mode_info_context->bmi[i]` -/
  mode_info_bmi : Nat → b_mode_info
  /-- `*x->partition_info` -/
  partition_info : PARTITION_INFO
  /-- the reference frame whose buffers `x->e_mbd.pre` points into -/
  pre_frame : MV_REFERENCE_FRAME
  /-- the reference frame whose buffers `x->e_mbd.second_pre` points into -/
  second_pre_frame : MV_REFERENCE_FRAME
  /-- the rest of the macroblock memory -/
  mem : W

/-- The fields of `VP8_COMP *cpi` the selector reads or writes. -/
structure VP8_COMP where
  /-- `cpi->rd_threshes` -/
  rd_threshes : Nat → Int
  /-- `cpi->rd_thresh_mult` -/
  rd_thresh_mult : Nat → Int
  /-- `cpi->rd_baseline_thresh` -/
  rd_baseline_thresh : Nat → Int
  /-- `cpi->mode_chosen_counts` -/
  mode_chosen_counts : Nat → Int
  /-- `cpi->mbs_tested_so_far` -/
  mbs_tested_so_far : Int
  /-- `cpi->zbin_mode_boost` -/
  zbin_mode_boost : Int
  /-- `cpi->MVcount[k][j]` -/
  MVcount : Nat → Int → Int
  /-- `cpi->zbin_mode_boost_enabled` -/
  zbin_mode_boost_enabled : Bool
  /-- `cpi->ref_frame_flags & VP8_LAST_FLAG` -/
  ref_last_flag : Bool
  /-- `cpi->ref_frame_flags & VP8_GOLD_FLAG` -/
  ref_gold_flag : Bool
  /-- `cpi->ref_frame_flags & VP8_ALT_FLAG` -/
  ref_alt_flag : Bool
  /-- `cpi->is_src_frame_alt_ref` -/
  is_src_frame_alt_ref : Bool
  /-- `cpi->oxcf.arnr_max_frames` -/
  arnr_max_frames : Int
  /-- `cpi->active_map_enabled` -/
  active_map_enabled : Bool
  /-- `cpi->common.mb_no_coeff_skip` -/
  mb_no_coeff_skip : Bool
  /-- `cpi->prob_skip_false` -/
  prob_skip_false : Int
  /-- `cpi->common.dual_pred_mode` -/
  dual_pred_mode : DUALPREDMODE_TYPE
  /-- `cpi->sf.first_step` -/
  sf_first_step : Int
  /-- `cpi->sf.max_step_search_steps` -/
  sf_max_step_search_steps : Int

/-- What `vp8_find_near_mvs` delivers for one reference frame. -/
structure NearMvs where
  /-- `nearest` -/
  nearest : int_mv
  /-- `nearby` -/
  near : int_mv
  /-- `best_mv` -/
  best : int_mv
  /-- `cnt[4]` -/
  mdcounts : Nat → Int

/-- Result of a routine that returns an `int` and has the out-parameters
`*rate`, `*rate_y` and `*distortion`. -/
structure YResult (W : Type) where
  /-- the macroblock memory after the call -/
  x : MACROBLOCK W
  /-- the returned value -/
  ret : Int
  /-- `*Rate` after the call -/
  rate : Int
  /-- `*rate_y` after the call -/
  rate_y : Int
  /-- `*Distortion` after the call -/
  distortion : Int

/-- Result of a routine with the out-parameters `*rate` and `*distortion`. -/
structure RDResult (W : Type) where
  /-- the macroblock memory after the call -/
  x : MACROBLOCK W
  /-- `*rate` after the call -/
  rate : Int
  /-- `*distortion` after the call -/
  distortion : Int

/-- Result of `rd_pick_intra_mbuv_mode`. -/
structure UVIntraResult (W : Type) where
  /-- the macroblock memory after the call (`mbmi.uv_mode` is set there) -/
  x : MACROBLOCK W
  /-- `*rate` -/
  rate : Int
  /-- `*rate_tokenonly` -/
  rate_tokenonly : Int
  /-- `*distortion` -/
  distortion : Int

/-- Result of a motion search: the returned cost, `*num00`, and the memory
(where `d->bmi.mv` holds the vector found). -/
structure SearchResult (W : Type) where
  /-- the macroblock memory after the call -/
  x : MACROBLOCK W
  /-- the returned value -/
  ret : Int
  /-- `*num00` after the call -/
  num00 : Int

/-- The segment-feature queries of seg_common.h, read-only. -/
structure Seg where
  /-- `segfeature_active(xd, segment_id, feature)` -/
  segfeature_active : Nat → SEG_LVL_FEATURES → Bool
  /-- `check_segref(xd, segment_id, ref_frame)` -/
  check_segref : Nat → MV_REFERENCE_FRAME → Bool
  /-- `get_segdata(xd, segment_id, feature)` -/
  get_segdata : Nat → SEG_LVL_FEATURES → Int
  /-- `get_seg_tx_type(xd, segment_id) == TX_8X8` -/
  seg_tx_is_8x8 : Nat → Bool

/-- The prediction, transform, search and cost routines the selector calls,
and the macros and tables it takes from headers.  A routine that gets a
pointer to an `int` it may leave untouched receives the current value. -/
structure Ext (W : Type) where
  /-- macro `RDCOST(RM, DM, R, D)` (rdopt.h) -/
  RDCOST : Int → Int → Int → Int → Int
  /-- macro `vp8_cost_bit(prob, bit)` (treewriter.h) -/
  vp8_cost_bit : Int → Int → Int
  /-- `vp8_find_near_mvs` for one reference frame -/
  vp8_find_near_mvs : MACROBLOCK W → MV_REFERENCE_FRAME → NearMvs
  /-- `rd_pick_intra_mbuv_mode` -/
  rd_pick_intra_mbuv_mode : MACROBLOCK W → UVIntraResult W
  /-- `vp8_estimate_ref_frame_costs`: the entry of `ref_costs` for a frame -/
  vp8_estimate_ref_frame_costs : MACROBLOCK W → MV_REFERENCE_FRAME → Int
  /-- `x->e_mbd.ref_frame_cost[ref_frame]` -/
  ref_frame_cost : MACROBLOCK W → MV_REFERENCE_FRAME → Int
  /-- `vp8_update_zbin_extra(cpi, x)`, from `cpi->zbin_mode_boost` -/
  vp8_update_zbin_extra : Int → MACROBLOCK W → MACROBLOCK W
  /-- `rd_pick_intra4x4mby_modes`, from memory, `rate`, `rate_y`,
  `distortion` and `best_yrd` -/
  rd_pick_intra4x4mby_modes : MACROBLOCK W → Int → Int → Int → Int → YResult W
  /-- `rd_pick_intra8x8mby_modes`, from memory, `rate`, `rate_y`,
  `distortion` and `best_yrd` -/
  rd_pick_intra8x8mby_modes : MACROBLOCK W → Int → Int → Int → Int → YResult W
  /-- `vp8_rd_pick_best_mbsegmentation`, from memory, `best_ref_mv`,
  `best_yrd`, `mdcounts`, `rate`, `rate_y`, `distortion` and
  `this_rd_thresh` -/
  vp8_rd_pick_best_mbsegmentation :
    MACROBLOCK W → int_mv → Int → (Nat → Int) → Int → Int → Int → Int → YResult W
  /-- `rd_inter4x4_uv` -/
  rd_inter4x4_uv : MACROBLOCK W → RDResult W
  /-- `rd_inter16x16_uv` -/
  rd_inter16x16_uv : MACROBLOCK W → RDResult W
  /-- `build_intra_predictors_mby` -/
  build_intra_predictors_mby : MACROBLOCK W → MACROBLOCK W
  /-- `macro_block_yrd` -/
  macro_block_yrd : MACROBLOCK W → RDResult W
  /-- `x->mbmode_cost[x->e_mbd.frame_type][mode]` -/
  mbmode_cost : MACROBLOCK W → MB_PREDICTION_MODE → Int
  /-- `vp8_cal_sad`: the new contents of `near_sadidx` -/
  vp8_cal_sad : MACROBLOCK W → (Nat → Int) → (Nat → Int)
  /-- `vp8_mv_pred`, from memory, reference frame, `near_sadidx` and the
  current `mvp` and `sr`: the new `mvp` and `sr` -/
  vp8_mv_pred :
    MACROBLOCK W → MV_REFERENCE_FRAME → (Nat → Int) → int_mv → Int → int_mv × Int
  /-- `cpi->diamond_search_sad`, from memory, `mvp_full`, the step
  parameter, `sadpb`, `num00` and `best_ref_mv` -/
  diamond_search_sad : MACROBLOCK W → int_mv → Int → Int → Int → int_mv → SearchResult W
  /-- `cpi->refining_search_sad`, from memory, `sadpb`, the search range and
  `best_ref_mv`: the memory and the returned cost -/
  refining_search_sad : MACROBLOCK W → Int → Int → int_mv → MACROBLOCK W × Int
  /-- `cpi->find_fractional_mv_step`, from memory, `best_ref_mv` and
  `errorperbit` -/
  find_fractional_mv_step : MACROBLOCK W → int_mv → Int → MACROBLOCK W
  /-- `vp8_mv_bit_cost(mv, ref, x->mvcost, weight)` -/
  vp8_mv_bit_cost : MACROBLOCK W → int_mv → int_mv → Int → Int
  /-- `vp8_clamp_mv2(mv, xd)`: the clamped vector -/
  vp8_clamp_mv2 : MACROBLOCK W → int_mv → int_mv
  /-- `vp8_build_inter16x16_predictors_mby` -/
  vp8_build_inter16x16_predictors_mby : MACROBLOCK W → MACROBLOCK W
  /-- `vp8_build_inter16x16_predictors_mbuv` -/
  vp8_build_inter16x16_predictors_mbuv : MACROBLOCK W → MACROBLOCK W
  /-- `vp8_build_2nd_inter16x16_predictors_mb` -/
  vp8_build_2nd_inter16x16_predictors_mb : MACROBLOCK W → MACROBLOCK W
  /-- the cost `vp8_cost_bit(p, bit)` of the dual-prediction flag, with `p`
  the probability lines 2626-2634 and 2790-2799 derive from the neighbours -/
  dualpred_flag_cost : MACROBLOCK W → Int → Int
  /-- `x->active_ptr[0]` -/
  active_ptr0 : MACROBLOCK W → Int
  /-- `xd->block[0].dequant[1]` -/
  dequant_y_ac : MACROBLOCK W → Int
  /-- `xd->block[24].dequant[0]` -/
  dequant_y2_dc : MACROBLOCK W → Int
  /-- `var16x16` of source against predictor: the variance and `sse` -/
  var16x16 : MACROBLOCK W → Int × Int
  /-- `VP8_UVSSE` -/
  VP8_UVSSE : MACROBLOCK W → Int
  /-- `vp8_cost_mv_ref(&cpi->common, mode, mdcounts)` -/
  vp8_cost_mv_ref : MB_PREDICTION_MODE → (Nat → Int) → Int
  /-- `x->e_mbd.block[i].eob` -/
  block_eob : MACROBLOCK W → Nat → Int

/-- The locals of `vp8_rd_pick_inter_mode` that live across loop iterations,
and its out-parameters. -/
structure Locals where
  /-- `segment_id` (line 2119) -/
  segment_id : Nat
  /-- `best_mbmode` -/
  best_mbmode : MB_MODE_INFO
  /-- `best_bmodes[16]` -/
  best_bmodes : Nat → b_mode_info
  /-- `best_partition` -/
  best_partition : PARTITION_INFO
  /-- `best_ref_mv` -/
  best_ref_mv : int_mv
  /-- `mode_mv[MB_MODE_COUNT]` -/
  mode_mv : MB_PREDICTION_MODE → int_mv
  /-- `num00` -/
  num00 : Int
  /-- `best_mode_index` -/
  best_mode_index : Nat
  /-- `mode8x8[4]` -/
  mode8x8 : Nat → Int
  /-- `mdcounts[4]` -/
  mdcounts : Nat → Int
  /-- `rate` -/
  rate : Int
  /-- `distortion` -/
  distortion : Int
  /-- `best_rd` -/
  best_rd : Int
  /-- `best_intra_rd` -/
  best_intra_rd : Int
  /-- `best_dual_rd` -/
  best_dual_rd : Int
  /-- `best_single_rd` -/
  best_single_rd : Int
  /-- `best_hybrid_rd` -/
  best_hybrid_rd : Int
  /-- `rate2` -/
  rate2 : Int
  /-- `distortion2` -/
  distortion2 : Int
  /-- `uv_intra_rate` -/
  uv_intra_rate : Int
  /-- `uv_intra_distortion` -/
  uv_intra_distortion : Int
  /-- `uv_intra_rate_tokenonly` -/
  uv_intra_rate_tokenonly : Int
  /-- `rate_y` -/
  rate_y : Int
  /-- `rate_uv` -/
  rate_uv : Int
  /-- `distortion_uv` -/
  distortion_uv : Int
  /-- `best_yrd` -/
  best_yrd : Int
  /-- `uv_intra_mode` -/
  uv_intra_mode : MB_PREDICTION_MODE
  /-- `mvp` -/
  mvp : int_mv
  /-- `near_sadidx[8]` -/
  near_sadidx : Nat → Int
  /-- `saddone` -/
  saddone : Bool
  /-- `sr` -/
  sr : Int
  /-- `frame_nearest_mv[4]` -/
  frame_nearest_mv : MV_REFERENCE_FRAME → int_mv
  /-- `frame_near_mv[4]` -/
  frame_near_mv : MV_REFERENCE_FRAME → int_mv
  /-- `frame_best_ref_mv[4]` -/
  frame_best_ref_mv : MV_REFERENCE_FRAME → int_mv
  /-- `mc_search_result[4]` -/
  mc_search_result : MV_REFERENCE_FRAME → int_mv
  /-- `frame_mdcounts[4][4]` -/
  frame_mdcounts : MV_REFERENCE_FRAME → Nat → Int
  /-- `ref_costs[MAX_REF_FRAMES]` -/
  ref_costs : MV_REFERENCE_FRAME → Int
  /-- `*returnrate` -/
  returnrate : Int
  /-- `*returndistortion` -/
  returndistortion : Int
  /-- `*returnintra` -/
  returnintra : Int
  /-- `*best_single_rd_diff` -/
  best_single_rd_diff : Int
  /-- `*best_dual_rd_diff` -/
  best_dual_rd_diff : Int
  /-- `*best_hybrid_rd_diff` -/
  best_hybrid_rd_diff : Int

/-- The state of a run of `vp8_rd_pick_inter_mode`: the encoder instance,
the macroblock memory and the locals. -/
structure PickState (W : Type) where
  /-- `*cpi` -/
  cpi : VP8_COMP
  /-- `*x` -/
  x : MACROBLOCK W
  /-- the locals and out-parameters -/
  l : Locals

/-- The locals declared inside the loop body (lines 2237-2243), fresh in
every iteration. -/
structure IterVars where
  /-- `this_rd` -/
  this_rd : Int
  /-- `disable_skip` -/
  disable_skip : Bool
  /-- `other_cost` -/
  other_cost : Int
  /-- `dualmode_cost` -/
  dualmode_cost : Int
  /-- `mode_excluded` -/
  mode_excluded : Bool

/-- The initial values of the loop-body locals (lines 2237-2243). -/
def IterVars.init : IterVars :=
  { this_rd := INT_MAX, disable_skip := false, other_cost := 0,
    dualmode_cost := 0, mode_excluded := false }

/-- How the `switch` of a loop iteration ends: with `continue`, or by
reaching line 2804. -/
inductive SwitchResult (W : Type) where
  | cont (s : PickState W)
  | done (s : PickState W) (v : IterVars)

/-- What a loop iteration did with its candidate. -/
inductive Event where
  /-- skipped by the threshold test of line 2253 -/
  | thresholdSkip
  /-- skipped by a segment constraint (lines 2272-2294) -/
  | segmentSkip
  /-- skipped by the alt-ref overlay rule (lines 2301-2313) -/
  | altrefSkip
  /-- skipped by a vector check inside the `switch` -/
  | vectorSkip
  /-- reached the comparison of line 2894 with RD cost `this_rd`; `passed`
  tells whether `this_rd < best_rd || x->skip` held, `committed` whether the
  candidate was recorded as the best one, `skip` gives `x->skip` -/
  | evaluated (this_rd : Int) (passed : Bool) (committed : Bool) (skip : Bool)
  deriving DecidableEq

/-- Result of one loop iteration: the state, what happened, and whether the
loop is left by the `break` of line 2997. -/
structure Iter (W : Type) where
  /-- the state after the iteration -/
  s : PickState W
  /-- what happened to the candidate -/
  ev : Event
  /-- the loop ends here -/
  brk : Bool

/-! ## The inter-mode selector `vp8_rd_pick_inter_mode` (lines 2101-3091) -/

section Selector

variable {W : Type}

/-- The macro call `RDCOST(x->rdmult, x->rddiv, R, D)`, an `int`. -/
def rdcost (ext : Ext W) (x : MACROBLOCK W) (r d : Int) : Int :=
  wrap32 (ext.RDCOST x.rdmult x.rddiv r d)

/-- Function `vp8_set_mbmode_and_mvs` (lines 1160-1164). -/
def vp8_set_mbmode_and_mvs (x : MACROBLOCK W) (mb : MB_PREDICTION_MODE) (mv : int_mv) :
    MACROBLOCK W :=
  { x with mbmi := { x.mbmi with mode := mb, mv := mv } }

/-- The assignment `d->bmi.mv.as_int = v` (`d` is `&x->e_mbd.block[0]`). -/
def setDmv (x : MACROBLOCK W) (v : int_mv) : MACROBLOCK W :=
  { x with block_bmi := Function.update x.block_bmi 0 { x.block_bmi 0 with mv := v } }

/-! ### Threshold adaptation -/

/-- Line 2939: the multiplier of a candidate that passed the test of line
2894. -/
def lowerMult (cfg : Config) (m : Int) : Int :=
  if m ≥ iadd cfg.MIN_THRESHMULT 2 then isub m 2 else cfg.MIN_THRESHMULT

/-- Lines 2946-2949: the multiplier of a candidate that failed the test of
line 2894. -/
def raiseMult (cfg : Config) (m : Int) : Int :=
  let m := iadd m 4
  if m > cfg.MAX_THRESHMULT then cfg.MAX_THRESHMULT else m

/-- Line 3004-3006: the multiplier of the best candidate after the loop. -/
def reduceMult (cfg : Config) (m : Int) : Int :=
  let best_adjustment := sar m 2
  if m ≥ iadd cfg.MIN_THRESHMULT best_adjustment then isub m best_adjustment
  else cfg.MIN_THRESHMULT

/-- Stores multiplier `m` for candidate `i` and recomputes its threshold as
`(rd_baseline_thresh[i] >> 7) * rd_thresh_mult[i]` (lines 2940, 2951, 3007). -/
def setMult (cpi : VP8_COMP) (i : Nat) (m : Int) : VP8_COMP :=
  { cpi with
    rd_thresh_mult := Function.update cpi.rd_thresh_mult i m
    rd_threshes := Function.update cpi.rd_threshes i (imul (sar (cpi.rd_baseline_thresh i) 7) m) }

/-- Lines 3001-3025: the extra reduction for the best candidate. -/
def reduceBest (cfg : Config) (cpi : VP8_COMP) (best_mode_index : Nat) : VP8_COMP :=
  if cpi.rd_baseline_thresh best_mode_index > 0 ∧
      cpi.rd_baseline_thresh best_mode_index < sar INT_MAX 2 then
    setMult cpi best_mode_index (reduceMult cfg (cpi.rd_thresh_mult best_mode_index))
  else cpi

/-! ### The checks in front of the evaluation (lines 2252-2313) -/

/-- Lines 2269-2313: the segment constraints and the alt-ref overlay rule;
`some ev` when the candidate is dropped with `continue`. -/
def segmentCheck (cfg : Config) (seg : Seg) (cpi : VP8_COMP) (segment_id : Nat)
    (this_mode : MB_PREDICTION_MODE) (ref_frame : MV_REFERENCE_FRAME) : Option Event :=
  if seg.segfeature_active segment_id SEG_LVL_REF_FRAME = true ∧
      seg.check_segref segment_id ref_frame = false then
    some Event.segmentSkip
  else if seg.segfeature_active segment_id SEG_LVL_MODE = true ∧
      this_mode.toInt ≠ seg.get_segdata segment_id SEG_LVL_MODE then
    some Event.segmentSkip
  else if cfg.CONFIG_T8X8 = true ∧ seg.seg_tx_is_8x8 segment_id = true ∧
      (this_mode = B_PRED ∨ this_mode = I8X8_PRED ∨ this_mode = SPLITMV) then
    some Event.segmentSkip
  else if seg.segfeature_active segment_id SEG_LVL_REF_FRAME = false ∧
      seg.segfeature_active segment_id SEG_LVL_MODE = false then
    if cpi.is_src_frame_alt_ref = true ∧ cpi.arnr_max_frames = 0 then
      if this_mode ≠ ZEROMV ∨ ref_frame ≠ ALTREF_FRAME then some Event.altrefSkip
      else none
    else none
  else none

/-- Lines 2315-2325: for a candidate that is not intra, point `pre` at the
reference frame and load its vectors and counts. -/
def setupInter (s : PickState W) : PickState W :=
  let rf := s.x.mbmi.ref_frame
  if rf ≠ INTRA_FRAME then
    { s with
      x := { s.x with pre_frame := rf }
      l := { s.l with
        mode_mv := Function.update
          (Function.update s.l.mode_mv NEARESTMV (s.l.frame_nearest_mv rf))
          NEARMV (s.l.frame_near_mv rf)
        best_ref_mv := s.l.frame_best_ref_mv rf
        mdcounts := s.l.frame_mdcounts rf } }
  else s

/-- Lines 2327-2349: the zbin boost of the candidate. -/
def zbinBoost (cfg : Config) (ext : Ext W) (mode_index : Nat) (s : PickState W) :
    PickState W :=
  if s.cpi.zbin_mode_boost_enabled = true then
    let boost :=
      if (vp8_ref_frame_order cfg).getD mode_index INTRA_FRAME = INTRA_FRAME then 0
      else if (vp8_mode_order cfg).getD mode_index DC_PRED = ZEROMV then
        if (vp8_ref_frame_order cfg).getD mode_index INTRA_FRAME ≠ LAST_FRAME then
          cfg.GF_ZEROMV_ZBIN_BOOST
        else cfg.LF_ZEROMV_ZBIN_BOOST
      else if (vp8_mode_order cfg).getD mode_index DC_PRED = SPLITMV then 0
      else cfg.MV_ZBIN_BOOST
    { s with
      cpi := { s.cpi with zbin_mode_boost := boost }
      x := ext.vp8_update_zbin_extra boost s.x }
  else s

/-! ### The `switch` over the prediction mode (lines 2351-2802) -/

/-- The tail shared by `B_PRED`, `I8X8_PRED` and `SPLITMV` once the luma
search returned `tmp_rd`: the chroma cost is added when `tmp_rd < best_yrd`,
otherwise the candidate gets `this_rd = INT_MAX` and `disable_skip = 1`.
`uv` is the chroma rate and distortion to add, with the memory after it was
computed. -/
def lumaTail (s : PickState W) (v : IterVars) (r : YResult W)
    (uv : MACROBLOCK W → RDResult W) (uvRate : Int → Int) : SwitchResult W :=
  let l := { s.l with
    rate := r.rate, rate_y := r.rate_y, distortion := r.distortion
    rate2 := iadd s.l.rate2 r.rate
    distortion2 := iadd s.l.distortion2 r.distortion }
  if r.ret < s.l.best_yrd then
    let c := uv r.x
    SwitchResult.done
      { cpi := s.cpi, x := c.x,
        l := { l with
          rate2 := iadd l.rate2 (uvRate c.rate)
          rate_uv := c.rate
          distortion2 := iadd l.distortion2 c.distortion
          distortion_uv := c.distortion } } v
  else
    SwitchResult.done { cpi := s.cpi, x := r.x, l := l }
      { v with this_rd := INT_MAX, disable_skip := true }

/-- Lines 2356-2378: `case B_PRED`.  The chroma part is the intra chroma cost
found before the loop: `rate2 += uv_intra_rate`, `rate_uv =
uv_intra_rate_tokenonly`. -/
def evalBPred (ext : Ext W) (s : PickState W) (v : IterVars) : SwitchResult W :=
  let r := ext.rd_pick_intra4x4mby_modes s.x s.l.rate s.l.rate_y s.l.distortion s.l.best_yrd
  lumaTail s v r
    (fun x => { x := x, rate := s.l.uv_intra_rate_tokenonly,
                distortion := s.l.uv_intra_distortion })
    (fun _ => s.l.uv_intra_rate)

/-- Lines 2379-2407: `case I8X8_PRED`. -/
def evalI8x8 (ext : Ext W) (s : PickState W) (v : IterVars) : SwitchResult W :=
  let r := ext.rd_pick_intra8x8mby_modes s.x s.l.rate s.l.rate_y s.l.distortion s.l.best_yrd
  let m8 : Nat → Int := fun i =>
    if i = 0 then (r.x.mode_info_bmi 0).as_mode
    else if i = 1 then (r.x.mode_info_bmi 2).as_mode
    else if i = 2 then (r.x.mode_info_bmi 8).as_mode
    else if i = 3 then (r.x.mode_info_bmi 10).as_mode
    else s.l.mode8x8 i
  lumaTail { s with l := { s.l with mode8x8 := m8 } } v r
    (fun x => { x := x, rate := s.l.uv_intra_rate_tokenonly,
                distortion := s.l.uv_intra_distortion })
    (fun _ => s.l.uv_intra_rate)

/-- Lines 2409-2438: `case SPLITMV`. -/
def evalSplit (ext : Ext W) (s : PickState W) (v : IterVars) : SwitchResult W :=
  let this_rd_thresh :=
    if s.x.mbmi.ref_frame = LAST_FRAME then s.cpi.rd_threshes THR_NEWMV
    else s.cpi.rd_threshes THR_NEWA
  let this_rd_thresh :=
    if s.x.mbmi.ref_frame = GOLDEN_FRAME then s.cpi.rd_threshes THR_NEWG
    else this_rd_thresh
  let r := ext.vp8_rd_pick_best_mbsegmentation s.x s.l.best_ref_mv s.l.best_yrd
    s.l.mdcounts s.l.rate s.l.rate_y s.l.distortion this_rd_thresh
  lumaTail s v r ext.rd_inter4x4_uv (fun rate_uv => rate_uv)

/-- Lines 2439-2454: `case DC_PRED`, `V_PRED`, `H_PRED`, `TM_PRED`. -/
def evalIntra16 (ext : Ext W) (s : PickState W) (v : IterVars) : SwitchResult W :=
  let x1 := ext.build_intra_predictors_mby
    { s.x with mbmi := { s.x.mbmi with ref_frame := INTRA_FRAME } }
  let y := ext.macro_block_yrd x1
  let rate2 := iadd s.l.rate2 y.rate
  let distortion2 := iadd s.l.distortion2 y.distortion
  let rate2 := iadd rate2 (ext.mbmode_cost y.x y.x.mbmi.mode)
  let rate2 := iadd rate2 s.l.uv_intra_rate
  let distortion2 := iadd distortion2 s.l.uv_intra_distortion
  SwitchResult.done
    { cpi := s.cpi, x := y.x,
      l := { s.l with
        rate_y := y.rate, distortion := y.distortion
        rate2 := rate2, distortion2 := distortion2
        rate_uv := s.l.uv_intra_rate_tokenonly
        distortion_uv := s.l.uv_intra_distortion } } v

/-- The state of the n-step search loop of `case NEWMV` (lines 2524-2551). -/
structure StepState (W : Type) where
  /-- the macroblock memory -/
  x : MACROBLOCK W
  /-- `n` -/
  n : Int
  /-- `num00` -/
  num00 : Int
  /-- `bestsme` -/
  bestsme : Int
  /-- `mode_mv[NEWMV]` -/
  new_mv : int_mv
  /-- `do_refine` -/
  do_refine : Bool

/-- Lines 2524-2551: `while (n < further_steps)`.  Every pass increases `n`
by one, so `further_steps - n` passes of fuel let the loop run to its end. -/
def furtherSteps (ext : Ext W) (mvp_full best_ref_mv : int_mv)
    (step_param sadpb further_steps : Int) : Nat → StepState W → StepState W
  | 0, st => st
  | fuel + 1, st =>
    if st.n < further_steps then
      let n := iadd st.n 1
      if st.num00 ≠ 0 then
        furtherSteps ext mvp_full best_ref_mv step_param sadpb further_steps fuel
          { st with n := n, num00 := isub st.num00 1 }
      else
        let r := ext.diamond_search_sad st.x mvp_full (iadd step_param n) sadpb
          st.num00 best_ref_mv
        let do_refine := if r.num00 > isub further_steps n then false else st.do_refine
        if r.ret < st.bestsme then
          furtherSteps ext mvp_full best_ref_mv step_param sadpb further_steps fuel
            { x := r.x, n := n, num00 := r.num00, bestsme := r.ret,
              new_mv := (r.x.block_bmi 0).mv, do_refine := do_refine }
        else
          furtherSteps ext mvp_full best_ref_mv step_param sadpb further_steps fuel
            { x := setDmv r.x st.new_mv, n := n, num00 := r.num00,
              bestsme := st.bestsme, new_mv := st.new_mv, do_refine := do_refine }
    else st

/-- Lines 2456-2601: the part of `case NEWMV` in front of the fall-through
into `case NEARESTMV`: the motion search inside the narrowed window and the
cost of the new vector. -/
def newmvSearch (cfg : Config) (ext : Ext W) (s : PickState W) : PickState W :=
  let brm := s.l.best_ref_mv
  let step_param := s.cpi.sf_first_step
  let sadpb := s.x.sadperbit16
  let col_min := iadd (isub (sar brm.col 3) cfg.MAX_FULL_PEL_VAL)
    (if brm.col % 8 ≠ 0 then 1 else 0)
  let row_min := iadd (isub (sar brm.row 3) cfg.MAX_FULL_PEL_VAL)
    (if brm.row % 8 ≠ 0 then 1 else 0)
  let col_max := iadd (sar brm.col 3) cfg.MAX_FULL_PEL_VAL
  let row_max := iadd (sar brm.row 3) cfg.MAX_FULL_PEL_VAL
  let tmp_col_min := s.x.mv_col_min
  let tmp_col_max := s.x.mv_col_max
  let tmp_row_min := s.x.mv_row_min
  let tmp_row_max := s.x.mv_row_max
  let near_sadidx :=
    if s.l.saddone = false then ext.vp8_cal_sad s.x s.l.near_sadidx else s.l.near_sadidx
  let p := ext.vp8_mv_pred s.x s.x.mbmi.ref_frame near_sadidx s.l.mvp s.l.sr
  let mvp := p.1
  let sr := p.2
  let mvp_full : int_mv := { col := sar mvp.col 3, row := sar mvp.row 3 }
  let x1 : MACROBLOCK W := { s.x with
    mv_col_min := if s.x.mv_col_min < col_min then col_min else s.x.mv_col_min
    mv_col_max := if s.x.mv_col_max > col_max then col_max else s.x.mv_col_max
    mv_row_min := if s.x.mv_row_min < row_min then row_min else s.x.mv_row_min
    mv_row_max := if s.x.mv_row_max > row_max then row_max else s.x.mv_row_max }
  let step_param := if sr > step_param then sr else step_param
  let r := ext.diamond_search_sad x1 mvp_full step_param sadpb s.l.num00 brm
  let further_steps := isub (isub s.cpi.sf_max_step_search_steps 1) step_param
  let st0 : StepState W :=
    { x := r.x, n := r.num00, num00 := 0, bestsme := r.ret,
      new_mv := (r.x.block_bmi 0).mv,
      do_refine := if r.num00 > further_steps then false else true }
  let st := furtherSteps ext mvp_full brm step_param sadpb further_steps
    (further_steps - st0.n).toNat st0
  let st :=
    if st.do_refine = true then
      let q := ext.refining_search_sad st.x sadpb 8 brm
      if q.2 < st.bestsme then
        { st with x := q.1, bestsme := q.2, new_mv := (q.1.block_bmi 0).mv }
      else { st with x := setDmv q.1 st.new_mv }
    else st
  let x2 : MACROBLOCK W := { st.x with
    mv_col_min := tmp_col_min, mv_col_max := tmp_col_max
    mv_row_min := tmp_row_min, mv_row_max := tmp_row_max }
  let x3 :=
    if st.bestsme < INT_MAX then ext.find_fractional_mv_step x2 brm x2.errorperbit
    else x2
  let dmv := (x3.block_bmi 0).mv
  { cpi := s.cpi, x := x3,
    l := { s.l with
      near_sadidx := near_sadidx, saddone := true, mvp := mvp, sr := sr
      num00 := st.num00
      mc_search_result :=
        if cfg.CONFIG_DUALPRED = true then
          Function.update s.l.mc_search_result x3.mbmi.ref_frame dmv
        else s.l.mc_search_result
      mode_mv := Function.update s.l.mode_mv NEWMV dmv
      rate2 := iadd s.l.rate2 (ext.vp8_mv_bit_cost x3 dmv brm 96) } }

/-- Lines 2641-2682: the encode-breakout test on the luma prediction;
`some (sse, sse2)` when the zero-residual shortcut fires. -/
def encodeBreakout (ext : Ext W) (x : MACROBLOCK W) : Option (Int × Int) :=
  let threshold := sar (imul (ext.dequant_y_ac x) (ext.dequant_y_ac x)) 4
  let threshold := if threshold < x.encode_breakout then x.encode_breakout else threshold
  let var := uwrap32 (ext.var16x16 x).1
  let sse := uwrap32 (ext.var16x16 x).2
  if sse < uwrap32 threshold then
    let q2dc := uwrap32 (ext.dequant_y2_dc x)
    if uwrap32 (sse - var) < uwrap32 (q2dc * q2dc) / 16 ∨
        (sse / 2 > var ∧ uwrap32 (sse - var) < 64) then
      let sse2 := ext.VP8_UVSSE x
      if imul sse2 2 < threshold then some (sse, sse2) else none
    else none
  else none

/-- Lines 2685-2703: mode cost, luma and chroma cost of a whole-block inter
candidate. -/
def interCosts (cfg : Config) (ext : Ext W) (this_mode : MB_PREDICTION_MODE)
    (s : PickState W) (v : IterVars) : SwitchResult W :=
  let rate2 := iadd s.l.rate2 (ext.vp8_cost_mv_ref this_mode s.l.mdcounts)
  let y := ext.macro_block_yrd s.x
  let rate2 := iadd rate2 y.rate
  let distortion2 := iadd s.l.distortion2 y.distortion
  let c := ext.rd_inter16x16_uv (ext.vp8_build_inter16x16_predictors_mbuv y.x)
  let rate2 := iadd rate2 c.rate
  let distortion2 := iadd distortion2 c.distortion
  SwitchResult.done
    { cpi := s.cpi, x := c.x,
      l := { s.l with
        rate_y := y.rate, distortion := y.distortion
        rate_uv := c.rate, distortion_uv := c.distortion
        rate2 := rate2, distortion2 := distortion2 } }
    (if cfg.CONFIG_DUALPRED = true then
      { v with mode_excluded := decide (s.cpi.dual_pred_mode = DUAL_PREDICTION_ONLY) }
     else v)

/-- Lines 2612-2703: `case ZEROMV`, which `NEWMV`, `NEARESTMV` and `NEARMV`
fall into. -/
def zeroTail (cfg : Config) (ext : Ext W) (this_mode : MB_PREDICTION_MODE)
    (s : PickState W) (v : IterVars) : SwitchResult W :=
  let mv := s.l.mode_mv this_mode
  if sar mv.row 3 < s.x.mv_row_min ∨ sar mv.row 3 > s.x.mv_row_max ∨
      sar mv.col 3 < s.x.mv_col_min ∨ sar mv.col 3 > s.x.mv_col_max then
    SwitchResult.cont s
  else
    let x1 := ext.vp8_build_inter16x16_predictors_mby
      (vp8_set_mbmode_and_mvs s.x this_mode mv)
    let v :=
      if cfg.CONFIG_DUALPRED = true then
        { v with dualmode_cost := ext.dualpred_flag_cost x1 0 }
      else v
    if s.cpi.active_map_enabled = true ∧ ext.active_ptr0 x1 = 0 then
      interCosts cfg ext this_mode { s with x := { x1 with skip := true } } v
    else if x1.encode_breakout ≠ 0 then
      match encodeBreakout ext x1 with
      | some (sse, sse2) =>
        let distortion2 := wrap32 (sse + sse2)
        SwitchResult.done
          { cpi := s.cpi, x := { x1 with skip := true },
            l := { s.l with
              distortion2 := distortion2, rate2 := 500
              rate_uv := 0, distortion_uv := sse2 } }
          { v with disable_skip := true, this_rd := rdcost ext x1 500 distortion2 }
      | none => interCosts cfg ext this_mode { s with x := x1 } v
    else interCosts cfg ext this_mode { s with x := x1 } v

/-- Lines 2603-2610: `case NEARESTMV` and `case NEARMV`, which `NEWMV`
falls into. -/
def nearTail (cfg : Config) (ext : Ext W) (this_mode : MB_PREDICTION_MODE)
    (s : PickState W) (v : IterVars) : SwitchResult W :=
  let mv := ext.vp8_clamp_mv2 s.x (s.l.mode_mv this_mode)
  let s := { s with l := { s.l with mode_mv := Function.update s.l.mode_mv this_mode mv } }
  if (this_mode = NEARMV ∨ this_mode = NEARESTMV) ∧ mv = zero_mv then SwitchResult.cont s
  else zeroTail cfg ext this_mode s v

/-- The out-of-window test of lines 2753-2760 for one vector. -/
def outsideWindow (x : MACROBLOCK W) (mv : int_mv) : Prop :=
  sar mv.row 3 < x.mv_row_min ∨ sar mv.row 3 > x.mv_row_max ∨
    sar mv.col 3 < x.mv_col_min ∨ sar mv.col 3 > x.mv_col_max

instance (x : MACROBLOCK W) (mv : int_mv) : Decidable (outsideWindow x mv) := by
  unfold outsideWindow
  infer_instance

/-- Lines 2715-2746: the inner `switch` of a candidate with a second
reference frame; `none` stands for its `continue`. -/
def dualVectors (ext : Ext W) (this_mode : MB_PREDICTION_MODE) (s : PickState W) :
    Option (PickState W) :=
  let ref1 := s.x.mbmi.ref_frame
  let ref2 := s.x.mbmi.second_ref_frame
  match this_mode with
  | NEWMV =>
    if s.l.mc_search_result ref1 = INVALID_MV ∨ s.l.mc_search_result ref2 = INVALID_MV then
      none
    else
      let x1 := { s.x with mbmi := { s.x.mbmi with
        mv := s.l.mc_search_result ref1, second_mv := s.l.mc_search_result ref2 } }
      let rate2 := iadd s.l.rate2
        (ext.vp8_mv_bit_cost x1 (s.l.mc_search_result ref1) (s.l.frame_best_ref_mv ref1) 96)
      let rate2 := iadd rate2
        (ext.vp8_mv_bit_cost x1 (s.l.mc_search_result ref2) (s.l.frame_best_ref_mv ref2) 96)
      some { s with x := x1, l := { s.l with rate2 := rate2 } }
  | ZEROMV =>
    some { s with x := { s.x with mbmi := { s.x.mbmi with
      mv := zero_mv, second_mv := zero_mv } } }
  | NEARMV =>
    if s.l.frame_near_mv ref1 = zero_mv ∨ s.l.frame_near_mv ref2 = zero_mv then none
    else
      some { s with x := { s.x with mbmi := { s.x.mbmi with
        mv := s.l.frame_near_mv ref1, second_mv := s.l.frame_near_mv ref2 } } }
  | NEARESTMV =>
    if s.l.frame_nearest_mv ref1 = zero_mv ∨ s.l.frame_nearest_mv ref2 = zero_mv then none
    else
      some { s with x := { s.x with mbmi := { s.x.mbmi with
        mv := s.l.frame_nearest_mv ref1, second_mv := s.l.frame_nearest_mv ref2 } } }
  | _ => some s

/-- Lines 2748-2800: the part of a candidate with a second reference frame
behind the inner `switch`; `ref2` is the second reference frame read at line
2712. -/
def dualTail (ext : Ext W) (this_mode : MB_PREDICTION_MODE) (ref2 : MV_REFERENCE_FRAME)
    (s1 : PickState W) (v : IterVars) : SwitchResult W :=
  let rate2 := iadd s1.l.rate2 (ext.vp8_cost_mv_ref this_mode s1.l.mdcounts)
  let mv1 := ext.vp8_clamp_mv2 s1.x s1.x.mbmi.mv
  let xa := { s1.x with mbmi := { s1.x.mbmi with mv := mv1 } }
  let mv2 := ext.vp8_clamp_mv2 xa xa.mbmi.second_mv
  let xb := { xa with mbmi := { xa.mbmi with second_mv := mv2 } }
  let s2 : PickState W := { s1 with x := xb, l := { s1.l with rate2 := rate2 } }
  if outsideWindow xb mv1 ∨ outsideWindow xb mv2 then SwitchResult.cont s2
  else
    let xc := ext.vp8_build_inter16x16_predictors_mbuv
      (ext.vp8_build_inter16x16_predictors_mby xb)
    let xd := ext.vp8_build_2nd_inter16x16_predictors_mb
      { xc with second_pre_frame := ref2 }
    let y := ext.macro_block_yrd xd
    let rate2 := iadd rate2 y.rate
    let distortion2 := iadd s1.l.distortion2 y.distortion
    let c := ext.rd_inter16x16_uv y.x
    let rate2 := iadd rate2 c.rate
    let distortion2 := iadd distortion2 c.distortion
    let xe := { c.x with mbmi := { c.x.mbmi with mode := this_mode } }
    SwitchResult.done
      { cpi := s1.cpi, x := xe,
        l := { s1.l with
          rate_y := y.rate, distortion := y.distortion
          rate_uv := c.rate, distortion_uv := c.distortion
          rate2 := rate2, distortion2 := distortion2 } }
      { v with dualmode_cost := ext.dualpred_flag_cost xe 1 }

/-- Lines 2709-2801: a candidate with a second reference frame
(`CONFIG_DUALPRED`). -/
def evalDual (ext : Ext W) (this_mode : MB_PREDICTION_MODE) (s : PickState W)
    (v : IterVars) : SwitchResult W :=
  match dualVectors ext this_mode s with
  | none => SwitchResult.cont s
  | some s1 =>
    dualTail ext this_mode s.x.mbmi.second_ref_frame s1
      { v with mode_excluded := decide (s.cpi.dual_pred_mode = SINGLE_PREDICTION_ONLY) }

/-- Lines 2351-2802: the evaluation of a candidate that passed the checks. -/
def evalCandidate (cfg : Config) (ext : Ext W) (this_mode : MB_PREDICTION_MODE)
    (s : PickState W) (v : IterVars) : SwitchResult W :=
  if cfg.CONFIG_DUALPRED = true ∧ s.x.mbmi.second_ref_frame ≠ INTRA_FRAME then
    evalDual ext this_mode s v
  else
    match this_mode with
    | B_PRED => evalBPred ext s v
    | I8X8_PRED => evalI8x8 ext s v
    | SPLITMV => evalSplit ext s v
    | DC_PRED => evalIntra16 ext s v
    | V_PRED => evalIntra16 ext s v
    | H_PRED => evalIntra16 ext s v
    | TM_PRED => evalIntra16 ext s v
    | NEWMV => nearTail cfg ext this_mode (newmvSearch cfg ext s) v
    | NEARESTMV => nearTail cfg ext this_mode s v
    | NEARMV => nearTail cfg ext this_mode s v
    | ZEROMV => zeroTail cfg ext this_mode s v

end Selector

section SelectorLoop

variable {W : Type}

/-! ### From the `switch` to the comparison (lines 2804-2891) -/

/-- The reference-frame signalling cost of lines 2824-2829 and 2910-2915:
`ref_costs[ref_frame]` under `CONFIG_COMPRED`, otherwise
`x->e_mbd.ref_frame_cost[ref_frame]`. -/
def refCost (cfg : Config) (ext : Ext W) (s : PickState W) : Int :=
  if cfg.CONFIG_COMPRED = true then s.l.ref_costs s.x.mbmi.ref_frame
  else ext.ref_frame_cost s.x s.x.mbmi.ref_frame

/-- Lines 2804-2829: the no-skip flag cost, the dual-prediction flag cost
and the reference-frame cost are added to `rate2`. -/
def addSignalling (cfg : Config) (ext : Ext W) (s : PickState W) (v : IterVars) :
    PickState W × IterVars :=
  let prob_skip_cost := ext.vp8_cost_bit s.cpi.prob_skip_false 0
  let other_cost :=
    if s.cpi.mb_no_coeff_skip = true then iadd v.other_cost prob_skip_cost else v.other_cost
  let rate2 :=
    if s.cpi.mb_no_coeff_skip = true then iadd s.l.rate2 prob_skip_cost else s.l.rate2
  let rate2 :=
    if cfg.CONFIG_DUALPRED = true ∧ s.cpi.dual_pred_mode = HYBRID_PREDICTION then
      iadd rate2 v.dualmode_cost
    else rate2
  let rate2 := iadd rate2 (refCost cfg ext s)
  ({ s with l := { s.l with rate2 := rate2 } }, { v with other_cost := other_cost })

/-- Line 2840-2843: `tteob`, the sum of the end-of-block positions of the 25
blocks. -/
def tteob (ext : Ext W) (x : MACROBLOCK W) : Int :=
  (List.range 25).foldl (fun acc i => iadd acc (ext.block_eob x i)) 0

/-- Lines 2831-2865: the zero-residual skip correction and the final RD cost
of the candidate (unless `disable_skip`). -/
def skipCorrection (ext : Ext W) (s : PickState W) (v : IterVars) :
    PickState W × IterVars :=
  if v.disable_skip = false then
    let sv : PickState W × IterVars :=
      if s.cpi.mb_no_coeff_skip = true then
        if tteob ext s.x = 0 then
          let rate2 := isub s.l.rate2 (iadd s.l.rate_y s.l.rate_uv)
          if s.cpi.prob_skip_false ≠ 0 then
            let prob_skip_cost := isub (ext.vp8_cost_bit s.cpi.prob_skip_false 1)
              (ext.vp8_cost_bit s.cpi.prob_skip_false 0)
            ({ s with l := { s.l with rate2 := iadd rate2 prob_skip_cost, rate_uv := 0 } },
             { v with other_cost := iadd v.other_cost prob_skip_cost })
          else ({ s with l := { s.l with rate2 := rate2, rate_uv := 0 } }, v)
        else (s, v)
      else (s, v)
    (sv.1, { sv.2 with this_rd := rdcost ext sv.1.x sv.1.l.rate2 sv.1.l.distortion2 })
  else (s, v)

/-- Lines 2872-2878: the record of the best intra distortion. -/
def recordIntra (s : PickState W) (v : IterVars) : PickState W :=
  if s.x.mbmi.ref_frame = INTRA_FRAME ∧ v.this_rd < s.l.best_intra_rd then
    { s with l := { s.l with best_intra_rd := v.this_rd, returnintra := s.l.distortion2 } }
  else s

/-- Lines 2880-2891 (`CONFIG_DUALPRED`): split and intra candidates count
for all three prediction settings. -/
def recordDualA (cfg : Config) (this_mode : MB_PREDICTION_MODE) (s : PickState W)
    (v : IterVars) : PickState W :=
  if cfg.CONFIG_DUALPRED = true ∧ v.disable_skip = false ∧
      (this_mode = SPLITMV ∨ s.x.mbmi.ref_frame = INTRA_FRAME) then
    { s with l := { s.l with
      best_dual_rd := if v.this_rd < s.l.best_dual_rd then v.this_rd else s.l.best_dual_rd
      best_single_rd :=
        if v.this_rd < s.l.best_single_rd then v.this_rd else s.l.best_single_rd
      best_hybrid_rd :=
        if v.this_rd < s.l.best_hybrid_rd then v.this_rd else s.l.best_hybrid_rd } }
  else s

/-! ### The comparison and the threshold adaptation (lines 2893-2952) -/

/-- Line 2894: `this_rd < best_rd || x->skip`. -/
def passesTest (s : PickState W) (v : IterVars) : Bool :=
  decide (v.this_rd < s.l.best_rd) || s.x.skip

/-- Lines 2896-2899: the candidate may be recorded (`!mode_excluded`; there is
no such test without `CONFIG_DUALPRED`). -/
def mayCommit (cfg : Config) (v : IterVars) : Bool :=
  !(cfg.CONFIG_DUALPRED && v.mode_excluded)

/-- Lines 2900-2933: the candidate becomes the best one so far. -/
def commitBest (cfg : Config) (ext : Ext W) (mode_index : Nat)
    (this_mode : MB_PREDICTION_MODE) (s : PickState W) (v : IterVars) : PickState W :=
  let x1 : MACROBLOCK W :=
    if this_mode.toInt ≤ B_PRED.toInt then
      { s.x with mbmi := { s.x.mbmi with uv_mode := s.l.uv_intra_mode, mv := zero_mv } }
    else s.x
  let other_cost := iadd v.other_cost (refCost cfg ext { s with x := x1 })
  let best_yrd := rdcost ext x1 (isub (isub s.l.rate2 s.l.rate_uv) other_cost)
    (isub s.l.distortion2 s.l.distortion_uv)
  { cpi := s.cpi, x := x1,
    l := { s.l with
      best_mode_index := mode_index
      best_yrd := best_yrd
      returnrate := s.l.rate2
      returndistortion := s.l.distortion2
      best_rd := v.this_rd
      best_mbmode := x1.mbmi
      best_partition := x1.partition_info
      best_bmodes :=
        if this_mode = B_PRED ∨ this_mode = I8X8_PRED ∨ this_mode = SPLITMV then
          fun i => if i < 16 then x1.block_bmi i else s.l.best_bmodes i
        else s.l.best_bmodes } }

/-- Lines 2893-2952: the comparison with the best candidate so far, the
commit, and the adaptation of the candidate's threshold. -/
def commitOrAdapt (cfg : Config) (ext : Ext W) (mode_index : Nat)
    (this_mode : MB_PREDICTION_MODE) (s : PickState W) (v : IterVars) : PickState W :=
  if passesTest s v = true then
    let s1 := if mayCommit cfg v = true then commitBest cfg ext mode_index this_mode s v else s
    { s1 with
      cpi := setMult s1.cpi mode_index (lowerMult cfg (s1.cpi.rd_thresh_mult mode_index)) }
  else
    { s with
      cpi := setMult s.cpi mode_index (raiseMult cfg (s.cpi.rd_thresh_mult mode_index)) }

/-- Lines 2954-2994 (`CONFIG_DUALPRED`): the record of the best dual-only,
single-only and hybrid RD cost.  The `if` / `else if` of lines 2976-2987
tests `second_ref_frame == INTRA_FRAME` in its first arm and the opposite in
its second, so each arm is the update of one field. -/
def recordDualB (cfg : Config) (ext : Ext W) (this_mode : MB_PREDICTION_MODE)
    (s : PickState W) (v : IterVars) : PickState W :=
  if cfg.CONFIG_DUALPRED = true ∧ v.disable_skip = false ∧
      s.x.mbmi.ref_frame ≠ INTRA_FRAME ∧ this_mode ≠ SPLITMV then
    let single_rate :=
      if s.cpi.dual_pred_mode = HYBRID_PREDICTION then isub s.l.rate2 v.dualmode_cost
      else s.l.rate2
    let hybrid_rate :=
      if s.cpi.dual_pred_mode = HYBRID_PREDICTION then s.l.rate2
      else iadd s.l.rate2 v.dualmode_cost
    let single_rd := rdcost ext s.x single_rate s.l.distortion2
    let hybrid_rd := rdcost ext s.x hybrid_rate s.l.distortion2
    { s with l := { s.l with
      best_single_rd :=
        if s.x.mbmi.second_ref_frame = INTRA_FRAME ∧ single_rd < s.l.best_single_rd then
          single_rd
        else s.l.best_single_rd
      best_dual_rd :=
        if s.x.mbmi.second_ref_frame ≠ INTRA_FRAME ∧ single_rd < s.l.best_dual_rd then
          single_rd
        else s.l.best_dual_rd
      best_hybrid_rd :=
        if hybrid_rd < s.l.best_hybrid_rd then hybrid_rd else s.l.best_hybrid_rd } }
  else s

/-- Lines 2804-2997: what a loop iteration does once the `switch` is left
without `continue`. -/
def finishCandidate (cfg : Config) (ext : Ext W) (mode_index : Nat)
    (this_mode : MB_PREDICTION_MODE) (s : PickState W) (v : IterVars) : Iter W :=
  let a := addSignalling cfg ext s v
  let b := skipCorrection ext a.1 a.2
  let s1 := recordDualA cfg this_mode (recordIntra b.1 b.2) b.2
  let s2 := commitOrAdapt cfg ext mode_index this_mode s1 b.2
  let s3 := recordDualB cfg ext this_mode s2 b.2
  { s := s3
    ev := Event.evaluated b.2.this_rd (passesTest s1 b.2)
      (passesTest s1 b.2 && mayCommit cfg b.2) s1.x.skip
    brk := s3.x.skip }

/-! ### The loop (lines 2235-2999) -/

/-- Lines 2256-2267: the candidate of the table entry is written into the
mode info and the rolling totals are cleared. -/
def loadCandidate (cfg : Config) (mode_index : Nat) (s : PickState W) : PickState W :=
  let mbmi := { s.x.mbmi with
    mode := (vp8_mode_order cfg).getD mode_index DC_PRED
    uv_mode := DC_PRED
    ref_frame := (vp8_ref_frame_order cfg).getD mode_index INTRA_FRAME }
  let mbmi :=
    if cfg.CONFIG_DUALPRED = true then
      { mbmi with second_ref_frame := vp8_second_ref_frame_order.getD mode_index INTRA_FRAME }
    else mbmi
  { s with
    x := { s.x with mbmi := mbmi }
    l := { s.l with rate2 := 0, distortion2 := 0 } }

/-- Lines 2236-2998: one iteration of the candidate loop. -/
def modeBody (cfg : Config) (seg : Seg) (ext : Ext W) (mode_index : Nat)
    (s : PickState W) : Iter W :=
  if s.l.best_rd ≤ s.cpi.rd_threshes mode_index then
    { s := s, ev := Event.thresholdSkip, brk := false }
  else
    let this_mode := (vp8_mode_order cfg).getD mode_index DC_PRED
    let s1 := loadCandidate cfg mode_index s
    match segmentCheck cfg seg s1.cpi s1.l.segment_id this_mode s1.x.mbmi.ref_frame with
    | some ev => { s := s1, ev := ev, brk := false }
    | none =>
      match evalCandidate cfg ext this_mode (zbinBoost cfg ext mode_index (setupInter s1))
          IterVars.init with
      | SwitchResult.cont s4 => { s := s4, ev := Event.vectorSkip, brk := false }
      | SwitchResult.done s4 v => finishCandidate cfg ext mode_index this_mode s4 v

/-- Lines 2235-2999: the loop over the candidates `is`; it ends with the
list or with the `break` of line 2997. -/
def modeLoop (cfg : Config) (seg : Seg) (ext : Ext W) :
    List Nat → PickState W → PickState W
  | [], s => s
  | i :: is, s =>
    if (modeBody cfg seg ext i s).brk = true then (modeBody cfg seg ext i s).s
    else modeLoop cfg seg ext is (modeBody cfg seg ext i s).s

/-- The record of what the loop `modeLoop` did with each candidate it
reached, in the order of the iterations. -/
def modeTrace (cfg : Config) (seg : Seg) (ext : Ext W) :
    List Nat → PickState W → List (Nat × Event)
  | [], _ => []
  | i :: is, s =>
    (i, (modeBody cfg seg ext i s).ev) ::
      (if (modeBody cfg seg ext i s).brk = true then []
       else modeTrace cfg seg ext is (modeBody cfg seg ext i s).s)

/-! ### Before and after the loop -/

/-- Lines 2176-2216: `vp8_find_near_mvs` for one available reference frame. -/
def loadNearMvs (ext : Ext W) (x : MACROBLOCK W) (flag : Bool) (rf : MV_REFERENCE_FRAME)
    (l : Locals) : Locals :=
  if flag = true then
    { l with
      frame_nearest_mv := Function.update l.frame_nearest_mv rf (ext.vp8_find_near_mvs x rf).nearest
      frame_near_mv := Function.update l.frame_near_mv rf (ext.vp8_find_near_mvs x rf).near
      frame_best_ref_mv := Function.update l.frame_best_ref_mv rf (ext.vp8_find_near_mvs x rf).best
      frame_mdcounts := Function.update l.frame_mdcounts rf (ext.vp8_find_near_mvs x rf).mdcounts }
  else l

/-- Lines 2106-2233: the state at the head of the loop.  `l0` holds the
indeterminate contents of the locals and out-parameters that have no
initializer. -/
def pickInit (cfg : Config) (ext : Ext W) (cpi : VP8_COMP) (x : MACROBLOCK W)
    (l0 : Locals) : PickState W :=
  let l := { l0 with
    segment_id := x.mbmi.segment_id
    best_mode_index := 0
    best_rd := INT_MAX
    best_intra_rd := INT_MAX
    best_dual_rd := if cfg.CONFIG_DUALPRED = true then INT_MAX else l0.best_dual_rd
    best_single_rd := if cfg.CONFIG_DUALPRED = true then INT_MAX else l0.best_single_rd
    best_hybrid_rd := if cfg.CONFIG_DUALPRED = true then INT_MAX else l0.best_hybrid_rd
    best_yrd := INT_MAX
    near_sadidx := fun i => if i < 8 then (i : Int) else l0.near_sadidx i
    saddone := false
    sr := 0
    best_mbmode := zeroed_mbmode
    best_bmodes := fun i => if i < 16 then zeroed_bmodes i else l0.best_bmodes i
    mc_search_result :=
      if cfg.CONFIG_DUALPRED = true then fun _ => INVALID_MV else l0.mc_search_result }
  let l := loadNearMvs ext x cpi.ref_last_flag LAST_FRAME l
  let l := loadNearMvs ext x cpi.ref_gold_flag GOLDEN_FRAME l
  let l := loadNearMvs ext x cpi.ref_alt_flag ALTREF_FRAME l
  let u := ext.rd_pick_intra_mbuv_mode
    { x with skip := false, mbmi := { x.mbmi with ref_frame := INTRA_FRAME } }
  { cpi := { cpi with mbs_tested_so_far := iadd cpi.mbs_tested_so_far 1 }
    x := u.x
    l := { l with
      returnintra := INT_MAX
      mode_mv := fun _ => zero_mv
      uv_intra_rate := u.rate
      uv_intra_rate_tokenonly := u.rate_tokenonly
      uv_intra_distortion := u.distortion
      uv_intra_mode := u.x.mbmi.uv_mode
      ref_costs :=
        if cfg.CONFIG_COMPRED = true then fun rf => ext.vp8_estimate_ref_frame_costs u.x rf
        else l.ref_costs } }

/-- Table `vp8_i8x8_block[4]`: the first block of each 8x8 quadrant. -/
def vp8_i8x8_block (i : Nat) : Nat :=
  if i = 0 then 0 else if i = 1 then 2 else if i = 2 then 8 else 10

/-- Function `set_i8x8_block_modes` (lines 2022-2039). -/
def set_i8x8_block_modes (x : MACROBLOCK W) (modes : Nat → Int) : MACROBLOCK W :=
  let put (f : Nat → b_mode_info) (j : Nat) (m : Int) : Nat → b_mode_info :=
    Function.update f j { f j with as_mode := m }
  let step (f : Nat → b_mode_info) (i : Nat) : Nat → b_mode_info :=
    put (put (put (put f (vp8_i8x8_block i + 0) (modes i)) (vp8_i8x8_block i + 1) (modes i))
      (vp8_i8x8_block i + 4) (modes i)) (vp8_i8x8_block i + 5) (modes i)
  let bmi := (List.range 4).foldl step x.mode_info_bmi
  { x with
    mode_info_bmi := bmi
    block_bmi := fun i => if i < 16 then bmi i else x.block_bmi i }

/-- The two increments `cpi->MVcount[0][..]++` and `cpi->MVcount[1][..]++` of
`rd_update_mvcount` for one vector. -/
def bumpMVcount (cfg : Config) (c : Nat → Int → Int) (mv best_ref_mv : int_mv) :
    Nat → Int → Int :=
  let r := iadd cfg.mv_max (sar (isub mv.row best_ref_mv.row) 1)
  let c1 := Function.update c 0 (Function.update (c 0) r (uwrap32 (c 0 r + 1)))
  let k := iadd cfg.mv_max (sar (isub mv.col best_ref_mv.col) 1)
  Function.update c1 1 (Function.update (c1 1) k (uwrap32 (c1 1 k + 1)))

/-- Function `rd_update_mvcount` (lines 1996-2020). -/
def rd_update_mvcount (cfg : Config) (cpi : VP8_COMP) (x : MACROBLOCK W)
    (best_ref_mv : int_mv) : VP8_COMP :=
  if x.mbmi.mode = SPLITMV then
    { cpi with
      MVcount := (List.range x.partition_info.count.toNat).foldl
        (fun c i =>
          if x.partition_info.bmi_mode i = cfg.NEW4X4 then
            bumpMVcount cfg c (x.partition_info.bmi_mv i) best_ref_mv
          else c)
        cpi.MVcount }
  else if x.mbmi.mode = NEWMV then
    { cpi with MVcount := bumpMVcount cfg cpi.MVcount x.mbmi.mv best_ref_mv }
  else cpi

/-- Lines 3034-3038: the alt-ref overlay forcing applies. -/
def forcesAltRef (seg : Seg) (s : PickState W) : Prop :=
  seg.segfeature_active s.l.segment_id SEG_LVL_REF_FRAME = false ∧
    seg.segfeature_active s.l.segment_id SEG_LVL_MODE = false ∧
    s.cpi.is_src_frame_alt_ref = true ∧ s.cpi.arnr_max_frames = 0 ∧
    (s.l.best_mbmode.mode ≠ ZEROMV ∨ s.l.best_mbmode.ref_frame ≠ ALTREF_FRAME)

instance (seg : Seg) (s : PickState W) : Decidable (forcesAltRef seg s) := by
  unfold forcesAltRef
  infer_instance

/-- Lines 3056-3082: the best-mode record is written into the mode info of
the macroblock. -/
def commitModeInfo (x : MACROBLOCK W) (l : Locals) : MACROBLOCK W :=
  let x1 : MACROBLOCK W := { x with mbmi := l.best_mbmode }
  let x2 : MACROBLOCK W :=
    if l.best_mbmode.mode = B_PRED then
      { x1 with
        mode_info_bmi := fun i =>
          if i < 16 then { x1.mode_info_bmi i with as_mode := (l.best_bmodes i).as_mode }
          else x1.mode_info_bmi i
        block_bmi := fun i =>
          if i < 16 then { x1.block_bmi i with as_mode := (l.best_bmodes i).as_mode }
          else x1.block_bmi i }
    else x1
  let x3 : MACROBLOCK W :=
    if l.best_mbmode.mode = I8X8_PRED then set_i8x8_block_modes x2 l.mode8x8 else x2
  if l.best_mbmode.mode = SPLITMV then
    { x3 with
      mode_info_bmi := fun i =>
        if i < 16 then { x3.mode_info_bmi i with mv := (l.best_bmodes i).mv }
        else x3.mode_info_bmi i
      partition_info := l.best_partition
      mbmi := { x3.mbmi with mv := l.best_partition.bmi_mv 15 } }
  else x3

/-- Lines 3030-3090: the end of `vp8_rd_pick_inter_mode`. -/
def finishPick (cfg : Config) (seg : Seg) (s : PickState W) : PickState W :=
  if forcesAltRef seg s then
    { s with
      x := { s.x with mbmi := { s.x.mbmi with
        mode := ZEROMV, ref_frame := ALTREF_FRAME, mv := zero_mv, uv_mode := DC_PRED
        mb_skip_coeff := if s.cpi.mb_no_coeff_skip = true then 1 else 0
        partitioning := 0 } }
      l := if cfg.CONFIG_DUALPRED = true then
          { s.l with best_single_rd_diff := 0, best_dual_rd_diff := 0, best_hybrid_rd_diff := 0 }
        else s.l }
  else
    let x1 := commitModeInfo s.x s.l
    { cpi := rd_update_mvcount cfg s.cpi x1 (s.l.frame_best_ref_mv x1.mbmi.ref_frame)
      x := x1
      l := if cfg.CONFIG_DUALPRED = true then
          { s.l with
            best_single_rd_diff := isub s.l.best_rd s.l.best_single_rd
            best_dual_rd_diff := isub s.l.best_rd s.l.best_dual_rd
            best_hybrid_rd_diff := isub s.l.best_rd s.l.best_hybrid_rd }
        else s.l }

/-- Lines 3001-3028: the extra reduction of the best candidate's threshold
and the count of the chosen mode. -/
def afterLoop (cfg : Config) (s : PickState W) : PickState W :=
  let cpi := reduceBest cfg s.cpi s.l.best_mode_index
  { s with cpi := { cpi with
    mode_chosen_counts := Function.update cpi.mode_chosen_counts s.l.best_mode_index
      (iadd (cpi.mode_chosen_counts s.l.best_mode_index) 1) } }

/-- The state at the end of the candidate loop of `vp8_rd_pick_inter_mode`
(line 2999). -/
def pickLoop (cfg : Config) (seg : Seg) (ext : Ext W) (cpi : VP8_COMP) (x : MACROBLOCK W)
    (l0 : Locals) : PickState W :=
  modeLoop cfg seg ext (List.range (MAX_MODES cfg)) (pickInit cfg ext cpi x l0)

/-- The record of what the candidate loop of `vp8_rd_pick_inter_mode` did
with each candidate it reached. -/
def pickTrace (cfg : Config) (seg : Seg) (ext : Ext W) (cpi : VP8_COMP) (x : MACROBLOCK W)
    (l0 : Locals) : List (Nat × Event) :=
  modeTrace cfg seg ext (List.range (MAX_MODES cfg)) (pickInit cfg ext cpi x l0)

/-- Function `vp8_rd_pick_inter_mode` (lines 2101-3091). -/
def vp8_rd_pick_inter_mode (cfg : Config) (seg : Seg) (ext : Ext W) (cpi : VP8_COMP)
    (x : MACROBLOCK W) (l0 : Locals) : PickState W :=
  finishPick cfg seg (afterLoop cfg (pickLoop cfg seg ext cpi x l0))

/-! ### The part of the state owned by the comparison -/

/-- The threshold table and the best-so-far record: the part of the state
that only the comparison of line 2894 and the lines after the loop write. -/
structure Kept where
  /-- `cpi->rd_threshes` -/
  rd_threshes : Nat → Int
  /-- `cpi->rd_thresh_mult` -/
  rd_thresh_mult : Nat → Int
  /-- `cpi->rd_baseline_thresh` -/
  rd_baseline_thresh : Nat → Int
  /-- `cpi->mode_chosen_counts` -/
  mode_chosen_counts : Nat → Int
  /-- `segment_id` -/
  segment_id : Nat
  /-- `best_rd` -/
  best_rd : Int
  /-- `best_mode_index` -/
  best_mode_index : Nat
  /-- `best_yrd` -/
  best_yrd : Int
  /-- `best_mbmode` -/
  best_mbmode : MB_MODE_INFO
  /-- `best_bmodes` -/
  best_bmodes : Nat → b_mode_info
  /-- `best_partition` -/
  best_partition : PARTITION_INFO
  /-- `*returnrate` -/
  returnrate : Int
  /-- `*returndistortion` -/
  returndistortion : Int

/-- The threshold table and best-so-far record of a state. -/
def PickState.kept (s : PickState W) : Kept :=
  { rd_threshes := s.cpi.rd_threshes
    rd_thresh_mult := s.cpi.rd_thresh_mult
    rd_baseline_thresh := s.cpi.rd_baseline_thresh
    mode_chosen_counts := s.cpi.mode_chosen_counts
    segment_id := s.l.segment_id
    best_rd := s.l.best_rd
    best_mode_index := s.l.best_mode_index
    best_yrd := s.l.best_yrd
    best_mbmode := s.l.best_mbmode
    best_bmodes := s.l.best_bmodes
    best_partition := s.l.best_partition
    returnrate := s.l.returnrate
    returndistortion := s.l.returndistortion }

/-- The state a `switch` ends in. -/
def SwitchResult.state : SwitchResult W → PickState W
  | SwitchResult.cont s => s
  | SwitchResult.done s _ => s

/-- Predicate: the event is one of a candidate that reached the comparison
of line 2894. -/
def Event.isEvaluated : Event → Bool
  | Event.evaluated _ _ _ _ => true
  | _ => false

/-- The RD cost `this_rd` of a candidate that reached the comparison of line
2894. -/
def Event.rd : Event → Option Int
  | Event.evaluated r _ _ _ => some r
  | _ => none

/-- Predicate: the candidate reached the comparison of line 2894 with
`x->skip` set. -/
def Event.skipSet : Event → Bool
  | Event.evaluated _ _ _ sk => sk
  | _ => false

/-- Predicate: the candidate passed the test of line 2894 but was withheld
from the commit by `mode_excluded` (lines 2896-2899, `CONFIG_DUALPRED`). -/
def Event.withheld : Event → Bool
  | Event.evaluated _ p c _ => p && !c
  | _ => false

/-- Predicate: the candidate reached the comparison of line 2894 and passed
the test `this_rd < best_rd || x->skip`. -/
def Event.passed : Event → Bool
  | Event.evaluated _ p _ _ => p
  | _ => false

/-- Predicate: the candidate was recorded as the best one so far. -/
def Event.committed : Event → Bool
  | Event.evaluated _ _ c _ => c
  | _ => false

/-- How an iteration that took candidate `i` to the comparison of line 2894,
with RD cost `r`, outcome `p` of the test, commit flag `c` and `x->skip = sk`,
relates the threshold table and best record `k` before it to `k'` after it. -/
structure Evaluated (cfg : Config) (i : Nat) (k k' : Kept) (r : Int) (p c sk : Bool) :
    Prop where
  /-- the candidate had passed the threshold test of line 2253 -/
  reached : k.rd_threshes i < k.best_rd
  /-- line 2894 -/
  passed : p = (decide (r < k.best_rd) || sk)
  /-- only a candidate that passed is recorded -/
  committed_passed : c = true → p = true
  /-- without `CONFIG_DUALPRED` every candidate that passed is recorded -/
  committed_eq : cfg.CONFIG_DUALPRED = false → c = p
  /-- line 2923 -/
  best_rd : k'.best_rd = if c = true then r else k.best_rd
  /-- line 2901 -/
  best_mode_index : k'.best_mode_index = if c = true then i else k.best_mode_index
  /-- lines 2939 and 2946-2949 -/
  mult : k'.rd_thresh_mult = Function.update k.rd_thresh_mult i
    (if p = true then lowerMult cfg (k.rd_thresh_mult i)
     else raiseMult cfg (k.rd_thresh_mult i))
  /-- lines 2940 and 2951 -/
  threshes : k'.rd_threshes = Function.update k.rd_threshes i
    (imul (sar (k.rd_baseline_thresh i) 7) (k'.rd_thresh_mult i))
  /-- the baseline thresholds are not written -/
  baseline : k'.rd_baseline_thresh = k.rd_baseline_thresh
  /-- the segment id is not written -/
  segment_id : k'.segment_id = k.segment_id
  /-- the mode counts are not written -/
  counts : k'.mode_chosen_counts = k.mode_chosen_counts

/-- Every adaptive multiplier lies in `[MIN_THRESHMULT, MAX_THRESHMULT]`. -/
def MultInRange (cfg : Config) (mult : Nat → Int) : Prop :=
  ∀ i, cfg.MIN_THRESHMULT ≤ mult i ∧ mult i ≤ cfg.MAX_THRESHMULT

/-! ### A sequence of calls within a frame -/

/-- One call of `vp8_rd_pick_inter_mode`: the segment data, the routines, the
memory and the indeterminate locals of one macroblock.  The encoder instance
is what the calls of a frame hand on to each other. -/
structure Call (W : Type) where
  /-- the segment data -/
  seg : Seg
  /-- the routines, as they answer for this macroblock -/
  ext : Ext W
  /-- the macroblock memory on entry -/
  x : MACROBLOCK W
  /-- the contents of the locals without initializer -/
  l0 : Locals

/-- The encoder instance after the call. -/
def Call.run (cfg : Config) (c : Call W) (cpi : VP8_COMP) : VP8_COMP :=
  (vp8_rd_pick_inter_mode cfg c.seg c.ext cpi c.x c.l0).cpi

/-- The values of `rd_thresh_mult[k]` along a sequence of calls: before the
first call and after each call. -/
def multHistory (cfg : Config) (k : Nat) : List (Call W) → VP8_COMP → List Int
  | [], cpi => [cpi.rd_thresh_mult k]
  | c :: cs, cpi => cpi.rd_thresh_mult k :: multHistory cfg k cs (c.run cfg cpi)

/-- Candidate `k` is the committed best of the call: the loop recorded it and
`best_mode_index` is `k` at the end of the loop. -/
def Call.commits (cfg : Config) (c : Call W) (cpi : VP8_COMP) (k : Nat) : Prop :=
  (pickLoop cfg c.seg c.ext cpi c.x c.l0).l.best_mode_index = k ∧
    ∃ e ∈ pickTrace cfg c.seg c.ext cpi c.x c.l0, e.1 = k ∧ e.2.committed = true

/-- Candidate `k` is the committed best of every call of the sequence. -/
def AlwaysBest (cfg : Config) (k : Nat) : List (Call W) → VP8_COMP → Prop
  | [], _ => True
  | c :: cs, cpi => c.commits cfg cpi k ∧ AlwaysBest cfg k cs (c.run cfg cpi)

/-- Candidate `k` is not the winner of the call: `best_mode_index` differs
from `k` at the end of the loop. -/
def Call.loses (cfg : Config) (c : Call W) (cpi : VP8_COMP) (k : Nat) : Prop :=
  (pickLoop cfg c.seg c.ext cpi c.x c.l0).l.best_mode_index ≠ k

/-- Candidate `k` wins no call of the sequence. -/
def NeverWins (cfg : Config) (k : Nat) : List (Call W) → VP8_COMP → Prop
  | [], _ => True
  | c :: cs, cpi => c.loses cfg cpi k ∧ NeverWins cfg k cs (c.run cfg cpi)

/-- Candidate `k` is never the best of the call, not even for a while: it
does not pass the test of line 2894, and `best_mode_index` differs from `k`
at the end of the loop. -/
def Call.neverBest (cfg : Config) (c : Call W) (cpi : VP8_COMP) (k : Nat) : Prop :=
  (pickLoop cfg c.seg c.ext cpi c.x c.l0).l.best_mode_index ≠ k ∧
    ∀ e ∈ pickTrace cfg c.seg c.ext cpi c.x c.l0, e.1 = k → e.2.passed = false

/-- Candidate `k` is never the best, not even for a while, in any call of the
sequence. -/
def NeverBest (cfg : Config) (k : Nat) : List (Call W) → VP8_COMP → Prop
  | [], _ => True
  | c :: cs, cpi => c.neverBest cfg cpi k ∧ NeverBest cfg k cs (c.run cfg cpi)

instance (cfg : Config) (c : Call W) (cpi : VP8_COMP) (k : Nat) :
    Decidable (c.commits cfg cpi k) := by
  unfold Call.commits
  infer_instance

instance (cfg : Config) (c : Call W) (cpi : VP8_COMP) (k : Nat) :
    Decidable (c.loses cfg cpi k) := by
  unfold Call.loses
  infer_instance

instance (cfg : Config) (c : Call W) (cpi : VP8_COMP) (k : Nat) :
    Decidable (c.neverBest cfg cpi k) := by
  unfold Call.neverBest
  infer_instance

/-- Whether `AlwaysBest` holds can be computed. -/
def decAlwaysBest (cfg : Config) (k : Nat) :
    (cs : List (Call W)) → (cpi : VP8_COMP) → Decidable (AlwaysBest cfg k cs cpi)
  | [], _ => isTrue trivial
  | c :: cs, cpi =>
    match (inferInstance : Decidable (c.commits cfg cpi k)),
        decAlwaysBest cfg k cs (c.run cfg cpi) with
    | isTrue h1, isTrue h2 => isTrue ⟨h1, h2⟩
    | isFalse h1, _ => isFalse (fun h => h1 h.1)
    | _, isFalse h2 => isFalse (fun h => h2 h.2)

instance (cfg : Config) (k : Nat) (cs : List (Call W)) (cpi : VP8_COMP) :
    Decidable (AlwaysBest cfg k cs cpi) := decAlwaysBest cfg k cs cpi

/-- Whether `NeverWins` holds can be computed. -/
def decNeverWins (cfg : Config) (k : Nat) :
    (cs : List (Call W)) → (cpi : VP8_COMP) → Decidable (NeverWins cfg k cs cpi)
  | [], _ => isTrue trivial
  | c :: cs, cpi =>
    match (inferInstance : Decidable (c.loses cfg cpi k)),
        decNeverWins cfg k cs (c.run cfg cpi) with
    | isTrue h1, isTrue h2 => isTrue ⟨h1, h2⟩
    | isFalse h1, _ => isFalse (fun h => h1 h.1)
    | _, isFalse h2 => isFalse (fun h => h2 h.2)

instance (cfg : Config) (k : Nat) (cs : List (Call W)) (cpi : VP8_COMP) :
    Decidable (NeverWins cfg k cs cpi) := decNeverWins cfg k cs cpi

/-- Whether `NeverBest` holds can be computed. -/
def decNeverBest (cfg : Config) (k : Nat) :
    (cs : List (Call W)) → (cpi : VP8_COMP) → Decidable (NeverBest cfg k cs cpi)
  | [], _ => isTrue trivial
  | c :: cs, cpi =>
    match (inferInstance : Decidable (c.neverBest cfg cpi k)),
        decNeverBest cfg k cs (c.run cfg cpi) with
    | isTrue h1, isTrue h2 => isTrue ⟨h1, h2⟩
    | isFalse h1, _ => isFalse (fun h => h1 h.1)
    | _, isFalse h2 => isFalse (fun h => h2 h.2)

instance (cfg : Config) (k : Nat) (cs : List (Call W)) (cpi : VP8_COMP) :
    Decidable (NeverBest cfg k cs cpi) := decNeverBest cfg k cs cpi

end SelectorLoop

/-! ## The insertion sorts `insertsortmv` and `insertsortsad` (lines 1738-1788) -/

section InsertSort

variable {α : Type}

/-- The innermost loop of both sorts (lines 1753-1754 and 1777-1781):
`for (k = i; k > j; k--) arr[k] = arr[k - 1]`, started at `k`.  An array is a
list; `d` is what a read outside the array would give, which a call with
`len` within the array never does. -/
def shiftUp (d : α) (arr : List α) (j : Nat) : Nat → List α
  | 0 => arr
  | k + 1 => if k + 1 > j then shiftUp d (arr.set (k + 1) (arr.getD k d)) j k else arr

/-- The body of the loop over `j` (lines 1747-1757 and 1770-1785):
if `arr[j] > arr[i]`, entry `i` is taken out, the entries from `j` to `i - 1`
move up by one place, and the entry taken out is stored at `j`.  `key` gives
the number the entries are compared by. -/
def insertStep (key : α → Int) (d : α) (i : Nat) (arr : List α) (j : Nat) : List α :=
  if key (arr.getD j d) > key (arr.getD i d) then
    (shiftUp d arr j i).set j (arr.getD i d)
  else arr

/-- The loop `for (j = 0; j < i; j++)` of both sorts. -/
def insertPass (key : α → Int) (d : α) (arr : List α) (i : Nat) : List α :=
  (List.range i).foldl (insertStep key d i) arr

/-- The loop `for (i = 1; i <= len - 1; i++)` of both sorts. -/
def insertLoops (key : α → Int) (d : α) (arr : List α) (len : Nat) : List α :=
  (List.range' 1 (len - 1)).foldl (insertPass key d) arr

/-- Function `insertsortmv` (lines 1739-1760): the array after the call. -/
def insertsortmv (arr : List Int) (len : Nat) : List Int :=
  insertLoops (fun v => v) 0 arr len

/-- Placing `v` into a list behind every entry that is not greater: what one
pass of the sorts does to the part of the array in front of entry `i`. -/
def placeBehind (key : α → Int) (v : α) (pre : List α) : List α :=
  pre.takeWhile (fun b => decide (key b ≤ key v)) ++
    v :: pre.dropWhile (fun b => decide (key b ≤ key v))

/-- The list sorted by placing its entries one after the other, from the
left, behind the entries that are not greater. -/
def placeAll (key : α → Int) (l : List α) : List α :=
  l.foldl (fun acc v => placeBehind key v acc) []

end InsertSort
/-! ## The motion-vector predictor `vp8_mv_pred` (lines 1791-1937) -/

section MvPred

/-- The two inline helpers of findnearmv.h that `vp8_mv_pred` calls. -/
structure MvExt where
  /-- `mv_bias(refmb_ref_frame_sign_bias, refframe, mvp, ref_frame_sign_bias)`:
  the vector `*mvp` after the call -/
  mv_bias : Int → MV_REFERENCE_FRAME → int_mv → (MV_REFERENCE_FRAME → Int) → int_mv
  /-- `vp8_clamp_mv2(mv, xd)`: the vector after the call, from the vector and
  `xd->mb_to_left_edge`, `mb_to_right_edge`, `mb_to_top_edge` and
  `mb_to_bottom_edge` -/
  vp8_clamp_mv2 : int_mv → Int → Int → Int → Int → int_mv

/-- What a call of `vp8_mv_pred` reads. -/
structure MvPredInput where
  /-- `here->mbmi` -/
  here : MB_MODE_INFO
  /-- `above->mbmi`, with `above = here - xd->mode_info_stride` -/
  above : MB_MODE_INFO
  /-- `left->mbmi`, with `left = here - 1` -/
  left : MB_MODE_INFO
  /-- `aboveleft->mbmi`, with `aboveleft = above - 1` -/
  aboveleft : MB_MODE_INFO
  /-- `cpi->common.last_frame_type == KEY_FRAME` -/
  last_frame_is_key : Bool
  /-- `xd->mode_info_stride` -/
  mode_info_stride : Int
  /-- `xd->mb_to_top_edge` -/
  mb_to_top_edge : Int
  /-- `xd->mb_to_left_edge` -/
  mb_to_left_edge : Int
  /-- `xd->mb_to_right_edge` -/
  mb_to_right_edge : Int
  /-- `xd->mb_to_bottom_edge` -/
  mb_to_bottom_edge : Int
  /-- `cpi->lf_ref_frame[k]` -/
  lf_ref_frame : Int → MV_REFERENCE_FRAME
  /-- `cpi->lfmv[k]` -/
  lfmv : Int → int_mv
  /-- `cpi->lf_ref_frame_sign_bias[k]` -/
  lf_ref_frame_sign_bias : Int → Int
  /-- the argument `refframe` -/
  refframe : MV_REFERENCE_FRAME
  /-- the argument `ref_frame_sign_bias` -/
  ref_frame_sign_bias : MV_REFERENCE_FRAME → Int
  /-- `near_sadidx[i]` -/
  near_sadidx : Nat → Int
  /-- `*sr` before the call -/
  sr : Int

/-- The arrays `near_mvs[8]` and `near_ref[8]` with the count `vcnt` of the
slots gone through.  A slot is written for a candidate that is not intra
and keeps the zero vector and the value 0, `INTRA_FRAME`, of line 1821 and
1822 otherwise. -/
structure NearArrays where
  /-- `near_mvs[k]` -/
  near_mvs : Int → int_mv
  /-- `near_ref[k]` -/
  near_ref : Int → MV_REFERENCE_FRAME
  /-- `vcnt` -/
  vcnt : Nat

/-- Lines 1821-1822: the arrays before a candidate is read. -/
def NearArrays.init : NearArrays :=
  { near_mvs := fun _ => zero_mv, near_ref := fun _ => INTRA_FRAME, vcnt := 0 }

/-- One of the eight blocks of lines 1825-1895: a candidate with reference
frame `ref`, vector `mv` and sign bias `bias` is stored in slot `vcnt`
unless it is intra, and `vcnt` is increased in both cases. -/
def addCandidate (mx : MvExt) (c : MvPredInput) (a : NearArrays) (ref : MV_REFERENCE_FRAME)
    (mv : int_mv) (bias : Int) : NearArrays :=
  if ref ≠ INTRA_FRAME then
    { near_mvs := Function.update a.near_mvs (a.vcnt : Int)
        (mx.mv_bias bias c.refframe mv c.ref_frame_sign_bias)
      near_ref := Function.update a.near_ref (a.vcnt : Int) ref
      vcnt := a.vcnt + 1 }
  else { a with vcnt := a.vcnt + 1 }

/-- Lines 1825-1845: the three candidates of the current frame. -/
def spatialCandidates (mx : MvExt) (c : MvPredInput) : NearArrays :=
  let a := addCandidate mx c NearArrays.init c.above.ref_frame c.above.mv
    (c.ref_frame_sign_bias c.above.ref_frame)
  let a := addCandidate mx c a c.left.ref_frame c.left.mv
    (c.ref_frame_sign_bias c.left.ref_frame)
  addCandidate mx c a c.aboveleft.ref_frame c.aboveleft.mv
    (c.ref_frame_sign_bias c.aboveleft.ref_frame)

/-- Line 1850: `mb_offset`. -/
def mbOffset (c : MvPredInput) : Int :=
  iadd (imul (iadd (idiv (isub 0 c.mb_to_top_edge) 128) 1) (iadd c.mode_info_stride 1))
    (iadd (idiv (isub 0 c.mb_to_left_edge) 128) 1)

/-- The positions in the arrays of the last frame that lines 1853-1894 read:
the macroblock itself and the ones above, left, right and below. -/
def temporalOffsets (c : MvPredInput) : List Int :=
  [mbOffset c,
   isub (isub (mbOffset c) c.mode_info_stride) 1,
   isub (mbOffset c) 1,
   iadd (mbOffset c) 1,
   iadd (iadd (mbOffset c) c.mode_info_stride) 1]

/-- Lines 1848-1896: the five candidates of the last frame, read unless the
last frame was a key frame. -/
def temporalCandidates (mx : MvExt) (c : MvPredInput) (a : NearArrays) : NearArrays :=
  if c.last_frame_is_key = false then
    (temporalOffsets c).foldl
      (fun a k => addCandidate mx c a (c.lf_ref_frame k) (c.lfmv k) (c.lf_ref_frame_sign_bias k))
      a
  else a

/-- Lines 1825-1896: the arrays when all candidates are collected. -/
def collectCandidates (mx : MvExt) (c : MvPredInput) : NearArrays :=
  temporalCandidates mx c (spatialCandidates mx c)

/-- The test of lines 1900 and 1902 for the candidate that is number `i` in
the order of `near_sadidx`. -/
def matchesAt (c : MvPredInput) (a : NearArrays) (i : Nat) : Prop :=
  a.near_ref (c.near_sadidx i) ≠ INTRA_FRAME ∧
    c.here.ref_frame = a.near_ref (c.near_sadidx i)

instance (c : MvPredInput) (a : NearArrays) (i : Nat) : Decidable (matchesAt c a i) := by
  unfold matchesAt
  infer_instance

/-- Lines 1898-1913: the loop over `i`, as the first `i` of the list at which
the test holds. -/
def findMatch (c : MvPredInput) (a : NearArrays) : List Nat → Option Nat
  | [] => none
  | i :: rest => if matchesAt c a i then some i else findMatch c a rest

/-- The vector `mv` in front of line 1935, and `*sr`. -/
structure MvPredResult where
  /-- the vector -/
  mv : int_mv
  /-- `*sr` -/
  sr : Int
  deriving DecidableEq

/-- Lines 1917-1926: the arrays `mvx` and `mvy` are filled from the first
`vcnt` slots and sorted, and entry `vcnt / 2` of each is taken. -/
def medianVector (a : NearArrays) : int_mv :=
  let mvx := (List.range a.vcnt).map (fun (i : Nat) => (a.near_mvs (i : Int)).row)
  let mvy := (List.range a.vcnt).map (fun (i : Nat) => (a.near_mvs (i : Int)).col)
  { row := (insertsortmv mvx a.vcnt).getD (a.vcnt / 2) 0
    col := (insertsortmv mvy a.vcnt).getD (a.vcnt / 2) 0 }

/-- Lines 1817-1932 of `vp8_mv_pred`: the vector before it is clamped, and
`*sr`. -/
def mvPredUnclamped (mx : MvExt) (c : MvPredInput) : MvPredResult :=
  if c.here.ref_frame ≠ INTRA_FRAME then
    let a := collectCandidates mx c
    match findMatch c a (List.range a.vcnt) with
    | some i => { mv := a.near_mvs (c.near_sadidx i), sr := if i < 3 then 3 else 2 }
    | none => { mv := medianVector a, sr := 0 }
  else { mv := zero_mv, sr := c.sr }

/-- Function `vp8_mv_pred` (lines 1791-1937): `*mvp` and `*sr` after the
call. -/
def vp8_mv_pred (mx : MvExt) (c : MvPredInput) : MvPredResult :=
  let r := mvPredUnclamped mx c
  { mv := mx.vp8_clamp_mv2 r.mv c.mb_to_left_edge c.mb_to_right_edge c.mb_to_top_edge
      c.mb_to_bottom_edge
    sr := r.sr }

/-- The median as the claim on the predictor words it: intra candidates are
left out, the rows and the columns of the vectors of the other candidates
are sorted, and the middle entry of each is taken.  `cands` lists the
reference frame and the vector of each candidate. -/
def medianSkippingIntra (cands : List (MV_REFERENCE_FRAME × int_mv)) : int_mv :=
  let kept := cands.filter (fun p => decide (p.1 ≠ INTRA_FRAME))
  { row := ((kept.map (fun p => p.2.row)).insertionSort (· ≤ ·)).getD (kept.length / 2) 0
    col := ((kept.map (fun p => p.2.col)).insertionSort (· ≤ ·)).getD (kept.length / 2) 0 }

/-- The candidates in the order of their slots: the reference frame of each
and its vector after the sign-bias correction. -/
def candidateList (mx : MvExt) (c : MvPredInput) : List (MV_REFERENCE_FRAME × int_mv) :=
  let entry := fun (ref : MV_REFERENCE_FRAME) (mv : int_mv) (bias : Int) =>
    (ref, mx.mv_bias bias c.refframe mv c.ref_frame_sign_bias)
  [entry c.above.ref_frame c.above.mv (c.ref_frame_sign_bias c.above.ref_frame),
   entry c.left.ref_frame c.left.mv (c.ref_frame_sign_bias c.left.ref_frame),
   entry c.aboveleft.ref_frame c.aboveleft.mv (c.ref_frame_sign_bias c.aboveleft.ref_frame)] ++
  (if c.last_frame_is_key = false then
    (temporalOffsets c).map
      (fun k => entry (c.lf_ref_frame k) (c.lfmv k) (c.lf_ref_frame_sign_bias k))
   else [])

/-- The vector a candidate leaves in its slot: its own, or the zero vector
if it is intra. -/
def slotVector (p : MV_REFERENCE_FRAME × int_mv) : int_mv :=
  if p.1 = INTRA_FRAME then zero_mv else p.2

/-- Two calls read the same neighbour state, position, target reference and
sign-bias table.  Of a neighbour only the reference frame and the vector
count, and of the arrays of the last frame only the five entries around the
macroblock. -/
structure SameNeighbourState (c c' : MvPredInput) : Prop where
  /-- the reference frame of the macroblock -/
  here : c.here.ref_frame = c'.here.ref_frame
  /-- the neighbour above -/
  above : c.above.ref_frame = c'.above.ref_frame ∧ c.above.mv = c'.above.mv
  /-- the neighbour to the left -/
  left : c.left.ref_frame = c'.left.ref_frame ∧ c.left.mv = c'.left.mv
  /-- the neighbour above and to the left -/
  aboveleft : c.aboveleft.ref_frame = c'.aboveleft.ref_frame ∧ c.aboveleft.mv = c'.aboveleft.mv
  /-- whether the last frame was a key frame -/
  key : c.last_frame_is_key = c'.last_frame_is_key
  /-- the position of the macroblock -/
  position : c.mode_info_stride = c'.mode_info_stride ∧
    c.mb_to_top_edge = c'.mb_to_top_edge ∧ c.mb_to_left_edge = c'.mb_to_left_edge ∧
    c.mb_to_right_edge = c'.mb_to_right_edge ∧ c.mb_to_bottom_edge = c'.mb_to_bottom_edge
  /-- the state of the last frame around the macroblock -/
  temporal : ∀ k ∈ temporalOffsets c, c.lf_ref_frame k = c'.lf_ref_frame k ∧
    c.lfmv k = c'.lfmv k ∧ c.lf_ref_frame_sign_bias k = c'.lf_ref_frame_sign_bias k
  /-- the target reference frame -/
  refframe : c.refframe = c'.refframe
  /-- the sign-bias table -/
  sign_bias : c.ref_frame_sign_bias = c'.ref_frame_sign_bias

/-- The slots that no candidate was stored in are as lines 1821 and 1822
left them. -/
def NearArrays.Fresh (a : NearArrays) : Prop :=
  ∀ k : Int, (k < 0 ∨ (a.vcnt : Int) ≤ k) → a.near_mvs k = zero_mv ∧ a.near_ref k = INTRA_FRAME

/-- The first `vcnt` slots as a list of reference frame and vector. -/
def NearArrays.slots (a : NearArrays) : List (MV_REFERENCE_FRAME × int_mv) :=
  (List.range a.vcnt).map (fun (i : Nat) => (a.near_ref (i : Int), a.near_mvs (i : Int)))

end MvPred
/-! ## The partition search: `labels2mode`, `rd_check_segment` and
`vp8_rd_pick_best_mbsegmentation` (lines 1166-1736) -/

/-- `B_PREDICTION_MODE`, in the order of its declaration (blockd.h): the
intra modes of a 4x4 block and then the four modes of a block of a split
macroblock. -/
inductive B_PREDICTION_MODE
  | B_DC_PRED
  | B_TM_PRED
  | B_VE_PRED
  | B_HE_PRED
  | B_LD_PRED
  | B_RD_PRED
  | B_VR_PRED
  | B_VL_PRED
  | B_HD_PRED
  | B_HU_PRED
  | LEFT4X4
  | ABOVE4X4
  | ZERO4X4
  | NEW4X4
  deriving DecidableEq

/-- The place of an enumerator in `B_PREDICTION_MODE`. -/
def B_PREDICTION_MODE.index : B_PREDICTION_MODE → Int
  | .B_DC_PRED => 0
  | .B_TM_PRED => 1
  | .B_VE_PRED => 2
  | .B_HE_PRED => 3
  | .B_LD_PRED => 4
  | .B_RD_PRED => 5
  | .B_VR_PRED => 6
  | .B_VL_PRED => 7
  | .B_HD_PRED => 8
  | .B_HU_PRED => 9
  | .LEFT4X4 => 10
  | .ABOVE4X4 => 11
  | .ZERO4X4 => 12
  | .NEW4X4 => 13

/-- Numeric value of a `B_PREDICTION_MODE` enumerator, counted back from the
value `cfg.NEW4X4` of the last one. -/
def B_PREDICTION_MODE.toInt (cfg : Config) (m : B_PREDICTION_MODE) : Int :=
  cfg.NEW4X4 - 13 + m.index

/-- The four ways of splitting a macroblock, in the order of the enumerators
`BLOCK_16X8`, `BLOCK_8X16`, `BLOCK_8X8`, `BLOCK_4X4` that index
`vp8_mbsplits`, `cpi->fn_ptr` and `segmentation_to_sseshift`;
`BLOCK_16X8` has the value 0. -/
inductive Segmentation
  | BLOCK_16X8
  | BLOCK_8X16
  | BLOCK_8X8
  | BLOCK_4X4
  deriving DecidableEq

/-- Numeric value of a segmentation. -/
def Segmentation.toInt : Segmentation → Int
  | .BLOCK_16X8 => 0
  | .BLOCK_8X16 => 1
  | .BLOCK_8X8 => 2
  | .BLOCK_4X4 => 3

open B_PREDICTION_MODE Segmentation

/-- Table `segmentation_to_sseshift` (line 1295). -/
def segmentation_to_sseshift : Segmentation → Nat
  | BLOCK_16X8 => 3
  | BLOCK_8X16 => 3
  | BLOCK_8X8 => 2
  | BLOCK_4X4 => 0

/-- `BEST_SEG_INFO` (lines 1298-1318). -/
structure BEST_SEG_INFO where
  /-- `*ref_mv` -/
  ref_mv : int_mv
  /-- `mvp` -/
  mvp : int_mv
  /-- `segment_rd` -/
  segment_rd : Int
  /-- `segment_num` -/
  segment_num : Segmentation
  /-- `r` -/
  r : Int
  /-- `d` -/
  d : Int
  /-- `segment_yrate` -/
  segment_yrate : Int
  /-- `modes[16]` -/
  modes : Nat → Int
  /-- `mvs[16]` -/
  mvs : Nat → int_mv
  /-- `eobs[16]` -/
  eobs : Nat → Int
  /-- `mvthresh` -/
  mvthresh : Int
  /-- `*mdcounts` -/
  mdcounts : Nat → Int
  /-- `sv_mvp[4]` -/
  sv_mvp : Nat → int_mv
  /-- `sv_istep[2]` -/
  sv_istep : Nat → Int

/-- The part of `BEST_SEG_INFO` that describes the best segmentation. -/
structure SegRecord where
  /-- `r` -/
  r : Int
  /-- `d` -/
  d : Int
  /-- `segment_yrate` -/
  segment_yrate : Int
  /-- `segment_rd` -/
  segment_rd : Int
  /-- `segment_num` -/
  segment_num : Segmentation
  /-- `mvs` -/
  mvs : Nat → int_mv
  /-- `modes` -/
  modes : Nat → Int
  /-- `eobs` -/
  eobs : Nat → Int

/-- The record of the best segmentation in a `BEST_SEG_INFO`. -/
def BEST_SEG_INFO.record (b : BEST_SEG_INFO) : SegRecord :=
  { r := b.r, d := b.d, segment_yrate := b.segment_yrate, segment_rd := b.segment_rd,
    segment_num := b.segment_num, mvs := b.mvs, modes := b.modes, eobs := b.eobs }

/-- What a motion search leaves behind: the memory, the returned cost, the
vector stored through the `best_mv` (or `bestmv`) argument, the vector in
`e->bmi.mv`, and `*num00`. -/
structure SplitSearch (W : Type) where
  /-- the rest of the macroblock memory after the call -/
  mem : W
  /-- the returned value -/
  ret : Int
  /-- the vector stored through the result argument -/
  best_mv : int_mv
  /-- `e->bmi.mv` after the call -/
  e_mv : int_mv
  /-- `*num00` after the call -/
  num00 : Int

/-- Result of `rdcost_mbsegment_y`: the cost and the entropy contexts `ta`
and `tl` it was given, as it leaves them. -/
structure SegmentCost where
  /-- the returned value -/
  cost : Int
  /-- the above context after the call -/
  ta : Nat → Int
  /-- the left context after the call -/
  tl : Nat → Int

/-- The tables, constants and routines of other files that the partition
search uses, and the contents of its uninitialised locals.  A routine works
on the macroblock it is given and returns what it leaves in the rest of the
memory; the fields of `MACROBLOCK` themselves are written by the partition
search only. -/
structure SplitExt (W : Type) where
  /-- `vp8_mbsplits[segmentation][b]` -/
  vp8_mbsplits : Segmentation → Nat → Int
  /-- `vp8_mbsplit_count[segmentation]` -/
  vp8_mbsplit_count : Segmentation → Nat
  /-- `vp8_mbsplit_offset[segmentation][i]` -/
  vp8_mbsplit_offset : Segmentation → Nat → Nat
  /-- `MAX_MVSEARCH_STEPS` (mcomp.h) -/
  MAX_MVSEARCH_STEPS : Int
  /-- `MAX_FIRST_STEP` (mcomp.h) -/
  MAX_FIRST_STEP : Int
  /-- `vp8_cost_token(vp8_mbsplit_tree, vp8_mbsplit_probs,
  vp8_mbsplit_encodings + segmentation)` -/
  mbsplit_cost : Segmentation → Int
  /-- `left_block_mv(mic, b)` (findnearmv.h) -/
  left_block_mv : MACROBLOCK W → Nat → int_mv
  /-- `above_block_mv(mic, b, mis)` (findnearmv.h) -/
  above_block_mv : MACROBLOCK W → Nat → int_mv
  /-- `x->inter_bmode_costs[m]` -/
  inter_bmode_costs : MACROBLOCK W → B_PREDICTION_MODE → Int
  /-- `x->sadperbit4` -/
  sadperbit4 : MACROBLOCK W → Int
  /-- `cpi->diamond_search_sad` for block `n` with the functions of
  `cpi->fn_ptr[segmentation]`, from `mvp_full`, the step parameter, `sadpb`
  and `*bsi->ref_mv` -/
  diamond_search_sad :
    MACROBLOCK W → Segmentation → Nat → int_mv → Int → Int → int_mv → SplitSearch W
  /-- `cpi->full_search_sad` for block `n`, from `mvp_full`, `sadpb` and
  `*bsi->ref_mv` -/
  full_search_sad : MACROBLOCK W → Segmentation → Nat → int_mv → Int → int_mv → SplitSearch W
  /-- `cpi->find_fractional_mv_step` for block `n`, from the vector to refine,
  `*bsi->ref_mv` and `x->errorperbit` -/
  find_fractional_mv_step :
    MACROBLOCK W → Segmentation → Nat → int_mv → int_mv → Int → SplitSearch W
  /-- `vp8_clamp_mv(mv, mb_to_left_edge, mb_to_right_edge, mb_to_top_edge,
  mb_to_bottom_edge)` (findnearmv.h): the clamped vector -/
  vp8_clamp_mv : int_mv → Int → Int → Int → Int → int_mv
  /-- `vp8_encode_inter_mb_segment(x, labels, which_label, rtcd)`: the rest
  of the memory after the call and the returned `unsigned int` -/
  vp8_encode_inter_mb_segment : MACROBLOCK W → (Nat → Int) → Int → W × Int
  /-- `rdcost_mbsegment_y(mb, labels, which_label, ta, tl)` -/
  rdcost_mbsegment_y :
    MACROBLOCK W → (Nat → Int) → Int → (Nat → Int) → (Nat → Int) → SegmentCost
  /-- `*x->e_mbd.above_context`, as its bytes -/
  above_context : MACROBLOCK W → Nat → Int
  /-- `*x->e_mbd.left_context`, as its bytes -/
  left_context : MACROBLOCK W → Nat → Int
  /-- the memory after `x->e_mbd.block[i].eob = v` -/
  set_block_eob : W → Nat → Int → W
  /-- what the local array `mode_mv` of the loop over the labels holds
  before it is written, for label `i` -/
  stale_mode_mv : Nat → B_PREDICTION_MODE → int_mv
  /-- what the local `t_above_b` holds before it is written -/
  stale_above_b : Nat → Int
  /-- what the local `t_left_b` holds before it is written -/
  stale_left_b : Nat → Int

/-- The fields of `cpi` that steer the partition search. -/
structure SplitParams where
  /-- `cpi->compressor_speed` -/
  compressor_speed : Int
  /-- `cpi->sf.no_skip_block4x4_search` -/
  no_skip_block4x4_search : Int

section PartitionSearch

variable {W : Type}

/-! ### `labels2mode` (lines 1166-1247) -/

/-- The variables of the loop of `labels2mode`. -/
structure LabelsState (W : Type) where
  /-- the macroblock -/
  x : MACROBLOCK W
  /-- `*this_mv` -/
  this_mv : int_mv
  /-- `cost` -/
  cost : Int
  /-- `thismvcost` -/
  thismvcost : Int

/-- The vector to the left of block `i`, as lines 1211 and 1227 read it. -/
def leftVector (sx : SplitExt W) (x : MACROBLOCK W) (i : Nat) : int_mv :=
  if i % 4 ≠ 0 then (x.block_bmi (i - 1)).mv else sx.left_block_mv x i

/-- The vector above block `i`, as line 1214 reads it. -/
def aboveVector (sx : SplitExt W) (x : MACROBLOCK W) (i : Nat) : int_mv :=
  if i / 4 ≠ 0 then (x.block_bmi (i - 4)).mv else sx.above_block_mv x i

/-- Lines 1197-1235: the mode `m` of block `i` and, for a block that starts
a label, the new `*this_mv`, `cost` and `thismvcost`. -/
def blockMode (ext : Ext W) (sx : SplitExt W) (labelings : Nat → Int)
    (this_mode : B_PREDICTION_MODE) (best_ref_mv : int_mv) (s : LabelsState W) (i : Nat) :
    LabelsState W × B_PREDICTION_MODE :=
  if i % 4 ≠ 0 ∧ labelings i = labelings (i - 1) then (s, LEFT4X4)
  else if i / 4 ≠ 0 ∧ labelings i = labelings (i - 4) then (s, ABOVE4X4)
  else
    let thismvcost :=
      if this_mode = NEW4X4 then ext.vp8_mv_bit_cost s.x s.this_mv best_ref_mv 102
      else s.thismvcost
    let this_mv :=
      if this_mode = LEFT4X4 then leftVector sx s.x i
      else if this_mode = ABOVE4X4 then aboveVector sx s.x i
      else if this_mode = ZERO4X4 then zero_mv
      else s.this_mv
    let m :=
      if this_mode = ABOVE4X4 ∧ leftVector sx s.x i = this_mv then LEFT4X4 else this_mode
    ({ s with this_mv := this_mv, cost := sx.inter_bmode_costs s.x m, thismvcost := thismvcost },
     m)

/-- Lines 1189-1241: the body of the loop of `labels2mode` for block `i`. -/
def labels2modeBlock (cfg : Config) (ext : Ext W) (sx : SplitExt W) (labelings : Nat → Int)
    (which_label : Int) (this_mode : B_PREDICTION_MODE) (best_ref_mv : int_mv)
    (s : LabelsState W) (i : Nat) : LabelsState W :=
  if labelings i ≠ which_label then s
  else
    let r := blockMode ext sx labelings this_mode best_ref_mv s i
    { r.1 with
      x := { r.1.x with
        block_bmi := Function.update r.1.x.block_bmi i
          { r.1.x.block_bmi i with mv := r.1.this_mv }
        partition_info := { r.1.x.partition_info with
          bmi_mode := Function.update r.1.x.partition_info.bmi_mode i (r.2.toInt cfg)
          bmi_mv := Function.update r.1.x.partition_info.bmi_mv i r.1.this_mv } } }

/-- Function `labels2mode` (lines 1166-1247): the macroblock and `*this_mv`
after the call, and in `cost` the returned value. -/
def labels2mode (cfg : Config) (ext : Ext W) (sx : SplitExt W) (x : MACROBLOCK W)
    (labelings : Nat → Int) (which_label : Int) (this_mode : B_PREDICTION_MODE)
    (this_mv best_ref_mv : int_mv) : LabelsState W :=
  let s := (List.range 16).foldl
    (labels2modeBlock cfg ext sx labelings which_label this_mode best_ref_mv)
    { x := x, this_mv := this_mv, cost := 0, thismvcost := 0 }
  { s with cost := iadd s.cost s.thismvcost }

/-! ### `rd_check_segment` (lines 1321-1584) -/

/-- The variables that live across the loop over `this_mode` for one label
(lines 1383-1548). -/
structure LabelState (W : Type) where
  /-- the macroblock -/
  x : MACROBLOCK W
  /-- `*bsi` -/
  bsi : BEST_SEG_INFO
  /-- `mode_mv[B_MODE_COUNT]` -/
  mode_mv : B_PREDICTION_MODE → int_mv
  /-- `rate` -/
  rate : Int
  /-- `sbr` -/
  sbr : Int
  /-- `sbd` -/
  sbd : Int
  /-- `bestlabelyrate` -/
  bestlabelyrate : Int
  /-- `mode_selected` -/
  mode_selected : B_PREDICTION_MODE
  /-- `best_label_rd` -/
  best_label_rd : Int
  /-- `t_above_b` -/
  ta_b : Nat → Int
  /-- `t_left_b` -/
  tl_b : Nat → Int
  /-- whether the motion search of `NEW4X4` was run for the label (not a
  variable of the code) -/
  searched : Bool

/-- The macroblock after a motion search for block `n`. -/
def afterSearch (x : MACROBLOCK W) (n : Nat) (r : SplitSearch W) : MACROBLOCK W :=
  { x with
    mem := r.mem
    block_bmi := Function.update x.block_bmi n { x.block_bmi n with mv := r.e_mv } }

/-- The variables of the loop of lines 1460-1480. -/
structure SplitStepState (W : Type) where
  /-- the macroblock -/
  x : MACROBLOCK W
  /-- `n` -/
  n : Int
  /-- `num00` -/
  num00 : Int
  /-- `bestsme` -/
  bestsme : Int
  /-- `mode_mv[NEW4X4]` -/
  new_mv : int_mv

/-- Lines 1460-1480: `while (n < further_steps)`.  Every pass increases `n`
by one, so `further_steps - n` passes of fuel let the loop run to its end. -/
def splitFurtherSteps (sx : SplitExt W) (seg : Segmentation) (blk : Nat)
    (mvp_full ref_mv : int_mv) (step_param sadpb further_steps : Int) :
    Nat → SplitStepState W → SplitStepState W
  | 0, st => st
  | fuel + 1, st =>
    if st.n < further_steps then
      let n := iadd st.n 1
      if st.num00 ≠ 0 then
        splitFurtherSteps sx seg blk mvp_full ref_mv step_param sadpb further_steps fuel
          { st with n := n, num00 := isub st.num00 1 }
      else
        let r := sx.diamond_search_sad st.x seg blk mvp_full (iadd step_param n) sadpb ref_mv
        splitFurtherSteps sx seg blk mvp_full ref_mv step_param sadpb further_steps fuel
          { x := afterSearch st.x blk r, n := n, num00 := r.num00,
            bestsme := if r.ret < st.bestsme then r.ret else st.bestsme,
            new_mv := if r.ret < st.bestsme then r.best_mv else st.new_mv }
    else st

/-- Lines 1415-1434: the predictor `bsi->mvp` for label `i` at reduced
effort. -/
def labelPredictor (sp : SplitParams) (seg : Segmentation) (i : Nat) (x : MACROBLOCK W)
    (bsi : BEST_SEG_INFO) : int_mv :=
  if sp.compressor_speed ≠ 0 then
    let mvp :=
      if seg = BLOCK_8X16 ∨ seg = BLOCK_16X8 then
        if i = 1 ∧ seg = BLOCK_16X8 then bsi.sv_mvp 2 else bsi.sv_mvp i
      else bsi.mvp
    if seg = BLOCK_4X4 ∧ i > 0 then
      if i = 4 ∨ i = 8 ∨ i = 12 then (x.block_bmi (i - 4)).mv else (x.block_bmi (i - 1)).mv
    else mvp
  else bsi.mvp

/-- Lines 1402 and 1415-1434: `step_param` for label `i`. -/
def labelStepParam (sp : SplitParams) (seg : Segmentation) (i : Nat) (bsi : BEST_SEG_INFO) :
    Int :=
  if sp.compressor_speed ≠ 0 then
    if seg = BLOCK_8X16 ∨ seg = BLOCK_16X8 then bsi.sv_istep i
    else if seg = BLOCK_4X4 ∧ i > 0 then 2
    else 0
  else 0

/-- Lines 1436-1481: the first diamond search for block `n` and the further
ones. -/
def diamondStage (sx : SplitExt W) (seg : Segmentation) (n : Nat) (mvp_full ref_mv : int_mv)
    (step_param : Int) (x : MACROBLOCK W) : SplitStepState W :=
  let further_steps := isub (isub sx.MAX_MVSEARCH_STEPS 1) step_param
  let sadpb := sx.sadperbit4 x
  let r := sx.diamond_search_sad x seg n mvp_full step_param sadpb ref_mv
  splitFurtherSteps sx seg n mvp_full ref_mv step_param sadpb further_steps
    (further_steps - r.num00).toNat
    { x := afterSearch x n r, n := r.num00, num00 := 0, bestsme := r.ret,
      new_mv := r.best_mv }

/-- Lines 1483-1505: the full search, made at `compressor_speed == 0` if
`bestsme >> sseshift` is above 4000; `sadpb` is the `x->sadperbit4` read in
line 1439. -/
def fullStage (sx : SplitExt W) (sp : SplitParams) (seg : Segmentation) (n : Nat)
    (mvp_full ref_mv : int_mv) (sadpb : Int) (st : SplitStepState W) : SplitStepState W :=
  if sp.compressor_speed = 0 ∧ sar st.bestsme (segmentation_to_sseshift seg) > 4000 then
    let clamped := sx.vp8_clamp_mv mvp_full st.x.mv_col_min st.x.mv_col_max
      st.x.mv_row_min st.x.mv_row_max
    let f := sx.full_search_sad st.x seg n clamped sadpb ref_mv
    if f.ret < st.bestsme then
      { st with x := afterSearch st.x n f, bestsme := f.ret, new_mv := f.e_mv }
    else
      { st with x := afterSearch st.x n { f with e_mv := st.new_mv } }
  else st

/-- Lines 1508-1516: the fractional search, made if `bestsme < INT_MAX`. -/
def fractionStage (sx : SplitExt W) (seg : Segmentation) (n : Nat) (ref_mv : int_mv)
    (st : SplitStepState W) : SplitStepState W :=
  if st.bestsme < INT_MAX then
    let f := sx.find_fractional_mv_step st.x seg n st.new_mv ref_mv st.x.errorperbit
    { st with x := afterSearch st.x n f, new_mv := f.best_mv }
  else st

/-- Lines 1436-1516: the three stages of the motion search for label `i`,
from the predictor `mvp`. -/
def searchStages (sx : SplitExt W) (sp : SplitParams) (seg : Segmentation) (i : Nat)
    (mvp : int_mv) (s : LabelState W) : SplitStepState W :=
  let step_param := labelStepParam sp seg i s.bsi
  let mvp_full : int_mv := { row := sar mvp.row 3, col := sar mvp.col 3 }
  let n := sx.vp8_mbsplit_offset seg i
  fractionStage sx seg n s.bsi.ref_mv
    (fullStage sx sp seg n mvp_full s.bsi.ref_mv (sx.sadperbit4 s.x)
      (diamondStage sx seg n mvp_full s.bsi.ref_mv step_param s.x))

/-- Lines 1415-1516: the motion search of `NEW4X4` for label `i`, behind the
test of line 1412. -/
def newSearch (sx : SplitExt W) (sp : SplitParams) (seg : Segmentation) (i : Nat)
    (s : LabelState W) : LabelState W :=
  let mvp := labelPredictor sp seg i s.x s.bsi
  let st := searchStages sx sp seg i mvp s
  { s with
    x := st.x
    bsi := { s.bsi with mvp := mvp }
    mode_mv := Function.update s.mode_mv NEW4X4 st.new_mv
    searched := true }

/-- Lines 1519-1547: what the loop over `this_mode` does with a mode once
its vector is known; `ta` and `tl` are the entropy contexts in front of the
label, which every mode starts from. -/
def tryMode (cfg : Config) (ext : Ext W) (sx : SplitExt W) (seg : Segmentation) (i : Nat)
    (ta tl : Nat → Int) (s : LabelState W) (this_mode : B_PREDICTION_MODE) : LabelState W :=
  let labels := sx.vp8_mbsplits seg
  let r := labels2mode cfg ext sx s.x labels (i : Int) this_mode (s.mode_mv this_mode)
    s.bsi.ref_mv
  let s1 := { s with
    x := r.x, mode_mv := Function.update s.mode_mv this_mode r.this_mv, rate := r.cost }
  if outsideWindow s1.x r.this_mv then s1
  else
    let e := sx.vp8_encode_inter_mb_segment s1.x labels (i : Int)
    let x2 := { s1.x with mem := e.1 }
    let distortion := uwrap32 e.2 / 4
    let c := sx.rdcost_mbsegment_y x2 labels (i : Int) ta tl
    let rate := iadd s1.rate c.cost
    let this_rd := rdcost ext x2 rate distortion
    if this_rd < s1.best_label_rd then
      { s1 with
        x := x2, rate := rate, sbr := rate, sbd := distortion, bestlabelyrate := c.cost
        mode_selected := this_mode, best_label_rd := this_rd, ta_b := c.ta, tl_b := c.tl }
    else { s1 with x := x2, rate := rate }

/-- Line 1367: `label_mv_thresh`. -/
def labelMvThresh (sx : SplitExt W) (seg : Segmentation) (bsi : BEST_SEG_INFO) : Int :=
  idiv (imul 1 bsi.mvthresh) (sx.vp8_mbsplit_count seg)

/-- Lines 1383-1397 and 1519-1548 for `LEFT4X4`, `ABOVE4X4` and `ZERO4X4`:
the three modes that reuse a vector. -/
def reuseModes (cfg : Config) (ext : Ext W) (sx : SplitExt W) (seg : Segmentation) (i : Nat)
    (ta tl : Nat → Int) (s : LabelState W) : LabelState W :=
  [LEFT4X4, ABOVE4X4, ZERO4X4].foldl (tryMode cfg ext sx seg i ta tl) s

/-- Lines 1383-1548: the loop over `this_mode` for label `i`.  When
`NEW4X4` is reached, the loop is left by the `break` of line 1413 if
`best_label_rd < label_mv_thresh`. -/
def labelModes (cfg : Config) (ext : Ext W) (sx : SplitExt W) (sp : SplitParams)
    (seg : Segmentation) (i : Nat) (ta tl : Nat → Int) (s : LabelState W) : LabelState W :=
  let s3 := reuseModes cfg ext sx seg i ta tl s
  if s3.best_label_rd < labelMvThresh sx seg s3.bsi then s3
  else tryMode cfg ext sx seg i ta tl (newSearch sx sp seg i s3) NEW4X4

/-- What the loop over the labels did for one label (not a variable of the
code). -/
structure GroupEvent where
  /-- the label `i` -/
  label : Nat
  /-- `this_segment_rd` in front of the label -/
  before : Int
  /-- `best_label_rd` behind the loop over `this_mode` -/
  best_label_rd : Int
  /-- `this_segment_rd` behind line 1559 -/
  after : Int
  /-- `mode_selected` -/
  mode_selected : B_PREDICTION_MODE
  /-- `mode_mv[mode_selected]`, the vector line 1553 hands to `labels2mode` -/
  mv : int_mv
  /-- `best_label_rd` when `NEW4X4` was reached -/
  reuse_rd : Int
  /-- whether the motion search of `NEW4X4` was run -/
  searched : Bool
  /-- `x->mv_row_min` -/
  mv_row_min : Int
  /-- `x->mv_row_max` -/
  mv_row_max : Int
  /-- `x->mv_col_min` -/
  mv_col_min : Int
  /-- `x->mv_col_max` -/
  mv_col_max : Int
  deriving DecidableEq

/-- The variables that live across the loop over the labels (lines
1375-1564). -/
structure SegState (W : Type) where
  /-- the macroblock -/
  x : MACROBLOCK W
  /-- `*bsi` -/
  bsi : BEST_SEG_INFO
  /-- `br` -/
  br : Int
  /-- `bd` -/
  bd : Int
  /-- `segmentyrate` -/
  segmentyrate : Int
  /-- `this_segment_rd` -/
  this_segment_rd : Int
  /-- `rate` -/
  rate : Int
  /-- `sbr` -/
  sbr : Int
  /-- `sbd` -/
  sbd : Int
  /-- `t_above` -/
  ta : Nat → Int
  /-- `t_left` -/
  tl : Nat → Int
  /-- `t_above_b` -/
  ta_b : Nat → Int
  /-- `t_left_b` -/
  tl_b : Nat → Int
  /-- what was done for the labels gone through, the first label first (not
  a variable of the code) -/
  groups : List GroupEvent

/-- Lines 1377-1559: the body of the loop over the labels for label `i`. -/
def checkLabel (cfg : Config) (ext : Ext W) (sx : SplitExt W) (sp : SplitParams)
    (seg : Segmentation) (st : SegState W) (i : Nat) : SegState W :=
  let s0 : LabelState W :=
    { x := st.x, bsi := st.bsi, mode_mv := sx.stale_mode_mv i, rate := st.rate,
      sbr := st.sbr, sbd := st.sbd, bestlabelyrate := 0, mode_selected := ZERO4X4,
      best_label_rd := INT_MAX, ta_b := st.ta_b, tl_b := st.tl_b, searched := false }
  let s := labelModes cfg ext sx sp seg i st.ta st.tl s0
  let r := labels2mode cfg ext sx s.x (sx.vp8_mbsplits seg) (i : Int) s.mode_selected
    (s.mode_mv s.mode_selected) s.bsi.ref_mv
  let after := iadd st.this_segment_rd s.best_label_rd
  { x := r.x, bsi := s.bsi
    br := iadd st.br s.sbr
    bd := iadd st.bd s.sbd
    segmentyrate := iadd st.segmentyrate s.bestlabelyrate
    this_segment_rd := after
    rate := s.rate, sbr := s.sbr, sbd := s.sbd
    ta := s.ta_b, tl := s.tl_b, ta_b := s.ta_b, tl_b := s.tl_b
    groups := st.groups ++
      [{ label := i, before := st.this_segment_rd, best_label_rd := s.best_label_rd,
         after := after, mode_selected := s.mode_selected,
         mv := s.mode_mv s.mode_selected,
         reuse_rd := (reuseModes cfg ext sx seg i st.ta st.tl s0).best_label_rd,
         searched := s.searched,
         mv_row_min := s.x.mv_row_min, mv_row_max := s.x.mv_row_max,
         mv_col_min := s.x.mv_col_min, mv_col_max := s.x.mv_col_max }] }

/-- Lines 1375-1564: the loop over the labels in the list, left by the
`break` of line 1562 once `this_segment_rd >= bsi->segment_rd`. -/
def labelLoop (cfg : Config) (ext : Ext W) (sx : SplitExt W) (sp : SplitParams)
    (seg : Segmentation) : List Nat → SegState W → SegState W
  | [], st => st
  | i :: rest, st =>
    let st1 := checkLabel cfg ext sx sp seg st i
    if st1.this_segment_rd ≥ st1.bsi.segment_rd then st1
    else labelLoop cfg ext sx sp seg rest st1

/-- What a call of `rd_check_segment` did (not a variable of the code). -/
structure CheckEvent where
  /-- the segmentation checked -/
  segmentation : Segmentation
  /-- `bsi->segment_rd` on entry -/
  incoming : Int
  /-- `this_segment_rd` behind line 1372, in front of the first label -/
  overhead : Int
  /-- what was done for the labels gone through -/
  groups : List GroupEvent
  /-- `this_segment_rd` behind the loop over the labels -/
  this_segment_rd : Int
  /-- whether lines 1568-1582 were run -/
  recorded : Bool
  deriving DecidableEq

/-- Result of `rd_check_segment`. -/
structure CheckResult (W : Type) where
  /-- the macroblock after the call -/
  x : MACROBLOCK W
  /-- `*bsi` after the call -/
  bsi : BEST_SEG_INFO
  /-- what the call did -/
  ev : CheckEvent

/-- Lines 1348-1373: the state in front of the loop over the labels. -/
def checkInit (ext : Ext W) (sx : SplitExt W) (x : MACROBLOCK W) (bsi : BEST_SEG_INFO)
    (seg : Segmentation) : SegState W :=
  let rate := iadd (sx.mbsplit_cost seg) (ext.vp8_cost_mv_ref SPLITMV bsi.mdcounts)
  { x := x, bsi := bsi
    br := iadd 0 rate, bd := 0, segmentyrate := 0
    this_segment_rd := iadd 0 (rdcost ext x rate 0)
    rate := rate, sbr := 0, sbd := 0
    ta := sx.above_context x, tl := sx.left_context x
    ta_b := sx.stale_above_b, tl_b := sx.stale_left_b
    groups := [] }

/-- Lines 1568-1582: the segmentation checked becomes the best one. -/
def recordSegmentation (ext : Ext W) (seg : Segmentation) (st : SegState W) : BEST_SEG_INFO :=
  { st.bsi with
    r := st.br, d := st.bd, segment_yrate := st.segmentyrate
    segment_rd := st.this_segment_rd, segment_num := seg
    mvs := fun i => if i < 16 then st.x.partition_info.bmi_mv i else st.bsi.mvs i
    modes := fun i => if i < 16 then st.x.partition_info.bmi_mode i else st.bsi.modes i
    eobs := fun i => if i < 16 then ext.block_eob st.x i % 256 else st.bsi.eobs i }

/-- Function `rd_check_segment` (lines 1321-1584). -/
def rd_check_segment (cfg : Config) (ext : Ext W) (sx : SplitExt W) (sp : SplitParams)
    (x : MACROBLOCK W) (bsi : BEST_SEG_INFO) (seg : Segmentation) : CheckResult W :=
  let st0 := checkInit ext sx x bsi seg
  let st := labelLoop cfg ext sx sp seg (List.range (sx.vp8_mbsplit_count seg)) st0
  let recorded := decide (st.this_segment_rd < st.bsi.segment_rd)
  { x := st.x
    bsi := if recorded = true then recordSegmentation ext seg st else st.bsi
    ev := { segmentation := seg, incoming := bsi.segment_rd,
            overhead := st0.this_segment_rd, groups := st.groups,
            this_segment_rd := st.this_segment_rd, recorded := recorded } }

/-! ### `vp8_rd_pick_best_mbsegmentation` (lines 1586-1736) -/

/-- The loop `while (sr >>= 1) step++` of `vp8_cal_step_param` (line 1594);
an `int` is 0 after 32 shifts at the latest. -/
def shiftCount : Nat → Int → Int → Int
  | 0, _, step => step
  | fuel + 1, sr, step =>
    if sar sr 1 ≠ 0 then shiftCount fuel (sar sr 1) (iadd step 1) else step

/-- Function `vp8_cal_step_param` (lines 1586-1598): `*sp` after the call. -/
def vp8_cal_step_param (sx : SplitExt W) (sr : Int) : Int :=
  let sr := if sr > sx.MAX_FIRST_STEP then sx.MAX_FIRST_STEP else if sr < 1 then 1 else sr
  isub (isub sx.MAX_MVSEARCH_STEPS 1) (shiftCount 32 sr 0)

/-- `abs` of an `int`. -/
def iabs (a : Int) : Int := if a < 0 then isub 0 a else a

/-- The search range of lines 1668, 1671, 1679 and 1682:
`MAXF(abs(a.row - b.row) >> 3, abs(a.col - b.col) >> 3)`. -/
def vectorDistance (a b : int_mv) : Int :=
  let dr := sar (iabs (isub a.row b.row)) 3
  let dc := sar (iabs (isub a.col b.col)) 3
  if dr > dc then dr else dc

/-- Lines 1609-1620: the `BEST_SEG_INFO` in front of the first check. -/
def bsiInit (cfg : Config) (best_ref_mv : int_mv) (best_rd : Int) (mdcounts : Nat → Int)
    (mvthresh : Int) : BEST_SEG_INFO :=
  { ref_mv := best_ref_mv, mvp := best_ref_mv, segment_rd := best_rd
    segment_num := BLOCK_16X8, r := 0, d := 0, segment_yrate := 0
    modes := fun _ => ZERO4X4.toInt cfg
    mvs := fun _ => zero_mv, eobs := fun _ => 0
    mvthresh := mvthresh, mdcounts := mdcounts
    sv_mvp := fun _ => zero_mv, sv_istep := fun _ => 0 }

/-- The state between the checks of `vp8_rd_pick_best_mbsegmentation`. -/
structure PickSegState (W : Type) where
  /-- the macroblock -/
  x : MACROBLOCK W
  /-- `bsi` -/
  bsi : BEST_SEG_INFO
  /-- the checks made so far, the first one first (not a variable of the
  code) -/
  trace : List CheckEvent

/-- A call `rd_check_segment(cpi, x, &bsi, segmentation)`. -/
def checkStep (cfg : Config) (ext : Ext W) (sx : SplitExt W) (sp : SplitParams)
    (seg : Segmentation) (s : PickSegState W) : PickSegState W :=
  let r := rd_check_segment cfg ext sx sp s.x s.bsi seg
  { x := r.x, bsi := r.bsi, trace := s.trace ++ [r.ev] }

/-- Lines 1626-1629: the four checks at `compressor_speed == 0`. -/
def bestQualityChecks (cfg : Config) (ext : Ext W) (sx : SplitExt W) (sp : SplitParams)
    (s : PickSegState W) : PickSegState W :=
  checkStep cfg ext sx sp BLOCK_4X4
    (checkStep cfg ext sx sp BLOCK_8X8
      (checkStep cfg ext sx sp BLOCK_8X16
        (checkStep cfg ext sx sp BLOCK_16X8 s)))

/-- Lines 1639-1657: the window narrowed to the vectors within
`MAX_FULL_PEL_VAL` of `best_ref_mv`. -/
def narrowWindow (cfg : Config) (best_ref_mv : int_mv) (x : MACROBLOCK W) : MACROBLOCK W :=
  let col_min := iadd (isub (sar best_ref_mv.col 3) cfg.MAX_FULL_PEL_VAL)
    (if best_ref_mv.col % 8 ≠ 0 then 1 else 0)
  let row_min := iadd (isub (sar best_ref_mv.row 3) cfg.MAX_FULL_PEL_VAL)
    (if best_ref_mv.row % 8 ≠ 0 then 1 else 0)
  let col_max := iadd (sar best_ref_mv.col 3) cfg.MAX_FULL_PEL_VAL
  let row_max := iadd (sar best_ref_mv.row 3) cfg.MAX_FULL_PEL_VAL
  { x with
    mv_col_min := if x.mv_col_min < col_min then col_min else x.mv_col_min
    mv_col_max := if x.mv_col_max > col_max then col_max else x.mv_col_max
    mv_row_min := if x.mv_row_min < row_min then row_min else x.mv_row_min
    mv_row_max := if x.mv_row_max > row_max then row_max else x.mv_row_max }

/-- Lines 1660-1663: the vectors of the four quadrants are saved. -/
def saveQuadrants (bsi : BEST_SEG_INFO) : BEST_SEG_INFO :=
  { bsi with
    sv_mvp := fun k =>
      if k = 0 then bsi.mvs 0 else if k = 1 then bsi.mvs 2
      else if k = 2 then bsi.mvs 8 else if k = 3 then bsi.mvs 10 else bsi.sv_mvp k }

/-- The two assignments to `sv_istep` in front of a check of two halves
(lines 1668-1672 and 1679-1683); `a0`, `a1` and `b0`, `b1` are the indices
into `sv_mvp` of the two pairs of quadrants compared. -/
def setSteps (sx : SplitExt W) (a0 a1 b0 b1 : Nat) (bsi : BEST_SEG_INFO) : BEST_SEG_INFO :=
  { bsi with
    sv_istep := fun k =>
      if k = 0 then vp8_cal_step_param sx (vectorDistance (bsi.sv_mvp a0) (bsi.sv_mvp a1))
      else if k = 1 then
        vp8_cal_step_param sx (vectorDistance (bsi.sv_mvp b0) (bsi.sv_mvp b1))
      else bsi.sv_istep k }

/-- Lines 1644-1686: inside the narrowed window, the checks of the two
kinds of halves, steered by the vectors of the quadrants. -/
def halvesChecks (cfg : Config) (ext : Ext W) (sx : SplitExt W) (sp : SplitParams)
    (best_ref_mv : int_mv) (s : PickSegState W) : PickSegState W :=
  let s1 : PickSegState W :=
    { s with x := narrowWindow cfg best_ref_mv s.x, bsi := saveQuadrants s.bsi }
  let s2 := checkStep cfg ext sx sp BLOCK_8X16 { s1 with bsi := setSteps sx 0 2 1 3 s1.bsi }
  checkStep cfg ext sx sp BLOCK_16X8 { s2 with bsi := setSteps sx 0 1 2 3 s2.bsi }

/-- Lines 1690-1694: the check of the sixteen blocks, made if
`cpi->sf.no_skip_block4x4_search` is set or the quadrants are the best
segmentation. -/
def finestCheck (cfg : Config) (ext : Ext W) (sx : SplitExt W) (sp : SplitParams)
    (s : PickSegState W) : PickSegState W :=
  if sp.no_skip_block4x4_search ≠ 0 ∨ s.bsi.segment_num = BLOCK_8X8 then
    checkStep cfg ext sx sp BLOCK_4X4 { s with bsi := { s.bsi with mvp := s.bsi.sv_mvp 0 } }
  else s

/-- Lines 1697-1700: the window is set back to the one of `x0`. -/
def restoreWindow (x0 x : MACROBLOCK W) : MACROBLOCK W :=
  { x with
    mv_col_min := x0.mv_col_min, mv_col_max := x0.mv_col_max
    mv_row_min := x0.mv_row_min, mv_row_max := x0.mv_row_max }

/-- Lines 1633-1701: the checks at reduced effort. -/
def reducedEffortChecks (cfg : Config) (ext : Ext W) (sx : SplitExt W) (sp : SplitParams)
    (best_ref_mv : int_mv) (best_rd : Int) (s : PickSegState W) : PickSegState W :=
  let s1 := checkStep cfg ext sx sp BLOCK_8X8 s
  if s1.bsi.segment_rd < best_rd then
    let s2 := finestCheck cfg ext sx sp (halvesChecks cfg ext sx sp best_ref_mv s1)
    { s2 with x := restoreWindow s1.x s2.x }
  else s1

/-- Lines 1622-1702: the checks of `vp8_rd_pick_best_mbsegmentation`. -/
def segmentChecks (cfg : Config) (ext : Ext W) (sx : SplitExt W) (sp : SplitParams)
    (x : MACROBLOCK W) (best_ref_mv : int_mv) (best_rd : Int) (mdcounts : Nat → Int)
    (mvthresh : Int) : PickSegState W :=
  let s0 : PickSegState W :=
    { x := x, bsi := bsiInit cfg best_ref_mv best_rd mdcounts mvthresh, trace := [] }
  if sp.compressor_speed = 0 then bestQualityChecks cfg ext sx sp s0
  else reducedEffortChecks cfg ext sx sp best_ref_mv best_rd s0

/-- Lines 1721-1733: the partitions of the best segmentation are stored in
`x->partition_info`. -/
def savePartitions (sx : SplitExt W) (bsi : BEST_SEG_INFO) (p : PARTITION_INFO) :
    PARTITION_INFO :=
  let count := sx.vp8_mbsplit_count bsi.segment_num
  let mode : Nat → Int := fun i =>
    if i < count then bsi.modes (sx.vp8_mbsplit_offset bsi.segment_num i) else p.bmi_mode i
  let mv : Nat → int_mv := fun i =>
    if i < count then bsi.mvs (sx.vp8_mbsplit_offset bsi.segment_num i) else p.bmi_mv i
  { count := count, bmi_mode := mode, bmi_mv := Function.update mv 15 (bsi.mvs 15) }

/-- Lines 1704-1733: the best segmentation is written to the macroblock. -/
def commitSegmentation (sx : SplitExt W) (bsi : BEST_SEG_INFO) (x : MACROBLOCK W) :
    MACROBLOCK W :=
  { x with
    block_bmi := fun i => if i < 16 then { x.block_bmi i with mv := bsi.mvs i } else x.block_bmi i
    mem := (List.range 16).foldl (fun m i => sx.set_block_eob m i (bsi.eobs i)) x.mem
    mbmi := { x.mbmi with partitioning := bsi.segment_num.toInt }
    partition_info := savePartitions sx bsi x.partition_info }

/-- Result of `vp8_rd_pick_best_mbsegmentation`. -/
structure SplitResult (W : Type) where
  /-- the macroblock after the call -/
  x : MACROBLOCK W
  /-- the returned value -/
  ret : Int
  /-- `*returntotrate` -/
  returntotrate : Int
  /-- `*returnyrate` -/
  returnyrate : Int
  /-- `*returndistortion` -/
  returndistortion : Int
  /-- `bsi` at the end of the call (not a result of the code) -/
  bsi : BEST_SEG_INFO
  /-- the checks made, the first one first (not a result of the code) -/
  trace : List CheckEvent

/-- Function `vp8_rd_pick_best_mbsegmentation` (lines 1600-1736). -/
def vp8_rd_pick_best_mbsegmentation (cfg : Config) (ext : Ext W) (sx : SplitExt W)
    (sp : SplitParams) (x : MACROBLOCK W) (best_ref_mv : int_mv) (best_rd : Int)
    (mdcounts : Nat → Int) (mvthresh : Int) : SplitResult W :=
  let s := segmentChecks cfg ext sx sp x best_ref_mv best_rd mdcounts mvthresh
  { x := commitSegmentation sx s.bsi s.x
    ret := s.bsi.segment_rd
    returntotrate := s.bsi.r
    returnyrate := s.bsi.segment_yrate
    returndistortion := s.bsi.d
    bsi := s.bsi
    trace := s.trace }

/-! ### Notions for the statements about the partition search -/

/-- The window of legal vectors: `mv_row_min`, `mv_row_max`, `mv_col_min` and
`mv_col_max`. -/
def MACROBLOCK.window (x : MACROBLOCK W) : Int × Int × Int × Int :=
  (x.mv_row_min, x.mv_row_max, x.mv_col_min, x.mv_col_max)

/-- The window that was in force for a label. -/
def GroupEvent.window (g : GroupEvent) : Int × Int × Int × Int :=
  (g.mv_row_min, g.mv_row_max, g.mv_col_min, g.mv_col_max)

/-- The vector of the mode selected for a label passes the test of lines
1523-1524 with the window that was in force for the label. -/
def GroupEvent.vectorInside (g : GroupEvent) : Prop :=
  g.mv_row_min ≤ sar g.mv.row 3 ∧ sar g.mv.row 3 ≤ g.mv_row_max ∧
    g.mv_col_min ≤ sar g.mv.col 3 ∧ sar g.mv.col 3 ≤ g.mv_col_max

instance (g : GroupEvent) : Decidable g.vectorInside := by
  unfold GroupEvent.vectorInside
  infer_instance

/-- A `BEST_SEG_INFO` without its field `mvp`, the only one the loop over the
labels writes. -/
def BEST_SEG_INFO.core (b : BEST_SEG_INFO) : BEST_SEG_INFO := { b with mvp := zero_mv }

/-- The running cost of the events of a list starts at `start`, every event
adds its `best_label_rd` to the cost in front of it with the addition of
`int`, and every event but the last leaves a cost below `limit`; `final` is
the cost behind the last event. -/
def GroupsLinked (limit : Int) : Int → List GroupEvent → Int → Prop
  | start, [], final => final = start
  | start, g :: gs, final =>
    g.before = start ∧ g.after = iadd g.before g.best_label_rd ∧
      (gs ≠ [] → g.after < limit) ∧ GroupsLinked limit g.after gs final

/-- One of `LEFT4X4`, `ABOVE4X4` and `ZERO4X4`. -/
def B_PREDICTION_MODE.reuses (m : B_PREDICTION_MODE) : Prop :=
  m = LEFT4X4 ∨ m = ABOVE4X4 ∨ m = ZERO4X4

instance (m : B_PREDICTION_MODE) : Decidable m.reuses := by
  unfold B_PREDICTION_MODE.reuses
  infer_instance

/-- What holds of the variables of a label while its modes are tried: the
modes in `tried` are the ones tried so far. -/
structure LabelInv (s0 s : LabelState W) (tried : List B_PREDICTION_MODE) : Prop where
  /-- the window is the one in front of the label -/
  window : s.x.window = s0.x.window
  /-- `*bsi` is as in front of the label but for `mvp` -/
  core : s.bsi.core = s0.bsi.core
  /-- `best_label_rd` is an `int` -/
  int32 : IsInt32 s.best_label_rd
  /-- without a mode taken, the selected mode is the initial one -/
  initial : s.best_label_rd = INT_MAX → s.mode_selected = s0.mode_selected
  /-- a mode taken is one of the modes tried, with a vector inside the
  window -/
  taken : s.best_label_rd < INT_MAX →
    s.mode_selected ∈ tried ∧ ¬ outsideWindow s0.x (s.mode_mv s.mode_selected)

/-- What holds of the event of a label: `thresh` is `label_mv_thresh` and
`w` the window in force. -/
structure GroupFacts (thresh : Int) (w : Int × Int × Int × Int) (g : GroupEvent) : Prop where
  /-- the window of the event is the one in force -/
  window : g.window = w
  /-- `best_label_rd` is an `int` -/
  int32 : IsInt32 g.best_label_rd
  /-- line 1559 -/
  sum : g.after = iadd g.before g.best_label_rd
  /-- a mode that was taken has its vector inside the window -/
  inside : g.best_label_rd < INT_MAX → g.vectorInside
  /-- without a mode taken, the selected mode is the initial `ZERO4X4` -/
  initial : g.best_label_rd = INT_MAX → g.mode_selected = ZERO4X4
  /-- the search of `NEW4X4` is run unless line 1412 leaves the loop -/
  searched : g.searched = true ↔ ¬ g.reuse_rd < thresh
  /-- without the search, the three modes that reuse a vector decide -/
  skipped : g.searched = false → g.mode_selected.reuses ∧ g.best_label_rd = g.reuse_rd

/-- What holds of a call of `rd_check_segment` for segmentation `seg` with
the macroblock `x` and `*bsi` as `bsi`. -/
structure CheckFacts (sx : SplitExt W) (x : MACROBLOCK W) (bsi : BEST_SEG_INFO)
    (seg : Segmentation) (r : CheckResult W) : Prop where
  /-- the window is left as it was -/
  window : r.x.window = x.window
  /-- the event names the segmentation -/
  segmentation : r.ev.segmentation = seg
  /-- the event gives `bsi->segment_rd` on entry -/
  incoming : r.ev.incoming = bsi.segment_rd
  /-- the cost in front of the first label is an `int` -/
  overhead : IsInt32 r.ev.overhead
  /-- lines 1566: the segmentation is recorded if its cost is below
  `bsi->segment_rd` -/
  recorded : r.ev.recorded = decide (r.ev.this_segment_rd < bsi.segment_rd)
  /-- a segmentation that is not recorded leaves `*bsi` but for `mvp` -/
  kept : r.ev.recorded = false → r.bsi.core = bsi.core
  /-- a segmentation that is recorded sets `segment_rd` and `segment_num` and
  leaves what is not part of the record but for `mvp` -/
  stored : r.ev.recorded = true →
    r.bsi.segment_rd = r.ev.this_segment_rd ∧ r.bsi.segment_num = seg ∧
    r.bsi.mvthresh = bsi.mvthresh ∧ r.bsi.ref_mv = bsi.ref_mv ∧ r.bsi.mdcounts = bsi.mdcounts
  /-- the costs of the labels add up -/
  linked : GroupsLinked bsi.segment_rd r.ev.overhead r.ev.groups r.ev.this_segment_rd
  /-- the events of the labels -/
  groups : ∀ g ∈ r.ev.groups, GroupFacts (labelMvThresh sx seg bsi) x.window g

/-- What holds of the event of a check made by
`vp8_rd_pick_best_mbsegmentation` with the argument `mvthresh`. -/
structure EventFacts (sx : SplitExt W) (mvthresh : Int) (e : CheckEvent) : Prop where
  /-- the cost in front of the first label is an `int` -/
  overhead : IsInt32 e.overhead
  /-- line 1566 -/
  recorded : e.recorded = decide (e.this_segment_rd < e.incoming)
  /-- the costs of the labels add up -/
  linked : GroupsLinked e.incoming e.overhead e.groups e.this_segment_rd
  /-- the events of the labels -/
  groups : ∀ g ∈ e.groups,
    GroupFacts (idiv (imul 1 mvthresh) (sx.vp8_mbsplit_count e.segmentation)) g.window g

/-- What holds between the checks of `vp8_rd_pick_best_mbsegmentation` called
with `best_rd` and `mvthresh`; `init` is the record in front of the first
check. -/
structure SegInv (sx : SplitExt W) (mvthresh best_rd : Int) (init : SegRecord)
    (s : PickSegState W) : Prop where
  /-- the best cost never exceeds `best_rd` -/
  le : s.bsi.segment_rd ≤ best_rd
  /-- `mvthresh` is not written -/
  thresh : s.bsi.mvthresh = mvthresh
  /-- without a recorded check the record is the initial one -/
  untouched : (∀ e ∈ s.trace, e.recorded = false) → s.bsi.record = init
  /-- the record is the initial one or the one of a recorded check -/
  last : s.bsi.record = init ∨
    ∃ e ∈ s.trace, e.recorded = true ∧ e.this_segment_rd = s.bsi.segment_rd ∧
      e.segmentation = s.bsi.segment_num ∧ s.bsi.segment_rd < best_rd
  /-- the events of the checks -/
  events : ∀ e ∈ s.trace, EventFacts sx mvthresh e

end PartitionSearch

/-! ### The variables in front of a label and in front of its modes -/

section PartitionLabels

variable {W : Type}

/-- Lines 1377-1380 and the locals of the loop over `this_mode`: the
variables in front of the first mode of label `i`, from the variables `st`
of the loop over the labels (`best_label_rd = INT_MAX`,
`mode_selected = ZERO4X4`, `bestlabelyrate = 0`, and `mode_mv` with what
the local array holds before it is written). -/
def labelStart (sx : SplitExt W) (st : SegState W) (i : Nat) : LabelState W :=
  { x := st.x, bsi := st.bsi, mode_mv := sx.stale_mode_mv i, rate := st.rate,
    sbr := st.sbr, sbd := st.sbd, bestlabelyrate := 0, mode_selected := ZERO4X4,
    best_label_rd := INT_MAX, ta_b := st.ta_b, tl_b := st.tl_b, searched := false }

/-- The variables of `rd_check_segment` in front of label `i`: lines
1348-1373 and the loop over the labels before `i`. -/
def beforeLabel (cfg : Config) (ext : Ext W) (sx : SplitExt W) (sp : SplitParams)
    (x : MACROBLOCK W) (bsi : BEST_SEG_INFO) (seg : Segmentation) (i : Nat) : SegState W :=
  labelLoop cfg ext sx sp seg (List.range i) (checkInit ext sx x bsi seg)

end PartitionLabels

/-! ## `insertsortsad` and `vp8_cal_sad` (lines 1762-1788 and 1939-1994) -/

/-- The body of the loop over `j` of `insertsortsad` (lines 1770-1785): if
`arr[j] > arr[i]`, the entries `i` of both arrays are taken out, the entries
from `j` to `i - 1` of both arrays move up by one place, and the entries
taken out are stored at `j`.  The pair is `(arr, idx)`. -/
def sadStep (i : Nat) (p : List Int × List Int) (j : Nat) : List Int × List Int :=
  if p.1.getD j 0 > p.1.getD i 0 then
    ((shiftUp 0 p.1 j i).set j (p.1.getD i 0), (shiftUp 0 p.2 j i).set j (p.2.getD i 0))
  else p

/-- The loop `for (j = 0; j < i; j++)` of `insertsortsad`. -/
def sadPass (p : List Int × List Int) (i : Nat) : List Int × List Int :=
  (List.range i).foldl (sadStep i) p

/-- Function `insertsortsad` (lines 1762-1788): the arrays `arr` and `idx`
after the call. -/
def insertsortsad (arr idx : List Int) (len : Nat) : List Int × List Int :=
  (List.range' 1 (len - 1)).foldl sadPass (arr, idx)

/-- What `vp8_cal_sad` reads: the distances of the macroblock to the frame
edges, the type of the last frame, and the values the calls of
`cpi->fn_ptr[BLOCK_16X16].sdf` return, numbered by the entry of `near_sad`
they are stored in. -/
structure CalSadInput where
  /-- `xd->mb_to_top_edge` -/
  mb_to_top_edge : Int
  /-- `xd->mb_to_left_edge` -/
  mb_to_left_edge : Int
  /-- `xd->mb_to_right_edge` -/
  mb_to_right_edge : Int
  /-- `xd->mb_to_bottom_edge` -/
  mb_to_bottom_edge : Int
  /-- `cpi->common.last_frame_type == KEY_FRAME` -/
  last_frame_is_key : Bool
  /-- the `unsigned int` the call of `sdf` for `near_sad[k]` returns -/
  sdf : Nat → Int

/-- Lines 1942-1963 of `vp8_cal_sad`: the entries 0 to 2 of `near_sad`, for
the three neighbours in the current frame. -/
def nearSadCurrent (c : CalSadInput) : List Int :=
  if c.mb_to_top_edge = 0 ∧ c.mb_to_left_edge = 0 then [INT_MAX, INT_MAX, INT_MAX]
  else if c.mb_to_top_edge = 0 then [INT_MAX, wrap32 (c.sdf 1), INT_MAX]
  else if c.mb_to_left_edge = 0 then [wrap32 (c.sdf 0), INT_MAX, INT_MAX]
  else [wrap32 (c.sdf 0), wrap32 (c.sdf 1), wrap32 (c.sdf 2)]

/-- Lines 1965-1985 of `vp8_cal_sad`: the entries 3 to 7 of `near_sad`, for
the macroblock at the same place in the last frame and its four neighbours.
They keep their initial value 0 behind a key frame; an entry at a frame edge
is `INT_MAX`, the others are filled by `sdf`. -/
def nearSadLast (c : CalSadInput) : List Int :=
  if c.last_frame_is_key = false then
    [wrap32 (c.sdf 3),
     if c.mb_to_top_edge = 0 then INT_MAX else wrap32 (c.sdf 4),
     if c.mb_to_left_edge = 0 then INT_MAX else wrap32 (c.sdf 5),
     if c.mb_to_right_edge = 0 then INT_MAX else wrap32 (c.sdf 6),
     if c.mb_to_bottom_edge = 0 then INT_MAX else wrap32 (c.sdf 7)]
  else [0, 0, 0, 0, 0]

/-- The array `near_sad[8]` of `vp8_cal_sad` in front of the sort. -/
def nearSad (c : CalSadInput) : List Int := nearSadCurrent c ++ nearSadLast c

/-- Function `vp8_cal_sad` (lines 1939-1994): `near_sadidx` after the call. -/
def vp8_cal_sad (c : CalSadInput) (near_sadidx : List Int) : List Int :=
  if c.last_frame_is_key = false then (insertsortsad (nearSad c) near_sadidx 8).2
  else (insertsortsad (nearSad c) near_sadidx 3).2

/-- The two arrays of `insertsortsad` as one list of pairs
`(arr[k], idx[k])`. -/
def sadPairs (p : List Int × List Int) : List (Int × Int) := p.1.zip p.2

/-! ## The rate of a candidate without coefficients -/

section SkipRate

variable {W : Type}

/-- The rate of a candidate all of whose blocks are without coefficients,
for the state `s` and the locals `v` the `switch` was left with: the rate
`rate2` of the `switch`, the cost of the dual-prediction flag (hybrid
prediction only) and of the reference frame, no `rate_y` and no `rate_uv`,
and the cost of the skip flag: that of a 1 when `prob_skip_false` is not 0,
that of a 0 when it is 0. -/
def skipRate (cfg : Config) (ext : Ext W) (s : PickState W) (v : IterVars) : Int :=
  wrap32 (s.l.rate2 +
    (if cfg.CONFIG_DUALPRED = true ∧ s.cpi.dual_pred_mode = HYBRID_PREDICTION then
      v.dualmode_cost else 0) +
    refCost cfg ext s - (s.l.rate_y + s.l.rate_uv) +
    (if s.cpi.prob_skip_false ≠ 0 then ext.vp8_cost_bit s.cpi.prob_skip_false 1
     else ext.vp8_cost_bit s.cpi.prob_skip_false 0))

end SkipRate

/-! ## Candidate 0 of a call: ZEROMV on the last frame -/

section ZeroLast

variable {W : Type}

/-- The state in which candidate 0 of a call, ZEROMV on the last frame,
enters the `switch` of line 2351. -/
def zeroLastEntry (cfg : Config) (ext : Ext W) (cpi : VP8_COMP) (x : MACROBLOCK W)
    (l0 : Locals) : PickState W :=
  zbinBoost cfg ext 0 (setupInter (loadCandidate cfg 0 (pickInit cfg ext cpi x l0)))

/-- The macroblock of candidate 0 of a call behind line 2621: the mode and
the zero vector are set and the luma prediction from the last frame is
built. -/
def zeroLastPredicted (cfg : Config) (ext : Ext W) (cpi : VP8_COMP) (x : MACROBLOCK W)
    (l0 : Locals) : MACROBLOCK W :=
  ext.vp8_build_inter16x16_predictors_mby
    (vp8_set_mbmode_and_mvs (zeroLastEntry cfg ext cpi x l0).x ZEROMV zero_mv)

end ZeroLast

/-! ## A call with the split-motion candidates switched off -/

section WithoutSplit

variable {W : Type}

/-- A threshold table with `INT_MAX` for every SPLITMV candidate. -/
def disableSplit (cfg : Config) (thr : Nat → Int) : Nat → Int :=
  fun i => if (vp8_mode_order cfg).getD i DC_PRED = SPLITMV then INT_MAX else thr i

/-- The encoder instance with the SPLITMV candidates switched off by their
thresholds, everything else as it is. -/
def VP8_COMP.withoutSplit (cfg : Config) (cpi : VP8_COMP) : VP8_COMP :=
  { cpi with rd_threshes := disableSplit cfg cpi.rd_threshes }

/-- A state of the selector with the SPLITMV candidates switched off. -/
def PickState.withoutSplit (cfg : Config) (s : PickState W) : PickState W :=
  { s with cpi := s.cpi.withoutSplit cfg }

/-- The end of a `switch` with the SPLITMV candidates switched off. -/
def SwitchResult.withoutSplit (cfg : Config) : SwitchResult W → SwitchResult W
  | SwitchResult.cont s => SwitchResult.cont (s.withoutSplit cfg)
  | SwitchResult.done s v => SwitchResult.done (s.withoutSplit cfg) v

/-- The result of an iteration with the SPLITMV candidates switched off. -/
def Iter.withoutSplit (cfg : Config) (it : Iter W) : Iter W :=
  { it with s := it.s.withoutSplit cfg }

end WithoutSplit

/-! ## Frame buffer allocation (`vp8/common/alloccommon.c`) -/

section Alloc

/-- Structure `YV12_BUFFER_CONFIG`: the field `flags`, and in `rest` the
fields only the buffer routines touch (the declaration is not part of the
sources at hand). -/
structure YV12_BUFFER_CONFIG (B : Type) where
  /-- `flags` -/
  flags : Int
  /-- every other field -/
  rest : B

/-- The constants and build switches `alloccommon.c` takes from its headers. -/
structure AllocConsts where
  /-- `NUM_YV12_BUFFERS` -/
  NUM_YV12_BUFFERS : Nat
  /-- `VP8BORDERINPIXELS` -/
  VP8BORDERINPIXELS : Int
  /-- `sizeof(MODE_INFO)` -/
  sizeof_MODE_INFO : Int
  /-- `sizeof(ENTROPY_CONTEXT_PLANES)` -/
  sizeof_ENTROPY_CONTEXT_PLANES : Int
  /-- the width of `size_t` in bits -/
  size_bits : Nat
  /-- `CONFIG_ERROR_CONCEALMENT` -/
  CONFIG_ERROR_CONCEALMENT : Bool

/-- The memory routines called by `alloccommon.c`, as functions of the
memory `M` they work on.  Addresses are integers and 0 is the null pointer. -/
structure AllocExt (M B : Type) where
  /-- `vp8_yv12_alloc_frame_buffer`, from the buffer, `width`, `height` and
  `border`; the third component is its return value -/
  vp8_yv12_alloc_frame_buffer :
    M → YV12_BUFFER_CONFIG B → Int → Int → Int → M × YV12_BUFFER_CONFIG B × Int
  /-- `vp8_yv12_de_alloc_frame_buffer` -/
  vp8_yv12_de_alloc_frame_buffer : M → YV12_BUFFER_CONFIG B → M × YV12_BUFFER_CONFIG B
  /-- `vpx_calloc`, from `num` and `size`; the second component is the
  address returned -/
  vpx_calloc : M → Int → Int → M × Int
  /-- `vpx_free` -/
  vpx_free : M → Int → M
  /-- `vpx_memset`, from the address, the value and the length -/
  vpx_memset : M → Int → Int → Int → M
  /-- the store `mi->mbmi.mb_in_image = 1` for the `MODE_INFO` at an address -/
  store_mb_in_image : M → Int → Int → M

/-- The fields of `VP8_COMMON` used by `alloccommon.c`. -/
structure VP8_COMMON (B : Type) where
  /-- `yv12_fb[]` -/
  yv12_fb : Nat → YV12_BUFFER_CONFIG B
  /-- `fb_idx_ref_cnt[]` -/
  fb_idx_ref_cnt : Nat → Int
  /-- `new_fb_idx` -/
  new_fb_idx : Int
  /-- `lst_fb_idx` -/
  lst_fb_idx : Int
  /-- `gld_fb_idx` -/
  gld_fb_idx : Int
  /-- `alt_fb_idx` -/
  alt_fb_idx : Int
  /-- `temp_scale_frame` -/
  temp_scale_frame : YV12_BUFFER_CONFIG B
  /-- `post_proc_buffer` -/
  post_proc_buffer : YV12_BUFFER_CONFIG B
  /-- `mb_rows` -/
  mb_rows : Int
  /-- `mb_cols` -/
  mb_cols : Int
  /-- `MBs` -/
  MBs : Int
  /-- `mode_info_stride` -/
  mode_info_stride : Int
  /-- `mip` -/
  mip : Int
  /-- `mi` -/
  mi : Int
  /-- `prev_mip` -/
  prev_mip : Int
  /-- `prev_mi` -/
  prev_mi : Int
  /-- `above_context` -/
  above_context : Int

/-- The common state `*oci` together with the memory. -/
structure AllocState (M B : Type) where
  /-- `*oci` -/
  oci : VP8_COMMON B
  /-- the memory -/
  mem : M

/-- The allocations of `vp8_alloc_frame_buffers`. -/
inductive AllocSite where
  /-- `yv12_fb[i]` -/
  | frame (i : Nat)
  /-- `temp_scale_frame` -/
  | temp_scale_frame
  /-- `post_proc_buffer` -/
  | post_proc_buffer
  /-- `mip` -/
  | mip
  /-- `prev_mip` -/
  | prev_mip
  /-- `above_context` -/
  | above_context
  deriving DecidableEq

/-- The record of one allocation: which one, its two size arguments
(`width` and `height` for a frame buffer, `num` and `size` for
`vpx_calloc`), and whether it succeeded. -/
structure AllocEvent where
  /-- the allocation -/
  site : AllocSite
  /-- the first size argument -/
  a : Int
  /-- the second size argument -/
  b : Int
  /-- the allocation succeeded -/
  ok : Bool
  deriving DecidableEq

/-- What a call of `vp8_alloc_frame_buffers` leaves: the state, the return
value, and the record of the allocations it made, in their order. -/
structure AllocRun (M B : Type) where
  /-- the state on return -/
  st : AllocState M B
  /-- the return value -/
  ret : Int
  /-- the allocations made -/
  log : List AllocEvent

variable {M B : Type}

/-- The conversion of an `int` or a `size_t` product to `size_t`. -/
def toSize (k : AllocConsts) (v : Int) : Int := v % 2 ^ k.size_bits

/-- The address of element `n` of an array of `MODE_INFO` at address `p`. -/
def miAt (k : AllocConsts) (p n : Int) : Int := p + n * k.sizeof_MODE_INFO

/-- Function `update_mode_info_border` (lines 23-36). -/
def update_mode_info_border (k : AllocConsts) (o : AllocExt M B) (cpi : VP8_COMMON B)
    (mem : M) (mi_base : Int) : M :=
  let stride := cpi.mode_info_stride
  let mem := o.vpx_memset mem mi_base 0 (toSize k (k.sizeof_MODE_INFO * toSize k stride))
  (List.range (iadd cpi.mb_rows 1 - 1).toNat).foldl
    (fun mem (j : Nat) =>
      o.vpx_memset mem (miAt k mi_base (imul ((j : Int) + 1) stride)) 0 k.sizeof_MODE_INFO)
    mem

/-- Function `update_mode_info_in_image` (lines 37-55); the second component
of the state of the loops is the walking pointer `mi`. -/
def update_mode_info_in_image (k : AllocConsts) (o : AllocExt M B) (cpi : VP8_COMMON B)
    (mem : M) (mi : Int) : M :=
  ((List.range cpi.mb_rows.toNat).foldl
    (fun (acc : M × Int) (_ : Nat) =>
      let row := (List.range cpi.mb_cols.toNat).foldl
        (fun (acc : M × Int) (_ : Nat) =>
          (o.store_mb_in_image acc.1 acc.2 1, miAt k acc.2 1))
        acc
      (row.1, miAt k row.2 1))
    (mem, mi)).1

/-- Lines 61-62: one frame buffer is released. -/
def deallocFrame (o : AllocExt M B) (st : AllocState M B) (i : Nat) : AllocState M B :=
  let r := o.vp8_yv12_de_alloc_frame_buffer st.mem (st.oci.yv12_fb i)
  { mem := r.1, oci := { st.oci with yv12_fb := Function.update st.oci.yv12_fb i r.2 } }

/-- Function `vp8_de_alloc_frame_buffers` (lines 57-75). -/
def vp8_de_alloc_frame_buffers (k : AllocConsts) (o : AllocExt M B) (st : AllocState M B) :
    AllocState M B :=
  let st := (List.range k.NUM_YV12_BUFFERS).foldl (deallocFrame o) st
  let t := o.vp8_yv12_de_alloc_frame_buffer st.mem st.oci.temp_scale_frame
  let p := o.vp8_yv12_de_alloc_frame_buffer t.1 st.oci.post_proc_buffer
  let mem := o.vpx_free p.1 st.oci.above_context
  let mem := o.vpx_free mem st.oci.mip
  let mem := o.vpx_free mem st.oci.prev_mip
  { mem := mem
    oci := { st.oci with
      temp_scale_frame := t.2, post_proc_buffer := p.2
      above_context := 0, mip := 0, prev_mip := 0 } }

/-- Lines 84-85 and 87-88: a dimension that is not a multiple of 16 is
raised to one. -/
def alignDim (v : Int) : Int :=
  if v % 16 ≠ 0 then iadd v (16 - v % 16) else v

/-- Lines 91-100: the loop over the frame buffers `is`; the last component
tells whether it ran to its end (`false`: an allocation failed). -/
def allocFrames (k : AllocConsts) (o : AllocExt M B) (width height : Int) :
    List Nat → AllocState M B → List AllocEvent → AllocState M B × List AllocEvent × Bool
  | [], st, log => (st, log, true)
  | i :: is, st, log =>
    let fb := { st.oci.yv12_fb i with flags := 0 }
    let r := o.vp8_yv12_alloc_frame_buffer st.mem fb width height k.VP8BORDERINPIXELS
    let st1 : AllocState M B :=
      { mem := r.1
        oci := { st.oci with
          fb_idx_ref_cnt := Function.update st.oci.fb_idx_ref_cnt i 0
          yv12_fb := Function.update st.oci.yv12_fb i r.2.1 } }
    if r.2.2 < 0 then (st1, log ++ [{ site := AllocSite.frame i, a := width, b := height,
                                      ok := false }], false)
    else allocFrames k o width height is st1
      (log ++ [{ site := AllocSite.frame i, a := width, b := height, ok := true }])

/-- Lines 124-165: the macroblock counts and the mode info arrays, once all
frame buffers are there. -/
def allocModeInfo (k : AllocConsts) (o : AllocExt M B) (st : AllocState M B)
    (width height : Int) (log : List AllocEvent) : AllocRun M B :=
  let mb_rows := sar height 4
  let mb_cols := sar width 4
  let oci := { st.oci with
    mb_rows := mb_rows, mb_cols := mb_cols, MBs := imul mb_rows mb_cols
    mode_info_stride := iadd mb_cols 1 }
  let num := toSize k (imul (iadd mb_cols 1) (iadd mb_rows 1))
  let c1 := o.vpx_calloc st.mem num k.sizeof_MODE_INFO
  let oci := { oci with mip := c1.2 }
  if c1.2 = 0 then
    { st := vp8_de_alloc_frame_buffers k o { oci := oci, mem := c1.1 }, ret := 1
      log := log ++ [{ site := AllocSite.mip, a := num, b := k.sizeof_MODE_INFO,
                       ok := false }] }
  else
    let log := log ++ [{ site := AllocSite.mip, a := num, b := k.sizeof_MODE_INFO,
                         ok := true }]
    let oci := { oci with mi := miAt k (miAt k oci.mip oci.mode_info_stride) 1 }
    let c2 := o.vpx_calloc c1.1 num k.sizeof_MODE_INFO
    let oci := { oci with prev_mip := c2.2 }
    if c2.2 = 0 then
      { st := vp8_de_alloc_frame_buffers k o { oci := oci, mem := c2.1 }, ret := 1
        log := log ++ [{ site := AllocSite.prev_mip, a := num, b := k.sizeof_MODE_INFO,
                         ok := false }] }
    else
      let log := log ++ [{ site := AllocSite.prev_mip, a := num, b := k.sizeof_MODE_INFO,
                           ok := true }]
      let oci := { oci with prev_mi := miAt k (miAt k oci.prev_mip oci.mode_info_stride) 1 }
      let planes := toSize k (k.sizeof_ENTROPY_CONTEXT_PLANES * toSize k oci.mb_cols)
      let c3 := o.vpx_calloc c2.1 planes 1
      let oci := { oci with above_context := c3.2 }
      if c3.2 = 0 then
        { st := vp8_de_alloc_frame_buffers k o { oci := oci, mem := c3.1 }, ret := 1
          log := log ++ [{ site := AllocSite.above_context, a := planes, b := 1,
                           ok := false }] }
      else
        let log := log ++ [{ site := AllocSite.above_context, a := planes, b := 1,
                             ok := true }]
        let mem := update_mode_info_border k o oci c3.1 oci.mip
        let mem := update_mode_info_in_image k o oci mem oci.mi
        let mem :=
          if k.CONFIG_ERROR_CONCEALMENT = true then
            update_mode_info_in_image k o oci
              (update_mode_info_border k o oci mem oci.prev_mip) oci.prev_mi
          else mem
        { st := { oci := oci, mem := mem }, ret := 0, log := log }

/-- Lines 102-122: the buffer indices, `temp_scale_frame` and
`post_proc_buffer`, once the frame buffers of the loop are there. -/
def allocExtra (k : AllocConsts) (o : AllocExt M B) (st : AllocState M B)
    (width height : Int) (log : List AllocEvent) : AllocRun M B :=
  let cnt := Function.update (Function.update (Function.update (Function.update
    st.oci.fb_idx_ref_cnt 0 1) 1 1) 2 1) 3 1
  let oci := { st.oci with
    new_fb_idx := 0, lst_fb_idx := 1, gld_fb_idx := 2, alt_fb_idx := 3
    fb_idx_ref_cnt := cnt }
  let t := o.vp8_yv12_alloc_frame_buffer st.mem oci.temp_scale_frame width 16
    k.VP8BORDERINPIXELS
  let oci := { oci with temp_scale_frame := t.2.1 }
  if t.2.2 < 0 then
    { st := vp8_de_alloc_frame_buffers k o { oci := oci, mem := t.1 }, ret := 1
      log := log ++ [{ site := AllocSite.temp_scale_frame, a := width, b := 16,
                       ok := false }] }
  else
    let log := log ++ [{ site := AllocSite.temp_scale_frame, a := width, b := 16,
                         ok := true }]
    let p := o.vp8_yv12_alloc_frame_buffer t.1 oci.post_proc_buffer width height
      k.VP8BORDERINPIXELS
    let oci := { oci with post_proc_buffer := p.2.1 }
    if p.2.2 < 0 then
      { st := vp8_de_alloc_frame_buffers k o { oci := oci, mem := p.1 }, ret := 1
        log := log ++ [{ site := AllocSite.post_proc_buffer, a := width, b := height,
                         ok := false }] }
    else
      allocModeInfo k o { oci := oci, mem := p.1 } width height
        (log ++ [{ site := AllocSite.post_proc_buffer, a := width, b := height,
                   ok := true }])

/-- Function `vp8_alloc_frame_buffers` (lines 77-166), with the record of
the allocations it makes. -/
def allocRun (k : AllocConsts) (o : AllocExt M B) (st : AllocState M B)
    (width height : Int) : AllocRun M B :=
  let st := vp8_de_alloc_frame_buffers k o st
  let width := alignDim width
  let height := alignDim height
  let r := allocFrames k o width height (List.range k.NUM_YV12_BUFFERS) st []
  if r.2.2 = false then
    { st := vp8_de_alloc_frame_buffers k o r.1, ret := 1, log := r.2.1 }
  else allocExtra k o r.1 width height r.2.1

/-- Function `vp8_alloc_frame_buffers` (lines 77-166): the state it leaves
and its return value. -/
def vp8_alloc_frame_buffers (k : AllocConsts) (o : AllocExt M B) (st : AllocState M B)
    (width height : Int) : AllocState M B × Int :=
  ((allocRun k o st width height).st, (allocRun k o st width height).ret)

/-- The allocations of a call in which every allocation is made, in their
order. -/
def allSites (k : AllocConsts) : List AllocSite :=
  (List.range k.NUM_YV12_BUFFERS).map AllocSite.frame ++
    [AllocSite.temp_scale_frame, AllocSite.post_proc_buffer, AllocSite.mip,
     AllocSite.prev_mip, AllocSite.above_context]

end Alloc

/-! ## The allocations of `vp8_alloc_frame_buffers`, one by one -/

section AllocRequests

variable {M B : Type}

/-- One allocation of `vp8_alloc_frame_buffers` as a call of the memory
routine on the memory `mem`: for `yv12_fb[i]` the call of line 95 (behind
`flags = 0`), for `temp_scale_frame` and `post_proc_buffer` the calls of
lines 112 and 118, for `mip` and `prev_mip` the calls of `vpx_calloc` of
lines 128 and 140, for `above_context` the call of line 150.  `width` and
`height` are the dimensions as raised to multiples of 16, and `oci` holds
the buffers as `vp8_de_alloc_frame_buffers` left them at line 81.  The
result is the memory after the call and whether the allocation succeeded,
which is what the code tests: a returned value that is not below 0, a
returned address that is not null. -/
def allocRequest (k : AllocConsts) (o : AllocExt M B) (oci : VP8_COMMON B)
    (width height : Int) (mem : M) : AllocSite → M × Bool
  | AllocSite.frame i =>
    let r := o.vp8_yv12_alloc_frame_buffer mem { oci.yv12_fb i with flags := 0 } width height
      k.VP8BORDERINPIXELS
    (r.1, decide (¬ r.2.2 < 0))
  | AllocSite.temp_scale_frame =>
    let r := o.vp8_yv12_alloc_frame_buffer mem oci.temp_scale_frame width 16
      k.VP8BORDERINPIXELS
    (r.1, decide (¬ r.2.2 < 0))
  | AllocSite.post_proc_buffer =>
    let r := o.vp8_yv12_alloc_frame_buffer mem oci.post_proc_buffer width height
      k.VP8BORDERINPIXELS
    (r.1, decide (¬ r.2.2 < 0))
  | AllocSite.mip =>
    let c := o.vpx_calloc mem
      (toSize k (imul (iadd (sar width 4) 1) (iadd (sar height 4) 1))) k.sizeof_MODE_INFO
    (c.1, decide (c.2 ≠ 0))
  | AllocSite.prev_mip =>
    let c := o.vpx_calloc mem
      (toSize k (imul (iadd (sar width 4) 1) (iadd (sar height 4) 1))) k.sizeof_MODE_INFO
    (c.1, decide (c.2 ≠ 0))
  | AllocSite.above_context =>
    let c := o.vpx_calloc mem
      (toSize k (k.sizeof_ENTROPY_CONTEXT_PLANES * toSize k (sar width 4))) 1
    (c.1, decide (c.2 ≠ 0))

/-- The allocations of the list made one after the other, each on the
memory the one before left, up to the first that fails: which allocation,
and whether it succeeded. -/
def allocResults (k : AllocConsts) (o : AllocExt M B) (oci : VP8_COMMON B)
    (width height : Int) : List AllocSite → M → List (AllocSite × Bool)
  | [], _ => []
  | s :: rest, mem =>
    (s, (allocRequest k o oci width height mem s).2) ::
      (if (allocRequest k o oci width height mem s).2 = true then
        allocResults k o oci width height rest (allocRequest k o oci width height mem s).1
      else [])

/-- Every allocation of `vp8_alloc_frame_buffers` succeeds: the
`NUM_YV12_BUFFERS` frame buffers, `temp_scale_frame`, `post_proc_buffer`,
`mip`, `prev_mip` and `above_context`, made in this order from the state
`vp8_de_alloc_frame_buffers` leaves at line 81. -/
def allocationsSucceed (k : AllocConsts) (o : AllocExt M B) (st : AllocState M B)
    (width height : Int) : Bool :=
  (allocResults k o (vp8_de_alloc_frame_buffers k o st).oci (alignDim width)
    (alignDim height) (allSites k) (vp8_de_alloc_frame_buffers k o st).mem).all
    (fun p => p.2)

/-- The record of the allocations as pairs: which allocation, and whether it
succeeded. -/
def AllocEvent.outcome (e : AllocEvent) : AllocSite × Bool := (e.site, e.ok)

end AllocRequests

/-! ## The intra searches: `cost_coeffs`, `rd_pick_intra4x4block` and
`vp8_rd_pick_intra_mode` -/

section Intra

/-- The build switch, the enumerators and the tables the coefficient cost
and the 4x4 search take from headers (blockd.h, entropy.h, tokenize.h). -/
structure IntraConsts where
  /-- `#if CONFIG_SUPERBLOCKS` -/
  CONFIG_SUPERBLOCKS : Bool
  /-- value of the enumerator `B_DC_PRED` -/
  B_DC_PRED : Int
  /-- value of the enumerator `B_HU_PRED` -/
  B_HU_PRED : Int
  /-- value of the enumerator `B_LD_PRED` -/
  B_LD_PRED : Int
  /-- value of the enumerator `B_VL_PRED` -/
  B_VL_PRED : Int
  /-- `PLANE_TYPE_Y_WITH_DC` -/
  PLANE_TYPE_Y_WITH_DC : Int
  /-- `DCT_EOB_TOKEN` -/
  DCT_EOB_TOKEN : Int
  /-- table `vp8_default_zig_zag1d` -/
  vp8_default_zig_zag1d : Int → Int
  /-- table `vp8_coef_bands` -/
  vp8_coef_bands : Int → Int
  /-- table `vp8_prev_token_class` -/
  vp8_prev_token_class : Int → Int
  /-- `vp8_dct_value_tokens_ptr[v].Token` -/
  dct_value_token : Int → Int
  /-- `vp8_dct_value_cost_ptr[v]` -/
  dct_value_cost : Int → Int
  /-- macro `VP8_COMBINEENTROPYCONTEXTS`: the value it gives `Dest` -/
  VP8_COMBINEENTROPYCONTEXTS : Int → Int → Int

/-- The block routines of the 4x4 search and what it reads of a block; `P`
stands for the contents of the local buffers `best_predictor` and
`best_dqcoeff`. -/
structure BlockExt (W P : Type) where
  /-- `b->qcoeff[j]` of block `i` -/
  qcoeff : MACROBLOCK W → Nat → Int → Int
  /-- `mb->token_costs[type][band][pt][t]`, an `unsigned int` -/
  token_costs : MACROBLOCK W → Int → Int → Int → Int → Int
  /-- `intra4x4_predict(b, mode, b->predictor)` -/
  intra4x4_predict : MACROBLOCK W → Nat → Int → MACROBLOCK W
  /-- `subb(be, b, 16)` -/
  subb : MACROBLOCK W → Nat → MACROBLOCK W
  /-- `x->vp8_short_fdct4x4(be->src_diff, be->coeff, 32)` -/
  vp8_short_fdct4x4 : MACROBLOCK W → Nat → MACROBLOCK W
  /-- `x->quantize_b(be, b)` -/
  quantize_b : MACROBLOCK W → Nat → MACROBLOCK W
  /-- `berr(be->coeff, b->dqcoeff)` -/
  berr : MACROBLOCK W → Nat → Int
  /-- what `copy_predictor(best_predictor, b->predictor)` and
  `vpx_memcpy(best_dqcoeff, b->dqcoeff, 32)` put into the local buffers -/
  copy_best : MACROBLOCK W → Nat → P
  /-- `idct16(best_dqcoeff, b->diff, 32)` -/
  idct16 : P → MACROBLOCK W → Nat → MACROBLOCK W
  /-- `recon(best_predictor, b->diff, *(b->base_dst) + b->dst, b->dst_stride)` -/
  recon : P → MACROBLOCK W → Nat → MACROBLOCK W

variable {W P : Type}

/-- One turn of the loop of `cost_coeffs` (lines 581-588), on the pair of
`cost` and `pt`. -/
def coeffStep (k : IntraConsts) (bx : BlockExt W P) (x : MACROBLOCK W) (i : Nat)
    (type : Int) (acc : Int × Int) (c : Nat) : Int × Int :=
  let v := bx.qcoeff x i (k.vp8_default_zig_zag1d c)
  let t := k.dct_value_token v
  let cost := iadd acc.1 (bx.token_costs x type (k.vp8_coef_bands c) acc.2 t)
  let cost := iadd cost (k.dct_value_cost v)
  (cost, k.vp8_prev_token_class t)

/-- Function `cost_coeffs` (lines 566-598) for block `i`: the cost it
returns and the value it leaves in both `*a` and `*l`. -/
def cost_coeffs (k : IntraConsts) (ext : Ext W) (bx : BlockExt W P) (x : MACROBLOCK W)
    (i : Nat) (type : Int) (a l : Int) : Int × Int :=
  let c0 : Int := if type = 0 then 1 else 0
  let eob := ext.block_eob x i
  let pt := k.VP8_COMBINEENTROPYCONTEXTS a l
  let r := (List.range' c0.toNat (eob - c0).toNat).foldl (coeffStep k bx x i type) (0, pt)
  let c := if c0 < eob then eob else c0
  let cost :=
    if c < 16 then iadd r.1 (bx.token_costs x type (k.vp8_coef_bands c) r.2 k.DCT_EOB_TOKEN)
    else r.1
  (cost, if c ≠ c0 then 1 else 0)

/-- What one turn of the mode loop of `rd_pick_intra4x4block` computes for
its mode (lines 746-762). -/
structure ModeEval (W : Type) where
  /-- the macroblock memory after the turn -/
  x : MACROBLOCK W
  /-- `mode` -/
  mode : Int
  /-- `rate` -/
  rate : Int
  /-- `ratey` -/
  ratey : Int
  /-- `distortion` -/
  distortion : Int
  /-- `this_rd` -/
  this_rd : Int
  /-- `tempa` after `cost_coeffs` -/
  tempa : Int
  /-- `templ` after `cost_coeffs` -/
  templ : Int

/-- Lines 746-762: prediction, transform, quantisation and cost of one mode
for block `i`, from the entropy contexts `ta` and `tl`. -/
def evalBlockMode (k : IntraConsts) (ext : Ext W) (bx : BlockExt W P) (x : MACROBLOCK W)
    (i : Nat) (bmode_costs : Int → Int) (ta tl : Int) (mode : Int) : ModeEval W :=
  let rate := wrap32 (bmode_costs mode)
  let x := bx.quantize_b (bx.vp8_short_fdct4x4 (bx.subb (bx.intra4x4_predict x i mode) i) i) i
  let cc := cost_coeffs k ext bx x i k.PLANE_TYPE_Y_WITH_DC ta tl
  let rate := iadd rate cc.1
  let distortion := sar (bx.berr x i) 2
  { x := x, mode := mode, rate := rate, ratey := cc.1, distortion := distortion
    this_rd := rdcost ext x rate distortion, tempa := cc.2, templ := cc.2 }

/-- The state of `rd_pick_intra4x4block`: the memory, `best_rd`, what the
pointers `best_mode`, `a`, `l`, `bestrate`, `bestratey` and `bestdistortion`
point to, the local buffers, and the record of the modes evaluated so far. -/
structure Block4x4 (W P : Type) where
  /-- the macroblock memory -/
  x : MACROBLOCK W
  /-- `best_rd`; the return value at the end -/
  best_rd : Int
  /-- `*best_mode` -/
  best_mode : Int
  /-- `*a` -/
  a : Int
  /-- `*l` -/
  l : Int
  /-- `*bestrate` -/
  bestrate : Int
  /-- `*bestratey` -/
  bestratey : Int
  /-- `*bestdistortion` -/
  bestdistortion : Int
  /-- `best_predictor` and `best_dqcoeff` -/
  buffers : P
  /-- the modes evaluated so far, in their order -/
  evals : List (ModeEval W)

/-- Lines 736-776: one turn of the mode loop; `ta` and `tl` are the entropy
contexts on entry of the function. -/
def blockModeStep (k : IntraConsts) (ext : Ext W) (bx : BlockExt W P) (i : Nat)
    (bmode_costs : Int → Int) (ta tl : Int) (s : Block4x4 W P) (mode : Int) :
    Block4x4 W P :=
  if k.CONFIG_SUPERBLOCKS = true ∧ (mode = k.B_LD_PRED ∨ mode = k.B_VL_PRED) then s
  else
    let e := evalBlockMode k ext bx s.x i bmode_costs ta tl mode
    if e.this_rd < s.best_rd then
      { x := e.x, best_rd := e.this_rd, best_mode := mode, a := e.tempa, l := e.templ
        bestrate := e.rate, bestratey := e.ratey, bestdistortion := e.distortion
        buffers := bx.copy_best e.x i, evals := s.evals ++ [e] }
    else { s with x := e.x, evals := s.evals ++ [e] }

/-- The values `mode` takes in `for (mode = B_DC_PRED; mode <= B_HU_PRED;
mode++)`. -/
def blockModes (k : IntraConsts) : List Int :=
  (List.range (k.B_HU_PRED - k.B_DC_PRED + 1).toNat).map (fun (j : Nat) => k.B_DC_PRED + j)

/-- Function `rd_pick_intra4x4block` (lines 707-782) for block `i` (`be` is
`x->block + i` and `b` is `x->e_mbd.block + i`).  `s0` holds what the
pointers point to on entry and the contents of the local buffers, which
have no initializer. -/
def rd_pick_intra4x4block (k : IntraConsts) (ext : Ext W) (bx : BlockExt W P) (i : Nat)
    (bmode_costs : Int → Int) (s0 : Block4x4 W P) : Block4x4 W P :=
  let s := (blockModes k).foldl (blockModeStep k ext bx i bmode_costs s0.a s0.l)
    { s0 with best_rd := INT_MAX, evals := [] }
  let x := { s.x with
    block_bmi := Function.update s.x.block_bmi i { s.x.block_bmi i with as_mode := s.best_mode } }
  { s with x := bx.recon s.buffers (bx.idct16 s.buffers x i) i }

/-- What `vp8_rd_pick_intra_mode` needs beyond `Ext` and `Seg`. -/
structure IntraExt (W : Type) where
  /-- `rd_pick_intra16x16mby_mode`, from memory, `*Rate`, `*rate_y` and
  `*Distortion` -/
  rd_pick_intra16x16mby_mode : MACROBLOCK W → Int → Int → Int → YResult W
  /-- `get_seg_tx_type(xd, segment_id) == TX_4X4` -/
  seg_tx_is_4x4 : Nat → Bool

/-- The locals of `vp8_rd_pick_intra_mode` without initializer: what they
hold when the function is entered. -/
structure IntraStale where
  /-- `error4x4` -/
  error4x4 : Int
  /-- `error8x8` -/
  error8x8 : Int
  /-- `rate4x4` -/
  rate4x4 : Int
  /-- `dist4x4` -/
  dist4x4 : Int
  /-- `dist16x16` -/
  dist16x16 : Int
  /-- `rate8x8` -/
  rate8x8 : Int
  /-- `dist8x8` -/
  dist8x8 : Int
  /-- `mode8x8[4]` -/
  mode8x8 : Nat → Int

/-- The locals of `vp8_rd_pick_intra_mode` in front of the comparison of
line 3156. -/
structure IntraCosts (W : Type) where
  /-- the macroblock memory -/
  x : MACROBLOCK W
  /-- `rate`, the chroma rate -/
  rate : Int
  /-- `error16x16` -/
  error16x16 : Int
  /-- `error8x8` -/
  error8x8 : Int
  /-- `error4x4` -/
  error4x4 : Int
  /-- `rate16x16` -/
  rate16x16 : Int
  /-- `rate8x8` -/
  rate8x8 : Int
  /-- `rate4x4` -/
  rate4x4 : Int
  /-- `mode16x16` -/
  mode16x16 : MB_PREDICTION_MODE
  /-- `mode8x8[4]` -/
  mode8x8 : Nat → Int

/-- Lines 3111-3154: the three searches.  Under `CONFIG_T8X8` the `else` of
line 3125 takes the statement of lines 3139-3149 as its branch. -/
def intraCosts (cfg : Config) (seg : Seg) (ext : Ext W) (ix : IntraExt W)
    (x : MACROBLOCK W) (st : IntraStale) : IntraCosts W :=
  let x := { x with mbmi := { x.mbmi with ref_frame := INTRA_FRAME } }
  let uv := ext.rd_pick_intra_mbuv_mode x
  let r16 := ix.rd_pick_intra16x16mby_mode uv.x 0 0 st.dist16x16
  if cfg.CONFIG_T8X8 = true then
    if seg.seg_tx_is_8x8 r16.x.mbmi.segment_id = true then
      { x := r16.x, rate := uv.rate, error16x16 := r16.ret, error8x8 := INT_MAX
        error4x4 := st.error4x4, rate16x16 := r16.rate, rate8x8 := st.rate8x8
        rate4x4 := st.rate4x4, mode16x16 := r16.x.mbmi.mode, mode8x8 := st.mode8x8 }
    else if ix.seg_tx_is_4x4 r16.x.mbmi.segment_id = true then
      let r4 := ext.rd_pick_intra4x4mby_modes r16.x st.rate4x4 0 st.dist4x4 r16.ret
      { x := r4.x, rate := uv.rate, error16x16 := r16.ret, error8x8 := st.error8x8
        error4x4 := r4.ret, rate16x16 := r16.rate, rate8x8 := st.rate8x8
        rate4x4 := r4.rate, mode16x16 := r16.x.mbmi.mode, mode8x8 := st.mode8x8 }
    else
      { x := r16.x, rate := uv.rate, error16x16 := r16.ret, error8x8 := st.error8x8
        error4x4 := INT_MAX, rate16x16 := r16.rate, rate8x8 := st.rate8x8
        rate4x4 := st.rate4x4, mode16x16 := r16.x.mbmi.mode, mode8x8 := st.mode8x8 }
  else
    let r8 := ext.rd_pick_intra8x8mby_modes r16.x st.rate8x8 0 st.dist8x8 r16.ret
    let m8 : Nat → Int := fun j =>
      if j = 0 then (r8.x.mode_info_bmi 0).as_mode
      else if j = 1 then (r8.x.mode_info_bmi 2).as_mode
      else if j = 2 then (r8.x.mode_info_bmi 8).as_mode
      else if j = 3 then (r8.x.mode_info_bmi 10).as_mode
      else st.mode8x8 j
    let r4 := ext.rd_pick_intra4x4mby_modes r8.x st.rate4x4 0 st.dist4x4 r16.ret
    { x := r4.x, rate := uv.rate, error16x16 := r16.ret, error8x8 := r8.ret
      error4x4 := r4.ret, rate16x16 := r16.rate, rate8x8 := r8.rate
      rate4x4 := r4.rate, mode16x16 := r16.x.mbmi.mode, mode8x8 := m8 }

/-- Lines 3156-3185: the comparison of the three costs; the result is the
memory and `*rate_`. -/
def chooseIntra (c : IntraCosts W) : MACROBLOCK W × Int :=
  if c.error8x8 > c.error16x16 then
    if c.error4x4 < c.error16x16 then
      ({ c.x with mbmi := { c.x.mbmi with mode := B_PRED } }, iadd c.rate c.rate4x4)
    else
      ({ c.x with mbmi := { c.x.mbmi with mode := c.mode16x16 } }, iadd c.rate c.rate16x16)
  else
    if c.error4x4 < c.error8x8 then
      ({ c.x with mbmi := { c.x.mbmi with mode := B_PRED } }, iadd c.rate c.rate4x4)
    else
      (set_i8x8_block_modes { c.x with mbmi := { c.x.mbmi with mode := I8X8_PRED } } c.mode8x8,
       iadd c.rate c.rate8x8)

/-- Function `vp8_rd_pick_intra_mode` (lines 3093-3186): the memory it
leaves and `*rate_`. -/
def vp8_rd_pick_intra_mode (cfg : Config) (seg : Seg) (ext : Ext W) (ix : IntraExt W)
    (x : MACROBLOCK W) (st : IntraStale) : MACROBLOCK W × Int :=
  chooseIntra (intraCosts cfg seg ext ix x st)

end Intra

section IntraInvariant

variable {W P : Type}

/-- Predicate: the outputs of the 4x4 search are the values of the
evaluation `e`. -/
def Block4x4.holds (bx : BlockExt W P) (i : Nat) (s : Block4x4 W P) (e : ModeEval W) :
    Prop :=
  s.best_rd = e.this_rd ∧ s.best_mode = e.mode ∧ s.a = e.tempa ∧ s.l = e.templ ∧
    s.bestrate = e.rate ∧ s.bestratey = e.ratey ∧ s.bestdistortion = e.distortion ∧
    s.buffers = bx.copy_best e.x i

/-- Predicate: the outputs of the 4x4 search are what they were on entry. -/
def Block4x4.untouched (s s0 : Block4x4 W P) : Prop :=
  s.best_mode = s0.best_mode ∧ s.a = s0.a ∧ s.l = s0.l ∧ s.bestrate = s0.bestrate ∧
    s.bestratey = s0.bestratey ∧ s.bestdistortion = s0.bestdistortion ∧
    s.buffers = s0.buffers

/-- The invariant of the mode loop of `rd_pick_intra4x4block`: either no
mode came below `INT_MAX` and nothing was stored, or the outputs are those of
an evaluation whose cost is below `INT_MAX`, below every earlier one and at
or below every later one. -/
def BlockInv (bx : BlockExt W P) (i : Nat) (s0 s : Block4x4 W P) : Prop :=
  (s.best_rd = INT_MAX ∧ s.untouched s0 ∧ ∀ e ∈ s.evals, INT_MAX ≤ e.this_rd) ∨
    ∃ pre e post, s.evals = pre ++ e :: post ∧ (∀ f ∈ pre, e.this_rd < f.this_rd) ∧
      (∀ f ∈ post, e.this_rd ≤ f.this_rd) ∧ e.this_rd < INT_MAX ∧ s.holds bx i e

end IntraInvariant

/-! ## `vp8_auto_select_speed`, `vp8_block_error_c` and `vp8_mbblock_error_c` -/

/-- Table `auto_speed_thresh[17]` (lines 56-75). -/
def auto_speed_thresh : List Int :=
  [1000, 200, 150, 130, 150, 125, 120, 115, 115, 115, 115, 115, 115, 115, 115, 115, 105]

/-- The read `auto_speed_thresh[i]`; `none` when `i` is outside the table. -/
def readSpeedThresh (i : Int) : Option Int :=
  if 0 ≤ i then auto_speed_thresh.get? i.toNat else none

/-- What `vp8_auto_select_speed` reads without writing it: the value of
`(int)(1000000 / cpi->oxcf.frame_rate)`, a floating-point expression, and
`cpi->oxcf.cpu_used`. -/
structure SpeedInput where
  /-- `(int)(1000000 / cpi->oxcf.frame_rate)` -/
  per_frame : Int
  /-- `cpi->oxcf.cpu_used` -/
  cpu_used : Int

/-- The fields of `cpi` that `vp8_auto_select_speed` writes. -/
structure SpeedState where
  /-- `cpi->Speed` -/
  Speed : Int
  /-- `cpi->avg_pick_mode_time` -/
  avg_pick_mode_time : Int
  /-- `cpi->avg_encode_time` -/
  avg_encode_time : Int
  deriving DecidableEq

/-- Line 381-383: `milliseconds_for_compress`. -/
def milliseconds_for_compress (inp : SpeedInput) : Int :=
  idiv (imul (wrap32 inp.per_frame) (isub 16 inp.cpu_used)) 16

/-- Lines 414-426: the step up by 2 when encoding takes too long. -/
def speedUp (inp : SpeedInput) (s : SpeedState) : SpeedState :=
  if imul (milliseconds_for_compress inp) 100 < imul s.avg_encode_time 95 then
    { Speed := if iadd s.Speed 2 > 16 then 16 else iadd s.Speed 2
      avg_pick_mode_time := 0, avg_encode_time := 0 }
  else s

/-- Lines 428-439: the step down by 1 when there is time left; `t` is the
entry of `auto_speed_thresh` read at line 428. -/
def speedDown (inp : SpeedInput) (s : SpeedState) (t : Int) : SpeedState :=
  if imul (milliseconds_for_compress inp) 100 > imul s.avg_encode_time t then
    { Speed := if isub s.Speed 1 < 4 then 4 else isub s.Speed 1
      avg_pick_mode_time := 0, avg_encode_time := 0 }
  else s

/-- Function `vp8_auto_select_speed` (lines 379-452); `none` stands for a
read outside `auto_speed_thresh`. -/
def vp8_auto_select_speed (inp : SpeedInput) (s : SpeedState) : Option SpeedState :=
  if s.avg_pick_mode_time < milliseconds_for_compress inp ∧
      isub s.avg_encode_time s.avg_pick_mode_time < milliseconds_for_compress inp then
    if s.avg_pick_mode_time = 0 then some { s with Speed := 4 }
    else
      match readSpeedThresh (speedUp inp s).Speed with
      | none => none
      | some t => some (speedDown inp (speedUp inp s) t)
  else
    some { Speed := if iadd s.Speed 4 > 16 then 16 else iadd s.Speed 4
           avg_pick_mode_time := 0, avg_encode_time := 0 }

/-- Function `vp8_block_error_c` (lines 454-466); the two arrays hold
`short`s. -/
def vp8_block_error_c (coeff dqcoeff : Int → Int) : Int :=
  (List.range 16).foldl
    (fun error (i : Nat) =>
      iadd error (imul (isub (coeff i) (dqcoeff i)) (isub (coeff i) (dqcoeff i))))
    0

/-- The values `j` takes in `for (j = dc; j < 16; j++)`. -/
def positionsFrom (dc : Int) : List Int :=
  (List.range (16 - dc).toNat).map (fun (j : Nat) => dc + j)

/-- Lines 481-487: `berror` of one block of `vp8_mbblock_error_c`. -/
def blockErrorFrom (coeff dqcoeff : Int → Int) (dc : Int) : Int :=
  (positionsFrom dc).foldl
    (fun berror j =>
      iadd berror (imul (isub (coeff j) (dqcoeff j)) (isub (coeff j) (dqcoeff j))))
    0

/-- Function `vp8_mbblock_error_c` (lines 468-492); `coeff i` is
`mb->block[i].coeff` and `dqcoeff i` is `mb->e_mbd.block[i].dqcoeff`. -/
def vp8_mbblock_error_c (coeff dqcoeff : Nat → Int → Int) (dc : Int) : Int :=
  (List.range 16).foldl
    (fun error (i : Nat) => iadd error (blockErrorFrom (coeff i) (dqcoeff i) dc))
    0

/-- The mathematical sum of the squared differences of one block over the
positions `js`. -/
def squareSum (coeff dqcoeff : Int → Int) (js : List Int) : Int :=
  (js.map (fun j => (coeff j - dqcoeff j) * (coeff j - dqcoeff j))).sum

/-- The mathematical sum of the squared differences over the 16 blocks and
the positions from `dc` to 15. -/
def squareSumMb (coeff dqcoeff : Nat → Int → Int) (dc : Int) : Int :=
  ((List.range 16).map (fun (i : Nat) => squareSum (coeff i) (dqcoeff i) (positionsFrom dc))).sum

/-- Lines 312-320 of `vp8_initialize_rd_consts`: the quantizer value `q`
the thresholds are scaled with. -/
def thresholdQ (cfg : Config) (vp8_dc_quant : Int → Int → Int) (fp : FloatOps)
    (QIndex : Int) : Int :=
  let q :=
    if cfg.CONFIG_EXTEND_QRANGE then
      shl (wrap32 (fp.pow125 (sar (vp8_dc_quant (clampQIndex cfg QIndex) 0) 2))) 2
    else wrap32 (fp.pow125 (vp8_dc_quant (clampQIndex cfg QIndex) 0))
  if q < 8 then 8 else q

/-! ## The loop of `cost_coeffs`, turn by turn -/

section CoeffLoop

variable {W P : Type}

/-- The loop `for (; c < eob; c++)` of `cost_coeffs` (lines 581-588) on the
triple of `c`, `cost` and `pt`, for at most the given number of turns. -/
def coeffWhile (k : IntraConsts) (bx : BlockExt W P) (x : MACROBLOCK W) (i : Nat)
    (type eob : Int) : Nat → Int × Int × Int → Int × Int × Int
  | 0, st => st
  | n + 1, st =>
    if st.1 < eob then
      coeffWhile k bx x i type eob n (st.1 + 1, coeffStep k bx x i type st.2 st.1.toNat)
    else st

/-- Function `cost_coeffs` (lines 566-598) with its loop run turn by turn,
for the `eob - !type` turns it can take at most: the cost it returns and the
value it leaves in both `*a` and `*l`. -/
def costCoeffsLoop (k : IntraConsts) (ext : Ext W) (bx : BlockExt W P) (x : MACROBLOCK W)
    (i : Nat) (type : Int) (a l : Int) : Int × Int :=
  let first : Int := if type = 0 then 1 else 0
  let eob := ext.block_eob x i
  let st := coeffWhile k bx x i type eob (eob - first).toNat
    (first, 0, k.VP8_COMBINEENTROPYCONTEXTS a l)
  let cost :=
    if st.1 < 16 then
      iadd st.2.1 (bx.token_costs x type (k.vp8_coef_bands st.1) st.2.2 k.DCT_EOB_TOKEN)
    else st.2.1
  (cost, if st.1 ≠ first then 1 else 0)

end CoeffLoop

/-! ## What `labels2mode` records for the blocks of a label -/

section LabelRecords

variable {W : Type}

/-- The mode line 1200 or 1202 gives a block whose left or upper neighbour
carries the same label. -/
def propagatedMode (labelings : Nat → Int) (i : Nat) : B_PREDICTION_MODE :=
  if i % 4 ≠ 0 ∧ labelings i = labelings (i - 1) then LEFT4X4 else ABOVE4X4

/-- Lines 1207-1223: `*this_mv` behind the `switch`, for the block `f` that
starts a label. -/
def startVector (sx : SplitExt W) (x : MACROBLOCK W) (this_mode : B_PREDICTION_MODE)
    (this_mv : int_mv) (f : Nat) : int_mv :=
  if this_mode = LEFT4X4 then leftVector sx x f
  else if this_mode = ABOVE4X4 then aboveVector sx x f
  else if this_mode = ZERO4X4 then zero_mv
  else this_mv

/-- Lines 1225-1234: the mode `m` of the block `f` that starts a label. -/
def startMode (sx : SplitExt W) (x : MACROBLOCK W) (this_mode : B_PREDICTION_MODE)
    (this_mv : int_mv) (f : Nat) : B_PREDICTION_MODE :=
  if this_mode = ABOVE4X4 ∧ leftVector sx x f = startVector sx x this_mode this_mv f then
    LEFT4X4
  else this_mode

/-- Predicate: block `f` is the first block of the label, and every later
block of the label has its left or its upper neighbour in the label, as in
the four tables of `vp8_mbsplits`. -/
def StartsLabel (labelings : Nat → Int) (which_label : Int) (f : Nat) : Prop :=
  f < 16 ∧ labelings f = which_label ∧ (∀ j, j < f → labelings j ≠ which_label) ∧
    ∀ i, i < 16 → f < i → labelings i = which_label →
      (i % 4 ≠ 0 ∧ labelings i = labelings (i - 1)) ∨
        (i / 4 ≠ 0 ∧ labelings i = labelings (i - 4))

instance (labelings : Nat → Int) (which_label : Int) (f : Nat) :
    Decidable (StartsLabel labelings which_label f) := by
  unfold StartsLabel
  infer_instance

/-- The invariant of the loop of `labels2mode` in front of block `n`, for a
label that starts at block `f`. -/
def LabelsInv (cfg : Config) (ext : Ext W) (sx : SplitExt W) (x : MACROBLOCK W)
    (labelings : Nat → Int) (which_label : Int) (this_mode : B_PREDICTION_MODE)
    (this_mv best_ref_mv : int_mv) (f n : Nat) (s : LabelsState W) : Prop :=
  if n ≤ f then s = { x := x, this_mv := this_mv, cost := 0, thismvcost := 0 }
  else
    s.this_mv = startVector sx x this_mode this_mv f ∧
      s.cost = sx.inter_bmode_costs x (startMode sx x this_mode this_mv f) ∧
      s.thismvcost =
        (if this_mode = NEW4X4 then ext.vp8_mv_bit_cost x this_mv best_ref_mv 102 else 0) ∧
      ∀ j,
        (j < n → labelings j = which_label →
          (s.x.block_bmi j).mv = startVector sx x this_mode this_mv f ∧
            s.x.partition_info.bmi_mv j = startVector sx x this_mode this_mv f ∧
            s.x.partition_info.bmi_mode j =
              (if j = f then startMode sx x this_mode this_mv f
                else propagatedMode labelings j).toInt cfg) ∧
        ((n ≤ j ∨ labelings j ≠ which_label) →
          s.x.block_bmi j = x.block_bmi j ∧
            s.x.partition_info.bmi_mode j = x.partition_info.bmi_mode j ∧
            s.x.partition_info.bmi_mv j = x.partition_info.bmi_mv j)

end LabelRecords

/-! ## The alt-ref overlay: what the routines called leave of the vector -/

section OverlayDefs

variable {W : Type}

/-- Predicate: the prediction and cost routines a whole-block inter
candidate calls leave `mbmi.mv` as it was written, and `vp8_clamp_mv2` leaves
the zero vector, which is inside the frame borders of every macroblock, as
it is. -/
def KeepsVector (ext : Ext W) : Prop :=
  (∀ x, (ext.vp8_build_inter16x16_predictors_mby x).mbmi.mv = x.mbmi.mv) ∧
    (∀ x, (ext.vp8_build_inter16x16_predictors_mbuv x).mbmi.mv = x.mbmi.mv) ∧
    (∀ x, (ext.vp8_build_2nd_inter16x16_predictors_mb x).mbmi.mv = x.mbmi.mv) ∧
    (∀ x, (ext.macro_block_yrd x).x.mbmi.mv = x.mbmi.mv) ∧
    (∀ x, (ext.rd_inter16x16_uv x).x.mbmi.mv = x.mbmi.mv) ∧
    (∀ x, ext.vp8_clamp_mv2 x zero_mv = zero_mv)

/-- The conditions of lines 2298-2304 and 3034-3037 and what the overlay
rule relies on in the state of the candidate loop: the two segment features
are off for the segment, the source frame is the alt-ref frame without ARNR
filtering, `mode_mv[ZEROMV]` is the zero vector and so is the vector of the
best-mode record. -/
def OverlayInv (seg : Seg) (s : PickState W) : Prop :=
  seg.segfeature_active s.l.segment_id SEG_LVL_REF_FRAME = false ∧
    seg.segfeature_active s.l.segment_id SEG_LVL_MODE = false ∧
    s.cpi.is_src_frame_alt_ref = true ∧ s.cpi.arnr_max_frames = 0 ∧
    s.l.mode_mv ZEROMV = zero_mv ∧ s.l.best_mbmode.mv = zero_mv

/-- The vector in the mode info a `switch` is left with, unless it is left
with `continue`. -/
def SwitchResult.doneVector : SwitchResult W → Option int_mv
  | SwitchResult.cont _ => none
  | SwitchResult.done s _ => some s.x.mbmi.mv

end OverlayDefs

/-! ## The window of legal vectors while it is narrowed -/

section WindowDefs

variable {W : Type}

/-- The lower bound `(ref >> 3) - MAX_FULL_PEL_VAL + ((ref & 7) ? 1 : 0)` of
lines 1639-1640 and 2469-2470 for one component of the reference vector. -/
def refWindowMin (cfg : Config) (ref : Int) : Int :=
  iadd (isub (sar ref 3) cfg.MAX_FULL_PEL_VAL) (if ref % 8 ≠ 0 then 1 else 0)

/-- The upper bound `(ref >> 3) + MAX_FULL_PEL_VAL` of lines 1641-1642 and
2471-2472 for one component of the reference vector. -/
def refWindowMax (cfg : Config) (ref : Int) : Int :=
  iadd (sar ref 3) cfg.MAX_FULL_PEL_VAL

/-- Lines 2554-2577 of `case NEWMV`: the final refining search. -/
def refineStep (ext : Ext W) (sadpb : Int) (brm : int_mv) (st : StepState W) : StepState W :=
  if st.do_refine = true then
    let q := ext.refining_search_sad st.x sadpb 8 brm
    if q.2 < st.bestsme then
      { st with x := q.1, bestsme := q.2, new_mv := (q.1.block_bmi 0).mv }
    else { st with x := setDmv q.1 st.new_mv }
  else st

/-- Lines 2477-2577 of `case NEWMV`: the searches between the narrowing of
the window and its restoration, with the variables they leave. -/
def newmvSearched (cfg : Config) (ext : Ext W) (s : PickState W) : StepState W :=
  let brm := s.l.best_ref_mv
  let step_param := s.cpi.sf_first_step
  let sadpb := s.x.sadperbit16
  let near_sadidx :=
    if s.l.saddone = false then ext.vp8_cal_sad s.x s.l.near_sadidx else s.l.near_sadidx
  let p := ext.vp8_mv_pred s.x s.x.mbmi.ref_frame near_sadidx s.l.mvp s.l.sr
  let mvp := p.1
  let sr := p.2
  let mvp_full : int_mv := { col := sar mvp.col 3, row := sar mvp.row 3 }
  let x1 : MACROBLOCK W := narrowWindow cfg brm s.x
  let step_param := if sr > step_param then sr else step_param
  let r := ext.diamond_search_sad x1 mvp_full step_param sadpb s.l.num00 brm
  let further_steps := isub (isub s.cpi.sf_max_step_search_steps 1) step_param
  let st0 : StepState W :=
    { x := r.x, n := r.num00, num00 := 0, bestsme := r.ret,
      new_mv := (r.x.block_bmi 0).mv,
      do_refine := if r.num00 > further_steps then false else true }
  refineStep ext sadpb brm
    (furtherSteps ext mvp_full brm step_param sadpb further_steps
      (further_steps - st0.n).toNat st0)

/-- Predicate: the motion searches of `case NEWMV` leave the four bounds of
the window as they are. -/
def KeepsWindow (ext : Ext W) : Prop :=
  (∀ x a b c d e, (ext.diamond_search_sad x a b c d e).x.window = x.window) ∧
    (∀ x a b c, (ext.refining_search_sad x a b c).1.window = x.window) ∧
    (∀ x a b, (ext.find_fractional_mv_step x a b).window = x.window)

end WindowDefs

/-! ## The 8x8 block search and the 4x4 search of a macroblock:
`rd_pick_intra8x8block` and `rd_pick_intra4x4mby_modes` -/

section IntraBlocks

/-- The context tables of blockd.h, the routines of the 8x8 block search and
what the 4x4 search of a macroblock reads of the macroblock; `P` stands for
the contents of the local buffers `best_predictor` and `best_dqcoeff`. -/
structure QuadExt (W P : Type) where
  /-- table `vp8_block2above` -/
  vp8_block2above : Nat → Nat
  /-- table `vp8_block2left` -/
  vp8_block2left : Nat → Nat
  /-- `intra8x8_predict(b, mode, b->predictor)` for block `ib` -/
  intra8x8_predict : MACROBLOCK W → Nat → Int → MACROBLOCK W
  /-- `vp8_subtract_4b_c(be, b, 16)` for block `ib` -/
  vp8_subtract_4b_c : MACROBLOCK W → Nat → MACROBLOCK W
  /-- `x->vp8_short_fdct8x4(be->src_diff + off, be->coeff + off, 32)` for
  block `ib` and the offset `off` -/
  vp8_short_fdct8x4 : MACROBLOCK W → Nat → Nat → MACROBLOCK W
  /-- `x->quantize_b_pair` for the blocks `j` and `j + 1` -/
  quantize_b_pair : MACROBLOCK W → Nat → MACROBLOCK W
  /-- what `copy_predictor_8x8(best_predictor, b->predictor)` and the two
  `vpx_memcpy` into `best_dqcoeff` put into the local buffers -/
  copy_best8x8 : MACROBLOCK W → Nat → P
  /-- `vp8_encode_intra8x8(IF_RTCD(&cpi->rtcd), x, ib)` -/
  vp8_encode_intra8x8 : MACROBLOCK W → Nat → MACROBLOCK W
  /-- `*mb->e_mbd.above_context`, as its bytes -/
  above_context : MACROBLOCK W → Nat → Int
  /-- `*mb->e_mbd.left_context`, as its bytes -/
  left_context : MACROBLOCK W → Nat → Int
  /-- `vp8_intra_prediction_down_copy(xd)` -/
  vp8_intra_prediction_down_copy : MACROBLOCK W → MACROBLOCK W
  /-- `mb->e_mbd.frame_type == KEY_FRAME` -/
  is_key_frame : MACROBLOCK W → Bool
  /-- `mb->inter_bmode_costs[mode]`, an `unsigned int` -/
  inter_bmode_costs : MACROBLOCK W → Int → Int
  /-- `mb->bmode_costs[A][L][mode]` with `A = above_block_mode(mic, i, mis)`
  and `L = left_block_mode(mic, i)` for block `i`, an `unsigned int` -/
  key_bmode_costs : MACROBLOCK W → Nat → Int → Int
  /-- what `best_mode`, `r`, `ry` and `d` of the loop body of
  `rd_pick_intra4x4mby_modes` hold before the call for block `i` -/
  stale_outputs : Nat → Int × Int × Int × Int
  /-- what the local buffers of `rd_pick_intra4x4block` hold on entry for
  block `i` -/
  stale_buffers : Nat → P

variable {W P : Type}

/-! ### `rd_pick_intra8x8block` (lines 890-990) -/

/-- What one turn of the mode loop of `rd_pick_intra8x8block` computes
(lines 925-963). -/
structure QuadEval (W : Type) where
  /-- the macroblock memory after the turn -/
  x : MACROBLOCK W
  /-- `rate` -/
  rate : Int
  /-- `rate_t` -/
  rate_t : Int
  /-- `distortion` -/
  distortion : Int
  /-- `this_rd` -/
  this_rd : Int
  /-- `ta0` after the four calls of `cost_coeffs` -/
  ta0 : Int
  /-- `ta1` after the four calls of `cost_coeffs` -/
  ta1 : Int
  /-- `tl0` after the four calls of `cost_coeffs` -/
  tl0 : Int
  /-- `tl1` after the four calls of `cost_coeffs` -/
  tl1 : Int

/-- Lines 925-963: prediction, transform, quantisation, distortion and
coefficient cost of one mode for the quadrant that starts at block `ib`, with
the entropy contexts in `a` and `l`. -/
def evalQuadMode (k : IntraConsts) (ext : Ext W) (bx : BlockExt W P) (q : QuadExt W P)
    (x : MACROBLOCK W) (ib : Nat) (mode_costs : Int → Int) (a l : Nat → Int) (mode : Int) :
    QuadEval W :=
  let rate := wrap32 (mode_costs mode)
  let x := q.vp8_subtract_4b_c (q.intra8x8_predict x ib mode) ib
  let x := q.vp8_short_fdct8x4 (q.vp8_short_fdct8x4 x ib 0) ib 64
  let x := q.quantize_b_pair (q.quantize_b_pair x ib) (ib + 4)
  let distortion := sar (bx.berr x ib) 2
  let distortion := iadd distortion (sar (bx.berr x (ib + 1)) 2)
  let distortion := iadd distortion (sar (bx.berr x (ib + 4)) 2)
  let distortion := iadd distortion (sar (bx.berr x (ib + 5)) 2)
  let ta0 := a (q.vp8_block2above ib)
  let ta1 := a (q.vp8_block2above (ib + 1))
  let tl0 := l (q.vp8_block2above ib)
  let tl1 := l (q.vp8_block2above (ib + 4))
  let c1 := cost_coeffs k ext bx x ib k.PLANE_TYPE_Y_WITH_DC ta0 tl0
  let c2 := cost_coeffs k ext bx x (ib + 1) k.PLANE_TYPE_Y_WITH_DC ta1 c1.2
  let c3 := cost_coeffs k ext bx x (ib + 4) k.PLANE_TYPE_Y_WITH_DC c1.2 tl1
  let c4 := cost_coeffs k ext bx x (ib + 5) k.PLANE_TYPE_Y_WITH_DC c2.2 c3.2
  let rate_t := iadd (iadd (iadd c1.1 c2.1) c3.1) c4.1
  let rate := iadd rate rate_t
  { x := x, rate := rate, rate_t := rate_t, distortion := distortion
    this_rd := rdcost ext x rate distortion
    ta0 := c3.2, ta1 := c4.2, tl0 := c2.2, tl1 := c4.2 }

/-- The state of `rd_pick_intra8x8block`: the memory, `best_rd`, what the
pointers `best_mode`, `bestrate`, `bestratey` and `bestdistortion` point to,
the locals `besta0`, `besta1`, `bestl0`, `bestl1` and the local buffers. -/
structure Quad8x8 (W P : Type) where
  /-- the macroblock memory -/
  x : MACROBLOCK W
  /-- `best_rd`; the return value at the end -/
  best_rd : Int
  /-- `*best_mode` -/
  best_mode : Int
  /-- `*bestrate` -/
  bestrate : Int
  /-- `*bestratey` -/
  bestratey : Int
  /-- `*bestdistortion` -/
  bestdistortion : Int
  /-- `besta0` -/
  besta0 : Int
  /-- `besta1` -/
  besta1 : Int
  /-- `bestl0` -/
  bestl0 : Int
  /-- `bestl1` -/
  bestl1 : Int
  /-- `best_predictor` and `best_dqcoeff` -/
  buffers : P

/-- Lines 922-979: one turn of the mode loop; `a` and `l` are the entropy
contexts the function was given. -/
def quadModeStep (k : IntraConsts) (ext : Ext W) (bx : BlockExt W P) (q : QuadExt W P)
    (ib : Nat) (mode_costs : Int → Int) (a l : Nat → Int) (s : Quad8x8 W P)
    (mode : MB_PREDICTION_MODE) : Quad8x8 W P :=
  let e := evalQuadMode k ext bx q s.x ib mode_costs a l mode.toInt
  if e.this_rd < s.best_rd then
    { x := e.x, best_rd := e.this_rd, best_mode := mode.toInt
      bestrate := e.rate, bestratey := e.rate_t, bestdistortion := e.distortion
      besta0 := e.ta0, besta1 := e.ta1, bestl0 := e.tl0, bestl1 := e.tl1
      buffers := q.copy_best8x8 e.x ib }
  else { s with x := e.x }

/-- Result of `rd_pick_intra8x8block`: the state at its end and the entropy
contexts as the function leaves them. -/
structure QuadResult (W P : Type) where
  /-- the state at the end; `best_rd` is the return value -/
  s : Quad8x8 W P
  /-- the above contexts `a[..]` -/
  a : Nat → Int
  /-- the left contexts `l[..]` -/
  l : Nat → Int

/-- Function `rd_pick_intra8x8block` (lines 890-990) for the quadrant that
starts at block `ib`.  `s0` holds what the pointers point to on entry and the
contents of the locals without initializer. -/
def rd_pick_intra8x8block (k : IntraConsts) (ext : Ext W) (bx : BlockExt W P)
    (q : QuadExt W P) (ib : Nat) (mode_costs : Int → Int) (a l : Nat → Int)
    (s0 : Quad8x8 W P) : QuadResult W P :=
  let s := [DC_PRED, V_PRED, H_PRED, TM_PRED].foldl
    (quadModeStep k ext bx q ib mode_costs a l) { s0 with best_rd := INT_MAX }
  let x := { s.x with
    block_bmi := Function.update s.x.block_bmi ib { s.x.block_bmi ib with as_mode := s.best_mode } }
  let a := Function.update a (q.vp8_block2above ib) s.besta0
  let a := Function.update a (q.vp8_block2above (ib + 1)) s.besta1
  let l := Function.update l (q.vp8_block2above ib) s.bestl0
  let l := Function.update l (q.vp8_block2above (ib + 4)) s.bestl1
  { s := { s with x := q.vp8_encode_intra8x8 x ib }, a := a, l := l }

/-- The four calls of `cost_coeffs` as `vp8_rdcost_mby` (lines 613-615) makes
them for the blocks of the quadrant: each block with the above context of its
column and the left context of its row, `a[vp8_block2above[b]]` and
`l[vp8_block2left[b]]`; the result is the sum of the costs and the contexts
left. -/
def quadCostByRows (k : IntraConsts) (ext : Ext W) (bx : BlockExt W P) (q : QuadExt W P)
    (x : MACROBLOCK W) (ib : Nat) (type : Int) (a l : Nat → Int) :
    Int × (Nat → Int) × (Nat → Int) :=
  [ib, ib + 1, ib + 4, ib + 5].foldl
    (fun (acc : Int × (Nat → Int) × (Nat → Int)) b =>
      let c := cost_coeffs k ext bx x b type (acc.2.1 (q.vp8_block2above b))
        (acc.2.2 (q.vp8_block2left b))
      (iadd acc.1 c.1, Function.update acc.2.1 (q.vp8_block2above b) c.2,
        Function.update acc.2.2 (q.vp8_block2left b) c.2))
    (0, a, l)

/-! ### `rd_pick_intra4x4mby_modes` (lines 784-848) -/

/-- Wrap-around of a value to the 64 bits of an `int64_t`. -/
def wrap64 (x : Int) : Int := (x + 9223372036854775808) % 18446744073709551616 - 9223372036854775808

/-- What the call of `rd_pick_intra4x4block` for one block gave (not a
variable of the code). -/
structure BlockOut where
  /-- the block `i` -/
  index : Nat
  /-- the value returned -/
  ret : Int
  /-- `r` -/
  r : Int
  /-- `ry` -/
  ry : Int
  /-- `d` -/
  d : Int
  deriving DecidableEq

/-- The variables of `rd_pick_intra4x4mby_modes`. -/
structure MbyState (W : Type) where
  /-- the macroblock memory -/
  x : MACROBLOCK W
  /-- `cost` -/
  cost : Int
  /-- `distortion` -/
  distortion : Int
  /-- `tot_rate_y` -/
  tot_rate_y : Int
  /-- `total_rd`, an `int64_t` -/
  total_rd : Int
  /-- `t_above` -/
  ta : Nat → Int
  /-- `t_left` -/
  tl : Nat → Int
  /-- the calls of `rd_pick_intra4x4block` made so far, in their order (not a
  variable of the code) -/
  blocks : List BlockOut

/-- Lines 812-828: the call of `rd_pick_intra4x4block` for block `i`, with
the cost row of line 822 on a key frame, the entropy contexts
`ta + vp8_block2above[i]` and `tl + vp8_block2left[i]`, and `best_mode`,
`r`, `ry` and `d` holding what the locals without initializer hold. -/
def mbyCall (k : IntraConsts) (ext : Ext W) (bx : BlockExt W P) (q : QuadExt W P)
    (s : MbyState W) (i : Nat) : Block4x4 W P :=
  let bmode_costs : Int → Int :=
    if q.is_key_frame s.x = true then q.key_bmode_costs s.x i else q.inter_bmode_costs s.x
  let st := q.stale_outputs i
  rd_pick_intra4x4block k ext bx i bmode_costs
    { x := s.x, best_rd := INT_MAX, best_mode := st.1
      a := s.ta (q.vp8_block2above i), l := s.tl (q.vp8_block2left i)
      bestrate := st.2.1, bestratey := st.2.2.1, bestdistortion := st.2.2.2
      buffers := q.stale_buffers i, evals := [] }

/-- Lines 812-834: the loop body for block `i` up to the test of line
836. -/
def mbyBlock (k : IntraConsts) (ext : Ext W) (bx : BlockExt W P) (q : QuadExt W P)
    (s : MbyState W) (i : Nat) : MbyState W :=
  let b := mbyCall k ext bx q s i
  { x := { b.x with
      mode_info_bmi := Function.update b.x.mode_info_bmi i
        { b.x.mode_info_bmi i with as_mode := b.best_mode } }
    cost := iadd s.cost b.bestrate
    distortion := iadd s.distortion b.bestdistortion
    tot_rate_y := iadd s.tot_rate_y b.bestratey
    total_rd := wrap64 (s.total_rd + b.best_rd)
    ta := Function.update s.ta (q.vp8_block2above i) b.a
    tl := Function.update s.tl (q.vp8_block2left i) b.l
    blocks := s.blocks ++
      [{ index := i, ret := b.best_rd, r := b.bestrate, ry := b.bestratey,
         d := b.bestdistortion }] }

/-- Lines 810-838: the loop over the blocks `is`; it ends with the list or
with the `break` of line 837. -/
def mbyLoop (k : IntraConsts) (ext : Ext W) (bx : BlockExt W P) (q : QuadExt W P)
    (best_rd : Int) : List Nat → MbyState W → MbyState W
  | [], s => s
  | i :: is, s =>
    if (mbyBlock k ext bx q s i).total_rd ≥ best_rd then mbyBlock k ext bx q s i
    else mbyLoop k ext bx q best_rd is (mbyBlock k ext bx q s i)

/-- Result of `rd_pick_intra4x4mby_modes`. -/
structure MbyResult (W : Type) where
  /-- the macroblock memory after the call -/
  x : MACROBLOCK W
  /-- the returned value -/
  ret : Int
  /-- `*Rate` after the call -/
  rate : Int
  /-- `*rate_y` after the call -/
  rate_y : Int
  /-- `*Distortion` after the call -/
  distortion : Int
  /-- whether lines 843-845 were run (not a result of the code) -/
  wrote : Bool
  /-- the variables at the end of the loop (not a result of the code) -/
  last : MbyState W

/-- Lines 789-808: the variables in front of the loop over the blocks. -/
def mbyStart (k : IntraConsts) (ext : Ext W) (q : QuadExt W P) (mb : MACROBLOCK W) :
    MbyState W :=
  { x := if k.CONFIG_SUPERBLOCKS = true then mb else q.vp8_intra_prediction_down_copy mb
    cost := ext.mbmode_cost mb B_PRED, distortion := 0, tot_rate_y := 0
    total_rd := 0, ta := q.above_context mb, tl := q.left_context mb, blocks := [] }

/-- Function `rd_pick_intra4x4mby_modes` (lines 784-848); `Rate`, `rate_y`
and `Distortion` are what the three pointers point to on entry. -/
def rd_pick_intra4x4mby_modes (k : IntraConsts) (ext : Ext W) (bx : BlockExt W P)
    (q : QuadExt W P) (mb : MACROBLOCK W) (Rate rate_y Distortion best_rd : Int) :
    MbyResult W :=
  let s := mbyLoop k ext bx q best_rd (List.range 16) (mbyStart k ext q mb)
  if s.total_rd ≥ best_rd then
    { x := s.x, ret := INT_MAX, rate := Rate, rate_y := rate_y, distortion := Distortion
      wrote := false, last := s }
  else
    { x := s.x, ret := rdcost ext s.x s.cost s.distortion, rate := s.cost
      rate_y := iadd rate_y s.tot_rate_y, distortion := s.distortion
      wrote := true, last := s }

end IntraBlocks

/-! ### What holds of the variables of `rd_pick_intra4x4mby_modes` inside
its loop -/

section MbyInvariant

variable {W : Type}

/-- The sum of the values `rd_pick_intra4x4block` returned for the first `n`
blocks of the record. -/
def runningSum (blocks : List BlockOut) (n : Nat) : Int :=
  ((blocks.take n).map BlockOut.ret).sum

/-- The invariant of the loop of `rd_pick_intra4x4mby_modes`, `c0` being
the initial `cost`: the record lists the blocks in their order, every value
returned is an `int`, `total_rd` is the sum of the values returned, and
`cost`, `distortion` and `tot_rate_y` are the `int` sums of the rates and
distortions of the record. -/
def MbyInv (c0 : Int) (s : MbyState W) : Prop :=
  s.blocks.map BlockOut.index = List.range s.blocks.length ∧
    (∀ b ∈ s.blocks, IsInt32 b.ret) ∧
    s.total_rd = runningSum s.blocks s.blocks.length ∧
    s.cost = s.blocks.foldl (fun c b => iadd c b.r) c0 ∧
    s.distortion = s.blocks.foldl (fun c b => iadd c b.d) 0 ∧
    s.tot_rate_y = s.blocks.foldl (fun c b => iadd c b.ry) 0

end MbyInvariant

/-! ### The searches of the blocks, one after the other -/

section MbySearches

variable {W P : Type}

/-- The variables of `rd_pick_intra4x4mby_modes` behind the loop body for
the blocks `0` to `n - 1`, searched one after the other. -/
def mbySearched (k : IntraConsts) (ext : Ext W) (bx : BlockExt W P) (q : QuadExt W P)
    (mb : MACROBLOCK W) (n : Nat) : MbyState W :=
  (List.range n).foldl (mbyBlock k ext bx q) (mbyStart k ext q mb)

/-- What `rd_pick_intra4x4block` gives for block `i` when the blocks before
it have been searched: the best RD cost it returns, and the rate, the
coefficient rate and the distortion it stores in `r`, `ry` and `d`. -/
def blockResult (k : IntraConsts) (ext : Ext W) (bx : BlockExt W P) (q : QuadExt W P)
    (mb : MACROBLOCK W) (i : Nat) : BlockOut :=
  { index := i
    ret := (mbyCall k ext bx q (mbySearched k ext bx q mb i) i).best_rd
    r := (mbyCall k ext bx q (mbySearched k ext bx q mb i) i).bestrate
    ry := (mbyCall k ext bx q (mbySearched k ext bx q mb i) i).bestratey
    d := (mbyCall k ext bx q (mbySearched k ext bx q mb i) i).bestdistortion }

/-- The running sum of the best RD costs of the blocks `0` to `n - 1`, as a
mathematical sum. -/
def blockSum (k : IntraConsts) (ext : Ext W) (bx : BlockExt W P) (q : QuadExt W P)
    (mb : MACROBLOCK W) (n : Nat) : Int :=
  ((List.range n).map (fun i => (blockResult k ext bx q mb i).ret)).sum

end MbySearches

/-- A concrete build for claim C9: the extended-range build with a
constant quantizer step of 100. -/
def c9Config : Config :=
  { CONFIG_DUALPRED := false, CONFIG_COMPRED := false, CONFIG_T8X8 := false,
    CONFIG_EXTEND_QRANGE := true, MIN_THRESHMULT := 32, MAX_THRESHMULT := 512,
    MAXQ := 127, MAX_FULL_PEL_VAL := 255, GF_ZEROMV_ZBIN_BOOST := 24,
    LF_ZEROMV_ZBIN_BOOST := 12, MV_ZBIN_BOOST := 4, mv_max := 1023, NEW4X4 := 13 }

/-- The inputs of the concrete run for claim C9. -/
def c9Input : RdConstsInput :=
  { zbin_over_quant := 0, pass := 2, is_key_frame := false, next_iiratio := 1,
    thresh_mult := fun _ => 1000 }

/-- The floating-point stand-ins of the concrete run. -/
def c9Float : FloatOps := { scale_oq := fun r _ => r, pow125 := fun v => 4 * v }

/-- The inputs of the run in which the shift of line 315 leaves the range of
`int`: a `zbin_over_quant` of 171000 in a one-pass encode. -/
def c9WideInput : RdConstsInput :=
  { zbin_over_quant := 171000, pass := 0, is_key_frame := false, next_iiratio := 0,
    thresh_mult := fun _ => 1000 }

/-- The floating-point expressions of that run: `oq_factor` is
`1 + zbin_over_quant / 640`, so the scaled multiplier is
`RDMULT * (640 + zbin_over_quant)^2 / 640^2`, here computed exactly and
truncated (for `RDMULT = 1875` and `zbin_over_quant = 171000` the `double`
product is 134858503.41796875, truncated to 134858503). -/
def c9WideFloat : FloatOps :=
  { scale_oq := fun r z => r * (640 + z) * (640 + z) / 409600, pow125 := fun v => 4 * v }

/-! ## Concrete macroblocks -/

/-- A definition of the macro `RDCOST`:
`((128 + R * RM) >> 8) + DM * D`. -/
def sampleRDCOST (RM DM R D : Int) : Int := sar (128 + R * RM) 8 + DM * D

/-- The build used in the concrete runs: no experimental switch set, and the
threshold constants 32 and 512. -/
def stdConfig : Config :=
  { CONFIG_DUALPRED := false, CONFIG_COMPRED := false, CONFIG_T8X8 := false,
    CONFIG_EXTEND_QRANGE := false, MIN_THRESHMULT := 32, MAX_THRESHMULT := 512,
    MAXQ := 127, MAX_FULL_PEL_VAL := 255, GF_ZEROMV_ZBIN_BOOST := 24,
    LF_ZEROMV_ZBIN_BOOST := 12, MV_ZBIN_BOOST := 4, mv_max := 1023, NEW4X4 := 13 }

/-- The `CONFIG_DUALPRED` build with the same constants. -/
def dualConfig : Config := { stdConfig with CONFIG_DUALPRED := true }

/-- Segment data with no feature active. -/
def noSeg : Seg :=
  { segfeature_active := fun _ _ => false, check_segref := fun _ _ => true,
    get_segdata := fun _ _ => 0, seg_tx_is_8x8 := fun _ => false }

/-- What a concrete macroblock answers to the routines: the luma rate and
distortion `macro_block_yrd` finds for the mode and reference frame in the
mode info, the luma `sse` of `var16x16`, and `x->active_ptr[0]`. -/
structure Bench where
  /-- rate and distortion of `macro_block_yrd` -/
  yrd : MB_PREDICTION_MODE → MV_REFERENCE_FRAME → Int × Int
  /-- `sse` of `var16x16` -/
  sse : MB_PREDICTION_MODE → MV_REFERENCE_FRAME → Int
  /-- `x->active_ptr[0]` -/
  active : Int

/-- The routines of a concrete macroblock: every cost other than the luma
cost is 0, the neighbours give the vectors (8, 8) and (16, 16), the searches
and the clamp leave things as they are, and every block has coefficients. -/
def benchExt (b : Bench) : Ext Unit :=
  { RDCOST := sampleRDCOST
    vp8_cost_bit := fun _ _ => 0
    vp8_find_near_mvs := fun _ _ =>
      { nearest := { row := 8, col := 8 }, near := { row := 16, col := 16 },
        best := { row := 8, col := 8 }, mdcounts := fun _ => 0 }
    rd_pick_intra_mbuv_mode := fun x =>
      { x := x, rate := 0, rate_tokenonly := 0, distortion := 0 }
    vp8_estimate_ref_frame_costs := fun _ _ => 0
    ref_frame_cost := fun _ _ => 0
    vp8_update_zbin_extra := fun _ x => x
    rd_pick_intra4x4mby_modes := fun x rate rate_y distortion _ =>
      { x := x, ret := INT_MAX, rate := rate, rate_y := rate_y, distortion := distortion }
    rd_pick_intra8x8mby_modes := fun x rate rate_y distortion _ =>
      { x := x, ret := INT_MAX, rate := rate, rate_y := rate_y, distortion := distortion }
    vp8_rd_pick_best_mbsegmentation := fun x _ _ _ rate rate_y distortion _ =>
      { x := x, ret := INT_MAX, rate := rate, rate_y := rate_y, distortion := distortion }
    rd_inter4x4_uv := fun x => { x := x, rate := 0, distortion := 0 }
    rd_inter16x16_uv := fun x => { x := x, rate := 0, distortion := 0 }
    build_intra_predictors_mby := fun x => x
    macro_block_yrd := fun x =>
      { x := x, rate := (b.yrd x.mbmi.mode x.mbmi.ref_frame).1,
        distortion := (b.yrd x.mbmi.mode x.mbmi.ref_frame).2 }
    mbmode_cost := fun _ _ => 0
    vp8_cal_sad := fun _ idx => idx
    vp8_mv_pred := fun _ _ _ mvp sr => (mvp, sr)
    diamond_search_sad := fun x _ _ _ num00 _ => { x := x, ret := 0, num00 := num00 }
    refining_search_sad := fun x _ _ _ => (x, 0)
    find_fractional_mv_step := fun x _ _ => x
    vp8_mv_bit_cost := fun _ _ _ _ => 0
    vp8_clamp_mv2 := fun _ mv => mv
    vp8_build_inter16x16_predictors_mby := fun x => x
    vp8_build_inter16x16_predictors_mbuv := fun x => x
    vp8_build_2nd_inter16x16_predictors_mb := fun x => x
    dualpred_flag_cost := fun _ _ => 0
    active_ptr0 := fun _ => b.active
    dequant_y_ac := fun _ => 40
    dequant_y2_dc := fun _ => 40
    var16x16 := fun x => (0, b.sse x.mbmi.mode x.mbmi.ref_frame)
    VP8_UVSSE := fun _ => 0
    vp8_cost_mv_ref := fun _ _ => 0
    block_eob := fun _ _ => 1 }

/-- The mode info of a concrete macroblock before the decision. -/
def benchMbmi : MB_MODE_INFO :=
  { mode := ZEROMV, uv_mode := DC_PRED, ref_frame := LAST_FRAME,
    second_ref_frame := INTRA_FRAME, mv := { row := 2, col := 2 },
    second_mv := zero_mv, partitioning := 0, mb_skip_coeff := 0, segment_id := 0 }

/-- The memory of a concrete macroblock: `rdmult = 256` and `rddiv = 1`, so
that `sampleRDCOST` is rate plus distortion, and a window of 100 whole pixels
around the origin. -/
def benchX (encode_breakout : Int) : MACROBLOCK Unit :=
  { mbmi := benchMbmi, skip := false
    mv_col_min := -100, mv_col_max := 100, mv_row_min := -100, mv_row_max := 100
    rdmult := 256, rddiv := 1, errorperbit := 1, sadperbit16 := 1
    encode_breakout := encode_breakout
    block_bmi := fun _ => { as_mode := 0, mv := zero_mv }
    mode_info_bmi := fun _ => { as_mode := 0, mv := zero_mv }
    partition_info := { count := 0, bmi_mode := fun _ => 0, bmi_mv := fun _ => zero_mv }
    pre_frame := LAST_FRAME, second_pre_frame := LAST_FRAME, mem := () }

/-- The contents of the locals without initializer in the concrete runs. -/
def benchLocals : Locals :=
  { segment_id := 0, best_mbmode := zeroed_mbmode, best_bmodes := zeroed_bmodes
    best_partition := { count := 0, bmi_mode := fun _ => 0, bmi_mv := fun _ => zero_mv }
    best_ref_mv := zero_mv, mode_mv := fun _ => zero_mv, num00 := 0
    best_mode_index := 0, mode8x8 := fun _ => 0, mdcounts := fun _ => 0
    rate := 0, distortion := 0, best_rd := 0, best_intra_rd := 0, best_dual_rd := 0
    best_single_rd := 0, best_hybrid_rd := 0, rate2 := 0, distortion2 := 0
    uv_intra_rate := 0, uv_intra_distortion := 0, uv_intra_rate_tokenonly := 0
    rate_y := 0, rate_uv := 0, distortion_uv := 0, best_yrd := 0
    uv_intra_mode := DC_PRED, mvp := zero_mv, near_sadidx := fun _ => 0
    saddone := false, sr := 0
    frame_nearest_mv := fun _ => zero_mv, frame_near_mv := fun _ => zero_mv
    frame_best_ref_mv := fun _ => zero_mv, mc_search_result := fun _ => zero_mv
    frame_mdcounts := fun _ _ => 0, ref_costs := fun _ => 0
    returnrate := 0, returndistortion := 0, returnintra := 0
    best_single_rd_diff := 0, best_dual_rd_diff := 0, best_hybrid_rd_diff := 0 }

/-- The encoder instance of the concrete runs: threshold `thr i` and
multiplier 128 for candidate `i`, baseline threshold 1280, all three
reference frames available. -/
def benchCpi (thr : Nat → Int) (active_map_enabled : Bool)
    (dual_pred_mode : DUALPREDMODE_TYPE) : VP8_COMP :=
  { rd_threshes := thr, rd_thresh_mult := fun _ => 128
    rd_baseline_thresh := fun _ => 1280, mode_chosen_counts := fun _ => 0
    mbs_tested_so_far := 0, zbin_mode_boost := 0, MVcount := fun _ _ => 0
    zbin_mode_boost_enabled := false
    ref_last_flag := true, ref_gold_flag := true, ref_alt_flag := true
    is_src_frame_alt_ref := false, arnr_max_frames := 0
    active_map_enabled := active_map_enabled, mb_no_coeff_skip := true
    prob_skip_false := 128, dual_pred_mode := dual_pred_mode
    sf_first_step := 0, sf_max_step_search_steps := 4 }

/-- Thresholds that let exactly the candidates of the list `allowed` through. -/
def onlyCandidates (allowed : List Nat) (i : Nat) : Int :=
  if i ∈ allowed then 0 else INT_MAX

/-- Concrete macroblock 1 (active map): the macroblock is switched off in
the active map; the DC_PRED candidate costs 10 + 90, every whole-block inter
candidate costs 1000 + 4000. -/
def bench1 : Bench :=
  { yrd := fun _ rf => if rf = INTRA_FRAME then (10, 90) else (1000, 4000)
    sse := fun _ _ => 100000
    active := 0 }

/-- A concrete state inside the candidate loop: `best_rd` as given, threshold
`thr i` for candidate `i`. -/
def benchState (best_rd : Int) (thr : Nat → Int) : PickState Unit :=
  { cpi := benchCpi thr false SINGLE_PREDICTION_ONLY
    x := benchX 0
    l := { benchLocals with best_rd := best_rd } }

/-- Segment data that allow the golden frame only. -/
def goldOnlySeg : Seg :=
  { segfeature_active := fun _ f => decide (f = SEG_LVL_REF_FRAME)
    check_segref := fun _ rf => decide (rf = GOLDEN_FRAME)
    get_segdata := fun _ _ => 0, seg_tx_is_8x8 := fun _ => false }

/-- The encoder instance of concrete macroblock 1: the active map is on, the
ZEROMV / LAST_FRAME candidate is disabled by its threshold, the candidates
1 to 3 are enabled. -/
def cpi1 : VP8_COMP := benchCpi (onlyCandidates [1, 2, 3]) true SINGLE_PREDICTION_ONLY

/-- Concrete macroblock 2 (encode breakout): ZEROMV predicts badly in the
pixel domain (`sse` 100000) but codes at 100 + 200; NEARESTMV predicts
exactly (`sse` 0); everything else costs 1000 + 4000. -/
def bench2 : Bench :=
  { yrd := fun m _ => if m = ZEROMV then (100, 200) else (1000, 4000)
    sse := fun m _ => if m = NEARESTMV then 0 else 100000
    active := 1 }

/-- The encoder instance of concrete macroblock 2: no active map, the
candidates 0 to 2 enabled. -/
def cpi2 : VP8_COMP := benchCpi (onlyCandidates [0, 1, 2]) false SINGLE_PREDICTION_ONLY

/-- Concrete macroblock 3 (no shortcut): ZEROMV on the last frame costs
100 + 200, NEARESTMV on the last frame 50 + 100, NEARMV on the last frame
60 + 90, everything else 1000 + 4000. -/
def bench3 : Bench :=
  { yrd := fun m rf =>
      if rf = LAST_FRAME then
        if m = ZEROMV then (100, 200)
        else if m = NEARESTMV then (50, 100)
        else if m = NEARMV then (60, 90)
        else (1000, 4000)
      else (1000, 4000)
    sse := fun _ _ => 100000
    active := 1 }

/-- The encoder instance of concrete macroblock 3: every candidate enabled
with threshold 0. -/
def cpi3 : VP8_COMP := benchCpi (fun _ => 0) false SINGLE_PREDICTION_ONLY

/-- Segment data that contradict each other: only the golden frame is
allowed, and the forced mode is `DC_PRED` (value 0), which the table pairs
with `INTRA_FRAME` only. -/
def contraSeg : Seg :=
  { segfeature_active := fun _ _ => true
    check_segref := fun _ rf => decide (rf = GOLDEN_FRAME)
    get_segdata := fun _ _ => 0, seg_tx_is_8x8 := fun _ => false }

/-- The encoder instance of the `CONFIG_DUALPRED` run: only dual prediction
may be chosen, only candidate 0 is enabled. -/
def cpiDual : VP8_COMP := benchCpi (onlyCandidates [0]) false DUAL_PREDICTION_ONLY

/-- The call of `vp8_rd_pick_inter_mode` on concrete macroblock 3. -/
def call3 : Call Unit :=
  { seg := noSeg, ext := benchExt bench3, x := benchX 0, l0 := benchLocals }

/-- Concrete macroblock 4: only DC_PRED is cheap (10 + 90); every inter
candidate costs 1000 + 4000. -/
def bench4 : Bench :=
  { yrd := fun _ rf => if rf = INTRA_FRAME then (10, 90) else (1000, 4000)
    sse := fun _ _ => 100000
    active := 1 }

/-- The call of `vp8_rd_pick_inter_mode` on concrete macroblock 4. -/
def call4 : Call Unit :=
  { seg := noSeg, ext := benchExt bench4, x := benchX 0, l0 := benchLocals }

/-- The encoder instance of the runs over several calls: the candidates 1
to 3 enabled with threshold 0, all multipliers 128. -/
def cpi4 : VP8_COMP := benchCpi (onlyCandidates [1, 2, 3]) false SINGLE_PREDICTION_ONLY

/-! ## Concrete calls of the motion-vector predictor -/

/-- A `short` from an `int`. -/
def wrap16 (x : Int) : Int := (x + 32768) % 65536 - 32768

/-- Helpers for the concrete calls: the correction negates a vector whose
sign bias differs from the one of the target reference frame, and the clamp
keeps a vector within 128 eighth-pels of the frame edges. -/
def sampleMvExt : MvExt :=
  { mv_bias := fun bias refframe mv table =>
      if bias ≠ table refframe then { row := wrap16 (-mv.row), col := wrap16 (-mv.col) }
      else mv
    vp8_clamp_mv2 := fun mv l r t b =>
      { row := if mv.row < t - 128 then t - 128 else if mv.row > b + 128 then b + 128
          else mv.row
        col := if mv.col < l - 128 then l - 128 else if mv.col > r + 128 then r + 128
          else mv.col } }

/-- The `mbmi` of a neighbour with reference frame `ref` and vector
`(row, col)`. -/
def neighbour (ref : MV_REFERENCE_FRAME) (row col : Int) : MB_MODE_INFO :=
  { zeroed_mbmode with
    mode := if ref = INTRA_FRAME then DC_PRED else NEWMV
    ref_frame := ref
    mv := { row := row, col := col } }

/-- A call for a macroblock in the second row and second column of a frame
of 4 by 4 macroblocks that follows a key frame: the reference frame is the
last frame, the neighbours are as given, and `near_sadidx` is `order`
followed by 3 to 7. -/
def predictorCall (above left aboveleft : MB_MODE_INFO) (order : List Int) : MvPredInput :=
  { here := neighbour LAST_FRAME 0 0
    above := above, left := left, aboveleft := aboveleft
    last_frame_is_key := true
    mode_info_stride := 5
    mb_to_top_edge := -128, mb_to_left_edge := -128
    mb_to_right_edge := 256, mb_to_bottom_edge := 256
    lf_ref_frame := fun _ => INTRA_FRAME
    lfmv := fun _ => zero_mv
    lf_ref_frame_sign_bias := fun _ => 0
    refframe := LAST_FRAME
    ref_frame_sign_bias := fun _ => 0
    near_sadidx := fun i => order.getD i (i : Int)
    sr := 0 }

/-- The only neighbour that is not intra predicts from the golden frame. -/
def goldenAbove : MvPredInput :=
  predictorCall (neighbour GOLDEN_FRAME 16 8) (neighbour INTRA_FRAME 0 0)
    (neighbour INTRA_FRAME 0 0) [0, 1, 2]

/-- Scenario B with a third neighbour that predicts from the last frame, has
another vector and is first in the order of `near_sadidx`. -/
def scenarioBThird : MvPredInput :=
  predictorCall (neighbour LAST_FRAME 4 (-2)) (neighbour LAST_FRAME 4 (-2))
    (neighbour LAST_FRAME 9 9) [2, 0, 1]

/-- Scenario B with an intra macroblock above and to the left. -/
def scenarioB : MvPredInput :=
  predictorCall (neighbour LAST_FRAME 4 (-2)) (neighbour LAST_FRAME 4 (-2))
    (neighbour INTRA_FRAME 0 0) [1, 2, 0]

/-- Two neighbours predict from the last frame with different vectors; the
one above is first in the order of `near_sadidx`. -/
def aboveFirst : MvPredInput :=
  predictorCall (neighbour LAST_FRAME 4 (-2)) (neighbour LAST_FRAME 8 8)
    (neighbour INTRA_FRAME 0 0) [0, 1, 2]

/-- The call `aboveFirst` with the left neighbour first in the order of
`near_sadidx` and nothing else changed. -/
def leftFirst : MvPredInput :=
  { aboveFirst with near_sadidx := fun i => [1, 0, 2].getD i (i : Int) }

/-! ## Concrete partition searches -/

/-- Table `vp8_mbsplits` of the concrete searches: two rows of eight blocks,
two columns of eight blocks, four quadrants, sixteen blocks. -/
def sample_mbsplits : Segmentation → Nat → Int
  | BLOCK_16X8, b => if b < 8 then 0 else 1
  | BLOCK_8X16, b => if b % 4 < 2 then 0 else 1
  | BLOCK_8X8, b => (if b < 8 then 0 else 2) + (if b % 4 < 2 then 0 else 1)
  | BLOCK_4X4, b => b

/-- Table `vp8_mbsplit_count` of the concrete searches. -/
def sample_mbsplit_count : Segmentation → Nat
  | BLOCK_16X8 => 2
  | BLOCK_8X16 => 2
  | BLOCK_8X8 => 4
  | BLOCK_4X4 => 16

/-- Table `vp8_mbsplit_offset` of the concrete searches: the first block of
each label. -/
def sample_mbsplit_offset : Segmentation → Nat → Nat
  | BLOCK_16X8, i => [0, 8].getD i 0
  | BLOCK_8X16, i => [0, 2].getD i 0
  | BLOCK_8X8, i => [0, 2, 8, 10].getD i 0
  | BLOCK_4X4, i => i

/-- What a concrete macroblock answers to the routines of the partition
search. -/
structure SplitBench where
  /-- the cost of signalling a segmentation -/
  splitCost : Segmentation → Int
  /-- `x->inter_bmode_costs` -/
  modeCost : B_PREDICTION_MODE → Int
  /-- the coefficient cost of a label -/
  coef : Int
  /-- what `vp8_encode_inter_mb_segment` returns for a label whose first
  block has the given vector -/
  dist : Int → int_mv → Int
  /-- the vector every motion search finds -/
  found : int_mv
  /-- the cost every motion search returns -/
  sme : Int

/-- The routines of a concrete partition search: the macroblock to the left
has the vector (8, 8) and the one above (24, 24), the searches find
`b.found`, and the clamp leaves a vector as it is. -/
def splitExt (b : SplitBench) : SplitExt Unit :=
  { vp8_mbsplits := sample_mbsplits
    vp8_mbsplit_count := sample_mbsplit_count
    vp8_mbsplit_offset := sample_mbsplit_offset
    MAX_MVSEARCH_STEPS := 8
    MAX_FIRST_STEP := 128
    mbsplit_cost := b.splitCost
    left_block_mv := fun _ _ => { row := 8, col := 8 }
    above_block_mv := fun _ _ => { row := 24, col := 24 }
    inter_bmode_costs := fun _ m => b.modeCost m
    sadperbit4 := fun _ => 1
    diamond_search_sad := fun _ _ _ _ _ _ _ =>
      { mem := (), ret := b.sme, best_mv := b.found, e_mv := b.found, num00 := 0 }
    full_search_sad := fun _ _ _ _ _ _ =>
      { mem := (), ret := b.sme, best_mv := b.found, e_mv := b.found, num00 := 0 }
    find_fractional_mv_step := fun _ _ _ mv _ _ =>
      { mem := (), ret := 0, best_mv := mv, e_mv := mv, num00 := 0 }
    vp8_clamp_mv := fun mv _ _ _ _ => mv
    vp8_encode_inter_mb_segment := fun x labels which =>
      ((), b.dist which
        (x.block_bmi (((List.range 16).find? (fun k => decide (labels k = which))).getD 0)).mv)
    rdcost_mbsegment_y := fun _ _ _ ta tl => { cost := b.coef, ta := ta, tl := tl }
    above_context := fun _ _ => 0
    left_context := fun _ _ => 0
    set_block_eob := fun m _ _ => m
    stale_mode_mv := fun _ _ => zero_mv
    stale_above_b := fun _ => 0
    stale_left_b := fun _ => 0 }

/-- A concrete macroblock for the partition search: signalling a
segmentation costs `split`, the modes cost 3, 3, 2 and 5, the coefficients
of a label cost 4, and the distortion of a label is 1 with the vector (32,
32) the search finds and 20 with another vector. -/
def splitBench (split : Int) : SplitBench :=
  { splitCost := fun _ => split
    modeCost := fun m =>
      if m = LEFT4X4 ∨ m = ABOVE4X4 then 3 else if m = ZERO4X4 then 2 else 5
    coef := 4
    dist := fun _ v => if v = { row := 32, col := 32 } then 4 else 80
    found := { row := 32, col := 32 }
    sme := 100 }

/-- The concrete macroblock `splitBench 10` with a residual so large that
`vp8_encode_inter_mb_segment` returns 4294967292 for every label, which
makes the distortion of a label 1073741823. -/
def hugeBench : SplitBench := { splitBench 10 with dist := fun _ _ => 4294967292 }

/-- The `BEST_SEG_INFO` of the concrete calls of `rd_check_segment`: the best
cost so far is 1000. -/
def benchBsi (mvthresh : Int) : BEST_SEG_INFO :=
  bsiInit stdConfig zero_mv 1000 (fun _ => 0) mvthresh

/-- The macroblock `benchX 0` with a window of whole pixels that starts at
row 50: none of the vectors of the concrete searches is inside. -/
def farWindow : MACROBLOCK Unit := { benchX 0 with mv_row_min := 50 }

/-- The macroblock `benchX 0` with a window of whole pixels that starts at
column 60. -/
def farColumns : MACROBLOCK Unit := { benchX 0 with mv_col_min := 60 }

/-- Best quality. -/
def bestQuality : SplitParams := { compressor_speed := 0, no_skip_block4x4_search := 0 }

/-- Reduced effort, without the flag that forces the check of the sixteen
blocks. -/
def reducedEffort : SplitParams := { compressor_speed := 1, no_skip_block4x4_search := 0 }

/-! ## Concrete macroblocks without coefficients -/

/-- A stand-in for `vp8_cost_bit`: the cost of a 0 falls and the cost of a 1
rises with the probability of a 0. -/
def sampleCostBit (prob bit : Int) : Int := if bit = 0 then 256 - prob else prob + 1

/-- The routines of a concrete macroblock all of whose blocks are left
without coefficients by every candidate: as `benchExt`, with every `eob` 0,
the bit cost `sampleCostBit`, and the mode costs 50 for ZEROMV, 10 for
NEARESTMV and 100 for the other inter modes. -/
def flatExt (b : Bench) : Ext Unit :=
  { benchExt b with
    vp8_cost_bit := sampleCostBit
    block_eob := fun _ _ => 0
    vp8_cost_mv_ref := fun m _ => if m = ZEROMV then 50 else if m = NEARESTMV then 10 else 100 }

/-- A flat, static macroblock: every candidate predicts it exactly, with the
luma rate and distortion 0 and the `sse` 0. -/
def flatBench : Bench :=
  { yrd := fun _ _ => (0, 0), sse := fun _ _ => 0, active := 1 }

/-- The encoder instance of concrete macroblock 3 with `prob_skip_false`
still 0. -/
def cpiNoProb : VP8_COMP := { cpi3 with prob_skip_false := 0 }

/-! ## A macroblock on which the partition search pays off less than intra 4x4 -/

/-- Concrete macroblock 5: every whole-block candidate costs 1000 + 4000. -/
def bench5 : Bench :=
  { yrd := fun _ _ => (1000, 4000)
    sse := fun _ _ => 100000
    active := 1 }

/-- The routines of concrete macroblock 5: the partition search finds a luma
cost of 100 + 0 and the chroma of the partitioned prediction costs 0 + 900;
the intra 4x4 search finds 100 + 50 when that is below the luma cost to beat
and gives up with `INT_MAX` otherwise. -/
def splitPaysExt : Ext Unit :=
  { benchExt bench5 with
    rd_pick_intra4x4mby_modes := fun x rate rate_y distortion best_yrd =>
      if 150 < best_yrd then
        { x := x, ret := 150, rate := 100, rate_y := 80, distortion := 50 }
      else { x := x, ret := INT_MAX, rate := rate, rate_y := rate_y, distortion := distortion }
    vp8_rd_pick_best_mbsegmentation := fun x _ _ _ _ _ _ _ =>
      { x := x, ret := 100, rate := 100, rate_y := 60, distortion := 0 }
    rd_inter4x4_uv := fun x => { x := x, rate := 0, distortion := 900 } }

/-- The encoder instance with the candidates ZEROMV / LAST_FRAME and
SPLITMV / LAST_FRAME enabled and every other candidate disabled. -/
def cpiSplit : VP8_COMP := benchCpi (onlyCandidates [0, 16]) false SINGLE_PREDICTION_ONLY

/-! ## A machine on which every allocation succeeds -/

/-- Header constants of a concrete build: four frame buffers, a border of 32
pixels, a 64-bit `size_t`. -/
def stdAlloc : AllocConsts :=
  { NUM_YV12_BUFFERS := 4, VP8BORDERINPIXELS := 32, sizeof_MODE_INFO := 76
    sizeof_ENTROPY_CONTEXT_PLANES := 25, size_bits := 64
    CONFIG_ERROR_CONCEALMENT := false }

/-- Memory routines that always succeed: a frame buffer allocation returns
0, `vpx_calloc` the address 4096. -/
def amplePool : AllocExt Unit Unit :=
  { vp8_yv12_alloc_frame_buffer := fun m fb _ _ _ => (m, fb, 0)
    vp8_yv12_de_alloc_frame_buffer := fun m fb => (m, fb)
    vpx_calloc := fun m _ _ => (m, 4096)
    vpx_free := fun m _ => m
    vpx_memset := fun m _ _ _ => m
    store_mb_in_image := fun m _ _ => m }

/-- Memory routines of a machine whose memory is a count of the blocks still
to be had: every allocation takes one block and fails when none is left;
nothing is given back. -/
def scarcePool : AllocExt Nat Unit :=
  { vp8_yv12_alloc_frame_buffer := fun m fb _ _ _ =>
      if m = 0 then (m, fb, -1) else (m - 1, fb, 0)
    vp8_yv12_de_alloc_frame_buffer := fun m fb => (m, fb)
    vpx_calloc := fun m _ _ => if m = 0 then (m, 0) else (m - 1, 4096)
    vpx_free := fun m _ => m
    vpx_memset := fun m _ _ _ => m
    store_mb_in_image := fun m _ _ => m }

/-- A common state with nothing allocated. -/
def freshCommon : VP8_COMMON Unit :=
  { yv12_fb := fun _ => { flags := 0, rest := () }, fb_idx_ref_cnt := fun _ => 0
    new_fb_idx := 0, lst_fb_idx := 0, gld_fb_idx := 0, alt_fb_idx := 0
    temp_scale_frame := { flags := 0, rest := () }
    post_proc_buffer := { flags := 0, rest := () }
    mb_rows := 0, mb_cols := 0, MBs := 0, mode_info_stride := 0
    mip := 0, mi := 0, prev_mip := 0, prev_mi := 0, above_context := 0 }

/-! ## Concrete blocks and macroblocks for the intra searches -/

/-- Routines over any memory that cost nothing and change nothing, with
`RDCOST` as `sampleRDCOST` and the end-of-block position `eob` for every
block. -/
def plainExt {W : Type} (eob : Int) : Ext W :=
  { RDCOST := sampleRDCOST
    vp8_cost_bit := fun _ _ => 0
    vp8_find_near_mvs := fun _ _ =>
      { nearest := zero_mv, near := zero_mv, best := zero_mv, mdcounts := fun _ => 0 }
    rd_pick_intra_mbuv_mode := fun x =>
      { x := x, rate := 0, rate_tokenonly := 0, distortion := 0 }
    vp8_estimate_ref_frame_costs := fun _ _ => 0
    ref_frame_cost := fun _ _ => 0
    vp8_update_zbin_extra := fun _ x => x
    rd_pick_intra4x4mby_modes := fun x rate rate_y distortion _ =>
      { x := x, ret := INT_MAX, rate := rate, rate_y := rate_y, distortion := distortion }
    rd_pick_intra8x8mby_modes := fun x rate rate_y distortion _ =>
      { x := x, ret := INT_MAX, rate := rate, rate_y := rate_y, distortion := distortion }
    vp8_rd_pick_best_mbsegmentation := fun x _ _ _ rate rate_y distortion _ =>
      { x := x, ret := INT_MAX, rate := rate, rate_y := rate_y, distortion := distortion }
    rd_inter4x4_uv := fun x => { x := x, rate := 0, distortion := 0 }
    rd_inter16x16_uv := fun x => { x := x, rate := 0, distortion := 0 }
    build_intra_predictors_mby := fun x => x
    macro_block_yrd := fun x => { x := x, rate := 0, distortion := 0 }
    mbmode_cost := fun _ _ => 0
    vp8_cal_sad := fun _ idx => idx
    vp8_mv_pred := fun _ _ _ mvp sr => (mvp, sr)
    diamond_search_sad := fun x _ _ _ num00 _ => { x := x, ret := 0, num00 := num00 }
    refining_search_sad := fun x _ _ _ => (x, 0)
    find_fractional_mv_step := fun x _ _ => x
    vp8_mv_bit_cost := fun _ _ _ _ => 0
    vp8_clamp_mv2 := fun _ mv => mv
    vp8_build_inter16x16_predictors_mby := fun x => x
    vp8_build_inter16x16_predictors_mbuv := fun x => x
    vp8_build_2nd_inter16x16_predictors_mb := fun x => x
    dualpred_flag_cost := fun _ _ => 0
    active_ptr0 := fun _ => 1
    dequant_y_ac := fun _ => 40
    dequant_y2_dc := fun _ => 40
    var16x16 := fun _ => (0, 0)
    VP8_UVSSE := fun _ => 0
    vp8_cost_mv_ref := fun _ _ => 0
    block_eob := fun _ _ => eob }

/-- Header values of a concrete build: the ten intra enumerators of
`B_PREDICTION_MODE` numbered from 0, no `CONFIG_SUPERBLOCKS`, the plane type
3, the token 11 for the end of block, and tables that map every index to
0. -/
def stdIntra : IntraConsts :=
  { CONFIG_SUPERBLOCKS := false
    B_DC_PRED := B_PREDICTION_MODE.B_DC_PRED.index
    B_HU_PRED := B_PREDICTION_MODE.B_HU_PRED.index
    B_LD_PRED := B_PREDICTION_MODE.B_LD_PRED.index
    B_VL_PRED := B_PREDICTION_MODE.B_VL_PRED.index
    PLANE_TYPE_Y_WITH_DC := 3, DCT_EOB_TOKEN := 11
    vp8_default_zig_zag1d := fun _ => 0, vp8_coef_bands := fun _ => 0
    vp8_prev_token_class := fun _ => 0, dct_value_token := fun _ => 0
    dct_value_cost := fun _ => 0
    VP8_COMBINEENTROPYCONTEXTS := fun a l => (if a ≠ 0 then 1 else 0) + (if l ≠ 0 then 1 else 0) }

/-- The block routines of a concrete block whose memory is the mode of the
last prediction: the coefficient error of the block is `err` of that mode,
every token costs 7, and the local buffers keep the mode. -/
def blockOf (err : Int → Int) : BlockExt Int Int :=
  { qcoeff := fun _ _ _ => 0
    token_costs := fun _ _ _ _ _ => 7
    intra4x4_predict := fun x _ mode => { x with mem := mode }
    subb := fun x _ => x
    vp8_short_fdct4x4 := fun x _ => x
    quantize_b := fun x _ => x
    berr := fun x _ => err x.mem
    copy_best := fun x _ => x.mem
    idct16 := fun _ x _ => x
    recon := fun _ x _ => x }

/-- The memory of a concrete macroblock with a number as the part the
selector does not look at: `rdmult = 256` and the given `rddiv`. -/
def blockX (rddiv : Int) : MACROBLOCK Int :=
  { mbmi := benchMbmi, skip := false
    mv_col_min := -100, mv_col_max := 100, mv_row_min := -100, mv_row_max := 100
    rdmult := 256, rddiv := rddiv, errorperbit := 1, sadperbit16 := 1
    encode_breakout := 0
    block_bmi := fun _ => { as_mode := 0, mv := zero_mv }
    mode_info_bmi := fun _ => { as_mode := 0, mv := zero_mv }
    partition_info := { count := 0, bmi_mode := fun _ => 0, bmi_mv := fun _ => zero_mv }
    pre_frame := LAST_FRAME, second_pre_frame := LAST_FRAME, mem := 0 }

/-- What the pointers of `rd_pick_intra4x4block` point to on entry in the
concrete runs: the mode 77, the contexts 1 and 0, and -1 for the three
costs. -/
def blockEntry (rddiv : Int) : Block4x4 Int Int :=
  { x := blockX rddiv, best_rd := 0, best_mode := 77, a := 1, l := 0
    bestrate := -1, bestratey := -1, bestdistortion := -1, buffers := -1, evals := [] }

/-- Coefficient errors of a concrete block: 4 times the distortions 50, 40,
20, 30, 60, 20, 70, 80, 90, 25 of the modes 0 to 9. -/
def tenErrors (mode : Int) : Int :=
  4 * ([50, 40, 20, 30, 60, 20, 70, 80, 90, 25].getD mode.toNat 0)

/-- A concrete macroblock whose 16x16 and 8x8 intra searches both end with
the RD cost 100 (rates 70 and 60), while the 4x4 search gives up. -/
def tieExt : Ext Unit :=
  { plainExt 1 with
    rd_pick_intra8x8mby_modes := fun x _ rate_y _ _ =>
      { x := x, ret := 100, rate := 60, rate_y := rate_y, distortion := 40 } }

/-- The 16x16 intra search of the concrete macroblock: `V_PRED` with the RD
cost `e16` and the rate 70. -/
def pick16 (e16 : Int) : IntraExt Unit :=
  { rd_pick_intra16x16mby_mode := fun x _ _ _ =>
      { x := { x with mbmi := { x.mbmi with mode := V_PRED } }, ret := e16, rate := 70
        rate_y := 50, distortion := 30 }
    seg_tx_is_4x4 := fun _ => true }

/-- Locals of `vp8_rd_pick_intra_mode` that hold 0 on entry. -/
def zeroStale : IntraStale :=
  { error4x4 := 0, error8x8 := 0, rate4x4 := 0, dist4x4 := 0, dist16x16 := 0
    rate8x8 := 0, dist8x8 := 0, mode8x8 := fun _ => 0 }

/-! ## Concrete timings and coefficient blocks -/

/-- Timings of a concrete frame: 30 frames per second (33333 microseconds
per frame) and `cpu_used = 0`. -/
def sampleSpeedInput : SpeedInput := { per_frame := 33333, cpu_used := 0 }

/-- A block of coefficients that differs from its dequantized block, which is
0 everywhere, in the first `n` positions by `v`. -/
def stepBlock (n v : Int) (j : Int) : Int := if j < n then v else 0

/-- A block that is 0 everywhere. -/
def zeroBlock (_ : Int) : Int := 0

/-- A speed state in the middle of the range, with timings that make the
encoder too slow for the frame rate. -/
def sampleSpeedState : SpeedState :=
  { Speed := 15, avg_pick_mode_time := 40000, avg_encode_time := 90000 }

/-- A macroblock whose 16 blocks all hold `v` in their first `n` positions. -/
def stepMb (n v : Int) (_ : Nat) : Int → Int := stepBlock n v


/-- The inputs of claim C9 with a large multiplier for every candidate. -/
def largeMultInput (m : Int) : RdConstsInput := { c9Input with thresh_mult := fun _ => m }


/-- The routines of the concrete partition searches next to a macroblock
whose left and upper neighbours both have the vector (8, 8). -/
def sameNeighbours : SplitExt Unit :=
  { splitExt (splitBench 10) with above_block_mv := fun _ _ => { row := 8, col := 8 } }


/-- The encoder instance of concrete macroblock 3 on a frame that overlays
the alt-ref frame, without ARNR filtering. -/
def overlayCpi : VP8_COMP := { cpi3 with is_src_frame_alt_ref := true }


/-- A reference vector 300 whole pixels down and 300 to the left. -/
def farRef : int_mv := { row := 2400, col := -2400 }

/-- A concrete state in front of `case NEWMV` with the reference vector
`farRef`. -/
def farRefState : PickState Unit :=
  { benchState 1000 (fun _ => 0) with l := { benchLocals with best_ref_mv := farRef } }


/-- The context tables, routines and macroblock data of the concrete intra
block searches: block `b` of the luma plane lies in column `b % 4` and row
`b / 4`, the routines leave the memory as it is, the prediction notes its
mode in the memory, and every mode costs 3. -/
def sampleQuad : QuadExt Int Int :=
  { vp8_block2above := fun b => b % 4
    vp8_block2left := fun b => b / 4
    intra8x8_predict := fun x _ mode => { x with mem := mode }
    vp8_subtract_4b_c := fun x _ => x
    vp8_short_fdct8x4 := fun x _ _ => x
    quantize_b_pair := fun x _ => x
    copy_best8x8 := fun x _ => x.mem
    vp8_encode_intra8x8 := fun x _ => x
    above_context := fun _ _ => 0
    left_context := fun _ _ => 0
    vp8_intra_prediction_down_copy := fun x => x
    is_key_frame := fun _ => false
    inter_bmode_costs := fun _ _ => 3
    key_bmode_costs := fun _ _ _ => 3
    stale_outputs := fun _ => (77, -1, -1, -1)
    stale_buffers := fun _ => -1 }

/-- Block routines whose token cost grows with the entropy context: a token
costs 1 plus 10 times the context it is coded in, and the coefficient error
of every block is 0. -/
def contextBlock : BlockExt Int Int :=
  { blockOf (fun _ => 0) with token_costs := fun _ _ _ pt _ => 10 * pt + 1 }

/-- What the pointers and locals of `rd_pick_intra8x8block` hold on entry in
the concrete runs. -/
def quadEntry : Quad8x8 Int Int :=
  { x := blockX 1, best_rd := 0, best_mode := 77, bestrate := -1, bestratey := -1
    bestdistortion := -1, besta0 := -1, besta1 := -1, bestl0 := -1, bestl1 := -1
    buffers := -1 }

/-- Left contexts of the concrete run: the third row of blocks has a context
of 1 from the macroblock to the left, the other rows 0. -/
def thirdRowSet (j : Nat) : Int := if j = 2 then 1 else 0

/-- Above contexts of the concrete run: all 0. -/
def noContext (_ : Nat) : Int := 0

/-! ## Facts about machine integers -/

theorem wrap32_isInt32 (x : Int) : IsInt32 (wrap32 x) := by
  unfold IsInt32 wrap32 INT_MIN INT_MAX
  omega

theorem wrap32_eq_self {x : Int} (h : IsInt32 x) : wrap32 x = x := by
  unfold IsInt32 INT_MIN INT_MAX at h
  unfold wrap32
  omega

theorem sar_isInt32 {x : Int} (k : Nat) (h : IsInt32 x) : IsInt32 (sar x k) := by
  unfold IsInt32 INT_MIN INT_MAX at *
  unfold sar
  have hp : (0 : Int) < 2 ^ k := by positivity
  constructor
  · have h0 : (-2147483648 : Int) ≤ x / 2 ^ k := by
      rcases le_or_lt 0 x with hx | hx
      · have := Int.ediv_nonneg hx (le_of_lt hp)
        omega
      · have h1 : (1 : Int) ≤ 2 ^ k := hp
        have h2 : (-2147483648 : Int) * 2 ^ k ≤ x := by nlinarith
        exact (Int.le_ediv_iff_mul_le hp).2 h2
    exact h0
  · rcases le_or_lt 0 x with hx | hx
    · have := Int.ediv_le_self (2 ^ k) hx
      omega
    · have : x / 2 ^ k < 0 := Int.ediv_neg' hx hp
      omega

/-! ## Properties of the rate-distortion constants -/

theorem compute_rd_mult_isInt32 (cfg : Config) (dcq : Int → Int → Int) (q : Int) :
    IsInt32 (compute_rd_mult cfg dcq q) := by
  unfold compute_rd_mult
  simp only
  split
  · exact sar_isInt32 4 (wrap32_isInt32 _)
  · exact wrap32_isInt32 _

theorem rdmultClamped_bounds (cfg : Config) (dcq : Int → Int → Int) (fp : FloatOps)
    (cpi : RdConstsInput) (QIndex : Int) :
    7 ≤ rdmultClamped cfg dcq fp cpi QIndex ∧
      rdmultClamped cfg dcq fp cpi QIndex ≤ INT_MAX := by
  have hc := compute_rd_mult_isInt32 cfg dcq (clampQIndex cfg QIndex)
  unfold rdmultClamped
  simp only
  generalize compute_rd_mult cfg dcq (clampQIndex cfg QIndex) = r0 at hc ⊢
  have h1 : IsInt32 (if cpi.zbin_over_quant > 0 then
      wrap32 (fp.scale_oq r0 cpi.zbin_over_quant) else r0) := by
    split
    · exact wrap32_isInt32 _
    · exact hc
  generalize (if cpi.zbin_over_quant > 0 then
      wrap32 (fp.scale_oq r0 cpi.zbin_over_quant) else r0) = r1 at h1 ⊢
  have h2 : IsInt32 (if cpi.pass = 2 ∧ cpi.is_key_frame = false then
      if cpi.next_iiratio > 31 then iadd r1 (sar (imul r1 (rd_iifactor 31)) 4)
      else iadd r1 (sar (imul r1 (rd_iifactor cpi.next_iiratio)) 4)
    else r1) := by
    split
    · split <;> exact wrap32_isInt32 _
    · exact h1
  generalize (if cpi.pass = 2 ∧ cpi.is_key_frame = false then
      if cpi.next_iiratio > 31 then iadd r1 (sar (imul r1 (rd_iifactor 31)) 4)
      else iadd r1 (sar (imul r1 (rd_iifactor cpi.next_iiratio)) 4)
    else r1) = r2 at h2 ⊢
  unfold IsInt32 INT_MIN INT_MAX at h2
  unfold INT_MAX
  split <;> omega

/-- Claim C9, counterexample: in the `CONFIG_EXTEND_QRANGE` build with a
quantizer step of 100 and `zbin_over_quant = 171000`, the multiplier is
`(3 * 100 * 100) >> 4 = 1875`, scaled to 134858503 and left by the clamp to
7; the shift `RDMULT << 4` of line 315 gives 2157736048, which is above
`INT_MAX` and wraps to -2137231248; this is not above 1000, so it is the
`cpi->RDMULT` the function leaves, and it is below 7. -/
theorem c9_shift_counterexample :
    compute_rd_mult c9Config (fun _ _ => 100) 60 = 1875 ∧
      rdmultClamped c9Config (fun _ _ => 100) c9WideFloat c9WideInput 60 = 134858503 ∧
      ¬ rdmultClamped c9Config (fun _ _ => 100) c9WideFloat c9WideInput 60 * 16 ≤ INT_MAX ∧
      (vp8_initialize_rd_consts c9Config (fun _ _ => 100) c9WideFloat c9WideInput 60).RDMULT =
        -2137231248 ∧
      ¬ 7 ≤ (vp8_initialize_rd_consts c9Config (fun _ _ => 100) c9WideFloat c9WideInput
        60).RDMULT := by
  decide

/-- Claim C9, amended: for every quantizer index (clamped to `[0, MAXQ]`),
every quantizer table, every `zbin_over_quant` and every two-pass bias
state, the `cpi->RDMULT` left by `vp8_initialize_rd_consts` is at least 7 in
the build without `CONFIG_EXTEND_QRANGE`, and in the `CONFIG_EXTEND_QRANGE`
build whenever the shift `RDMULT << 4` of line 315 does not leave the range
of `int`, that is, whenever 16 times the multiplier behind the clamp to 7 is
at most `INT_MAX`. -/
theorem c9_rdmult_at_least_7 (cfg : Config) (vp8_dc_quant : Int → Int → Int)
    (fp : FloatOps) (cpi : RdConstsInput) (QIndex : Int)
    (hshift : cfg.CONFIG_EXTEND_QRANGE = true →
      rdmultClamped cfg vp8_dc_quant fp cpi QIndex * 16 ≤ INT_MAX) :
    7 ≤ (vp8_initialize_rd_consts cfg vp8_dc_quant fp cpi QIndex).RDMULT := by
  obtain ⟨h7, hmax⟩ := rdmultClamped_bounds cfg vp8_dc_quant fp cpi QIndex
  unfold vp8_initialize_rd_consts
  simp only
  generalize rdmultClamped cfg vp8_dc_quant fp cpi QIndex = r at h7 hmax hshift ⊢
  have hsh : 7 ≤ (if cfg.CONFIG_EXTEND_QRANGE = true then shl r 4 else r) ∧
      (if cfg.CONFIG_EXTEND_QRANGE = true then shl r 4 else r) ≤ INT_MAX := by
    split
    · rename_i he
      have := hshift he
      have hw : shl r 4 = r * 16 := by
        unfold shl
        norm_num
        apply wrap32_eq_self
        unfold IsInt32 INT_MIN
        omega
      rw [hw]
      omega
    · exact ⟨h7, hmax⟩
  generalize (if cfg.CONFIG_EXTEND_QRANGE = true then shl r 4 else r) = r3 at hsh ⊢
  obtain ⟨h3, h3m⟩ := hsh
  unfold INT_MAX at h3m
  split
  · rename_i hgt
    simp only
    unfold idiv
    have hq : Int.tdiv r3 100 = r3 / 100 := by
      rw [Int.tdiv_eq_ediv] <;> omega
    rw [hq, wrap32_eq_self]
    · omega
    · unfold IsInt32 INT_MIN INT_MAX
      omega
  · simpa using h3

/-- Witness of claim C9: the theorem applied to the extended-range
build with a constant quantizer step of 100. -/
theorem c9_rdmult_at_least_7_witness :
    rdmultClamped c9Config (fun _ _ => 100) c9Float c9Input 60 * 16 ≤ INT_MAX ∧
      7 ≤ (vp8_initialize_rd_consts c9Config (fun _ _ => 100) c9Float c9Input 60).RDMULT :=
  ⟨by decide, c9_rdmult_at_least_7 c9Config (fun _ _ => 100) c9Float c9Input 60
    (fun _ => by decide)⟩

/-! ## The evaluation leaves the threshold table and the best record alone -/

section Frame

variable {W : Type}

theorem lumaTail_kept (s : PickState W) (v : IterVars) (r : YResult W)
    (uv : MACROBLOCK W → RDResult W) (f : Int → Int) :
    (lumaTail s v r uv f).state.kept = s.kept := by
  unfold lumaTail
  simp only
  split <;> rfl

theorem evalIntra16_kept (ext : Ext W) (s : PickState W) (v : IterVars) :
    (evalIntra16 ext s v).state.kept = s.kept := rfl

theorem newmvSearch_kept (cfg : Config) (ext : Ext W) (s : PickState W) :
    (newmvSearch cfg ext s).kept = s.kept := rfl

theorem interCosts_kept (cfg : Config) (ext : Ext W) (m : MB_PREDICTION_MODE)
    (s : PickState W) (v : IterVars) :
    (interCosts cfg ext m s v).state.kept = s.kept := rfl

theorem zeroTail_kept (cfg : Config) (ext : Ext W) (m : MB_PREDICTION_MODE)
    (s : PickState W) (v : IterVars) :
    (zeroTail cfg ext m s v).state.kept = s.kept := by
  unfold zeroTail
  simp only
  split
  · rfl
  · split
    · rfl
    · split
      · split <;> rfl
      · rfl

theorem nearTail_kept (cfg : Config) (ext : Ext W) (m : MB_PREDICTION_MODE)
    (s : PickState W) (v : IterVars) :
    (nearTail cfg ext m s v).state.kept = s.kept := by
  unfold nearTail
  simp only
  split
  · rfl
  · rw [zeroTail_kept]
    rfl

theorem dualVectors_kept (ext : Ext W) (m : MB_PREDICTION_MODE) (s s1 : PickState W)
    (h : dualVectors ext m s = some s1) : s1.kept = s.kept := by
  unfold dualVectors at h
  cases m <;> simp only at h
  all_goals first
    | (cases h; rfl)
    | (split at h
       · cases h
       · cases h; rfl)

theorem dualTail_kept (ext : Ext W) (m : MB_PREDICTION_MODE) (r : MV_REFERENCE_FRAME)
    (s : PickState W) (v : IterVars) :
    (dualTail ext m r s v).state.kept = s.kept := by
  unfold dualTail
  simp only
  split <;> rfl

theorem evalDual_kept (ext : Ext W) (m : MB_PREDICTION_MODE)
    (s : PickState W) (v : IterVars) :
    (evalDual ext m s v).state.kept = s.kept := by
  unfold evalDual
  split
  · rfl
  · rename_i s1 h
    rw [dualTail_kept]
    exact dualVectors_kept ext m s s1 h

theorem evalBPred_kept (ext : Ext W) (s : PickState W) (v : IterVars) :
    (evalBPred ext s v).state.kept = s.kept := by
  unfold evalBPred
  exact lumaTail_kept _ _ _ _ _

theorem evalI8x8_kept (ext : Ext W) (s : PickState W) (v : IterVars) :
    (evalI8x8 ext s v).state.kept = s.kept := by
  unfold evalI8x8
  exact (lumaTail_kept _ _ _ _ _).trans rfl

theorem evalSplit_kept (ext : Ext W) (s : PickState W) (v : IterVars) :
    (evalSplit ext s v).state.kept = s.kept := by
  unfold evalSplit
  exact lumaTail_kept _ _ _ _ _

theorem evalCandidate_kept (cfg : Config) (ext : Ext W) (m : MB_PREDICTION_MODE)
    (s : PickState W) (v : IterVars) :
    (evalCandidate cfg ext m s v).state.kept = s.kept := by
  unfold evalCandidate
  split
  · exact evalDual_kept ext m s v
  · cases m <;> dsimp only
    · exact evalIntra16_kept ext s v
    · exact evalIntra16_kept ext s v
    · exact evalIntra16_kept ext s v
    · exact evalIntra16_kept ext s v
    · exact evalI8x8_kept ext s v
    · exact evalBPred_kept ext s v
    · exact nearTail_kept cfg ext _ s v
    · exact nearTail_kept cfg ext _ s v
    · exact zeroTail_kept cfg ext _ s v
    · exact (nearTail_kept cfg ext _ _ v).trans (newmvSearch_kept cfg ext s)
    · exact evalSplit_kept ext s v

theorem skipCorrection_kept (ext : Ext W) (s : PickState W) (v : IterVars) :
    (skipCorrection ext s v).1.kept = s.kept ∧ (skipCorrection ext s v).1.x = s.x := by
  unfold skipCorrection
  split
  · dsimp only
    split
    · split
      · split <;> exact ⟨rfl, rfl⟩
      · exact ⟨rfl, rfl⟩
    · exact ⟨rfl, rfl⟩
  · exact ⟨rfl, rfl⟩

theorem recordIntra_kept (s : PickState W) (v : IterVars) :
    (recordIntra s v).kept = s.kept ∧ (recordIntra s v).x = s.x := by
  unfold recordIntra
  split <;> exact ⟨rfl, rfl⟩

theorem recordDualA_kept (cfg : Config) (m : MB_PREDICTION_MODE) (s : PickState W)
    (v : IterVars) :
    (recordDualA cfg m s v).kept = s.kept ∧ (recordDualA cfg m s v).x = s.x := by
  unfold recordDualA
  split <;> exact ⟨rfl, rfl⟩

theorem recordDualB_kept (cfg : Config) (ext : Ext W) (m : MB_PREDICTION_MODE)
    (s : PickState W) (v : IterVars) :
    (recordDualB cfg ext m s v).kept = s.kept ∧ (recordDualB cfg ext m s v).x = s.x := by
  unfold recordDualB
  split <;> exact ⟨rfl, rfl⟩

theorem commitBest_skip (cfg : Config) (ext : Ext W) (i : Nat) (m : MB_PREDICTION_MODE)
    (s : PickState W) (v : IterVars) :
    (commitBest cfg ext i m s v).x.skip = s.x.skip := by
  unfold commitBest
  dsimp only
  split <;> rfl

theorem commitOrAdapt_skip (cfg : Config) (ext : Ext W) (i : Nat) (m : MB_PREDICTION_MODE)
    (s : PickState W) (v : IterVars) :
    (commitOrAdapt cfg ext i m s v).x.skip = s.x.skip := by
  unfold commitOrAdapt
  split
  · dsimp only
    split
    · exact commitBest_skip cfg ext i m s v
    · rfl
  · rfl

theorem setMult_threshes (cpi : VP8_COMP) (i : Nat) (m : Int) :
    (setMult cpi i m).rd_threshes = Function.update cpi.rd_threshes i
      (imul (sar (cpi.rd_baseline_thresh i) 7) ((setMult cpi i m).rd_thresh_mult i)) := by
  simp [setMult]

/-- What the comparison of line 2894 does to the threshold table and the best
record. -/
theorem commitOrAdapt_spec (cfg : Config) (ext : Ext W) (i : Nat) (m : MB_PREDICTION_MODE)
    (s : PickState W) (v : IterVars) (hg : s.cpi.rd_threshes i < s.l.best_rd) :
    Evaluated cfg i s.kept (commitOrAdapt cfg ext i m s v).kept v.this_rd
      (passesTest s v) (passesTest s v && mayCommit cfg v) s.x.skip := by
  have hc : cfg.CONFIG_DUALPRED = false → mayCommit cfg v = true := by
    intro h
    simp [mayCommit, h]
  unfold commitOrAdapt
  by_cases hp : passesTest s v = true
  · by_cases hm : mayCommit cfg v = true
    · simp only [hp, hm, if_true, Bool.and_self]
      refine ⟨hg, hp.symm ▸ rfl, fun _ => rfl, fun _ => rfl, rfl, rfl, rfl, ?_, rfl, rfl, rfl⟩
      exact setMult_threshes _ _ _
    · have hm' : mayCommit cfg v = false := by simpa using hm
      simp only [hp, hm', if_true, Bool.and_false]
      refine ⟨hg, hp.symm ▸ rfl, (fun h => by cases h), fun h => ?_, rfl, rfl, rfl, ?_, rfl,
        rfl, rfl⟩
      · rw [hc h] at hm'
        cases hm'
      · exact setMult_threshes _ _ _
  · have hp' : passesTest s v = false := by simpa using hp
    simp only [hp', Bool.false_and]
    refine ⟨hg, hp'.symm ▸ rfl, (fun h => by cases h), fun _ => rfl, rfl, rfl, rfl, ?_, rfl,
      rfl, rfl⟩
    exact setMult_threshes _ _ _

theorem finishCandidate_spec (cfg : Config) (ext : Ext W) (i : Nat)
    (m : MB_PREDICTION_MODE) (s : PickState W) (v : IterVars)
    (hg : s.cpi.rd_threshes i < s.l.best_rd) :
    ∃ r p c sk, (finishCandidate cfg ext i m s v).ev = Event.evaluated r p c sk ∧
      (finishCandidate cfg ext i m s v).brk = sk ∧
      Evaluated cfg i s.kept (finishCandidate cfg ext i m s v).s.kept r p c sk := by
  unfold finishCandidate
  dsimp only
  generalize hb : skipCorrection ext (addSignalling cfg ext s v).1 (addSignalling cfg ext s v).2
    = b
  have hb1 : b.1.kept = s.kept ∧ b.1.x = s.x := by
    have := skipCorrection_kept ext (addSignalling cfg ext s v).1 (addSignalling cfg ext s v).2
    rw [hb] at this
    exact ⟨this.1.trans rfl, this.2.trans rfl⟩
  generalize hs1 : recordDualA cfg m (recordIntra b.1 b.2) b.2 = s1
  have h1 : s1.kept = s.kept ∧ s1.x = s.x := by
    have ha := recordDualA_kept cfg m (recordIntra b.1 b.2) b.2
    have hi := recordIntra_kept b.1 b.2
    rw [hs1] at ha
    exact ⟨ha.1.trans (hi.1.trans hb1.1), ha.2.trans (hi.2.trans hb1.2)⟩
  have hg1 : s1.cpi.rd_threshes i < s1.l.best_rd := by
    have e1 : s1.cpi.rd_threshes = s.cpi.rd_threshes := congrArg Kept.rd_threshes h1.1
    have e2 : s1.l.best_rd = s.l.best_rd := congrArg Kept.best_rd h1.1
    rw [e1, e2]
    exact hg
  have hspec := commitOrAdapt_spec cfg ext i m s1 b.2 hg1
  have hB := recordDualB_kept cfg ext m (commitOrAdapt cfg ext i m s1 b.2) b.2
  refine ⟨b.2.this_rd, passesTest s1 b.2, passesTest s1 b.2 && mayCommit cfg b.2,
    s1.x.skip, rfl, ?_, ?_⟩
  · rw [hB.2]
    exact commitOrAdapt_skip cfg ext i m s1 b.2
  · rw [hB.1, ← h1.1]
    exact hspec

theorem segmentCheck_not_evaluated (cfg : Config) (seg : Seg) (cpi : VP8_COMP) (sid : Nat)
    (m : MB_PREDICTION_MODE) (rf : MV_REFERENCE_FRAME) (ev : Event)
    (h : segmentCheck cfg seg cpi sid m rf = some ev) : ev.isEvaluated = false := by
  unfold segmentCheck at h
  repeat' split at h
  all_goals first
    | (cases h; rfl)
    | cases h

theorem setupInter_kept (s : PickState W) : (setupInter s).kept = s.kept := by
  unfold setupInter
  dsimp only
  split <;> rfl

theorem zbinBoost_kept (cfg : Config) (ext : Ext W) (i : Nat) (s : PickState W) :
    (zbinBoost cfg ext i s).kept = s.kept := by
  unfold zbinBoost
  split <;> rfl

theorem loadCandidate_kept (cfg : Config) (i : Nat) (s : PickState W) :
    (loadCandidate cfg i s).kept = s.kept := rfl

/-- One loop iteration either leaves the threshold table and the best record
as they are and does not end the loop, or takes its candidate to the
comparison of line 2894. -/
theorem modeBody_spec (cfg : Config) (seg : Seg) (ext : Ext W) (i : Nat) (s : PickState W) :
    ((modeBody cfg seg ext i s).ev.isEvaluated = false ∧
        (modeBody cfg seg ext i s).brk = false ∧
        (modeBody cfg seg ext i s).s.kept = s.kept) ∨
      ∃ r p c sk, (modeBody cfg seg ext i s).ev = Event.evaluated r p c sk ∧
        (modeBody cfg seg ext i s).brk = sk ∧
        Evaluated cfg i s.kept (modeBody cfg seg ext i s).s.kept r p c sk := by
  unfold modeBody
  split
  · exact Or.inl ⟨rfl, rfl, rfl⟩
  · rename_i hthr
    dsimp only
    split
    · rename_i ev hev
      exact Or.inl ⟨segmentCheck_not_evaluated _ _ _ _ _ _ _ hev, rfl, rfl⟩
    · have hk := evalCandidate_kept cfg ext ((vp8_mode_order cfg).getD i DC_PRED)
        (zbinBoost cfg ext i (setupInter (loadCandidate cfg i s))) IterVars.init
      have hk0 : (zbinBoost cfg ext i (setupInter (loadCandidate cfg i s))).kept = s.kept :=
        (zbinBoost_kept cfg ext i _).trans ((setupInter_kept _).trans rfl)
      split
      · rename_i s4 h4
        rw [h4] at hk
        exact Or.inl ⟨rfl, rfl, hk.trans hk0⟩
      · rename_i s4 v h4
        rw [h4] at hk
        have hk4 : s4.kept = s.kept := hk.trans hk0
        have hg : s4.cpi.rd_threshes i < s4.l.best_rd := by
          have e1 : s4.cpi.rd_threshes = s.cpi.rd_threshes := congrArg Kept.rd_threshes hk4
          have e2 : s4.l.best_rd = s.l.best_rd := congrArg Kept.best_rd hk4
          rw [e1, e2]
          omega
        have := finishCandidate_spec cfg ext i ((vp8_mode_order cfg).getD i DC_PRED) s4 v hg
        rw [hk4] at this
        exact Or.inr this

end Frame

/-! ## The adaptive multipliers -/

section Mult

variable {W : Type}

theorem lowerMult_eq (cfg : Config) (hcfg : cfg.ThreshMultOk) {m : Int} (hm : IsInt32 m) :
    lowerMult cfg m = max (m - 2) cfg.MIN_THRESHMULT := by
  obtain ⟨h0, h1, h2⟩ := hcfg
  unfold IsInt32 INT_MIN INT_MAX at hm
  unfold lowerMult iadd isub wrap32
  split <;> omega

theorem raiseMult_eq (cfg : Config) (hcfg : cfg.ThreshMultOk) {m : Int}
    (hm : INT_MIN ≤ m ∧ m + 4 ≤ INT_MAX) :
    raiseMult cfg m = min (m + 4) cfg.MAX_THRESHMULT := by
  obtain ⟨h0, h1, h2⟩ := hcfg
  unfold INT_MIN INT_MAX at hm
  unfold raiseMult iadd wrap32
  dsimp only
  split <;> omega

theorem reduceMult_eq (cfg : Config) (hcfg : cfg.ThreshMultOk) {m : Int} (hm : IsInt32 m) :
    reduceMult cfg m = max (m - sar m 2) cfg.MIN_THRESHMULT := by
  obtain ⟨h0, h1, h2⟩ := hcfg
  unfold IsInt32 INT_MIN INT_MAX at hm
  have hs : sar m 2 = m / 4 := by
    unfold sar
    norm_num
  unfold reduceMult
  rw [hs]
  unfold iadd isub wrap32
  dsimp only
  split <;> omega

theorem lowerMult_range (cfg : Config) (hcfg : cfg.ThreshMultOk) {m : Int}
    (hm : cfg.MIN_THRESHMULT ≤ m ∧ m ≤ cfg.MAX_THRESHMULT) :
    cfg.MIN_THRESHMULT ≤ lowerMult cfg m ∧ lowerMult cfg m ≤ m := by
  have h32 : IsInt32 m := by
    obtain ⟨h0, h1, h2⟩ := hcfg
    unfold IsInt32 INT_MIN INT_MAX
    omega
  rw [lowerMult_eq cfg hcfg h32]
  omega

theorem raiseMult_range (cfg : Config) (hcfg : cfg.ThreshMultOk) {m : Int}
    (hm : cfg.MIN_THRESHMULT ≤ m ∧ m ≤ cfg.MAX_THRESHMULT) :
    m ≤ raiseMult cfg m ∧ raiseMult cfg m ≤ cfg.MAX_THRESHMULT := by
  have h32 : INT_MIN ≤ m ∧ m + 4 ≤ INT_MAX := by
    obtain ⟨h0, h1, h2⟩ := hcfg
    unfold INT_MIN INT_MAX
    omega
  rw [raiseMult_eq cfg hcfg h32]
  omega

theorem reduceMult_range (cfg : Config) (hcfg : cfg.ThreshMultOk) {m : Int}
    (hm : cfg.MIN_THRESHMULT ≤ m ∧ m ≤ cfg.MAX_THRESHMULT) :
    cfg.MIN_THRESHMULT ≤ reduceMult cfg m ∧ reduceMult cfg m ≤ m := by
  have h32 : IsInt32 m := by
    obtain ⟨h0, h1, h2⟩ := hcfg
    unfold IsInt32 INT_MIN INT_MAX
    omega
  rw [reduceMult_eq cfg hcfg h32]
  have hs : sar m 2 = m / 4 := by
    unfold sar
    norm_num
  rw [hs]
  obtain ⟨h0, h1, h2⟩ := hcfg
  omega

theorem reduceBest_range (cfg : Config) (hcfg : cfg.ThreshMultOk) (cpi : VP8_COMP) (b : Nat)
    (h : MultInRange cfg cpi.rd_thresh_mult) :
    MultInRange cfg (reduceBest cfg cpi b).rd_thresh_mult := by
  intro i
  unfold reduceBest
  split
  · unfold setMult
    dsimp only
    by_cases hi : i = b
    · subst hi
      rw [Function.update_same]
      have := reduceMult_range cfg hcfg (h i)
      have := h i
      omega
    · rw [Function.update_noteq hi]
      exact h i
  · exact h i

/-- One loop iteration keeps every multiplier in range. -/
theorem modeBody_range (cfg : Config) (hcfg : cfg.ThreshMultOk) (seg : Seg) (ext : Ext W)
    (i : Nat) (s : PickState W) (h : MultInRange cfg s.cpi.rd_thresh_mult) :
    MultInRange cfg (modeBody cfg seg ext i s).s.cpi.rd_thresh_mult := by
  rcases modeBody_spec cfg seg ext i s with ⟨_, _, hk⟩ | ⟨r, p, c, sk, _, _, hE⟩
  · have : (modeBody cfg seg ext i s).s.cpi.rd_thresh_mult = s.cpi.rd_thresh_mult :=
      congrArg Kept.rd_thresh_mult hk
    rw [this]
    exact h
  · have hm : (modeBody cfg seg ext i s).s.cpi.rd_thresh_mult = _ := hE.mult
    rw [hm]
    intro j
    by_cases hj : j = i
    · subst hj
      rw [Function.update_same]
      have hl := lowerMult_range cfg hcfg (h j)
      have hr := raiseMult_range cfg hcfg (h j)
      have hj := h j
      have hkm : s.kept.rd_thresh_mult j = s.cpi.rd_thresh_mult j := rfl
      rw [hkm]
      split <;> omega
    · rw [Function.update_noteq hj]
      exact h j

theorem modeLoop_range (cfg : Config) (hcfg : cfg.ThreshMultOk) (seg : Seg) (ext : Ext W)
    (is : List Nat) (s : PickState W) (h : MultInRange cfg s.cpi.rd_thresh_mult) :
    MultInRange cfg (modeLoop cfg seg ext is s).cpi.rd_thresh_mult := by
  induction is generalizing s with
  | nil => exact h
  | cons i is ih =>
    unfold modeLoop
    split
    · exact modeBody_range cfg hcfg seg ext i s h
    · exact ih _ (modeBody_range cfg hcfg seg ext i s h)

theorem finishPick_mult (cfg : Config) (seg : Seg) (s : PickState W) :
    (finishPick cfg seg s).cpi.rd_thresh_mult = s.cpi.rd_thresh_mult := by
  unfold finishPick
  split
  · rfl
  · dsimp only
    unfold rd_update_mvcount
    split
    · rfl
    · split
      · rfl
      · rfl

theorem finishPick_threshes (cfg : Config) (seg : Seg) (s : PickState W) :
    (finishPick cfg seg s).cpi.rd_threshes = s.cpi.rd_threshes := by
  unfold finishPick
  split
  · rfl
  · dsimp only
    unfold rd_update_mvcount
    split
    · rfl
    · split
      · rfl
      · rfl

theorem reduceBest_other (cfg : Config) (cpi : VP8_COMP) (b j : Nat) (hj : j ≠ b) :
    (reduceBest cfg cpi b).rd_thresh_mult j = cpi.rd_thresh_mult j := by
  unfold reduceBest
  split
  · unfold setMult
    dsimp only
    rw [Function.update_noteq hj]
  · rfl

theorem reduceBest_le (cfg : Config) (hcfg : cfg.ThreshMultOk) (cpi : VP8_COMP) (b j : Nat)
    (h : MultInRange cfg cpi.rd_thresh_mult) :
    (reduceBest cfg cpi b).rd_thresh_mult j ≤ cpi.rd_thresh_mult j := by
  by_cases hj : j = b
  · subst hj
    unfold reduceBest
    split
    · unfold setMult
      dsimp only
      rw [Function.update_same]
      exact (reduceMult_range cfg hcfg (h j)).2
    · exact le_refl _
  · rw [reduceBest_other cfg cpi b j hj]

/-- The whole call keeps every multiplier in range. -/
theorem pick_range (cfg : Config) (seg : Seg) (ext : Ext W) (cpi : VP8_COMP)
    (x : MACROBLOCK W) (l0 : Locals) (hcfg : cfg.ThreshMultOk)
    (h : MultInRange cfg cpi.rd_thresh_mult) :
    MultInRange cfg (vp8_rd_pick_inter_mode cfg seg ext cpi x l0).cpi.rd_thresh_mult := by
  unfold vp8_rd_pick_inter_mode
  rw [finishPick_mult]
  unfold afterLoop
  dsimp only
  apply reduceBest_range cfg hcfg
  unfold pickLoop
  apply modeLoop_range cfg hcfg
  exact h

end Mult

/-! ## The candidate loop and the best record -/

section Loop

variable {W : Type}

theorem modeTrace_cons (cfg : Config) (seg : Seg) (ext : Ext W) (i : Nat) (is : List Nat)
    (s : PickState W) :
    modeTrace cfg seg ext (i :: is) s =
      (i, (modeBody cfg seg ext i s).ev) ::
        (if (modeBody cfg seg ext i s).brk = true then []
         else modeTrace cfg seg ext is (modeBody cfg seg ext i s).s) := rfl

theorem modeLoop_cons (cfg : Config) (seg : Seg) (ext : Ext W) (i : Nat) (is : List Nat)
    (s : PickState W) :
    modeLoop cfg seg ext (i :: is) s =
      if (modeBody cfg seg ext i s).brk = true then (modeBody cfg seg ext i s).s
      else modeLoop cfg seg ext is (modeBody cfg seg ext i s).s := rfl

/-- Every candidate of the record is one of the candidates of the loop. -/
theorem modeTrace_index_mem (cfg : Config) (seg : Seg) (ext : Ext W) (is : List Nat)
    (s : PickState W) (j : Nat) (e : Event) (h : (j, e) ∈ modeTrace cfg seg ext is s) :
    j ∈ is := by
  induction is generalizing s with
  | nil => cases h
  | cons i is ih =>
    rw [modeTrace_cons] at h
    rcases List.mem_cons.1 h with h | h
    · cases h
      exact List.mem_cons_self _ _
    · split at h
      · cases h
      · exact List.mem_cons_of_mem _ (ih _ h)

/-- Without an evaluated candidate the loop leaves the threshold table and
the best record as they are. -/
theorem modeLoop_kept_of_none_evaluated (cfg : Config) (seg : Seg) (ext : Ext W)
    (is : List Nat) (s : PickState W)
    (h : ∀ e ∈ modeTrace cfg seg ext is s, e.2.isEvaluated = false) :
    (modeLoop cfg seg ext is s).kept = s.kept := by
  induction is generalizing s with
  | nil => rfl
  | cons i is ih =>
    rw [modeTrace_cons] at h
    rw [modeLoop_cons]
    rcases modeBody_spec cfg seg ext i s with ⟨_, hb, hk⟩ | ⟨r, p, c, sk, hev, _, _⟩
    · rw [hb] at h ⊢
      rw [if_neg (by decide)] at h ⊢
      rw [ih _ (fun e he => h e (List.mem_cons_of_mem _ he))]
      exact hk
    · have := h _ (List.mem_cons_self _ _)
      rw [hev] at this
      cases this

/-- The loop invariant behind the best-so-far property: when no evaluated
candidate had `x->skip` set, `best_rd` only decreases, and it ends at or
below the RD cost of every evaluated candidate that was not withheld from
the commit. -/
theorem modeLoop_best_le (cfg : Config) (seg : Seg) (ext : Ext W) (is : List Nat)
    (s : PickState W)
    (hns : ∀ i r p c, (i, Event.evaluated r p c true) ∉ modeTrace cfg seg ext is s) :
    (modeLoop cfg seg ext is s).l.best_rd ≤ s.l.best_rd ∧
      ∀ i r p c, (i, Event.evaluated r p c false) ∈ modeTrace cfg seg ext is s →
        (p = true → c = true) → (modeLoop cfg seg ext is s).l.best_rd ≤ r := by
  induction is generalizing s with
  | nil =>
    refine ⟨le_refl _, ?_⟩
    intro i r p c h
    cases h
  | cons i is ih =>
    rw [modeTrace_cons] at hns
    rw [modeTrace_cons, modeLoop_cons]
    rcases modeBody_spec cfg seg ext i s with ⟨hne, hb, hk⟩ | ⟨r0, p0, c0, sk0, hev, hb, hE⟩
    · rw [hb] at hns ⊢
      rw [if_neg (by decide)] at hns ⊢
      rw [if_neg (by decide)]
      have hbest : (modeBody cfg seg ext i s).s.l.best_rd = s.l.best_rd :=
        congrArg Kept.best_rd hk
      obtain ⟨ih1, ih2⟩ := ih (modeBody cfg seg ext i s).s
        (fun j r p c hj => hns j r p c (List.mem_cons_of_mem _ hj))
      refine ⟨by omega, ?_⟩
      intro j r p c hj hpc
      rcases List.mem_cons.1 hj with hj | hj
      · have : (modeBody cfg seg ext i s).ev = Event.evaluated r p c false :=
          (congrArg Prod.snd hj).symm
        rw [this] at hne
        cases hne
      · exact ih2 j r p c hj hpc
    · have hsk : sk0 = false := by
        cases sk0
        · rfl
        · exact absurd (by rw [hev]; exact List.mem_cons_self _ _) (hns i r0 p0 c0)
      subst hsk
      rw [hb] at hns ⊢
      rw [if_neg (by decide)] at hns ⊢
      rw [if_neg (by decide)]
      have hbest : (modeBody cfg seg ext i s).s.l.best_rd =
          if c0 = true then r0 else s.l.best_rd := hE.best_rd
      have hp : p0 = (decide (r0 < s.l.best_rd) || false) := hE.passed
      have hcp := hE.committed_passed
      obtain ⟨ih1, ih2⟩ := ih (modeBody cfg seg ext i s).s
        (fun j r p c hj => hns j r p c (List.mem_cons_of_mem _ hj))
      have hstep : (modeBody cfg seg ext i s).s.l.best_rd ≤ s.l.best_rd := by
        rw [hbest]
        split
        · rename_i hc
          have := hcp hc
          rw [this] at hp
          simp at hp
          omega
        · exact le_refl _
      refine ⟨le_trans ih1 hstep, ?_⟩
      intro j r p c hj hpc
      rcases List.mem_cons.1 hj with hj | hj
      · have hevj : (modeBody cfg seg ext i s).ev = Event.evaluated r p c false :=
          (congrArg Prod.snd hj).symm
        rw [hev] at hevj
        cases hevj
        refine le_trans ih1 ?_
        rw [hbest]
        split
        · exact le_refl _
        · rename_i hc
          have hpf : p0 = false := by
            cases p0
            · rfl
            · exact absurd (hpc rfl) hc
          rw [hpf] at hp
          simp at hp
          omega
      · exact ih2 j r p c hj hpc

/-- The loop invariant behind the choice of the committed candidate: when the
candidates are visited in increasing order, no evaluated candidate had
`x->skip` set and none was withheld from the commit, the loop either leaves
`best_rd` and `best_mode_index` alone or ends with a lower `best_rd`, which
then is the RD cost of the evaluated candidate `best_mode_index`, the first
one in table order with that cost. -/
theorem modeLoop_earliest (cfg : Config) (seg : Seg) (ext : Ext W) (is : List Nat)
    (s : PickState W) (hsort : is.Pairwise (fun a b => a < b))
    (hns : ∀ i r p c, (i, Event.evaluated r p c true) ∉ modeTrace cfg seg ext is s)
    (hpc : ∀ i r p c sk, (i, Event.evaluated r p c sk) ∈ modeTrace cfg seg ext is s →
      p = true → c = true) :
    ((modeLoop cfg seg ext is s).l.best_rd = s.l.best_rd ∧
        (modeLoop cfg seg ext is s).l.best_mode_index = s.l.best_mode_index) ∨
      ((modeLoop cfg seg ext is s).l.best_rd < s.l.best_rd ∧
        ((modeLoop cfg seg ext is s).l.best_mode_index,
          Event.evaluated (modeLoop cfg seg ext is s).l.best_rd true true false) ∈
            modeTrace cfg seg ext is s ∧
        ∀ j r p c sk, (j, Event.evaluated r p c sk) ∈ modeTrace cfg seg ext is s →
          r = (modeLoop cfg seg ext is s).l.best_rd →
          (modeLoop cfg seg ext is s).l.best_mode_index ≤ j) := by
  induction is generalizing s with
  | nil => exact Or.inl ⟨rfl, rfl⟩
  | cons i is ih =>
    have hlt : ∀ a ∈ is, i < a := (List.pairwise_cons.1 hsort).1
    have hsort' : is.Pairwise (fun a b => a < b) := (List.pairwise_cons.1 hsort).2
    rw [modeTrace_cons] at hns hpc
    rw [modeTrace_cons, modeLoop_cons]
    rcases modeBody_spec cfg seg ext i s with ⟨hne, hb, hk⟩ | ⟨r0, p0, c0, sk0, hev, hb, hE⟩
    · rw [hb] at hns hpc ⊢
      rw [if_neg (by decide)] at hns hpc ⊢
      rw [if_neg (by decide)]
      have hbest : (modeBody cfg seg ext i s).s.l.best_rd = s.l.best_rd :=
        congrArg Kept.best_rd hk
      have hidx : (modeBody cfg seg ext i s).s.l.best_mode_index = s.l.best_mode_index :=
        congrArg Kept.best_mode_index hk
      rcases ih (modeBody cfg seg ext i s).s hsort'
        (fun j r p c hj => hns j r p c (List.mem_cons_of_mem _ hj))
        (fun j r p c sk hj => hpc j r p c sk (List.mem_cons_of_mem _ hj)) with
        ⟨h1, h2⟩ | ⟨h1, h2, h3⟩
      · exact Or.inl ⟨h1.trans hbest, h2.trans hidx⟩
      · refine Or.inr ⟨by omega, List.mem_cons_of_mem _ h2, ?_⟩
        intro j r p c sk hj hr
        rcases List.mem_cons.1 hj with hj | hj
        · have : (modeBody cfg seg ext i s).ev = Event.evaluated r p c sk :=
            (congrArg Prod.snd hj).symm
          rw [this] at hne
          cases hne
        · exact h3 j r p c sk hj hr
    · have hsk : sk0 = false := by
        cases sk0
        · rfl
        · exact absurd (by rw [hev]; exact List.mem_cons_self _ _) (hns i r0 p0 c0)
      subst hsk
      rw [hb] at hns hpc ⊢
      rw [if_neg (by decide)] at hns hpc ⊢
      rw [if_neg (by decide)]
      have hbest : (modeBody cfg seg ext i s).s.l.best_rd =
          if c0 = true then r0 else s.l.best_rd := hE.best_rd
      have hidx : (modeBody cfg seg ext i s).s.l.best_mode_index =
          if c0 = true then i else s.l.best_mode_index := hE.best_mode_index
      have hp : p0 = (decide (r0 < s.l.best_rd) || false) := hE.passed
      have hcp := hE.committed_passed
      have hhead : (i, Event.evaluated r0 p0 c0 false) ∈
          (i, (modeBody cfg seg ext i s).ev) ::
            modeTrace cfg seg ext is (modeBody cfg seg ext i s).s := by
        rw [hev]
        exact List.mem_cons_self _ _
      have hpc0 := hpc i r0 p0 c0 false hhead
      have hIH := ih (modeBody cfg seg ext i s).s hsort'
        (fun j r p c hj => hns j r p c (List.mem_cons_of_mem _ hj))
        (fun j r p c sk hj => hpc j r p c sk (List.mem_cons_of_mem _ hj))
      cases c0 with
      | true =>
        have hp0 : p0 = true := hcp rfl
        subst hp0
        have hr0 : r0 < s.l.best_rd := by
          simp at hp
          exact hp
        rw [if_pos rfl] at hbest hidx
        rcases hIH with ⟨h1, h2⟩ | ⟨h1, h2, h3⟩
        · refine Or.inr ⟨by omega, ?_, ?_⟩
          · rw [h1, h2, hbest, hidx, hev]
            exact List.mem_cons_self _ _
          · intro j r p c sk hj _
            rw [h2, hidx]
            rcases List.mem_cons.1 hj with hj | hj
            · exact le_of_eq (congrArg Prod.fst hj).symm
            · exact le_of_lt (hlt j (modeTrace_index_mem cfg seg ext is _ j _ hj))
        · refine Or.inr ⟨by omega, List.mem_cons_of_mem _ h2, ?_⟩
          intro j r p c sk hj hr
          rcases List.mem_cons.1 hj with hj | hj
          · have hevj : (modeBody cfg seg ext i s).ev = Event.evaluated r p c sk :=
              (congrArg Prod.snd hj).symm
            rw [hev] at hevj
            cases hevj
            omega
          · exact h3 j r p c sk hj hr
      | false =>
        have hp0 : p0 = false := by
          cases p0
          · rfl
          · exact absurd (hpc0 rfl) (by decide)
        subst hp0
        have hr0 : s.l.best_rd ≤ r0 := by
          simp at hp
          exact hp
        rw [if_neg (by decide)] at hbest hidx
        rcases hIH with ⟨h1, h2⟩ | ⟨h1, h2, h3⟩
        · exact Or.inl ⟨h1.trans hbest, h2.trans hidx⟩
        · refine Or.inr ⟨by omega, List.mem_cons_of_mem _ h2, ?_⟩
          intro j r p c sk hj hr
          rcases List.mem_cons.1 hj with hj | hj
          · have hevj : (modeBody cfg seg ext i s).ev = Event.evaluated r p c sk :=
              (congrArg Prod.snd hj).symm
            rw [hev] at hevj
            cases hevj
            omega
          · exact h3 j r p c sk hj hr

theorem pickInit_best (cfg : Config) (ext : Ext W) (cpi : VP8_COMP) (x : MACROBLOCK W)
    (l0 : Locals) :
    (pickInit cfg ext cpi x l0).l.best_rd = INT_MAX ∧
      (pickInit cfg ext cpi x l0).l.best_mode_index = 0 ∧
      (pickInit cfg ext cpi x l0).l.best_mbmode = zeroed_mbmode ∧
      (pickInit cfg ext cpi x l0).l.segment_id = x.mbmi.segment_id ∧
      (pickInit cfg ext cpi x l0).cpi.rd_thresh_mult = cpi.rd_thresh_mult := by
  unfold pickInit loadNearMvs
  dsimp only
  refine ⟨?_, ?_, ?_, ?_, rfl⟩ <;> (split <;> split <;> split <;> rfl)

theorem range_pairwise_lt (n : Nat) : (List.range n).Pairwise (fun a b => a < b) :=
  List.pairwise_lt_range n

theorem event_rd_eq {e : Event} {r : Int} (h : e.rd = some r) :
    ∃ p c sk, e = Event.evaluated r p c sk := by
  cases e with
  | evaluated r0 p c sk =>
    cases h
    exact ⟨p, c, sk, rfl⟩
  | thresholdSkip => cases h
  | segmentSkip => cases h
  | altrefSkip => cases h
  | vectorSkip => cases h

theorem no_skip_of_skipSet {tr : List (Nat × Event)}
    (h : ∀ e ∈ tr, e.2.skipSet = false) (i : Nat) (r : Int) (p c : Bool) :
    (i, Event.evaluated r p c true) ∉ tr := by
  intro hm
  have := h _ hm
  cases this

theorem commit_of_not_withheld {tr : List (Nat × Event)}
    (h : ∀ e ∈ tr, e.2.withheld = false) (i : Nat) (r : Int) (p c sk : Bool)
    (hm : (i, Event.evaluated r p c sk) ∈ tr) (hp : p = true) : c = true := by
  have := h _ hm
  subst hp
  cases c
  · cases this
  · rfl

/-- When no evaluated candidate had `x->skip` set, `best_rd` at the end of
the candidate loop is at most the RD cost of every evaluated candidate that
was not withheld from the commit. -/
theorem pickLoop_best_le (cfg : Config) (seg : Seg) (ext : Ext W) (cpi : VP8_COMP)
    (x : MACROBLOCK W) (l0 : Locals)
    (hns : ∀ e ∈ pickTrace cfg seg ext cpi x l0, e.2.skipSet = false) :
    ∀ e ∈ pickTrace cfg seg ext cpi x l0, e.2.withheld = false →
      ∀ r, e.2.rd = some r → (pickLoop cfg seg ext cpi x l0).l.best_rd ≤ r := by
  intro e he hw r hr
  obtain ⟨j, ev⟩ := e
  obtain ⟨p, c, sk, hev⟩ := event_rd_eq hr
  dsimp only at hev hw
  subst hev
  have hsk : sk = false := hns _ he
  subst hsk
  have hpc : p = true → c = true := by
    intro hp
    subst hp
    cases c
    · cases hw
    · rfl
  exact (modeLoop_best_le cfg seg ext _ _ (no_skip_of_skipSet hns)).2 j r p c he hpc

end Loop

/-! ## The multipliers along the calls of a frame -/

section Calls

variable {W : Type}

/-- The multiplier of a candidate the loop does not visit is not written. -/
theorem modeLoop_untouched (cfg : Config) (seg : Seg) (ext : Ext W) (is : List Nat)
    (s : PickState W) (k : Nat) (hk : k ∉ is) :
    (modeLoop cfg seg ext is s).cpi.rd_thresh_mult k = s.cpi.rd_thresh_mult k := by
  induction is generalizing s with
  | nil => rfl
  | cons i is ih =>
    have hki : k ≠ i := fun h => hk (h ▸ List.mem_cons_self _ _)
    have hkis : k ∉ is := fun h => hk (List.mem_cons_of_mem _ h)
    have hstep : (modeBody cfg seg ext i s).s.cpi.rd_thresh_mult k = s.cpi.rd_thresh_mult k := by
      rcases modeBody_spec cfg seg ext i s with ⟨_, _, hkk⟩ | ⟨r, p, c, sk, _, _, hE⟩
      · exact congrFun (congrArg Kept.rd_thresh_mult hkk) k
      · have hm : (modeBody cfg seg ext i s).s.cpi.rd_thresh_mult = _ := hE.mult
        rw [hm, Function.update_noteq hki]
        rfl
    rw [modeLoop_cons]
    split
    · exact hstep
    · rw [ih _ hkis]
      exact hstep

/-- A candidate the loop records as the best leaves the loop with a
multiplier that is not above the one it entered with. -/
theorem modeLoop_committed_le (cfg : Config) (hcfg : cfg.ThreshMultOk) (seg : Seg)
    (ext : Ext W) (is : List Nat) (s : PickState W) (k : Nat) (hnd : is.Nodup)
    (hr : MultInRange cfg s.cpi.rd_thresh_mult)
    (h : ∃ e ∈ modeTrace cfg seg ext is s, e.1 = k ∧ e.2.committed = true) :
    (modeLoop cfg seg ext is s).cpi.rd_thresh_mult k ≤ s.cpi.rd_thresh_mult k := by
  induction is generalizing s with
  | nil =>
    obtain ⟨e, he, _⟩ := h
    cases he
  | cons i is ih =>
    have hni : i ∉ is := (List.nodup_cons.1 hnd).1
    have hnd' : is.Nodup := (List.nodup_cons.1 hnd).2
    obtain ⟨e, he, hek, hec⟩ := h
    rw [modeTrace_cons] at he
    have hr' := modeBody_range cfg hcfg seg ext i s hr
    rcases List.mem_cons.1 he with he | he
    · subst he
      dsimp only at hek hec
      subst hek
      rcases modeBody_spec cfg seg ext i s with ⟨hne, _, _⟩ | ⟨r, p, c, sk, hev, _, hE⟩
      · exfalso
        revert hne hec
        cases (modeBody cfg seg ext i s).ev <;> simp [Event.isEvaluated, Event.committed]
      · rw [hev] at hec
        have hc : c = true := hec
        have hp : p = true := hE.committed_passed hc
        have hm : (modeBody cfg seg ext i s).s.cpi.rd_thresh_mult = _ := hE.mult
        have hstep : (modeBody cfg seg ext i s).s.cpi.rd_thresh_mult i ≤
            s.cpi.rd_thresh_mult i := by
          rw [hm, Function.update_same, if_pos hp]
          exact (lowerMult_range cfg hcfg (hr i)).2
        rw [modeLoop_cons]
        split
        · exact hstep
        · rw [modeLoop_untouched cfg seg ext is _ i hni]
          exact hstep
    · split at he
      · cases he
      · rename_i hb
        have hkis : k ∈ is := by
          have := modeTrace_index_mem cfg seg ext is _ e.1 e.2 he
          rw [hek] at this
          exact this
        have hki : k ≠ i := fun h => hni (h ▸ hkis)
        have hstep : (modeBody cfg seg ext i s).s.cpi.rd_thresh_mult k =
            s.cpi.rd_thresh_mult k := by
          rcases modeBody_spec cfg seg ext i s with ⟨_, _, hkk⟩ | ⟨r, p, c, sk, _, _, hE⟩
          · exact congrFun (congrArg Kept.rd_thresh_mult hkk) k
          · have hm : (modeBody cfg seg ext i s).s.cpi.rd_thresh_mult = _ := hE.mult
            rw [hm, Function.update_noteq hki]
            rfl
        rw [modeLoop_cons, if_neg hb, ← hstep]
        exact ih _ hnd' hr' ⟨e, he, hek, hec⟩

/-- A candidate that never passes the test of line 2894 leaves the loop with a
multiplier that is not below the one it entered with. -/
theorem modeLoop_never_passed_ge (cfg : Config) (hcfg : cfg.ThreshMultOk) (seg : Seg)
    (ext : Ext W) (is : List Nat) (s : PickState W) (k : Nat)
    (hr : MultInRange cfg s.cpi.rd_thresh_mult)
    (h : ∀ e ∈ modeTrace cfg seg ext is s, e.1 = k → e.2.passed = false) :
    s.cpi.rd_thresh_mult k ≤ (modeLoop cfg seg ext is s).cpi.rd_thresh_mult k := by
  induction is generalizing s with
  | nil => exact le_refl _
  | cons i is ih =>
    rw [modeTrace_cons] at h
    have hr' := modeBody_range cfg hcfg seg ext i s hr
    have hstep : s.cpi.rd_thresh_mult k ≤ (modeBody cfg seg ext i s).s.cpi.rd_thresh_mult k := by
      rcases modeBody_spec cfg seg ext i s with ⟨_, _, hkk⟩ | ⟨r, p, c, sk, hev, _, hE⟩
      · exact le_of_eq (congrFun (congrArg Kept.rd_thresh_mult hkk) k).symm
      · have hm : (modeBody cfg seg ext i s).s.cpi.rd_thresh_mult = _ := hE.mult
        rw [hm]
        by_cases hki : k = i
        · subst hki
          have hp : p = false := by
            have := h _ (List.mem_cons_self _ _) rfl
            rw [hev] at this
            exact this
          rw [Function.update_same, hp, if_neg (by decide)]
          exact (raiseMult_range cfg hcfg (hr k)).1
        · rw [Function.update_noteq hki]
          exact le_refl _
    rw [modeLoop_cons]
    split
    · exact hstep
    · rename_i hb
      rw [if_neg hb] at h
      exact le_trans hstep (ih _ hr' (fun e he => h e (List.mem_cons_of_mem _ he)))

theorem run_mult (cfg : Config) (c : Call W) (cpi : VP8_COMP) :
    (c.run cfg cpi).rd_thresh_mult =
      (reduceBest cfg (pickLoop cfg c.seg c.ext cpi c.x c.l0).cpi
        (pickLoop cfg c.seg c.ext cpi c.x c.l0).l.best_mode_index).rd_thresh_mult := by
  unfold Call.run vp8_rd_pick_inter_mode
  rw [finishPick_mult]
  rfl

theorem pickLoop_range (cfg : Config) (hcfg : cfg.ThreshMultOk) (c : Call W) (cpi : VP8_COMP)
    (hr : MultInRange cfg cpi.rd_thresh_mult) :
    MultInRange cfg (pickLoop cfg c.seg c.ext cpi c.x c.l0).cpi.rd_thresh_mult := by
  unfold pickLoop
  apply modeLoop_range cfg hcfg
  exact hr

/-- A call that commits candidate `k` does not raise its multiplier. -/
theorem run_commits_le (cfg : Config) (hcfg : cfg.ThreshMultOk) (c : Call W) (cpi : VP8_COMP)
    (k : Nat) (hr : MultInRange cfg cpi.rd_thresh_mult) (h : c.commits cfg cpi k) :
    (c.run cfg cpi).rd_thresh_mult k ≤ cpi.rd_thresh_mult k := by
  rw [run_mult]
  refine le_trans (reduceBest_le cfg hcfg _ _ k (pickLoop_range cfg hcfg c cpi hr)) ?_
  have hinit : (pickInit cfg c.ext cpi c.x c.l0).cpi.rd_thresh_mult = cpi.rd_thresh_mult :=
    (pickInit_best cfg c.ext cpi c.x c.l0).2.2.2.2
  have := modeLoop_committed_le cfg hcfg c.seg c.ext (List.range (MAX_MODES cfg))
    (pickInit cfg c.ext cpi c.x c.l0) k (List.nodup_range _) (by rw [hinit]; exact hr) h.2
  rw [hinit] at this
  exact this

/-- A call in which candidate `k` is never the best, not even for a while,
does not lower its multiplier. -/
theorem run_neverBest_ge (cfg : Config) (hcfg : cfg.ThreshMultOk) (c : Call W)
    (cpi : VP8_COMP) (k : Nat) (hr : MultInRange cfg cpi.rd_thresh_mult)
    (h : c.neverBest cfg cpi k) :
    cpi.rd_thresh_mult k ≤ (c.run cfg cpi).rd_thresh_mult k := by
  rw [run_mult, reduceBest_other cfg _ _ k (fun hk => h.1 hk.symm)]
  have hinit : (pickInit cfg c.ext cpi c.x c.l0).cpi.rd_thresh_mult = cpi.rd_thresh_mult :=
    (pickInit_best cfg c.ext cpi c.x c.l0).2.2.2.2
  have := modeLoop_never_passed_ge cfg hcfg c.seg c.ext (List.range (MAX_MODES cfg))
    (pickInit cfg c.ext cpi c.x c.l0) k (by rw [hinit]; exact hr) h.2
  rw [hinit] at this
  exact this

theorem multHistory_head (cfg : Config) (k : Nat) (cs : List (Call W)) (cpi : VP8_COMP) :
    (multHistory cfg k cs cpi).head? = some (cpi.rd_thresh_mult k) := by
  cases cs <;> rfl

/-- Along any sequence of calls every recorded multiplier is in range. -/
theorem multHistory_range (cfg : Config) (hcfg : cfg.ThreshMultOk) (k : Nat)
    (cs : List (Call W)) (cpi : VP8_COMP) (hr : MultInRange cfg cpi.rd_thresh_mult) :
    ∀ m ∈ multHistory cfg k cs cpi, cfg.MIN_THRESHMULT ≤ m ∧ m ≤ cfg.MAX_THRESHMULT := by
  induction cs generalizing cpi with
  | nil =>
    intro m hm
    rcases List.mem_singleton.1 hm with rfl
    exact hr k
  | cons c cs ih =>
    intro m hm
    rcases List.mem_cons.1 hm with rfl | hm
    · exact hr k
    · exact ih (c.run cfg cpi) (pick_range cfg c.seg c.ext cpi c.x c.l0 hcfg hr) m hm

theorem multHistory_alwaysBest (cfg : Config) (hcfg : cfg.ThreshMultOk) (k : Nat)
    (cs : List (Call W)) (cpi : VP8_COMP) (hr : MultInRange cfg cpi.rd_thresh_mult)
    (h : AlwaysBest cfg k cs cpi) :
    (multHistory cfg k cs cpi).Chain' (fun a b => b ≤ a) := by
  induction cs generalizing cpi with
  | nil => exact List.chain'_singleton _
  | cons c cs ih =>
    obtain ⟨h1, h2⟩ := h
    refine List.Chain'.cons' (ih (c.run cfg cpi)
      (pick_range cfg c.seg c.ext cpi c.x c.l0 hcfg hr) h2) ?_
    intro y hy
    rw [multHistory_head] at hy
    cases hy
    exact run_commits_le cfg hcfg c cpi k hr h1

theorem multHistory_neverBest (cfg : Config) (hcfg : cfg.ThreshMultOk) (k : Nat)
    (cs : List (Call W)) (cpi : VP8_COMP) (hr : MultInRange cfg cpi.rd_thresh_mult)
    (h : NeverBest cfg k cs cpi) :
    (multHistory cfg k cs cpi).Chain' (fun a b => a ≤ b) := by
  induction cs generalizing cpi with
  | nil => exact List.chain'_singleton _
  | cons c cs ih =>
    obtain ⟨h1, h2⟩ := h
    refine List.Chain'.cons' (ih (c.run cfg cpi)
      (pick_range cfg c.seg c.ext cpi c.x c.l0 hcfg hr) h2) ?_
    intro y hy
    rw [multHistory_head] at hy
    cases hy
    exact run_neverBest_ge cfg hcfg c cpi k hr h1

end Calls

/-! ## The claims -/

set_option maxRecDepth 100000

section Claims

variable {W : Type}

/-- The claim C1 as stated fails: at concrete macroblock 1 the DC_PRED
candidate (index 1) is evaluated with RD cost 100 and the NEARESTMV candidate
(index 2), for which the active map sets `x->skip`, is committed with RD cost
5000, so `best_rd` ends at 5000, above the RD cost of an evaluated
candidate. -/
theorem c1_best_rd_counterexample :
    (1, Event.evaluated 100 true true false) ∈
        pickTrace stdConfig noSeg (benchExt bench1) cpi1 (benchX 0) benchLocals ∧
      ¬ ((pickLoop stdConfig noSeg (benchExt bench1) cpi1 (benchX 0) benchLocals).l.best_rd
        ≤ 100) := by
  decide

/-- Claim C1, amended: for every macroblock on which no evaluated candidate
had `x->skip` set (neither the active map nor the encode-breakout shortcut
fired), `best_rd` at the end of the candidate loop is at most the RD cost
`this_rd` of every candidate that reached the comparison of line 2894 and
was not withheld from the commit by `mode_excluded`. -/
theorem c1_best_rd_le_evaluated (cfg : Config) (seg : Seg) (ext : Ext W) (cpi : VP8_COMP)
    (x : MACROBLOCK W) (l0 : Locals)
    (hns : ∀ e ∈ pickTrace cfg seg ext cpi x l0, e.2.skipSet = false) :
    ∀ e ∈ pickTrace cfg seg ext cpi x l0, e.2.withheld = false →
      ∀ r, e.2.rd = some r → (pickLoop cfg seg ext cpi x l0).l.best_rd ≤ r := by
  intro e he hw r hr
  exact pickLoop_best_le cfg seg ext cpi x l0 hns e he hw r hr

/-- Witness of claim C1 (amended): the theorem at concrete
macroblock 3, for the ZEROMV / LAST_FRAME candidate of RD cost 300. -/
theorem c1_best_rd_le_evaluated_witness :
    (∀ e ∈ pickTrace stdConfig noSeg (benchExt bench3) cpi3 (benchX 0) benchLocals,
        e.2.skipSet = false) ∧
      (0, Event.evaluated 300 true true false) ∈
        pickTrace stdConfig noSeg (benchExt bench3) cpi3 (benchX 0) benchLocals ∧
      (pickLoop stdConfig noSeg (benchExt bench3) cpi3 (benchX 0) benchLocals).l.best_rd
        ≤ 300 :=
  ⟨by decide, by decide,
    c1_best_rd_le_evaluated stdConfig noSeg (benchExt bench3) cpi3 (benchX 0) benchLocals
      (by decide) (0, Event.evaluated 300 true true false) (by decide) rfl 300 rfl⟩

/-- The claim C2 as stated fails: at concrete macroblock 2 the ZEROMV /
LAST_FRAME candidate (index 0) is evaluated with RD cost 300, and the
NEARESTMV candidate (index 2), for which the encode-breakout shortcut sets
`x->skip`, is the one committed, with the higher RD cost 500. -/
theorem c2_committed_counterexample :
    (0, Event.evaluated 300 true true false) ∈
        pickTrace stdConfig noSeg (benchExt bench2) cpi2 (benchX 1000) benchLocals ∧
      (2, Event.evaluated 500 true true true) ∈
        pickTrace stdConfig noSeg (benchExt bench2) cpi2 (benchX 1000) benchLocals ∧
      (pickLoop stdConfig noSeg (benchExt bench2) cpi2 (benchX 1000)
        benchLocals).l.best_mode_index = 2 ∧
      (pickLoop stdConfig noSeg (benchExt bench2) cpi2 (benchX 1000)
        benchLocals).l.best_rd = 500 := by
  decide

/-- Claim C2, amended: when no evaluated candidate had `x->skip` set, none
was withheld from the commit by `mode_excluded`, and some evaluated candidate
has an RD cost below `INT_MAX`, the committed candidate `best_mode_index` is
an evaluated candidate whose RD cost `best_rd` is the lowest among the
evaluated candidates, and among the evaluated candidates with that cost it is
the one with the smallest `mode_index`. -/
theorem c2_committed_is_earliest_lowest (cfg : Config) (seg : Seg) (ext : Ext W)
    (cpi : VP8_COMP) (x : MACROBLOCK W) (l0 : Locals)
    (hns : ∀ e ∈ pickTrace cfg seg ext cpi x l0, e.2.skipSet = false)
    (hnw : ∀ e ∈ pickTrace cfg seg ext cpi x l0, e.2.withheld = false)
    (hex : ∃ e ∈ pickTrace cfg seg ext cpi x l0, ∃ r, e.2.rd = some r ∧ r < INT_MAX) :
    ((pickLoop cfg seg ext cpi x l0).l.best_mode_index,
        Event.evaluated (pickLoop cfg seg ext cpi x l0).l.best_rd true true false) ∈
          pickTrace cfg seg ext cpi x l0 ∧
      ∀ e ∈ pickTrace cfg seg ext cpi x l0, ∀ r, e.2.rd = some r →
        (pickLoop cfg seg ext cpi x l0).l.best_rd ≤ r ∧
          (r = (pickLoop cfg seg ext cpi x l0).l.best_rd →
            (pickLoop cfg seg ext cpi x l0).l.best_mode_index ≤ e.1) := by
  have hle := pickLoop_best_le cfg seg ext cpi x l0 hns
  have hinit := (pickInit_best cfg ext cpi x l0).1
  obtain ⟨e0, he0, r0, hr0, hlt0⟩ := hex
  have hfin : (pickLoop cfg seg ext cpi x l0).l.best_rd < INT_MAX :=
    lt_of_le_of_lt (hle e0 he0 (hnw e0 he0) r0 hr0) hlt0
  rcases modeLoop_earliest cfg seg ext (List.range (MAX_MODES cfg)) (pickInit cfg ext cpi x l0)
      (range_pairwise_lt _) (no_skip_of_skipSet hns) (commit_of_not_withheld hnw) with
    ⟨h1, _⟩ | ⟨_, h2, h3⟩
  · exfalso
    have : (pickLoop cfg seg ext cpi x l0).l.best_rd = INT_MAX := h1.trans hinit
    omega
  · refine ⟨h2, ?_⟩
    intro e he r hr
    refine ⟨hle e he (hnw e he) r hr, ?_⟩
    intro hreq
    obtain ⟨j, ev⟩ := e
    obtain ⟨p, c, sk, hev⟩ := event_rd_eq hr
    dsimp only at hev
    subst hev
    exact h3 j r p c sk he hreq

/-- Witness of claim C2 (amended): the theorem at
concrete macroblock 3, where NEARESTMV (index 2) and NEARMV (index 3) on the
last frame tie at the lowest RD cost 150 and index 2 is committed. -/
theorem c2_committed_is_earliest_lowest_witness :
    (3, Event.evaluated 150 false false false) ∈
        pickTrace stdConfig noSeg (benchExt bench3) cpi3 (benchX 0) benchLocals ∧
      (pickLoop stdConfig noSeg (benchExt bench3) cpi3 (benchX 0)
        benchLocals).l.best_mode_index = 2 ∧
      (((pickLoop stdConfig noSeg (benchExt bench3) cpi3 (benchX 0)
          benchLocals).l.best_mode_index,
        Event.evaluated (pickLoop stdConfig noSeg (benchExt bench3) cpi3 (benchX 0)
          benchLocals).l.best_rd true true false) ∈
          pickTrace stdConfig noSeg (benchExt bench3) cpi3 (benchX 0) benchLocals ∧
        ∀ e ∈ pickTrace stdConfig noSeg (benchExt bench3) cpi3 (benchX 0) benchLocals,
          ∀ r, e.2.rd = some r →
            (pickLoop stdConfig noSeg (benchExt bench3) cpi3 (benchX 0)
              benchLocals).l.best_rd ≤ r ∧
            (r = (pickLoop stdConfig noSeg (benchExt bench3) cpi3 (benchX 0)
              benchLocals).l.best_rd →
              (pickLoop stdConfig noSeg (benchExt bench3) cpi3 (benchX 0)
                benchLocals).l.best_mode_index ≤ e.1)) :=
  ⟨by decide, by decide,
    c2_committed_is_earliest_lowest stdConfig noSeg (benchExt bench3) cpi3 (benchX 0)
      benchLocals (by decide) (by decide)
      ⟨(0, Event.evaluated 300 true true false), by decide, 300, rfl, by decide⟩⟩

theorem commitModeInfo_zeroed (x : MACROBLOCK W) (l : Locals)
    (h : l.best_mbmode = zeroed_mbmode) : (commitModeInfo x l).mbmi = zeroed_mbmode := by
  unfold commitModeInfo
  rw [h]
  rfl

/-- The claim C3 as stated fails: with segment data that contradict each
other (only the golden frame allowed, mode `DC_PRED` forced) every one of the
21 candidates is dropped by a segment constraint, and
`vp8_rd_pick_inter_mode`, which has no error result, still overwrites the
mode info of the macroblock, with the zero-initialised record (`DC_PRED`,
`INTRA_FRAME`), a reference frame the segment does not allow. -/
theorem c3_all_excluded_counterexample :
    (pickTrace stdConfig contraSeg (benchExt bench3) cpi3 (benchX 0) benchLocals).length = 21 ∧
      (∀ e ∈ pickTrace stdConfig contraSeg (benchExt bench3) cpi3 (benchX 0) benchLocals,
        e.2 = Event.segmentSkip) ∧
      (vp8_rd_pick_inter_mode stdConfig contraSeg (benchExt bench3) cpi3 (benchX 0)
        benchLocals).x.mbmi = zeroed_mbmode ∧
      (vp8_rd_pick_inter_mode stdConfig contraSeg (benchExt bench3) cpi3 (benchX 0)
        benchLocals).x.mbmi ≠ (benchX 0).mbmi ∧
      contraSeg.check_segref 0 zeroed_mbmode.ref_frame = false := by
  decide

/-- Claim C3, amended: if every candidate of the table is excluded for a
macroblock (no loop iteration reaches the comparison of line 2894),
`vp8_rd_pick_inter_mode` reports nothing to its caller: it ends with
`best_mode_index = 0` and writes the zero-initialised best-mode record
(`DC_PRED`, `INTRA_FRAME`, zero vector) into the mode info of the macroblock,
or ZEROMV / ALTREF_FRAME where the alt-ref overlay rule of lines 3030-3053
applies, which it never does when a segment feature is active. -/
theorem c3_all_excluded_commits_default (cfg : Config) (seg : Seg) (ext : Ext W)
    (cpi : VP8_COMP) (x : MACROBLOCK W) (l0 : Locals)
    (h : ∀ e ∈ pickTrace cfg seg ext cpi x l0, e.2.isEvaluated = false) :
    (vp8_rd_pick_inter_mode cfg seg ext cpi x l0).l.best_mode_index = 0 ∧
      ((vp8_rd_pick_inter_mode cfg seg ext cpi x l0).x.mbmi = zeroed_mbmode ∨
        ((vp8_rd_pick_inter_mode cfg seg ext cpi x l0).x.mbmi.mode = ZEROMV ∧
          (vp8_rd_pick_inter_mode cfg seg ext cpi x l0).x.mbmi.ref_frame = ALTREF_FRAME)) ∧
      ((seg.segfeature_active x.mbmi.segment_id SEG_LVL_REF_FRAME = true ∨
          seg.segfeature_active x.mbmi.segment_id SEG_LVL_MODE = true) →
        (vp8_rd_pick_inter_mode cfg seg ext cpi x l0).x.mbmi = zeroed_mbmode) := by
  have hk : (pickLoop cfg seg ext cpi x l0).kept = (pickInit cfg ext cpi x l0).kept :=
    modeLoop_kept_of_none_evaluated cfg seg ext _ _ h
  obtain ⟨_, hi0, him, hisid, _⟩ := pickInit_best cfg ext cpi x l0
  have hidx : (pickLoop cfg seg ext cpi x l0).l.best_mode_index = 0 :=
    (congrArg Kept.best_mode_index hk).trans hi0
  have hmb : (pickLoop cfg seg ext cpi x l0).l.best_mbmode = zeroed_mbmode :=
    (congrArg Kept.best_mbmode hk).trans him
  have hsid : (pickLoop cfg seg ext cpi x l0).l.segment_id = x.mbmi.segment_id :=
    (congrArg Kept.segment_id hk).trans hisid
  unfold vp8_rd_pick_inter_mode
  generalize pickLoop cfg seg ext cpi x l0 = s at hidx hmb hsid ⊢
  have hal : (afterLoop cfg s).l = s.l := rfl
  unfold finishPick
  split
  · rename_i hf
    refine ⟨?_, Or.inr ⟨rfl, rfl⟩, ?_⟩
    · dsimp only
      split <;> exact hidx
    · intro hact
      exfalso
      obtain ⟨hf1, hf2, _⟩ := hf
      rw [hal, hsid] at hf1 hf2
      rcases hact with ha | ha
      · rw [ha] at hf1
        cases hf1
      · rw [ha] at hf2
        cases hf2
  · have hz : (commitModeInfo (afterLoop cfg s).x (afterLoop cfg s).l).mbmi = zeroed_mbmode :=
      commitModeInfo_zeroed _ _ (by rw [hal]; exact hmb)
    refine ⟨?_, Or.inl hz, fun _ => hz⟩
    dsimp only
    split <;> exact hidx

/-- Witness of claim C3 (amended): the theorem at the
macroblock with contradicting segment data. -/
theorem c3_all_excluded_commits_default_witness :
    (∀ e ∈ pickTrace stdConfig contraSeg (benchExt bench3) cpi3 (benchX 0) benchLocals,
        e.2.isEvaluated = false) ∧
      (vp8_rd_pick_inter_mode stdConfig contraSeg (benchExt bench3) cpi3 (benchX 0)
        benchLocals).l.best_mode_index = 0 :=
  ⟨by decide,
    (c3_all_excluded_commits_default stdConfig contraSeg (benchExt bench3) cpi3 (benchX 0)
      benchLocals (by decide)).1⟩

/-- Claim C4: in `vp8_rd_pick_inter_mode`, a candidate whose threshold
`rd_threshes[mode_index]` exceeds the running `best_rd` when it is reached is
skipped without evaluation: the iteration is the `continue` of line 2254 and
leaves the whole state as it was, so no rate or distortion is computed and
`best_rd`, the best-mode record and the candidate's `rd_thresh_mult` and
`rd_threshes` entries are unchanged. -/
theorem c4_threshold_skip (cfg : Config) (seg : Seg) (ext : Ext W) (i : Nat)
    (s : PickState W) (h : s.l.best_rd < s.cpi.rd_threshes i) :
    modeBody cfg seg ext i s = { s := s, ev := Event.thresholdSkip, brk := false } := by
  unfold modeBody
  rw [if_pos (le_of_lt h)]

/-- Witness of claim C4: the theorem at candidate 3 of a concrete
state with `best_rd = 100` and all thresholds 200. -/
theorem c4_threshold_skip_witness :
    ((benchState 100 (fun _ => 200)).l.best_rd <
        (benchState 100 (fun _ => 200)).cpi.rd_threshes 3) ∧
      modeBody stdConfig noSeg (benchExt bench1) 3 (benchState 100 (fun _ => 200)) =
        { s := benchState 100 (fun _ => 200), ev := Event.thresholdSkip, brk := false } :=
  ⟨by decide, c4_threshold_skip stdConfig noSeg (benchExt bench1) 3
    (benchState 100 (fun _ => 200)) (by decide)⟩

/-- Claim C5: if every `rd_thresh_mult[i]` lies in
`[MIN_THRESHMULT, MAX_THRESHMULT]` before a call of `vp8_rd_pick_inter_mode`,
then every `rd_thresh_mult[i]` lies in that range after the call, the extra
reduction of the best candidate included. -/
theorem c5_mult_range_kept (cfg : Config) (seg : Seg) (ext : Ext W) (cpi : VP8_COMP)
    (x : MACROBLOCK W) (l0 : Locals) (hcfg : cfg.ThreshMultOk)
    (h : MultInRange cfg cpi.rd_thresh_mult) :
    MultInRange cfg (vp8_rd_pick_inter_mode cfg seg ext cpi x l0).cpi.rd_thresh_mult := by
  intro i
  exact pick_range cfg seg ext cpi x l0 hcfg h i

/-- Witness of claim C5: the theorem at concrete macroblock 1 with
the constants 32 and 512 and all multipliers 128. -/
theorem c5_mult_range_kept_witness :
    stdConfig.ThreshMultOk ∧
      MultInRange stdConfig
        (benchCpi (onlyCandidates [1, 2, 3]) true SINGLE_PREDICTION_ONLY).rd_thresh_mult ∧
      MultInRange stdConfig
        (vp8_rd_pick_inter_mode stdConfig noSeg (benchExt bench1)
          (benchCpi (onlyCandidates [1, 2, 3]) true SINGLE_PREDICTION_ONLY) (benchX 0)
          benchLocals).cpi.rd_thresh_mult :=
  ⟨by decide, fun _ => (by decide : (32 : Int) ≤ 128 ∧ (128 : Int) ≤ 512),
    c5_mult_range_kept stdConfig noSeg (benchExt bench1)
      (benchCpi (onlyCandidates [1, 2, 3]) true SINGLE_PREDICTION_ONLY) (benchX 0)
      benchLocals (by decide) (fun _ => (by decide : (32 : Int) ≤ 128 ∧ (128 : Int) ≤ 512))⟩

/-- The claim C6 as stated fails in a `CONFIG_DUALPRED` build: when only dual
prediction may be chosen, the single-reference ZEROMV / LAST_FRAME candidate
is evaluated with RD cost 300, passes the test of line 2894, is withheld from
the commit by `mode_excluded` (`best_rd` stays `INT_MAX`, it did not become
the new best), and yet its multiplier goes down from 128 to 126 instead of up
to 132. -/
theorem c6_adaptation_counterexample :
    (modeBody dualConfig noSeg (benchExt bench3) 0
        (pickInit dualConfig (benchExt bench3) cpiDual (benchX 0) benchLocals)).ev =
        Event.evaluated 300 true false false ∧
      (modeBody dualConfig noSeg (benchExt bench3) 0
        (pickInit dualConfig (benchExt bench3) cpiDual (benchX 0) benchLocals)).s.l.best_rd =
        INT_MAX ∧
      (pickInit dualConfig (benchExt bench3) cpiDual (benchX 0) benchLocals).cpi.rd_thresh_mult 0
        = 128 ∧
      (modeBody dualConfig noSeg (benchExt bench3) 0
        (pickInit dualConfig (benchExt bench3) cpiDual (benchX 0)
          benchLocals)).s.cpi.rd_thresh_mult 0 = 126 := by
  decide

/-- Claim C6, amended: for every candidate that completes evaluation in
`vp8_rd_pick_inter_mode`, if it passed the test `this_rd < best_rd ||
x->skip` of line 2894 its `rd_thresh_mult` is decreased by 2 with the floor
`MIN_THRESHMULT`, otherwise it is increased by 4 with the ceiling
`MAX_THRESHMULT`; in both cases `rd_threshes[i]` is then set to
`(rd_baseline_thresh[i] >> 7) * rd_thresh_mult[i]`.  A candidate that passed
becomes the new best, except that a `CONFIG_DUALPRED` build withholds it when
`mode_excluded` is set; without `CONFIG_DUALPRED` passing and becoming the
new best are the same. -/
theorem c6_adaptation_step (cfg : Config) (seg : Seg) (ext : Ext W) (i : Nat)
    (s : PickState W) (hcfg : cfg.ThreshMultOk)
    (hm : INT_MIN ≤ s.cpi.rd_thresh_mult i ∧ s.cpi.rd_thresh_mult i + 4 ≤ INT_MAX)
    (r : Int) (p c sk : Bool)
    (hev : (modeBody cfg seg ext i s).ev = Event.evaluated r p c sk) :
    p = (decide (r < s.l.best_rd) || sk) ∧
      (modeBody cfg seg ext i s).s.cpi.rd_thresh_mult i =
        (if p = true then max (s.cpi.rd_thresh_mult i - 2) cfg.MIN_THRESHMULT
         else min (s.cpi.rd_thresh_mult i + 4) cfg.MAX_THRESHMULT) ∧
      (modeBody cfg seg ext i s).s.cpi.rd_threshes i =
        imul (sar (s.cpi.rd_baseline_thresh i) 7)
          ((modeBody cfg seg ext i s).s.cpi.rd_thresh_mult i) ∧
      (c = true → p = true ∧ (modeBody cfg seg ext i s).s.l.best_rd = r ∧
        (modeBody cfg seg ext i s).s.l.best_mode_index = i) ∧
      (cfg.CONFIG_DUALPRED = false → c = p) := by
  rcases modeBody_spec cfg seg ext i s with ⟨hne, _, _⟩ | ⟨r0, p0, c0, sk0, hev0, _, hE⟩
  · rw [hev] at hne
    cases hne
  · rw [hev] at hev0
    cases hev0
    have h32 : IsInt32 (s.cpi.rd_thresh_mult i) := by
      unfold IsInt32
      unfold INT_MAX at hm ⊢
      omega
    have hmult : (modeBody cfg seg ext i s).s.cpi.rd_thresh_mult =
        Function.update s.cpi.rd_thresh_mult i
          (if p = true then lowerMult cfg (s.cpi.rd_thresh_mult i)
           else raiseMult cfg (s.cpi.rd_thresh_mult i)) := hE.mult
    have hthr : (modeBody cfg seg ext i s).s.cpi.rd_threshes =
        Function.update s.cpi.rd_threshes i
          (imul (sar (s.cpi.rd_baseline_thresh i) 7)
            ((modeBody cfg seg ext i s).s.cpi.rd_thresh_mult i)) := hE.threshes
    have hbest : (modeBody cfg seg ext i s).s.l.best_rd =
        if c = true then r else s.l.best_rd := hE.best_rd
    have hidx : (modeBody cfg seg ext i s).s.l.best_mode_index =
        if c = true then i else s.l.best_mode_index := hE.best_mode_index
    refine ⟨hE.passed, ?_, ?_, ?_, hE.committed_eq⟩
    · rw [hmult, Function.update_same, lowerMult_eq cfg hcfg h32, raiseMult_eq cfg hcfg hm]
    · rw [hthr, Function.update_same]
    · intro hc
      rw [hbest, hidx, if_pos hc, if_pos hc]
      exact ⟨hE.committed_passed hc, rfl, rfl⟩

/-- Witness of claim C6 (amended): the theorem for the DC_PRED
candidate of concrete macroblock 3, which fails the test after ZEROMV became
the best with RD cost 300. -/
theorem c6_adaptation_step_witness :
    stdConfig.ThreshMultOk ∧
      (modeBody stdConfig noSeg (benchExt bench3) 1 (benchState 300 (fun _ => 0))).ev =
        Event.evaluated 5000 false false false ∧
      (modeBody stdConfig noSeg (benchExt bench3) 1
        (benchState 300 (fun _ => 0))).s.cpi.rd_thresh_mult 1 =
        (if false = true then
          max ((benchState 300 (fun _ => 0)).cpi.rd_thresh_mult 1 - 2) stdConfig.MIN_THRESHMULT
         else
          min ((benchState 300 (fun _ => 0)).cpi.rd_thresh_mult 1 + 4)
            stdConfig.MAX_THRESHMULT) :=
  ⟨by decide, by decide,
    (c6_adaptation_step stdConfig noSeg (benchExt bench3) 1 (benchState 300 (fun _ => 0))
      (by decide) (by decide) 5000 false false false (by decide)).2.1⟩

/-- The claim C7 as stated fails: in the call on concrete macroblock 3 all
multipliers start at 128, inside [32, 512]; the ZEROMV / LAST_FRAME candidate
(index 0) is the best for a while and is then overtaken, so it does not win
the call (`best_mode_index` ends at 2), and its multiplier goes down from 128
to 126. -/
theorem c7_never_wins_counterexample :
    NeverWins stdConfig 0 [call3] cpi3 ∧
      (pickLoop stdConfig call3.seg call3.ext cpi3 call3.x call3.l0).l.best_mode_index = 2 ∧
      multHistory stdConfig 0 [call3] cpi3 = [128, 126] := by
  decide

/-- Claim C7, amended: over any sequence of `vp8_rd_pick_inter_mode` calls
within a frame that starts with all multipliers in
`[MIN_THRESHMULT, MAX_THRESHMULT]`, a candidate that always is the committed
best has a non-increasing `rd_thresh_mult` that stays `>= MIN_THRESHMULT`,
and a candidate that in no call passes the test of line 2894 (it is never the
best, not even until a later candidate overtakes it) and in no call is the
`best_mode_index` at the end of the loop has a non-decreasing
`rd_thresh_mult` that stays `<= MAX_THRESHMULT`. -/
theorem c7_mult_monotone (cfg : Config) (k : Nat) (calls : List (Call W)) (cpi : VP8_COMP)
    (hcfg : cfg.ThreshMultOk) (hr : MultInRange cfg cpi.rd_thresh_mult) :
    (AlwaysBest cfg k calls cpi →
        (multHistory cfg k calls cpi).Chain' (fun a b => b ≤ a) ∧
          ∀ m ∈ multHistory cfg k calls cpi, cfg.MIN_THRESHMULT ≤ m) ∧
      (NeverBest cfg k calls cpi →
        (multHistory cfg k calls cpi).Chain' (fun a b => a ≤ b) ∧
          ∀ m ∈ multHistory cfg k calls cpi, m ≤ cfg.MAX_THRESHMULT) := by
  constructor
  · intro h
    exact ⟨multHistory_alwaysBest cfg hcfg k calls cpi hr h,
      fun m hm => (multHistory_range cfg hcfg k calls cpi hr m hm).1⟩
  · intro h
    exact ⟨multHistory_neverBest cfg hcfg k calls cpi hr h,
      fun m hm => (multHistory_range cfg hcfg k calls cpi hr m hm).2⟩

/-- Witness of claim C7 (amended): the theorem over two calls on
concrete macroblock 4, where DC_PRED (index 1) is committed both times and
NEARESTMV (index 2) never passes the test: the multiplier of the first goes
128, 95, 70, that of the second 128, 132, 132. -/
theorem c7_mult_monotone_witness :
    stdConfig.ThreshMultOk ∧ AlwaysBest stdConfig 1 [call4, call4] cpi4 ∧
      NeverBest stdConfig 2 [call4, call4] cpi4 ∧
      multHistory stdConfig 1 [call4, call4] cpi4 = [128, 95, 70] ∧
      multHistory stdConfig 2 [call4, call4] cpi4 = [128, 132, 132] ∧
      (multHistory stdConfig 1 [call4, call4] cpi4).Chain' (fun a b => b ≤ a) ∧
      (multHistory stdConfig 2 [call4, call4] cpi4).Chain' (fun a b => a ≤ b) :=
  ⟨by decide, by decide, by decide, by decide, by decide,
    ((c7_mult_monotone stdConfig 1 [call4, call4] cpi4 (by decide)
      (fun _ => (by decide : (32 : Int) ≤ 128 ∧ (128 : Int) ≤ 512))).1 (by decide)).1,
    ((c7_mult_monotone stdConfig 2 [call4, call4] cpi4 (by decide)
      (fun _ => (by decide : (32 : Int) ≤ 128 ∧ (128 : Int) ≤ 512))).2 (by decide)).1⟩

/-- Claim C8: after the candidate loop of `vp8_rd_pick_inter_mode`, when the
baseline threshold of the best candidate `best_mode_index` lies in
`(0, INT_MAX >> 2)`, its `rd_thresh_mult` is reduced by `rd_thresh_mult >> 2`
with the floor `MIN_THRESHMULT`, and its `rd_threshes` entry is recomputed as
`(rd_baseline_thresh >> 7) * rd_thresh_mult`; no other candidate's multiplier
is changed between the end of the loop and the return. -/
theorem c8_best_extra_reduction (cfg : Config) (seg : Seg) (ext : Ext W) (cpi : VP8_COMP)
    (x : MACROBLOCK W) (l0 : Locals) (hcfg : cfg.ThreshMultOk)
    (hm : IsInt32 ((pickLoop cfg seg ext cpi x l0).cpi.rd_thresh_mult
      (pickLoop cfg seg ext cpi x l0).l.best_mode_index)) :
    ((0 < (pickLoop cfg seg ext cpi x l0).cpi.rd_baseline_thresh
            (pickLoop cfg seg ext cpi x l0).l.best_mode_index ∧
          (pickLoop cfg seg ext cpi x l0).cpi.rd_baseline_thresh
            (pickLoop cfg seg ext cpi x l0).l.best_mode_index < sar INT_MAX 2) →
        (vp8_rd_pick_inter_mode cfg seg ext cpi x l0).cpi.rd_thresh_mult
            (pickLoop cfg seg ext cpi x l0).l.best_mode_index =
          max ((pickLoop cfg seg ext cpi x l0).cpi.rd_thresh_mult
              (pickLoop cfg seg ext cpi x l0).l.best_mode_index -
            sar ((pickLoop cfg seg ext cpi x l0).cpi.rd_thresh_mult
              (pickLoop cfg seg ext cpi x l0).l.best_mode_index) 2) cfg.MIN_THRESHMULT ∧
        (vp8_rd_pick_inter_mode cfg seg ext cpi x l0).cpi.rd_threshes
            (pickLoop cfg seg ext cpi x l0).l.best_mode_index =
          imul (sar ((pickLoop cfg seg ext cpi x l0).cpi.rd_baseline_thresh
              (pickLoop cfg seg ext cpi x l0).l.best_mode_index) 7)
            ((vp8_rd_pick_inter_mode cfg seg ext cpi x l0).cpi.rd_thresh_mult
              (pickLoop cfg seg ext cpi x l0).l.best_mode_index)) ∧
      ∀ j, j ≠ (pickLoop cfg seg ext cpi x l0).l.best_mode_index →
        (vp8_rd_pick_inter_mode cfg seg ext cpi x l0).cpi.rd_thresh_mult j =
          (pickLoop cfg seg ext cpi x l0).cpi.rd_thresh_mult j := by
  unfold vp8_rd_pick_inter_mode
  rw [finishPick_mult, finishPick_threshes]
  generalize pickLoop cfg seg ext cpi x l0 = s at hm ⊢
  have hmult : (afterLoop cfg s).cpi.rd_thresh_mult =
      (reduceBest cfg s.cpi s.l.best_mode_index).rd_thresh_mult := rfl
  have hthr : (afterLoop cfg s).cpi.rd_threshes =
      (reduceBest cfg s.cpi s.l.best_mode_index).rd_threshes := rfl
  rw [hmult, hthr]
  constructor
  · intro hb
    unfold reduceBest
    rw [if_pos hb]
    unfold setMult
    dsimp only
    rw [Function.update_same, Function.update_same]
    exact ⟨reduceMult_eq cfg hcfg hm, rfl⟩
  · intro j hj
    exact reduceBest_other cfg s.cpi _ j hj

/-- Witness of claim C8: the theorem at concrete macroblock 3, where the best
candidate NEARESTMV (index 2) leaves the loop with multiplier 126 and the
call with 126 - 31 = 95 and threshold 10 * 95. -/
theorem c8_best_extra_reduction_witness :
    stdConfig.ThreshMultOk ∧
      (pickLoop stdConfig noSeg (benchExt bench3) cpi3 (benchX 0) benchLocals).l.best_mode_index
        = 2 ∧
      (pickLoop stdConfig noSeg (benchExt bench3) cpi3 (benchX 0) benchLocals).cpi.rd_thresh_mult
        2 = 126 ∧
      (vp8_rd_pick_inter_mode stdConfig noSeg (benchExt bench3) cpi3 (benchX 0)
        benchLocals).cpi.rd_thresh_mult 2 = 95 ∧
      (vp8_rd_pick_inter_mode stdConfig noSeg (benchExt bench3) cpi3 (benchX 0)
        benchLocals).cpi.rd_threshes 2 = 950 ∧
      ∀ j, j ≠ (pickLoop stdConfig noSeg (benchExt bench3) cpi3 (benchX 0)
          benchLocals).l.best_mode_index →
        (vp8_rd_pick_inter_mode stdConfig noSeg (benchExt bench3) cpi3 (benchX 0)
          benchLocals).cpi.rd_thresh_mult j =
          (pickLoop stdConfig noSeg (benchExt bench3) cpi3 (benchX 0)
            benchLocals).cpi.rd_thresh_mult j :=
  ⟨by decide, by decide, by decide, by decide, by decide,
    (c8_best_extra_reduction stdConfig noSeg (benchExt bench3) cpi3 (benchX 0) benchLocals
      (by decide) (by decide)).2⟩

/-- Claim C10: in `vp8_rd_pick_inter_mode`, a candidate that violates the
segment constraints (its reference frame is not allowed while
`SEG_LVL_REF_FRAME` is active, or its mode differs from the forced mode while
`SEG_LVL_MODE` is active) is skipped before any cost is computed: the
iteration ends with `continue` after at most the stores of lines 2257-2266,
none of the prediction, transform or cost routines has any influence on the
state it leaves, and `best_rd`, the best-mode record, `rd_thresh_mult` and
`rd_threshes` are unchanged. -/
theorem c10_segment_skip (cfg : Config) (seg : Seg) (ext : Ext W) (i : Nat)
    (s : PickState W)
    (hviol :
      (seg.segfeature_active s.l.segment_id SEG_LVL_REF_FRAME = true ∧
          seg.check_segref s.l.segment_id
            ((vp8_ref_frame_order cfg).getD i INTRA_FRAME) = false) ∨
        (seg.segfeature_active s.l.segment_id SEG_LVL_MODE = true ∧
          ((vp8_mode_order cfg).getD i DC_PRED).toInt ≠
            seg.get_segdata s.l.segment_id SEG_LVL_MODE)) :
    (modeBody cfg seg ext i s = { s := s, ev := Event.thresholdSkip, brk := false } ∨
        modeBody cfg seg ext i s =
          { s := loadCandidate cfg i s, ev := Event.segmentSkip, brk := false }) ∧
      (modeBody cfg seg ext i s).s.x.mem = s.x.mem ∧
      (modeBody cfg seg ext i s).s.l.best_rd = s.l.best_rd ∧
      (modeBody cfg seg ext i s).s.kept = s.kept ∧
      (modeBody cfg seg ext i s).s.cpi.rd_thresh_mult = s.cpi.rd_thresh_mult ∧
      (modeBody cfg seg ext i s).s.cpi.rd_threshes = s.cpi.rd_threshes := by
  have hchk : segmentCheck cfg seg (loadCandidate cfg i s).cpi (loadCandidate cfg i s).l.segment_id
      ((vp8_mode_order cfg).getD i DC_PRED) (loadCandidate cfg i s).x.mbmi.ref_frame =
      some Event.segmentSkip := by
    have hsid : (loadCandidate cfg i s).l.segment_id = s.l.segment_id := rfl
    have href : (loadCandidate cfg i s).x.mbmi.ref_frame =
        (vp8_ref_frame_order cfg).getD i INTRA_FRAME := by
      unfold loadCandidate
      dsimp only
      split <;> rfl
    rw [hsid, href]
    unfold segmentCheck
    rcases hviol with hv | hv
    · rw [if_pos hv]
    · split
      · rfl
      · rfl
  have hcases : modeBody cfg seg ext i s = { s := s, ev := Event.thresholdSkip, brk := false } ∨
      modeBody cfg seg ext i s =
        { s := loadCandidate cfg i s, ev := Event.segmentSkip, brk := false } := by
    unfold modeBody
    split
    · exact Or.inl rfl
    · right
      dsimp only
      rw [hchk]
  refine ⟨hcases, ?_⟩
  rcases hcases with h | h <;> rw [h] <;> exact ⟨rfl, rfl, rfl, rfl, rfl⟩

/-- Witness of claim C10: the theorem for the ZEROMV / LAST_FRAME
candidate when the segment allows the golden frame only. -/
theorem c10_segment_skip_witness :
    ((goldOnlySeg.segfeature_active (benchState 100 (fun _ => 0)).l.segment_id
            SEG_LVL_REF_FRAME = true ∧
          goldOnlySeg.check_segref (benchState 100 (fun _ => 0)).l.segment_id
            ((vp8_ref_frame_order stdConfig).getD 0 INTRA_FRAME) = false) ∨
        (goldOnlySeg.segfeature_active (benchState 100 (fun _ => 0)).l.segment_id
            SEG_LVL_MODE = true ∧
          ((vp8_mode_order stdConfig).getD 0 DC_PRED).toInt ≠
            goldOnlySeg.get_segdata (benchState 100 (fun _ => 0)).l.segment_id SEG_LVL_MODE)) ∧
      (modeBody stdConfig goldOnlySeg (benchExt bench1) 0 (benchState 100 (fun _ => 0))).s.kept =
        (benchState 100 (fun _ => 0)).kept :=
  ⟨by decide,
    (c10_segment_skip stdConfig goldOnlySeg (benchExt bench1) 0 (benchState 100 (fun _ => 0))
      (by decide)).2.2.2.1⟩

end Claims

/-! ## The insertion sorts -/

section InsertSortFacts

variable {α : Type}

theorem getD_append_cons (d : α) (p : List α) (a : α) (s : List α) :
    (p ++ a :: s).getD p.length d = a := by
  rw [List.getD_eq_getElem?_getD, List.getElem?_append_right (le_refl _)]
  simp

theorem getD_append_cons_at (d : α) (p : List α) (a : α) (s : List α) (n : Nat)
    (hn : n = p.length) : (p ++ a :: s).getD n d = a := by
  subst hn
  exact getD_append_cons d p a s

theorem set_append_cons (p : List α) (a b : α) (s : List α) :
    (p ++ a :: s).set p.length b = p ++ b :: s := by
  rw [List.set_append_right _ _ (le_refl _)]
  simp

theorem set_append_cons_at (p : List α) (a b : α) (s : List α) (n : Nat)
    (hn : n = p.length) : (p ++ a :: s).set n b = p ++ b :: s := by
  subst hn
  exact set_append_cons p a b s

theorem getD_append_left (d : α) (p s : List α) (n : Nat) (hn : n < p.length) :
    (p ++ s).getD n d = p.getD n d := by
  rw [List.getD_eq_getElem?_getD, List.getD_eq_getElem?_getD, List.getElem?_append_left hn]

theorem shiftUp_self (d : α) (arr : List α) (j : Nat) : shiftUp d arr j j = arr := by
  cases j with
  | zero => rfl
  | succ k => simp [shiftUp]

theorem shiftUp_length (d : α) (j : Nat) : ∀ (k : Nat) (arr : List α),
    (shiftUp d arr j k).length = arr.length
  | 0, arr => rfl
  | k + 1, arr => by
    unfold shiftUp
    split
    · rw [shiftUp_length d j k]; simp
    · rfl

/-- Moving up the entries of `g :: m` that stand between `p` and `w`
repeats `g` and drops `w`. -/
theorem shiftUp_append (d : α) (p : List α) (g : α) :
    ∀ (m : List α) (w : α) (s : List α),
      shiftUp d (p ++ g :: m ++ w :: s) p.length (p.length + m.length + 1) =
        p ++ g :: g :: m ++ s := by
  intro m
  induction m using List.reverseRecOn with
  | nil =>
    intro w s
    simp only [List.length_nil, Nat.add_zero, shiftUp]
    rw [if_pos (by omega)]
    have h1 : (p ++ [g] ++ w :: s).getD p.length d = g := by
      have : p ++ [g] ++ w :: s = p ++ g :: w :: s := by simp
      rw [this, getD_append_cons]
    have h2 : (p ++ [g] ++ w :: s).set (p.length + 1) g = p ++ [g] ++ g :: s :=
      set_append_cons_at (p ++ [g]) w g s _ (by simp)
    rw [h1, h2, shiftUp_self]
    simp
  | append_singleton m x ih =>
    intro w s
    have hk : p.length + (m ++ [x]).length + 1 = (p.length + m.length + 1) + 1 := by
      simp; omega
    rw [hk, shiftUp, if_pos (by omega)]
    have h1 : (p ++ g :: (m ++ [x]) ++ w :: s).getD (p.length + m.length + 1) d = x := by
      have : p ++ g :: (m ++ [x]) ++ w :: s = (p ++ g :: m) ++ x :: w :: s := by simp
      rw [this]
      exact getD_append_cons_at d _ x _ _ (by simp; omega)
    have h2 : (p ++ g :: (m ++ [x]) ++ w :: s).set (p.length + m.length + 1 + 1) x =
        p ++ g :: m ++ x :: (x :: s) := by
      have e1 : p ++ g :: (m ++ [x]) ++ w :: s = (p ++ g :: (m ++ [x])) ++ w :: s := by simp
      have e2 : p ++ g :: m ++ x :: (x :: s) = (p ++ g :: (m ++ [x])) ++ x :: s := by simp
      rw [e1, e2]
      exact set_append_cons_at _ w x s _ (by simp; omega)
    rw [h1, h2, ih x (x :: s)]
    simp

/-- The step at the first greater entry: `v` moves in front of `g :: m`. -/
theorem insertStep_move (key : α → Int) (d : α) (p : List α) (g : α) (m : List α) (v : α)
    (s : List α) (hg : key g > key v) :
    insertStep key d (p.length + m.length + 1) (p ++ g :: m ++ v :: s) p.length =
      p ++ v :: g :: m ++ s := by
  unfold insertStep
  have h1 : (p ++ g :: m ++ v :: s).getD p.length d = g := by
    have : p ++ g :: m ++ v :: s = p ++ g :: (m ++ v :: s) := by simp
    rw [this, getD_append_cons]
  have h2 : (p ++ g :: m ++ v :: s).getD (p.length + m.length + 1) d = v := by
    have : p ++ g :: m ++ v :: s = (p ++ g :: m) ++ v :: s := by simp
    rw [this]
    exact getD_append_cons_at d _ v s _ (by simp; omega)
  rw [h1, h2, if_pos hg, shiftUp_append]
  have : p ++ g :: g :: m ++ s = p ++ g :: (g :: m ++ s) := by simp
  rw [this, set_append_cons]
  simp

/-- Steps at entries that are not greater than entry `i` change nothing. -/
theorem foldl_insertStep_id (key : α → Int) (d : α) (i : Nat) (arr : List α) :
    ∀ js : List Nat, (∀ j ∈ js, key (arr.getD j d) ≤ key (arr.getD i d)) →
      js.foldl (insertStep key d i) arr = arr
  | [], _ => rfl
  | j :: js, h => by
    have hj : insertStep key d i arr j = arr := by
      unfold insertStep
      rw [if_neg (by have := h j (List.mem_cons_self _ _); omega)]
    rw [List.foldl_cons, hj]
    exact foldl_insertStep_id key d i arr js (fun j' hj' => h j' (List.mem_cons_of_mem _ hj'))

end InsertSortFacts

section InsertSortPass

variable {α : Type}

theorem getD_append_right_add (d : α) (p s : List α) (k : Nat) :
    (p ++ s).getD (p.length + k) d = s.getD k d := by
  rw [List.getD_eq_getElem?_getD, List.getD_eq_getElem?_getD,
    List.getElem?_append_right (Nat.le_add_right _ _)]
  simp

theorem pairwise_getD_le (key : α → Int) (d : α) {l : List α}
    (h : l.Pairwise (fun a b => key a ≤ key b)) {a b : Nat} (hab : a ≤ b) (hb : b < l.length) :
    key (l.getD a d) ≤ key (l.getD b d) := by
  rcases Nat.eq_or_lt_of_le hab with h1 | h1
  · subst h1; exact le_refl _
  · rw [List.getD_eq_getElem _ _ (by omega), List.getD_eq_getElem _ _ hb]
    exact List.pairwise_iff_getElem.1 h a b (by omega) hb h1

/-- One pass of the sort over a sorted front part places entry `i` behind the
entries of the front part that are not greater. -/
theorem insertPass_place (key : α → Int) (d : α) (pre : List α) (v : α) (s : List α)
    (hs : pre.Pairwise (fun a b => key a ≤ key b)) :
    insertPass key d (pre ++ v :: s) pre.length = placeBehind key v pre ++ s := by
  unfold insertPass placeBehind
  have hsplit := List.takeWhile_append_dropWhile (fun b => decide (key b ≤ key v)) pre
  generalize hp : pre.takeWhile (fun b => decide (key b ≤ key v)) = p at hsplit
  generalize hm : pre.dropWhile (fun b => decide (key b ≤ key v)) = m at hsplit
  have hple : ∀ j, j < p.length → key (p.getD j d) ≤ key v := by
    intro j hj
    rw [List.getD_eq_getElem _ _ hj]
    have hmem : p[j] ∈ pre.takeWhile (fun b => decide (key b ≤ key v)) := by
      rw [hp]; exact List.getElem_mem _
    simpa using List.mem_takeWhile_imp hmem
  cases m with
  | nil =>
    have hpre : pre = p := by rw [← hsplit]; simp
    subst hpre
    rw [foldl_insertStep_id]
    · simp
    · intro j hj
      rw [List.mem_range] at hj
      rw [getD_append_left d _ _ _ hj, getD_append_cons]
      exact hple j hj
  | cons g m =>
    have hg : key g > key v := by
      have h0 := List.head?_dropWhile_not (fun b => decide (key b ≤ key v)) pre
      rw [hm] at h0
      simp only [List.head?_cons, decide_eq_false_iff_not] at h0
      omega
    have hsorted : (g :: m).Pairwise (fun a b => key a ≤ key b) := by
      rw [← hsplit] at hs
      exact (List.pairwise_append.1 hs).2.1
    subst hsplit
    have hlen : (p ++ g :: m).length = p.length + m.length + 1 := by simp; omega
    have hv : (p ++ g :: m ++ v :: s).getD (p.length + m.length + 1) d = v := by
      have r2 : p ++ g :: m ++ v :: s = (p ++ g :: m) ++ v :: s := by simp
      rw [r2]; exact getD_append_cons_at d _ v s _ (by simp; omega)
    have hA : (List.range p.length).foldl (insertStep key d (p.length + m.length + 1))
        (p ++ g :: m ++ v :: s) = p ++ g :: m ++ v :: s := by
      apply foldl_insertStep_id
      intro j hj
      rw [List.mem_range] at hj
      have r1 : p ++ g :: m ++ v :: s = p ++ (g :: m ++ v :: s) := by simp
      rw [hv, r1, getD_append_left d _ _ _ hj]
      exact hple j hj
    have hC : ((List.range m.length).map (fun k => p.length + (k + 1))).foldl
        (insertStep key d (p.length + m.length + 1)) (p ++ v :: g :: m ++ s) =
        p ++ v :: g :: m ++ s := by
      apply foldl_insertStep_id
      intro j hj
      simp only [List.mem_map, List.mem_range] at hj
      obtain ⟨k, hk, rfl⟩ := hj
      have r1 : p ++ v :: g :: m ++ s = (p ++ [v]) ++ (g :: m ++ s) := by simp
      have i1 : p.length + (k + 1) = (p ++ [v]).length + k := by simp; omega
      have i2 : p.length + m.length + 1 = (p ++ [v]).length + m.length := by simp; omega
      rw [r1, i1, i2, getD_append_right_add, getD_append_right_add,
        getD_append_left d _ _ _ (by simp; omega),
        getD_append_left d _ _ _ (by simp)]
      exact pairwise_getD_le key d hsorted (by omega) (by simp)
    have hrange : List.range (p.length + m.length + 1) =
        List.range p.length ++ p.length ::
          (List.range m.length).map (fun k => p.length + (k + 1)) := by
      rw [Nat.add_assoc, List.range_add, List.range_succ_eq_map]
      simp [Function.comp_def]
    rw [hlen, hrange, List.foldl_append, List.foldl_cons, hA,
      insertStep_move key d p g m v s hg, hC]

end InsertSortPass

section InsertSortWhole

variable {α : Type}

theorem placeBehind_perm (key : α → Int) (v : α) (pre : List α) :
    (placeBehind key v pre).Perm (pre ++ [v]) := by
  unfold placeBehind
  have h := List.takeWhile_append_dropWhile (fun b => decide (key b ≤ key v)) pre
  refine List.perm_middle.trans ?_
  rw [h]
  exact (List.perm_append_singleton v pre).symm

theorem placeBehind_length (key : α → Int) (v : α) (pre : List α) :
    (placeBehind key v pre).length = pre.length + 1 := by
  have h := (placeBehind_perm key v pre).length_eq
  simpa using h

theorem placeBehind_sorted (key : α → Int) (v : α) (pre : List α)
    (hs : pre.Pairwise (fun a b => key a ≤ key b)) :
    (placeBehind key v pre).Pairwise (fun a b => key a ≤ key b) := by
  unfold placeBehind
  have hsplit := List.takeWhile_append_dropWhile (fun b => decide (key b ≤ key v)) pre
  have hle : ∀ a ∈ pre.takeWhile (fun b => decide (key b ≤ key v)), key a ≤ key v := by
    intro a ha
    simpa using List.mem_takeWhile_imp ha
  have hhead := List.head?_dropWhile_not (fun b => decide (key b ≤ key v)) pre
  generalize pre.takeWhile (fun b => decide (key b ≤ key v)) = p at hsplit hle
  generalize pre.dropWhile (fun b => decide (key b ≤ key v)) = m at hsplit hhead
  subst hsplit
  obtain ⟨hp, hm, hpm⟩ := List.pairwise_append.1 hs
  rw [List.pairwise_append]
  refine ⟨hp, ?_, ?_⟩
  · rw [List.pairwise_cons]
    refine ⟨?_, hm⟩
    cases m with
    | nil => intro b hb; cases hb
    | cons g m =>
      simp only [List.head?_cons, decide_eq_false_iff_not] at hhead
      intro b hb
      rcases List.mem_cons.1 hb with rfl | hb
      · omega
      · have := (List.pairwise_cons.1 hm).1 b hb
        omega
  · intro a ha b hb
    rcases List.mem_cons.1 hb with rfl | hb
    · exact hle a ha
    · exact hpm a ha b hb

theorem foldl_placeBehind_sorted (key : α → Int) : ∀ (l acc : List α),
    acc.Pairwise (fun a b => key a ≤ key b) →
      (l.foldl (fun acc v => placeBehind key v acc) acc).Pairwise (fun a b => key a ≤ key b)
  | [], _, h => h
  | v :: l, acc, h => foldl_placeBehind_sorted key l _ (placeBehind_sorted key v acc h)

theorem foldl_placeBehind_perm (key : α → Int) : ∀ (l acc : List α),
    (l.foldl (fun acc v => placeBehind key v acc) acc).Perm (acc ++ l)
  | [], acc => by simp
  | v :: l, acc => by
    refine (foldl_placeBehind_perm key l _).trans ?_
    have h := (placeBehind_perm key v acc).append_right l
    simpa using h

theorem placeAll_sorted (key : α → Int) (l : List α) :
    (placeAll key l).Pairwise (fun a b => key a ≤ key b) :=
  foldl_placeBehind_sorted key l [] List.Pairwise.nil

theorem placeAll_perm (key : α → Int) (l : List α) : (placeAll key l).Perm l := by
  simpa using foldl_placeBehind_perm key l []

theorem placeAll_length (key : α → Int) (l : List α) : (placeAll key l).length = l.length :=
  (placeAll_perm key l).length_eq

theorem placeAll_concat (key : α → Int) (l : List α) (v : α) :
    placeAll key (l ++ [v]) = placeBehind key v (placeAll key l) := by
  unfold placeAll
  rw [List.foldl_append]
  rfl

/-- After the passes `1 .. n` the first `n + 1` entries are the sorted first
`n + 1` entries of the array, and the others are as they were. -/
theorem foldl_insertPass (key : α → Int) (d : α) (arr : List α) : ∀ n : Nat,
    n + 1 ≤ arr.length →
      (List.range' 1 n).foldl (insertPass key d) arr =
        placeAll key (arr.take (n + 1)) ++ arr.drop (n + 1)
  | 0, h => by
    cases arr with
    | nil => simp at h
    | cons a arr => simp [placeAll, placeBehind]
  | n + 1, h => by
    have ih := foldl_insertPass key d arr n (by omega)
    have hlt : n + 1 < arr.length := by omega
    have hdrop : arr.drop (n + 1) = arr[n + 1] :: arr.drop (n + 1 + 1) :=
      List.drop_eq_getElem_cons hlt
    have htake : arr.take (n + 1 + 1) = arr.take (n + 1) ++ [arr[n + 1]] := by
      rw [List.take_succ, List.getElem?_eq_getElem hlt]
      rfl
    have hlen : (placeAll key (arr.take (n + 1))).length = 1 + n := by
      rw [placeAll_length, List.length_take]
      omega
    rw [List.range'_1_concat, List.foldl_append, ih, List.foldl_cons, List.foldl_nil, hdrop,
      ← hlen, insertPass_place key d _ _ _ (placeAll_sorted key _), htake, placeAll_concat]

/-- The loops of the sorts put the first `len` entries in order and leave
the others as they were. -/
theorem insertLoops_eq (key : α → Int) (d : α) (arr : List α) (len : Nat)
    (h : len ≤ arr.length) :
    insertLoops key d arr len = placeAll key (arr.take len) ++ arr.drop len := by
  unfold insertLoops
  cases len with
  | zero => simp [placeAll]
  | succ n => exact foldl_insertPass key d arr n h

end InsertSortWhole
/-! ## The motion-vector predictor -/

section MvPredFacts

theorem addCandidate_vcnt (mx : MvExt) (c : MvPredInput) (a : NearArrays)
    (ref : MV_REFERENCE_FRAME) (mv : int_mv) (bias : Int) :
    (addCandidate mx c a ref mv bias).vcnt = a.vcnt + 1 := by
  unfold addCandidate
  split <;> rfl

theorem addCandidate_fresh (mx : MvExt) (c : MvPredInput) (a : NearArrays)
    (ref : MV_REFERENCE_FRAME) (mv : int_mv) (bias : Int) (h : a.Fresh) :
    (addCandidate mx c a ref mv bias).Fresh := by
  intro k hk
  have hv := addCandidate_vcnt mx c a ref mv bias
  rw [hv] at hk
  have hk' : k < 0 ∨ (a.vcnt : Int) ≤ k := by omega
  have hne : k ≠ (a.vcnt : Int) := by omega
  unfold addCandidate
  split
  · simp only [Function.update_noteq hne]
    exact h k hk'
  · exact h k hk'

theorem addCandidate_slots (mx : MvExt) (c : MvPredInput) (a : NearArrays)
    (ref : MV_REFERENCE_FRAME) (mv : int_mv) (bias : Int) (h : a.Fresh) :
    (addCandidate mx c a ref mv bias).slots =
      a.slots ++ [(ref, slotVector (ref, mx.mv_bias bias c.refframe mv c.ref_frame_sign_bias))] := by
  unfold NearArrays.slots
  rw [addCandidate_vcnt, List.range_succ, List.map_append]
  congr 1
  · apply List.map_congr_left
    intro i hi
    rw [List.mem_range] at hi
    have hne : (i : Int) ≠ (a.vcnt : Int) := by omega
    unfold addCandidate
    split
    · simp only [Function.update_noteq hne]
    · rfl
  · unfold addCandidate slotVector
    have hf := h (a.vcnt : Int) (Or.inr (le_refl _))
    by_cases hr : ref = INTRA_FRAME
    · simp [hr, hf.1, hf.2]
    · simp [hr]

theorem init_fresh : NearArrays.init.Fresh := fun _ _ => ⟨rfl, rfl⟩

theorem foldl_addCandidate (mx : MvExt) (c : MvPredInput) :
    ∀ (ks : List Int) (a : NearArrays), a.Fresh →
      let r := ks.foldl (fun a k =>
        addCandidate mx c a (c.lf_ref_frame k) (c.lfmv k) (c.lf_ref_frame_sign_bias k)) a
      r.Fresh ∧ r.slots = a.slots ++ ks.map (fun k => (c.lf_ref_frame k,
        slotVector (c.lf_ref_frame k,
          mx.mv_bias (c.lf_ref_frame_sign_bias k) c.refframe (c.lfmv k) c.ref_frame_sign_bias)))
  | [], a, h => by simp [h]
  | k :: ks, a, h => by
    have ih := foldl_addCandidate mx c ks _ (addCandidate_fresh mx c a (c.lf_ref_frame k)
      (c.lfmv k) (c.lf_ref_frame_sign_bias k) h)
    simp only [List.foldl_cons, List.map_cons]
    refine ⟨ih.1, ?_⟩
    rw [ih.2, addCandidate_slots _ _ _ _ _ _ h]
    simp

theorem spatialCandidates_spec (mx : MvExt) (c : MvPredInput) :
    (spatialCandidates mx c).Fresh ∧
      (spatialCandidates mx c).slots =
        [(c.above.ref_frame, slotVector (c.above.ref_frame,
            mx.mv_bias (c.ref_frame_sign_bias c.above.ref_frame) c.refframe c.above.mv
              c.ref_frame_sign_bias)),
         (c.left.ref_frame, slotVector (c.left.ref_frame,
            mx.mv_bias (c.ref_frame_sign_bias c.left.ref_frame) c.refframe c.left.mv
              c.ref_frame_sign_bias)),
         (c.aboveleft.ref_frame, slotVector (c.aboveleft.ref_frame,
            mx.mv_bias (c.ref_frame_sign_bias c.aboveleft.ref_frame) c.refframe c.aboveleft.mv
              c.ref_frame_sign_bias))] := by
  unfold spatialCandidates
  have f0 := init_fresh
  have f1 := addCandidate_fresh mx c _ c.above.ref_frame c.above.mv
    (c.ref_frame_sign_bias c.above.ref_frame) f0
  have f2 := addCandidate_fresh mx c _ c.left.ref_frame c.left.mv
    (c.ref_frame_sign_bias c.left.ref_frame) f1
  have f3 := addCandidate_fresh mx c _ c.aboveleft.ref_frame c.aboveleft.mv
    (c.ref_frame_sign_bias c.aboveleft.ref_frame) f2
  refine ⟨f3, ?_⟩
  dsimp only
  rw [addCandidate_slots _ _ _ _ _ _ f2, addCandidate_slots _ _ _ _ _ _ f1,
    addCandidate_slots _ _ _ _ _ _ f0]
  rfl

/-- The slots hold, for each candidate in turn, its reference frame and its
vector, the zero vector for an intra candidate; the other slots are as they
were initialised. -/
theorem collectCandidates_spec (mx : MvExt) (c : MvPredInput) :
    (collectCandidates mx c).Fresh ∧
      (collectCandidates mx c).slots =
        (candidateList mx c).map (fun p => (p.1, slotVector p)) := by
  unfold collectCandidates temporalCandidates candidateList
  have hs := spatialCandidates_spec mx c
  split
  · have ht := foldl_addCandidate mx c (temporalOffsets c) _ hs.1
    refine ⟨ht.1, ?_⟩
    rw [ht.2, hs.2]
    simp [Function.comp_def]
  · refine ⟨hs.1, ?_⟩
    rw [hs.2]
    simp

theorem slots_length (a : NearArrays) : a.slots.length = a.vcnt := by
  simp [NearArrays.slots]

theorem collectCandidates_vcnt (mx : MvExt) (c : MvPredInput) :
    (collectCandidates mx c).vcnt = (candidateList mx c).length := by
  have h := congrArg List.length (collectCandidates_spec mx c).2
  rw [slots_length] at h
  simpa using h

theorem candidateList_length (mx : MvExt) (c : MvPredInput) :
    (candidateList mx c).length = if c.last_frame_is_key = false then 8 else 3 := by
  unfold candidateList temporalOffsets
  split <;> simp

end MvPredFacts

section MvPredSearch

/-- The loop of lines 1898-1913 stops at the first index of the range at
which the test holds, and finds none only if there is none. -/
theorem findMatch_range' (c : MvPredInput) (a : NearArrays) : ∀ (n s : Nat),
    (findMatch c a (List.range' s n) = none ∧
        ∀ i, s ≤ i → i < s + n → ¬ matchesAt c a i) ∨
      (∃ i, s ≤ i ∧ i < s + n ∧ findMatch c a (List.range' s n) = some i ∧
        matchesAt c a i ∧ ∀ j, s ≤ j → j < i → ¬ matchesAt c a j)
  | 0, s => Or.inl ⟨rfl, fun i h1 h2 => by omega⟩
  | n + 1, s => by
    rw [List.range'_succ, findMatch]
    by_cases hm : matchesAt c a s
    · rw [if_pos hm]
      exact Or.inr ⟨s, le_refl _, by omega, rfl, hm, fun j h1 h2 => by omega⟩
    · rw [if_neg hm]
      rcases findMatch_range' c a n (s + 1) with ⟨h1, h2⟩ | ⟨i, h1, h2, h3, h4, h5⟩
      · refine Or.inl ⟨h1, fun i hi1 hi2 => ?_⟩
        rcases Nat.eq_or_lt_of_le hi1 with e | e
        · subst e; exact hm
        · exact h2 i e (by omega)
      · refine Or.inr ⟨i, by omega, by omega, h3, h4, fun j hj1 hj2 => ?_⟩
        rcases Nat.eq_or_lt_of_le hj1 with e | e
        · subst e; exact hm
        · exact h5 j e hj2

theorem findMatch_range (c : MvPredInput) (a : NearArrays) (n : Nat) :
    (findMatch c a (List.range n) = none ∧ ∀ i, i < n → ¬ matchesAt c a i) ∨
      (∃ i, i < n ∧ findMatch c a (List.range n) = some i ∧
        matchesAt c a i ∧ ∀ j, j < i → ¬ matchesAt c a j) := by
  rw [List.range_eq_range']
  rcases findMatch_range' c a n 0 with ⟨h1, h2⟩ | ⟨i, _, h2, h3, h4, h5⟩
  · exact Or.inl ⟨h1, fun i hi => h2 i (Nat.zero_le _) (by omega)⟩
  · exact Or.inr ⟨i, by omega, h3, h4, fun j hj => h5 j (Nat.zero_le _) hj⟩

/-- What slot `k` holds, for `k` below the count of the candidates. -/
theorem collectCandidates_slot (mx : MvExt) (c : MvPredInput) (k : Nat)
    (hk : k < (candidateList mx c).length) :
    ∃ p, (candidateList mx c)[k]? = some p ∧
      (collectCandidates mx c).near_ref (k : Int) = p.1 ∧
      (collectCandidates mx c).near_mvs (k : Int) = slotVector p := by
  have hspec := (collectCandidates_spec mx c).2
  have hv := collectCandidates_vcnt mx c
  refine ⟨(candidateList mx c)[k], List.getElem?_eq_getElem hk, ?_⟩
  have h1 : (collectCandidates mx c).slots[k]? =
      ((candidateList mx c).map (fun p => (p.1, slotVector p)))[k]? := by rw [hspec]
  unfold NearArrays.slots at h1
  rw [List.getElem?_map, List.getElem?_map, List.getElem?_range (by omega),
    List.getElem?_eq_getElem hk] at h1
  simp only [Option.map_some', Option.some.injEq, Prod.mk.injEq] at h1
  exact h1

/-- A slot that passes the test of line 1900 belongs to a candidate. -/
theorem matchesAt_slot (mx : MvExt) (c : MvPredInput) (i : Nat)
    (h : matchesAt c (collectCandidates mx c) i) :
    ∃ (k : Nat) (p : MV_REFERENCE_FRAME × int_mv), c.near_sadidx i = (k : Int) ∧
      (candidateList mx c)[k]? = some p ∧ p.1 ≠ INTRA_FRAME ∧ p.1 = c.here.ref_frame ∧
      (collectCandidates mx c).near_mvs (c.near_sadidx i) = p.2 := by
  have hf := (collectCandidates_spec mx c).1
  have hv := collectCandidates_vcnt mx c
  unfold matchesAt at h
  have hin : 0 ≤ c.near_sadidx i ∧ c.near_sadidx i < ((candidateList mx c).length : Int) := by
    by_contra hc
    have := (hf (c.near_sadidx i) (by rw [hv]; omega)).2
    exact h.1 this
  obtain ⟨k, hk⟩ := Int.eq_ofNat_of_zero_le hin.1
  have hklt : k < (candidateList mx c).length := by omega
  obtain ⟨p, hp, hr, hm⟩ := collectCandidates_slot mx c k hklt
  rw [hk] at h ⊢
  rw [hr] at h
  refine ⟨k, p, rfl, hp, h.1, h.2.symm, ?_⟩
  rw [hm]
  unfold slotVector
  rw [if_neg h.1]

/-- The two ways lines 1898-1931 end for a macroblock that is not intra. -/
theorem mvPredUnclamped_cases (mx : MvExt) (c : MvPredInput)
    (hhere : c.here.ref_frame ≠ INTRA_FRAME) :
    ((∀ i, i < (candidateList mx c).length → ¬ matchesAt c (collectCandidates mx c) i) ∧
        mvPredUnclamped mx c = { mv := medianVector (collectCandidates mx c), sr := 0 }) ∨
      (∃ i, i < (candidateList mx c).length ∧ matchesAt c (collectCandidates mx c) i ∧
        (∀ j, j < i → ¬ matchesAt c (collectCandidates mx c) j) ∧
        mvPredUnclamped mx c =
          { mv := (collectCandidates mx c).near_mvs (c.near_sadidx i),
            sr := if i < 3 then 3 else 2 }) := by
  unfold mvPredUnclamped
  rw [if_pos hhere]
  dsimp only
  rw [← collectCandidates_vcnt]
  rcases findMatch_range c (collectCandidates mx c) (collectCandidates mx c).vcnt with
    ⟨h1, h2⟩ | ⟨i, h1, h2, h3, h4⟩
  · rw [h1]
    exact Or.inl ⟨h2, rfl⟩
  · rw [h2]
    exact Or.inr ⟨i, h1, h3, h4, rfl⟩

theorem insertsortmv_eq_sort (l : List Int) :
    insertsortmv l l.length = l.insertionSort (· ≤ ·) := by
  unfold insertsortmv
  rw [insertLoops_eq _ _ _ _ (le_refl _)]
  simp only [List.take_length, List.drop_length, List.append_nil]
  exact List.eq_of_perm_of_sorted
    ((placeAll_perm _ l).trans (List.perm_insertionSort (· ≤ ·) l).symm)
    (placeAll_sorted (fun v => v) l) (List.sorted_insertionSort (· ≤ ·) l)

/-- The vector of lines 1917-1926: entry `vcnt / 2` of the sorted rows and
of the sorted columns of all slots, those of intra candidates included. -/
theorem medianVector_collect (mx : MvExt) (c : MvPredInput) :
    medianVector (collectCandidates mx c) =
      { row := (((candidateList mx c).map (fun p => (slotVector p).row)).insertionSort
          (· ≤ ·)).getD ((candidateList mx c).length / 2) 0
        col := (((candidateList mx c).map (fun p => (slotVector p).col)).insertionSort
          (· ≤ ·)).getD ((candidateList mx c).length / 2) 0 } := by
  have hspec := (collectCandidates_spec mx c).2
  have hv := collectCandidates_vcnt mx c
  unfold NearArrays.slots at hspec
  have hx : (List.range (collectCandidates mx c).vcnt).map
      (fun (i : Nat) => ((collectCandidates mx c).near_mvs (i : Int)).row) =
      (candidateList mx c).map (fun p => (slotVector p).row) := by
    have := congrArg (List.map (fun q : MV_REFERENCE_FRAME × int_mv => q.2.row)) hspec
    simpa [Function.comp_def] using this
  have hy : (List.range (collectCandidates mx c).vcnt).map
      (fun (i : Nat) => ((collectCandidates mx c).near_mvs (i : Int)).col) =
      (candidateList mx c).map (fun p => (slotVector p).col) := by
    have := congrArg (List.map (fun q : MV_REFERENCE_FRAME × int_mv => q.2.col)) hspec
    simpa [Function.comp_def] using this
  unfold medianVector
  dsimp only
  rw [hx, hy, hv]
  have l1 : (candidateList mx c).length =
      ((candidateList mx c).map (fun p => (slotVector p).row)).length := by simp
  have l2 : (candidateList mx c).length =
      ((candidateList mx c).map (fun p => (slotVector p).col)).length := by simp
  congr 1
  · conv_lhs => rw [l1, insertsortmv_eq_sort]
    simp
  · conv_lhs => rw [l2, insertsortmv_eq_sort]
    simp

end MvPredSearch

section MvPredSame

theorem addCandidate_congr (mx : MvExt) (c c' : MvPredInput) (h1 : c.refframe = c'.refframe)
    (h2 : c.ref_frame_sign_bias = c'.ref_frame_sign_bias) (a : NearArrays)
    (ref : MV_REFERENCE_FRAME) (mv : int_mv) (bias : Int) :
    addCandidate mx c a ref mv bias = addCandidate mx c' a ref mv bias := by
  unfold addCandidate
  rw [h1, h2]

theorem temporalOffsets_congr (c c' : MvPredInput) (h : SameNeighbourState c c') :
    temporalOffsets c = temporalOffsets c' := by
  obtain ⟨p1, p2, p3, _, _⟩ := h.position
  unfold temporalOffsets mbOffset
  rw [p1, p2, p3]

/-- The arrays of the candidates are the same in two calls that read the
same neighbour state. -/
theorem collectCandidates_congr (mx : MvExt) (c c' : MvPredInput)
    (h : SameNeighbourState c c') :
    collectCandidates mx c = collectCandidates mx c' := by
  have hs : spatialCandidates mx c = spatialCandidates mx c' := by
    unfold spatialCandidates
    simp only [addCandidate_congr mx c c' h.refframe h.sign_bias, h.above.1, h.above.2,
      h.left.1, h.left.2, h.aboveleft.1, h.aboveleft.2, h.sign_bias]
  unfold collectCandidates temporalCandidates
  rw [hs, ← h.key, ← temporalOffsets_congr c c' h]
  split
  · apply List.foldl_ext
    intro a k hk
    obtain ⟨t1, t2, t3⟩ := h.temporal k hk
    rw [t1, t2, t3, addCandidate_congr mx c c' h.refframe h.sign_bias]
  · rfl

theorem findMatch_congr (c c' : MvPredInput) (a : NearArrays)
    (hhere : c.here.ref_frame = c'.here.ref_frame) :
    ∀ l : List Nat, (∀ i ∈ l, c.near_sadidx i = c'.near_sadidx i) →
      findMatch c a l = findMatch c' a l
  | [], _ => rfl
  | i :: l, h => by
    have e1 := h i (List.mem_cons_self _ _)
    have ih := findMatch_congr c c' a hhere l (fun j hj => h j (List.mem_cons_of_mem _ hj))
    unfold findMatch matchesAt
    simp only [e1, hhere, ih]

theorem findMatch_mem (c : MvPredInput) (a : NearArrays) :
    ∀ (l : List Nat) (i : Nat), findMatch c a l = some i → i ∈ l
  | [], i, h => by simp [findMatch] at h
  | j :: l, i, h => by
    unfold findMatch at h
    split at h
    · rw [Option.some.injEq] at h
      subst h
      exact List.mem_cons_self _ _
    · exact List.mem_cons_of_mem _ (findMatch_mem c a l i h)

/-- The predictor gives the same vector and the same `*sr` in two calls that
read the same neighbour state, the same order of the candidates and the same
`*sr`. -/
theorem vp8_mv_pred_congr (mx : MvExt) (c c' : MvPredInput) (h : SameNeighbourState c c')
    (horder : ∀ i, i < 8 → c.near_sadidx i = c'.near_sadidx i) (hsr : c.sr = c'.sr) :
    vp8_mv_pred mx c = vp8_mv_pred mx c' := by
  obtain ⟨_, _, p3, p4, p5⟩ := h.position
  have hp2 := h.position.2.1
  have hv : (collectCandidates mx c').vcnt ≤ 8 := by
    rw [collectCandidates_vcnt, candidateList_length]
    split <;> omega
  have hfind : findMatch c (collectCandidates mx c') (List.range (collectCandidates mx c').vcnt) =
      findMatch c' (collectCandidates mx c') (List.range (collectCandidates mx c').vcnt) := by
    apply findMatch_congr c c' _ h.here
    intro i hi
    rw [List.mem_range] at hi
    exact horder i (by omega)
  have hu : mvPredUnclamped mx c = mvPredUnclamped mx c' := by
    unfold mvPredUnclamped
    rw [collectCandidates_congr mx c c' h, h.here, hsr]
    split
    · dsimp only
      rw [hfind]
      cases hf : findMatch c' (collectCandidates mx c')
          (List.range (collectCandidates mx c').vcnt) with
      | none => rfl
      | some i =>
        have hi := findMatch_mem _ _ _ _ hf
        rw [List.mem_range] at hi
        dsimp only
        rw [horder i (by omega)]
    · rfl
  unfold vp8_mv_pred
  rw [hu, p3, p4, p5, hp2]

end MvPredSame
/-! ## The partition search -/

section PartitionFacts

variable {W : Type}

theorem core_fields {a b : BEST_SEG_INFO} (h : a.core = b.core) :
    a.record = b.record ∧ a.segment_rd = b.segment_rd ∧ a.mvthresh = b.mvthresh ∧
      a.ref_mv = b.ref_mv ∧ a.mdcounts = b.mdcounts := by
  have h1 : a.record = a.core.record := rfl
  have h2 : b.record = b.core.record := rfl
  refine ⟨by rw [h1, h2, h], ?_, ?_, ?_, ?_⟩
  · have := congrArg BEST_SEG_INFO.segment_rd h
    exact this
  · have := congrArg BEST_SEG_INFO.mvthresh h
    exact this
  · have := congrArg BEST_SEG_INFO.ref_mv h
    exact this
  · have := congrArg BEST_SEG_INFO.mdcounts h
    exact this

theorem outsideWindow_congr {x y : MACROBLOCK W} (h : x.window = y.window) (mv : int_mv) :
    outsideWindow x mv ↔ outsideWindow y mv := by
  unfold MACROBLOCK.window at h
  simp only [Prod.mk.injEq] at h
  obtain ⟨h1, h2, h3, h4⟩ := h
  unfold outsideWindow
  rw [h1, h2, h3, h4]

theorem labels2modeBlock_window (cfg : Config) (ext : Ext W) (sx : SplitExt W)
    (labelings : Nat → Int) (which_label : Int) (this_mode : B_PREDICTION_MODE)
    (best_ref_mv : int_mv) (s : LabelsState W) (i : Nat) :
    (labels2modeBlock cfg ext sx labelings which_label this_mode best_ref_mv s i).x.window =
      s.x.window := by
  unfold labels2modeBlock blockMode
  split
  · rfl
  · dsimp only
    split
    · rfl
    · split <;> rfl

theorem labels2mode_window (cfg : Config) (ext : Ext W) (sx : SplitExt W) (x : MACROBLOCK W)
    (labelings : Nat → Int) (which_label : Int) (this_mode : B_PREDICTION_MODE)
    (this_mv best_ref_mv : int_mv) :
    (labels2mode cfg ext sx x labelings which_label this_mode this_mv best_ref_mv).x.window =
      x.window := by
  unfold labels2mode
  dsimp only
  have key : ∀ (l : List Nat) (s : LabelsState W),
      (l.foldl (labels2modeBlock cfg ext sx labelings which_label this_mode best_ref_mv)
        s).x.window = s.x.window := by
    intro l
    induction l with
    | nil => intro s; rfl
    | cons i l ih =>
      intro s
      rw [List.foldl_cons, ih, labels2modeBlock_window]
  exact key _ _

/-- What trying a mode does to the variables of a label: the window, `*bsi`
and the vectors of the other modes stay, and the mode becomes the selected
one only with a vector inside the window and a lower cost. -/
theorem tryMode_spec (cfg : Config) (ext : Ext W) (sx : SplitExt W) (seg : Segmentation)
    (i : Nat) (ta tl : Nat → Int) (s : LabelState W) (m : B_PREDICTION_MODE) :
    (tryMode cfg ext sx seg i ta tl s m).x.window = s.x.window ∧
    (tryMode cfg ext sx seg i ta tl s m).bsi = s.bsi ∧
    (tryMode cfg ext sx seg i ta tl s m).searched = s.searched ∧
    (∀ m', m' ≠ m → (tryMode cfg ext sx seg i ta tl s m).mode_mv m' = s.mode_mv m') ∧
    (((tryMode cfg ext sx seg i ta tl s m).mode_selected = s.mode_selected ∧
        (tryMode cfg ext sx seg i ta tl s m).best_label_rd = s.best_label_rd) ∨
      ((tryMode cfg ext sx seg i ta tl s m).mode_selected = m ∧
        (tryMode cfg ext sx seg i ta tl s m).best_label_rd < s.best_label_rd ∧
        IsInt32 (tryMode cfg ext sx seg i ta tl s m).best_label_rd ∧
        ¬ outsideWindow s.x ((tryMode cfg ext sx seg i ta tl s m).mode_mv m))) := by
  have hw := labels2mode_window cfg ext sx s.x (sx.vp8_mbsplits seg) (i : Int) m
    (s.mode_mv m) s.bsi.ref_mv
  have hupd : ∀ (v : int_mv) (m' : B_PREDICTION_MODE), m' ≠ m →
      Function.update s.mode_mv m v m' = s.mode_mv m' :=
    fun v m' h => Function.update_noteq h v s.mode_mv
  unfold tryMode
  dsimp only
  split
  · exact ⟨hw, rfl, rfl, fun m' h => hupd _ m' h, Or.inl ⟨rfl, rfl⟩⟩
  · rename_i hin
    split
    · rename_i hlt
      refine ⟨hw, rfl, rfl, fun m' h => hupd _ m' h, Or.inr ⟨rfl, hlt, ?_, ?_⟩⟩
      · exact wrap32_isInt32 _
      · dsimp only
        rw [Function.update_same]
        exact fun h => hin ((outsideWindow_congr hw _).2 h)
    · exact ⟨hw, rfl, rfl, fun m' h => hupd _ m' h, Or.inl ⟨rfl, rfl⟩⟩

end PartitionFacts

section PartitionLabel

variable {W : Type}

theorem afterSearch_window (x : MACROBLOCK W) (n : Nat) (r : SplitSearch W) :
    (afterSearch x n r).window = x.window := rfl

theorem splitFurtherSteps_window (sx : SplitExt W) (seg : Segmentation) (blk : Nat)
    (mvp_full ref_mv : int_mv) (step_param sadpb further_steps : Int) :
    ∀ (fuel : Nat) (st : SplitStepState W),
      (splitFurtherSteps sx seg blk mvp_full ref_mv step_param sadpb further_steps fuel
        st).x.window = st.x.window
  | 0, st => rfl
  | fuel + 1, st => by
    unfold splitFurtherSteps
    split
    · dsimp only
      split
      · rw [splitFurtherSteps_window]
      · rw [splitFurtherSteps_window]
        rfl
    · rfl

theorem searchStages_window (sx : SplitExt W) (sp : SplitParams) (seg : Segmentation)
    (i : Nat) (mvp : int_mv) (s : LabelState W) :
    (searchStages sx sp seg i mvp s).x.window = s.x.window := by
  have h1 : ∀ (n : Nat) (a b : int_mv) (p : Int) (x : MACROBLOCK W),
      (diamondStage sx seg n a b p x).x.window = x.window := by
    intro n a b p x
    unfold diamondStage
    exact splitFurtherSteps_window _ _ _ _ _ _ _ _ _ _
  have h2 : ∀ (n : Nat) (a b : int_mv) (p : Int) (st : SplitStepState W),
      (fullStage sx sp seg n a b p st).x.window = st.x.window := by
    intro n a b p st
    unfold fullStage
    split
    · dsimp only
      split <;> rfl
    · rfl
  have h3 : ∀ (n : Nat) (b : int_mv) (st : SplitStepState W),
      (fractionStage sx seg n b st).x.window = st.x.window := by
    intro n b st
    unfold fractionStage
    split <;> rfl
  unfold searchStages
  dsimp only
  rw [h3, h2, h1]

/-- The motion search of `NEW4X4` writes the memory, `e->bmi.mv`,
`bsi->mvp` and `mode_mv[NEW4X4]` only. -/
theorem newSearch_spec (sx : SplitExt W) (sp : SplitParams) (seg : Segmentation) (i : Nat)
    (s : LabelState W) :
    (newSearch sx sp seg i s).x.window = s.x.window ∧
    (newSearch sx sp seg i s).bsi.core = s.bsi.core ∧
    (newSearch sx sp seg i s).searched = true ∧
    (∀ m', m' ≠ NEW4X4 → (newSearch sx sp seg i s).mode_mv m' = s.mode_mv m') ∧
    (newSearch sx sp seg i s).mode_selected = s.mode_selected ∧
    (newSearch sx sp seg i s).best_label_rd = s.best_label_rd :=
  ⟨searchStages_window sx sp seg i _ s, rfl, rfl,
    fun _ h => Function.update_noteq h _ _, rfl, rfl⟩

theorem labelInv_start (s0 : LabelState W) (h : s0.best_label_rd = INT_MAX) :
    LabelInv s0 s0 [] :=
  { window := rfl, core := rfl
    int32 := by rw [h]; decide
    initial := fun _ => rfl
    taken := fun hlt => by rw [h] at hlt; exact absurd hlt (lt_irrefl _) }

theorem labelInv_tryMode (cfg : Config) (ext : Ext W) (sx : SplitExt W) (seg : Segmentation)
    (i : Nat) (ta tl : Nat → Int) {s0 s : LabelState W} {tried : List B_PREDICTION_MODE}
    (m : B_PREDICTION_MODE) (hm : m ∉ tried) (h : LabelInv s0 s tried) :
    LabelInv s0 (tryMode cfg ext sx seg i ta tl s m) (tried ++ [m]) := by
  obtain ⟨hw, hb, _, hmv, hsel⟩ := tryMode_spec cfg ext sx seg i ta tl s m
  have hmax : s.best_label_rd ≤ INT_MAX := h.int32.2
  rcases hsel with ⟨h1, h2⟩ | ⟨h1, h2, h3, h4⟩
  · refine { window := hw.trans h.window, core := by rw [hb]; exact h.core,
             int32 := by rw [h2]; exact h.int32, initial := ?_, taken := ?_ }
    · intro e
      rw [h1]
      exact h.initial (by rw [← h2]; exact e)
    · intro hlt
      rw [h2] at hlt
      obtain ⟨t1, t2⟩ := h.taken hlt
      rw [h1]
      have hne : s.mode_selected ≠ m := fun e => hm (e ▸ t1)
      rw [hmv _ hne]
      exact ⟨List.mem_append_left _ t1, t2⟩
  · refine { window := hw.trans h.window, core := by rw [hb]; exact h.core,
             int32 := h3, initial := ?_, taken := ?_ }
    · intro e
      rw [e] at h2
      omega
    · intro _
      rw [h1]
      refine ⟨List.mem_append_right _ (List.mem_singleton_self m), ?_⟩
      exact fun ho => h4 ((outsideWindow_congr h.window _).2 ho)

theorem labelInv_newSearch (sx : SplitExt W) (sp : SplitParams) (seg : Segmentation) (i : Nat)
    {s0 s : LabelState W} {tried : List B_PREDICTION_MODE} (hnew : NEW4X4 ∉ tried)
    (h : LabelInv s0 s tried) : LabelInv s0 (newSearch sx sp seg i s) tried := by
  obtain ⟨hw, hb, _, hmv, h1, h2⟩ := newSearch_spec sx sp seg i s
  refine { window := hw.trans h.window, core := hb.trans h.core,
           int32 := by rw [h2]; exact h.int32, initial := ?_, taken := ?_ }
  · intro e
    rw [h1]
    exact h.initial (by rw [← h2]; exact e)
  · intro hlt
    rw [h2] at hlt
    obtain ⟨t1, t2⟩ := h.taken hlt
    rw [h1]
    have hne : s.mode_selected ≠ NEW4X4 := fun e => hnew (e ▸ t1)
    rw [hmv _ hne]
    exact ⟨t1, t2⟩

theorem reuseModes_inv (cfg : Config) (ext : Ext W) (sx : SplitExt W) (seg : Segmentation)
    (i : Nat) (ta tl : Nat → Int) (s0 : LabelState W) (h : s0.best_label_rd = INT_MAX) :
    LabelInv s0 (reuseModes cfg ext sx seg i ta tl s0) [LEFT4X4, ABOVE4X4, ZERO4X4] := by
  unfold reuseModes
  simp only [List.foldl_cons, List.foldl_nil]
  have h0 := labelInv_start s0 h
  have h1 := labelInv_tryMode cfg ext sx seg i ta tl LEFT4X4 (by decide) h0
  have h2 := labelInv_tryMode cfg ext sx seg i ta tl ABOVE4X4 (by decide) h1
  exact labelInv_tryMode cfg ext sx seg i ta tl ZERO4X4 (by decide) h2

theorem reuseModes_searched (cfg : Config) (ext : Ext W) (sx : SplitExt W)
    (seg : Segmentation) (i : Nat) (ta tl : Nat → Int) (s0 : LabelState W) :
    (reuseModes cfg ext sx seg i ta tl s0).searched = s0.searched := by
  unfold reuseModes
  simp only [List.foldl_cons, List.foldl_nil]
  rw [(tryMode_spec cfg ext sx seg i ta tl _ ZERO4X4).2.2.1,
    (tryMode_spec cfg ext sx seg i ta tl _ ABOVE4X4).2.2.1,
    (tryMode_spec cfg ext sx seg i ta tl _ LEFT4X4).2.2.1]

/-- The loop over the modes of a label: the search of `NEW4X4` is run unless
the three modes that reuse a vector left `best_label_rd` below
`label_mv_thresh`, and then the result is the one of those three modes. -/
theorem labelModes_spec (cfg : Config) (ext : Ext W) (sx : SplitExt W) (sp : SplitParams)
    (seg : Segmentation) (i : Nat) (ta tl : Nat → Int) (s0 : LabelState W)
    (h : s0.best_label_rd = INT_MAX) (hs : s0.searched = false) :
    LabelInv s0 (labelModes cfg ext sx sp seg i ta tl s0)
        [LEFT4X4, ABOVE4X4, ZERO4X4, NEW4X4] ∧
      ((labelModes cfg ext sx sp seg i ta tl s0).searched = true ↔
        ¬ (reuseModes cfg ext sx seg i ta tl s0).best_label_rd <
          labelMvThresh sx seg s0.bsi) ∧
      ((labelModes cfg ext sx sp seg i ta tl s0).searched = false →
        labelModes cfg ext sx sp seg i ta tl s0 = reuseModes cfg ext sx seg i ta tl s0 ∧
        (labelModes cfg ext sx sp seg i ta tl s0).mode_selected.reuses) := by
  have h3 := reuseModes_inv cfg ext sx seg i ta tl s0 h
  have hs3 := reuseModes_searched cfg ext sx seg i ta tl s0
  have hthr : labelMvThresh sx seg (reuseModes cfg ext sx seg i ta tl s0).bsi =
      labelMvThresh sx seg s0.bsi := by
    unfold labelMvThresh
    rw [(core_fields h3.core).2.2.1]
  have hreuse : ∀ s : LabelState W, LabelInv s0 s [LEFT4X4, ABOVE4X4, ZERO4X4] →
      s0.mode_selected.reuses → s.mode_selected.reuses := by
    intro s hi h0
    rcases lt_or_eq_of_le hi.int32.2 with hlt | heq
    · have := (hi.taken hlt).1
      simp only [List.mem_cons, List.mem_singleton, List.not_mem_nil, or_false] at this
      exact this
    · rw [hi.initial heq]; exact h0
  unfold labelModes
  dsimp only
  rw [hthr]
  split
  · rename_i hlt
    refine ⟨?_, ?_, ?_⟩
    · exact { window := h3.window, core := h3.core, int32 := h3.int32, initial := h3.initial,
              taken := fun hl => ⟨by
                have := (h3.taken hl).1
                simp only [List.mem_cons, List.mem_singleton, List.not_mem_nil,
                  or_false] at this ⊢
                rcases this with e | e | e <;> simp [e], (h3.taken hl).2⟩ }
    · rw [hs3, hs]
      simp [hlt]
    · intro _
      refine ⟨rfl, ?_⟩
      rcases lt_or_eq_of_le h3.int32.2 with hl | heq
      · have := (h3.taken hl).1
        simp only [List.mem_cons, List.mem_singleton, List.not_mem_nil, or_false] at this
        exact this
      · have hthr2 : labelMvThresh sx seg s0.bsi ≤ INT_MAX := by
          unfold labelMvThresh idiv
          exact (wrap32_isInt32 _).2
        omega
  · rename_i hge
    have h4 := labelInv_tryMode cfg ext sx seg i ta tl NEW4X4 (by decide)
      (labelInv_newSearch sx sp seg i (by decide) h3)
    have hsr : (tryMode cfg ext sx seg i ta tl
        (newSearch sx sp seg i (reuseModes cfg ext sx seg i ta tl s0)) NEW4X4).searched =
        true := by
      rw [(tryMode_spec cfg ext sx seg i ta tl _ NEW4X4).2.2.1]
      exact (newSearch_spec sx sp seg i _).2.2.1
    refine ⟨h4, ?_, ?_⟩
    · rw [hsr]
      simp [hge]
    · intro hf
      rw [hsr] at hf
      exact absurd hf (by decide)

end PartitionLabel

section PartitionLoop

variable {W : Type}

theorem groupsLinked_append {limit : Int} : ∀ {start mid final : Int} {gs : List GroupEvent}
    {g : GroupEvent}, GroupsLinked limit start gs mid → (gs ≠ [] → mid < limit) →
    g.before = mid → g.after = iadd g.before g.best_label_rd → final = g.after →
    GroupsLinked limit start (gs ++ [g]) final
  | start, mid, final, [], g, h, _, hb, ha, hf => by
    have hm : mid = start := h
    exact ⟨hb.trans hm, ha, fun hne => absurd rfl hne, hf⟩
  | start, mid, final, g0 :: gs, g, h, hlim, hb, ha, hf => by
    obtain ⟨h1, h2, h3, h4⟩ := h
    refine ⟨h1, h2, ?_, ?_⟩
    · intro _
      cases gs with
      | nil =>
        have hm : mid = g0.after := h4
        rw [← hm]
        exact hlim (by simp)
      | cons g1 gs => exact h3 (by simp)
    · cases gs with
      | nil =>
        have hm : mid = g0.after := h4
        exact ⟨hb.trans hm, ha, fun hne => absurd rfl hne, hf⟩
      | cons g1 gs =>
        exact groupsLinked_append h4 (fun _ => hlim (by simp)) hb ha hf

/-- The body of the loop over the labels adds one event. -/
theorem checkLabel_spec (cfg : Config) (ext : Ext W) (sx : SplitExt W) (sp : SplitParams)
    (seg : Segmentation) (st : SegState W) (i : Nat) :
    (checkLabel cfg ext sx sp seg st i).x.window = st.x.window ∧
    (checkLabel cfg ext sx sp seg st i).bsi.core = st.bsi.core ∧
    ∃ g : GroupEvent,
      (checkLabel cfg ext sx sp seg st i).groups = st.groups ++ [g] ∧
      g.before = st.this_segment_rd ∧
      g.after = (checkLabel cfg ext sx sp seg st i).this_segment_rd ∧
      GroupFacts (labelMvThresh sx seg st.bsi) st.x.window g := by
  let s0 : LabelState W :=
    { x := st.x, bsi := st.bsi, mode_mv := sx.stale_mode_mv i, rate := st.rate,
      sbr := st.sbr, sbd := st.sbd, bestlabelyrate := 0, mode_selected := ZERO4X4,
      best_label_rd := INT_MAX, ta_b := st.ta_b, tl_b := st.tl_b, searched := false }
  obtain ⟨hinv, hsr, hskip⟩ := labelModes_spec cfg ext sx sp seg i st.ta st.tl s0 rfl rfl
  have hw2 := labels2mode_window cfg ext sx (labelModes cfg ext sx sp seg i st.ta st.tl s0).x
    (sx.vp8_mbsplits seg) (i : Int) (labelModes cfg ext sx sp seg i st.ta st.tl s0).mode_selected
    ((labelModes cfg ext sx sp seg i st.ta st.tl s0).mode_mv
      (labelModes cfg ext sx sp seg i st.ta st.tl s0).mode_selected)
    (labelModes cfg ext sx sp seg i st.ta st.tl s0).bsi.ref_mv
  have hwin : (labelModes cfg ext sx sp seg i st.ta st.tl s0).x.window = st.x.window :=
    hinv.window
  refine ⟨hw2.trans hwin, hinv.core, _, rfl, rfl, rfl, ?_⟩
  refine { window := hwin, int32 := hinv.int32, sum := rfl, inside := ?_,
           initial := hinv.initial, searched := hsr, skipped := ?_ }
  · intro hlt
    have hno : ¬ outsideWindow st.x ((labelModes cfg ext sx sp seg i st.ta st.tl s0).mode_mv
        (labelModes cfg ext sx sp seg i st.ta st.tl s0).mode_selected) := (hinv.taken hlt).2
    unfold outsideWindow at hno
    simp only [not_or, not_lt, gt_iff_lt] at hno
    obtain ⟨n1, n2, n3, n4⟩ := hno
    have hx : (labelModes cfg ext sx sp seg i st.ta st.tl s0).x.window = st.x.window := hwin
    unfold MACROBLOCK.window at hx
    simp only [Prod.mk.injEq] at hx
    obtain ⟨e1, e2, e3, e4⟩ := hx
    show (labelModes cfg ext sx sp seg i st.ta st.tl s0).x.mv_row_min ≤ _ ∧
      _ ≤ (labelModes cfg ext sx sp seg i st.ta st.tl s0).x.mv_row_max ∧
      (labelModes cfg ext sx sp seg i st.ta st.tl s0).x.mv_col_min ≤ _ ∧
      _ ≤ (labelModes cfg ext sx sp seg i st.ta st.tl s0).x.mv_col_max
    rw [e1, e2, e3, e4]
    exact ⟨n1, n2, n3, n4⟩
  · intro hf
    obtain ⟨h1, h2⟩ := hskip hf
    refine ⟨h2, ?_⟩
    show (labelModes cfg ext sx sp seg i st.ta st.tl s0).best_label_rd =
      (reuseModes cfg ext sx seg i st.ta st.tl s0).best_label_rd
    rw [h1]

/-- The loop over the labels adds a list of events whose costs add up. -/
theorem labelLoop_spec (cfg : Config) (ext : Ext W) (sx : SplitExt W) (sp : SplitParams)
    (seg : Segmentation) : ∀ (l : List Nat) (st : SegState W),
    (labelLoop cfg ext sx sp seg l st).x.window = st.x.window ∧
    (labelLoop cfg ext sx sp seg l st).bsi.core = st.bsi.core ∧
    ∃ new : List GroupEvent,
      (labelLoop cfg ext sx sp seg l st).groups = st.groups ++ new ∧
      GroupsLinked st.bsi.segment_rd st.this_segment_rd new
        (labelLoop cfg ext sx sp seg l st).this_segment_rd ∧
      ∀ g ∈ new, GroupFacts (labelMvThresh sx seg st.bsi) st.x.window g
  | [], st => ⟨rfl, rfl, [], (List.append_nil _).symm, rfl, fun _ h => by cases h⟩
  | i :: rest, st => by
    obtain ⟨hw, hc, g, hg, hb, ha, hf⟩ := checkLabel_spec cfg ext sx sp seg st i
    unfold labelLoop
    dsimp only
    split
    · refine ⟨hw, hc, [g], hg, ⟨hb, hf.sum, fun h => absurd rfl h, ha.symm⟩, ?_⟩
      intro g' hg'
      rw [List.mem_singleton] at hg'
      rw [hg']
      exact hf
    · rename_i hlt
      obtain ⟨hw2, hc2, new, hn, hl, hfs⟩ :=
        labelLoop_spec cfg ext sx sp seg rest (checkLabel cfg ext sx sp seg st i)
      have hseg : (checkLabel cfg ext sx sp seg st i).bsi.segment_rd = st.bsi.segment_rd :=
        (core_fields hc).2.1
      have hthr : labelMvThresh sx seg (checkLabel cfg ext sx sp seg st i).bsi =
          labelMvThresh sx seg st.bsi := by
        unfold labelMvThresh
        rw [(core_fields hc).2.2.1]
      refine ⟨hw2.trans hw, hc2.trans hc, g :: new, ?_, ?_, ?_⟩
      · rw [hn, hg]
        simp
      · refine ⟨hb, hf.sum, ?_, ?_⟩
        · intro _
          rw [ha, ← hseg]
          omega
        · rw [ha, ← hseg]
          exact hl
      · intro g' hg'
        rcases List.mem_cons.1 hg' with e | e
        · rw [e]; exact hf
        · have := hfs g' e
          rw [hthr, hw] at this
          exact this

/-- The facts about a call of `rd_check_segment`. -/
theorem rd_check_segment_facts (cfg : Config) (ext : Ext W) (sx : SplitExt W)
    (sp : SplitParams) (x : MACROBLOCK W) (bsi : BEST_SEG_INFO) (seg : Segmentation) :
    CheckFacts sx x bsi seg (rd_check_segment cfg ext sx sp x bsi seg) := by
  obtain ⟨hw, hc, new, hn, hl, hfs⟩ := labelLoop_spec cfg ext sx sp seg
    (List.range (sx.vp8_mbsplit_count seg)) (checkInit ext sx x bsi seg)
  have hseg := (core_fields hc).2.1
  have hgroups : (labelLoop cfg ext sx sp seg (List.range (sx.vp8_mbsplit_count seg))
      (checkInit ext sx x bsi seg)).groups = new := by
    rw [hn]; rfl
  refine { window := hw, segmentation := rfl, incoming := rfl,
           overhead := wrap32_isInt32 _, recorded := ?_, kept := ?_, stored := ?_,
           linked := ?_, groups := ?_ }
  · show decide _ = decide _
    rw [hseg]
    rfl
  · intro hr
    unfold rd_check_segment
    dsimp only
    have hr' : decide ((labelLoop cfg ext sx sp seg (List.range (sx.vp8_mbsplit_count seg))
        (checkInit ext sx x bsi seg)).this_segment_rd <
        (labelLoop cfg ext sx sp seg (List.range (sx.vp8_mbsplit_count seg))
          (checkInit ext sx x bsi seg)).bsi.segment_rd) = false := hr
    rw [hr']
    exact hc
  · intro hr
    unfold rd_check_segment
    dsimp only
    have hr' : decide ((labelLoop cfg ext sx sp seg (List.range (sx.vp8_mbsplit_count seg))
        (checkInit ext sx x bsi seg)).this_segment_rd <
        (labelLoop cfg ext sx sp seg (List.range (sx.vp8_mbsplit_count seg))
          (checkInit ext sx x bsi seg)).bsi.segment_rd) = true := hr
    rw [hr']
    exact ⟨rfl, rfl, (core_fields hc).2.2.1, (core_fields hc).2.2.2.1,
      (core_fields hc).2.2.2.2⟩
  · show GroupsLinked bsi.segment_rd _ (labelLoop cfg ext sx sp seg _ _).groups _
    rw [hgroups]
    exact hl
  · show ∀ g ∈ (labelLoop cfg ext sx sp seg _ _).groups, _
    rw [hgroups]
    exact hfs

end PartitionLoop

section PartitionPick

variable {W : Type}

theorem checkFacts_event {sx : SplitExt W} {x : MACROBLOCK W} {bsi : BEST_SEG_INFO}
    {seg : Segmentation} {r : CheckResult W} (h : CheckFacts sx x bsi seg r) :
    EventFacts sx bsi.mvthresh r.ev :=
  { overhead := h.overhead
    recorded := by rw [h.recorded, h.incoming]
    linked := by rw [h.incoming]; exact h.linked
    groups := fun g hg => by
      have hf := h.groups g hg
      rw [h.segmentation]
      have hw : g.window = x.window := hf.window
      rw [hw]
      exact hf }

theorem segInv_map {sx : SplitExt W} {mvthresh best_rd : Int} {init : SegRecord}
    {s : PickSegState W} (fx : MACROBLOCK W → MACROBLOCK W)
    (fb : BEST_SEG_INFO → BEST_SEG_INFO)
    (hb : ∀ b, (fb b).record = b.record ∧ (fb b).mvthresh = b.mvthresh)
    (h : SegInv sx mvthresh best_rd init s) :
    SegInv sx mvthresh best_rd init { x := fx s.x, bsi := fb s.bsi, trace := s.trace } := by
  have hr := (hb s.bsi).1
  have hrd : (fb s.bsi).segment_rd = s.bsi.segment_rd := congrArg SegRecord.segment_rd hr
  have hnum : (fb s.bsi).segment_num = s.bsi.segment_num :=
    congrArg SegRecord.segment_num hr
  refine { le := ?_, thresh := (hb s.bsi).2.trans h.thresh, untouched := ?_, last := ?_,
           events := h.events }
  · show (fb s.bsi).segment_rd ≤ best_rd
    rw [hrd]; exact h.le
  · intro hall
    show (fb s.bsi).record = init
    rw [hr]
    exact h.untouched hall
  · show (fb s.bsi).record = init ∨ ∃ e ∈ s.trace, e.recorded = true ∧
      e.this_segment_rd = (fb s.bsi).segment_rd ∧ e.segmentation = (fb s.bsi).segment_num ∧
      (fb s.bsi).segment_rd < best_rd
    rw [hr, hrd, hnum]
    exact h.last

/-- A check keeps what holds between the checks. -/
theorem segInv_checkStep (cfg : Config) (ext : Ext W) (sx : SplitExt W) (sp : SplitParams)
    (seg : Segmentation) {mvthresh best_rd : Int} {init : SegRecord} {s : PickSegState W}
    (h : SegInv sx mvthresh best_rd init s) :
    SegInv sx mvthresh best_rd init (checkStep cfg ext sx sp seg s) := by
  have hf := rd_check_segment_facts cfg ext sx sp s.x s.bsi seg
  have hev := checkFacts_event hf
  rw [h.thresh] at hev
  have htrace : (checkStep cfg ext sx sp seg s).trace =
      s.trace ++ [(rd_check_segment cfg ext sx sp s.x s.bsi seg).ev] := rfl
  have hbsi : (checkStep cfg ext sx sp seg s).bsi =
      (rd_check_segment cfg ext sx sp s.x s.bsi seg).bsi := rfl
  have hevents : ∀ e ∈ (checkStep cfg ext sx sp seg s).trace, EventFacts sx mvthresh e := by
    intro e he
    rw [htrace, List.mem_append, List.mem_singleton] at he
    rcases he with he | he
    · exact h.events e he
    · rw [he]; exact hev
  cases hrec : (rd_check_segment cfg ext sx sp s.x s.bsi seg).ev.recorded with
  | false =>
    have hcore := hf.kept hrec
    have hr := (core_fields hcore).1
    have hrd : (rd_check_segment cfg ext sx sp s.x s.bsi seg).bsi.segment_rd =
        s.bsi.segment_rd := (core_fields hcore).2.1
    have hnum : (rd_check_segment cfg ext sx sp s.x s.bsi seg).bsi.segment_num =
        s.bsi.segment_num := congrArg SegRecord.segment_num hr
    refine { le := by rw [hbsi, hrd]; exact h.le,
             thresh := by rw [hbsi, (core_fields hcore).2.2.1]; exact h.thresh,
             untouched := ?_, last := ?_, events := hevents }
    · intro hall
      rw [hbsi, hr]
      exact h.untouched (fun e he => hall e (by rw [htrace]; exact List.mem_append_left _ he))
    · rw [hbsi, hr, hrd, hnum]
      rcases h.last with h0 | ⟨e, he, h1, h2, h3, h4⟩
      · exact Or.inl h0
      · exact Or.inr ⟨e, by rw [htrace]; exact List.mem_append_left _ he, h1, h2, h3, h4⟩
  | true =>
    obtain ⟨s1, s2, s3, _, _⟩ := hf.stored hrec
    have hlt : (rd_check_segment cfg ext sx sp s.x s.bsi seg).ev.this_segment_rd <
        s.bsi.segment_rd := by
      have := hf.recorded
      rw [hrec] at this
      exact of_decide_eq_true this.symm
    have hle := h.le
    refine { le := by rw [hbsi, s1]; omega, thresh := by rw [hbsi, s3]; exact h.thresh,
             untouched := ?_, last := ?_, events := hevents }
    · intro hall
      have := hall _ (by rw [htrace]; exact List.mem_append_right _ (List.mem_singleton_self _))
      rw [hrec] at this
      exact absurd this (by decide)
    · have hmem : (rd_check_segment cfg ext sx sp s.x s.bsi seg).ev ∈
          (checkStep cfg ext sx sp seg s).trace := by
        rw [htrace]
        exact List.mem_append_right _ (List.mem_singleton_self _)
      refine Or.inr ⟨_, hmem, hrec, ?_, ?_, ?_⟩
      · rw [hbsi, s1]
      · rw [hbsi, s2]; exact hf.segmentation
      · rw [hbsi, s1]; omega

theorem segInv_init (cfg : Config) (sx : SplitExt W) (x : MACROBLOCK W)
    (best_ref_mv : int_mv) (best_rd : Int) (mdcounts : Nat → Int) (mvthresh : Int) :
    SegInv sx mvthresh best_rd (bsiInit cfg best_ref_mv best_rd mdcounts mvthresh).record
      { x := x, bsi := bsiInit cfg best_ref_mv best_rd mdcounts mvthresh, trace := [] } :=
  { le := le_refl _, thresh := rfl, untouched := fun _ => rfl, last := Or.inl rfl,
    events := fun _ h => by cases h }

/-- What holds between the checks holds behind the last one. -/
theorem segmentChecks_inv (cfg : Config) (ext : Ext W) (sx : SplitExt W) (sp : SplitParams)
    (x : MACROBLOCK W) (best_ref_mv : int_mv) (best_rd : Int) (mdcounts : Nat → Int)
    (mvthresh : Int) :
    SegInv sx mvthresh best_rd (bsiInit cfg best_ref_mv best_rd mdcounts mvthresh).record
      (segmentChecks cfg ext sx sp x best_ref_mv best_rd mdcounts mvthresh) := by
  have h0 := segInv_init cfg sx x best_ref_mv best_rd mdcounts mvthresh
  have step : ∀ (seg : Segmentation) {s : PickSegState W},
      SegInv sx mvthresh best_rd (bsiInit cfg best_ref_mv best_rd mdcounts mvthresh).record s →
      SegInv sx mvthresh best_rd (bsiInit cfg best_ref_mv best_rd mdcounts mvthresh).record
        (checkStep cfg ext sx sp seg s) :=
    fun seg _ h => segInv_checkStep cfg ext sx sp seg h
  unfold segmentChecks
  dsimp only
  split
  · unfold bestQualityChecks
    exact step BLOCK_4X4 (step BLOCK_8X8 (step BLOCK_8X16 (step BLOCK_16X8 h0)))
  · unfold reducedEffortChecks
    dsimp only
    have h1 := step BLOCK_8X8 h0
    split
    · have h2 := step BLOCK_8X16 (segInv_map (narrowWindow cfg best_ref_mv)
        (fun b => setSteps sx 0 2 1 3 (saveQuadrants b)) (fun _ => ⟨rfl, rfl⟩) h1)
      have h3 := step BLOCK_16X8 (segInv_map (fun x => x)
        (fun b => setSteps sx 0 1 2 3 b) (fun _ => ⟨rfl, rfl⟩) h2)
      unfold finestCheck
      split
      · have h4 := step BLOCK_4X4 (segInv_map (fun x => x)
          (fun b => { b with mvp := b.sv_mvp 0 }) (fun _ => ⟨rfl, rfl⟩) h3)
        exact segInv_map (restoreWindow _) (fun b => b) (fun _ => ⟨rfl, rfl⟩) h4
      · exact segInv_map (restoreWindow _) (fun b => b) (fun _ => ⟨rfl, rfl⟩) h3
    · exact h1

end PartitionPick

section PartitionArith

variable {W : Type}

theorem iadd_exact {a b : Int} (h1 : INT_MIN ≤ a + b) (h2 : a + b ≤ INT_MAX) :
    iadd a b = a + b :=
  wrap32_eq_self ⟨h1, h2⟩

/-- Without a negative cost of a label and without overflow the running cost
never falls. -/
theorem groupsLinked_monotone {limit : Int} : ∀ {gs : List GroupEvent} {start final : Int},
    GroupsLinked limit start gs final → INT_MIN ≤ start →
    (∀ g ∈ gs, 0 ≤ g.best_label_rd ∧ g.before + g.best_label_rd ≤ INT_MAX) →
    start ≤ final ∧ ∀ g ∈ gs, start ≤ g.before ∧ g.before ≤ g.after ∧ g.after ≤ final
  | [], start, final, h, _, _ => by
    have hf : final = start := h
    exact ⟨by rw [hf], fun _ hg => by cases hg⟩
  | g :: gs, start, final, h, hs, hc => by
    obtain ⟨h1, h2, _, h4⟩ := h
    obtain ⟨c1, c2⟩ := hc g (List.mem_cons_self _ _)
    have hafter : g.after = g.before + g.best_label_rd := by
      rw [h2]
      exact iadd_exact (by rw [h1]; omega) c2
    obtain ⟨m1, m2⟩ := groupsLinked_monotone h4 (by rw [hafter, h1]; omega)
      (fun g' hg' => hc g' (List.mem_cons_of_mem _ hg'))
    refine ⟨by rw [hafter, h1] at m1; omega, ?_⟩
    intro g' hg'
    rcases List.mem_cons.1 hg' with e | e
    · rw [e]
      exact ⟨by rw [h1], by rw [hafter]; omega, m1⟩
    · obtain ⟨n1, n2, n3⟩ := m2 g' e
      exact ⟨by rw [hafter, h1] at n1; omega, n2, n3⟩

/-- Without overflow a label without a mode taken ends the loop over the
labels with a cost that is not below the limit. -/
theorem groupsLinked_rejected {limit : Int} (hlim : limit ≤ INT_MAX) :
    ∀ {gs : List GroupEvent} {start final : Int},
    GroupsLinked limit start gs final →
    (∀ g ∈ gs, 0 ≤ g.before ∧ g.before + g.best_label_rd ≤ INT_MAX) →
    (∃ g ∈ gs, g.best_label_rd = INT_MAX) → limit ≤ final
  | [], _, _, _, _, hr => by
    obtain ⟨g, hg, _⟩ := hr
    cases hg
  | g :: gs, start, final, h, hc, hr => by
    obtain ⟨h1, h2, h3, h4⟩ := h
    obtain ⟨c1, c2⟩ := hc g (List.mem_cons_self _ _)
    obtain ⟨g', hg', hrej⟩ := hr
    rcases List.mem_cons.1 hg' with e | e
    · rw [e] at hrej
      have hafter : g.after = INT_MAX := by
        rw [h2, iadd_exact (by unfold INT_MIN; rw [hrej]; unfold INT_MAX; omega) c2, hrej]
        rw [hrej] at c2
        omega
      cases gs with
      | nil =>
        have hf : final = g.after := h4
        rw [hf, hafter]
        exact hlim
      | cons g1 gs =>
        have := h3 (by simp)
        omega
    · exact groupsLinked_rejected hlim h4
        (fun g'' hg'' => hc g'' (List.mem_cons_of_mem _ hg'')) ⟨g', e, hrej⟩

end PartitionArith

/-! ## The events of the labels and the variables in front of them -/

section PartitionEvents

variable {W : Type}

/-- The event `checkLabel` adds for label `i` gives what the loop over the
modes left, from the variables in front of the label. -/
theorem checkLabel_event (cfg : Config) (ext : Ext W) (sx : SplitExt W) (sp : SplitParams)
    (seg : Segmentation) (st : SegState W) (i : Nat) (g : GroupEvent)
    (h : (checkLabel cfg ext sx sp seg st i).groups = st.groups ++ [g]) :
    g.label = i ∧
      g.reuse_rd =
        (reuseModes cfg ext sx seg i st.ta st.tl (labelStart sx st i)).best_label_rd ∧
      g.searched =
        (labelModes cfg ext sx sp seg i st.ta st.tl (labelStart sx st i)).searched ∧
      g.mode_selected =
        (labelModes cfg ext sx sp seg i st.ta st.tl (labelStart sx st i)).mode_selected ∧
      g.best_label_rd =
        (labelModes cfg ext sx sp seg i st.ta st.tl (labelStart sx st i)).best_label_rd ∧
      g.mv = (labelModes cfg ext sx sp seg i st.ta st.tl (labelStart sx st i)).mode_mv
        (labelModes cfg ext sx sp seg i st.ta st.tl (labelStart sx st i)).mode_selected := by
  have h1 : (checkLabel cfg ext sx sp seg st i).groups = st.groups ++
      [{ label := i, before := st.this_segment_rd
         best_label_rd :=
           (labelModes cfg ext sx sp seg i st.ta st.tl (labelStart sx st i)).best_label_rd
         after := iadd st.this_segment_rd
           (labelModes cfg ext sx sp seg i st.ta st.tl (labelStart sx st i)).best_label_rd
         mode_selected :=
           (labelModes cfg ext sx sp seg i st.ta st.tl (labelStart sx st i)).mode_selected
         mv := (labelModes cfg ext sx sp seg i st.ta st.tl (labelStart sx st i)).mode_mv
           (labelModes cfg ext sx sp seg i st.ta st.tl (labelStart sx st i)).mode_selected
         reuse_rd :=
           (reuseModes cfg ext sx seg i st.ta st.tl (labelStart sx st i)).best_label_rd
         searched :=
           (labelModes cfg ext sx sp seg i st.ta st.tl (labelStart sx st i)).searched
         mv_row_min :=
           (labelModes cfg ext sx sp seg i st.ta st.tl (labelStart sx st i)).x.mv_row_min
         mv_row_max :=
           (labelModes cfg ext sx sp seg i st.ta st.tl (labelStart sx st i)).x.mv_row_max
         mv_col_min :=
           (labelModes cfg ext sx sp seg i st.ta st.tl (labelStart sx st i)).x.mv_col_min
         mv_col_max :=
           (labelModes cfg ext sx sp seg i st.ta st.tl (labelStart sx st i)).x.mv_col_max }] :=
    rfl
  rw [h1] at h
  have h2 := List.append_cancel_left h
  rw [List.cons.injEq] at h2
  rw [← h2.1]
  exact ⟨rfl, rfl, rfl, rfl, rfl, rfl⟩

/-- Every event of the loop over the labels `n` to `n + m - 1` is the event
of a label `j`, added from the variables the loop over the labels before it
left. -/
theorem labelLoop_event (cfg : Config) (ext : Ext W) (sx : SplitExt W) (sp : SplitParams)
    (seg : Segmentation) (g : GroupEvent) :
    ∀ (m n : Nat) (st : SegState W),
      g ∈ (labelLoop cfg ext sx sp seg (List.range' n m) st).groups →
      g ∈ st.groups ∨ ∃ j, n ≤ j ∧ j < n + m ∧
        (checkLabel cfg ext sx sp seg
          (labelLoop cfg ext sx sp seg (List.range' n (j - n)) st) j).groups =
          (labelLoop cfg ext sx sp seg (List.range' n (j - n)) st).groups ++ [g]
  | 0, _, _, h => Or.inl h
  | m + 1, n, st, h => by
    obtain ⟨_, _, g0, hg0, _⟩ := checkLabel_spec cfg ext sx sp seg st n
    have hstep : labelLoop cfg ext sx sp seg (List.range' n (m + 1)) st =
        if (checkLabel cfg ext sx sp seg st n).this_segment_rd ≥
            (checkLabel cfg ext sx sp seg st n).bsi.segment_rd then
          checkLabel cfg ext sx sp seg st n
        else labelLoop cfg ext sx sp seg (List.range' (n + 1) m)
          (checkLabel cfg ext sx sp seg st n) := rfl
    have hfirst : g ∈ (checkLabel cfg ext sx sp seg st n).groups →
        g ∈ st.groups ∨ ∃ j, n ≤ j ∧ j < n + (m + 1) ∧
          (checkLabel cfg ext sx sp seg
            (labelLoop cfg ext sx sp seg (List.range' n (j - n)) st) j).groups =
            (labelLoop cfg ext sx sp seg (List.range' n (j - n)) st).groups ++ [g] := by
      intro hmem
      rw [hg0] at hmem
      rcases List.mem_append.1 hmem with hm | hm
      · exact Or.inl hm
      · rw [List.mem_singleton] at hm
        refine Or.inr ⟨n, le_refl _, by omega, ?_⟩
        rw [Nat.sub_self, hm]
        exact hg0
    rw [hstep] at h
    split at h
    · exact hfirst h
    · rename_i hno
      rcases labelLoop_event cfg ext sx sp seg g m (n + 1)
        (checkLabel cfg ext sx sp seg st n) h with hm | ⟨j, j1, j2, j3⟩
      · exact hfirst hm
      · refine Or.inr ⟨j, by omega, by omega, ?_⟩
        have hj : j - n = (j - (n + 1)) + 1 := by omega
        have hpre : labelLoop cfg ext sx sp seg (List.range' n (j - n)) st =
            labelLoop cfg ext sx sp seg (List.range' (n + 1) (j - (n + 1)))
              (checkLabel cfg ext sx sp seg st n) := by
          rw [hj]
          show (if (checkLabel cfg ext sx sp seg st n).this_segment_rd ≥
              (checkLabel cfg ext sx sp seg st n).bsi.segment_rd then
            checkLabel cfg ext sx sp seg st n
          else labelLoop cfg ext sx sp seg (List.range' (n + 1) (j - (n + 1)))
            (checkLabel cfg ext sx sp seg st n)) = _
          rw [if_neg hno]
        rw [hpre]
        exact j3

/-- Every event of a call of `rd_check_segment` is the event of its label,
added from the variables in front of that label. -/
theorem rd_check_segment_event (cfg : Config) (ext : Ext W) (sx : SplitExt W)
    (sp : SplitParams) (x : MACROBLOCK W) (bsi : BEST_SEG_INFO) (seg : Segmentation)
    (g : GroupEvent) (hg : g ∈ (rd_check_segment cfg ext sx sp x bsi seg).ev.groups) :
    g.label < sx.vp8_mbsplit_count seg ∧
      (checkLabel cfg ext sx sp seg (beforeLabel cfg ext sx sp x bsi seg g.label)
        g.label).groups =
        (beforeLabel cfg ext sx sp x bsi seg g.label).groups ++ [g] := by
  have hg' : g ∈ (labelLoop cfg ext sx sp seg (List.range' 0 (sx.vp8_mbsplit_count seg))
      (checkInit ext sx x bsi seg)).groups := by
    rw [← List.range_eq_range']
    exact hg
  rcases labelLoop_event cfg ext sx sp seg g _ 0 _ hg' with hm | ⟨j, _, j2, j3⟩
  · cases hm
  · rw [Nat.sub_zero, ← List.range_eq_range'] at j3
    have hl := (checkLabel_event cfg ext sx sp seg _ j g j3).1
    rw [hl]
    exact ⟨by omega, j3⟩

/-- The threshold of line 1367 does not change in the course of a call. -/
theorem beforeLabel_thresh (cfg : Config) (ext : Ext W) (sx : SplitExt W) (sp : SplitParams)
    (x : MACROBLOCK W) (bsi : BEST_SEG_INFO) (seg : Segmentation) (i : Nat) :
    labelMvThresh sx seg
        (reuseModes cfg ext sx seg i (beforeLabel cfg ext sx sp x bsi seg i).ta
          (beforeLabel cfg ext sx sp x bsi seg i).tl
          (labelStart sx (beforeLabel cfg ext sx sp x bsi seg i) i)).bsi =
      labelMvThresh sx seg bsi := by
  have h3 := reuseModes_inv cfg ext sx seg i (beforeLabel cfg ext sx sp x bsi seg i).ta
    (beforeLabel cfg ext sx sp x bsi seg i).tl
    (labelStart sx (beforeLabel cfg ext sx sp x bsi seg i) i) rfl
  have hc := (labelLoop_spec cfg ext sx sp seg (List.range i)
    (checkInit ext sx x bsi seg)).2.1
  unfold labelMvThresh
  rw [(core_fields h3.core).2.2.1]
  show idiv (imul 1 (beforeLabel cfg ext sx sp x bsi seg i).bsi.mvthresh) _ = _
  unfold beforeLabel
  rw [(core_fields hc).2.2.1]
  rfl

end PartitionEvents

/-! ## The claims on the motion-vector predictor -/

section ClaimsPredictor

set_option maxRecDepth 100000

/-- Claim C11: if a collected candidate is not intra and has the reference
frame of the macroblock, and `near_sadidx` lists every candidate, then
`vp8_mv_pred` gives the vector of such a candidate, the first one in the
order of `near_sadidx`, clamped only by the final `vp8_clamp_mv2`, and sets
`*sr` to 3 if that candidate is among the first three of the order and to 2
otherwise, never to 0. -/
theorem c11_matching_candidate_returned (mx : MvExt) (c : MvPredInput)
    (horder : ∀ k : Nat, k < (candidateList mx c).length →
      ∃ i, i < (candidateList mx c).length ∧ c.near_sadidx i = (k : Int))
    (hmatch : ∃ p ∈ candidateList mx c, p.1 ≠ INTRA_FRAME ∧ p.1 = c.here.ref_frame) :
    ∃ (i k : Nat) (p : MV_REFERENCE_FRAME × int_mv),
      i < (candidateList mx c).length ∧ c.near_sadidx i = (k : Int) ∧
      (candidateList mx c)[k]? = some p ∧ p.1 ≠ INTRA_FRAME ∧ p.1 = c.here.ref_frame ∧
      (∀ j, j < i → ¬ matchesAt c (collectCandidates mx c) j) ∧
      (mvPredUnclamped mx c).mv = p.2 ∧
      (vp8_mv_pred mx c).mv = mx.vp8_clamp_mv2 p.2 c.mb_to_left_edge c.mb_to_right_edge
        c.mb_to_top_edge c.mb_to_bottom_edge ∧
      (vp8_mv_pred mx c).sr = (if i < 3 then 3 else 2) ∧
      (vp8_mv_pred mx c).sr ≠ 0 := by
  obtain ⟨p, hp, hp1, hp2⟩ := hmatch
  have hhere : c.here.ref_frame ≠ INTRA_FRAME := by rw [← hp2]; exact hp1
  obtain ⟨k, hk, hpk⟩ := List.getElem_of_mem hp
  obtain ⟨i, hi, hik⟩ := horder k hk
  have hmi : matchesAt c (collectCandidates mx c) i := by
    obtain ⟨q, hq, hr, _⟩ := collectCandidates_slot mx c k hk
    rw [List.getElem?_eq_getElem hk, Option.some.injEq] at hq
    unfold matchesAt
    rw [hik, hr, ← hq, hpk]
    exact ⟨hp1, hp2.symm⟩
  rcases mvPredUnclamped_cases mx c hhere with ⟨hnone, _⟩ | ⟨i0, hi0, hm0, hfirst, hres⟩
  · exact absurd hmi (hnone i hi)
  · obtain ⟨k0, p0, e1, e2, e3, e4, e5⟩ := matchesAt_slot mx c i0 hm0
    have hsr : (vp8_mv_pred mx c).sr = (if i0 < 3 then 3 else 2) := by
      unfold vp8_mv_pred
      rw [hres]
    refine ⟨i0, k0, p0, hi0, e1, e2, e3, e4, hfirst, ?_, ?_, hsr, ?_⟩
    · rw [hres, e5]
    · unfold vp8_mv_pred
      rw [hres, e5]
    · rw [hsr]
      split <;> decide

/-- Witness of claim C11: scenario B, where the neighbours above and to the
left predict from the last frame. -/
theorem c11_matching_candidate_returned_witness :
    ∃ (i k : Nat) (p : MV_REFERENCE_FRAME × int_mv),
      i < (candidateList sampleMvExt scenarioB).length ∧
      scenarioB.near_sadidx i = (k : Int) ∧
      (candidateList sampleMvExt scenarioB)[k]? = some p ∧ p.1 ≠ INTRA_FRAME ∧
      p.1 = scenarioB.here.ref_frame ∧
      (∀ j, j < i → ¬ matchesAt scenarioB (collectCandidates sampleMvExt scenarioB) j) ∧
      (mvPredUnclamped sampleMvExt scenarioB).mv = p.2 ∧
      (vp8_mv_pred sampleMvExt scenarioB).mv =
        sampleMvExt.vp8_clamp_mv2 p.2 scenarioB.mb_to_left_edge scenarioB.mb_to_right_edge
          scenarioB.mb_to_top_edge scenarioB.mb_to_bottom_edge ∧
      (vp8_mv_pred sampleMvExt scenarioB).sr = (if i < 3 then 3 else 2) ∧
      (vp8_mv_pred sampleMvExt scenarioB).sr ≠ 0 :=
  c11_matching_candidate_returned sampleMvExt scenarioB
    (by
      intro k hk
      have h3 : k < 3 := hk
      interval_cases k
      · exact ⟨2, by decide, by decide⟩
      · exact ⟨0, by decide, by decide⟩
      · exact ⟨1, by decide, by decide⟩)
    ⟨(LAST_FRAME, { row := 4, col := -2 }), by decide, by decide, by decide⟩

/-- Counterexample to claim C12 as stated: the only candidate that is not
intra predicts from the golden frame, so no candidate has the reference frame
of the macroblock.  The two intra neighbours take part in the median with the
zero vector, and the vector is `(0, 0)`; the median of the vectors of the
candidates that are not intra is `(16, 8)`. -/
theorem c12_intra_slots_counterexample :
    goldenAbove.here.ref_frame ≠ INTRA_FRAME ∧
      (∀ p ∈ candidateList sampleMvExt goldenAbove,
        ¬ (p.1 ≠ INTRA_FRAME ∧ p.1 = goldenAbove.here.ref_frame)) ∧
      (mvPredUnclamped sampleMvExt goldenAbove).mv = { row := 0, col := 0 } ∧
      medianSkippingIntra (candidateList sampleMvExt goldenAbove) = { row := 16, col := 8 } ∧
      (mvPredUnclamped sampleMvExt goldenAbove).mv ≠
        medianSkippingIntra (candidateList sampleMvExt goldenAbove) := by
  decide

/-- Claim C12, amended: for a macroblock that is not intra, when no candidate
has its reference frame, the vector before the final clamp has as row the
entry `n / 2` of the sorted rows, and as column the entry `n / 2` of the
sorted columns, of all `n` slots (3, or 8 with the last frame), where the
slot of an intra candidate holds the zero vector; and `*sr` is set to 0. -/
theorem c12_median_of_all_slots (mx : MvExt) (c : MvPredInput)
    (hhere : c.here.ref_frame ≠ INTRA_FRAME)
    (hnone : ∀ p ∈ candidateList mx c, ¬ (p.1 ≠ INTRA_FRAME ∧ p.1 = c.here.ref_frame)) :
    (mvPredUnclamped mx c).mv =
        { row := (((candidateList mx c).map (fun p => (slotVector p).row)).insertionSort
            (· ≤ ·)).getD ((candidateList mx c).length / 2) 0
          col := (((candidateList mx c).map (fun p => (slotVector p).col)).insertionSort
            (· ≤ ·)).getD ((candidateList mx c).length / 2) 0 } ∧
      (vp8_mv_pred mx c).mv =
        mx.vp8_clamp_mv2 (mvPredUnclamped mx c).mv c.mb_to_left_edge c.mb_to_right_edge
          c.mb_to_top_edge c.mb_to_bottom_edge ∧
      (vp8_mv_pred mx c).sr = 0 := by
  rcases mvPredUnclamped_cases mx c hhere with ⟨_, hres⟩ | ⟨i0, _, hm0, _, _⟩
  · refine ⟨?_, rfl, ?_⟩
    · rw [hres, medianVector_collect]
    · unfold vp8_mv_pred
      rw [hres]
  · obtain ⟨k0, p0, _, e2, e3, e4, _⟩ := matchesAt_slot mx c i0 hm0
    exact absurd ⟨e3, e4⟩ (hnone p0 (List.getElem?_mem e2))

/-- Witness of claim C12: the call in which the only candidate that is not
intra predicts from the golden frame. -/
theorem c12_median_of_all_slots_witness :
    (mvPredUnclamped sampleMvExt goldenAbove).mv =
        { row := (((candidateList sampleMvExt goldenAbove).map
            (fun p => (slotVector p).row)).insertionSort
            (· ≤ ·)).getD ((candidateList sampleMvExt goldenAbove).length / 2) 0
          col := (((candidateList sampleMvExt goldenAbove).map
            (fun p => (slotVector p).col)).insertionSort
            (· ≤ ·)).getD ((candidateList sampleMvExt goldenAbove).length / 2) 0 } ∧
      (vp8_mv_pred sampleMvExt goldenAbove).mv =
        sampleMvExt.vp8_clamp_mv2 (mvPredUnclamped sampleMvExt goldenAbove).mv
          goldenAbove.mb_to_left_edge goldenAbove.mb_to_right_edge
          goldenAbove.mb_to_top_edge goldenAbove.mb_to_bottom_edge ∧
      (vp8_mv_pred sampleMvExt goldenAbove).sr = 0 :=
  c12_median_of_all_slots sampleMvExt goldenAbove (by decide) (by decide)

/-- Counterexample to claim C13 as stated: the neighbours above and to the
left predict from the last frame with the vector `(4, -2)`, the last frame
was a key frame, the target is the last frame and `(4, -2)` is inside the
clamp window; the neighbour above and to the left predicts from the last
frame with `(9, 9)` and is first in the order of `near_sadidx`, and the
predictor gives `(9, 9)`. -/
theorem c13_third_neighbour_counterexample :
    scenarioBThird.above.ref_frame = LAST_FRAME ∧
      scenarioBThird.above.mv = { row := 4, col := -2 } ∧
      scenarioBThird.left.ref_frame = LAST_FRAME ∧
      scenarioBThird.left.mv = { row := 4, col := -2 } ∧
      scenarioBThird.last_frame_is_key = true ∧
      scenarioBThird.refframe = LAST_FRAME ∧
      scenarioBThird.here.ref_frame = LAST_FRAME ∧
      sampleMvExt.vp8_clamp_mv2 { row := 4, col := -2 } scenarioBThird.mb_to_left_edge
        scenarioBThird.mb_to_right_edge scenarioBThird.mb_to_top_edge
        scenarioBThird.mb_to_bottom_edge = { row := 4, col := -2 } ∧
      vp8_mv_pred sampleMvExt scenarioBThird = { mv := { row := 9, col := 9 }, sr := 3 } := by
  decide

/-- Claim C13, amended: scenario B holds when `near_sadidx` lists the three
spatial candidates in its first three entries and the neighbour above and to
the left does not predict from the last frame with another vector while being
first in that order.  The sign-bias correction is taken to leave a candidate
with the sign bias of the target unchanged, and `(4, -2)` to be inside the
clamp window. -/
theorem c13_scenario_b (mx : MvExt) (c : MvPredInput)
    (hkey : c.last_frame_is_key = true)
    (hhere : c.here.ref_frame = LAST_FRAME) (href : c.refframe = LAST_FRAME)
    (habove : c.above.ref_frame = LAST_FRAME ∧ c.above.mv = { row := 4, col := -2 })
    (hleft : c.left.ref_frame = LAST_FRAME ∧ c.left.mv = { row := 4, col := -2 })
    (hthird : c.aboveleft.ref_frame = LAST_FRAME →
      c.aboveleft.mv = { row := 4, col := -2 } ∨ c.near_sadidx 0 ≠ 2)
    (horder : ∀ k : Nat, k < 3 → ∃ i, i < 3 ∧ c.near_sadidx i = (k : Int))
    (hbias : ∀ v, mx.mv_bias (c.ref_frame_sign_bias LAST_FRAME) LAST_FRAME v
      c.ref_frame_sign_bias = v)
    (hclamp : mx.vp8_clamp_mv2 { row := 4, col := -2 } c.mb_to_left_edge c.mb_to_right_edge
      c.mb_to_top_edge c.mb_to_bottom_edge = { row := 4, col := -2 }) :
    vp8_mv_pred mx c = { mv := { row := 4, col := -2 }, sr := 3 } := by
  have hcl : candidateList mx c =
      [(LAST_FRAME, { row := 4, col := -2 }), (LAST_FRAME, { row := 4, col := -2 }),
       (c.aboveleft.ref_frame, mx.mv_bias (c.ref_frame_sign_bias c.aboveleft.ref_frame)
          LAST_FRAME c.aboveleft.mv c.ref_frame_sign_bias)] := by
    unfold candidateList
    simp [hkey, href, habove.1, habove.2, hleft.1, hleft.2, hbias]
  have hne : c.here.ref_frame ≠ INTRA_FRAME := by rw [hhere]; decide
  have hlen : (candidateList mx c).length = 3 := by rw [hcl]; rfl
  have hslot0 : ∀ i, c.near_sadidx i = 0 → matchesAt c (collectCandidates mx c) i := by
    intro i hi
    obtain ⟨p, hp, hr, _⟩ := collectCandidates_slot mx c 0 (by omega)
    rw [hcl] at hp
    simp only [List.getElem?_cons_zero, Option.some.injEq] at hp
    unfold matchesAt
    rw [hi, show ((0 : Int) = ((0 : Nat) : Int)) from rfl, hr, ← hp, hhere]
    exact ⟨by decide, rfl⟩
  have hslot1 : ∀ i, c.near_sadidx i = 1 → matchesAt c (collectCandidates mx c) i := by
    intro i hi
    obtain ⟨p, hp, hr, _⟩ := collectCandidates_slot mx c 1 (by omega)
    rw [hcl] at hp
    simp only [List.getElem?_cons_succ, List.getElem?_cons_zero, Option.some.injEq] at hp
    unfold matchesAt
    rw [hi, show ((1 : Int) = ((1 : Nat) : Int)) from rfl, hr, ← hp, hhere]
    exact ⟨by decide, rfl⟩
  have hmv : (mvPredUnclamped mx c).mv = { row := 4, col := -2 } ∧
      (mvPredUnclamped mx c).sr = 3 := by
    rcases mvPredUnclamped_cases mx c hne with ⟨hnone, _⟩ | ⟨i0, hi0, hm0, hfirst, hres⟩
    · obtain ⟨i, hi, hik⟩ := horder 0 (by omega)
      exact absurd (hslot0 i (by simpa using hik)) (hnone i (by omega))
    · obtain ⟨k0, p0, e1, e2, e3, e4, e5⟩ := matchesAt_slot mx c i0 hm0
      rw [hres]
      refine ⟨?_, by dsimp only; rw [if_pos (by omega)]⟩
      dsimp only
      rw [e5]
      rw [hcl] at e2
      have hk0 : k0 < 3 := by
        by_contra hc
        have : k0 = (k0 - 3) + 3 := by omega
        rw [this] at e2
        simp at e2
      interval_cases k0
      · simp only [List.getElem?_cons_zero, Option.some.injEq] at e2
        rw [← e2]
      · simp only [List.getElem?_cons_succ, List.getElem?_cons_zero, Option.some.injEq] at e2
        rw [← e2]
      · simp only [List.getElem?_cons_succ, List.getElem?_cons_zero, Option.some.injEq] at e2
        have hr3 : c.aboveleft.ref_frame = LAST_FRAME := by
          have := e4
          rw [← e2, hhere] at this
          exact this
        rw [← e2]
        dsimp only
        rw [hr3, hbias]
        rcases hthird hr3 with h | h
        · exact h
        · exfalso
          obtain ⟨ia, ha, ea⟩ := horder 0 (by omega)
          obtain ⟨ib, hb, eb⟩ := horder 1 (by omega)
          obtain ⟨ic, hc, ec⟩ := horder 2 (by omega)
          have hab : ia ≠ ib := by
            intro hh; rw [hh, eb] at ea; simp at ea
          have hac : ia ≠ ic := by
            intro hh; rw [hh, ec] at ea; simp at ea
          have hbc : ib ≠ ic := by
            intro hh; rw [hh, ec] at eb; simp at eb
          have hzero : matchesAt c (collectCandidates mx c) 0 := by
            have h3 : ia = 0 ∨ ib = 0 ∨ ic = 0 := by omega
            rcases h3 with h0 | h0 | h0
            · rw [h0] at ea; exact hslot0 0 (by simpa using ea)
            · rw [h0] at eb; exact hslot1 0 (by simpa using eb)
            · rw [h0] at ec; exact absurd (by simpa using ec) h
          have hi00 : i0 = 0 := by
            by_contra hc0
            exact hfirst 0 (by omega) hzero
          rw [hi00] at e1
          exact h (by simpa using e1)
  unfold vp8_mv_pred
  dsimp only
  rw [hmv.1, hmv.2, hclamp]

/-- Witness of claim C13: scenario B with an intra macroblock above and to
the left. -/
theorem c13_scenario_b_witness :
    vp8_mv_pred sampleMvExt scenarioB = { mv := { row := 4, col := -2 }, sr := 3 } :=
  c13_scenario_b sampleMvExt scenarioB (by decide) (by decide) (by decide) (by decide)
    (by decide) (by decide)
    (by
      intro k hk
      interval_cases k
      · exact ⟨2, by decide, by decide⟩
      · exact ⟨0, by decide, by decide⟩
      · exact ⟨1, by decide, by decide⟩)
    (by intro v; rfl) (by decide)

/-- Counterexample to claim C14 as stated: two calls read the same neighbour
state, position, target reference and sign-bias table, and the same `*sr`;
they differ in the order of `near_sadidx` only, which `vp8_cal_sad` derives
from the pixels, and give different vectors. -/
theorem c14_order_counterexample :
    SameNeighbourState aboveFirst leftFirst ∧ aboveFirst.sr = leftFirst.sr ∧
      vp8_mv_pred sampleMvExt aboveFirst = { mv := { row := 4, col := -2 }, sr := 3 } ∧
      vp8_mv_pred sampleMvExt leftFirst = { mv := { row := 8, col := 8 }, sr := 3 } ∧
      vp8_mv_pred sampleMvExt aboveFirst ≠ vp8_mv_pred sampleMvExt leftFirst :=
  ⟨{ here := rfl, above := ⟨rfl, rfl⟩, left := ⟨rfl, rfl⟩, aboveleft := ⟨rfl, rfl⟩,
     key := rfl, position := ⟨rfl, rfl, rfl, rfl, rfl⟩,
     temporal := fun _ _ => ⟨rfl, rfl, rfl⟩, refframe := rfl, sign_bias := rfl },
   rfl, by decide, by decide, by decide⟩

/-- Claim C14, amended: two calls of `vp8_mv_pred` that read the same
neighbour reference frames and vectors (spatial and temporal), position,
target reference and sign-bias table, and also the same first eight entries
of `near_sadidx` and the same `*sr`, give the same `*mvp` and the same
`*sr`. -/
theorem c14_predictor_deterministic (mx : MvExt) (c c' : MvPredInput)
    (hstate : SameNeighbourState c c')
    (horder : ∀ i, i < 8 → c.near_sadidx i = c'.near_sadidx i) (hsr : c.sr = c'.sr) :
    vp8_mv_pred mx c = vp8_mv_pred mx c' :=
  vp8_mv_pred_congr mx c c' hstate horder hsr

/-- Witness of claim C14: scenario B and the same call with another mode of
the neighbour above and other entries of `near_sadidx` behind the eighth. -/
theorem c14_predictor_deterministic_witness :
    vp8_mv_pred sampleMvExt scenarioB =
      vp8_mv_pred sampleMvExt
        { scenarioB with
          above := { scenarioB.above with mode := NEARMV }
          near_sadidx := fun i => if i < 8 then scenarioB.near_sadidx i else 0 } :=
  c14_predictor_deterministic sampleMvExt scenarioB _
    { here := rfl, above := ⟨rfl, rfl⟩, left := ⟨rfl, rfl⟩, aboveleft := ⟨rfl, rfl⟩,
      key := rfl, position := ⟨rfl, rfl, rfl, rfl, rfl⟩,
      temporal := fun _ _ => ⟨rfl, rfl, rfl⟩, refframe := rfl, sign_bias := rfl }
    (fun i hi => by simp [hi]) rfl

end ClaimsPredictor
/-! ## The claims on the partition search -/

section ClaimsPartition

variable {W : Type}

set_option maxRecDepth 100000

/-- Claim C15: `rd_check_segment` leaves the record of the best segmentation
(`r`, `d`, `segment_yrate`, `segment_rd`, `segment_num`, `mvs`, `modes`,
`eobs`) as it was unless the cost it accumulated is below the incoming
`bsi->segment_rd`, and then `segment_rd` becomes that cost.  So
`vp8_rd_pick_best_mbsegmentation` returns at most `best_rd`, every check it
records has a cost below the best cost in front of it, and when no check is
recorded it returns `best_rd` with rate and distortion 0. -/
theorem c15_record_only_if_lower (cfg : Config) (ext : Ext W) (sx : SplitExt W)
    (sp : SplitParams) (x : MACROBLOCK W) (bsi : BEST_SEG_INFO) (seg : Segmentation)
    (best_ref_mv : int_mv) (best_rd : Int) (mdcounts : Nat → Int) (mvthresh : Int) :
    ((rd_check_segment cfg ext sx sp x bsi seg).bsi.record = bsi.record ∨
      ((rd_check_segment cfg ext sx sp x bsi seg).ev.this_segment_rd < bsi.segment_rd ∧
        (rd_check_segment cfg ext sx sp x bsi seg).bsi.segment_rd =
          (rd_check_segment cfg ext sx sp x bsi seg).ev.this_segment_rd)) ∧
    (vp8_rd_pick_best_mbsegmentation cfg ext sx sp x best_ref_mv best_rd mdcounts
      mvthresh).ret ≤ best_rd ∧
    (∀ e ∈ (vp8_rd_pick_best_mbsegmentation cfg ext sx sp x best_ref_mv best_rd mdcounts
        mvthresh).trace, (e.recorded = true ↔ e.this_segment_rd < e.incoming)) ∧
    ((∀ e ∈ (vp8_rd_pick_best_mbsegmentation cfg ext sx sp x best_ref_mv best_rd mdcounts
        mvthresh).trace, e.recorded = false) →
      (vp8_rd_pick_best_mbsegmentation cfg ext sx sp x best_ref_mv best_rd mdcounts
          mvthresh).ret = best_rd ∧
        (vp8_rd_pick_best_mbsegmentation cfg ext sx sp x best_ref_mv best_rd mdcounts
          mvthresh).returntotrate = 0 ∧
        (vp8_rd_pick_best_mbsegmentation cfg ext sx sp x best_ref_mv best_rd mdcounts
          mvthresh).returndistortion = 0 ∧
        (vp8_rd_pick_best_mbsegmentation cfg ext sx sp x best_ref_mv best_rd mdcounts
          mvthresh).returnyrate = 0) := by
  have hf := rd_check_segment_facts cfg ext sx sp x bsi seg
  have hinv := segmentChecks_inv cfg ext sx sp x best_ref_mv best_rd mdcounts mvthresh
  refine ⟨?_, hinv.le, ?_, ?_⟩
  · cases hrec : (rd_check_segment cfg ext sx sp x bsi seg).ev.recorded with
    | false => exact Or.inl (core_fields (hf.kept hrec)).1
    | true =>
      refine Or.inr ⟨?_, (hf.stored hrec).1⟩
      have := hf.recorded
      rw [hrec] at this
      exact of_decide_eq_true this.symm
  · intro e he
    have := (hinv.events e he).recorded
    rw [this]
    exact decide_eq_true_iff
  · intro hall
    have hrec := hinv.untouched hall
    exact ⟨congrArg SegRecord.segment_rd hrec, congrArg SegRecord.r hrec,
      congrArg SegRecord.d hrec, congrArg SegRecord.segment_yrate hrec⟩

/-- Counterexample to claim C16 as stated: a macroblock whose labels cost
1073741829 each, searched at best quality against the best cost `INT_MAX`.
In the check of the two rows of eight blocks the cost is 10 in front of the
first label and 1073741839 behind it; the second sum leaves the range of
`int` and gives -2147483628.  The check is recorded, the search returns
that cost with this segmentation, and the cost behind the first label is
above it. -/
theorem c16_overflow_counterexample :
    ((vp8_rd_pick_best_mbsegmentation stdConfig (benchExt bench1) (splitExt hugeBench)
        bestQuality (benchX 0) zero_mv INT_MAX (fun _ => 0) 0).trace.map
          (fun e => (e.segmentation, e.recorded, e.this_segment_rd,
            e.groups.map (fun g => (g.before, g.after)))) ).head? =
      some (BLOCK_16X8, true, -2147483628,
        [(10, 1073741839), (1073741839, -2147483628)]) ∧
    (vp8_rd_pick_best_mbsegmentation stdConfig (benchExt bench1) (splitExt hugeBench)
        bestQuality (benchX 0) zero_mv INT_MAX (fun _ => 0) 0).ret = -2147483628 ∧
    (vp8_rd_pick_best_mbsegmentation stdConfig (benchExt bench1) (splitExt hugeBench)
        bestQuality (benchX 0) zero_mv INT_MAX (fun _ => 0) 0).bsi.segment_num =
      BLOCK_16X8 ∧
    ¬ ((1073741839 : Int) ≤ -2147483628) := by
  decide

/-- Claim C16, amended: in every check that `vp8_rd_pick_best_mbsegmentation`
records, where no label has a negative cost and no addition of line 1559
leaves the range of `int`, the cost in front of the first label and the cost
behind every label do not exceed the cost the check reports, and the cost
never falls from one label to the next; and the segmentation the search
returns is that of a recorded check with the returned cost, unless none was
recorded. -/
theorem c16_running_cost_below_final (cfg : Config) (ext : Ext W) (sx : SplitExt W)
    (sp : SplitParams) (x : MACROBLOCK W) (best_ref_mv : int_mv) (best_rd : Int)
    (mdcounts : Nat → Int) (mvthresh : Int) (e : CheckEvent)
    (he : e ∈ (vp8_rd_pick_best_mbsegmentation cfg ext sx sp x best_ref_mv best_rd mdcounts
      mvthresh).trace)
    (hrec : e.recorded = true)
    (hcost : ∀ g ∈ e.groups, 0 ≤ g.best_label_rd ∧ g.before + g.best_label_rd ≤ INT_MAX) :
    e.overhead ≤ e.this_segment_rd ∧
    (∀ g ∈ e.groups, e.overhead ≤ g.before ∧ g.before ≤ g.after ∧
      g.after ≤ e.this_segment_rd) ∧
    e.this_segment_rd < e.incoming ∧
    ((vp8_rd_pick_best_mbsegmentation cfg ext sx sp x best_ref_mv best_rd mdcounts
          mvthresh).bsi.record =
        (bsiInit cfg best_ref_mv best_rd mdcounts mvthresh).record ∨
      ∃ e' ∈ (vp8_rd_pick_best_mbsegmentation cfg ext sx sp x best_ref_mv best_rd mdcounts
          mvthresh).trace,
        e'.recorded = true ∧
        e'.this_segment_rd = (vp8_rd_pick_best_mbsegmentation cfg ext sx sp x best_ref_mv
          best_rd mdcounts mvthresh).ret ∧
        e'.segmentation = (vp8_rd_pick_best_mbsegmentation cfg ext sx sp x best_ref_mv
          best_rd mdcounts mvthresh).bsi.segment_num) := by
  have hinv := segmentChecks_inv cfg ext sx sp x best_ref_mv best_rd mdcounts mvthresh
  have hev := hinv.events e he
  obtain ⟨m1, m2⟩ := groupsLinked_monotone hev.linked hev.overhead.1 hcost
  refine ⟨m1, m2, ?_, ?_⟩
  · have := hev.recorded
    rw [hrec] at this
    exact of_decide_eq_true this.symm
  · rcases hinv.last with h0 | ⟨e', he', h1, h2, h3, _⟩
    · exact Or.inl h0
    · exact Or.inr ⟨e', he', h1, h2, h3⟩

/-- Witness of claim C16: the check of the two rows of eight blocks at best
quality, which is recorded with the cost 28 after the costs 10 and 20. -/
theorem c16_running_cost_below_final_witness :
    (rd_check_segment stdConfig (benchExt bench1) (splitExt (splitBench 10)) bestQuality
        (benchX 0) (benchBsi 0) BLOCK_16X8).ev.overhead ≤
      (rd_check_segment stdConfig (benchExt bench1) (splitExt (splitBench 10)) bestQuality
        (benchX 0) (benchBsi 0) BLOCK_16X8).ev.this_segment_rd ∧
    (rd_check_segment stdConfig (benchExt bench1) (splitExt (splitBench 10)) bestQuality
        (benchX 0) (benchBsi 0) BLOCK_16X8).ev.groups.map (fun g => (g.before, g.after)) =
      [(10, 20), (20, 28)] :=
  ⟨(c16_running_cost_below_final stdConfig (benchExt bench1) (splitExt (splitBench 10))
      bestQuality (benchX 0) zero_mv 1000 (fun _ => 0) 0
      (rd_check_segment stdConfig (benchExt bench1) (splitExt (splitBench 10)) bestQuality
        (benchX 0) (benchBsi 0) BLOCK_16X8).ev
      (by decide) (by decide) (by decide)).1,
    by decide⟩

/-- Counterexample to claim C17 as stated: with a window that none of the
vectors is inside, every mode of both labels is rejected and each label adds
`best_label_rd = INT_MAX`.  The first sum, 10 + `INT_MAX`, wraps to
-2147483639, the second one gives 8, and the segmentation is recorded with
the cost 8 against the best cost 1000. -/
theorem c17_overflow_counterexample :
    (rd_check_segment stdConfig (benchExt bench1) (splitExt (splitBench 10)) bestQuality
        farWindow (benchBsi 0) BLOCK_16X8).ev.overhead = 10 ∧
    (rd_check_segment stdConfig (benchExt bench1) (splitExt (splitBench 10)) bestQuality
        farWindow (benchBsi 0) BLOCK_16X8).ev.groups.map
          (fun g => (g.before, g.best_label_rd, g.after)) =
      [(10, INT_MAX, -2147483639), (-2147483639, INT_MAX, 8)] ∧
    (rd_check_segment stdConfig (benchExt bench1) (splitExt (splitBench 10)) bestQuality
        farWindow (benchBsi 0) BLOCK_16X8).ev.recorded = true ∧
    (benchBsi 0).segment_rd = 1000 ∧
    (rd_check_segment stdConfig (benchExt bench1) (splitExt (splitBench 10)) bestQuality
        farWindow (benchBsi 0) BLOCK_16X8).bsi.segment_rd = 8 := by
  decide

/-- Claim C17, amended: the sums of `rd_check_segment` are plain additions of
`int`, which wrap around: the cost behind a label is the cost in front of it
plus `best_label_rd`, reduced to 32 bits.  Where the cost in front of every
label is not negative and no sum leaves the range of `int`, a segmentation
with a label all of whose modes were rejected (`best_label_rd` still
`INT_MAX`) is not recorded and leaves the record as it was. -/
theorem c17_plain_addition (cfg : Config) (ext : Ext W) (sx : SplitExt W)
    (sp : SplitParams) (x : MACROBLOCK W) (bsi : BEST_SEG_INFO) (seg : Segmentation)
    (hbest : bsi.segment_rd ≤ INT_MAX)
    (hrange : ∀ g ∈ (rd_check_segment cfg ext sx sp x bsi seg).ev.groups,
      0 ≤ g.before ∧ g.before + g.best_label_rd ≤ INT_MAX)
    (hrej : ∃ g ∈ (rd_check_segment cfg ext sx sp x bsi seg).ev.groups,
      g.best_label_rd = INT_MAX) :
    (∀ g ∈ (rd_check_segment cfg ext sx sp x bsi seg).ev.groups,
      g.after = wrap32 (g.before + g.best_label_rd)) ∧
    (rd_check_segment cfg ext sx sp x bsi seg).ev.recorded = false ∧
    (rd_check_segment cfg ext sx sp x bsi seg).bsi.record = bsi.record := by
  have hf := rd_check_segment_facts cfg ext sx sp x bsi seg
  have hge := groupsLinked_rejected hbest hf.linked hrange hrej
  have hrec : (rd_check_segment cfg ext sx sp x bsi seg).ev.recorded = false := by
    rw [hf.recorded]
    exact decide_eq_false (by omega)
  exact ⟨fun g hg => (hf.groups g hg).sum, hrec, (core_fields (hf.kept hrec)).1⟩

/-- Witness of claim C17: signalling the segmentation costs nothing, so the
cost in front of the first label is 0, and every mode of that label is
rejected. -/
theorem c17_plain_addition_witness :
    (rd_check_segment stdConfig (benchExt bench1) (splitExt (splitBench 0)) bestQuality
        farWindow (benchBsi 0) BLOCK_16X8).ev.groups.map
          (fun g => (g.before, g.best_label_rd, g.after)) = [(0, INT_MAX, INT_MAX)] ∧
    (rd_check_segment stdConfig (benchExt bench1) (splitExt (splitBench 0)) bestQuality
        farWindow (benchBsi 0) BLOCK_16X8).ev.recorded = false :=
  ⟨by decide,
    (c17_plain_addition stdConfig (benchExt bench1) (splitExt (splitBench 0)) bestQuality
      farWindow (benchBsi 0) BLOCK_16X8 (by decide) (by decide) (by decide)).2.1⟩

/-- Counterexample to claim C18 as stated: with a window of whole pixels
that starts at column 60, every mode of both labels is rejected, the mode
selected stays the initial `ZERO4X4`, whose zero vector is outside the
window, and the segmentation is recorded with that vector for block 0. -/
theorem c18_rejected_mode_counterexample :
    (rd_check_segment stdConfig (benchExt bench1) (splitExt (splitBench 10)) bestQuality
        farColumns (benchBsi 0) BLOCK_8X16).ev.groups.map
          (fun g => (g.mode_selected, g.mv, g.best_label_rd, decide g.vectorInside)) =
      [(ZERO4X4, zero_mv, INT_MAX, false), (ZERO4X4, zero_mv, INT_MAX, false)] ∧
    (rd_check_segment stdConfig (benchExt bench1) (splitExt (splitBench 10)) bestQuality
        farColumns (benchBsi 0) BLOCK_8X16).ev.recorded = true ∧
    (rd_check_segment stdConfig (benchExt bench1) (splitExt (splitBench 10)) bestQuality
        farColumns (benchBsi 0) BLOCK_8X16).bsi.segment_num = BLOCK_8X16 ∧
    (rd_check_segment stdConfig (benchExt bench1) (splitExt (splitBench 10)) bestQuality
        farColumns (benchBsi 0) BLOCK_8X16).bsi.mvs 0 = zero_mv ∧
    (rd_check_segment stdConfig (benchExt bench1) (splitExt (splitBench 10)) bestQuality
        farColumns (benchBsi 0) BLOCK_8X16).bsi.modes 0 = ZERO4X4.toInt stdConfig ∧
    outsideWindow farColumns zero_mv := by
  decide

/-- Claim C18, amended: a mode whose vector is outside the window is never
taken by the comparison of line 1536.  For every label `rd_check_segment`
goes through, with the window of the call in force: if a mode was taken
(`best_label_rd` below `INT_MAX`), the vector of the selected mode, which
line 1553 hands to `labels2mode`, is inside the window; if none was taken,
the selected mode is the initial `ZERO4X4`.  In a check that is recorded,
where the cost in front of every label is not negative and no sum leaves the
range of `int`, the vector of every label is inside the window. -/
theorem c18_selected_vector_inside (cfg : Config) (ext : Ext W) (sx : SplitExt W)
    (sp : SplitParams) (x : MACROBLOCK W) (bsi : BEST_SEG_INFO) (seg : Segmentation)
    (g : GroupEvent) (hg : g ∈ (rd_check_segment cfg ext sx sp x bsi seg).ev.groups) :
    g.window = x.window ∧
    (rd_check_segment cfg ext sx sp x bsi seg).x.window = x.window ∧
    g.best_label_rd ≤ INT_MAX ∧
    (g.best_label_rd < INT_MAX → g.vectorInside) ∧
    (g.best_label_rd = INT_MAX → g.mode_selected = ZERO4X4) ∧
    ((rd_check_segment cfg ext sx sp x bsi seg).ev.recorded = true →
      bsi.segment_rd ≤ INT_MAX →
      (∀ g' ∈ (rd_check_segment cfg ext sx sp x bsi seg).ev.groups,
        0 ≤ g'.before ∧ g'.before + g'.best_label_rd ≤ INT_MAX) →
      ∀ g' ∈ (rd_check_segment cfg ext sx sp x bsi seg).ev.groups, g'.vectorInside) := by
  have hf := rd_check_segment_facts cfg ext sx sp x bsi seg
  have hgf := hf.groups g hg
  refine ⟨hgf.window, hf.window, hgf.int32.2, hgf.inside, hgf.initial, ?_⟩
  intro hrec hbest hrange g' hg'
  have hgf' := hf.groups g' hg'
  rcases lt_or_eq_of_le hgf'.int32.2 with hlt | heq
  · exact hgf'.inside hlt
  · exfalso
    have hge := groupsLinked_rejected hbest hf.linked hrange ⟨g', hg', heq⟩
    have hno : (rd_check_segment cfg ext sx sp x bsi seg).ev.recorded = false := by
      rw [hf.recorded]
      exact decide_eq_false (by omega)
    rw [hrec] at hno
    cases hno

/-- Witness of claim C18: the first label of the two rows of eight blocks,
for which the vector (32, 32) of the search is selected. -/
theorem c18_selected_vector_inside_witness :
    ((rd_check_segment stdConfig (benchExt bench1) (splitExt (splitBench 10)) bestQuality
        (benchX 0) (benchBsi 0) BLOCK_16X8).ev.groups.map
          (fun g => (g.mode_selected, g.mv, g.best_label_rd))).head? =
      some (NEW4X4, { row := 32, col := 32 }, 10) ∧
    ∀ g ∈ (rd_check_segment stdConfig (benchExt bench1) (splitExt (splitBench 10)) bestQuality
        (benchX 0) (benchBsi 0) BLOCK_16X8).ev.groups, g.vectorInside :=
  ⟨by decide, fun g hg =>
    (c18_selected_vector_inside stdConfig (benchExt bench1) (splitExt (splitBench 10))
      bestQuality (benchX 0) (benchBsi 0) BLOCK_16X8 g hg).2.2.2.1
      ((by decide : ∀ g ∈ (rd_check_segment stdConfig (benchExt bench1)
          (splitExt (splitBench 10)) bestQuality (benchX 0) (benchBsi 0)
          BLOCK_16X8).ev.groups, g.best_label_rd < INT_MAX) g hg)⟩

/-- Claim C19: `label_mv_thresh` is `bsi->mvthresh` divided by the count of
the labels, rounded towards zero.  For every label `rd_check_segment` goes
through, the motion search of `NEW4X4` is skipped exactly when the best cost
found among `LEFT4X4`, `ABOVE4X4` and `ZERO4X4` is below `label_mv_thresh`,
and then the selected mode is one of these three and its cost that best
cost.  In terms of the variables: with `st` the variables in front of the
label and `s0` those in front of its first mode, a best cost of the three
modes below the threshold leaves the variables as the third of them left
them, so that no search routine has run; otherwise the variables are those
`NEW4X4` leaves when it is tried behind the search, and the search leaves
the macroblock and the `mode_mv[NEW4X4]` that the diamond, full and
fractional searches gave from the predictor `bsi->mvp`. -/
theorem c19_new_search_skipped (cfg : Config) (ext : Ext W) (sx : SplitExt W)
    (sp : SplitParams) (x : MACROBLOCK W) (bsi : BEST_SEG_INFO) (seg : Segmentation)
    (hthresh : IsInt32 bsi.mvthresh) (hcount : 0 < sx.vp8_mbsplit_count seg)
    (g : GroupEvent) (hg : g ∈ (rd_check_segment cfg ext sx sp x bsi seg).ev.groups) :
    labelMvThresh sx seg bsi = Int.tdiv bsi.mvthresh (sx.vp8_mbsplit_count seg) ∧
    (g.searched = false ↔ g.reuse_rd < labelMvThresh sx seg bsi) ∧
    (g.searched = false → g.mode_selected.reuses ∧ g.best_label_rd = g.reuse_rd) ∧
    (g.label < sx.vp8_mbsplit_count seg ∧
      g.reuse_rd =
        (reuseModes cfg ext sx seg g.label (beforeLabel cfg ext sx sp x bsi seg g.label).ta
          (beforeLabel cfg ext sx sp x bsi seg g.label).tl
          (labelStart sx (beforeLabel cfg ext sx sp x bsi seg g.label)
            g.label)).best_label_rd ∧
      g.searched =
        (labelModes cfg ext sx sp seg g.label (beforeLabel cfg ext sx sp x bsi seg g.label).ta
          (beforeLabel cfg ext sx sp x bsi seg g.label).tl
          (labelStart sx (beforeLabel cfg ext sx sp x bsi seg g.label) g.label)).searched ∧
      g.mode_selected =
        (labelModes cfg ext sx sp seg g.label (beforeLabel cfg ext sx sp x bsi seg g.label).ta
          (beforeLabel cfg ext sx sp x bsi seg g.label).tl
          (labelStart sx (beforeLabel cfg ext sx sp x bsi seg g.label)
            g.label)).mode_selected ∧
      g.best_label_rd =
        (labelModes cfg ext sx sp seg g.label (beforeLabel cfg ext sx sp x bsi seg g.label).ta
          (beforeLabel cfg ext sx sp x bsi seg g.label).tl
          (labelStart sx (beforeLabel cfg ext sx sp x bsi seg g.label)
            g.label)).best_label_rd) ∧
    (g.reuse_rd < labelMvThresh sx seg bsi →
      labelModes cfg ext sx sp seg g.label (beforeLabel cfg ext sx sp x bsi seg g.label).ta
          (beforeLabel cfg ext sx sp x bsi seg g.label).tl
          (labelStart sx (beforeLabel cfg ext sx sp x bsi seg g.label) g.label) =
        reuseModes cfg ext sx seg g.label (beforeLabel cfg ext sx sp x bsi seg g.label).ta
          (beforeLabel cfg ext sx sp x bsi seg g.label).tl
          (labelStart sx (beforeLabel cfg ext sx sp x bsi seg g.label) g.label)) ∧
    (¬ g.reuse_rd < labelMvThresh sx seg bsi →
      labelModes cfg ext sx sp seg g.label (beforeLabel cfg ext sx sp x bsi seg g.label).ta
          (beforeLabel cfg ext sx sp x bsi seg g.label).tl
          (labelStart sx (beforeLabel cfg ext sx sp x bsi seg g.label) g.label) =
        tryMode cfg ext sx seg g.label (beforeLabel cfg ext sx sp x bsi seg g.label).ta
          (beforeLabel cfg ext sx sp x bsi seg g.label).tl
          (newSearch sx sp seg g.label
            (reuseModes cfg ext sx seg g.label
              (beforeLabel cfg ext sx sp x bsi seg g.label).ta
              (beforeLabel cfg ext sx sp x bsi seg g.label).tl
              (labelStart sx (beforeLabel cfg ext sx sp x bsi seg g.label) g.label)))
          NEW4X4 ∧
      ∀ s3 : LabelState W,
        (newSearch sx sp seg g.label s3).x =
            (searchStages sx sp seg g.label (labelPredictor sp seg g.label s3.x s3.bsi)
              s3).x ∧
          (newSearch sx sp seg g.label s3).mode_mv NEW4X4 =
            (searchStages sx sp seg g.label (labelPredictor sp seg g.label s3.x s3.bsi)
              s3).new_mv ∧
          (newSearch sx sp seg g.label s3).bsi.mvp =
            labelPredictor sp seg g.label s3.x s3.bsi) := by
  have hf := rd_check_segment_facts cfg ext sx sp x bsi seg
  have hgf := hf.groups g hg
  obtain ⟨hlabel, hev⟩ := rd_check_segment_event cfg ext sx sp x bsi seg g hg
  obtain ⟨_, e2, e3, e4, e5, _⟩ := checkLabel_event cfg ext sx sp seg _ g.label g hev
  have hthr := beforeLabel_thresh cfg ext sx sp x bsi seg g.label
  have hmodes : labelModes cfg ext sx sp seg g.label
        (beforeLabel cfg ext sx sp x bsi seg g.label).ta
        (beforeLabel cfg ext sx sp x bsi seg g.label).tl
        (labelStart sx (beforeLabel cfg ext sx sp x bsi seg g.label) g.label) =
      if g.reuse_rd < labelMvThresh sx seg bsi then
        reuseModes cfg ext sx seg g.label (beforeLabel cfg ext sx sp x bsi seg g.label).ta
          (beforeLabel cfg ext sx sp x bsi seg g.label).tl
          (labelStart sx (beforeLabel cfg ext sx sp x bsi seg g.label) g.label)
      else
        tryMode cfg ext sx seg g.label (beforeLabel cfg ext sx sp x bsi seg g.label).ta
          (beforeLabel cfg ext sx sp x bsi seg g.label).tl
          (newSearch sx sp seg g.label
            (reuseModes cfg ext sx seg g.label
              (beforeLabel cfg ext sx sp x bsi seg g.label).ta
              (beforeLabel cfg ext sx sp x bsi seg g.label).tl
              (labelStart sx (beforeLabel cfg ext sx sp x bsi seg g.label) g.label)))
          NEW4X4 := by
    rw [e2]
    unfold labelModes
    dsimp only
    rw [hthr]
  refine ⟨?_, ?_, hgf.skipped, ⟨hlabel, e2, e3, e4, e5⟩, ?_, ?_⟩
  · unfold labelMvThresh idiv imul
    rw [Int.one_mul, wrap32_eq_self hthresh]
    apply wrap32_eq_self
    have hc : (0 : Int) < (sx.vp8_mbsplit_count seg : Int) := by exact_mod_cast hcount
    unfold IsInt32 INT_MIN INT_MAX at *
    rcases le_or_lt 0 bsi.mvthresh with h0 | h0
    · have h1 := Int.tdiv_nonneg h0 (le_of_lt hc)
      have h2 : Int.tdiv bsi.mvthresh (sx.vp8_mbsplit_count seg) ≤ bsi.mvthresh := by
        rw [Int.tdiv_eq_ediv h0 (le_of_lt hc)]
        exact Int.ediv_le_self _ h0
      omega
    · have h1 : Int.tdiv bsi.mvthresh (sx.vp8_mbsplit_count seg) =
          -(Int.tdiv (-bsi.mvthresh) (sx.vp8_mbsplit_count seg)) := by
        rw [Int.neg_tdiv, neg_neg]
      have h2 := Int.tdiv_nonneg (a := -bsi.mvthresh) (by omega) (le_of_lt hc)
      have h3 : Int.tdiv (-bsi.mvthresh) (sx.vp8_mbsplit_count seg) ≤ -bsi.mvthresh := by
        rw [Int.tdiv_eq_ediv (by omega) (le_of_lt hc)]
        exact Int.ediv_le_self _ (by omega)
      omega
  · constructor
    · intro h
      by_contra hc
      have := hgf.searched.2 hc
      rw [h] at this
      exact absurd this (by decide)
    · intro h
      cases hs : g.searched with
      | false => rfl
      | true => exact absurd h (hgf.searched.1 hs)
  · intro hlt
    rw [hmodes, if_pos hlt]
  · intro hge
    refine ⟨by rw [hmodes, if_neg hge], ?_⟩
    intro s3
    refine ⟨rfl, ?_, rfl⟩
    unfold newSearch
    dsimp only
    rw [Function.update_same]

/-- Witness of claim C19, two calls for the two rows of eight blocks.  With
`mvthresh = 1000` the threshold is 500: the search is skipped for both
labels, whose best cost among the three reuse modes is 26, and `ZERO4X4` is
selected.  With `mvthresh = 40` the threshold is 20: for the first label
the best cost 26 of the reuse modes is not below it, the search is run and
`NEW4X4` is selected with the vector (32, 32) the search gave, at the cost
10; for the second label `ABOVE4X4` reuses that vector at the cost 8, which
is below the threshold, and the search is skipped. -/
theorem c19_new_search_skipped_witness :
    (rd_check_segment stdConfig (benchExt bench1) (splitExt (splitBench 10)) bestQuality
        (benchX 0) (benchBsi 1000) BLOCK_16X8).ev.groups.map
          (fun g => (g.reuse_rd, g.searched, g.mode_selected, g.best_label_rd)) =
      [(26, false, ZERO4X4, 26), (26, false, ZERO4X4, 26)] ∧
    labelMvThresh (splitExt (splitBench 10)) BLOCK_16X8 (benchBsi 1000) = 500 ∧
    (∀ g ∈ (rd_check_segment stdConfig (benchExt bench1) (splitExt (splitBench 10))
        bestQuality (benchX 0) (benchBsi 1000) BLOCK_16X8).ev.groups,
      (g.searched = false ↔
        g.reuse_rd < labelMvThresh (splitExt (splitBench 10)) BLOCK_16X8 (benchBsi 1000))) ∧
    (rd_check_segment stdConfig (benchExt bench1) (splitExt (splitBench 10)) bestQuality
        (benchX 0) (benchBsi 40) BLOCK_16X8).ev.groups.map
          (fun g => (g.reuse_rd, g.searched, g.mode_selected, g.best_label_rd, g.mv)) =
      [(26, true, NEW4X4, 10, { row := 32, col := 32 }),
       (8, false, ABOVE4X4, 8, { row := 32, col := 32 })] ∧
    labelMvThresh (splitExt (splitBench 10)) BLOCK_16X8 (benchBsi 40) = 20 ∧
    (∀ g ∈ (rd_check_segment stdConfig (benchExt bench1) (splitExt (splitBench 10))
        bestQuality (benchX 0) (benchBsi 40) BLOCK_16X8).ev.groups,
      (g.searched = false ↔
        g.reuse_rd < labelMvThresh (splitExt (splitBench 10)) BLOCK_16X8 (benchBsi 40))) :=
  ⟨by decide, by decide, fun g hg =>
    (c19_new_search_skipped stdConfig (benchExt bench1) (splitExt (splitBench 10))
      bestQuality (benchX 0) (benchBsi 1000) BLOCK_16X8 (by decide) (by decide) g hg).2.1,
    by decide, by decide, fun g hg =>
    (c19_new_search_skipped stdConfig (benchExt bench1) (splitExt (splitBench 10))
      bestQuality (benchX 0) (benchBsi 40) BLOCK_16X8 (by decide) (by decide) g hg).2.1⟩

end ClaimsPartition
/-! ## `insertsortsad`: the two arrays move in step -/

section SadSort

theorem zip_set (x y : Int) : ∀ (a b : List Int) (i : Nat),
    (a.set i x).zip (b.set i y) = (a.zip b).set i (x, y)
  | [], _, _ => by simp
  | _ :: _, [], _ => by simp
  | _ :: a, _ :: b, 0 => by simp
  | _ :: a, _ :: b, i + 1 => by simp [zip_set x y a b i]

theorem getD_zip (x y : Int) : ∀ (a b : List Int) (k : Nat), a.length = b.length →
    (a.zip b).getD k (x, y) = (a.getD k x, b.getD k y)
  | [], [], _, _ => by simp
  | [], _ :: _, _, h => by simp at h
  | _ :: _, [], _, h => by simp at h
  | _ :: a, _ :: b, 0, _ => by simp
  | _ :: a, _ :: b, k + 1, h => by
    have := getD_zip x y a b k (by simpa using h)
    simpa using this

theorem shiftUp_zip (j : Nat) : ∀ (k : Nat) (a b : List Int), a.length = b.length →
    (shiftUp 0 a j k).zip (shiftUp 0 b j k) = shiftUp ((0 : Int), (0 : Int)) (a.zip b) j k
  | 0, _, _, _ => rfl
  | k + 1, a, b, h => by
    unfold shiftUp
    split
    · rw [shiftUp_zip j k _ _ (by simpa using h), zip_set, getD_zip 0 0 a b k h]
    · rfl

/-- One step of `insertsortsad` is the step of the sort of the pairs
`(arr[k], idx[k])` by their first component. -/
theorem sadStep_pairs (i j : Nat) (p : List Int × List Int) (h : p.1.length = p.2.length) :
    sadPairs (sadStep i p j) = insertStep Prod.fst ((0 : Int), (0 : Int)) i (sadPairs p) j ∧
      (sadStep i p j).1.length = (sadStep i p j).2.length ∧
      (sadStep i p j).1.length = p.1.length := by
  unfold sadStep insertStep sadPairs
  rw [getD_zip 0 0 _ _ j h, getD_zip 0 0 _ _ i h]
  dsimp only
  split
  · refine ⟨?_, ?_, ?_⟩
    · rw [zip_set, shiftUp_zip j i _ _ h]
    · simp [shiftUp_length, h]
    · simp [shiftUp_length]
  · exact ⟨rfl, h, rfl⟩

theorem foldl_sadStep_pairs (i : Nat) : ∀ (js : List Nat) (p : List Int × List Int),
    p.1.length = p.2.length →
    sadPairs (js.foldl (sadStep i) p) =
        js.foldl (insertStep Prod.fst ((0 : Int), (0 : Int)) i) (sadPairs p) ∧
      (js.foldl (sadStep i) p).1.length = (js.foldl (sadStep i) p).2.length ∧
      (js.foldl (sadStep i) p).1.length = p.1.length
  | [], _, h => ⟨rfl, h, rfl⟩
  | j :: js, p, h => by
    obtain ⟨h1, h2, h3⟩ := sadStep_pairs i j p h
    obtain ⟨g1, g2, g3⟩ := foldl_sadStep_pairs i js (sadStep i p j) h2
    simp only [List.foldl_cons]
    exact ⟨by rw [g1, h1], g2, g3.trans h3⟩

theorem foldl_sadPass_pairs : ∀ (is : List Nat) (p : List Int × List Int),
    p.1.length = p.2.length →
    sadPairs (is.foldl sadPass p) =
        is.foldl (insertPass Prod.fst ((0 : Int), (0 : Int))) (sadPairs p) ∧
      (is.foldl sadPass p).1.length = (is.foldl sadPass p).2.length ∧
      (is.foldl sadPass p).1.length = p.1.length
  | [], _, h => ⟨rfl, h, rfl⟩
  | i :: is, p, h => by
    obtain ⟨h1, h2, h3⟩ := foldl_sadStep_pairs i (List.range i) p h
    obtain ⟨g1, g2, g3⟩ := foldl_sadPass_pairs is (sadPass p i) h2
    simp only [List.foldl_cons]
    refine ⟨?_, g2, g3.trans h3⟩
    rw [g1]
    unfold sadPass insertPass
    rw [h1]

/-- Function `insertsortsad` sorts the pairs `(arr[k], idx[k])` like the
loops of `insertsortmv` sort numbers. -/
theorem insertsortsad_pairs (arr idx : List Int) (len : Nat) (h : arr.length = idx.length) :
    sadPairs (insertsortsad arr idx len) =
        insertLoops Prod.fst ((0 : Int), (0 : Int)) (arr.zip idx) len ∧
      (insertsortsad arr idx len).1.length = arr.length ∧
      (insertsortsad arr idx len).2.length = idx.length := by
  obtain ⟨h1, h2, h3⟩ := foldl_sadPass_pairs (List.range' 1 (len - 1)) (arr, idx) h
  refine ⟨h1, h3, ?_⟩
  unfold insertsortsad
  rw [← h2, h3]
  exact h

/-! ## The sorts are stable -/

variable {α : Type}

theorem placeBehind_filter (key : α → Int) (v : α) (pre : List α) (c : Int)
    (hs : pre.Pairwise (fun a b => key a ≤ key b)) :
    (placeBehind key v pre).filter (fun b => decide (key b = c)) =
      (pre ++ [v]).filter (fun b => decide (key b = c)) := by
  unfold placeBehind
  have hsplit := List.takeWhile_append_dropWhile (fun b => decide (key b ≤ key v)) pre
  have hhead := List.head?_dropWhile_not (fun b => decide (key b ≤ key v)) pre
  generalize pre.takeWhile (fun b => decide (key b ≤ key v)) = p at hsplit
  generalize pre.dropWhile (fun b => decide (key b ≤ key v)) = m at hsplit hhead
  subst hsplit
  obtain ⟨_, hm, _⟩ := List.pairwise_append.1 hs
  have hgt : ∀ b ∈ m, key v < key b := by
    cases m with
    | nil => intro b hb; cases hb
    | cons g m =>
      simp only [List.head?_cons, decide_eq_false_iff_not] at hhead
      intro b hb
      rcases List.mem_cons.1 hb with rfl | hb
      · omega
      · have := (List.pairwise_cons.1 hm).1 b hb
        omega
  by_cases hv : key v = c
  · have hnone : m.filter (fun b => decide (key b = c)) = [] := by
      rw [List.filter_eq_nil_iff]
      intro b hb
      have := hgt b hb
      simp only [decide_eq_true_eq]
      omega
    simp [List.filter_append, List.filter_cons, hv, hnone]
  · simp [List.filter_append, List.filter_cons, hv]

theorem foldl_placeBehind_filter (key : α → Int) (c : Int) : ∀ (l acc : List α),
    acc.Pairwise (fun a b => key a ≤ key b) →
      (l.foldl (fun acc v => placeBehind key v acc) acc).filter (fun b => decide (key b = c)) =
        (acc ++ l).filter (fun b => decide (key b = c))
  | [], acc, _ => by simp
  | v :: l, acc, h => by
    rw [List.foldl_cons, foldl_placeBehind_filter key c l _ (placeBehind_sorted key v acc h),
      List.filter_append, placeBehind_filter key v acc c h, ← List.filter_append,
      List.append_assoc, List.singleton_append]

/-- The entries with one and the same number stand in the sorted list in the
order they had. -/
theorem placeAll_filter (key : α → Int) (l : List α) (c : Int) :
    (placeAll key l).filter (fun b => decide (key b = c)) =
      l.filter (fun b => decide (key b = c)) := by
  have := foldl_placeBehind_filter key c l [] List.Pairwise.nil
  simpa [placeAll] using this

end SadSort

section SadSortWhole

/-- The arrays after `insertsortsad`, as pairs: the first `len` pairs are
the sorted first `len` pairs, the others are as they were; and each array is
one component of the pairs. -/
theorem insertsortsad_spec (arr idx : List Int) (len : Nat) (h : arr.length = idx.length)
    (hlen : len ≤ arr.length) :
    sadPairs (insertsortsad arr idx len) =
        placeAll Prod.fst ((arr.zip idx).take len) ++ (arr.zip idx).drop len ∧
      (insertsortsad arr idx len).1 = (sadPairs (insertsortsad arr idx len)).map Prod.fst ∧
      (insertsortsad arr idx len).2 = (sadPairs (insertsortsad arr idx len)).map Prod.snd := by
  obtain ⟨h1, h2, h3⟩ := insertsortsad_pairs arr idx len h
  refine ⟨?_, ?_, ?_⟩
  · rw [h1, insertLoops_eq]
    rw [List.length_zip, ← h]
    simpa using hlen
  · unfold sadPairs
    rw [List.map_fst_zip]
    omega
  · unfold sadPairs
    rw [List.map_snd_zip]
    omega

theorem take_placeAll_append {α : Type} (key : α → Int) (l : List α) (len : Nat)
    (hlen : len ≤ l.length) :
    (placeAll key (l.take len) ++ l.drop len).take len = placeAll key (l.take len) ∧
      (placeAll key (l.take len) ++ l.drop len).drop len = l.drop len := by
  have hl : (placeAll key (l.take len)).length = len := by
    rw [placeAll_length, List.length_take]
    omega
  constructor
  · rw [List.take_append_eq_append_take, hl, Nat.sub_self, List.take_zero, List.append_nil,
      List.take_of_length_le (by omega)]
  · rw [List.drop_append_eq_append_drop, hl, Nat.sub_self, List.drop_zero,
      List.drop_of_length_le (by omega), List.nil_append]

theorem nearSad_length (c : CalSadInput) : (nearSad c).length = 8 := by
  unfold nearSad nearSadCurrent nearSadLast
  repeat' split
  all_goals rfl

end SadSortWhole

section SadSortTail

theorem shiftUp_tail {α : Type} (d : α) (j : Nat) (t : List α) :
    ∀ (k : Nat) (a : List α), k < a.length →
      shiftUp d (a ++ t) j k = shiftUp d a j k ++ t
  | 0, _, _ => rfl
  | k + 1, a, h => by
    unfold shiftUp
    split
    · rw [List.getD_append _ _ _ _ (by omega), List.set_append_left _ _ h,
        shiftUp_tail d j t k _ (by rw [List.length_set]; omega)]
    · rfl

/-- Function `insertsortsad` looks at the entries below `i` only: what
stands behind them stays. -/
theorem sadStep_append (i j : Nat) (a b t u : List Int) (ha : i < a.length)
    (hb : i < b.length) (hj : j < i) :
    sadStep i (a ++ t, b ++ u) j =
      ((sadStep i (a, b) j).1 ++ t, (sadStep i (a, b) j).2 ++ u) := by
  unfold sadStep
  dsimp only
  rw [List.getD_append _ _ _ _ (by omega : j < a.length),
    List.getD_append _ _ _ _ ha, List.getD_append _ _ _ _ hb]
  split
  · rw [shiftUp_tail 0 j t i a ha, shiftUp_tail 0 j u i b hb,
      List.set_append_left _ _ (by rw [shiftUp_length]; omega),
      List.set_append_left _ _ (by rw [shiftUp_length]; omega)]
  · rfl

theorem foldl_sadStep_append (i : Nat) (t u : List Int) :
    ∀ (js : List Nat) (p : List Int × List Int), (∀ j ∈ js, j < i) →
      p.1.length = p.2.length → i < p.1.length →
      js.foldl (sadStep i) (p.1 ++ t, p.2 ++ u) =
        ((js.foldl (sadStep i) p).1 ++ t, (js.foldl (sadStep i) p).2 ++ u)
  | [], _, _, _, _ => rfl
  | j :: js, p, hjs, h, hi => by
    obtain ⟨_, h2, h3⟩ := sadStep_pairs i j p h
    rw [List.foldl_cons, List.foldl_cons,
      sadStep_append i j p.1 p.2 t u hi (h ▸ hi) (hjs j (List.mem_cons_self _ _))]
    exact foldl_sadStep_append i t u js (sadStep i p j)
      (fun k hk => hjs k (List.mem_cons_of_mem _ hk)) h2 (by rw [h3]; exact hi)

theorem foldl_sadPass_append (t u : List Int) :
    ∀ (is : List Nat) (p : List Int × List Int), (∀ i ∈ is, i < p.1.length) →
      p.1.length = p.2.length →
      is.foldl sadPass (p.1 ++ t, p.2 ++ u) =
        ((is.foldl sadPass p).1 ++ t, (is.foldl sadPass p).2 ++ u)
  | [], _, _, _ => rfl
  | i :: is, p, his, h => by
    obtain ⟨_, h2, h3⟩ := foldl_sadStep_pairs i (List.range i) p h
    have hi := his i (List.mem_cons_self _ _)
    have hstep : sadPass (p.1 ++ t, p.2 ++ u) i =
        ((sadPass p i).1 ++ t, (sadPass p i).2 ++ u) :=
      foldl_sadStep_append i t u (List.range i) p (fun j hj => List.mem_range.1 hj) h hi
    rw [List.foldl_cons, List.foldl_cons, hstep]
    refine foldl_sadPass_append t u is (sadPass p i) ?_ h2
    intro k hk
    have := his k (List.mem_cons_of_mem _ hk)
    unfold sadPass
    rw [h3]
    exact this

/-- The call on two arrays with at least `len` entries sorts their first
`len` entries as the call on these entries alone does, and leaves the
others. -/
theorem insertsortsad_take (arr idx : List Int) (len : Nat) (h1 : len ≤ arr.length)
    (h2 : len ≤ idx.length) :
    insertsortsad arr idx len =
      ((insertsortsad (arr.take len) (idx.take len) len).1 ++ arr.drop len,
       (insertsortsad (arr.take len) (idx.take len) len).2 ++ idx.drop len) := by
  have ha : (arr.take len).length = len := by rw [List.length_take]; omega
  have hb : (idx.take len).length = len := by rw [List.length_take]; omega
  have := foldl_sadPass_append (arr.drop len) (idx.drop len) (List.range' 1 (len - 1))
    (arr.take len, idx.take len)
    (fun i hi => by
      have h3 := List.mem_range'_1.1 hi
      show i < (arr.take len).length
      rw [ha]
      omega)
    (ha.trans hb.symm)
  dsimp only at this
  rw [List.take_append_drop, List.take_append_drop] at this
  exact this

end SadSortTail

/-! ## The RD cost of a candidate is an `int` -/

section SelectorBounds

variable {W : Type}

theorem rdcost_le (ext : Ext W) (x : MACROBLOCK W) (r d : Int) : rdcost ext x r d ≤ INT_MAX :=
  (wrap32_isInt32 _).2

theorem lumaTail_rd (s : PickState W) (v : IterVars) (r : YResult W)
    (uv : MACROBLOCK W → RDResult W) (f : Int → Int) (h : v.this_rd ≤ INT_MAX)
    (s1 : PickState W) (v1 : IterVars) (he : lumaTail s v r uv f = SwitchResult.done s1 v1) :
    v1.this_rd ≤ INT_MAX := by
  unfold lumaTail at he
  simp only at he
  split at he
  · cases he
    exact h
  · cases he
    exact le_refl _

theorem interCosts_rd (cfg : Config) (ext : Ext W) (m : MB_PREDICTION_MODE)
    (s : PickState W) (v : IterVars) (h : v.this_rd ≤ INT_MAX)
    (s1 : PickState W) (v1 : IterVars)
    (he : interCosts cfg ext m s v = SwitchResult.done s1 v1) : v1.this_rd ≤ INT_MAX := by
  unfold interCosts at he
  simp only at he
  cases he
  split <;> exact h

theorem zeroTail_rd (cfg : Config) (ext : Ext W) (m : MB_PREDICTION_MODE)
    (s : PickState W) (v : IterVars) (h : v.this_rd ≤ INT_MAX)
    (s1 : PickState W) (v1 : IterVars)
    (he : zeroTail cfg ext m s v = SwitchResult.done s1 v1) : v1.this_rd ≤ INT_MAX := by
  unfold zeroTail at he
  simp only at he
  split at he
  · cases he
  · split at he
    · refine interCosts_rd cfg ext m _ _ ?_ s1 v1 he
      split <;> exact h
    · split at he
      · split at he
        · cases he
          exact rdcost_le _ _ _ _
        · refine interCosts_rd cfg ext m _ _ ?_ s1 v1 he
          split <;> exact h
      · refine interCosts_rd cfg ext m _ _ ?_ s1 v1 he
        split <;> exact h

theorem nearTail_rd (cfg : Config) (ext : Ext W) (m : MB_PREDICTION_MODE)
    (s : PickState W) (v : IterVars) (h : v.this_rd ≤ INT_MAX)
    (s1 : PickState W) (v1 : IterVars)
    (he : nearTail cfg ext m s v = SwitchResult.done s1 v1) : v1.this_rd ≤ INT_MAX := by
  unfold nearTail at he
  simp only at he
  split at he
  · cases he
  · exact zeroTail_rd cfg ext m _ v h s1 v1 he

theorem dualTail_rd (ext : Ext W) (m : MB_PREDICTION_MODE) (r : MV_REFERENCE_FRAME)
    (s : PickState W) (v : IterVars) (h : v.this_rd ≤ INT_MAX)
    (s1 : PickState W) (v1 : IterVars)
    (he : dualTail ext m r s v = SwitchResult.done s1 v1) : v1.this_rd ≤ INT_MAX := by
  unfold dualTail at he
  simp only at he
  split at he
  · cases he
  · cases he
    exact h

theorem evalDual_rd (ext : Ext W) (m : MB_PREDICTION_MODE)
    (s : PickState W) (v : IterVars) (h : v.this_rd ≤ INT_MAX)
    (s1 : PickState W) (v1 : IterVars)
    (he : evalDual ext m s v = SwitchResult.done s1 v1) : v1.this_rd ≤ INT_MAX := by
  unfold evalDual at he
  split at he
  · cases he
  · refine dualTail_rd ext m _ _ _ ?_ s1 v1 he
    exact h

theorem evalCandidate_rd (cfg : Config) (ext : Ext W) (m : MB_PREDICTION_MODE)
    (s : PickState W) (v : IterVars) (h : v.this_rd ≤ INT_MAX)
    (s1 : PickState W) (v1 : IterVars)
    (he : evalCandidate cfg ext m s v = SwitchResult.done s1 v1) : v1.this_rd ≤ INT_MAX := by
  unfold evalCandidate at he
  split at he
  · exact evalDual_rd ext m s v h s1 v1 he
  · cases m <;> dsimp only at he
    · cases he; exact h
    · cases he; exact h
    · cases he; exact h
    · cases he; exact h
    · unfold evalI8x8 at he
      exact lumaTail_rd _ _ _ _ _ h s1 v1 he
    · unfold evalBPred at he
      exact lumaTail_rd _ _ _ _ _ h s1 v1 he
    · exact nearTail_rd cfg ext _ s v h s1 v1 he
    · exact nearTail_rd cfg ext _ s v h s1 v1 he
    · exact zeroTail_rd cfg ext _ s v h s1 v1 he
    · exact nearTail_rd cfg ext _ _ v h s1 v1 he
    · unfold evalSplit at he
      exact lumaTail_rd _ _ _ _ _ h s1 v1 he

theorem skipCorrection_rd (ext : Ext W) (s : PickState W) (v : IterVars)
    (h : v.this_rd ≤ INT_MAX) : (skipCorrection ext s v).2.this_rd ≤ INT_MAX := by
  unfold skipCorrection
  split
  · exact rdcost_le _ _ _ _
  · exact h

/-- The RD cost a candidate reaches the comparison of line 2894 with is an
`int`. -/
theorem modeBody_rd_le (cfg : Config) (seg : Seg) (ext : Ext W) (i : Nat) (s : PickState W)
    (r : Int) (p c sk : Bool) (he : (modeBody cfg seg ext i s).ev = Event.evaluated r p c sk) :
    r ≤ INT_MAX := by
  unfold modeBody at he
  split at he
  · cases he
  · dsimp only at he
    split at he
    · rename_i ev hev
      have := segmentCheck_not_evaluated _ _ _ _ _ _ _ hev
      dsimp only at he
      rw [he] at this
      cases this
    · split at he
      · cases he
      · rename_i s4 v h4
        have hv := evalCandidate_rd cfg ext _ _ _ (le_refl _) s4 v h4
        unfold finishCandidate at he
        dsimp only at he
        cases he
        exact skipCorrection_rd ext _ _ hv

/-- One iteration keeps `best_rd` an `int` and writes no threshold but the
one of its candidate. -/
theorem modeBody_bounds (cfg : Config) (seg : Seg) (ext : Ext W) (i : Nat) (s : PickState W)
    (hb : s.l.best_rd ≤ INT_MAX) :
    (modeBody cfg seg ext i s).s.l.best_rd ≤ INT_MAX ∧
      (∀ k, k ≠ i →
        (modeBody cfg seg ext i s).s.cpi.rd_threshes k = s.cpi.rd_threshes k) ∧
      (modeBody cfg seg ext i s).s.cpi.rd_baseline_thresh = s.cpi.rd_baseline_thresh ∧
      ((modeBody cfg seg ext i s).ev.isEvaluated = false →
        (modeBody cfg seg ext i s).s.kept = s.kept) := by
  rcases modeBody_spec cfg seg ext i s with ⟨h1, _, h3⟩ | ⟨r, p, c, sk, h1, _, h3⟩
  · have e1 : (modeBody cfg seg ext i s).s.l.best_rd = s.l.best_rd :=
      congrArg Kept.best_rd h3
    have e2 : (modeBody cfg seg ext i s).s.cpi.rd_threshes = s.cpi.rd_threshes :=
      congrArg Kept.rd_threshes h3
    have e3 : (modeBody cfg seg ext i s).s.cpi.rd_baseline_thresh = s.cpi.rd_baseline_thresh :=
      congrArg Kept.rd_baseline_thresh h3
    exact ⟨by rw [e1]; exact hb, fun k _ => by rw [e2], e3, fun _ => h3⟩
  · have hr := modeBody_rd_le cfg seg ext i s r p c sk h1
    have e1 : (modeBody cfg seg ext i s).s.l.best_rd = if c = true then r else s.l.best_rd :=
      h3.best_rd
    have e2 : (modeBody cfg seg ext i s).s.cpi.rd_threshes =
        Function.update s.cpi.rd_threshes i _ := h3.threshes
    refine ⟨?_, ?_, h3.baseline, ?_⟩
    · rw [e1]
      split
      · exact hr
      · exact hb
    · intro k hk
      rw [e2, Function.update_noteq hk]
    · intro hne
      rw [h1] at hne
      cases hne

/-- A candidate whose threshold is not below `best_rd` is passed over, and
the iteration changes nothing. -/
theorem modeBody_threshold (cfg : Config) (seg : Seg) (ext : Ext W) (i : Nat)
    (s : PickState W) (h : s.l.best_rd ≤ s.cpi.rd_threshes i) :
    modeBody cfg seg ext i s = { s := s, ev := Event.thresholdSkip, brk := false } := by
  unfold modeBody
  rw [if_pos h]

/-- A threshold of `INT_MAX` keeps its candidate out of every iteration of
the loop, and the loop leaves it as it is. -/
theorem modeLoop_disabled (cfg : Config) (seg : Seg) (ext : Ext W) (k : Nat) :
    ∀ (is : List Nat) (s : PickState W), s.l.best_rd ≤ INT_MAX →
      s.cpi.rd_threshes k = INT_MAX →
      (∀ ev, (k, ev) ∈ modeTrace cfg seg ext is s → ev = Event.thresholdSkip) ∧
        (modeLoop cfg seg ext is s).cpi.rd_threshes k = INT_MAX ∧
        (modeLoop cfg seg ext is s).cpi.rd_baseline_thresh = s.cpi.rd_baseline_thresh ∧
        (modeLoop cfg seg ext is s).l.best_rd ≤ INT_MAX ∧
        ((modeLoop cfg seg ext is s).l.best_mode_index = k →
          s.l.best_mode_index = k)
  | [], s, hb, hk => ⟨fun ev h => by simp [modeTrace] at h, hk, rfl, hb, fun h => h⟩
  | i :: is, s, hb, hk => by
    obtain ⟨b1, b2, b3, b4⟩ := modeBody_bounds cfg seg ext i s hb
    have hk1 : (modeBody cfg seg ext i s).s.cpi.rd_threshes k = INT_MAX := by
      by_cases hik : k = i
      · subst hik
        rw [modeBody_threshold cfg seg ext k s (by rw [hk]; exact hb)]
        exact hk
      · rw [b2 k hik]
        exact hk
    have hidx : (modeBody cfg seg ext i s).s.l.best_mode_index = k →
        s.l.best_mode_index = k := by
      intro h
      rcases modeBody_spec cfg seg ext i s with ⟨_, _, h3⟩ | ⟨r, p, c, sk, h1, _, h3⟩
      · have : (modeBody cfg seg ext i s).s.l.best_mode_index = s.l.best_mode_index :=
          congrArg Kept.best_mode_index h3
        rw [← this]
        exact h
      · have e := h3.best_mode_index
        have e' : (modeBody cfg seg ext i s).s.l.best_mode_index =
            if c = true then i else s.l.best_mode_index := e
        by_cases hc : c = true
        · rw [if_pos hc] at e'
          have hik : i = k := by rw [← e']; exact h
          subst hik
          rw [modeBody_threshold cfg seg ext i s (by rw [hk]; exact hb)] at h1
          cases h1
        · rw [if_neg hc] at e'
          rw [← e']
          exact h
    obtain ⟨ih1, ih2, ih3, ih4, ih5⟩ :=
      modeLoop_disabled cfg seg ext k is (modeBody cfg seg ext i s).s b1 hk1
    rw [modeTrace_cons, modeLoop_cons]
    refine ⟨?_, ?_, ?_, ?_, ?_⟩
    · intro ev hev
      rcases List.mem_cons.1 hev with h | h
      · cases h
        rw [modeBody_threshold cfg seg ext k s (by rw [hk]; exact hb)]
      · split at h
        · cases h
        · exact ih1 ev h
    · split
      · exact hk1
      · exact ih2
    · split
      · exact b3
      · exact ih3.trans b3
    · split
      · exact b1
      · exact ih4
    · split
      · exact hidx
      · exact fun h => hidx (ih5 h)

theorem pickInit_threshes (cfg : Config) (ext : Ext W) (cpi : VP8_COMP) (x : MACROBLOCK W)
    (l0 : Locals) :
    (pickInit cfg ext cpi x l0).cpi.rd_threshes = cpi.rd_threshes ∧
      (pickInit cfg ext cpi x l0).cpi.rd_baseline_thresh = cpi.rd_baseline_thresh :=
  ⟨rfl, rfl⟩

/-- A threshold of `INT_MAX` with a baseline of `INT_MAX` is still there
after the extra reduction of lines 3001-3008. -/
theorem reduceBest_disabled (cfg : Config) (cpi : VP8_COMP) (b k : Nat)
    (hk : cpi.rd_threshes k = INT_MAX) (hbase : cpi.rd_baseline_thresh k = INT_MAX) :
    (reduceBest cfg cpi b).rd_threshes k = INT_MAX := by
  unfold reduceBest
  split
  · rename_i h
    by_cases hbk : b = k
    · subst hbk
      rw [hbase] at h
      unfold INT_MAX sar at h
      omega
    · unfold setMult
      dsimp only
      rw [Function.update_noteq (Ne.symm hbk)]
      exact hk
  · exact hk

theorem initThresh_disabled (one : Bool) (q : Int) : initThresh one INT_MAX q = INT_MAX := by
  unfold initThresh
  split
  · rw [if_neg (lt_irrefl _)]
  · rw [if_neg]
    have := (wrap32_isInt32 (Int.tdiv INT_MAX q)).2
    unfold idiv
    omega

/-- A candidate with the multiplier `INT_MAX` gets the threshold and the
baseline `INT_MAX` from `vp8_initialize_rd_consts`. -/
theorem initialize_disabled (cfg : Config) (dcq : Int → Int → Int) (fp : FloatOps)
    (inp : RdConstsInput) (QIndex : Int) (i : Nat) (hi : inp.thresh_mult i = INT_MAX) :
    (vp8_initialize_rd_consts cfg dcq fp inp QIndex).rd_threshes i = INT_MAX ∧
      (vp8_initialize_rd_consts cfg dcq fp inp QIndex).rd_baseline_thresh i = INT_MAX := by
  unfold vp8_initialize_rd_consts
  dsimp only
  repeat' split
  all_goals
    dsimp only
    rw [hi]
    exact ⟨initThresh_disabled _ _, initThresh_disabled _ _⟩

end SelectorBounds

/-! ## The zero-residual skip correction -/

section SkipCorrection

variable {W : Type}

theorem foldl_iadd_zero (f : Nat → Int) : ∀ (l : List Nat), (∀ j ∈ l, f j = 0) →
    l.foldl (fun acc i => iadd acc (f i)) 0 = 0
  | [], _ => rfl
  | j :: l, h => by
    rw [List.foldl_cons, h j (List.mem_cons_self _ _)]
    have : iadd 0 0 = 0 := by decide
    rw [this]
    exact foldl_iadd_zero f l (fun k hk => h k (List.mem_cons_of_mem _ hk))

theorem tteob_zero (ext : Ext W) (x : MACROBLOCK W) (h : ∀ j, j < 25 → ext.block_eob x j = 0) :
    tteob ext x = 0 := by
  unfold tteob
  exact foldl_iadd_zero _ _ (fun j hj => h j (List.mem_range.1 hj))

/-- What lines 2804-2865 make of the rate of a candidate without
coefficients when skipping is allowed. -/
theorem skipCorrection_rate (cfg : Config) (ext : Ext W) (s : PickState W) (v : IterVars)
    (hskip : s.cpi.mb_no_coeff_skip = true) (hdis : v.disable_skip = false)
    (heob : ∀ j, j < 25 → ext.block_eob s.x j = 0) :
    (skipCorrection ext (addSignalling cfg ext s v).1 (addSignalling cfg ext s v).2).1.l.rate2 =
        skipRate cfg ext s v ∧
      (skipCorrection ext (addSignalling cfg ext s v).1 (addSignalling cfg ext s v).2).1.l.rate_uv
        = 0 ∧
      (skipCorrection ext (addSignalling cfg ext s v).1 (addSignalling cfg ext s v).2).2.this_rd =
        rdcost ext s.x (skipRate cfg ext s v) s.l.distortion2 := by
  have ht : tteob ext s.x = 0 := tteob_zero ext s.x heob
  unfold skipCorrection addSignalling skipRate refCost
  simp only [hskip, hdis, ht, if_true]
  by_cases hp : s.cpi.prob_skip_false = 0
  · simp only [hp, ne_eq, not_true_eq_false, if_false]
    have hw : ∀ a d r y u c : Int,
        isub (iadd (if cfg.CONFIG_DUALPRED = true ∧ s.cpi.dual_pred_mode = HYBRID_PREDICTION
          then iadd (iadd a c) d else iadd a c) r) (iadd y u) =
        wrap32 (a + (if cfg.CONFIG_DUALPRED = true ∧ s.cpi.dual_pred_mode = HYBRID_PREDICTION
          then d else 0) + r - (y + u) + c) := by
      intro a d r y u c
      unfold isub iadd wrap32
      split <;> omega
    rw [hw]
    simp
  · simp only [hp, ne_eq, not_false_eq_true, if_true]
    have hw : ∀ a d r y u c e : Int,
        iadd (isub (iadd (if cfg.CONFIG_DUALPRED = true ∧
            s.cpi.dual_pred_mode = HYBRID_PREDICTION
          then iadd (iadd a c) d else iadd a c) r) (iadd y u)) (isub e c) =
        wrap32 (a + (if cfg.CONFIG_DUALPRED = true ∧ s.cpi.dual_pred_mode = HYBRID_PREDICTION
          then d else 0) + r - (y + u) + e) := by
      intro a d r y u c e
      unfold isub iadd wrap32
      split <;> omega
    rw [hw]
    simp

theorem commitBest_rate (cfg : Config) (ext : Ext W) (i : Nat) (m : MB_PREDICTION_MODE)
    (s : PickState W) (v : IterVars) :
    (commitBest cfg ext i m s v).l.rate2 = s.l.rate2 ∧
      (commitBest cfg ext i m s v).l.rate_uv = s.l.rate_uv := ⟨rfl, rfl⟩

theorem commitOrAdapt_rate (cfg : Config) (ext : Ext W) (i : Nat) (m : MB_PREDICTION_MODE)
    (s : PickState W) (v : IterVars) :
    (commitOrAdapt cfg ext i m s v).l.rate2 = s.l.rate2 ∧
      (commitOrAdapt cfg ext i m s v).l.rate_uv = s.l.rate_uv := by
  unfold commitOrAdapt
  split
  · dsimp only
    split
    · exact commitBest_rate cfg ext i m s v
    · exact ⟨rfl, rfl⟩
  · exact ⟨rfl, rfl⟩

theorem finishCandidate_rate (cfg : Config) (ext : Ext W) (i : Nat) (m : MB_PREDICTION_MODE)
    (s : PickState W) (v : IterVars) :
    (finishCandidate cfg ext i m s v).s.l.rate2 =
        (skipCorrection ext (addSignalling cfg ext s v).1
          (addSignalling cfg ext s v).2).1.l.rate2 ∧
      (finishCandidate cfg ext i m s v).s.l.rate_uv =
        (skipCorrection ext (addSignalling cfg ext s v).1
          (addSignalling cfg ext s v).2).1.l.rate_uv := by
  unfold finishCandidate
  dsimp only
  generalize skipCorrection ext (addSignalling cfg ext s v).1 (addSignalling cfg ext s v).2 = b
  have h1 : (recordDualA cfg m (recordIntra b.1 b.2) b.2).l.rate2 = b.1.l.rate2 ∧
      (recordDualA cfg m (recordIntra b.1 b.2) b.2).l.rate_uv = b.1.l.rate_uv := by
    unfold recordDualA recordIntra
    split <;> split <;> exact ⟨rfl, rfl⟩
  have h2 := commitOrAdapt_rate cfg ext i m (recordDualA cfg m (recordIntra b.1 b.2) b.2) b.2
  have h3 : ∀ t : PickState W, (recordDualB cfg ext m t b.2).l.rate2 = t.l.rate2 ∧
      (recordDualB cfg ext m t b.2).l.rate_uv = t.l.rate_uv := by
    intro t
    unfold recordDualB
    split <;> exact ⟨rfl, rfl⟩
  exact ⟨(h3 _).1.trans (h2.1.trans h1.1), (h3 _).2.trans (h2.2.trans h1.2)⟩

end SkipCorrection

/-! ## The encode breakout of a static macroblock -/

section StaticBreakout

variable {W : Type}

/-- With a prediction that equals the source (`sse` and variance 0, chroma
`sse` 0), a positive `encode_breakout` and a second-order DC step of at
least 4, the test of lines 2641-2682 fires. -/
theorem encodeBreakout_static (ext : Ext W) (x : MACROBLOCK W)
    (hb : 0 < x.encode_breakout ∧ x.encode_breakout ≤ INT_MAX)
    (hs : ext.var16x16 x = (0, 0) ∧ ext.VP8_UVSSE x = 0)
    (hq : 4 ≤ ext.dequant_y2_dc x ∧ ext.dequant_y2_dc x ≤ 32767) :
    encodeBreakout ext x = some (0, 0) := by
  unfold encodeBreakout
  simp only [hs.1, hs.2]
  have h0 : uwrap32 0 = 0 := by decide
  have hi : imul 0 2 = 0 := by decide
  rw [h0, hi]
  generalize ht : sar (imul (ext.dequant_y_ac x) (ext.dequant_y_ac x)) 4 = t
  have htr : INT_MIN ≤ t ∧ t ≤ INT_MAX := by
    rw [← ht]
    exact sar_isInt32 4 (wrap32_isInt32 _)
  have hthr : 0 < (if t < x.encode_breakout then x.encode_breakout else t) ∧
      (if t < x.encode_breakout then x.encode_breakout else t) ≤ INT_MAX := by
    unfold INT_MAX at *
    split <;> omega
  generalize (if t < x.encode_breakout then x.encode_breakout else t) = thr at hthr
  have hu : 0 < uwrap32 thr := by
    unfold uwrap32
    unfold INT_MAX at hthr
    omega
  have hq2 : uwrap32 (ext.dequant_y2_dc x) = ext.dequant_y2_dc x := by
    unfold uwrap32
    omega
  have hq3 : 16 ≤ ext.dequant_y2_dc x * ext.dequant_y2_dc x ∧
      ext.dequant_y2_dc x * ext.dequant_y2_dc x < 4294967296 := by
    constructor <;> nlinarith [hq.1, hq.2]
  have hq4 : 0 < uwrap32 (uwrap32 (ext.dequant_y2_dc x) * uwrap32 (ext.dequant_y2_dc x)) / 16 := by
    rw [hq2]
    unfold uwrap32
    omega
  have hsub : uwrap32 (0 - 0) = 0 := by decide
  rw [if_pos hu, hsub, if_pos (Or.inl hq4), if_pos hthr.1]

/-- Candidate 0 is not dropped by the alt-ref overlay rule, so the forcing of
lines 3034-3038 does not apply either. -/
theorem segmentCheck_zeroLast (cfg : Config) (seg : Seg) (cpi : VP8_COMP) (sid : Nat)
    (h : segmentCheck cfg seg cpi sid ZEROMV LAST_FRAME = none) :
    ¬ (seg.segfeature_active sid SEG_LVL_REF_FRAME = false ∧
        seg.segfeature_active sid SEG_LVL_MODE = false ∧
        cpi.is_src_frame_alt_ref = true ∧ cpi.arnr_max_frames = 0) := by
  intro ⟨h1, h2, h3, h4⟩
  unfold segmentCheck at h
  simp [h1, h2, h3, h4] at h

end StaticBreakout

section StaticCandidate

variable {W : Type}

theorem mode_order_zero (cfg : Config) :
    (vp8_mode_order cfg).getD 0 DC_PRED = ZEROMV ∧
      (vp8_ref_frame_order cfg).getD 0 INTRA_FRAME = LAST_FRAME ∧
      vp8_second_ref_frame_order.getD 0 INTRA_FRAME = INTRA_FRAME := by
  unfold vp8_mode_order vp8_ref_frame_order
  refine ⟨?_, ?_, rfl⟩
  · split <;> rfl
  · split <;> rfl

/-- The ZEROMV candidate of a static macroblock leaves the `switch` by the
`break` of line 2676: `x->skip` is set, the rate is 500, and the RD cost is
that of the rate 500 and the distortion 0. -/
theorem zeroTail_breakout (cfg : Config) (ext : Ext W) (s : PickState W) (v : IterVars)
    (hmv : s.l.mode_mv ZEROMV = zero_mv)
    (hwin : ¬ outsideWindow s.x zero_mv)
    (hact : ¬ (s.cpi.active_map_enabled = true ∧
      ext.active_ptr0 (ext.vp8_build_inter16x16_predictors_mby
        (vp8_set_mbmode_and_mvs s.x ZEROMV zero_mv)) = 0))
    (hb : 0 < (ext.vp8_build_inter16x16_predictors_mby
          (vp8_set_mbmode_and_mvs s.x ZEROMV zero_mv)).encode_breakout ∧
        (ext.vp8_build_inter16x16_predictors_mby
          (vp8_set_mbmode_and_mvs s.x ZEROMV zero_mv)).encode_breakout ≤ INT_MAX)
    (hs : ext.var16x16 (ext.vp8_build_inter16x16_predictors_mby
          (vp8_set_mbmode_and_mvs s.x ZEROMV zero_mv)) = (0, 0) ∧
        ext.VP8_UVSSE (ext.vp8_build_inter16x16_predictors_mby
          (vp8_set_mbmode_and_mvs s.x ZEROMV zero_mv)) = 0)
    (hq : 4 ≤ ext.dequant_y2_dc (ext.vp8_build_inter16x16_predictors_mby
          (vp8_set_mbmode_and_mvs s.x ZEROMV zero_mv)) ∧
        ext.dequant_y2_dc (ext.vp8_build_inter16x16_predictors_mby
          (vp8_set_mbmode_and_mvs s.x ZEROMV zero_mv)) ≤ 32767) :
    ∃ v1, zeroTail cfg ext ZEROMV s v =
        SwitchResult.done
          { cpi := s.cpi
            x := { (ext.vp8_build_inter16x16_predictors_mby
              (vp8_set_mbmode_and_mvs s.x ZEROMV zero_mv)) with skip := true }
            l := { s.l with distortion2 := 0, rate2 := 500, rate_uv := 0, distortion_uv := 0 } }
          v1 ∧
      v1.disable_skip = true ∧
      v1.this_rd = rdcost ext (ext.vp8_build_inter16x16_predictors_mby
        (vp8_set_mbmode_and_mvs s.x ZEROMV zero_mv)) 500 0 ∧
      v1.mode_excluded = v.mode_excluded ∧ v1.other_cost = v.other_cost ∧
      v1.dualmode_cost = (if cfg.CONFIG_DUALPRED = true then
        ext.dualpred_flag_cost (ext.vp8_build_inter16x16_predictors_mby
          (vp8_set_mbmode_and_mvs s.x ZEROMV zero_mv)) 0 else v.dualmode_cost) := by
  have hbrk := encodeBreakout_static ext _ hb hs hq
  have hne : (ext.vp8_build_inter16x16_predictors_mby
      (vp8_set_mbmode_and_mvs s.x ZEROMV zero_mv)).encode_breakout ≠ 0 := by omega
  have hw : wrap32 (0 + 0) = 0 := by decide
  unfold outsideWindow at hwin
  unfold zeroTail
  simp only [hmv]
  rw [if_neg hwin, if_neg hact, if_pos hne, hbrk]
  dsimp only
  rw [hw]
  refine ⟨_, rfl, rfl, rfl, ?_, ?_, ?_⟩
  · dsimp only
    split <;> rfl
  · dsimp only
    split <;> rfl
  · dsimp only
    split <;> rfl

/-- The same, with the state named: the state the ZEROMV candidate of a
static macroblock leaves the `switch` with. -/
theorem zeroTail_static (cfg : Config) (ext : Ext W) (s : PickState W) (v : IterVars)
    (hmv : s.l.mode_mv ZEROMV = zero_mv)
    (hwin : ¬ outsideWindow s.x zero_mv)
    (hact : ¬ (s.cpi.active_map_enabled = true ∧
      ext.active_ptr0 (ext.vp8_build_inter16x16_predictors_mby
        (vp8_set_mbmode_and_mvs s.x ZEROMV zero_mv)) = 0))
    (hb : 0 < (ext.vp8_build_inter16x16_predictors_mby
          (vp8_set_mbmode_and_mvs s.x ZEROMV zero_mv)).encode_breakout ∧
        (ext.vp8_build_inter16x16_predictors_mby
          (vp8_set_mbmode_and_mvs s.x ZEROMV zero_mv)).encode_breakout ≤ INT_MAX)
    (hs : ext.var16x16 (ext.vp8_build_inter16x16_predictors_mby
          (vp8_set_mbmode_and_mvs s.x ZEROMV zero_mv)) = (0, 0) ∧
        ext.VP8_UVSSE (ext.vp8_build_inter16x16_predictors_mby
          (vp8_set_mbmode_and_mvs s.x ZEROMV zero_mv)) = 0)
    (hq : 4 ≤ ext.dequant_y2_dc (ext.vp8_build_inter16x16_predictors_mby
          (vp8_set_mbmode_and_mvs s.x ZEROMV zero_mv)) ∧
        ext.dequant_y2_dc (ext.vp8_build_inter16x16_predictors_mby
          (vp8_set_mbmode_and_mvs s.x ZEROMV zero_mv)) ≤ 32767) :
    ∃ s1 v1, zeroTail cfg ext ZEROMV s v = SwitchResult.done s1 v1 ∧
      s1.x.skip = true ∧
      s1.x.mbmi = (ext.vp8_build_inter16x16_predictors_mby
        (vp8_set_mbmode_and_mvs s.x ZEROMV zero_mv)).mbmi ∧
      s1.cpi = s.cpi ∧ s1.l.segment_id = s.l.segment_id ∧
      s1.l.distortion2 = 0 ∧ s1.l.rate_uv = 0 ∧
      v1.disable_skip = true ∧ v1.mode_excluded = v.mode_excluded ∧
      v1.this_rd = rdcost ext (ext.vp8_build_inter16x16_predictors_mby
        (vp8_set_mbmode_and_mvs s.x ZEROMV zero_mv)) 500 0 := by
  obtain ⟨v1, hz, z1, z2, z3, _, _⟩ := zeroTail_breakout cfg ext s v hmv hwin hact hb hs hq
  exact ⟨_, v1, hz, rfl, rfl, rfl, rfl, rfl, rfl, z1, z3, z2⟩

/-- What lines 2804-2997 do with a candidate above `B_PRED` that comes with
`x->skip` and `disable_skip` set and is not excluded: it is recorded as the
best one and the loop ends. -/
theorem finishCandidate_skip (cfg : Config) (ext : Ext W) (i : Nat) (m : MB_PREDICTION_MODE)
    (s : PickState W) (v : IterVars) (hm : ¬ m.toInt ≤ B_PRED.toInt)
    (hsk : s.x.skip = true) (hdis : v.disable_skip = true) (hex : v.mode_excluded = false) :
    (finishCandidate cfg ext i m s v).brk = true ∧
      (finishCandidate cfg ext i m s v).ev = Event.evaluated v.this_rd true true true ∧
      (finishCandidate cfg ext i m s v).s.x = s.x ∧
      (finishCandidate cfg ext i m s v).s.l.best_mbmode = s.x.mbmi ∧
      (finishCandidate cfg ext i m s v).s.l.best_mode_index = i ∧
      (finishCandidate cfg ext i m s v).s.l.best_rd = v.this_rd ∧
      (finishCandidate cfg ext i m s v).s.l.returnrate = (addSignalling cfg ext s v).1.l.rate2 ∧
      (finishCandidate cfg ext i m s v).s.l.returndistortion = s.l.distortion2 ∧
      (finishCandidate cfg ext i m s v).s.l.rate_uv = s.l.rate_uv ∧
      (finishCandidate cfg ext i m s v).s.l.segment_id = s.l.segment_id ∧
      (finishCandidate cfg ext i m s v).s.cpi.is_src_frame_alt_ref = s.cpi.is_src_frame_alt_ref ∧
      (finishCandidate cfg ext i m s v).s.cpi.arnr_max_frames = s.cpi.arnr_max_frames := by
  have ha : (addSignalling cfg ext s v).2.disable_skip = true ∧
      (addSignalling cfg ext s v).2.mode_excluded = false ∧
      (addSignalling cfg ext s v).2.this_rd = v.this_rd ∧
      (addSignalling cfg ext s v).1.x = s.x ∧
      (addSignalling cfg ext s v).1.cpi = s.cpi ∧
      (addSignalling cfg ext s v).1.l.distortion2 = s.l.distortion2 ∧
      (addSignalling cfg ext s v).1.l.rate_uv = s.l.rate_uv ∧
      (addSignalling cfg ext s v).1.l.segment_id = s.l.segment_id :=
    ⟨hdis, hex, rfl, rfl, rfl, rfl, rfl, rfl⟩
  unfold finishCandidate
  dsimp only
  generalize addSignalling cfg ext s v = a at ha ⊢
  obtain ⟨a1, a2, a3, a4, a5, a6, a7, a8⟩ := ha
  have hb : skipCorrection ext a.1 a.2 = (a.1, a.2) := by
    unfold skipCorrection
    rw [if_neg (by rw [a1]; decide)]
  rw [hb]
  dsimp only
  have hr : ∀ t : PickState W, recordDualA cfg m t a.2 = t := by
    intro t
    unfold recordDualA
    rw [if_neg]
    rw [a1]
    simp
  rw [hr]
  have hB : ∀ t : PickState W, recordDualB cfg ext m t a.2 = t := by
    intro t
    unfold recordDualB
    rw [if_neg]
    rw [a1]
    simp
  rw [hB]
  have hI : (recordIntra a.1 a.2).x = a.1.x ∧ (recordIntra a.1 a.2).cpi = a.1.cpi ∧
      (recordIntra a.1 a.2).l.rate2 = a.1.l.rate2 ∧
      (recordIntra a.1 a.2).l.distortion2 = a.1.l.distortion2 ∧
      (recordIntra a.1 a.2).l.rate_uv = a.1.l.rate_uv ∧
      (recordIntra a.1 a.2).l.segment_id = a.1.l.segment_id := by
    unfold recordIntra
    split <;> exact ⟨rfl, rfl, rfl, rfl, rfl, rfl⟩
  generalize recordIntra a.1 a.2 = t at hI ⊢
  obtain ⟨i1, i2, i3, i4, i5, i6⟩ := hI
  have hp : passesTest t a.2 = true := by
    unfold passesTest
    rw [i1, a4, hsk]
    simp
  have hc : mayCommit cfg a.2 = true := by
    unfold mayCommit
    rw [a2]
    simp
  have hx1 : (commitBest cfg ext i m t a.2).x = t.x := by
    unfold commitBest
    dsimp only
    rw [if_neg hm]
  unfold commitOrAdapt
  rw [if_pos hp, if_pos hc, hp, hc]
  dsimp only
  refine ⟨?_, ?_, ?_, ?_, rfl, ?_, ?_, ?_, ?_, ?_, ?_, ?_⟩
  · rw [hx1, i1, a4]
    exact hsk
  · rw [a3, i1, a4, hsk]
    rfl
  · rw [hx1, i1, a4]
  · unfold commitBest
    dsimp only
    rw [if_neg hm, i1, a4]
  · unfold commitBest
    dsimp only
    exact a3
  · unfold commitBest
    dsimp only
    exact i3
  · unfold commitBest
    dsimp only
    rw [i4, a6]
  · unfold commitBest
    dsimp only
    rw [i5, a7]
  · unfold commitBest
    dsimp only
    rw [i6, a8]
  · unfold commitBest setMult
    dsimp only
    rw [i2, a5]
  · unfold commitBest setMult
    dsimp only
    rw [i2, a5]

end StaticCandidate

section StaticCall

variable {W : Type}

/-- An iteration whose candidate passes the checks of lines 2252-2313 and
leaves the `switch` without `continue` is what lines 2804-2997 make of the
state the `switch` was left with. -/
theorem modeBody_evaluated (cfg : Config) (seg : Seg) (ext : Ext W) (i : Nat)
    (s s4 : PickState W) (v : IterVars)
    (hthr : ¬ s.l.best_rd ≤ s.cpi.rd_threshes i)
    (hseg : segmentCheck cfg seg (loadCandidate cfg i s).cpi (loadCandidate cfg i s).l.segment_id
      ((vp8_mode_order cfg).getD i DC_PRED) (loadCandidate cfg i s).x.mbmi.ref_frame = none)
    (hev : evalCandidate cfg ext ((vp8_mode_order cfg).getD i DC_PRED)
      (zbinBoost cfg ext i (setupInter (loadCandidate cfg i s))) IterVars.init =
        SwitchResult.done s4 v) :
    modeBody cfg seg ext i s =
      finishCandidate cfg ext i ((vp8_mode_order cfg).getD i DC_PRED) s4 v := by
  unfold modeBody
  rw [if_neg hthr]
  dsimp only
  rw [hseg]
  dsimp only
  rw [hev]

theorem loadCandidate_zero (cfg : Config) (s : PickState W) :
    (loadCandidate cfg 0 s).x.mbmi.ref_frame = LAST_FRAME ∧
      (loadCandidate cfg 0 s).cpi = s.cpi ∧
      (loadCandidate cfg 0 s).l.segment_id = s.l.segment_id ∧
      (loadCandidate cfg 0 s).l.mode_mv = s.l.mode_mv := by
  unfold loadCandidate
  dsimp only
  refine ⟨?_, rfl, rfl, rfl⟩
  split
  · exact (mode_order_zero cfg).2.1
  · exact (mode_order_zero cfg).2.1

theorem zbinBoost_frame (cfg : Config) (ext : Ext W) (i : Nat) (s : PickState W) :
    (zbinBoost cfg ext i s).l = s.l ∧
      (zbinBoost cfg ext i s).cpi.active_map_enabled = s.cpi.active_map_enabled := by
  unfold zbinBoost
  split <;> exact ⟨rfl, rfl⟩

theorem zeroLastEntry_frame (cfg : Config) (ext : Ext W) (cpi : VP8_COMP) (x : MACROBLOCK W)
    (l0 : Locals) :
    (zeroLastEntry cfg ext cpi x l0).l.mode_mv ZEROMV = zero_mv ∧
      (zeroLastEntry cfg ext cpi x l0).cpi.active_map_enabled = cpi.active_map_enabled := by
  unfold zeroLastEntry
  obtain ⟨z1, z2⟩ := zbinBoost_frame cfg ext 0 (setupInter (loadCandidate cfg 0
    (pickInit cfg ext cpi x l0)))
  rw [z1, z2]
  obtain ⟨c1, _, _, c4⟩ := loadCandidate_zero cfg (pickInit cfg ext cpi x l0)
  unfold setupInter
  dsimp only
  rw [c1, if_pos (by decide)]
  dsimp only
  rw [c4]
  refine ⟨?_, rfl⟩
  rw [Function.update_noteq (by decide), Function.update_noteq (by decide)]
  rfl

theorem setupInter_cpi (s : PickState W) : (setupInter s).cpi = s.cpi := by
  unfold setupInter
  dsimp only
  split <;> rfl

theorem zeroLastEntry_cpi (cfg : Config) (ext : Ext W) (cpi : VP8_COMP) (x : MACROBLOCK W)
    (l0 : Locals) :
    (zeroLastEntry cfg ext cpi x l0).cpi.is_src_frame_alt_ref = cpi.is_src_frame_alt_ref ∧
      (zeroLastEntry cfg ext cpi x l0).cpi.arnr_max_frames = cpi.arnr_max_frames := by
  have h : ∀ s : PickState W,
      (zbinBoost cfg ext 0 s).cpi.is_src_frame_alt_ref = s.cpi.is_src_frame_alt_ref ∧
        (zbinBoost cfg ext 0 s).cpi.arnr_max_frames = s.cpi.arnr_max_frames := by
    intro s
    unfold zbinBoost
    split <;> exact ⟨rfl, rfl⟩
  unfold zeroLastEntry
  rw [(h _).1, (h _).2, setupInter_cpi]
  exact ⟨rfl, rfl⟩

theorem zeroLastEntry_segment (cfg : Config) (ext : Ext W) (cpi : VP8_COMP) (x : MACROBLOCK W)
    (l0 : Locals) : (zeroLastEntry cfg ext cpi x l0).l.segment_id = x.mbmi.segment_id := by
  unfold zeroLastEntry
  rw [(zbinBoost_frame cfg ext 0 _).1]
  have h : ∀ s : PickState W, (setupInter s).l.segment_id = s.l.segment_id := by
    intro s
    unfold setupInter
    dsimp only
    split <;> rfl
  rw [h, (loadCandidate_zero cfg _).2.2.1]
  exact (pickInit_best cfg ext cpi x l0).2.2.2.1

theorem segmentCheck_cpi (cfg : Config) (seg : Seg) (cpi1 cpi2 : VP8_COMP) (sid : Nat)
    (m : MB_PREDICTION_MODE) (rf : MV_REFERENCE_FRAME)
    (h1 : cpi1.is_src_frame_alt_ref = cpi2.is_src_frame_alt_ref)
    (h2 : cpi1.arnr_max_frames = cpi2.arnr_max_frames) :
    segmentCheck cfg seg cpi1 sid m rf = segmentCheck cfg seg cpi2 sid m rf := by
  unfold segmentCheck
  rw [h1, h2]

theorem range_max_modes (cfg : Config) : ∃ t, List.range (MAX_MODES cfg) = 0 :: t := by
  unfold MAX_MODES vp8_mode_order
  split
  · exact ⟨_, rfl⟩
  · exact ⟨_, rfl⟩

theorem afterLoop_frame (cfg : Config) (s : PickState W) :
    (afterLoop cfg s).x = s.x ∧ (afterLoop cfg s).l = s.l ∧
      (afterLoop cfg s).cpi.is_src_frame_alt_ref = s.cpi.is_src_frame_alt_ref ∧
      (afterLoop cfg s).cpi.arnr_max_frames = s.cpi.arnr_max_frames := by
  unfold afterLoop reduceBest setMult
  dsimp only
  refine ⟨rfl, rfl, ?_, ?_⟩
  · split <;> rfl
  · split <;> rfl

/-- Without the alt-ref forcing, a best mode that is a whole-block inter mode
is written into the mode info as it is, and `x->skip` stays. -/
theorem finishPick_inter (cfg : Config) (seg : Seg) (s : PickState W)
    (hf : ¬ forcesAltRef seg s) (hm : s.l.best_mbmode.mode = ZEROMV) :
    (finishPick cfg seg s).x.mbmi = s.l.best_mbmode ∧
      (finishPick cfg seg s).x.skip = s.x.skip ∧
      (finishPick cfg seg s).l.best_rd = s.l.best_rd ∧
      (finishPick cfg seg s).l.rate_uv = s.l.rate_uv ∧
      (finishPick cfg seg s).l.returndistortion = s.l.returndistortion := by
  unfold finishPick
  rw [if_neg hf]
  dsimp only
  unfold commitModeInfo
  dsimp only
  rw [hm]
  simp only [reduceCtorEq, if_false]
  refine ⟨trivial, trivial, ?_, ?_, ?_⟩ <;> split <;> rfl

end StaticCall

/-! ## Candidates other than SPLITMV do not look at the thresholds of SPLITMV -/

section WithoutSplitFacts

variable {W : Type}

theorem lumaTail_wo (cfg : Config) (s : PickState W) (v : IterVars) (r : YResult W)
    (uv : MACROBLOCK W → RDResult W) (f : Int → Int) :
    lumaTail (s.withoutSplit cfg) v r uv f = (lumaTail s v r uv f).withoutSplit cfg := by
  unfold lumaTail
  dsimp only [PickState.withoutSplit]
  split <;> rfl

theorem evalBPred_wo (cfg : Config) (ext : Ext W) (s : PickState W) (v : IterVars) :
    evalBPred ext (s.withoutSplit cfg) v = (evalBPred ext s v).withoutSplit cfg := by
  unfold evalBPred lumaTail
  dsimp only [PickState.withoutSplit]
  split <;> rfl

theorem evalI8x8_wo (cfg : Config) (ext : Ext W) (s : PickState W) (v : IterVars) :
    evalI8x8 ext (s.withoutSplit cfg) v = (evalI8x8 ext s v).withoutSplit cfg := by
  unfold evalI8x8 lumaTail
  dsimp only [PickState.withoutSplit]
  split <;> rfl

theorem evalIntra16_wo (cfg : Config) (ext : Ext W) (s : PickState W) (v : IterVars) :
    evalIntra16 ext (s.withoutSplit cfg) v = (evalIntra16 ext s v).withoutSplit cfg := rfl

theorem newmvSearch_wo (cfg : Config) (ext : Ext W) (s : PickState W) :
    newmvSearch cfg ext (s.withoutSplit cfg) = (newmvSearch cfg ext s).withoutSplit cfg := rfl

theorem interCosts_wo (cfg : Config) (ext : Ext W) (m : MB_PREDICTION_MODE)
    (s : PickState W) (v : IterVars) :
    interCosts cfg ext m (s.withoutSplit cfg) v =
      (interCosts cfg ext m s v).withoutSplit cfg := rfl

theorem zeroTail_wo (cfg : Config) (ext : Ext W) (m : MB_PREDICTION_MODE)
    (s : PickState W) (v : IterVars) :
    zeroTail cfg ext m (s.withoutSplit cfg) v = (zeroTail cfg ext m s v).withoutSplit cfg := by
  unfold zeroTail
  dsimp only [PickState.withoutSplit, VP8_COMP.withoutSplit]
  split
  · rfl
  · split
    · rfl
    · split
      · split <;> rfl
      · rfl

theorem nearTail_wo (cfg : Config) (ext : Ext W) (m : MB_PREDICTION_MODE)
    (s : PickState W) (v : IterVars) :
    nearTail cfg ext m (s.withoutSplit cfg) v = (nearTail cfg ext m s v).withoutSplit cfg := by
  unfold nearTail
  dsimp only [PickState.withoutSplit]
  split
  · rfl
  · exact zeroTail_wo cfg ext m
      { s with l := { s.l with
        mode_mv := Function.update s.l.mode_mv m (ext.vp8_clamp_mv2 s.x (s.l.mode_mv m)) } } v

theorem dualTail_wo (cfg : Config) (ext : Ext W) (m : MB_PREDICTION_MODE)
    (r : MV_REFERENCE_FRAME) (s : PickState W) (v : IterVars) :
    dualTail ext m r (s.withoutSplit cfg) v = (dualTail ext m r s v).withoutSplit cfg := by
  unfold dualTail
  dsimp only [PickState.withoutSplit]
  repeat' split
  all_goals rfl

theorem dualVectors_wo (cfg : Config) (ext : Ext W) (m : MB_PREDICTION_MODE)
    (s : PickState W) :
    dualVectors ext m (s.withoutSplit cfg) =
      (dualVectors ext m s).map (PickState.withoutSplit cfg) := by
  unfold dualVectors
  dsimp only [PickState.withoutSplit]
  repeat' split
  all_goals rfl

theorem evalDual_wo (cfg : Config) (ext : Ext W) (m : MB_PREDICTION_MODE)
    (s : PickState W) (v : IterVars) :
    evalDual ext m (s.withoutSplit cfg) v = (evalDual ext m s v).withoutSplit cfg := by
  unfold evalDual
  rw [dualVectors_wo]
  cases dualVectors ext m s with
  | none => rfl
  | some s1 => exact dualTail_wo cfg ext m _ s1 _

theorem evalCandidate_wo (cfg : Config) (ext : Ext W) (m : MB_PREDICTION_MODE)
    (hm : m ≠ SPLITMV) (s : PickState W) (v : IterVars) :
    evalCandidate cfg ext m (s.withoutSplit cfg) v =
      (evalCandidate cfg ext m s v).withoutSplit cfg := by
  unfold evalCandidate
  by_cases h : cfg.CONFIG_DUALPRED = true ∧ s.x.mbmi.second_ref_frame ≠ INTRA_FRAME
  · rw [if_pos h, if_pos (show cfg.CONFIG_DUALPRED = true ∧
      (s.withoutSplit cfg).x.mbmi.second_ref_frame ≠ INTRA_FRAME from h)]
    exact evalDual_wo cfg ext m s v
  · rw [if_neg h, if_neg (show ¬ (cfg.CONFIG_DUALPRED = true ∧
      (s.withoutSplit cfg).x.mbmi.second_ref_frame ≠ INTRA_FRAME) from h)]
    cases m with
    | SPLITMV => exact absurd rfl hm
    | B_PRED => exact evalBPred_wo cfg ext s v
    | I8X8_PRED => exact evalI8x8_wo cfg ext s v
    | DC_PRED => rfl
    | V_PRED => rfl
    | H_PRED => rfl
    | TM_PRED => rfl
    | NEWMV => exact nearTail_wo cfg ext _ (newmvSearch cfg ext s) v
    | NEARESTMV => exact nearTail_wo cfg ext _ s v
    | NEARMV => exact nearTail_wo cfg ext _ s v
    | ZEROMV => exact zeroTail_wo cfg ext _ s v

theorem setMult_wo (cfg : Config) (cpi : VP8_COMP) (i : Nat) (m : Int)
    (hi : (vp8_mode_order cfg).getD i DC_PRED ≠ SPLITMV) :
    setMult (cpi.withoutSplit cfg) i m = (setMult cpi i m).withoutSplit cfg := by
  have h : Function.update (disableSplit cfg cpi.rd_threshes) i
      (imul (sar (cpi.rd_baseline_thresh i) 7) m) =
      disableSplit cfg (Function.update cpi.rd_threshes i
        (imul (sar (cpi.rd_baseline_thresh i) 7) m)) := by
    funext j
    unfold disableSplit
    by_cases hj : j = i
    · subst hj
      rw [Function.update_same, if_neg hi, Function.update_same]
    · rw [Function.update_noteq hj, Function.update_noteq hj]
  unfold setMult VP8_COMP.withoutSplit
  dsimp only
  rw [h]

theorem commitOrAdapt_wo (cfg : Config) (ext : Ext W) (i : Nat) (m : MB_PREDICTION_MODE)
    (hi : (vp8_mode_order cfg).getD i DC_PRED ≠ SPLITMV) (s : PickState W) (v : IterVars) :
    commitOrAdapt cfg ext i m (s.withoutSplit cfg) v =
      (commitOrAdapt cfg ext i m s v).withoutSplit cfg := by
  unfold commitOrAdapt
  have hp : passesTest (s.withoutSplit cfg) v = passesTest s v := rfl
  rw [hp]
  split
  · split
    · exact congrArg (fun c => ({ cpi := c, x := _, l := _ } : PickState W))
        (setMult_wo cfg _ i _ hi)
    · exact congrArg (fun c => ({ cpi := c, x := _, l := _ } : PickState W))
        (setMult_wo cfg _ i _ hi)
  · exact congrArg (fun c => ({ cpi := c, x := _, l := _ } : PickState W))
      (setMult_wo cfg _ i _ hi)

theorem addSignalling_wo (cfg : Config) (ext : Ext W) (s : PickState W) (v : IterVars) :
    addSignalling cfg ext (s.withoutSplit cfg) v =
      ((addSignalling cfg ext s v).1.withoutSplit cfg, (addSignalling cfg ext s v).2) := rfl

theorem skipCorrection_wo (cfg : Config) (ext : Ext W) (s : PickState W) (v : IterVars) :
    skipCorrection ext (s.withoutSplit cfg) v =
      ((skipCorrection ext s v).1.withoutSplit cfg, (skipCorrection ext s v).2) := by
  unfold skipCorrection
  dsimp only [PickState.withoutSplit, VP8_COMP.withoutSplit]
  repeat' split
  all_goals rfl

theorem recordIntra_wo (cfg : Config) (s : PickState W) (v : IterVars) :
    recordIntra (s.withoutSplit cfg) v = (recordIntra s v).withoutSplit cfg := by
  unfold recordIntra
  dsimp only [PickState.withoutSplit]
  split <;> rfl

theorem recordDualA_wo (cfg : Config) (m : MB_PREDICTION_MODE) (s : PickState W)
    (v : IterVars) :
    recordDualA cfg m (s.withoutSplit cfg) v = (recordDualA cfg m s v).withoutSplit cfg := by
  unfold recordDualA
  dsimp only [PickState.withoutSplit]
  split <;> rfl

theorem recordDualB_wo (cfg : Config) (ext : Ext W) (m : MB_PREDICTION_MODE)
    (s : PickState W) (v : IterVars) :
    recordDualB cfg ext m (s.withoutSplit cfg) v =
      (recordDualB cfg ext m s v).withoutSplit cfg := by
  unfold recordDualB
  dsimp only [PickState.withoutSplit, VP8_COMP.withoutSplit]
  split <;> rfl

theorem finishCandidate_wo (cfg : Config) (ext : Ext W) (i : Nat) (m : MB_PREDICTION_MODE)
    (hi : (vp8_mode_order cfg).getD i DC_PRED ≠ SPLITMV) (s : PickState W) (v : IterVars) :
    finishCandidate cfg ext i m (s.withoutSplit cfg) v =
      (finishCandidate cfg ext i m s v).withoutSplit cfg := by
  unfold finishCandidate
  dsimp only
  rw [addSignalling_wo]
  dsimp only
  rw [skipCorrection_wo]
  dsimp only
  rw [recordIntra_wo, recordDualA_wo, commitOrAdapt_wo cfg ext i m hi, recordDualB_wo]
  rfl

theorem loadCandidate_wo (cfg : Config) (i : Nat) (s : PickState W) :
    loadCandidate cfg i (s.withoutSplit cfg) = (loadCandidate cfg i s).withoutSplit cfg := rfl

theorem setupInter_wo (cfg : Config) (s : PickState W) :
    setupInter (s.withoutSplit cfg) = (setupInter s).withoutSplit cfg := by
  unfold setupInter
  dsimp only [PickState.withoutSplit]
  split <;> rfl

theorem zbinBoost_wo (cfg : Config) (ext : Ext W) (i : Nat) (s : PickState W) :
    zbinBoost cfg ext i (s.withoutSplit cfg) = (zbinBoost cfg ext i s).withoutSplit cfg := by
  unfold zbinBoost
  dsimp only [PickState.withoutSplit, VP8_COMP.withoutSplit]
  split <;> rfl

theorem modeBody_wo (cfg : Config) (seg : Seg) (ext : Ext W) (i : Nat)
    (hi : (vp8_mode_order cfg).getD i DC_PRED ≠ SPLITMV) (s : PickState W) :
    modeBody cfg seg ext i (s.withoutSplit cfg) =
      (modeBody cfg seg ext i s).withoutSplit cfg := by
  have ht : (s.withoutSplit cfg).cpi.rd_threshes i = s.cpi.rd_threshes i := by
    show disableSplit cfg s.cpi.rd_threshes i = s.cpi.rd_threshes i
    unfold disableSplit
    rw [if_neg hi]
  have hb : (s.withoutSplit cfg).l.best_rd = s.l.best_rd := rfl
  unfold modeBody
  rw [ht, hb]
  split
  · rfl
  · rw [loadCandidate_wo]
    have hc : segmentCheck cfg seg ((loadCandidate cfg i s).withoutSplit cfg).cpi
        ((loadCandidate cfg i s).withoutSplit cfg).l.segment_id
        ((vp8_mode_order cfg).getD i DC_PRED)
        ((loadCandidate cfg i s).withoutSplit cfg).x.mbmi.ref_frame =
        segmentCheck cfg seg (loadCandidate cfg i s).cpi (loadCandidate cfg i s).l.segment_id
          ((vp8_mode_order cfg).getD i DC_PRED) (loadCandidate cfg i s).x.mbmi.ref_frame :=
      rfl
    dsimp only
    rw [hc]
    cases segmentCheck cfg seg (loadCandidate cfg i s).cpi (loadCandidate cfg i s).l.segment_id
        ((vp8_mode_order cfg).getD i DC_PRED) (loadCandidate cfg i s).x.mbmi.ref_frame with
    | some ev => rfl
    | none =>
      dsimp only
      rw [setupInter_wo, zbinBoost_wo, evalCandidate_wo cfg ext _ hi]
      cases evalCandidate cfg ext ((vp8_mode_order cfg).getD i DC_PRED)
          (zbinBoost cfg ext i (setupInter (loadCandidate cfg i s))) IterVars.init with
      | cont s4 => rfl
      | done s4 v => exact finishCandidate_wo cfg ext i _ hi s4 v

end WithoutSplitFacts

/-! ## The loop with and without the SPLITMV candidates -/

section WithoutSplitLoop

variable {W : Type}

theorem withoutSplit_threshold (cfg : Config) (s : PickState W) (j : Nat)
    (h : (vp8_mode_order cfg).getD j DC_PRED = SPLITMV ∨ s.cpi.rd_threshes j = INT_MAX) :
    (s.withoutSplit cfg).cpi.rd_threshes j = INT_MAX := by
  show disableSplit cfg s.cpi.rd_threshes j = INT_MAX
  unfold disableSplit
  split
  · rfl
  · rcases h with h | h
    · contradiction
    · exact h

/-- A loop over candidates that are all disabled leaves the best RD cost as
it is. -/
theorem modeLoop_all_disabled (cfg : Config) (seg : Seg) (ext : Ext W) (js : List Nat)
    (s : PickState W) (hb : s.l.best_rd ≤ INT_MAX)
    (hjs : ∀ j ∈ js, s.cpi.rd_threshes j = INT_MAX) :
    (modeLoop cfg seg ext js s).l.best_rd = s.l.best_rd := by
  have h : (modeLoop cfg seg ext js s).kept = s.kept := by
    apply modeLoop_kept_of_none_evaluated
    intro e he
    have hj : e.1 ∈ js := modeTrace_index_mem cfg seg ext js s e.1 e.2 he
    rw [(modeLoop_disabled cfg seg ext e.1 js s hb (hjs _ hj)).1 e.2 he]
    rfl
  exact congrArg Kept.best_rd h

/-- The loop over the candidates `is`, none of them SPLITMV, followed by the
candidates `js`, each of them SPLITMV or disabled: when no SPLITMV candidate
reaches the comparison with `x->skip` set, the best RD cost at the end is
not above the one of the same loop with the SPLITMV candidates switched
off. -/
theorem modeLoop_withoutSplit (cfg : Config) (seg : Seg) (ext : Ext W) (js : List Nat) :
    ∀ (is : List Nat) (s : PickState W),
      (∀ i ∈ is, (vp8_mode_order cfg).getD i DC_PRED ≠ SPLITMV ∧ i ∉ js) →
      s.l.best_rd ≤ INT_MAX →
      (∀ j ∈ js, (vp8_mode_order cfg).getD j DC_PRED = SPLITMV ∨
        s.cpi.rd_threshes j = INT_MAX) →
      (∀ e ∈ modeTrace cfg seg ext (is ++ js) s,
        (vp8_mode_order cfg).getD e.1 DC_PRED = SPLITMV → e.2.skipSet = false) →
      (modeLoop cfg seg ext (is ++ js) s).l.best_rd ≤
        (modeLoop cfg seg ext (is ++ js) (s.withoutSplit cfg)).l.best_rd
  | [], s, _, hb, hjs, hns => by
    rw [List.nil_append] at hns ⊢
    rw [modeLoop_all_disabled cfg seg ext js (s.withoutSplit cfg) hb
      (fun j hj => withoutSplit_threshold cfg s j (hjs j hj))]
    refine (modeLoop_best_le cfg seg ext js s ?_).1
    intro j r p c hmem
    have hj : j ∈ js := modeTrace_index_mem cfg seg ext js s j _ hmem
    rcases hjs j hj with h | h
    · have := hns _ hmem h
      cases this
    · have := (modeLoop_disabled cfg seg ext j js s hb h).1 _ hmem
      cases this
  | i :: is, s, his, hb, hjs, hns => by
    have hi := his i (List.mem_cons_self _ _)
    obtain ⟨b1, b2, _, _⟩ := modeBody_bounds cfg seg ext i s hb
    rw [List.cons_append] at hns ⊢
    rw [modeTrace_cons] at hns
    rw [modeLoop_cons, modeLoop_cons, modeBody_wo cfg seg ext i hi.1 s]
    show (if (modeBody cfg seg ext i s).brk = true then (modeBody cfg seg ext i s).s
      else modeLoop cfg seg ext (is ++ js) (modeBody cfg seg ext i s).s).l.best_rd ≤
      (if (modeBody cfg seg ext i s).brk = true then
        (modeBody cfg seg ext i s).s.withoutSplit cfg
      else modeLoop cfg seg ext (is ++ js)
        ((modeBody cfg seg ext i s).s.withoutSplit cfg)).l.best_rd
    by_cases hbrk : (modeBody cfg seg ext i s).brk = true
    · rw [if_pos hbrk, if_pos hbrk]
      exact le_refl _
    · rw [if_neg hbrk, if_neg hbrk]
      rw [if_neg hbrk] at hns
      refine modeLoop_withoutSplit cfg seg ext js is _
        (fun k hk => his k (List.mem_cons_of_mem _ hk)) b1 ?_
        (fun e he => hns e (List.mem_cons_of_mem _ he))
      intro j hj
      have hji : j ≠ i := fun h => hi.2 (h ▸ hj)
      rw [b2 j hji]
      exact hjs j hj

theorem finishPick_best_rd (cfg : Config) (seg : Seg) (s : PickState W) :
    (finishPick cfg seg (afterLoop cfg s)).l.best_rd = s.l.best_rd := by
  unfold finishPick
  split <;> (dsimp only; split <;> rfl)

theorem pickInit_wo (cfg : Config) (ext : Ext W) (cpi : VP8_COMP) (x : MACROBLOCK W)
    (l0 : Locals) :
    pickInit cfg ext (cpi.withoutSplit cfg) x l0 =
      (pickInit cfg ext cpi x l0).withoutSplit cfg := rfl

theorem range_max_split (cfg : Config) :
    List.range (MAX_MODES cfg) =
      List.range 16 ++ ([16, 17, 18] ++ List.range' 19 (MAX_MODES cfg - 19)) := by
  unfold MAX_MODES vp8_mode_order
  split <;> rfl

theorem range_19_split : List.range 19 = List.range 16 ++ [16, 17, 18] := rfl

theorem mode_order_front (cfg : Config) (i : Nat) (hi : i ∈ List.range 16) :
    (vp8_mode_order cfg).getD i DC_PRED ≠ SPLITMV := by
  have h : ∀ i ∈ List.range 16, (vp8_mode_order_single.getD i DC_PRED ≠ SPLITMV) := by
    decide
  unfold vp8_mode_order
  split
  · have h2 : ∀ i ∈ List.range 16,
        ((vp8_mode_order_single ++ vp8_mode_order_dual).getD i DC_PRED ≠ SPLITMV) := by
      decide
    exact h2 i hi
  · exact h i hi

theorem mode_order_split (cfg : Config) (j : Nat) (hj : j ∈ [16, 17, 18]) :
    (vp8_mode_order cfg).getD j DC_PRED = SPLITMV := by
  unfold vp8_mode_order
  split
  · have h2 : ∀ i ∈ [16, 17, 18],
        ((vp8_mode_order_single ++ vp8_mode_order_dual).getD i DC_PRED = SPLITMV) := by
      decide
    exact h2 j hj
  · have h : ∀ i ∈ [16, 17, 18], (vp8_mode_order_single.getD i DC_PRED = SPLITMV) := by
      decide
    exact h j hj

/-- What the loop records over the first candidates it records over a longer
list as well. -/
theorem modeTrace_append_mem (cfg : Config) (seg : Seg) (ext : Ext W) (bs : List Nat) :
    ∀ (as : List Nat) (s : PickState W) (e : Nat × Event),
      e ∈ modeTrace cfg seg ext as s → e ∈ modeTrace cfg seg ext (as ++ bs) s
  | [], _, _, h => by cases h
  | a :: as, s, e, h => by
    rw [List.cons_append, modeTrace_cons]
    rw [modeTrace_cons] at h
    rcases List.mem_cons.1 h with h | h
    · exact List.mem_cons.2 (Or.inl h)
    · refine List.mem_cons.2 (Or.inr ?_)
      by_cases hb : (modeBody cfg seg ext a s).brk = true
      · rw [if_pos hb] at h
        cases h
      · rw [if_neg hb] at h ⊢
        exact modeTrace_append_mem cfg seg ext bs as _ e h

end WithoutSplitLoop

/-! ## Facts about the frame buffer allocation -/

section AllocFacts

variable {M B : Type}

theorem dealloc_null (k : AllocConsts) (o : AllocExt M B) (st : AllocState M B) :
    (vp8_de_alloc_frame_buffers k o st).oci.above_context = 0 ∧
      (vp8_de_alloc_frame_buffers k o st).oci.mip = 0 ∧
      (vp8_de_alloc_frame_buffers k o st).oci.prev_mip = 0 :=
  ⟨rfl, rfl, rfl⟩

/-- The loop over the frame buffers: what it adds to the record. -/
theorem allocFrames_spec (k : AllocConsts) (o : AllocExt M B) (width height : Int) :
    ∀ (is : List Nat) (st : AllocState M B) (log : List AllocEvent),
      ∃ evs, (allocFrames k o width height is st log).2.1 = log ++ evs ∧
        (∀ e ∈ evs, e.a = width ∧ e.b = height ∧ ∃ i, e.site = AllocSite.frame i) ∧
        ((allocFrames k o width height is st log).2.2 = true →
          evs.map AllocEvent.site = is.map AllocSite.frame ∧ ∀ e ∈ evs, e.ok = true) ∧
        ((allocFrames k o width height is st log).2.2 = false →
          (∃ e ∈ evs, e.ok = false) ∧
            evs.map AllocEvent.site <+: is.map AllocSite.frame)
  | [], st, log => ⟨[], by simp [allocFrames]⟩
  | i :: is, st, log => by
    unfold allocFrames
    dsimp only
    split
    · refine ⟨[{ site := AllocSite.frame i, a := width, b := height, ok := false }],
        rfl, ?_, ?_, ?_⟩
      · intro e he
        rw [List.mem_singleton] at he
        subst he
        exact ⟨rfl, rfl, i, rfl⟩
      · intro h
        cases h
      · intro _
        refine ⟨⟨_, List.mem_singleton.2 rfl, rfl⟩, ?_⟩
        exact ⟨is.map AllocSite.frame, rfl⟩
    · obtain ⟨evs, h1, h2, h3, h4⟩ := allocFrames_spec k o width height is
        { mem := (o.vp8_yv12_alloc_frame_buffer st.mem { st.oci.yv12_fb i with flags := 0 }
            width height k.VP8BORDERINPIXELS).1
          oci := { st.oci with
            fb_idx_ref_cnt := Function.update st.oci.fb_idx_ref_cnt i 0
            yv12_fb := Function.update st.oci.yv12_fb i
              (o.vp8_yv12_alloc_frame_buffer st.mem { st.oci.yv12_fb i with flags := 0 }
                width height k.VP8BORDERINPIXELS).2.1 } }
        (log ++ [{ site := AllocSite.frame i, a := width, b := height, ok := true }])
      refine ⟨{ site := AllocSite.frame i, a := width, b := height, ok := true } :: evs,
        ?_, ?_, ?_, ?_⟩
      · rw [h1, List.append_assoc]
        rfl
      · intro e he
        rcases List.mem_cons.1 he with he | he
        · subst he
          exact ⟨rfl, rfl, i, rfl⟩
        · exact h2 e he
      · intro h
        obtain ⟨a, b⟩ := h3 h
        refine ⟨by rw [List.map_cons, List.map_cons, a], ?_⟩
        intro e he
        rcases List.mem_cons.1 he with he | he
        · subst he
          rfl
        · exact b e he
      · intro h
        obtain ⟨⟨e, he, hok⟩, b⟩ := h4 h
        refine ⟨⟨e, List.mem_cons_of_mem _ he, hok⟩, ?_⟩
        rw [List.map_cons, List.map_cons]
        exact (List.prefix_cons_inj _).2 b

/-- Lines 124-165: what the allocation of the mode info arrays adds to the
record, and how the return value goes with it. -/
theorem allocModeInfo_spec (k : AllocConsts) (o : AllocExt M B) (st : AllocState M B)
    (width height : Int) (log : List AllocEvent) :
    ∃ evs, (allocModeInfo k o st width height log).log = log ++ evs ∧
      ((allocModeInfo k o st width height log).ret = 0 ∨
        (allocModeInfo k o st width height log).ret = 1) ∧
      ((allocModeInfo k o st width height log).ret = 0 ↔
        evs.map AllocEvent.site =
          [AllocSite.mip, AllocSite.prev_mip, AllocSite.above_context] ∧
          ∀ e ∈ evs, e.ok = true) ∧
      ((allocModeInfo k o st width height log).ret = 1 ↔ ∃ e ∈ evs, e.ok = false) ∧
      ((allocModeInfo k o st width height log).ret = 1 →
        ∃ st1, (allocModeInfo k o st width height log).st =
          vp8_de_alloc_frame_buffers k o st1) ∧
      evs.map AllocEvent.site <+:
        [AllocSite.mip, AllocSite.prev_mip, AllocSite.above_context] := by
  unfold allocModeInfo
  dsimp only
  split
  · refine ⟨[{ site := AllocSite.mip, a := toSize k (imul (iadd (sar width 4) 1) (iadd (sar height 4) 1)), b := k.sizeof_MODE_INFO, ok := false }],
      rfl, Or.inr rfl, ?_, ?_, fun _ => ⟨_, rfl⟩, ?_⟩
    · simp
    · simp
    · exact ⟨[AllocSite.prev_mip, AllocSite.above_context], rfl⟩
  · split
    · refine ⟨[{ site := AllocSite.mip, a := toSize k (imul (iadd (sar width 4) 1) (iadd (sar height 4) 1)), b := k.sizeof_MODE_INFO, ok := true },
        { site := AllocSite.prev_mip, a := toSize k (imul (iadd (sar width 4) 1) (iadd (sar height 4) 1)), b := k.sizeof_MODE_INFO, ok := false }],
        ?_, Or.inr rfl, ?_, ?_, fun _ => ⟨_, rfl⟩, ?_⟩
      · rw [List.append_assoc]
        rfl
      · simp
      · simp
      · exact ⟨[AllocSite.above_context], rfl⟩
    · split
      · refine ⟨[{ site := AllocSite.mip, a := toSize k (imul (iadd (sar width 4) 1) (iadd (sar height 4) 1)), b := k.sizeof_MODE_INFO, ok := true },
          { site := AllocSite.prev_mip, a := toSize k (imul (iadd (sar width 4) 1) (iadd (sar height 4) 1)), b := k.sizeof_MODE_INFO, ok := true },
          { site := AllocSite.above_context, a := toSize k (k.sizeof_ENTROPY_CONTEXT_PLANES * toSize k (sar width 4)), b := 1, ok := false }],
          ?_, Or.inr rfl, ?_, ?_, fun _ => ⟨_, rfl⟩, ?_⟩
        · rw [List.append_assoc, List.append_assoc]
          rfl
        · simp
        · simp
        · exact ⟨[], rfl⟩
      · refine ⟨[{ site := AllocSite.mip, a := toSize k (imul (iadd (sar width 4) 1) (iadd (sar height 4) 1)), b := k.sizeof_MODE_INFO, ok := true },
          { site := AllocSite.prev_mip, a := toSize k (imul (iadd (sar width 4) 1) (iadd (sar height 4) 1)), b := k.sizeof_MODE_INFO, ok := true },
          { site := AllocSite.above_context, a := toSize k (k.sizeof_ENTROPY_CONTEXT_PLANES * toSize k (sar width 4)), b := 1, ok := true }],
          ?_, Or.inl rfl, ?_, ?_, ?_, ?_⟩
        · rw [List.append_assoc, List.append_assoc]
          rfl
        · simp
        · simp
        · intro h
          cases h
        · exact ⟨[], rfl⟩

/-- Lines 102-165: the same for everything behind the loop over the frame
buffers. -/
theorem allocExtra_spec (k : AllocConsts) (o : AllocExt M B) (st : AllocState M B)
    (width height : Int) (log : List AllocEvent) :
    ∃ evs, (allocExtra k o st width height log).log = log ++ evs ∧
      ((allocExtra k o st width height log).ret = 0 ∨
        (allocExtra k o st width height log).ret = 1) ∧
      ((allocExtra k o st width height log).ret = 0 ↔
        evs.map AllocEvent.site =
          [AllocSite.temp_scale_frame, AllocSite.post_proc_buffer, AllocSite.mip,
           AllocSite.prev_mip, AllocSite.above_context] ∧
          ∀ e ∈ evs, e.ok = true) ∧
      ((allocExtra k o st width height log).ret = 1 ↔ ∃ e ∈ evs, e.ok = false) ∧
      ((allocExtra k o st width height log).ret = 1 →
        ∃ st1, (allocExtra k o st width height log).st =
          vp8_de_alloc_frame_buffers k o st1) ∧
      evs.map AllocEvent.site <+:
        [AllocSite.temp_scale_frame, AllocSite.post_proc_buffer, AllocSite.mip,
         AllocSite.prev_mip, AllocSite.above_context] := by
  unfold allocExtra
  dsimp only
  split
  · refine ⟨[{ site := AllocSite.temp_scale_frame, a := width, b := 16, ok := false }],
      rfl, Or.inr rfl, ?_, ?_, fun _ => ⟨_, rfl⟩, ?_⟩
    · simp
    · simp
    · exact ⟨[AllocSite.post_proc_buffer, AllocSite.mip, AllocSite.prev_mip,
        AllocSite.above_context], rfl⟩
  · split
    · refine ⟨[{ site := AllocSite.temp_scale_frame, a := width, b := 16, ok := true },
        { site := AllocSite.post_proc_buffer, a := width, b := height, ok := false }],
        ?_, Or.inr rfl, ?_, ?_, fun _ => ⟨_, rfl⟩, ?_⟩
      · rw [List.append_assoc]
        rfl
      · simp
      · simp
      · exact ⟨[AllocSite.mip, AllocSite.prev_mip, AllocSite.above_context], rfl⟩
    · generalize hst : ({ oci := _, mem := _ } : AllocState M B) = st2
      obtain ⟨evs, h1, h2, h3, h4, h5, h6⟩ := allocModeInfo_spec k o st2 width height
        ((log ++ [{ site := AllocSite.temp_scale_frame, a := width, b := 16, ok := true }]) ++
          [{ site := AllocSite.post_proc_buffer, a := width, b := height, ok := true }])
      refine ⟨{ site := AllocSite.temp_scale_frame, a := width, b := 16, ok := true } ::
        { site := AllocSite.post_proc_buffer, a := width, b := height, ok := true } :: evs,
        ?_, h2, ?_, ?_, h5, ?_⟩
      · rw [h1, List.append_assoc, List.append_assoc]
        rfl
      · rw [h3]
        simp
      · rw [h4]
        simp
      · rw [List.map_cons, List.map_cons]
        exact (List.prefix_cons_inj _).2 ((List.prefix_cons_inj _).2 h6)

end AllocFacts

section AllocRunFacts

variable {M B : Type}

/-- The counts a successful allocation of the mode info arrays stores. -/
theorem allocModeInfo_counts (k : AllocConsts) (o : AllocExt M B) (st : AllocState M B)
    (width height : Int) (log : List AllocEvent)
    (h : (allocModeInfo k o st width height log).ret = 0) :
    (allocModeInfo k o st width height log).st.oci.mb_rows = sar height 4 ∧
      (allocModeInfo k o st width height log).st.oci.mb_cols = sar width 4 ∧
      (allocModeInfo k o st width height log).st.oci.MBs =
        imul (sar height 4) (sar width 4) ∧
      (allocModeInfo k o st width height log).st.oci.mode_info_stride =
        iadd (sar width 4) 1 := by
  unfold allocModeInfo at h ⊢
  dsimp only at h ⊢
  split at h
  · cases h
  · rename_i h1
    rw [if_neg h1]
    split at h
    · cases h
    · rename_i h2
      rw [if_neg h2]
      split at h
      · cases h
      · rename_i h3
        rw [if_neg h3]
        exact ⟨rfl, rfl, rfl, rfl⟩

theorem allocExtra_counts (k : AllocConsts) (o : AllocExt M B) (st : AllocState M B)
    (width height : Int) (log : List AllocEvent)
    (h : (allocExtra k o st width height log).ret = 0) :
    (allocExtra k o st width height log).st.oci.mb_rows = sar height 4 ∧
      (allocExtra k o st width height log).st.oci.mb_cols = sar width 4 ∧
      (allocExtra k o st width height log).st.oci.MBs =
        imul (sar height 4) (sar width 4) ∧
      (allocExtra k o st width height log).st.oci.mode_info_stride =
        iadd (sar width 4) 1 := by
  unfold allocExtra at h ⊢
  dsimp only at h ⊢
  split at h
  · cases h
  · rename_i h1
    rw [if_neg h1]
    split at h
    · cases h
    · rename_i h2
      rw [if_neg h2]
      exact allocModeInfo_counts k o _ width height _ h

/-- A property of the recorded allocations carries over the part of the
call behind the loop over the frame buffers. -/
theorem allocExtra_log (k : AllocConsts) (o : AllocExt M B) (st : AllocState M B)
    (width height : Int) (log : List AllocEvent) (P : AllocEvent → Prop)
    (hlog : ∀ e ∈ log, P e)
    (hnew : ∀ e : AllocEvent, e.site = AllocSite.mip ∨ e.site = AllocSite.prev_mip ∨
      e.site = AllocSite.above_context → P e)
    (ht : ∀ ok, P { site := AllocSite.temp_scale_frame, a := width, b := 16, ok := ok })
    (hp : ∀ ok, P { site := AllocSite.post_proc_buffer, a := width, b := height,
                    ok := ok }) :
    ∀ e ∈ (allocExtra k o st width height log).log, P e := by
  have hm : ∀ (st2 : AllocState M B) (log2 : List AllocEvent), (∀ e ∈ log2, P e) →
      ∀ e ∈ (allocModeInfo k o st2 width height log2).log, P e := by
    intro st2 log2 h2 e he
    unfold allocModeInfo at he
    dsimp only at he
    repeat' split at he
    all_goals
      simp only [List.mem_append, List.mem_singleton] at he
      rcases he with he | he
      · first
        | exact h2 e he
        | (rcases he with he | he
           · first
             | exact h2 e he
             | (rcases he with he | he
                · exact h2 e he
                · subst he
                  exact hnew _ (Or.inl rfl))
           · subst he
             first
             | exact hnew _ (Or.inl rfl)
             | exact hnew _ (Or.inr (Or.inl rfl)))
      · subst he
        first
        | exact hnew _ (Or.inl rfl)
        | exact hnew _ (Or.inr (Or.inl rfl))
        | exact hnew _ (Or.inr (Or.inr rfl))
  intro e he
  unfold allocExtra at he
  dsimp only at he
  split at he
  · simp only [List.mem_append, List.mem_singleton] at he
    rcases he with he | he
    · exact hlog e he
    · subst he
      exact ht _
  · split at he
    · simp only [List.mem_append, List.mem_singleton] at he
      rcases he with (he | he) | he
      · exact hlog e he
      · subst he
        exact ht _
      · subst he
        exact hp _
    · refine hm _ _ ?_ e he
      intro e2 he2
      simp only [List.mem_append, List.mem_singleton] at he2
      rcases he2 with (he2 | he2) | he2
      · exact hlog e2 he2
      · subst he2
        exact ht _
      · subst he2
        exact hp _

/-- The call as a whole: the return value against the record of the
allocations. -/
theorem allocRun_spec (k : AllocConsts) (o : AllocExt M B) (st : AllocState M B)
    (width height : Int) :
    ((allocRun k o st width height).ret = 0 ∨ (allocRun k o st width height).ret = 1) ∧
      ((allocRun k o st width height).ret = 0 ↔
        (allocRun k o st width height).log.map AllocEvent.site = allSites k ∧
          ∀ e ∈ (allocRun k o st width height).log, e.ok = true) ∧
      ((allocRun k o st width height).ret = 1 ↔
        ∃ e ∈ (allocRun k o st width height).log, e.ok = false) ∧
      ((allocRun k o st width height).ret = 1 →
        ∃ st1, (allocRun k o st width height).st = vp8_de_alloc_frame_buffers k o st1) ∧
      (allocRun k o st width height).log.map AllocEvent.site <+: allSites k := by
  unfold allocRun
  dsimp only
  obtain ⟨evs, h1, _, h3, h4⟩ := allocFrames_spec k o (alignDim width) (alignDim height)
    (List.range k.NUM_YV12_BUFFERS) (vp8_de_alloc_frame_buffers k o st) []
  rw [List.nil_append] at h1
  split
  · rename_i hf
    obtain ⟨⟨e, he, hok⟩, hp⟩ := h4 hf
    dsimp only
    rw [h1]
    refine ⟨Or.inr rfl, ?_, ?_, fun _ => ⟨_, rfl⟩, ?_⟩
    · constructor
      · intro h
        cases h
      · intro h
        have := h.2 e he
        rw [hok] at this
        cases this
    · exact ⟨fun _ => ⟨e, he, hok⟩, fun _ => rfl⟩
    · exact hp.trans (List.prefix_append _ _)
  · rename_i hf
    have ht : (allocFrames k o (alignDim width) (alignDim height)
        (List.range k.NUM_YV12_BUFFERS) (vp8_de_alloc_frame_buffers k o st) []).2.2 = true := by
      cases h : (allocFrames k o (alignDim width) (alignDim height)
        (List.range k.NUM_YV12_BUFFERS) (vp8_de_alloc_frame_buffers k o st) []).2.2
      · exact absurd h hf
      · rfl
    obtain ⟨hs, hok⟩ := h3 ht
    rw [h1]
    obtain ⟨evs2, g1, g2, g3, g4, g5, g6⟩ := allocExtra_spec k o
      (allocFrames k o (alignDim width) (alignDim height)
        (List.range k.NUM_YV12_BUFFERS) (vp8_de_alloc_frame_buffers k o st) []).1
      (alignDim width) (alignDim height) evs
    rw [g1]
    refine ⟨g2, ?_, ?_, g5, ?_⟩
    · rw [g3, List.map_append, hs]
      unfold allSites
      constructor
      · intro h
        refine ⟨by rw [h.1], ?_⟩
        intro e he
        rcases List.mem_append.1 he with he | he
        · exact hok e he
        · exact h.2 e he
      · intro h
        exact ⟨List.append_cancel_left h.1, fun e he => h.2 e (List.mem_append_right _ he)⟩
    · rw [g4]
      constructor
      · rintro ⟨e, he, hf⟩
        exact ⟨e, List.mem_append_right _ he, hf⟩
      · rintro ⟨e, he, hf⟩
        rcases List.mem_append.1 he with he | he
        · have := hok e he
          rw [hf] at this
          cases this
        · exact ⟨e, he, hf⟩
    · rw [List.map_append, hs]
      unfold allSites
      exact (List.prefix_append_right_inj _).2 g6

/-- The counts a successful call stores, in terms of the raised dimensions. -/
theorem allocRun_counts (k : AllocConsts) (o : AllocExt M B) (st : AllocState M B)
    (width height : Int) (h : (allocRun k o st width height).ret = 0) :
    (allocRun k o st width height).st.oci.mb_rows = sar (alignDim height) 4 ∧
      (allocRun k o st width height).st.oci.mb_cols = sar (alignDim width) 4 ∧
      (allocRun k o st width height).st.oci.MBs =
        imul (sar (alignDim height) 4) (sar (alignDim width) 4) ∧
      (allocRun k o st width height).st.oci.mode_info_stride =
        iadd (sar (alignDim width) 4) 1 := by
  unfold allocRun at h ⊢
  dsimp only at h ⊢
  split at h
  · cases h
  · rename_i hf
    rw [if_neg hf]
    exact allocExtra_counts k o _ _ _ _ h

/-- The size arguments of the frame buffer allocations of a call. -/
theorem allocRun_dims (k : AllocConsts) (o : AllocExt M B) (st : AllocState M B)
    (width height : Int) :
    ∀ e ∈ (allocRun k o st width height).log,
      ((∃ i, e.site = AllocSite.frame i) ∨ e.site = AllocSite.post_proc_buffer →
        e.a = alignDim width ∧ e.b = alignDim height) ∧
      (e.site = AllocSite.temp_scale_frame → e.a = alignDim width ∧ e.b = 16) := by
  obtain ⟨evs, h1, h2, _, _⟩ := allocFrames_spec k o (alignDim width) (alignDim height)
    (List.range k.NUM_YV12_BUFFERS) (vp8_de_alloc_frame_buffers k o st) []
  rw [List.nil_append] at h1
  have hfr : ∀ e ∈ evs,
      ((∃ i, e.site = AllocSite.frame i) ∨ e.site = AllocSite.post_proc_buffer →
        e.a = alignDim width ∧ e.b = alignDim height) ∧
      (e.site = AllocSite.temp_scale_frame → e.a = alignDim width ∧ e.b = 16) := by
    intro e he
    obtain ⟨a, b, i, hi⟩ := h2 e he
    refine ⟨fun _ => ⟨a, b⟩, fun h => ?_⟩
    rw [hi] at h
    cases h
  unfold allocRun
  dsimp only
  split
  · dsimp only
    rw [h1]
    exact hfr
  · rw [h1]
    refine allocExtra_log k o _ _ _ _ _ hfr ?_ ?_ ?_
    · intro e he
      constructor
      · rintro (⟨i, hi⟩ | hp)
        · rw [hi] at he
          rcases he with he | he | he <;> cases he
        · rw [hp] at he
          rcases he with he | he | he <;> cases he
      · intro ht
        rw [ht] at he
        rcases he with he | he | he <;> cases he
    · intro ok
      refine ⟨?_, fun _ => ⟨rfl, rfl⟩⟩
      rintro (⟨i, hi⟩ | hp)
      · cases hi
      · cases hp
    · intro ok
      refine ⟨fun _ => ⟨rfl, rfl⟩, fun h => ?_⟩
      cases h

end AllocRunFacts

section AllocArith

theorem ceil_div_16 (w : Int) : ⌈(w : ℚ) / 16⌉ = (w + 15) / 16 := by
  have h1 : 16 * ((w + 15) / 16) - 16 < w := by omega
  have h2 : w ≤ 16 * ((w + 15) / 16) := by omega
  have h1q : (16 : ℚ) * (((w + 15) / 16 : Int) : ℚ) - 16 < (w : ℚ) := by exact_mod_cast h1
  have h2q : (w : ℚ) ≤ 16 * (((w + 15) / 16 : Int) : ℚ) := by exact_mod_cast h2
  rw [Int.ceil_eq_iff]
  constructor
  · rw [lt_div_iff₀ (by norm_num : (0 : ℚ) < 16)]
    linarith
  · rw [div_le_iff₀ (by norm_num : (0 : ℚ) < 16)]
    linarith

/-- A dimension up to `INT_MAX - 15` is raised to the next multiple of 16. -/
theorem alignDim_exact (w : Int) (h1 : 1 ≤ w) (h2 : w ≤ INT_MAX - 15) :
    alignDim w = 16 * ((w + 15) / 16) ∧ sar (alignDim w) 4 = (w + 15) / 16 ∧
      w ≤ alignDim w ∧ alignDim w < w + 16 ∧ alignDim w % 16 = 0 ∧
      (w % 16 = 0 → alignDim w = w) := by
  unfold INT_MAX at h2
  have h16 : (2 : Int) ^ 4 = 16 := by norm_num
  unfold alignDim sar iadd wrap32
  rw [h16]
  split
  · refine ⟨?_, ?_, ?_, ?_, ?_, ?_⟩ <;> omega
  · refine ⟨?_, ?_, ?_, ?_, ?_, ?_⟩ <;> omega

end AllocArith

/-! ## The record of the allocations and the answers of the memory routines -/

section AllocRequestFacts

variable {M B : Type}

theorem allocResults_append_ok (k : AllocConsts) (o : AllocExt M B) (oci : VP8_COMMON B)
    (w h : Int) (s : AllocSite) (rest : List AllocSite) (mem : M)
    (hok : (allocRequest k o oci w h mem s).2 = true) :
    allocResults k o oci w h (s :: rest) mem =
      (s, true) :: allocResults k o oci w h rest (allocRequest k o oci w h mem s).1 := by
  rw [allocResults, if_pos hok, hok]

theorem allocResults_failed (k : AllocConsts) (o : AllocExt M B) (oci : VP8_COMMON B)
    (w h : Int) (s : AllocSite) (rest : List AllocSite) (mem : M)
    (hok : (allocRequest k o oci w h mem s).2 = false) :
    allocResults k o oci w h (s :: rest) mem = [(s, false)] := by
  rw [allocResults, if_neg (by rw [hok]; decide), hok]

/-- The loop over the frame buffers makes the allocations of the list on the
memory, one after the other. -/
theorem allocFrames_results (k : AllocConsts) (o : AllocExt M B) (oci : VP8_COMMON B)
    (w h : Int) (tail : List AllocSite) :
    ∀ (is : List Nat) (st : AllocState M B) (log : List AllocEvent), is.Nodup →
      (∀ j ∈ is, st.oci.yv12_fb j = oci.yv12_fb j) →
      ((allocFrames k o w h is st log).2.2 = false →
        (allocFrames k o w h is st log).2.1.map AllocEvent.outcome =
          log.map AllocEvent.outcome ++
            allocResults k o oci w h (is.map AllocSite.frame ++ tail) st.mem) ∧
      ((allocFrames k o w h is st log).2.2 = true →
        ∃ evs, (allocFrames k o w h is st log).2.1.map AllocEvent.outcome =
            log.map AllocEvent.outcome ++ evs ∧
          allocResults k o oci w h (is.map AllocSite.frame ++ tail) st.mem =
            evs ++ allocResults k o oci w h tail (allocFrames k o w h is st log).1.mem ∧
          (allocFrames k o w h is st log).1.oci.temp_scale_frame = st.oci.temp_scale_frame ∧
          (allocFrames k o w h is st log).1.oci.post_proc_buffer = st.oci.post_proc_buffer)
  | [], st, log, _, _ => by
    refine ⟨fun hf => ?_, fun _ => ⟨[], ?_, ?_, rfl, rfl⟩⟩
    · simp [allocFrames] at hf
    · simp [allocFrames]
    · simp [allocFrames]
  | i :: is, st, log, hnd, hfb => by
    have hi : st.oci.yv12_fb i = oci.yv12_fb i := hfb i (List.mem_cons_self _ _)
    have hreq : allocRequest k o oci w h st.mem (AllocSite.frame i) =
        ((o.vp8_yv12_alloc_frame_buffer st.mem { st.oci.yv12_fb i with flags := 0 } w h
          k.VP8BORDERINPIXELS).1,
         decide (¬ (o.vp8_yv12_alloc_frame_buffer st.mem { st.oci.yv12_fb i with flags := 0 }
          w h k.VP8BORDERINPIXELS).2.2 < 0)) := by
      rw [hi]
      rfl
    unfold allocFrames
    dsimp only
    split
    · rename_i hneg
      have hok : (allocRequest k o oci w h st.mem (AllocSite.frame i)).2 = false := by
        rw [hreq]
        exact decide_eq_false (not_not.2 hneg)
      refine ⟨fun _ => ?_, fun hc => by cases hc⟩
      rw [List.map_cons, List.cons_append, allocResults_failed k o oci w h _ _ _ hok,
        List.map_append]
      rfl
    · rename_i hneg
      have hok : (allocRequest k o oci w h st.mem (AllocSite.frame i)).2 = true := by
        rw [hreq]
        exact decide_eq_true hneg
      have hmem : (allocRequest k o oci w h st.mem (AllocSite.frame i)).1 =
          (o.vp8_yv12_alloc_frame_buffer st.mem { st.oci.yv12_fb i with flags := 0 } w h
            k.VP8BORDERINPIXELS).1 := by
        rw [hreq]
      obtain ⟨ih1, ih2⟩ := allocFrames_results k o oci w h tail is
        { mem := (o.vp8_yv12_alloc_frame_buffer st.mem { st.oci.yv12_fb i with flags := 0 }
            w h k.VP8BORDERINPIXELS).1
          oci := { st.oci with
            fb_idx_ref_cnt := Function.update st.oci.fb_idx_ref_cnt i 0
            yv12_fb := Function.update st.oci.yv12_fb i
              (o.vp8_yv12_alloc_frame_buffer st.mem { st.oci.yv12_fb i with flags := 0 }
                w h k.VP8BORDERINPIXELS).2.1 } }
        (log ++ [{ site := AllocSite.frame i, a := w, b := h, ok := true }])
        (List.nodup_cons.1 hnd).2
        (fun j hj => by
          have hne : j ≠ i := fun hji => (List.nodup_cons.1 hnd).1 (hji ▸ hj)
          show Function.update st.oci.yv12_fb i _ j = oci.yv12_fb j
          rw [Function.update_noteq hne]
          exact hfb j (List.mem_cons_of_mem _ hj))
      rw [List.map_cons, List.cons_append, allocResults_append_ok k o oci w h _ _ _ hok, hmem]
      constructor
      · intro hf
        rw [ih1 hf, List.map_append, List.append_assoc]
        rfl
      · intro ht
        obtain ⟨evs, e1, e2, e3, e4⟩ := ih2 ht
        refine ⟨(AllocSite.frame i, true) :: evs, ?_, ?_, e3, e4⟩
        · rw [e1, List.map_append, List.append_assoc]
          rfl
        · rw [e2]
          rfl

/-- The allocations behind the loop over the frame buffers are made on the
memory, one after the other. -/
theorem allocExtra_results (k : AllocConsts) (o : AllocExt M B) (oci : VP8_COMMON B)
    (st : AllocState M B) (w h : Int) (log : List AllocEvent)
    (ht : st.oci.temp_scale_frame = oci.temp_scale_frame)
    (hp : st.oci.post_proc_buffer = oci.post_proc_buffer) :
    (allocExtra k o st w h log).log.map AllocEvent.outcome =
      log.map AllocEvent.outcome ++
        allocResults k o oci w h
          [AllocSite.temp_scale_frame, AllocSite.post_proc_buffer, AllocSite.mip,
           AllocSite.prev_mip, AllocSite.above_context] st.mem := by
  unfold allocExtra
  dsimp only
  simp only [allocResults, allocRequest, ← ht, ← hp]
  split
  · rename_i h1
    simp [h1, AllocEvent.outcome]
  · rename_i h1
    split
    · rename_i h2
      simp [h1, h2, AllocEvent.outcome]
    · rename_i h2
      unfold allocModeInfo
      dsimp only
      split
      · rename_i h3
        simp [h1, h2, h3, AllocEvent.outcome]
      · rename_i h3
        split
        · rename_i h4
          simp [h1, h2, h3, h4, AllocEvent.outcome]
        · rename_i h4
          split
          · rename_i h5
            simp [h1, h2, h3, h4, h5, AllocEvent.outcome]
          · rename_i h5
            simp [h1, h2, h3, h4, h5, AllocEvent.outcome]

/-- The record of `vp8_alloc_frame_buffers` is the list of its allocations
with the answers the memory routines gave, up to the first that failed. -/
theorem allocRun_results (k : AllocConsts) (o : AllocExt M B) (st : AllocState M B)
    (width height : Int) :
    (allocRun k o st width height).log.map AllocEvent.outcome =
      allocResults k o (vp8_de_alloc_frame_buffers k o st).oci (alignDim width)
        (alignDim height) (allSites k) (vp8_de_alloc_frame_buffers k o st).mem := by
  obtain ⟨hf, ht⟩ := allocFrames_results k o (vp8_de_alloc_frame_buffers k o st).oci
    (alignDim width) (alignDim height)
    [AllocSite.temp_scale_frame, AllocSite.post_proc_buffer, AllocSite.mip,
     AllocSite.prev_mip, AllocSite.above_context]
    (List.range k.NUM_YV12_BUFFERS) (vp8_de_alloc_frame_buffers k o st) []
    (List.nodup_range _) (fun _ _ => rfl)
  unfold allocRun allSites
  dsimp only
  split
  · rename_i hfalse
    rw [hf hfalse]
    rfl
  · rename_i hfalse
    have htrue : (allocFrames k o (alignDim width) (alignDim height)
        (List.range k.NUM_YV12_BUFFERS) (vp8_de_alloc_frame_buffers k o st) []).2.2 = true := by
      cases hc : (allocFrames k o (alignDim width) (alignDim height)
        (List.range k.NUM_YV12_BUFFERS) (vp8_de_alloc_frame_buffers k o st) []).2.2
      · exact absurd hc hfalse
      · rfl
    obtain ⟨evs, e1, e2, e3, e4⟩ := ht htrue
    rw [allocExtra_results k o (vp8_de_alloc_frame_buffers k o st).oci _ _ _ _ e3 e4, e1, e2]
    rfl

end AllocRequestFacts

/-! ## Facts about the 4x4 search and the intra comparison -/

section IntraFacts

variable {W P : Type}

theorem blockModeStep_eval (k : IntraConsts) (ext : Ext W) (bx : BlockExt W P) (i : Nat)
    (costs : Int → Int) (ta tl : Int) (hsb : k.CONFIG_SUPERBLOCKS = false)
    (s : Block4x4 W P) (mode : Int) :
    (blockModeStep k ext bx i costs ta tl s mode).evals =
      s.evals ++ [evalBlockMode k ext bx s.x i costs ta tl mode] := by
  unfold blockModeStep
  rw [if_neg (by rw [hsb]; simp)]
  dsimp only
  split <;> rfl

/-- One turn of the mode loop keeps the invariant. -/
theorem blockModeStep_inv (k : IntraConsts) (ext : Ext W) (bx : BlockExt W P) (i : Nat)
    (costs : Int → Int) (ta tl : Int) (s0 s : Block4x4 W P) (mode : Int)
    (h : BlockInv bx i s0 s) :
    BlockInv bx i s0 (blockModeStep k ext bx i costs ta tl s mode) := by
  unfold blockModeStep
  split
  · exact h
  · dsimp only
    split
    · rename_i hlt
      refine Or.inr ⟨s.evals, evalBlockMode k ext bx s.x i costs ta tl mode, [], rfl, ?_,
        (fun f hf => by cases hf), ?_, ⟨rfl, rfl, rfl, rfl, rfl, rfl, rfl, rfl⟩⟩
      · intro f hf
        rcases h with ⟨h1, _, h3⟩ | ⟨pre, e, post, h1, h2, h3, _, h4⟩
        · have := h3 f hf
          rw [h1] at hlt
          exact lt_of_lt_of_le hlt this
        · rw [h4.1] at hlt
          rw [h1] at hf
          rcases List.mem_append.1 hf with hf | hf
          · exact lt_trans hlt (h2 f hf)
          · rcases List.mem_cons.1 hf with hf | hf
            · rw [hf]
              exact hlt
            · exact lt_of_lt_of_le hlt (h3 f hf)
      · rcases h with ⟨h1, _, _⟩ | ⟨pre, e, post, _, _, _, h5, h4⟩
        · rw [h1] at hlt
          exact hlt
        · rw [h4.1] at hlt
          exact lt_trans hlt h5
    · rename_i hge
      rcases h with ⟨h1, h2, h3⟩ | ⟨pre, e, post, h1, h2, h3, h5, h4⟩
      · refine Or.inl ⟨h1, h2, ?_⟩
        intro f hf
        rcases List.mem_append.1 hf with hf | hf
        · exact h3 f hf
        · rw [List.mem_singleton] at hf
          rw [hf, ← h1]
          exact not_lt.1 hge
      · refine Or.inr ⟨pre, e, post ++ [evalBlockMode k ext bx s.x i costs ta tl mode],
          ?_, h2, ?_, h5, h4⟩
        · show s.evals ++ _ = _
          rw [h1, List.append_assoc]
          rfl
        · intro f hf
          rcases List.mem_append.1 hf with hf | hf
          · exact h3 f hf
          · rw [List.mem_singleton] at hf
            rw [hf, ← h4.1]
            exact not_lt.1 hge

theorem blockLoop_inv (k : IntraConsts) (ext : Ext W) (bx : BlockExt W P) (i : Nat)
    (costs : Int → Int) (ta tl : Int) (s0 : Block4x4 W P) :
    ∀ (ms : List Int) (s : Block4x4 W P), BlockInv bx i s0 s →
      BlockInv bx i s0 (ms.foldl (blockModeStep k ext bx i costs ta tl) s)
  | [], _, h => h
  | m :: ms, s, h =>
    blockLoop_inv k ext bx i costs ta tl s0 ms _
      (blockModeStep_inv k ext bx i costs ta tl s0 s m h)

/-- The record of the mode loop: one evaluation per mode, in the order of
the modes, each from the entropy contexts `ta` and `tl`. -/
theorem blockLoop_evals (k : IntraConsts) (ext : Ext W) (bx : BlockExt W P) (i : Nat)
    (costs : Int → Int) (ta tl : Int) (hsb : k.CONFIG_SUPERBLOCKS = false) :
    ∀ (ms : List Int) (s : Block4x4 W P),
      ∃ es, (ms.foldl (blockModeStep k ext bx i costs ta tl) s).evals = s.evals ++ es ∧
        es.map ModeEval.mode = ms ∧
        ∀ e ∈ es, ∃ x, e = evalBlockMode k ext bx x i costs ta tl e.mode
  | [], s => ⟨[], by simp⟩
  | m :: ms, s => by
    obtain ⟨es, h1, h2, h3⟩ := blockLoop_evals k ext bx i costs ta tl hsb ms
      (blockModeStep k ext bx i costs ta tl s m)
    refine ⟨evalBlockMode k ext bx s.x i costs ta tl m :: es, ?_, ?_, ?_⟩
    · rw [List.foldl_cons, h1, blockModeStep_eval k ext bx i costs ta tl hsb,
        List.append_assoc]
      rfl
    · rw [List.map_cons, h2]
      rfl
    · intro e he
      rcases List.mem_cons.1 he with he | he
      · exact ⟨s.x, by rw [he]; rfl⟩
      · exact h3 e he

theorem blockModes_length (k : IntraConsts) :
    (blockModes k).length = (k.B_HU_PRED - k.B_DC_PRED + 1).toNat := by
  unfold blockModes
  rw [List.length_map, List.length_range]

/-- The decision of lines 3156-3185 in terms of the three costs. -/
theorem chooseIntra_mode (c : IntraCosts W) :
    (chooseIntra c).1.mbmi.mode =
      if c.error8x8 > c.error16x16 then
        (if c.error4x4 < c.error16x16 then B_PRED else c.mode16x16)
      else (if c.error4x4 < c.error8x8 then B_PRED else I8X8_PRED) := by
  unfold chooseIntra
  split
  · split <;> rfl
  · split
    · rfl
    · rfl

end IntraFacts

/-! ## The claims about the sorts and the SAD order -/

section ClaimsSort

set_option maxRecDepth 100000

/-- Claim C28: for every array of `int` and every `len` up to its length,
after `insertsortmv(arr, len)` the first `len` entries are in non-decreasing
order and a permutation of the first `len` entries the array had, and the
entries from index `len` on are the ones the array had. -/
theorem c28_insertsortmv_sorts (arr : List Int) (len : Nat) (hlen : len ≤ arr.length) :
    ((insertsortmv arr len).take len).Pairwise (fun a b => a ≤ b) ∧
      ((insertsortmv arr len).take len).Perm (arr.take len) ∧
      (insertsortmv arr len).drop len = arr.drop len ∧
      (insertsortmv arr len).length = arr.length := by
  have heq : insertsortmv arr len =
      placeAll (fun v => v) (arr.take len) ++ arr.drop len := insertLoops_eq _ _ _ _ hlen
  obtain ⟨ht, hd⟩ := take_placeAll_append (fun v : Int => v) arr len hlen
  rw [heq, ht, hd]
  refine ⟨placeAll_sorted (fun v => v) _, placeAll_perm _ _, rfl, ?_⟩
  rw [List.length_append, placeAll_length, List.length_take, List.length_drop]
  omega

/-- Witness of claim C28: the first four of six entries are sorted, the last
two stay. -/
theorem c28_insertsortmv_sorts_witness :
    insertsortmv [5, -3, 9, -3, 1, 0] 4 = [-3, -3, 5, 9, 1, 0] ∧
      ((insertsortmv [5, -3, 9, -3, 1, 0] 4).take 4).Pairwise (fun a b => a ≤ b) :=
  ⟨by decide, (c28_insertsortmv_sorts [5, -3, 9, -3, 1, 0] 4 (by decide)).1⟩

/-- Claim C29: `insertsortsad` is a stable sort of the pairs
`(arr[k], idx[k])` by `arr`.  For two arrays and every `len` up to the
length of both, after the call the first `len` values of `arr` are in non-decreasing
order, the first `len` pairs are a permutation of the first `len` pairs there
were, the pairs with one and the same `arr` value stand in the order they
had, and the entries from index `len` on are unchanged in both arrays.  So
`vp8_cal_sad` leaves a `near_sadidx` that started as 0..7 a permutation of
0..7, and behind a key frame, where it sorts three entries, the first three
entries a permutation of 0, 1, 2 and the others in place. -/
theorem c29_insertsortsad_stable (arr idx : List Int) (len : Nat)
    (hlen : len ≤ arr.length) (hidx : len ≤ idx.length) :
    ((insertsortsad arr idx len).1.take len).Pairwise (fun a b => a ≤ b) ∧
      ((sadPairs (insertsortsad arr idx len)).take len).Perm ((arr.zip idx).take len) ∧
      (∀ c : Int,
        ((sadPairs (insertsortsad arr idx len)).take len).filter (fun p => decide (p.1 = c)) =
          ((arr.zip idx).take len).filter (fun p => decide (p.1 = c))) ∧
      (insertsortsad arr idx len).1.drop len = arr.drop len ∧
      (insertsortsad arr idx len).2.drop len = idx.drop len ∧
      (∀ c : CalSadInput,
        (vp8_cal_sad c [0, 1, 2, 3, 4, 5, 6, 7]).Perm [0, 1, 2, 3, 4, 5, 6, 7] ∧
        (c.last_frame_is_key = true →
          ((vp8_cal_sad c [0, 1, 2, 3, 4, 5, 6, 7]).take 3).Perm [0, 1, 2] ∧
          (vp8_cal_sad c [0, 1, 2, 3, 4, 5, 6, 7]).drop 3 = [3, 4, 5, 6, 7])) := by
  have key : ∀ (a i : List Int) (n : Nat), a.length = i.length → n ≤ a.length →
      ((insertsortsad a i n).1.take n).Pairwise (fun x y => x ≤ y) ∧
      ((sadPairs (insertsortsad a i n)).take n).Perm ((a.zip i).take n) ∧
      (∀ c : Int,
        ((sadPairs (insertsortsad a i n)).take n).filter (fun p => decide (p.1 = c)) =
          ((a.zip i).take n).filter (fun p => decide (p.1 = c))) ∧
      (insertsortsad a i n).1.drop n = a.drop n ∧
      (insertsortsad a i n).2.drop n = i.drop n ∧
      ((insertsortsad a i n).2.take n).Perm (i.take n) := by
    intro a i n hai hn
    obtain ⟨hp, h1, h2⟩ := insertsortsad_spec a i n hai hn
    have hz : n ≤ (a.zip i).length := by
      rw [List.length_zip, ← hai]
      simpa using hn
    obtain ⟨ht, hd⟩ := take_placeAll_append Prod.fst (a.zip i) n hz
    rw [← hp] at ht hd
    have hfst : (a.zip i).map Prod.fst = a := List.map_fst_zip _ _ (by omega)
    have hsnd : (a.zip i).map Prod.snd = i := List.map_snd_zip _ _ (by omega)
    refine ⟨?_, ?_, ?_, ?_, ?_, ?_⟩
    · rw [h1, ← List.map_take, ht, List.pairwise_map]
      exact placeAll_sorted Prod.fst _
    · rw [ht]
      exact placeAll_perm _ _
    · intro c
      rw [ht]
      exact placeAll_filter Prod.fst _ c
    · rw [h1, ← List.map_drop, hd, List.map_drop, hfst]
    · rw [h2, ← List.map_drop, hd, List.map_drop, hsnd]
    · rw [h2, ← List.map_take, ht]
      have := (placeAll_perm Prod.fst ((a.zip i).take n)).map Prod.snd
      rw [List.map_take, hsnd] at this
      exact this
  have ha : (arr.take len).length = len := by rw [List.length_take]; omega
  have hb : (idx.take len).length = len := by rw [List.length_take]; omega
  obtain ⟨k1, k2, k3, _, _, _⟩ := key (arr.take len) (idx.take len) len (ha.trans hb.symm)
    (le_of_eq ha.symm)
  obtain ⟨_, l1, l2⟩ := insertsortsad_pairs (arr.take len) (idx.take len) len
    (ha.trans hb.symm)
  have hA := l1.trans ha
  have hB := l2.trans hb
  have hpairs : (sadPairs (insertsortsad arr idx len)).take len =
      (sadPairs (insertsortsad (arr.take len) (idx.take len) len)).take len := by
    rw [insertsortsad_take arr idx len hlen hidx]
    unfold sadPairs
    dsimp only
    rw [List.zip_append (hA.trans hB.symm), List.take_append_of_le_length
      (by rw [List.length_zip, hA, hB, min_self])]
  have hzip : (arr.zip idx).take len = ((arr.take len).zip (idx.take len)).take len := by
    unfold List.zip
    rw [List.take_zipWith, List.take_zipWith, List.take_take, List.take_take, min_self]
  refine ⟨?_, ?_, ?_, ?_, ?_, ?_⟩
  · rw [insertsortsad_take arr idx len hlen hidx]
    dsimp only
    rw [List.take_left' hA]
    rw [List.take_of_length_le (le_of_eq hA)] at k1
    exact k1
  · rw [hpairs, hzip]
    exact k2
  · intro c
    rw [hpairs, hzip]
    exact k3 c
  · rw [insertsortsad_take arr idx len hlen hidx]
    exact List.drop_left' hA
  · rw [insertsortsad_take arr idx len hlen hidx]
    exact List.drop_left' hB
  intro c
  have hl := nearSad_length c
  have h8 := key (nearSad c) [0, 1, 2, 3, 4, 5, 6, 7] 8 (by rw [hl]; rfl) (by omega)
  have h3 := key (nearSad c) [0, 1, 2, 3, 4, 5, 6, 7] 3 (by rw [hl]; rfl) (by omega)
  constructor
  · unfold vp8_cal_sad
    split
    · have hlen2 : (insertsortsad (nearSad c) [0, 1, 2, 3, 4, 5, 6, 7] 8).2.length = 8 :=
        (insertsortsad_pairs _ _ 8 (by rw [hl]; rfl)).2.2
      have := h8.2.2.2.2.2
      rw [List.take_of_length_le (by omega)] at this
      exact this
    · have hp := h3.2.2.2.2.2
      have hd := h3.2.2.2.2.1
      have := hp.append (List.Perm.of_eq hd)
      rw [List.take_append_drop] at this
      exact this
  · intro hk
    unfold vp8_cal_sad
    rw [if_neg (by simp [hk])]
    exact ⟨h3.2.2.2.2.2, h3.2.2.2.2.1⟩

/-- Witness of claim C29: two pairs with the value 7 keep their order, and
the last entry is outside the sorted part. -/
theorem c29_insertsortsad_stable_witness :
    insertsortsad [7, 9, 7, 2, 1] [0, 1, 2, 3, 4] 4 = ([2, 7, 7, 9, 1], [3, 0, 2, 1, 4]) ∧
      ((insertsortsad [7, 9, 7, 2, 1] [0, 1, 2, 3, 4] 4).1.take 4).Pairwise
        (fun a b => a ≤ b) :=
  ⟨by decide,
    (c29_insertsortsad_stable [7, 9, 7, 2, 1] [0, 1, 2, 3, 4] 4 (by decide) (by decide)).1⟩

end ClaimsSort

/-! ## The claims about skipping and thresholds -/

section ClaimsSkip

variable {W : Type}

set_option maxRecDepth 100000

/-- Counterexample to claim C23 as stated: with `prob_skip_false` 0 the
ZEROMV candidate on the last frame, all of whose blocks are without
coefficients, leaves the `switch` with the rate 150, of which 100 are
`rate_y`.  The rate of its RD cost is 306: the cost 256 of a 0 is still in
it, and the cost 1 of a 1 is not. -/
theorem c23_zero_probability_counterexample :
    (modeBody stdConfig noSeg (flatExt bench3) 0
        (pickInit stdConfig (flatExt bench3) cpiNoProb (benchX 0) benchLocals)).ev =
      Event.evaluated 506 true true false ∧
    (modeBody stdConfig noSeg (flatExt bench3) 0
        (pickInit stdConfig (flatExt bench3) cpiNoProb (benchX 0) benchLocals)).s.l.rate2 =
      306 ∧
    (modeBody stdConfig noSeg (flatExt bench3) 0
        (pickInit stdConfig (flatExt bench3) cpiNoProb (benchX 0) benchLocals)).s.l.rate_y =
      100 ∧
    (306 : Int) = 50 + 256 ∧
    (flatExt bench3).vp8_cost_mv_ref ZEROMV (fun _ => 0) = 50 ∧
    (flatExt bench3).vp8_cost_bit cpiNoProb.prob_skip_false 0 = 256 ∧
    (flatExt bench3).vp8_cost_bit cpiNoProb.prob_skip_false 1 = 1 ∧
    cpiNoProb.mb_no_coeff_skip = true ∧
    (∀ j, j < 25 → (flatExt bench3).block_eob (benchX 0) j = 0) := by
  refine ⟨by decide, by decide, by decide, by decide, by decide, by decide, by decide,
    by decide, fun _ _ => rfl⟩

/-- Claim C23, amended: a candidate that leaves the `switch` with skipping
allowed (`mb_no_coeff_skip` set, `disable_skip` clear) and all 25 blocks
without coefficients gets its RD cost from the rate `skipRate`: `rate_y` and
`rate_uv` are taken out, and when `prob_skip_false` is not 0 the cost of a 1
stands in place of the cost of a 0; when `prob_skip_false` is 0 the cost of
a 0 stays.  `rate_uv` is 0 afterwards. -/
theorem c23_skip_correction (cfg : Config) (ext : Ext W) (i : Nat) (m : MB_PREDICTION_MODE)
    (s : PickState W) (v : IterVars)
    (hskip : s.cpi.mb_no_coeff_skip = true) (hdis : v.disable_skip = false)
    (heob : ∀ j, j < 25 → ext.block_eob s.x j = 0) :
    (∃ p c sk, (finishCandidate cfg ext i m s v).ev =
        Event.evaluated (rdcost ext s.x (skipRate cfg ext s v) s.l.distortion2) p c sk) ∧
      (finishCandidate cfg ext i m s v).s.l.rate2 = skipRate cfg ext s v ∧
      (finishCandidate cfg ext i m s v).s.l.rate_uv = 0 ∧
      (s.cpi.prob_skip_false ≠ 0 →
        skipRate cfg ext s v =
          wrap32 (s.l.rate2 +
            (if cfg.CONFIG_DUALPRED = true ∧ s.cpi.dual_pred_mode = HYBRID_PREDICTION then
              v.dualmode_cost else 0) +
            refCost cfg ext s - (s.l.rate_y + s.l.rate_uv) +
            ext.vp8_cost_bit s.cpi.prob_skip_false 1)) := by
  obtain ⟨h1, h2, h3⟩ := skipCorrection_rate cfg ext s v hskip hdis heob
  obtain ⟨g1, g2⟩ := finishCandidate_rate cfg ext i m s v
  refine ⟨?_, g1.trans h1, g2.trans h2, ?_⟩
  · unfold finishCandidate
    dsimp only
    rw [h3]
    exact ⟨_, _, _, rfl⟩
  · intro hp
    unfold skipRate
    rw [if_pos hp]

/-- Witness of claim C23: with `prob_skip_false` 128 the same candidate has
the rate 50 + 129 and the RD cost 379. -/
theorem c23_skip_correction_witness :
    skipRate stdConfig (flatExt bench3)
        { (pickInit stdConfig (flatExt bench3) cpi3 (benchX 0) benchLocals) with
          l := { (pickInit stdConfig (flatExt bench3) cpi3 (benchX 0) benchLocals).l with
            rate2 := 150, rate_y := 100, rate_uv := 0, distortion2 := 200 } }
        IterVars.init = 179 ∧
      (finishCandidate stdConfig (flatExt bench3) 0 ZEROMV
        { (pickInit stdConfig (flatExt bench3) cpi3 (benchX 0) benchLocals) with
          l := { (pickInit stdConfig (flatExt bench3) cpi3 (benchX 0) benchLocals).l with
            rate2 := 150, rate_y := 100, rate_uv := 0, distortion2 := 200 } }
        IterVars.init).s.l.rate2 =
      skipRate stdConfig (flatExt bench3)
        { (pickInit stdConfig (flatExt bench3) cpi3 (benchX 0) benchLocals) with
          l := { (pickInit stdConfig (flatExt bench3) cpi3 (benchX 0) benchLocals).l with
            rate2 := 150, rate_y := 100, rate_uv := 0, distortion2 := 200 } }
        IterVars.init :=
  ⟨by decide,
    (c23_skip_correction stdConfig (flatExt bench3) 0 ZEROMV
      { (pickInit stdConfig (flatExt bench3) cpi3 (benchX 0) benchLocals) with
        l := { (pickInit stdConfig (flatExt bench3) cpi3 (benchX 0) benchLocals).l with
          rate2 := 150, rate_y := 100, rate_uv := 0, distortion2 := 200 } }
      IterVars.init (by decide) (by decide) (fun _ _ => rfl)).2.1⟩

/-- Claim C30: a candidate whose threshold is `INT_MAX` is passed over by the
test of line 2253 in every iteration of a call, also while `best_rd` has its
initial value `INT_MAX`, and more generally a candidate whose threshold is
not below the running `best_rd`, so also one equal to it, is passed over and
the iteration changes nothing.  A threshold of `INT_MAX` whose baseline is
`INT_MAX`, which is how `vp8_initialize_rd_consts` leaves a candidate with
the multiplier `INT_MAX`, is `INT_MAX` after the call as well. -/
theorem c30_disabled_never_evaluated (cfg : Config) (seg : Seg) (ext : Ext W)
    (cpi : VP8_COMP) (x : MACROBLOCK W) (l0 : Locals) (k : Nat)
    (hk : cpi.rd_threshes k = INT_MAX) :
    (∀ ev, (k, ev) ∈ pickTrace cfg seg ext cpi x l0 → ev = Event.thresholdSkip) ∧
      (pickInit cfg ext cpi x l0).l.best_rd = INT_MAX ∧
      modeBody cfg seg ext k (pickInit cfg ext cpi x l0) =
        { s := pickInit cfg ext cpi x l0, ev := Event.thresholdSkip, brk := false } ∧
      (∀ (i : Nat) (s : PickState W), s.l.best_rd ≤ s.cpi.rd_threshes i →
        modeBody cfg seg ext i s = { s := s, ev := Event.thresholdSkip, brk := false }) ∧
      (cpi.rd_baseline_thresh k = INT_MAX →
        (vp8_rd_pick_inter_mode cfg seg ext cpi x l0).cpi.rd_threshes k = INT_MAX) ∧
      (∀ (dcq : Int → Int → Int) (fp : FloatOps) (inp : RdConstsInput) (QIndex : Int) (i : Nat),
        inp.thresh_mult i = INT_MAX →
          (vp8_initialize_rd_consts cfg dcq fp inp QIndex).rd_threshes i = INT_MAX ∧
          (vp8_initialize_rd_consts cfg dcq fp inp QIndex).rd_baseline_thresh i = INT_MAX) := by
  have hb : (pickInit cfg ext cpi x l0).l.best_rd ≤ INT_MAX :=
    le_of_eq (pickInit_best cfg ext cpi x l0).1
  have hk0 : (pickInit cfg ext cpi x l0).cpi.rd_threshes k = INT_MAX := hk
  obtain ⟨d1, d2, d3, _, _⟩ :=
    modeLoop_disabled cfg seg ext k (List.range (MAX_MODES cfg)) _ hb hk0
  refine ⟨d1, (pickInit_best cfg ext cpi x l0).1, ?_, ?_, ?_, ?_⟩
  · exact modeBody_threshold cfg seg ext k _ (by rw [hk0]; exact hb)
  · intro i s h
    exact modeBody_threshold cfg seg ext i s h
  · intro hbase
    unfold vp8_rd_pick_inter_mode
    rw [finishPick_threshes]
    unfold afterLoop
    dsimp only
    apply reduceBest_disabled
    · exact d2
    · unfold pickLoop
      rw [d3]
      exact hbase
  · intro dcq fp inp QIndex i hi
    exact initialize_disabled cfg dcq fp inp QIndex i hi

/-- Witness of claim C30: in the run on concrete macroblock 1 the ZEROMV
candidate on the last frame has the threshold `INT_MAX` and is passed over,
while candidate 1 is evaluated. -/
theorem c30_disabled_never_evaluated_witness :
    cpi1.rd_threshes 0 = INT_MAX ∧
      (0, Event.thresholdSkip) ∈
        pickTrace stdConfig noSeg (benchExt bench1) cpi1 (benchX 0) benchLocals ∧
      (1, Event.evaluated 100 true true false) ∈
        pickTrace stdConfig noSeg (benchExt bench1) cpi1 (benchX 0) benchLocals ∧
      ∀ ev, (0, ev) ∈ pickTrace stdConfig noSeg (benchExt bench1) cpi1 (benchX 0) benchLocals →
        ev = Event.thresholdSkip :=
  ⟨by decide, by decide, by decide,
    (c30_disabled_never_evaluated stdConfig noSeg (benchExt bench1) cpi1 (benchX 0)
      benchLocals 0 (by decide)).1⟩

end ClaimsSkip

section ClaimsStatic

variable {W : Type}

set_option maxRecDepth 100000

/-- Counterexample to claim C25 as stated: a flat, static macroblock, which
every candidate predicts exactly and codes without coefficients, with the
active map off, skipping allowed and `encode_breakout` 0.  The ZEROMV
candidate on the last frame reaches the comparison with the cost 179 and
the distortion 0, the DC_PRED candidate with the cost 129; the call commits
`DC_PRED` with `INTRA_FRAME`, and `x->skip` is not set. -/
theorem c25_static_counterexample :
    (vp8_rd_pick_inter_mode stdConfig noSeg (flatExt flatBench) cpi3 (benchX 0)
        benchLocals).x.mbmi.mode = DC_PRED ∧
    (vp8_rd_pick_inter_mode stdConfig noSeg (flatExt flatBench) cpi3 (benchX 0)
        benchLocals).x.mbmi.ref_frame = INTRA_FRAME ∧
    (vp8_rd_pick_inter_mode stdConfig noSeg (flatExt flatBench) cpi3 (benchX 0)
        benchLocals).x.skip = false ∧
    (0, Event.evaluated 179 true true false) ∈
      pickTrace stdConfig noSeg (flatExt flatBench) cpi3 (benchX 0) benchLocals ∧
    (1, Event.evaluated 129 true true false) ∈
      pickTrace stdConfig noSeg (flatExt flatBench) cpi3 (benchX 0) benchLocals ∧
    cpi3.active_map_enabled = false ∧ cpi3.mb_no_coeff_skip = true ∧
    (benchX 0).encode_breakout = 0 ∧
    flatBench.yrd ZEROMV LAST_FRAME = (0, 0) ∧
    (∀ j, j < 25 → (flatExt flatBench).block_eob (benchX 0) j = 0) := by
  refine ⟨by decide, by decide, by decide, by decide, by decide, by decide, by decide,
    by decide, by decide, fun _ _ => rfl⟩

/-- Claim C25, amended: Scenario A with `x->encode_breakout` set.  Let
candidate 0, ZEROMV on the last frame, be reached (its threshold is below
`INT_MAX`, no segment constraint and no alt-ref rule drops it, it has no
second reference frame, the zero vector is inside the window), with no
active-map exclusion, and let its prediction equal the source (`sse` and
variance 0, chroma `sse` 0) with a positive `encode_breakout` and a
second-order DC step of at least 4, the routines called leaving the mode info
as it was written.  Then the call commits ZEROMV with LAST_FRAME and the zero
vector, with `x->skip` set; candidate 0 is the only one the loop reaches; and
its RD cost is that of the fixed rate 500 of line 2667 and the distortion 0,
with `rate_uv` 0: no coefficient rate is in it. -/
theorem c25_static_breakout (cfg : Config) (seg : Seg) (ext : Ext W) (cpi : VP8_COMP)
    (x : MACROBLOCK W) (l0 : Locals)
    (hthr : cpi.rd_threshes 0 < INT_MAX)
    (hseg : segmentCheck cfg seg cpi x.mbmi.segment_id ZEROMV LAST_FRAME = none)
    (hsingle : cfg.CONFIG_DUALPRED = true →
      (zeroLastEntry cfg ext cpi x l0).x.mbmi.second_ref_frame = INTRA_FRAME)
    (hwin : ¬ outsideWindow (zeroLastEntry cfg ext cpi x l0).x zero_mv)
    (hmode : (zeroLastPredicted cfg ext cpi x l0).mbmi.mode = ZEROMV ∧
      (zeroLastPredicted cfg ext cpi x l0).mbmi.ref_frame = LAST_FRAME ∧
      (zeroLastPredicted cfg ext cpi x l0).mbmi.mv = zero_mv)
    (hact : ¬ (cpi.active_map_enabled = true ∧
      ext.active_ptr0 (zeroLastPredicted cfg ext cpi x l0) = 0))
    (hb : 0 < (zeroLastPredicted cfg ext cpi x l0).encode_breakout ∧
      (zeroLastPredicted cfg ext cpi x l0).encode_breakout ≤ INT_MAX)
    (hs : ext.var16x16 (zeroLastPredicted cfg ext cpi x l0) = (0, 0) ∧
      ext.VP8_UVSSE (zeroLastPredicted cfg ext cpi x l0) = 0)
    (hq : 4 ≤ ext.dequant_y2_dc (zeroLastPredicted cfg ext cpi x l0) ∧
      ext.dequant_y2_dc (zeroLastPredicted cfg ext cpi x l0) ≤ 32767) :
    (vp8_rd_pick_inter_mode cfg seg ext cpi x l0).x.mbmi.mode = ZEROMV ∧
      (vp8_rd_pick_inter_mode cfg seg ext cpi x l0).x.mbmi.ref_frame = LAST_FRAME ∧
      (vp8_rd_pick_inter_mode cfg seg ext cpi x l0).x.mbmi.mv = zero_mv ∧
      (vp8_rd_pick_inter_mode cfg seg ext cpi x l0).x.skip = true ∧
      pickTrace cfg seg ext cpi x l0 =
        [(0, Event.evaluated (rdcost ext (zeroLastPredicted cfg ext cpi x l0) 500 0)
          true true true)] ∧
      (vp8_rd_pick_inter_mode cfg seg ext cpi x l0).l.best_rd =
        rdcost ext (zeroLastPredicted cfg ext cpi x l0) 500 0 ∧
      (vp8_rd_pick_inter_mode cfg seg ext cpi x l0).l.rate_uv = 0 ∧
      (vp8_rd_pick_inter_mode cfg seg ext cpi x l0).l.returndistortion = 0 := by
  obtain ⟨e1, e2⟩ := zeroLastEntry_frame cfg ext cpi x l0
  have hact2 : ¬ ((zeroLastEntry cfg ext cpi x l0).cpi.active_map_enabled = true ∧
      ext.active_ptr0 (ext.vp8_build_inter16x16_predictors_mby
        (vp8_set_mbmode_and_mvs (zeroLastEntry cfg ext cpi x l0).x ZEROMV zero_mv)) = 0) := by
    rw [e2]
    exact hact
  obtain ⟨s1, v1, hz, k1, k2, k3, k4, k5, k6, z1, z3, z2⟩ :=
    zeroTail_static cfg ext (zeroLastEntry cfg ext cpi x l0) IterVars.init e1 hwin hact2
      hb hs hq
  obtain ⟨m1, m2, m3⟩ := mode_order_zero cfg
  obtain ⟨c1, c2, c3, _⟩ := loadCandidate_zero cfg (pickInit cfg ext cpi x l0)
  have hev : evalCandidate cfg ext ((vp8_mode_order cfg).getD 0 DC_PRED)
      (zbinBoost cfg ext 0 (setupInter (loadCandidate cfg 0 (pickInit cfg ext cpi x l0))))
      IterVars.init = zeroTail cfg ext ZEROMV (zeroLastEntry cfg ext cpi x l0) IterVars.init := by
    rw [m1]
    unfold evalCandidate
    rw [if_neg]
    · rfl
    · intro ⟨hd, hne⟩
      exact hne (hsingle hd)
  rw [hz] at hev
  have hthr2 : ¬ (pickInit cfg ext cpi x l0).l.best_rd ≤
      (pickInit cfg ext cpi x l0).cpi.rd_threshes 0 := by
    rw [(pickInit_best cfg ext cpi x l0).1, (pickInit_threshes cfg ext cpi x l0).1]
    exact not_le.2 hthr
  have hseg2 : segmentCheck cfg seg (pickInit cfg ext cpi x l0).cpi
      (pickInit cfg ext cpi x l0).l.segment_id ZEROMV LAST_FRAME = none := by
    rw [(pickInit_best cfg ext cpi x l0).2.2.2.1,
      segmentCheck_cpi cfg seg (pickInit cfg ext cpi x l0).cpi cpi _ _ _ rfl rfl]
    exact hseg
  have hbody := modeBody_evaluated cfg seg ext 0 (pickInit cfg ext cpi x l0) s1 v1
    hthr2 (by rw [c1, c2, c3, m1]; exact hseg2) hev
  rw [m1] at hbody
  obtain ⟨f1, f2, f3, f4, _, f6, _, f8, f9, f10, f11, f12⟩ :=
    finishCandidate_skip cfg ext 0 ZEROMV s1 v1 (by decide) k1 z1 (z3.trans rfl)
  rw [← hbody] at f1 f2 f3 f4 f6 f8 f9 f10 f11 f12
  obtain ⟨t, ht⟩ := range_max_modes cfg
  have hloop : pickLoop cfg seg ext cpi x l0 =
      (modeBody cfg seg ext 0 (pickInit cfg ext cpi x l0)).s := by
    unfold pickLoop
    rw [ht, modeLoop_cons, if_pos f1]
  have htrace : pickTrace cfg seg ext cpi x l0 =
      [(0, (modeBody cfg seg ext 0 (pickInit cfg ext cpi x l0)).ev)] := by
    unfold pickTrace
    rw [ht, modeTrace_cons, if_pos f1]
  obtain ⟨a1, a2, a3, a4⟩ := afterLoop_frame cfg (pickLoop cfg seg ext cpi x l0)
  have hbest : (afterLoop cfg (pickLoop cfg seg ext cpi x l0)).l.best_mbmode =
      (zeroLastPredicted cfg ext cpi x l0).mbmi := by
    rw [a2, hloop, f4, k2]
    rfl
  have hsid : s1.l.segment_id = x.mbmi.segment_id := by
    rw [k4]
    exact zeroLastEntry_segment cfg ext cpi x l0
  have hnf : ¬ forcesAltRef seg (afterLoop cfg (pickLoop cfg seg ext cpi x l0)) := by
    intro ⟨g1, g2, g3, g4, _⟩
    rw [a2, hloop, f10, hsid] at g1 g2
    rw [a3, hloop, f11, k3] at g3
    rw [a4, hloop, f12, k3] at g4
    have g3' : cpi.is_src_frame_alt_ref = true := by
      rw [← g3]
      exact (zeroLastEntry_cpi cfg ext cpi x l0).1.symm
    have g4' : cpi.arnr_max_frames = 0 := by
      rw [← g4]
      exact (zeroLastEntry_cpi cfg ext cpi x l0).2.symm
    exact segmentCheck_zeroLast cfg seg cpi x.mbmi.segment_id hseg ⟨g1, g2, g3', g4'⟩
  obtain ⟨p1, p2, p3, p4, p5⟩ := finishPick_inter cfg seg _ hnf (by rw [hbest]; exact hmode.1)
  unfold vp8_rd_pick_inter_mode
  rw [p1, p2, p3, p4, p5, hbest, a1, a2, hloop, f3, f6, f8, f9, htrace, f2, z2, k1, k5, k6]
  exact ⟨hmode.1, hmode.2.1, hmode.2.2, rfl, rfl, rfl, rfl, rfl⟩

/-- Witness of claim C25: the flat, static macroblock with `encode_breakout`
1000. -/
theorem c25_static_breakout_witness :
    cpi3.rd_threshes 0 < INT_MAX ∧
      (vp8_rd_pick_inter_mode stdConfig noSeg (flatExt flatBench) cpi3 (benchX 1000)
        benchLocals).x.mbmi.mode = ZEROMV ∧
      (vp8_rd_pick_inter_mode stdConfig noSeg (flatExt flatBench) cpi3 (benchX 1000)
        benchLocals).x.skip = true :=
  ⟨by decide,
    (c25_static_breakout stdConfig noSeg (flatExt flatBench) cpi3 (benchX 1000) benchLocals
      (by decide) (by decide) (fun h => by cases h) (by decide) (by decide) (by decide)
      (by decide) (by decide) (by decide)).1,
    (c25_static_breakout stdConfig noSeg (flatExt flatBench) cpi3 (benchX 1000) benchLocals
      (by decide) (by decide) (fun h => by cases h) (by decide) (by decide) (by decide)
      (by decide) (by decide) (by decide)).2.2.2.1⟩

end ClaimsStatic

section ClaimsSplit

variable {W : Type}

/-- Claim C24, counterexample: on concrete macroblock 5 with every candidate
enabled, the call with the SPLITMV candidates ends with the best RD cost
1000 (rate 100, distortion 900, the SPLITMV / LAST_FRAME candidate), the call
without them with 150 (rate 100, distortion 50, the B_PRED candidate).  The
partition search lowers the luma cost to beat (`best_yrd`) to 100, and the
intra 4x4 search, whose luma cost is 150, then gives up. -/
theorem c24_split_counterexample :
    (vp8_rd_pick_inter_mode stdConfig noSeg splitPaysExt cpi3 (benchX 0)
        benchLocals).l.best_rd = 1000 ∧
      (vp8_rd_pick_inter_mode stdConfig noSeg splitPaysExt (cpi3.withoutSplit stdConfig)
        (benchX 0) benchLocals).l.best_rd = 150 ∧
      ¬ ((vp8_rd_pick_inter_mode stdConfig noSeg splitPaysExt cpi3 (benchX 0)
          benchLocals).l.best_rd ≤
        (vp8_rd_pick_inter_mode stdConfig noSeg splitPaysExt (cpi3.withoutSplit stdConfig)
          (benchX 0) benchLocals).l.best_rd) ∧
      ((vp8_rd_pick_inter_mode stdConfig noSeg splitPaysExt cpi3 (benchX 0)
          benchLocals).l.returnrate,
        (vp8_rd_pick_inter_mode stdConfig noSeg splitPaysExt cpi3 (benchX 0)
          benchLocals).l.returndistortion) = (100, 900) ∧
      ((vp8_rd_pick_inter_mode stdConfig noSeg splitPaysExt (cpi3.withoutSplit stdConfig)
          (benchX 0) benchLocals).l.returnrate,
        (vp8_rd_pick_inter_mode stdConfig noSeg splitPaysExt (cpi3.withoutSplit stdConfig)
          (benchX 0) benchLocals).l.returndistortion) = (100, 50) ∧
      (pickTrace stdConfig noSeg splitPaysExt cpi3 (benchX 0) benchLocals).drop 15 =
        [(15, Event.evaluated 5000 false false false),
         (16, Event.evaluated 1000 true true false),
         (17, Event.evaluated INT_MAX false false false),
         (18, Event.evaluated INT_MAX false false false),
         (19, Event.evaluated INT_MAX false false false),
         (20, Event.evaluated INT_MAX false false false)] ∧
      (pickTrace stdConfig noSeg splitPaysExt (cpi3.withoutSplit stdConfig) (benchX 0)
          benchLocals).drop 15 =
        [(15, Event.evaluated 5000 false false false),
         (16, Event.thresholdSkip), (17, Event.thresholdSkip), (18, Event.thresholdSkip),
         (19, Event.evaluated 150 true true false),
         (20, Event.evaluated INT_MAX false false false)] ∧
      (pickTrace stdConfig noSeg splitPaysExt cpi3 (benchX 0) benchLocals).take 15 =
        (pickTrace stdConfig noSeg splitPaysExt (cpi3.withoutSplit stdConfig) (benchX 0)
          benchLocals).take 15 := by
  decide

/-- Claim C24, amended: take the same call of `vp8_rd_pick_inter_mode` once
as it is and once with the thresholds of the SPLITMV candidates set to
`INT_MAX`, and let no SPLITMV candidate reach the comparison of line 2894
with `x->skip` set.  Then right behind the last SPLITMV candidate (candidate
18) the best RD cost of the run without SPLITMV is not below the one of the
run with SPLITMV; and when every candidate behind the SPLITMV candidates is
disabled in the call, the same holds for `best_rd` at the end of the two
calls.  The run without SPLITMV differs in the thresholds of the SPLITMV
candidates only. -/
theorem c24_split_not_worse (cfg : Config) (seg : Seg) (ext : Ext W) (cpi : VP8_COMP)
    (x : MACROBLOCK W) (l0 : Locals)
    (hskip : ∀ e ∈ pickTrace cfg seg ext cpi x l0,
      (vp8_mode_order cfg).getD e.1 DC_PRED = SPLITMV → e.2.skipSet = false) :
    (modeLoop cfg seg ext (List.range 19) (pickInit cfg ext cpi x l0)).l.best_rd ≤
        (modeLoop cfg seg ext (List.range 19)
          (pickInit cfg ext (cpi.withoutSplit cfg) x l0)).l.best_rd ∧
      ((∀ k, 19 ≤ k → cpi.rd_threshes k = INT_MAX) →
        (vp8_rd_pick_inter_mode cfg seg ext cpi x l0).l.best_rd ≤
          (vp8_rd_pick_inter_mode cfg seg ext (cpi.withoutSplit cfg) x l0).l.best_rd) ∧
      (∀ k, (cpi.withoutSplit cfg).rd_threshes k =
        if (vp8_mode_order cfg).getD k DC_PRED = SPLITMV then INT_MAX
        else cpi.rd_threshes k) ∧
      { cpi.withoutSplit cfg with rd_threshes := cpi.rd_threshes } = cpi := by
  have hb : (pickInit cfg ext cpi x l0).l.best_rd ≤ INT_MAX :=
    le_of_eq (pickInit_best cfg ext cpi x l0).1
  have hfront : ∀ (js : List Nat), (∀ j ∈ js, 16 ≤ j) →
      ∀ i ∈ List.range 16, (vp8_mode_order cfg).getD i DC_PRED ≠ SPLITMV ∧ i ∉ js := by
    intro js hjs i hi
    refine ⟨mode_order_front cfg i hi, fun h => ?_⟩
    have h1 := hjs i h
    have h2 := List.mem_range.1 hi
    omega
  refine ⟨?_, ?_, fun k => rfl, rfl⟩
  · rw [pickInit_wo, range_19_split]
    refine modeLoop_withoutSplit cfg seg ext [16, 17, 18] (List.range 16) _
      (hfront _ ?_) hb (fun j hj => Or.inl (mode_order_split cfg j hj)) ?_
    · intro j hj
      simp only [List.mem_cons, List.mem_singleton, List.not_mem_nil, or_false] at hj
      omega
    · intro e he
      refine hskip e ?_
      unfold pickTrace
      rw [range_max_split, ← List.append_assoc]
      exact modeTrace_append_mem cfg seg ext _ _ _ e he
  · intro hlater
    unfold vp8_rd_pick_inter_mode
    rw [finishPick_best_rd, finishPick_best_rd]
    unfold pickLoop
    rw [pickInit_wo, range_max_split]
    refine modeLoop_withoutSplit cfg seg ext _ (List.range 16) _
      (hfront _ ?_) hb ?_ ?_
    · intro j hj
      rcases List.mem_append.1 hj with h | h
      · simp only [List.mem_cons, List.mem_singleton, List.not_mem_nil, or_false] at h
        omega
      · have := (List.mem_range'_1.1 h).1
        omega
    · intro j hj
      rcases List.mem_append.1 hj with h | h
      · exact Or.inl (mode_order_split cfg j h)
      · refine Or.inr ?_
        rw [(pickInit_threshes cfg ext cpi x l0).1]
        exact hlater j (List.mem_range'_1.1 h).1
    · intro e he
      refine hskip e ?_
      unfold pickTrace
      rw [range_max_split]
      exact he

/-- Claim C24, witness: concrete macroblock 5 with only the candidates
ZEROMV / LAST_FRAME and SPLITMV / LAST_FRAME enabled; the call ends with the
best RD cost 1000, the call without SPLITMV with 5000. -/
theorem c24_split_not_worse_witness :
    (vp8_rd_pick_inter_mode stdConfig noSeg splitPaysExt cpiSplit (benchX 0)
        benchLocals).l.best_rd = 1000 ∧
      (vp8_rd_pick_inter_mode stdConfig noSeg splitPaysExt (cpiSplit.withoutSplit stdConfig)
        (benchX 0) benchLocals).l.best_rd = 5000 ∧
      (vp8_rd_pick_inter_mode stdConfig noSeg splitPaysExt cpiSplit (benchX 0)
          benchLocals).l.best_rd ≤
        (vp8_rd_pick_inter_mode stdConfig noSeg splitPaysExt
          (cpiSplit.withoutSplit stdConfig) (benchX 0) benchLocals).l.best_rd :=
  ⟨by decide, by decide,
    (c24_split_not_worse stdConfig noSeg splitPaysExt cpiSplit (benchX 0) benchLocals
      (by decide)).2.1
      (fun k hk => by
        unfold cpiSplit benchCpi onlyCandidates
        dsimp only
        rw [if_neg]
        simp only [List.mem_cons, List.mem_singleton, List.not_mem_nil, or_false]
        omega)⟩

end ClaimsSplit

section ClaimsAlloc

variable {M B : Type}

/-- Claim C26: `vp8_alloc_frame_buffers` returns 0 or 1.  It returns 0
exactly when every allocation succeeds: the `NUM_YV12_BUFFERS` frame
buffers, `temp_scale_frame`, `post_proc_buffer`, `mip`, `prev_mip` and
`above_context`, asked of `vp8_yv12_alloc_frame_buffer` and `vpx_calloc` in
this order, each on the memory the one before left; and it returns 1 exactly
when one of them fails.  The record of the call lists these allocations with
the answers the routines gave, up to the first that failed.  When it returns
1 the state is the one left by `vp8_de_alloc_frame_buffers`, and
`above_context`, `mip` and `prev_mip` are null. -/
theorem c26_alloc_reports_failure (k : AllocConsts) (o : AllocExt M B)
    (st : AllocState M B) (width height : Int) :
    ((vp8_alloc_frame_buffers k o st width height).2 = 0 ∨
      (vp8_alloc_frame_buffers k o st width height).2 = 1) ∧
    ((vp8_alloc_frame_buffers k o st width height).2 = 0 ↔
      allocationsSucceed k o st width height = true) ∧
    ((vp8_alloc_frame_buffers k o st width height).2 = 1 ↔
      allocationsSucceed k o st width height = false) ∧
    (allocRun k o st width height).log.map AllocEvent.outcome =
      allocResults k o (vp8_de_alloc_frame_buffers k o st).oci (alignDim width)
        (alignDim height) (allSites k) (vp8_de_alloc_frame_buffers k o st).mem ∧
    ((vp8_alloc_frame_buffers k o st width height).2 = 0 ↔
      (allocRun k o st width height).log.map AllocEvent.site = allSites k ∧
        ∀ e ∈ (allocRun k o st width height).log, e.ok = true) ∧
    ((vp8_alloc_frame_buffers k o st width height).2 = 1 ↔
      ∃ e ∈ (allocRun k o st width height).log, e.ok = false) ∧
    (allocRun k o st width height).log.map AllocEvent.site <+: allSites k ∧
    ((vp8_alloc_frame_buffers k o st width height).2 = 1 →
      (∃ st1, (vp8_alloc_frame_buffers k o st width height).1 =
        vp8_de_alloc_frame_buffers k o st1) ∧
      (vp8_alloc_frame_buffers k o st width height).1.oci.above_context = 0 ∧
      (vp8_alloc_frame_buffers k o st width height).1.oci.mip = 0 ∧
      (vp8_alloc_frame_buffers k o st width height).1.oci.prev_mip = 0) := by
  obtain ⟨h1, h2, h3, h4, h5⟩ := allocRun_spec k o st width height
  have hres := allocRun_results k o st width height
  have hall : allocationsSucceed k o st width height = true ↔
      ∀ e ∈ (allocRun k o st width height).log, e.ok = true := by
    unfold allocationsSucceed
    rw [← hres, List.all_eq_true]
    constructor
    · intro h e he
      exact h e.outcome (List.mem_map_of_mem _ he)
    · intro h p hp
      obtain ⟨e, he, hep⟩ := List.mem_map.1 hp
      rw [← hep]
      exact h e he
  have hone : (allocRun k o st width height).ret = 1 ↔
      allocationsSucceed k o st width height = false := by
    rw [h3]
    constructor
    · rintro ⟨e, he, hf⟩
      cases hc : allocationsSucceed k o st width height
      · rfl
      · have := hall.1 hc e he
        rw [hf] at this
        cases this
    · intro hf
      by_contra hne
      have : allocationsSucceed k o st width height = true := by
        apply hall.2
        intro e he
        cases hc : e.ok
        · exact absurd ⟨e, he, hc⟩ hne
        · rfl
      rw [hf] at this
      cases this
  have hzero : (allocRun k o st width height).ret = 0 ↔
      allocationsSucceed k o st width height = true := by
    constructor
    · intro h0
      cases hc : allocationsSucceed k o st width height
      · have := hone.2 hc
        rw [h0] at this
        cases this
      · rfl
    · intro ht
      rcases h1 with h0 | h0
      · exact h0
      · have := hone.1 h0
        rw [ht] at this
        cases this
  refine ⟨h1, hzero, hone, hres, h2, h3, h5, ?_⟩
  intro h
  obtain ⟨st1, hst⟩ := h4 h
  refine ⟨⟨st1, hst⟩, ?_⟩
  show (allocRun k o st width height).st.oci.above_context = 0 ∧
    (allocRun k o st width height).st.oci.mip = 0 ∧
    (allocRun k o st width height).st.oci.prev_mip = 0
  rw [hst]
  exact dealloc_null k o st1

/-- Claim C26 on two concrete machines.  With six blocks of memory the first
six allocations succeed and the seventh, `mip`, fails: the call returns 1
with `above_context`, `mip` and `prev_mip` null.  With nine blocks all nine
allocations succeed and the call returns 0. -/
theorem c26_alloc_reports_failure_witness :
    allocResults stdAlloc scarcePool
        (vp8_de_alloc_frame_buffers stdAlloc scarcePool { oci := freshCommon, mem := 6 }).oci
        (alignDim 640) (alignDim 480) (allSites stdAlloc)
        (vp8_de_alloc_frame_buffers stdAlloc scarcePool { oci := freshCommon, mem := 6 }).mem =
        [(AllocSite.frame 0, true), (AllocSite.frame 1, true), (AllocSite.frame 2, true),
         (AllocSite.frame 3, true), (AllocSite.temp_scale_frame, true),
         (AllocSite.post_proc_buffer, true), (AllocSite.mip, false)] ∧
      (vp8_alloc_frame_buffers stdAlloc scarcePool { oci := freshCommon, mem := 6 }
        640 480).2 = 1 ∧
      (vp8_alloc_frame_buffers stdAlloc scarcePool { oci := freshCommon, mem := 6 }
        640 480).1.oci.above_context = 0 ∧
      (vp8_alloc_frame_buffers stdAlloc scarcePool { oci := freshCommon, mem := 6 }
        640 480).1.oci.mip = 0 ∧
      (vp8_alloc_frame_buffers stdAlloc scarcePool { oci := freshCommon, mem := 6 }
        640 480).1.oci.prev_mip = 0 ∧
      allocationsSucceed stdAlloc scarcePool { oci := freshCommon, mem := 9 } 640 480 = true ∧
      (vp8_alloc_frame_buffers stdAlloc scarcePool { oci := freshCommon, mem := 9 }
        640 480).2 = 0 :=
  ⟨by decide,
    (c26_alloc_reports_failure stdAlloc scarcePool { oci := freshCommon, mem := 6 }
      640 480).2.2.1.2 (by decide),
    ((c26_alloc_reports_failure stdAlloc scarcePool { oci := freshCommon, mem := 6 }
      640 480).2.2.2.2.2.2.2
      ((c26_alloc_reports_failure stdAlloc scarcePool { oci := freshCommon, mem := 6 }
        640 480).2.2.1.2 (by decide))).2.1,
    ((c26_alloc_reports_failure stdAlloc scarcePool { oci := freshCommon, mem := 6 }
      640 480).2.2.2.2.2.2.2
      ((c26_alloc_reports_failure stdAlloc scarcePool { oci := freshCommon, mem := 6 }
        640 480).2.2.1.2 (by decide))).2.2.1,
    ((c26_alloc_reports_failure stdAlloc scarcePool { oci := freshCommon, mem := 6 }
      640 480).2.2.2.2.2.2.2
      ((c26_alloc_reports_failure stdAlloc scarcePool { oci := freshCommon, mem := 6 }
        640 480).2.2.1.2 (by decide))).2.2.2,
    by decide,
    (c26_alloc_reports_failure stdAlloc scarcePool { oci := freshCommon, mem := 9 }
      640 480).2.1.2 (by decide)⟩

/-- Claim C27, counterexample: on a machine where every allocation succeeds,
the call with width 2147483647 and height 16 returns 0 with `mb_cols =
-134217728`, while the width over 16, rounded up, is 134217728; and the call
with width and height 1048576 returns 0 with `mb_rows = mb_cols = 65536` and
`MBs = 0`. -/
theorem c27_dimension_counterexample :
    (vp8_alloc_frame_buffers stdAlloc amplePool { oci := freshCommon, mem := () }
        2147483647 16).2 = 0 ∧
      (vp8_alloc_frame_buffers stdAlloc amplePool { oci := freshCommon, mem := () }
        2147483647 16).1.oci.mb_cols = -134217728 ∧
      ⌈((2147483647 : Int) : ℚ) / 16⌉ = 134217728 ∧
      alignDim 2147483647 = -2147483648 ∧
      (vp8_alloc_frame_buffers stdAlloc amplePool { oci := freshCommon, mem := () }
        1048576 1048576).2 = 0 ∧
      (vp8_alloc_frame_buffers stdAlloc amplePool { oci := freshCommon, mem := () }
        1048576 1048576).1.oci.mb_rows = 65536 ∧
      (vp8_alloc_frame_buffers stdAlloc amplePool { oci := freshCommon, mem := () }
        1048576 1048576).1.oci.mb_cols = 65536 ∧
      (vp8_alloc_frame_buffers stdAlloc amplePool { oci := freshCommon, mem := () }
        1048576 1048576).1.oci.MBs = 0 := by
  refine ⟨by decide, by decide, ?_, by decide, by decide, by decide, by decide, by decide⟩
  rw [ceil_div_16]
  decide

/-- Claim C27, amended: for a width and a height from 1 to `INT_MAX - 15`
(2147483632), a successful `vp8_alloc_frame_buffers` allocates its frame
buffers with the dimensions raised to the next multiple of 16 (16 rows for
`temp_scale_frame`), a multiple of 16 being left as it is, and stores
`mb_cols = ceil(width / 16)`, `mb_rows = ceil(height / 16)`,
`mode_info_stride = mb_cols + 1` and in `MBs` the 32-bit product of
`mb_rows` and `mb_cols`, which is their product when that is at most
`INT_MAX`. -/
theorem c27_dimensions (k : AllocConsts) (o : AllocExt M B) (st : AllocState M B)
    (width height : Int) (hw1 : 1 ≤ width) (hw2 : width ≤ INT_MAX - 15)
    (hh1 : 1 ≤ height) (hh2 : height ≤ INT_MAX - 15)
    (hret : (vp8_alloc_frame_buffers k o st width height).2 = 0) :
    (vp8_alloc_frame_buffers k o st width height).1.oci.mb_cols = ⌈(width : ℚ) / 16⌉ ∧
    (vp8_alloc_frame_buffers k o st width height).1.oci.mb_rows = ⌈(height : ℚ) / 16⌉ ∧
    (vp8_alloc_frame_buffers k o st width height).1.oci.MBs =
      wrap32 ((vp8_alloc_frame_buffers k o st width height).1.oci.mb_rows *
        (vp8_alloc_frame_buffers k o st width height).1.oci.mb_cols) ∧
    ((vp8_alloc_frame_buffers k o st width height).1.oci.mb_rows *
        (vp8_alloc_frame_buffers k o st width height).1.oci.mb_cols ≤ INT_MAX →
      (vp8_alloc_frame_buffers k o st width height).1.oci.MBs =
        (vp8_alloc_frame_buffers k o st width height).1.oci.mb_rows *
          (vp8_alloc_frame_buffers k o st width height).1.oci.mb_cols) ∧
    (vp8_alloc_frame_buffers k o st width height).1.oci.mode_info_stride =
      (vp8_alloc_frame_buffers k o st width height).1.oci.mb_cols + 1 ∧
    (∀ e ∈ (allocRun k o st width height).log,
      ((∃ i, e.site = AllocSite.frame i) ∨ e.site = AllocSite.post_proc_buffer →
        e.a = 16 * ⌈(width : ℚ) / 16⌉ ∧ e.b = 16 * ⌈(height : ℚ) / 16⌉) ∧
      (e.site = AllocSite.temp_scale_frame → e.a = 16 * ⌈(width : ℚ) / 16⌉ ∧ e.b = 16)) ∧
    (allocRun k o st width height).log.map AllocEvent.site = allSites k ∧
    (width % 16 = 0 → 16 * ⌈(width : ℚ) / 16⌉ = width) ∧
    (height % 16 = 0 → 16 * ⌈(height : ℚ) / 16⌉ = height) := by
  obtain ⟨c1, c2, c3, c4⟩ := allocRun_counts k o st width height hret
  obtain ⟨w1, w2, _, _, _, w6⟩ := alignDim_exact width hw1 hw2
  obtain ⟨g1, g2, _, _, _, g6⟩ := alignDim_exact height hh1 hh2
  have hsites := ((allocRun_spec k o st width height).2.1.1 hret).1
  rw [ceil_div_16, ceil_div_16]
  show (allocRun k o st width height).st.oci.mb_cols = _ ∧
    (allocRun k o st width height).st.oci.mb_rows = _ ∧
    (allocRun k o st width height).st.oci.MBs =
      wrap32 ((allocRun k o st width height).st.oci.mb_rows *
        (allocRun k o st width height).st.oci.mb_cols) ∧
    ((allocRun k o st width height).st.oci.mb_rows *
        (allocRun k o st width height).st.oci.mb_cols ≤ INT_MAX →
      (allocRun k o st width height).st.oci.MBs =
        (allocRun k o st width height).st.oci.mb_rows *
          (allocRun k o st width height).st.oci.mb_cols) ∧
    (allocRun k o st width height).st.oci.mode_info_stride =
      (allocRun k o st width height).st.oci.mb_cols + 1 ∧ _
  rw [c1, c2, c3, c4, w2, g2]
  have hc : 0 ≤ (width + 15) / 16 ∧ (width + 15) / 16 ≤ 134217727 := by
    unfold INT_MAX at hw2
    constructor <;> omega
  have hr : 0 ≤ (height + 15) / 16 := by omega
  refine ⟨rfl, rfl, rfl, ?_, ?_, ?_, hsites, ?_, ?_⟩
  · intro hle
    unfold imul
    refine wrap32_eq_self ⟨?_, hle⟩
    have := mul_nonneg hr hc.1
    unfold INT_MIN
    omega
  · unfold iadd
    refine wrap32_eq_self ⟨?_, ?_⟩
    · unfold INT_MIN
      omega
    · unfold INT_MAX
      omega
  · intro e he
    have := allocRun_dims k o st width height e he
    rw [w1, g1] at this
    exact this
  · intro h
    rw [← w1]
    exact w6 h
  · intro h
    rw [← g1]
    exact g6 h

/-- Claim C27, witness: width 17 and height 33 on a machine where every
allocation succeeds give `mb_cols = 2`, `mb_rows = 3`, `MBs = 6` and
`mode_info_stride = 3`. -/
theorem c27_dimensions_witness :
    (vp8_alloc_frame_buffers stdAlloc amplePool { oci := freshCommon, mem := () }
        17 33).2 = 0 ∧
      ((vp8_alloc_frame_buffers stdAlloc amplePool { oci := freshCommon, mem := () }
          17 33).1.oci.mb_cols,
        (vp8_alloc_frame_buffers stdAlloc amplePool { oci := freshCommon, mem := () }
          17 33).1.oci.mb_rows,
        (vp8_alloc_frame_buffers stdAlloc amplePool { oci := freshCommon, mem := () }
          17 33).1.oci.MBs,
        (vp8_alloc_frame_buffers stdAlloc amplePool { oci := freshCommon, mem := () }
          17 33).1.oci.mode_info_stride) = (2, 3, 6, 3) ∧
      (vp8_alloc_frame_buffers stdAlloc amplePool { oci := freshCommon, mem := () }
        17 33).1.oci.mb_cols = ⌈((17 : Int) : ℚ) / 16⌉ :=
  ⟨by decide, by decide,
    (c27_dimensions stdAlloc amplePool { oci := freshCommon, mem := () } 17 33
      (by decide) (by decide) (by decide) (by decide) (by decide)).1⟩

/-- A machine with six blocks of memory: the call makes seven allocations,
the seventh (`mip`) fails, and it returns 1 with `mip` null; with nine blocks
it makes all nine allocations and returns 0. -/
theorem alloc_scarce_example :
    (vp8_alloc_frame_buffers stdAlloc scarcePool { oci := freshCommon, mem := 6 }
        640 480).2 = 1 ∧
      (allocRun stdAlloc scarcePool { oci := freshCommon, mem := 6 } 640 480).log.map
          (fun e => (e.site, e.ok)) =
        [(AllocSite.frame 0, true), (AllocSite.frame 1, true), (AllocSite.frame 2, true),
         (AllocSite.frame 3, true), (AllocSite.temp_scale_frame, true),
         (AllocSite.post_proc_buffer, true), (AllocSite.mip, false)] ∧
      (vp8_alloc_frame_buffers stdAlloc scarcePool { oci := freshCommon, mem := 6 }
        640 480).1.oci.mip = 0 ∧
      (vp8_alloc_frame_buffers stdAlloc scarcePool { oci := freshCommon, mem := 9 }
        640 480).2 = 0 ∧
      (vp8_alloc_frame_buffers stdAlloc scarcePool { oci := freshCommon, mem := 9 }
        640 480).1.oci.MBs = 1200 := by
  decide

end ClaimsAlloc

section ClaimsIntra

variable {W P : Type}

/-- Claim C21: the comparison of lines 3156-3185 in terms of the three
costs, and its three ties.  The chosen mode is `B_PRED` when `error4x4` is
below the smaller of the two other costs, otherwise `I8X8_PRED` when
`error8x8 <= error16x16`, otherwise the 16x16 mode.  A tie of 4x4 with 16x16
goes to 16x16 and a tie of 4x4 with 8x8 goes to 8x8, but a tie of 16x16 with
8x8 goes to 8x8 (or to 4x4), never to 16x16: on the concrete macroblock with
`error16x16 = error8x8 = 100` and `error4x4 = INT_MAX` the function chooses
`I8X8_PRED` with the rate 60, not the 16x16 mode `V_PRED` with the rate 70. -/
theorem c21_tie_16x16_8x8 :
    (∀ (cfg : Config) (seg : Seg) (ext : Ext W) (ix : IntraExt W) (x : MACROBLOCK W)
        (st : IntraStale),
      (vp8_rd_pick_intra_mode cfg seg ext ix x st).1.mbmi.mode =
          (if (intraCosts cfg seg ext ix x st).error8x8 >
              (intraCosts cfg seg ext ix x st).error16x16 then
            (if (intraCosts cfg seg ext ix x st).error4x4 <
                (intraCosts cfg seg ext ix x st).error16x16 then B_PRED
             else (intraCosts cfg seg ext ix x st).mode16x16)
           else
            (if (intraCosts cfg seg ext ix x st).error4x4 <
                (intraCosts cfg seg ext ix x st).error8x8 then B_PRED
             else I8X8_PRED)) ∧
        ((intraCosts cfg seg ext ix x st).error4x4 =
            (intraCosts cfg seg ext ix x st).error16x16 →
          (intraCosts cfg seg ext ix x st).error16x16 <
            (intraCosts cfg seg ext ix x st).error8x8 →
          (vp8_rd_pick_intra_mode cfg seg ext ix x st).1.mbmi.mode =
            (intraCosts cfg seg ext ix x st).mode16x16) ∧
        ((intraCosts cfg seg ext ix x st).error4x4 =
            (intraCosts cfg seg ext ix x st).error8x8 →
          (intraCosts cfg seg ext ix x st).error8x8 ≤
            (intraCosts cfg seg ext ix x st).error16x16 →
          (vp8_rd_pick_intra_mode cfg seg ext ix x st).1.mbmi.mode = I8X8_PRED) ∧
        ((intraCosts cfg seg ext ix x st).error8x8 =
            (intraCosts cfg seg ext ix x st).error16x16 →
          (vp8_rd_pick_intra_mode cfg seg ext ix x st).1.mbmi.mode = I8X8_PRED ∨
            (vp8_rd_pick_intra_mode cfg seg ext ix x st).1.mbmi.mode = B_PRED)) ∧
      (intraCosts stdConfig noSeg tieExt (pick16 100) (benchX 0) zeroStale).error16x16 = 100 ∧
      (intraCosts stdConfig noSeg tieExt (pick16 100) (benchX 0) zeroStale).error8x8 = 100 ∧
      (intraCosts stdConfig noSeg tieExt (pick16 100) (benchX 0) zeroStale).error4x4 =
        INT_MAX ∧
      (intraCosts stdConfig noSeg tieExt (pick16 100) (benchX 0) zeroStale).mode16x16 =
        V_PRED ∧
      (intraCosts stdConfig noSeg tieExt (pick16 100) (benchX 0) zeroStale).rate16x16 = 70 ∧
      (vp8_rd_pick_intra_mode stdConfig noSeg tieExt (pick16 100) (benchX 0)
        zeroStale).1.mbmi.mode = I8X8_PRED ∧
      (vp8_rd_pick_intra_mode stdConfig noSeg tieExt (pick16 100) (benchX 0)
        zeroStale).2 = 60 := by
  refine ⟨?_, by decide, by decide, by decide, by decide, by decide, by decide, by decide⟩
  intro cfg seg ext ix x st
  have h := chooseIntra_mode (intraCosts cfg seg ext ix x st)
  refine ⟨h, ?_, ?_, ?_⟩
  · intro h1 h2
    show (chooseIntra (intraCosts cfg seg ext ix x st)).1.mbmi.mode = _
    rw [h, if_pos h2, if_neg (by rw [h1]; exact lt_irrefl _)]
  · intro h1 h2
    show (chooseIntra (intraCosts cfg seg ext ix x st)).1.mbmi.mode = _
    rw [h, if_neg (not_lt.2 h2), if_neg (by rw [h1]; exact lt_irrefl _)]
  · intro h1
    show (chooseIntra (intraCosts cfg seg ext ix x st)).1.mbmi.mode = _ ∨
      (chooseIntra (intraCosts cfg seg ext ix x st)).1.mbmi.mode = _
    rw [h, if_neg (by rw [h1]; exact lt_irrefl _)]
    split
    · exact Or.inr rfl
    · exact Or.inl rfl

/-- Claim C22, counterexample: with the enumerators of `B_PREDICTION_MODE`
the loop from `B_DC_PRED` to `B_HU_PRED` evaluates 10 modes, the modes 0 to
9, not 9.  On the concrete block every one of them has the RD cost `INT_MAX`
(rate 11, distortion 536870909, `rddiv = 4`).  The function returns
`INT_MAX`, the minimum, and the first mode attaining it is mode 0 with rate
11, coefficient rate 7 and distortion 536870909; but `*best_mode`,
`*bestrate`, `*bestratey` and `*bestdistortion` still hold what they held on
entry (77, -1, -1, -1). -/
theorem c22_unwritten_counterexample :
    (stdIntra.B_DC_PRED, stdIntra.B_HU_PRED) =
        (B_PREDICTION_MODE.B_DC_PRED.index, B_PREDICTION_MODE.B_HU_PRED.index) ∧
      (rd_pick_intra4x4block stdIntra (plainExt 0) (blockOf (fun _ => 2147483636)) 3
        (fun _ => 4) (blockEntry 4)).evals.length = 10 ∧
      (rd_pick_intra4x4block stdIntra (plainExt 0) (blockOf (fun _ => 2147483636)) 3
        (fun _ => 4) (blockEntry 4)).evals.length ≠ 9 ∧
      (rd_pick_intra4x4block stdIntra (plainExt 0) (blockOf (fun _ => 2147483636)) 3
        (fun _ => 4) (blockEntry 4)).best_rd = INT_MAX ∧
      (rd_pick_intra4x4block stdIntra (plainExt 0) (blockOf (fun _ => 2147483636)) 3
          (fun _ => 4) (blockEntry 4)).evals.map
          (fun e => (e.mode, e.rate, e.ratey, e.distortion, e.this_rd)) =
        (List.range 10).map
          (fun (j : Nat) => ((j : Int), (11 : Int), (7 : Int), (536870909 : Int), INT_MAX)) ∧
      ((rd_pick_intra4x4block stdIntra (plainExt 0) (blockOf (fun _ => 2147483636)) 3
          (fun _ => 4) (blockEntry 4)).best_mode,
        (rd_pick_intra4x4block stdIntra (plainExt 0) (blockOf (fun _ => 2147483636)) 3
          (fun _ => 4) (blockEntry 4)).bestrate,
        (rd_pick_intra4x4block stdIntra (plainExt 0) (blockOf (fun _ => 2147483636)) 3
          (fun _ => 4) (blockEntry 4)).bestratey,
        (rd_pick_intra4x4block stdIntra (plainExt 0) (blockOf (fun _ => 2147483636)) 3
          (fun _ => 4) (blockEntry 4)).bestdistortion) = (77, -1, -1, -1) := by
  decide

/-- Claim C22, amended: in the build without `CONFIG_SUPERBLOCKS`,
`rd_pick_intra4x4block` evaluates every mode from `B_DC_PRED` to `B_HU_PRED`
once and in this order (`B_HU_PRED - B_DC_PRED + 1` modes: 10 with the
enumerators of `B_PREDICTION_MODE`), each from the entropy contexts `*a` and `*l` of the entry, with the cost
`RDCOST(mode cost + coefficient cost, distortion)`; it returns the least of
these costs; and when that is below `INT_MAX`, `*best_mode`, `*bestrate`,
`*bestratey`, `*bestdistortion`, `*a` and `*l` hold the values of the first
mode attaining it.  When no mode comes below `INT_MAX` the function returns
`INT_MAX` and leaves all of them as they were. -/
theorem c22_block_search_minimum (k : IntraConsts) (ext : Ext W) (bx : BlockExt W P)
    (i : Nat) (costs : Int → Int) (s0 : Block4x4 W P)
    (hsb : k.CONFIG_SUPERBLOCKS = false) :
    (rd_pick_intra4x4block k ext bx i costs s0).evals.map ModeEval.mode = blockModes k ∧
    ((rd_pick_intra4x4block k ext bx i costs s0).evals.length =
        (k.B_HU_PRED - k.B_DC_PRED + 1).toNat ∧
      (k.B_HU_PRED - k.B_DC_PRED =
          B_PREDICTION_MODE.B_HU_PRED.index - B_PREDICTION_MODE.B_DC_PRED.index →
        (rd_pick_intra4x4block k ext bx i costs s0).evals.length = 10)) ∧
    (∀ e ∈ (rd_pick_intra4x4block k ext bx i costs s0).evals,
      (∃ x, e = evalBlockMode k ext bx x i costs s0.a s0.l e.mode) ∧
        e.rate = iadd (wrap32 (costs e.mode)) e.ratey ∧
        e.this_rd = rdcost ext e.x e.rate e.distortion) ∧
    (∀ e ∈ (rd_pick_intra4x4block k ext bx i costs s0).evals,
      (rd_pick_intra4x4block k ext bx i costs s0).best_rd ≤ e.this_rd) ∧
    ((rd_pick_intra4x4block k ext bx i costs s0).evals ≠ [] →
      ∃ e ∈ (rd_pick_intra4x4block k ext bx i costs s0).evals,
        e.this_rd = (rd_pick_intra4x4block k ext bx i costs s0).best_rd) ∧
    ((rd_pick_intra4x4block k ext bx i costs s0).best_rd < INT_MAX →
      ∃ pre e post, (rd_pick_intra4x4block k ext bx i costs s0).evals = pre ++ e :: post ∧
        (∀ f ∈ pre, (rd_pick_intra4x4block k ext bx i costs s0).best_rd < f.this_rd) ∧
        e.this_rd = (rd_pick_intra4x4block k ext bx i costs s0).best_rd ∧
        (rd_pick_intra4x4block k ext bx i costs s0).best_mode = e.mode ∧
        (rd_pick_intra4x4block k ext bx i costs s0).bestrate = e.rate ∧
        (rd_pick_intra4x4block k ext bx i costs s0).bestratey = e.ratey ∧
        (rd_pick_intra4x4block k ext bx i costs s0).bestdistortion = e.distortion ∧
        (rd_pick_intra4x4block k ext bx i costs s0).a = e.tempa ∧
        (rd_pick_intra4x4block k ext bx i costs s0).l = e.templ) ∧
    ((rd_pick_intra4x4block k ext bx i costs s0).best_rd = INT_MAX →
      (rd_pick_intra4x4block k ext bx i costs s0).best_mode = s0.best_mode ∧
        (rd_pick_intra4x4block k ext bx i costs s0).bestrate = s0.bestrate ∧
        (rd_pick_intra4x4block k ext bx i costs s0).bestratey = s0.bestratey ∧
        (rd_pick_intra4x4block k ext bx i costs s0).bestdistortion = s0.bestdistortion ∧
        (rd_pick_intra4x4block k ext bx i costs s0).a = s0.a ∧
        (rd_pick_intra4x4block k ext bx i costs s0).l = s0.l) ∧
    (rd_pick_intra4x4block k ext bx i costs s0).best_rd ≤ INT_MAX := by
  have hinit : BlockInv bx i s0 { s0 with best_rd := INT_MAX, evals := [] } :=
    Or.inl ⟨rfl, ⟨rfl, rfl, rfl, rfl, rfl, rfl, rfl⟩, fun e he => by cases he⟩
  have hinv := blockLoop_inv k ext bx i costs s0.a s0.l s0 (blockModes k) _ hinit
  obtain ⟨es, h1, h2, h3⟩ := blockLoop_evals k ext bx i costs s0.a s0.l hsb (blockModes k)
    { s0 with best_rd := INT_MAX, evals := [] }
  rw [List.nil_append] at h1
  generalize hs : (blockModes k).foldl (blockModeStep k ext bx i costs s0.a s0.l)
    { s0 with best_rd := INT_MAX, evals := [] } = s at hinv h1
  have hr : ∀ (f : Block4x4 W P → Int),
      (f = Block4x4.best_rd ∨ f = Block4x4.best_mode ∨ f = Block4x4.bestrate ∨
        f = Block4x4.bestratey ∨ f = Block4x4.bestdistortion ∨ f = Block4x4.a ∨
        f = Block4x4.l) →
      f (rd_pick_intra4x4block k ext bx i costs s0) = f s := by
    intro f hf
    unfold rd_pick_intra4x4block
    dsimp only
    rw [hs]
    rcases hf with h | h | h | h | h | h | h <;> (rw [h])
  have he : (rd_pick_intra4x4block k ext bx i costs s0).evals = s.evals := by
    unfold rd_pick_intra4x4block
    dsimp only
    rw [hs]
  have hbr := hr Block4x4.best_rd (Or.inl rfl)
  have hle : ∀ e ∈ es, e.this_rd ≤ INT_MAX := by
    intro e hmem
    obtain ⟨x, hx⟩ := h3 e hmem
    rw [hx]
    exact rdcost_le _ _ _ _
  rw [he, h1, hbr, hr Block4x4.best_mode (by simp), hr Block4x4.bestrate (by simp),
    hr Block4x4.bestratey (by simp), hr Block4x4.bestdistortion (by simp),
    hr Block4x4.a (by simp), hr Block4x4.l (by simp)]
  unfold BlockInv Block4x4.holds Block4x4.untouched at hinv
  rw [h1] at hinv
  refine ⟨h2, ?_, ?_, ?_, ?_, ?_, ?_, ?_⟩
  · have hlen := congrArg List.length h2
    rw [List.length_map, blockModes_length] at hlen
    refine ⟨hlen, fun h10 => ?_⟩
    rw [hlen, h10]
    rfl
  · intro e hmem
    obtain ⟨x, hx⟩ := h3 e hmem
    refine ⟨⟨x, hx⟩, ?_, ?_⟩
    · rw [hx]
      rfl
    · rw [hx]
      rfl
  · intro f hmem
    rcases hinv with ⟨a1, _, a3⟩ | ⟨pre, e0, post, b1, b2, b3, _, b5⟩
    · rw [a1]
      exact a3 f hmem
    · rw [b5.1]
      rw [b1] at hmem
      rcases List.mem_append.1 hmem with hf | hf
      · exact le_of_lt (b2 f hf)
      · rcases List.mem_cons.1 hf with hf | hf
        · rw [hf]
        · exact b3 f hf
  · intro hne
    rcases hinv with ⟨a1, _, a3⟩ | ⟨pre, e0, post, b1, _, _, _, b5⟩
    · cases es with
      | nil => exact absurd rfl hne
      | cons e t =>
        refine ⟨e, List.mem_cons_self _ _, ?_⟩
        rw [a1]
        exact le_antisymm (hle e (List.mem_cons_self _ _)) (a3 e (List.mem_cons_self _ _))
    · refine ⟨e0, ?_, b5.1.symm⟩
      rw [b1]
      exact List.mem_append_right _ (List.mem_cons_self _ _)
  · intro hlt
    rcases hinv with ⟨a1, _, _⟩ | ⟨pre, e0, post, b1, b2, _, _, b5⟩
    · rw [a1] at hlt
      exact absurd hlt (lt_irrefl _)
    · refine ⟨pre, e0, post, b1, ?_, b5.1.symm, b5.2.1, b5.2.2.2.2.1, b5.2.2.2.2.2.1,
        b5.2.2.2.2.2.2.1, b5.2.2.1, b5.2.2.2.1⟩
      intro f hf
      rw [b5.1]
      exact b2 f hf
  · intro hmax
    rcases hinv with ⟨_, a2, _⟩ | ⟨pre, e0, post, _, _, _, b4, b5⟩
    · exact ⟨a2.1, a2.2.2.2.1, a2.2.2.2.2.1, a2.2.2.2.2.2.1, a2.2.1, a2.2.2.1⟩
    · rw [b5.1] at hmax
      rw [hmax] at b4
      exact absurd b4 (lt_irrefl _)
  · rcases hinv with ⟨a1, _, _⟩ | ⟨pre, e0, post, _, _, _, b4, b5⟩
    · exact le_of_eq a1
    · rw [b5.1]
      exact le_of_lt b4

/-- Claim C22, witness: a concrete block with the distortions 50, 40, 20,
30, 60, 20, 70, 80, 90, 25 and the rate 10 for the modes 0 to 9: the ten
modes are evaluated, and the function returns 30 and reports mode 2, the
first of the two modes with that cost. -/
theorem c22_block_search_minimum_witness :
    stdIntra.CONFIG_SUPERBLOCKS = false ∧
      ((rd_pick_intra4x4block stdIntra (plainExt 0) (blockOf tenErrors) 3 (fun _ => 3)
          (blockEntry 1)).best_rd,
        (rd_pick_intra4x4block stdIntra (plainExt 0) (blockOf tenErrors) 3 (fun _ => 3)
          (blockEntry 1)).best_mode,
        (rd_pick_intra4x4block stdIntra (plainExt 0) (blockOf tenErrors) 3 (fun _ => 3)
          (blockEntry 1)).bestrate,
        (rd_pick_intra4x4block stdIntra (plainExt 0) (blockOf tenErrors) 3 (fun _ => 3)
          (blockEntry 1)).bestratey,
        (rd_pick_intra4x4block stdIntra (plainExt 0) (blockOf tenErrors) 3 (fun _ => 3)
          (blockEntry 1)).bestdistortion) = (30, 2, 10, 7, 20) ∧
      (rd_pick_intra4x4block stdIntra (plainExt 0) (blockOf tenErrors) 3 (fun _ => 3)
          (blockEntry 1)).evals.map (fun e => (e.mode, e.this_rd)) =
        [(0, 60), (1, 50), (2, 30), (3, 40), (4, 70), (5, 30), (6, 80), (7, 90), (8, 100),
         (9, 35)] ∧
      (rd_pick_intra4x4block stdIntra (plainExt 0) (blockOf tenErrors) 3 (fun _ => 3)
          (blockEntry 1)).evals.map ModeEval.mode = blockModes stdIntra ∧
      (rd_pick_intra4x4block stdIntra (plainExt 0) (blockOf tenErrors) 3 (fun _ => 3)
          (blockEntry 1)).evals.length = 10 :=
  ⟨rfl, by decide, by decide,
    (c22_block_search_minimum stdIntra (plainExt 0) (blockOf tenErrors) 3 (fun _ => 3)
      (blockEntry 1) rfl).1,
    (c22_block_search_minimum stdIntra (plainExt 0) (blockOf tenErrors) 3 (fun _ => 3)
      (blockEntry 1) rfl).2.1.2 (by decide)⟩

end ClaimsIntra

set_option maxRecDepth 100000

/-! ## Sums of `int`s that stay in range -/

section ExactSums

/-- A loop that adds non-negative terms to an `int` gives their sum as long
as the sum stays in the range of `int`. -/
theorem foldl_iadd_exact {α : Type} (f g : α → Int) :
    ∀ (l : List α) (acc : Int), 0 ≤ acc → (∀ x ∈ l, 0 ≤ g x) →
      (∀ x ∈ l, g x ≤ INT_MAX → f x = g x) → acc + (l.map g).sum ≤ INT_MAX →
      l.foldl (fun e x => iadd e (f x)) acc = acc + (l.map g).sum
  | [], acc, _, _, _, _ => by simp
  | x :: l, acc, h0, hg, hf, hs => by
    have hx := hg x (List.mem_cons_self _ _)
    have hl : 0 ≤ (l.map g).sum :=
      List.sum_nonneg (fun y hy => by
        obtain ⟨z, hz, rfl⟩ := List.mem_map.1 hy
        exact hg z (List.mem_cons_of_mem _ hz))
    rw [List.map_cons, List.sum_cons] at hs
    have hfx : f x = g x := hf x (List.mem_cons_self _ _) (by omega)
    have hstep : iadd acc (f x) = acc + g x := by
      rw [hfx]
      exact iadd_exact (by unfold INT_MIN; omega) (by omega)
    rw [List.foldl_cons, hstep,
      foldl_iadd_exact f g l (acc + g x) (by omega)
        (fun y hy => hg y (List.mem_cons_of_mem _ hy))
        (fun y hy => hf y (List.mem_cons_of_mem _ hy)) (by omega),
      List.map_cons, List.sum_cons]
    ring

theorem square_exact (a b : Int) (h : (a - b) * (a - b) ≤ INT_MAX) :
    imul (isub a b) (isub a b) = (a - b) * (a - b) := by
  have hsq : (a - b) * (a - b) < 46341 * 46341 := by
    unfold INT_MAX at h
    omega
  have h1 : -46341 < a - b := by
    by_contra hc
    have : a - b ≤ -46341 := not_lt.1 hc
    nlinarith
  have h2 : a - b < 46341 := by
    by_contra hc
    have : 46341 ≤ a - b := not_lt.1 hc
    nlinarith
  have hsub : isub a b = a - b := by
    unfold isub
    exact wrap32_eq_self ⟨by unfold INT_MIN; omega, by unfold INT_MAX; omega⟩
  rw [hsub]
  unfold imul
  exact wrap32_eq_self ⟨by unfold INT_MIN; nlinarith [mul_self_nonneg (a - b)], h⟩

theorem squareSum_nonneg (c d : Int → Int) (js : List Int) : 0 ≤ squareSum c d js := by
  unfold squareSum
  apply List.sum_nonneg
  intro y hy
  obtain ⟨j, _, rfl⟩ := List.mem_map.1 hy
  exact mul_self_nonneg _

/-- The error of one block from position `dc` on is the sum of the squared
differences as long as that sum stays in the range of `int`. -/
theorem blockErrorFrom_exact (c d : Int → Int) (dc : Int)
    (h : squareSum c d (positionsFrom dc) ≤ INT_MAX) :
    blockErrorFrom c d dc = squareSum c d (positionsFrom dc) := by
  unfold blockErrorFrom
  have := foldl_iadd_exact
    (fun j => imul (isub (c j) (d j)) (isub (c j) (d j)))
    (fun j => (c j - d j) * (c j - d j)) (positionsFrom dc) 0 (le_refl _)
    (fun j _ => mul_self_nonneg _) (fun j _ hj => square_exact _ _ hj)
    (by rw [zero_add]; exact h)
  rw [this, zero_add]
  rfl

theorem positionsFrom_zero : positionsFrom 0 = (List.range 16).map (fun (j : Nat) => (j : Int)) := by
  decide

theorem vp8_block_error_c_eq (c d : Int → Int) :
    vp8_block_error_c c d = blockErrorFrom c d 0 := by
  unfold vp8_block_error_c blockErrorFrom
  rw [positionsFrom_zero, List.foldl_map]

end ExactSums

/-! ## Facts about the speed selection, the block errors and the thresholds -/

section SimpleFacts

variable {W P : Type}

theorem readSpeedThresh_some (i : Int) (h4 : 4 ≤ i) (h16 : i ≤ 16) :
    ∃ t, readSpeedThresh i = some t ∧ 105 ≤ t ∧ t ≤ 150 := by
  interval_cases i <;> exact ⟨_, rfl, by decide, by decide⟩

theorem speedUp_range (inp : SpeedInput) (s : SpeedState) (h4 : 4 ≤ s.Speed)
    (h16 : s.Speed ≤ 16) : 4 ≤ (speedUp inp s).Speed ∧ (speedUp inp s).Speed ≤ 16 := by
  unfold speedUp
  split
  · dsimp only
    unfold iadd wrap32
    split <;> constructor <;> omega
  · exact ⟨h4, h16⟩

theorem speedDown_range (inp : SpeedInput) (s : SpeedState) (t : Int) (h4 : 4 ≤ s.Speed)
    (h16 : s.Speed ≤ 16) :
    4 ≤ (speedDown inp s t).Speed ∧ (speedDown inp s t).Speed ≤ 16 := by
  unfold speedDown
  split
  · dsimp only
    unfold isub wrap32
    split <;> constructor <;> omega
  · exact ⟨h4, h16⟩

theorem nonneg_sum_eq_zero : ∀ (l : List Int), (∀ x ∈ l, 0 ≤ x) →
    (l.sum = 0 ↔ ∀ x ∈ l, x = 0)
  | [], _ => by simp
  | x :: l, h => by
    have hx := h x (List.mem_cons_self _ _)
    have hl : 0 ≤ l.sum := List.sum_nonneg (fun y hy => h y (List.mem_cons_of_mem _ hy))
    have ih := nonneg_sum_eq_zero l (fun y hy => h y (List.mem_cons_of_mem _ hy))
    rw [List.sum_cons]
    constructor
    · intro hs y hy
      rcases List.mem_cons.1 hy with hy | hy
      · rw [hy]
        omega
      · exact ih.1 (by omega) y hy
    · intro hall
      rw [hall x (List.mem_cons_self _ _), ih.2 (fun y hy => hall y (List.mem_cons_of_mem _ hy))]
      rfl

theorem positionsFrom_drop (dc : Int) (h : 0 ≤ dc) :
    positionsFrom dc = (positionsFrom 0).drop dc.toNat := by
  obtain ⟨n, rfl⟩ := Int.eq_ofNat_of_zero_le h
  rw [Int.toNat_ofNat]
  by_cases hn : n < 17
  · have hall : ∀ m ∈ List.range 17, positionsFrom (m : Int) = (positionsFrom 0).drop m := by
      decide
    exact hall n (List.mem_range.2 hn)
  · have h1 : positionsFrom (n : Int) = [] := by
      unfold positionsFrom
      have : (16 - (n : Int)).toNat = 0 := by omega
      rw [this]
      rfl
    have h2 : (positionsFrom 0).drop n = [] := by
      apply List.drop_of_length_le
      have : (positionsFrom 0).length = 16 := by decide
      omega
    rw [h1, h2]

theorem squareSum_drop_le (c d : Int → Int) (js : List Int) (n : Nat) :
    squareSum c d (js.drop n) ≤ squareSum c d js := by
  have h := squareSum_nonneg c d (js.take n)
  have : squareSum c d js = squareSum c d (js.take n) + squareSum c d (js.drop n) := by
    unfold squareSum
    rw [← List.sum_append, ← List.map_append, List.take_append_drop]
  omega

theorem squareSumMb_le (coeff dqcoeff : Nat → Int → Int) (dc : Int) (h : 0 ≤ dc) :
    squareSumMb coeff dqcoeff dc ≤ squareSumMb coeff dqcoeff 0 := by
  unfold squareSumMb
  apply List.sum_le_sum
  intro i _
  rw [positionsFrom_drop dc h]
  exact squareSum_drop_le _ _ _ _

theorem squareSum_le_mb (coeff dqcoeff : Nat → Int → Int) (dc : Int) (i : Nat)
    (hi : i < 16) :
    squareSum (coeff i) (dqcoeff i) (positionsFrom dc) ≤ squareSumMb coeff dqcoeff dc := by
  unfold squareSumMb
  apply List.single_le_sum
  · intro y hy
    obtain ⟨j, _, rfl⟩ := List.mem_map.1 hy
    exact squareSum_nonneg _ _ _
  · exact List.mem_map.2 ⟨i, List.mem_range.2 hi, rfl⟩

/-- The error of the macroblock from position `dc` on is the sum of the
squared differences as long as that sum stays in the range of `int`. -/
theorem mbblock_exact (coeff dqcoeff : Nat → Int → Int) (dc : Int)
    (h : squareSumMb coeff dqcoeff dc ≤ INT_MAX) :
    vp8_mbblock_error_c coeff dqcoeff dc = squareSumMb coeff dqcoeff dc := by
  unfold vp8_mbblock_error_c
  have := foldl_iadd_exact
    (fun (i : Nat) => blockErrorFrom (coeff i) (dqcoeff i) dc)
    (fun (i : Nat) => squareSum (coeff i) (dqcoeff i) (positionsFrom dc)) (List.range 16) 0
    (le_refl _) (fun i _ => squareSum_nonneg _ _ _)
    (fun i _ hi => blockErrorFrom_exact _ _ _ hi)
    (by rw [zero_add]; exact h)
  rw [this, zero_add]
  rfl

/-- The loop of `cost_coeffs` run turn by turn ends behind the last coded
position, with the cost and the context the fold over the positions
gives. -/
theorem coeffWhile_spec (k : IntraConsts) (bx : BlockExt W P) (x : MACROBLOCK W) (i : Nat)
    (type eob : Int) :
    ∀ (n : Nat) (c : Nat) (acc : Int × Int), (eob - c).toNat ≤ n →
      coeffWhile k bx x i type eob n ((c : Int), acc) =
        ((if (c : Int) < eob then eob else c),
          (List.range' c (eob - c).toNat).foldl (coeffStep k bx x i type) acc)
  | 0, c, acc, h => by
    have h0 : (eob - c).toNat = 0 := by omega
    have : ¬ (c : Int) < eob := by omega
    rw [if_neg this, h0]
    rfl
  | n + 1, c, acc, h => by
    unfold coeffWhile
    dsimp only
    by_cases hc : (c : Int) < eob
    · rw [if_pos hc, if_pos hc]
      have hcast : ((c : Int) + 1) = ((c + 1 : Nat) : Int) := by push_cast; rfl
      rw [hcast, coeffWhile_spec k bx x i type eob n (c + 1) _ (by omega)]
      have hlen : (eob - c).toNat = (eob - ((c + 1 : Nat) : Int)).toNat + 1 := by omega
      rw [hlen, List.range'_succ, List.foldl_cons, Int.toNat_ofNat]
      have : (if ((c + 1 : Nat) : Int) < eob then eob else ((c + 1 : Nat) : Int)) = eob := by
        split
        · rfl
        · omega
      rw [this]
    · rw [if_neg hc, if_neg hc]
      have h0 : (eob - c).toNat = 0 := by omega
      rw [h0]
      rfl

end SimpleFacts

/-! ## Facts about the thresholds of `vp8_initialize_rd_consts` -/

section ThresholdFacts

theorem thresholdQ_range (cfg : Config) (dcq : Int → Int → Int) (fp : FloatOps)
    (QIndex : Int) :
    8 ≤ thresholdQ cfg dcq fp QIndex ∧ thresholdQ cfg dcq fp QIndex ≤ INT_MAX := by
  unfold thresholdQ
  dsimp only
  have h : IsInt32 (if cfg.CONFIG_EXTEND_QRANGE then
      shl (wrap32 (fp.pow125 (sar (dcq (clampQIndex cfg QIndex) 0) 2))) 2
    else wrap32 (fp.pow125 (dcq (clampQIndex cfg QIndex) 0))) := by
    split
    · exact wrap32_isInt32 _
    · exact wrap32_isInt32 _
  generalize (if cfg.CONFIG_EXTEND_QRANGE then
      shl (wrap32 (fp.pow125 (sar (dcq (clampQIndex cfg QIndex) 0) 2))) 2
    else wrap32 (fp.pow125 (dcq (clampQIndex cfg QIndex) 0))) = q at h ⊢
  unfold IsInt32 INT_MIN INT_MAX at h
  unfold INT_MAX
  split <;> constructor <;> omega

/-- The two branches of the threshold loops: which divisor is set and what
every threshold and baseline threshold is. -/
theorem rd_consts_thresholds (cfg : Config) (dcq : Int → Int → Int) (fp : FloatOps)
    (cpi : RdConstsInput) (QIndex : Int) :
    ((vp8_initialize_rd_consts cfg dcq fp cpi QIndex).RDDIV = 1 ∧
        ∀ i, (vp8_initialize_rd_consts cfg dcq fp cpi QIndex).rd_threshes i =
            initThresh true (cpi.thresh_mult i) (thresholdQ cfg dcq fp QIndex) ∧
          (vp8_initialize_rd_consts cfg dcq fp cpi QIndex).rd_baseline_thresh i =
            initThresh true (cpi.thresh_mult i) (thresholdQ cfg dcq fp QIndex)) ∨
      ((vp8_initialize_rd_consts cfg dcq fp cpi QIndex).RDDIV = 100 ∧
        ∀ i, (vp8_initialize_rd_consts cfg dcq fp cpi QIndex).rd_threshes i =
            initThresh false (cpi.thresh_mult i) (thresholdQ cfg dcq fp QIndex) ∧
          (vp8_initialize_rd_consts cfg dcq fp cpi QIndex).rd_baseline_thresh i =
            initThresh false (cpi.thresh_mult i) (thresholdQ cfg dcq fp QIndex)) := by
  unfold vp8_initialize_rd_consts thresholdQ
  dsimp only
  generalize cfg.CONFIG_EXTEND_QRANGE = b
  cases b
  · simp only [Bool.false_eq_true, if_false]
    split
    · exact Or.inl ⟨rfl, fun i => ⟨rfl, rfl⟩⟩
    · exact Or.inr ⟨rfl, fun i => ⟨rfl, rfl⟩⟩
  · simp only [if_true]
    split
    · exact Or.inl ⟨rfl, fun i => ⟨rfl, rfl⟩⟩
    · exact Or.inr ⟨rfl, fun i => ⟨rfl, rfl⟩⟩

theorem initThresh_div (t q : Int) (h0 : 0 ≤ t) (hq : 8 ≤ q) :
    (INT_MAX ≤ t → initThresh true t q = INT_MAX) ∧
      (t < INT_MAX → t * q ≤ INT_MAX → initThresh true t q = t * q / 100) := by
  unfold initThresh
  rw [if_pos rfl]
  constructor
  · intro h
    rw [if_neg (by omega)]
  · intro h hp
    rw [if_pos h]
    have hnn : 0 ≤ t * q := mul_nonneg h0 (by omega)
    have h1 : imul t q = t * q := by
      unfold imul
      exact wrap32_eq_self ⟨by unfold INT_MIN; omega, hp⟩
    rw [h1]
    unfold idiv
    rw [Int.tdiv_eq_ediv hnn (by decide)]
    have h2 : 0 ≤ t * q / 100 := Int.ediv_nonneg hnn (by decide)
    have h3 : t * q / 100 ≤ t * q := Int.ediv_le_self _ hnn
    exact wrap32_eq_self ⟨by unfold INT_MIN; omega, by omega⟩

theorem initThresh_mul (t q : Int) (h0 : 0 ≤ t) (hq : 8 ≤ q) :
    (t < INT_MAX / q → initThresh false t q = t * q) ∧
      (INT_MAX / q ≤ t → initThresh false t q = INT_MAX) := by
  have hd : idiv INT_MAX q = INT_MAX / q := by
    unfold idiv
    rw [Int.tdiv_eq_ediv (by decide) (by omega)]
    have h2 : 0 ≤ INT_MAX / q := Int.ediv_nonneg (by decide) (by omega)
    have h3 : INT_MAX / q ≤ INT_MAX := Int.ediv_le_self _ (by decide)
    exact wrap32_eq_self ⟨by unfold INT_MIN; omega, h3⟩
  unfold initThresh
  rw [if_neg (by decide), hd]
  constructor
  · intro h
    rw [if_pos h]
    have h1 : (INT_MAX / q) * q ≤ INT_MAX := Int.ediv_mul_le _ (by omega)
    have h2 : (t + 1) * q ≤ (INT_MAX / q) * q :=
      mul_le_mul_of_nonneg_right (by omega) (by omega)
    have hnn : 0 ≤ t * q := mul_nonneg h0 (by omega)
    unfold imul
    exact wrap32_eq_self ⟨by unfold INT_MIN; omega, by nlinarith⟩
  · intro h
    rw [if_neg (by omega)]

end ThresholdFacts

/-! ## Facts about the records of `labels2mode` -/

section LabelRecordFacts

variable {W : Type}

theorem labels2modeBlock_other (cfg : Config) (ext : Ext W) (sx : SplitExt W)
    (labelings : Nat → Int) (which_label : Int) (this_mode : B_PREDICTION_MODE)
    (best_ref_mv : int_mv) (s : LabelsState W) (i : Nat) (h : labelings i ≠ which_label) :
    labels2modeBlock cfg ext sx labelings which_label this_mode best_ref_mv s i = s := by
  unfold labels2modeBlock
  rw [if_pos h]

theorem labelsInv_step (cfg : Config) (ext : Ext W) (sx : SplitExt W) (x : MACROBLOCK W)
    (labelings : Nat → Int) (which_label : Int) (this_mode : B_PREDICTION_MODE)
    (this_mv best_ref_mv : int_mv) (f : Nat) (hf : StartsLabel labelings which_label f)
    (n : Nat) (hn : n < 16) (s : LabelsState W)
    (h : LabelsInv cfg ext sx x labelings which_label this_mode this_mv best_ref_mv f n s) :
    LabelsInv cfg ext sx x labelings which_label this_mode this_mv best_ref_mv f (n + 1)
      (labels2modeBlock cfg ext sx labelings which_label this_mode best_ref_mv s n) := by
  obtain ⟨hf16, hlab, hfirst, hrest⟩ := hf
  unfold LabelsInv at h ⊢
  rcases Nat.lt_trichotomy n f with hlt | heq | hgt
  · rw [if_pos (by omega)] at h
    rw [if_pos (by omega), labels2modeBlock_other _ _ _ _ _ _ _ _ _ (hfirst n hlt)]
    exact h
  · subst heq
    rw [if_pos (le_refl _)] at h
    rw [if_neg (by omega)]
    subst h
    have hleft : ¬ (n % 4 ≠ 0 ∧ labelings n = labelings (n - 1)) := by
      rintro ⟨h1, h2⟩
      exact hfirst (n - 1) (by omega) (by rw [← h2]; exact hlab)
    have habove : ¬ (n / 4 ≠ 0 ∧ labelings n = labelings (n - 4)) := by
      rintro ⟨h1, h2⟩
      exact hfirst (n - 4) (by omega) (by rw [← h2]; exact hlab)
    unfold labels2modeBlock blockMode
    rw [if_neg (by rw [hlab]; exact fun h => h rfl), if_neg hleft, if_neg habove]
    dsimp only
    refine ⟨rfl, rfl, ?_, ?_⟩
    · split <;> rfl
    · intro j
      constructor
      · intro hj hl
        by_cases hjn : j = n
        · subst hjn
          rw [Function.update_same, Function.update_same, Function.update_same, if_pos rfl]
          exact ⟨rfl, rfl, rfl⟩
        · exact absurd hl (hfirst j (by omega))
      · intro hj
        have hjn : j ≠ n := by
          rintro rfl
          rcases hj with hj | hj
          · omega
          · exact hj hlab
        rw [Function.update_noteq hjn, Function.update_noteq hjn, Function.update_noteq hjn]
        exact ⟨rfl, rfl, rfl⟩
  · rw [if_neg (by omega)] at h
    rw [if_neg (by omega)]
    obtain ⟨h1, h2, h3, h4⟩ := h
    by_cases hl : labelings n = which_label
    · have hprop := hrest n hn hgt hl
      have hbm : blockMode ext sx labelings this_mode best_ref_mv s n =
          (s, propagatedMode labelings n) := by
        unfold blockMode propagatedMode
        by_cases hL : n % 4 ≠ 0 ∧ labelings n = labelings (n - 1)
        · rw [if_pos hL, if_pos hL]
        · rw [if_neg hL, if_neg hL]
          rcases hprop with hp | hp
          · exact absurd hp hL
          · rw [if_pos hp]
      unfold labels2modeBlock
      rw [if_neg (by rw [hl]; exact fun h => h rfl), hbm]
      dsimp only
      refine ⟨h1, h2, h3, ?_⟩
      intro j
      constructor
      · intro hj hlj
        by_cases hjn : j = n
        · subst hjn
          rw [Function.update_same, Function.update_same, Function.update_same,
            if_neg (by omega)]
          exact ⟨h1, h1, rfl⟩
        · rw [Function.update_noteq hjn, Function.update_noteq hjn,
            Function.update_noteq hjn]
          exact (h4 j).1 (by omega) hlj
      · intro hj
        have hjn : j ≠ n := by
          rintro rfl
          rcases hj with hj | hj
          · omega
          · exact hj hl
        rw [Function.update_noteq hjn, Function.update_noteq hjn, Function.update_noteq hjn]
        refine (h4 j).2 ?_
        rcases hj with hj | hj
        · exact Or.inl (by omega)
        · exact Or.inr hj
    · rw [labels2modeBlock_other _ _ _ _ _ _ _ _ _ hl]
      refine ⟨h1, h2, h3, ?_⟩
      intro j
      constructor
      · intro hj hlj
        have hjn : j ≠ n := by
          rintro rfl
          exact hl hlj
        exact (h4 j).1 (by omega) hlj
      · intro hj
        rcases hj with hj | hj
        · exact (h4 j).2 (Or.inl (by omega))
        · exact (h4 j).2 (Or.inr hj)

theorem labelsInv_fold (cfg : Config) (ext : Ext W) (sx : SplitExt W) (x : MACROBLOCK W)
    (labelings : Nat → Int) (which_label : Int) (this_mode : B_PREDICTION_MODE)
    (this_mv best_ref_mv : int_mv) (f : Nat) (hf : StartsLabel labelings which_label f) :
    ∀ n, n ≤ 16 →
      LabelsInv cfg ext sx x labelings which_label this_mode this_mv best_ref_mv f n
        ((List.range n).foldl
          (labels2modeBlock cfg ext sx labelings which_label this_mode best_ref_mv)
          { x := x, this_mv := this_mv, cost := 0, thismvcost := 0 })
  | 0, _ => by
    unfold LabelsInv
    rw [if_pos (Nat.zero_le _)]
    rfl
  | n + 1, hn => by
    rw [List.range_succ, List.foldl_append, List.foldl_cons, List.foldl_nil]
    exact labelsInv_step cfg ext sx x labelings which_label this_mode this_mv best_ref_mv f
      hf n (by omega) _ (labelsInv_fold cfg ext sx x labelings which_label this_mode this_mv
        best_ref_mv f hf n (by omega))

/-- Blocks of other labels and entries behind the sixteen blocks are left as
they were, whatever the table of labels. -/
theorem labels2mode_untouched (cfg : Config) (ext : Ext W) (sx : SplitExt W)
    (labelings : Nat → Int) (which_label : Int) (this_mode : B_PREDICTION_MODE)
    (best_ref_mv : int_mv) (j : Nat) :
    ∀ (l : List Nat) (s : LabelsState W), (j ∉ l ∨ labelings j ≠ which_label) →
      ((l.foldl (labels2modeBlock cfg ext sx labelings which_label this_mode best_ref_mv)
          s).x.block_bmi j = s.x.block_bmi j ∧
        (l.foldl (labels2modeBlock cfg ext sx labelings which_label this_mode best_ref_mv)
          s).x.partition_info.bmi_mode j = s.x.partition_info.bmi_mode j ∧
        (l.foldl (labels2modeBlock cfg ext sx labelings which_label this_mode best_ref_mv)
          s).x.partition_info.bmi_mv j = s.x.partition_info.bmi_mv j)
  | [], s, _ => ⟨rfl, rfl, rfl⟩
  | i :: l, s, h => by
    rw [List.foldl_cons]
    have ih := labels2mode_untouched cfg ext sx labelings which_label this_mode best_ref_mv j l
      (labels2modeBlock cfg ext sx labelings which_label this_mode best_ref_mv s i)
      (by
        rcases h with h | h
        · exact Or.inl (fun hm => h (List.mem_cons_of_mem _ hm))
        · exact Or.inr h)
    rw [ih.1, ih.2.1, ih.2.2]
    by_cases hl : labelings i = which_label
    · have hji : j ≠ i := by
        rintro rfl
        rcases h with h | h
        · exact h (List.mem_cons_self _ _)
        · exact h hl
      unfold labels2modeBlock
      rw [if_neg (by rw [hl]; exact fun h => h rfl)]
      dsimp only
      rw [Function.update_noteq hji, Function.update_noteq hji, Function.update_noteq hji]
      have hx : (blockMode ext sx labelings this_mode best_ref_mv s i).1.x = s.x := by
        unfold blockMode
        split
        · rfl
        · split <;> rfl
      rw [hx]
      exact ⟨rfl, rfl, rfl⟩
    · rw [labels2modeBlock_other _ _ _ _ _ _ _ _ _ hl]
      exact ⟨rfl, rfl, rfl⟩

end LabelRecordFacts

/-! ## Facts about the alt-ref overlay -/

section OverlayFacts

variable {W : Type}

theorem segmentCheck_overlay (cfg : Config) (seg : Seg) (cpi : VP8_COMP) (sid : Nat)
    (m : MB_PREDICTION_MODE) (rf : MV_REFERENCE_FRAME)
    (h1 : seg.segfeature_active sid SEG_LVL_REF_FRAME = false)
    (h2 : seg.segfeature_active sid SEG_LVL_MODE = false)
    (h3 : cpi.is_src_frame_alt_ref = true) (h4 : cpi.arnr_max_frames = 0) :
    (segmentCheck cfg seg cpi sid m rf = none → m = ZEROMV ∧ rf = ALTREF_FRAME) ∧
      ∀ ev, segmentCheck cfg seg cpi sid m rf = some ev →
        ev = Event.segmentSkip ∨ ev = Event.altrefSkip := by
  unfold segmentCheck
  rw [h1, h2, h3, h4]
  simp only [Bool.false_eq_true, false_and, if_false, and_self, if_true]
  split
  · exact ⟨(fun h => by cases h), fun ev h => Or.inl (Option.some.inj h).symm⟩
  · by_cases hm : m ≠ ZEROMV ∨ rf ≠ ALTREF_FRAME
    · rw [if_pos hm]
      exact ⟨(fun h => by cases h), fun ev h => Or.inr (Option.some.inj h).symm⟩
    · rw [if_neg hm]
      refine ⟨fun _ => ?_, fun ev h => by cases h⟩
      constructor
      · by_contra hc
        exact hm (Or.inl hc)
      · by_contra hc
        exact hm (Or.inr hc)

theorem interCosts_overlay (cfg : Config) (ext : Ext W) (m : MB_PREDICTION_MODE)
    (s : PickState W) (v : IterVars) (hk : KeepsVector ext) :
    (interCosts cfg ext m s v).state.cpi = s.cpi ∧
      (interCosts cfg ext m s v).state.l.segment_id = s.l.segment_id ∧
      (interCosts cfg ext m s v).state.l.mode_mv = s.l.mode_mv ∧
      (interCosts cfg ext m s v).state.l.best_mbmode = s.l.best_mbmode ∧
      (interCosts cfg ext m s v).doneVector = some s.x.mbmi.mv := by
  obtain ⟨_, k2, _, k4, k5, _⟩ := hk
  unfold interCosts
  refine ⟨rfl, rfl, rfl, rfl, ?_⟩
  unfold SwitchResult.doneVector
  dsimp only
  rw [k5, k2, k4]

theorem zeroTail_overlay (cfg : Config) (ext : Ext W) (s : PickState W) (v : IterVars)
    (hk : KeepsVector ext) (hz : s.l.mode_mv ZEROMV = zero_mv) :
    (zeroTail cfg ext ZEROMV s v).state.cpi = s.cpi ∧
      (zeroTail cfg ext ZEROMV s v).state.l.segment_id = s.l.segment_id ∧
      (zeroTail cfg ext ZEROMV s v).state.l.mode_mv = s.l.mode_mv ∧
      (zeroTail cfg ext ZEROMV s v).state.l.best_mbmode = s.l.best_mbmode ∧
      ((zeroTail cfg ext ZEROMV s v).doneVector = none ∨
        (zeroTail cfg ext ZEROMV s v).doneVector = some zero_mv) := by
  have hx1 : (ext.vp8_build_inter16x16_predictors_mby
      (vp8_set_mbmode_and_mvs s.x ZEROMV (s.l.mode_mv ZEROMV))).mbmi.mv = zero_mv := by
    rw [hk.1, hz]
    rfl
  have hI : ∀ (xx : MACROBLOCK W) (vv : IterVars), xx.mbmi.mv = zero_mv →
      (interCosts cfg ext ZEROMV { s with x := xx } vv).state.cpi = s.cpi ∧
        (interCosts cfg ext ZEROMV { s with x := xx } vv).state.l.segment_id =
          s.l.segment_id ∧
        (interCosts cfg ext ZEROMV { s with x := xx } vv).state.l.mode_mv = s.l.mode_mv ∧
        (interCosts cfg ext ZEROMV { s with x := xx } vv).state.l.best_mbmode =
          s.l.best_mbmode ∧
        ((interCosts cfg ext ZEROMV { s with x := xx } vv).doneVector = none ∨
          (interCosts cfg ext ZEROMV { s with x := xx } vv).doneVector = some zero_mv) := by
    intro xx vv hxx
    obtain ⟨a1, a2, a3, a4, a5⟩ := interCosts_overlay cfg ext ZEROMV { s with x := xx } vv hk
    exact ⟨a1, a2, a3, a4, Or.inr (a5.trans (congrArg some hxx))⟩
  unfold zeroTail
  dsimp only
  split
  · exact ⟨rfl, rfl, rfl, rfl, Or.inl rfl⟩
  · split
    · exact hI _ _ hx1
    · split
      · split
        · exact ⟨rfl, rfl, rfl, rfl, Or.inr (congrArg some hx1)⟩
        · exact hI _ _ hx1
      · exact hI _ _ hx1

theorem evalDual_overlay (ext : Ext W) (s : PickState W) (v : IterVars)
    (hk : KeepsVector ext) :
    (evalDual ext ZEROMV s v).state.cpi = s.cpi ∧
      (evalDual ext ZEROMV s v).state.l.segment_id = s.l.segment_id ∧
      (evalDual ext ZEROMV s v).state.l.mode_mv = s.l.mode_mv ∧
      (evalDual ext ZEROMV s v).state.l.best_mbmode = s.l.best_mbmode ∧
      ((evalDual ext ZEROMV s v).doneVector = none ∨
        (evalDual ext ZEROMV s v).doneVector = some zero_mv) := by
  obtain ⟨k1, k2, k3, k4, k5, k6⟩ := hk
  unfold evalDual dualVectors
  dsimp only
  unfold dualTail
  dsimp only
  split
  · exact ⟨rfl, rfl, rfl, rfl, Or.inl rfl⟩
  · refine ⟨rfl, rfl, rfl, rfl, Or.inr ?_⟩
    unfold SwitchResult.doneVector
    dsimp only
    rw [k5, k4, k3]
    dsimp only
    rw [k2, k1]
    dsimp only
    rw [k6]

theorem finishCandidate_overlay (cfg : Config) (ext : Ext W) (i : Nat)
    (m : MB_PREDICTION_MODE) (s : PickState W) (v : IterVars)
    (hm : ¬ m.toInt ≤ B_PRED.toInt) :
    (finishCandidate cfg ext i m s v).s.cpi.is_src_frame_alt_ref =
        s.cpi.is_src_frame_alt_ref ∧
      (finishCandidate cfg ext i m s v).s.cpi.arnr_max_frames = s.cpi.arnr_max_frames ∧
      (finishCandidate cfg ext i m s v).s.l.segment_id = s.l.segment_id ∧
      (finishCandidate cfg ext i m s v).s.l.mode_mv = s.l.mode_mv ∧
      ((finishCandidate cfg ext i m s v).s.l.best_mbmode = s.l.best_mbmode ∨
        (finishCandidate cfg ext i m s v).s.l.best_mbmode = s.x.mbmi) := by
  have ha : (addSignalling cfg ext s v).1.x = s.x ∧
      (addSignalling cfg ext s v).1.cpi = s.cpi ∧
      (addSignalling cfg ext s v).1.l.segment_id = s.l.segment_id ∧
      (addSignalling cfg ext s v).1.l.mode_mv = s.l.mode_mv ∧
      (addSignalling cfg ext s v).1.l.best_mbmode = s.l.best_mbmode :=
    ⟨rfl, rfl, rfl, rfl, rfl⟩
  unfold finishCandidate
  dsimp only
  generalize addSignalling cfg ext s v = a at ha ⊢
  have hb : (skipCorrection ext a.1 a.2).1.x = s.x ∧
      (skipCorrection ext a.1 a.2).1.cpi = s.cpi ∧
      (skipCorrection ext a.1 a.2).1.l.segment_id = s.l.segment_id ∧
      (skipCorrection ext a.1 a.2).1.l.mode_mv = s.l.mode_mv ∧
      (skipCorrection ext a.1 a.2).1.l.best_mbmode = s.l.best_mbmode := by
    unfold skipCorrection
    split
    · dsimp only
      split
      · split
        · split <;> exact ha
        · exact ha
      · exact ha
    · exact ha
  generalize skipCorrection ext a.1 a.2 = b at hb ⊢
  have hc : (recordDualA cfg m (recordIntra b.1 b.2) b.2).x = s.x ∧
      (recordDualA cfg m (recordIntra b.1 b.2) b.2).cpi = s.cpi ∧
      (recordDualA cfg m (recordIntra b.1 b.2) b.2).l.segment_id = s.l.segment_id ∧
      (recordDualA cfg m (recordIntra b.1 b.2) b.2).l.mode_mv = s.l.mode_mv ∧
      (recordDualA cfg m (recordIntra b.1 b.2) b.2).l.best_mbmode = s.l.best_mbmode := by
    unfold recordDualA recordIntra
    split <;> split <;> exact hb
  generalize recordDualA cfg m (recordIntra b.1 b.2) b.2 = c at hc ⊢
  obtain ⟨c1, c2, c3, c4, c5⟩ := hc
  have hd : (commitOrAdapt cfg ext i m c b.2).cpi.is_src_frame_alt_ref =
        s.cpi.is_src_frame_alt_ref ∧
      (commitOrAdapt cfg ext i m c b.2).cpi.arnr_max_frames = s.cpi.arnr_max_frames ∧
      (commitOrAdapt cfg ext i m c b.2).l.segment_id = s.l.segment_id ∧
      (commitOrAdapt cfg ext i m c b.2).l.mode_mv = s.l.mode_mv ∧
      ((commitOrAdapt cfg ext i m c b.2).l.best_mbmode = s.l.best_mbmode ∨
        (commitOrAdapt cfg ext i m c b.2).l.best_mbmode = s.x.mbmi) := by
    unfold commitOrAdapt
    split
    · split
      · unfold commitBest setMult
        dsimp only
        rw [if_neg hm, c1, c2, c3, c4]
        exact ⟨rfl, rfl, rfl, rfl, Or.inr rfl⟩
      · unfold setMult
        dsimp only
        rw [c2, c3, c4, c5]
        exact ⟨rfl, rfl, rfl, rfl, Or.inl rfl⟩
    · unfold setMult
      dsimp only
      rw [c2, c3, c4, c5]
      exact ⟨rfl, rfl, rfl, rfl, Or.inl rfl⟩
  generalize commitOrAdapt cfg ext i m c b.2 = d at hd ⊢
  unfold recordDualB
  split <;> exact hd

/-- One iteration of the candidate loop under the overlay rule: the
conditions stay, and a candidate that is not ZEROMV on the alt-ref frame
ends at the threshold test, at a segment constraint or at the overlay
rule. -/
theorem modeBody_overlay (cfg : Config) (seg : Seg) (ext : Ext W) (i : Nat)
    (s : PickState W) (hk : KeepsVector ext) (h : OverlayInv seg s) :
    OverlayInv seg (modeBody cfg seg ext i s).s ∧
      (modeBody cfg seg ext i s).s.l.segment_id = s.l.segment_id ∧
      (((vp8_mode_order cfg).getD i DC_PRED ≠ ZEROMV ∨
          (vp8_ref_frame_order cfg).getD i INTRA_FRAME ≠ ALTREF_FRAME) →
        (modeBody cfg seg ext i s).ev = Event.thresholdSkip ∨
          (modeBody cfg seg ext i s).ev = Event.segmentSkip ∨
          (modeBody cfg seg ext i s).ev = Event.altrefSkip) := by
  obtain ⟨h1, h2, h3, h4, h5, h6⟩ := h
  unfold modeBody
  split
  · exact ⟨⟨h1, h2, h3, h4, h5, h6⟩, rfl, fun _ => Or.inl rfl⟩
  · dsimp only
    have hload : (loadCandidate cfg i s).x.mbmi.ref_frame =
        (vp8_ref_frame_order cfg).getD i INTRA_FRAME := by
      unfold loadCandidate
      dsimp only
      split <;> rfl
    have hsc := segmentCheck_overlay cfg seg (loadCandidate cfg i s).cpi
      (loadCandidate cfg i s).l.segment_id ((vp8_mode_order cfg).getD i DC_PRED)
      (loadCandidate cfg i s).x.mbmi.ref_frame h1 h2 h3 h4
    split
    · rename_i ev hev
      refine ⟨⟨h1, h2, h3, h4, h5, h6⟩, rfl, fun _ => Or.inr (hsc.2 ev hev)⟩
    · rename_i hnone
      obtain ⟨hmode, href⟩ := hsc.1 hnone
      rw [hload] at href
      have hnot : ¬ ((vp8_mode_order cfg).getD i DC_PRED ≠ ZEROMV ∨
          (vp8_ref_frame_order cfg).getD i INTRA_FRAME ≠ ALTREF_FRAME) := by
        rintro (hc | hc)
        · exact hc hmode
        · exact hc href
      rw [hmode]
      have hs0 : (zbinBoost cfg ext i (setupInter (loadCandidate cfg i s))).cpi.is_src_frame_alt_ref
            = s.cpi.is_src_frame_alt_ref ∧
          (zbinBoost cfg ext i (setupInter (loadCandidate cfg i s))).cpi.arnr_max_frames =
            s.cpi.arnr_max_frames ∧
          (zbinBoost cfg ext i (setupInter (loadCandidate cfg i s))).l.segment_id =
            s.l.segment_id ∧
          (zbinBoost cfg ext i (setupInter (loadCandidate cfg i s))).l.mode_mv ZEROMV =
            s.l.mode_mv ZEROMV ∧
          (zbinBoost cfg ext i (setupInter (loadCandidate cfg i s))).l.best_mbmode =
            s.l.best_mbmode := by
        have hsu : ∀ t : PickState W,
            (setupInter t).cpi = t.cpi ∧ (setupInter t).l.segment_id = t.l.segment_id ∧
              (setupInter t).l.mode_mv ZEROMV = t.l.mode_mv ZEROMV ∧
              (setupInter t).l.best_mbmode = t.l.best_mbmode := by
          intro t
          unfold setupInter
          dsimp only
          split
          · refine ⟨rfl, rfl, ?_, rfl⟩
            dsimp only
            rw [Function.update_noteq (by decide), Function.update_noteq (by decide)]
          · exact ⟨rfl, rfl, rfl, rfl⟩
        have hzb : ∀ t : PickState W,
            (zbinBoost cfg ext i t).cpi.is_src_frame_alt_ref = t.cpi.is_src_frame_alt_ref ∧
              (zbinBoost cfg ext i t).cpi.arnr_max_frames = t.cpi.arnr_max_frames ∧
              (zbinBoost cfg ext i t).l = t.l := by
          intro t
          unfold zbinBoost
          split <;> exact ⟨rfl, rfl, rfl⟩
        obtain ⟨u1, u2, u3, u4⟩ := hsu (loadCandidate cfg i s)
        obtain ⟨w1, w2, w3⟩ := hzb (setupInter (loadCandidate cfg i s))
        rw [w1, w2, w3, u1, u2, u3, u4]
        exact ⟨rfl, rfl, rfl, rfl, rfl⟩
      generalize zbinBoost cfg ext i (setupInter (loadCandidate cfg i s)) = s0 at hs0 ⊢
      obtain ⟨z1, z2, z3, z4, z5⟩ := hs0
      have hev : (evalCandidate cfg ext ZEROMV s0 IterVars.init).state.cpi = s0.cpi ∧
          (evalCandidate cfg ext ZEROMV s0 IterVars.init).state.l.segment_id =
            s0.l.segment_id ∧
          (evalCandidate cfg ext ZEROMV s0 IterVars.init).state.l.mode_mv = s0.l.mode_mv ∧
          (evalCandidate cfg ext ZEROMV s0 IterVars.init).state.l.best_mbmode =
            s0.l.best_mbmode ∧
          ((evalCandidate cfg ext ZEROMV s0 IterVars.init).doneVector = none ∨
            (evalCandidate cfg ext ZEROMV s0 IterVars.init).doneVector = some zero_mv) := by
        unfold evalCandidate
        split
        · exact evalDual_overlay ext s0 _ hk
        · exact zeroTail_overlay cfg ext s0 _ hk (z4.trans h5)
      generalize evalCandidate cfg ext ZEROMV s0 IterVars.init = r at hev ⊢
      cases r with
      | cont s4 =>
        obtain ⟨e1, e2, e3, e4, _⟩ := hev
        dsimp only [SwitchResult.state] at e1 e2 e3 e4
        dsimp only
        refine ⟨⟨?_, ?_, ?_, ?_, ?_, ?_⟩, ?_, fun hc => absurd hc (by rw [hmode] at hnot; exact hnot)⟩
        · rw [e2, z3]
          exact h1
        · rw [e2, z3]
          exact h2
        · rw [e1, z1]
          exact h3
        · rw [e1, z2]
          exact h4
        · rw [e3, z4]
          exact h5
        · rw [e4, z5]
          exact h6
        · rw [e2, z3]
      | done s4 v =>
        obtain ⟨e1, e2, e3, e4, e5⟩ := hev
        dsimp only [SwitchResult.state] at e1 e2 e3 e4
        have hv : s4.x.mbmi.mv = zero_mv := by
          rcases e5 with e5 | e5
          · cases e5
          · exact Option.some.inj e5
        dsimp only
        obtain ⟨f1, f2, f3, f4, f5⟩ := finishCandidate_overlay cfg ext i ZEROMV s4 v
          (by decide)
        refine ⟨⟨?_, ?_, ?_, ?_, ?_, ?_⟩, ?_, fun hc => absurd hc (by rw [hmode] at hnot; exact hnot)⟩
        · rw [f3, e2, z3]
          exact h1
        · rw [f3, e2, z3]
          exact h2
        · rw [f1, e1, z1]
          exact h3
        · rw [f2, e1, z2]
          exact h4
        · rw [f4, e3, z4]
          exact h5
        · rcases f5 with f5 | f5
          · rw [f5, e4, z5]
            exact h6
          · rw [f5]
            exact hv
        · rw [f3, e2, z3]

theorem modeLoop_overlay (cfg : Config) (seg : Seg) (ext : Ext W) (hk : KeepsVector ext) :
    ∀ (is : List Nat) (s : PickState W), OverlayInv seg s →
      OverlayInv seg (modeLoop cfg seg ext is s) ∧
        (modeLoop cfg seg ext is s).l.segment_id = s.l.segment_id ∧
        ∀ p ∈ modeTrace cfg seg ext is s,
          ((vp8_mode_order cfg).getD p.1 DC_PRED ≠ ZEROMV ∨
              (vp8_ref_frame_order cfg).getD p.1 INTRA_FRAME ≠ ALTREF_FRAME) →
            p.2 = Event.thresholdSkip ∨ p.2 = Event.segmentSkip ∨ p.2 = Event.altrefSkip
  | [], s, h => ⟨h, rfl, fun p hp => by cases hp⟩
  | i :: is, s, h => by
    obtain ⟨b1, b2, b3⟩ := modeBody_overlay cfg seg ext i s hk h
    obtain ⟨r1, r2, r3⟩ := modeLoop_overlay cfg seg ext hk is (modeBody cfg seg ext i s).s b1
    rw [modeLoop_cons, modeTrace_cons]
    split
    · refine ⟨b1, b2, fun p hp => ?_⟩
      rcases List.mem_cons.1 hp with hp | hp
      · rw [hp]
        exact b3
      · cases hp
    · refine ⟨r1, r2.trans b2, fun p hp => ?_⟩
      rcases List.mem_cons.1 hp with hp | hp
      · rw [hp]
        exact b3
      · exact r3 p hp

theorem pickInit_overlay (cfg : Config) (seg : Seg) (ext : Ext W) (cpi : VP8_COMP)
    (x : MACROBLOCK W) (l0 : Locals)
    (h1 : seg.segfeature_active x.mbmi.segment_id SEG_LVL_REF_FRAME = false)
    (h2 : seg.segfeature_active x.mbmi.segment_id SEG_LVL_MODE = false)
    (h3 : cpi.is_src_frame_alt_ref = true) (h4 : cpi.arnr_max_frames = 0) :
    OverlayInv seg (pickInit cfg ext cpi x l0) ∧
      (pickInit cfg ext cpi x l0).l.segment_id = x.mbmi.segment_id := by
  have hl : ∀ (flag : Bool) (rf : MV_REFERENCE_FRAME) (l : Locals),
      (loadNearMvs ext x flag rf l).segment_id = l.segment_id ∧
        (loadNearMvs ext x flag rf l).best_mbmode = l.best_mbmode := by
    intro flag rf l
    unfold loadNearMvs
    split <;> exact ⟨rfl, rfl⟩
  have hsid : (pickInit cfg ext cpi x l0).l.segment_id = x.mbmi.segment_id := by
    unfold pickInit
    dsimp only
    rw [(hl _ _ _).1, (hl _ _ _).1, (hl _ _ _).1]
  have hbest : (pickInit cfg ext cpi x l0).l.best_mbmode = zeroed_mbmode := by
    unfold pickInit
    dsimp only
    rw [(hl _ _ _).2, (hl _ _ _).2, (hl _ _ _).2]
  refine ⟨⟨?_, ?_, h3, h4, rfl, ?_⟩, hsid⟩
  · rw [hsid]
    exact h1
  · rw [hsid]
    exact h2
  · rw [hbest]
    rfl

end OverlayFacts

/-! ## Facts about the narrowed window -/

section WindowFacts

variable {W : Type}

/-- The narrowed window is the intersection of the window with the one
around the reference vector. -/
theorem narrowWindow_window (cfg : Config) (ref : int_mv) (x : MACROBLOCK W) :
    (narrowWindow cfg ref x).window =
      (max x.mv_row_min (refWindowMin cfg ref.row), min x.mv_row_max (refWindowMax cfg ref.row),
        max x.mv_col_min (refWindowMin cfg ref.col),
        min x.mv_col_max (refWindowMax cfg ref.col)) := by
  have hmax : ∀ a b : Int, (if a < b then b else a) = max a b := by
    intro a b
    split
    · exact (max_eq_right (by omega)).symm
    · exact (max_eq_left (by omega)).symm
  have hmin : ∀ a b : Int, (if a > b then b else a) = min a b := by
    intro a b
    split
    · exact (min_eq_right (by omega)).symm
    · exact (min_eq_left (by omega)).symm
  unfold narrowWindow MACROBLOCK.window refWindowMin refWindowMax
  dsimp only
  rw [hmax, hmax, hmin, hmin]

/-- For a reference vector of `short` components and a `MAX_FULL_PEL_VAL`
of at most 2^30 the bounds around it are computed without wrap. -/
theorem refWindow_exact (cfg : Config) (ref : Int) (h1 : -32768 ≤ ref) (h2 : ref ≤ 32767)
    (h3 : 0 ≤ cfg.MAX_FULL_PEL_VAL) (h4 : cfg.MAX_FULL_PEL_VAL ≤ 1073741824) :
    refWindowMin cfg ref = ref / 8 - cfg.MAX_FULL_PEL_VAL + (if ref % 8 ≠ 0 then 1 else 0) ∧
      refWindowMax cfg ref = ref / 8 + cfg.MAX_FULL_PEL_VAL := by
  have hs : sar ref 3 = ref / 8 := rfl
  unfold refWindowMin refWindowMax iadd isub wrap32
  rw [hs]
  constructor
  · split <;> omega
  · omega

theorem setDmv_window (x : MACROBLOCK W) (v : int_mv) : (setDmv x v).window = x.window := rfl

theorem furtherSteps_window (ext : Ext W) (hk : KeepsWindow ext) (mvp_full brm : int_mv)
    (step_param sadpb further_steps : Int) :
    ∀ (fuel : Nat) (st : StepState W),
      (furtherSteps ext mvp_full brm step_param sadpb further_steps fuel st).x.window =
        st.x.window
  | 0, st => rfl
  | fuel + 1, st => by
    unfold furtherSteps
    split
    · dsimp only
      split
      · rw [furtherSteps_window ext hk]
      · split
        · rw [furtherSteps_window ext hk]
          exact hk.1 _ _ _ _ _ _
        · rw [furtherSteps_window ext hk]
          exact (setDmv_window _ _).trans (hk.1 _ _ _ _ _ _)
    · rfl

theorem refineStep_window (ext : Ext W) (hk : KeepsWindow ext) (sadpb : Int) (brm : int_mv)
    (st : StepState W) : (refineStep ext sadpb brm st).x.window = st.x.window := by
  unfold refineStep
  split
  · dsimp only
    split
    · exact hk.2.1 _ _ _ _
    · exact (setDmv_window _ _).trans (hk.2.1 _ _ _ _)
  · rfl

/-- While the searches of `case NEWMV` run, the window is the narrowed
one. -/
theorem newmvSearched_window (cfg : Config) (ext : Ext W) (s : PickState W)
    (hk : KeepsWindow ext) :
    (newmvSearched cfg ext s).x.window = (narrowWindow cfg s.l.best_ref_mv s.x).window := by
  unfold newmvSearched
  dsimp only
  rw [refineStep_window ext hk, furtherSteps_window ext hk]
  exact hk.1 _ _ _ _ _ _

/-- The search of `case NEWMV` is the searches in the narrowed window, the
restoration of the window and the refinement to a fraction of a pixel. -/
theorem newmvSearch_restores (cfg : Config) (ext : Ext W) (s : PickState W) :
    (newmvSearch cfg ext s).x =
      if (newmvSearched cfg ext s).bestsme < INT_MAX then
        ext.find_fractional_mv_step (restoreWindow s.x (newmvSearched cfg ext s).x)
          s.l.best_ref_mv (restoreWindow s.x (newmvSearched cfg ext s).x).errorperbit
      else restoreWindow s.x (newmvSearched cfg ext s).x := rfl

theorem restoreWindow_window (x0 x : MACROBLOCK W) :
    (restoreWindow x0 x).window = x0.window := rfl

theorem newmvSearch_window (cfg : Config) (ext : Ext W) (s : PickState W)
    (hk : KeepsWindow ext) : (newmvSearch cfg ext s).x.window = s.x.window := by
  rw [newmvSearch_restores]
  split
  · rw [hk.2.2]
    rfl
  · rfl

/-- A check leaves the window, appends its event, and all labels of the
event saw the window the check was entered with. -/
theorem checkStep_window (cfg : Config) (ext : Ext W) (sx : SplitExt W) (sp : SplitParams)
    (seg : Segmentation) (s : PickSegState W) :
    (checkStep cfg ext sx sp seg s).x.window = s.x.window ∧
      ∃ e, (checkStep cfg ext sx sp seg s).trace = s.trace ++ [e] ∧
        ∀ g ∈ e.groups, g.window = s.x.window := by
  have hf := rd_check_segment_facts cfg ext sx sp s.x s.bsi seg
  exact ⟨hf.window, _, rfl, fun g hg => (hf.groups g hg).window⟩

/-- The checks inside the narrowed window (lines 1644-1694): what they
append to the record. -/
theorem narrowedChecks_window (cfg : Config) (ext : Ext W) (sx : SplitExt W)
    (sp : SplitParams) (best_ref_mv : int_mv) (s : PickSegState W) :
    ∃ rest, (finestCheck cfg ext sx sp (halvesChecks cfg ext sx sp best_ref_mv s)).trace =
        s.trace ++ rest ∧
      ∀ f ∈ rest, ∀ g ∈ f.groups, g.window = (narrowWindow cfg best_ref_mv s.x).window := by
  obtain ⟨w2, e2, t2, g2⟩ := checkStep_window cfg ext sx sp BLOCK_8X16
    { x := narrowWindow cfg best_ref_mv s.x
      bsi := setSteps sx 0 2 1 3 (saveQuadrants s.bsi)
      trace := s.trace }
  obtain ⟨w3, e3, t3, g3⟩ := checkStep_window cfg ext sx sp BLOCK_16X8
    { x := (checkStep cfg ext sx sp BLOCK_8X16
        { x := narrowWindow cfg best_ref_mv s.x
          bsi := setSteps sx 0 2 1 3 (saveQuadrants s.bsi)
          trace := s.trace }).x
      bsi := setSteps sx 0 1 2 3 (checkStep cfg ext sx sp BLOCK_8X16
        { x := narrowWindow cfg best_ref_mv s.x
          bsi := setSteps sx 0 2 1 3 (saveQuadrants s.bsi)
          trace := s.trace }).bsi
      trace := (checkStep cfg ext sx sp BLOCK_8X16
        { x := narrowWindow cfg best_ref_mv s.x
          bsi := setSteps sx 0 2 1 3 (saveQuadrants s.bsi)
          trace := s.trace }).trace }
  have hh : halvesChecks cfg ext sx sp best_ref_mv s =
      checkStep cfg ext sx sp BLOCK_16X8
        { x := (checkStep cfg ext sx sp BLOCK_8X16
            { x := narrowWindow cfg best_ref_mv s.x
              bsi := setSteps sx 0 2 1 3 (saveQuadrants s.bsi)
              trace := s.trace }).x
          bsi := setSteps sx 0 1 2 3 (checkStep cfg ext sx sp BLOCK_8X16
            { x := narrowWindow cfg best_ref_mv s.x
              bsi := setSteps sx 0 2 1 3 (saveQuadrants s.bsi)
              trace := s.trace }).bsi
          trace := (checkStep cfg ext sx sp BLOCK_8X16
            { x := narrowWindow cfg best_ref_mv s.x
              bsi := setSteps sx 0 2 1 3 (saveQuadrants s.bsi)
              trace := s.trace }).trace } := by
    unfold halvesChecks
    rfl
  rw [hh]
  generalize checkStep cfg ext sx sp BLOCK_8X16
    { x := narrowWindow cfg best_ref_mv s.x
      bsi := setSteps sx 0 2 1 3 (saveQuadrants s.bsi)
      trace := s.trace } = s2 at w2 t2 g2 w3 t3 g3 ⊢
  generalize checkStep cfg ext sx sp BLOCK_16X8
    { x := s2.x, bsi := setSteps sx 0 1 2 3 s2.bsi, trace := s2.trace } = s3 at w3 t3 g3 ⊢
  have w2' : s2.x.window = (narrowWindow cfg best_ref_mv s.x).window := w2
  have t2' : s2.trace = s.trace ++ [e2] := t2
  have g2' : ∀ g ∈ e2.groups, g.window = (narrowWindow cfg best_ref_mv s.x).window := g2
  have w3' : s3.x.window = s2.x.window := w3
  have t3' : s3.trace = s2.trace ++ [e3] := t3
  have g3' : ∀ g ∈ e3.groups, g.window = s2.x.window := g3
  unfold finestCheck
  split
  · obtain ⟨w4, e4, t4, g4⟩ := checkStep_window cfg ext sx sp BLOCK_4X4
      { x := s3.x, bsi := { s3.bsi with mvp := s3.bsi.sv_mvp 0 }, trace := s3.trace }
    have t4' : (checkStep cfg ext sx sp BLOCK_4X4
        { x := s3.x, bsi := { s3.bsi with mvp := s3.bsi.sv_mvp 0 }, trace := s3.trace }).trace =
        s3.trace ++ [e4] := t4
    have g4' : ∀ g ∈ e4.groups, g.window = s3.x.window := g4
    refine ⟨[e2, e3, e4], ?_, ?_⟩
    · show (checkStep cfg ext sx sp BLOCK_4X4
        { x := s3.x, bsi := { s3.bsi with mvp := s3.bsi.sv_mvp 0 }, trace := s3.trace }).trace
          = _
      rw [t4', t3', t2']
      simp
    · intro f hf g hg
      simp only [List.mem_cons, List.mem_singleton, List.not_mem_nil, or_false] at hf
      rcases hf with rfl | rfl | rfl
      · exact g2' g hg
      · exact (g3' g hg).trans w2'
      · exact (g4' g hg).trans (w3'.trans w2')
  · refine ⟨[e2, e3], ?_, ?_⟩
    · rw [t3', t2']
      simp
    · intro f hf g hg
      simp only [List.mem_cons, List.mem_singleton, List.not_mem_nil, or_false] at hf
      rcases hf with rfl | rfl
      · exact g2' g hg
      · exact (g3' g hg).trans w2'

/-- The checks at reduced effort: the window is left as it was, the check of
the quadrants sees it, and every later check sees the narrowed one. -/
theorem reducedEffortChecks_window (cfg : Config) (ext : Ext W) (sx : SplitExt W)
    (sp : SplitParams) (best_ref_mv : int_mv) (best_rd : Int) (s : PickSegState W) :
    (reducedEffortChecks cfg ext sx sp best_ref_mv best_rd s).x.window = s.x.window ∧
      ∃ e rest, (reducedEffortChecks cfg ext sx sp best_ref_mv best_rd s).trace =
          s.trace ++ e :: rest ∧
        (∀ g ∈ e.groups, g.window = s.x.window) ∧
        ∀ f ∈ rest, ∀ g ∈ f.groups, g.window = (narrowWindow cfg best_ref_mv s.x).window := by
  obtain ⟨w1, e1, t1, g1⟩ := checkStep_window cfg ext sx sp BLOCK_8X8 s
  obtain ⟨rest, tr, gr⟩ := narrowedChecks_window cfg ext sx sp best_ref_mv
    (checkStep cfg ext sx sp BLOCK_8X8 s)
  generalize hs1 : checkStep cfg ext sx sp BLOCK_8X8 s = s1 at w1 t1 g1 tr gr
  have hnw : (narrowWindow cfg best_ref_mv s1.x).window =
      (narrowWindow cfg best_ref_mv s.x).window := by
    rw [narrowWindow_window, narrowWindow_window]
    unfold MACROBLOCK.window at w1
    injection w1 with a1 w1
    injection w1 with a2 w1
    injection w1 with a3 a4
    rw [a1, a2, a3, a4]
  have hred : reducedEffortChecks cfg ext sx sp best_ref_mv best_rd s =
      if s1.bsi.segment_rd < best_rd then
        { x := restoreWindow s1.x
            (finestCheck cfg ext sx sp (halvesChecks cfg ext sx sp best_ref_mv s1)).x
          bsi := (finestCheck cfg ext sx sp (halvesChecks cfg ext sx sp best_ref_mv s1)).bsi
          trace :=
            (finestCheck cfg ext sx sp (halvesChecks cfg ext sx sp best_ref_mv s1)).trace }
      else s1 := by
    rw [← hs1]
    unfold reducedEffortChecks
    rfl
  rw [hred]
  split
  · refine ⟨(restoreWindow_window _ _).trans w1, e1, rest, ?_, g1, ?_⟩
    · show (finestCheck cfg ext sx sp (halvesChecks cfg ext sx sp best_ref_mv s1)).trace = _
      rw [tr, t1]
      simp
    · intro f hf g hg
      exact (gr f hf g hg).trans hnw
  · exact ⟨w1, e1, [], t1, g1, fun f hf => by cases hf⟩

/-- The four checks of best quality all see the window of entry. -/
theorem bestQualityChecks_window (cfg : Config) (ext : Ext W) (sx : SplitExt W)
    (sp : SplitParams) (s : PickSegState W) :
    (bestQualityChecks cfg ext sx sp s).x.window = s.x.window ∧
      ∃ new, (bestQualityChecks cfg ext sx sp s).trace = s.trace ++ new ∧
        ∀ f ∈ new, ∀ g ∈ f.groups, g.window = s.x.window := by
  unfold bestQualityChecks
  obtain ⟨w1, e1, t1, g1⟩ := checkStep_window cfg ext sx sp BLOCK_16X8 s
  generalize checkStep cfg ext sx sp BLOCK_16X8 s = s1 at w1 t1 g1 ⊢
  obtain ⟨w2, e2, t2, g2⟩ := checkStep_window cfg ext sx sp BLOCK_8X16 s1
  generalize checkStep cfg ext sx sp BLOCK_8X16 s1 = s2 at w2 t2 g2 ⊢
  obtain ⟨w3, e3, t3, g3⟩ := checkStep_window cfg ext sx sp BLOCK_8X8 s2
  generalize checkStep cfg ext sx sp BLOCK_8X8 s2 = s3 at w3 t3 g3 ⊢
  obtain ⟨w4, e4, t4, g4⟩ := checkStep_window cfg ext sx sp BLOCK_4X4 s3
  generalize checkStep cfg ext sx sp BLOCK_4X4 s3 = s4 at w4 t4 g4 ⊢
  refine ⟨w4.trans (w3.trans (w2.trans w1)), [e1, e2, e3, e4], ?_, ?_⟩
  · rw [t4, t3, t2, t1]
    simp
  · intro f hf g hg
    simp only [List.mem_cons, List.mem_singleton, List.not_mem_nil, or_false] at hf
    rcases hf with rfl | rfl | rfl | rfl
    · exact g1 g hg
    · exact (g2 g hg).trans w1
    · exact (g3 g hg).trans (w2.trans w1)
    · exact (g4 g hg).trans (w3.trans (w2.trans w1))

end WindowFacts

/-! ## Facts about `rd_pick_intra4x4mby_modes` -/

section MbyFacts

variable {W P : Type}

theorem wrap64_eq_self {x : Int} (h1 : -9223372036854775808 ≤ x)
    (h2 : x ≤ 9223372036854775807) : wrap64 x = x := by
  unfold wrap64
  omega

theorem blockModeStep_int32 (k : IntraConsts) (ext : Ext W) (bx : BlockExt W P) (i : Nat)
    (costs : Int → Int) (ta tl : Int) (s : Block4x4 W P) (mode : Int)
    (h : IsInt32 s.best_rd) :
    IsInt32 (blockModeStep k ext bx i costs ta tl s mode).best_rd := by
  unfold blockModeStep
  split
  · exact h
  · dsimp only
    split
    · exact wrap32_isInt32 _
    · exact h

/-- The value `rd_pick_intra4x4block` returns is an `int`. -/
theorem rd_pick_intra4x4block_int32 (k : IntraConsts) (ext : Ext W) (bx : BlockExt W P)
    (i : Nat) (costs : Int → Int) (s0 : Block4x4 W P) :
    IsInt32 (rd_pick_intra4x4block k ext bx i costs s0).best_rd := by
  have hfold : ∀ (ms : List Int) (s : Block4x4 W P), IsInt32 s.best_rd →
      IsInt32 (ms.foldl (blockModeStep k ext bx i costs s0.a s0.l) s).best_rd := by
    intro ms
    induction ms with
    | nil => exact fun s h => h
    | cons m ms ih =>
      intro s h
      exact ih _ (blockModeStep_int32 k ext bx i costs s0.a s0.l s m h)
  unfold rd_pick_intra4x4block
  dsimp only
  exact hfold _ _ (by show IsInt32 INT_MAX; decide)

theorem sum_int32_bound : ∀ (l : List Int), (∀ v ∈ l, IsInt32 v) →
    -(l.length : Int) * 2147483648 ≤ l.sum ∧ l.sum ≤ (l.length : Int) * 2147483648
  | [], _ => by simp
  | v :: l, h => by
    have hv := h v (List.mem_cons_self _ _)
    have ih := sum_int32_bound l (fun w hw => h w (List.mem_cons_of_mem _ hw))
    unfold IsInt32 INT_MIN INT_MAX at hv
    rw [List.sum_cons, List.length_cons]
    push_cast
    constructor <;> nlinarith [hv.1, hv.2, ih.1, ih.2]

theorem runningSum_append_le (blocks : List BlockOut) (b : BlockOut) (j : Nat)
    (hj : j ≤ blocks.length) : runningSum (blocks ++ [b]) j = runningSum blocks j := by
  unfold runningSum
  rw [List.take_append_of_le_length hj]

theorem runningSum_append_all (blocks : List BlockOut) (b : BlockOut) :
    runningSum (blocks ++ [b]) (blocks.length + 1) =
      runningSum blocks blocks.length + b.ret := by
  unfold runningSum
  have h1 : (blocks ++ [b]).take (blocks.length + 1) = blocks ++ [b] := by
    apply List.take_of_length_le
    rw [List.length_append]
    rfl
  rw [h1, List.take_length, List.map_append, List.sum_append]
  simp

/-- The loop body keeps the invariant as long as at most 16 blocks are
recorded. -/
theorem mbyBlock_inv (k : IntraConsts) (ext : Ext W) (bx : BlockExt W P) (q : QuadExt W P)
    (c0 : Int) (s : MbyState W) (h : MbyInv c0 s) (hlen : s.blocks.length < 16) :
    MbyInv c0 (mbyBlock k ext bx q s s.blocks.length) ∧
      (mbyBlock k ext bx q s s.blocks.length).blocks.length = s.blocks.length + 1 ∧
      ∃ b, (mbyBlock k ext bx q s s.blocks.length).blocks = s.blocks ++ [b] := by
  obtain ⟨h1, h2, h3, h4, h5, h6⟩ := h
  have hret : IsInt32 (mbyCall k ext bx q s s.blocks.length).best_rd :=
    rd_pick_intra4x4block_int32 k ext bx s.blocks.length _ _
  unfold mbyBlock
  dsimp only
  generalize mbyCall k ext bx q s s.blocks.length = b at hret ⊢
  refine ⟨⟨?_, ?_, ?_, ?_, ?_, ?_⟩, ?_, ⟨_, rfl⟩⟩
  · dsimp only
    rw [List.map_append, h1, List.length_append, List.length_singleton, List.range_succ]
    rfl
  · intro v hv
    rcases List.mem_append.1 hv with hv | hv
    · exact h2 v hv
    · rw [List.mem_singleton] at hv
      rw [hv]
      exact hret
  · dsimp only
    rw [List.length_append, List.length_singleton, runningSum_append_all, ← h3]
    have hb := sum_int32_bound (s.blocks.map BlockOut.ret) (by
      intro v hv
      obtain ⟨w, hw, rfl⟩ := List.mem_map.1 hv
      exact h2 w hw)
    rw [List.length_map] at hb
    have h3' : s.total_rd = (s.blocks.map BlockOut.ret).sum := by
      rw [h3]
      unfold runningSum
      rw [List.take_length]
    unfold IsInt32 INT_MIN INT_MAX at hret
    have hl : (s.blocks.length : Int) < 16 := by exact_mod_cast hlen
    apply wrap64_eq_self
    · nlinarith [hb.1, hb.2, hret.1, hret.2]
    · nlinarith [hb.1, hb.2, hret.1, hret.2]
  · dsimp only
    rw [List.foldl_append, ← h4]
    rfl
  · dsimp only
    rw [List.foldl_append, ← h5]
    rfl
  · dsimp only
    rw [List.foldl_append, ← h6]
    rfl
  · dsimp only
    rw [List.length_append, List.length_singleton]

/-- The loop of `rd_pick_intra4x4mby_modes` from block `n` on, for `m`
blocks at most: it keeps the invariant, every running sum in front of the
last block recorded is below `best_rd`, and it goes through all the blocks
unless the running sum reaches `best_rd`. -/
theorem mbyLoop_spec (k : IntraConsts) (ext : Ext W) (bx : BlockExt W P) (q : QuadExt W P)
    (best_rd c0 : Int) :
    ∀ (m n : Nat) (s : MbyState W), s.blocks.length = n → n + m ≤ 16 → MbyInv c0 s →
      (∀ j, 0 < j → j ≤ n → runningSum s.blocks j < best_rd) →
      MbyInv c0 (mbyLoop k ext bx q best_rd (List.range' n m) s) ∧
        (∀ j, 0 < j → j < (mbyLoop k ext bx q best_rd (List.range' n m) s).blocks.length →
          runningSum (mbyLoop k ext bx q best_rd (List.range' n m) s).blocks j < best_rd) ∧
        (mbyLoop k ext bx q best_rd (List.range' n m) s).blocks.length ≤ n + m ∧
        n ≤ (mbyLoop k ext bx q best_rd (List.range' n m) s).blocks.length ∧
        (0 < m → n < (mbyLoop k ext bx q best_rd (List.range' n m) s).blocks.length) ∧
        ((mbyLoop k ext bx q best_rd (List.range' n m) s).total_rd < best_rd →
          (mbyLoop k ext bx q best_rd (List.range' n m) s).blocks.length = n + m)
  | 0, n, s, hn, _, hinv, hpre => by
    refine ⟨hinv, ?_, ?_, ?_, fun h => absurd h (lt_irrefl _), fun _ => ?_⟩
    · intro j h1 h2
      exact hpre j h1 (by rw [← hn]; exact le_of_lt h2)
    · show s.blocks.length ≤ n + 0
      omega
    · show n ≤ s.blocks.length
      omega
    · show s.blocks.length = n + 0
      omega
  | m + 1, n, s, hn, hle, hinv, hpre => by
    obtain ⟨binv, blen, b, hb⟩ := mbyBlock_inv k ext bx q c0 s hinv (by omega)
    rw [hn] at binv blen hb
    have hstep : mbyLoop k ext bx q best_rd (List.range' n (m + 1)) s =
        if (mbyBlock k ext bx q s n).total_rd ≥ best_rd then mbyBlock k ext bx q s n
        else mbyLoop k ext bx q best_rd (List.range' (n + 1) m) (mbyBlock k ext bx q s n) :=
      rfl
    rw [hstep]
    have hpre1 : ∀ j, 0 < j → j ≤ n → runningSum (mbyBlock k ext bx q s n).blocks j < best_rd := by
      intro j h1 h2
      rw [hb, runningSum_append_le _ _ _ (by omega)]
      exact hpre j h1 h2
    split
    · rename_i hge
      refine ⟨binv, ?_, by omega, by omega, fun _ => by omega,
        fun hlt => absurd hge (not_le.2 hlt)⟩
      intro j h1 h2
      exact hpre1 j h1 (by omega)
    · rename_i hlt
      have hlt' : (mbyBlock k ext bx q s n).total_rd < best_rd := not_le.1 hlt
      obtain ⟨r1, r2, r3, r4, _, r5⟩ := mbyLoop_spec k ext bx q best_rd c0 m (n + 1)
        (mbyBlock k ext bx q s n) blen (by omega) binv (by
          intro j h1 h2
          rcases Nat.lt_or_ge j (n + 1) with h3 | h3
          · exact hpre1 j h1 (by omega)
          · have hj : j = n + 1 := by omega
            rw [hj, ← blen, ← binv.2.2.1]
            exact hlt')
      exact ⟨r1, r2, by omega, by omega, fun _ => by omega, fun h => by rw [r5 h]; omega⟩

/-- The `int` sum of a list from `c` is the mathematical sum as long as no
partial sum leaves the range of `int`. -/
theorem foldl_iadd_sum {α : Type} (f : α → Int) : ∀ (l : List α) (c : Int),
    (∀ j, j ≤ l.length → IsInt32 (c + ((l.take j).map f).sum)) →
    l.foldl (fun c b => iadd c (f b)) c = c + (l.map f).sum
  | [], c, _ => by simp
  | b :: l, c, h => by
    have h1 := h 1 (by simp)
    have hc : iadd c (f b) = c + f b := by
      apply wrap32_eq_self
      simpa using h1
    rw [List.foldl_cons, hc, foldl_iadd_sum f l (c + f b) (by
      intro j hj
      have := h (j + 1) (by simpa using hj)
      rw [List.take_succ_cons, List.map_cons, List.sum_cons, ← add_assoc] at this
      exact this)]
    rw [List.map_cons, List.sum_cons, add_assoc]

end MbyFacts

/-! ## The loop of `rd_pick_intra4x4mby_modes` and the searches of the blocks -/

section MbySearchFacts

variable {W P : Type}

theorem mbySearched_succ (k : IntraConsts) (ext : Ext W) (bx : BlockExt W P)
    (q : QuadExt W P) (mb : MACROBLOCK W) (n : Nat) :
    mbySearched k ext bx q mb (n + 1) =
      mbyBlock k ext bx q (mbySearched k ext bx q mb n) n := by
  unfold mbySearched
  rw [List.range_succ, List.foldl_append]
  rfl

/-- The record behind `n` searches lists what the searches gave. -/
theorem mbySearched_blocks (k : IntraConsts) (ext : Ext W) (bx : BlockExt W P)
    (q : QuadExt W P) (mb : MACROBLOCK W) :
    ∀ n, (mbySearched k ext bx q mb n).blocks =
      (List.range n).map (blockResult k ext bx q mb)
  | 0 => rfl
  | n + 1 => by
    rw [mbySearched_succ, List.range_succ, List.map_append, ← mbySearched_blocks k ext bx q mb n]
    rfl

theorem mbySearched_length (k : IntraConsts) (ext : Ext W) (bx : BlockExt W P)
    (q : QuadExt W P) (mb : MACROBLOCK W) (n : Nat) :
    (mbySearched k ext bx q mb n).blocks.length = n := by
  rw [mbySearched_blocks, List.length_map, List.length_range]

/-- The invariant of the loop holds behind the searches of up to 16
blocks. -/
theorem mbySearched_inv (k : IntraConsts) (ext : Ext W) (bx : BlockExt W P)
    (q : QuadExt W P) (mb : MACROBLOCK W) :
    ∀ n, n ≤ 16 → MbyInv (ext.mbmode_cost mb B_PRED) (mbySearched k ext bx q mb n)
  | 0, _ => ⟨rfl, (fun b hb => by cases hb), rfl, rfl, rfl, rfl⟩
  | n + 1, h => by
    have ih := mbySearched_inv k ext bx q mb n (by omega)
    have hlen := mbySearched_length k ext bx q mb n
    have hb := (mbyBlock_inv k ext bx q _ _ ih (by rw [hlen]; omega)).1
    rw [hlen] at hb
    rw [mbySearched_succ]
    exact hb

/-- The `int64_t` sum `total_rd` behind `n` searches is the mathematical
sum of the values returned. -/
theorem mbySearched_total (k : IntraConsts) (ext : Ext W) (bx : BlockExt W P)
    (q : QuadExt W P) (mb : MACROBLOCK W) (n : Nat) (h : n ≤ 16) :
    (mbySearched k ext bx q mb n).total_rd = blockSum k ext bx q mb n := by
  have hinv := (mbySearched_inv k ext bx q mb n h).2.2.1
  rw [hinv]
  unfold runningSum blockSum
  rw [List.take_length, mbySearched_blocks, List.map_map]
  rfl

/-- The loop from block `n` on, for `m` blocks at most, behind the searches
of the blocks before `n`: it ends behind the search of a block `j - 1`, the
first at which the running sum reaches `best_rd`, or the last block. -/
theorem mbyLoop_searched (k : IntraConsts) (ext : Ext W) (bx : BlockExt W P)
    (q : QuadExt W P) (mb : MACROBLOCK W) (best_rd : Int) :
    ∀ (m n : Nat), n + m ≤ 16 →
      (∀ i, 0 < i → i ≤ n → blockSum k ext bx q mb i < best_rd) →
      ∃ j, n ≤ j ∧ j ≤ n + m ∧ (0 < m → n < j) ∧
        mbyLoop k ext bx q best_rd (List.range' n m) (mbySearched k ext bx q mb n) =
          mbySearched k ext bx q mb j ∧
        (∀ i, 0 < i → i < j → blockSum k ext bx q mb i < best_rd) ∧
        (blockSum k ext bx q mb j < best_rd → j = n + m)
  | 0, n, _, hpre =>
    ⟨n, le_refl _, le_refl _, fun h => absurd h (lt_irrefl _), rfl,
      fun i h1 h2 => hpre i h1 (le_of_lt h2), fun _ => rfl⟩
  | m + 1, n, hle, hpre => by
    have hstep : mbyLoop k ext bx q best_rd (List.range' n (m + 1))
          (mbySearched k ext bx q mb n) =
        if (mbySearched k ext bx q mb (n + 1)).total_rd ≥ best_rd then
          mbySearched k ext bx q mb (n + 1)
        else mbyLoop k ext bx q best_rd (List.range' (n + 1) m)
          (mbySearched k ext bx q mb (n + 1)) := by
      rw [mbySearched_succ]
      rfl
    rw [hstep, mbySearched_total k ext bx q mb (n + 1) (by omega)]
    split
    · rename_i hge
      refine ⟨n + 1, by omega, by omega, fun _ => by omega, rfl, ?_, ?_⟩
      · intro i h1 h2
        exact hpre i h1 (by omega)
      · intro hlt
        exact absurd hge (not_le.2 hlt)
    · rename_i hlt
      obtain ⟨j, j1, j2, _, j4, j5, j6⟩ := mbyLoop_searched k ext bx q mb best_rd m (n + 1)
        (by omega) (by
          intro i h1 h2
          rcases Nat.lt_or_ge i (n + 1) with h3 | h3
          · exact hpre i h1 (by omega)
          · have hi : i = n + 1 := by omega
            rw [hi]
            exact not_le.1 hlt)
      exact ⟨j, by omega, by omega, fun _ => by omega, j4, j5, fun h => by rw [j6 h]; omega⟩

/-- The loop of `rd_pick_intra4x4mby_modes` ends behind the search of the
first block at which the running sum reaches `best_rd`, or behind the search
of the last block. -/
theorem mbyLoop_all (k : IntraConsts) (ext : Ext W) (bx : BlockExt W P)
    (q : QuadExt W P) (mb : MACROBLOCK W) (best_rd : Int) :
    ∃ j, 0 < j ∧ j ≤ 16 ∧
      mbyLoop k ext bx q best_rd (List.range 16) (mbyStart k ext q mb) =
        mbySearched k ext bx q mb j ∧
      (∀ i, 0 < i → i < j → blockSum k ext bx q mb i < best_rd) ∧
      (blockSum k ext bx q mb j < best_rd → j = 16) := by
  obtain ⟨j, _, j2, j3, j4, j5, j6⟩ := mbyLoop_searched k ext bx q mb best_rd 16 0
    (by decide) (fun i h1 h2 => absurd h2 (by omega))
  have hrange : List.range' 0 16 = List.range 16 := by decide
  rw [hrange] at j4
  refine ⟨j, j3 (by decide), by omega, j4, j5, fun h => by rw [j6 h]⟩

end MbySearchFacts

/-! ## Claim on the window of legal vectors -/

section ClaimsWindow

variable {W : Type}

/-- Claim C31: `vp8_rd_pick_best_mbsegmentation`, on every path, and the
NEWMV branch of `vp8_rd_pick_inter_mode` leave `x->mv_row_min`,
`x->mv_row_max`, `x->mv_col_min` and `x->mv_col_max` equal to their values on
entry.  In the partition search every label is checked with the window of
entry or with the narrowed one, at reduced effort the first check with the
window of entry and every later one with the narrowed one; in the NEWMV
branch the searches run with the narrowed one (the search routines leaving
the four bounds alone).  The narrowed window is the intersection of the
window of entry with the one around the reference vector, whose bounds
`(ref >> 3) - MAX_FULL_PEL_VAL + ((ref & 7) ? 1 : 0)` and
`(ref >> 3) + MAX_FULL_PEL_VAL` are computed without wrap for a vector of
`short` components. -/
theorem c31_window_restored (cfg : Config) (ext : Ext W) (sx : SplitExt W) (sp : SplitParams)
    (x : MACROBLOCK W) (best_ref_mv : int_mv) (best_rd : Int) (mdcounts : Nat → Int)
    (mvthresh : Int) (s : PickState W) (hk : KeepsWindow ext) :
    (vp8_rd_pick_best_mbsegmentation cfg ext sx sp x best_ref_mv best_rd mdcounts
        mvthresh).x.window = x.window ∧
      (∀ e ∈ (vp8_rd_pick_best_mbsegmentation cfg ext sx sp x best_ref_mv best_rd mdcounts
          mvthresh).trace, ∀ g ∈ e.groups,
        g.window = x.window ∨ g.window = (narrowWindow cfg best_ref_mv x).window) ∧
      (sp.compressor_speed ≠ 0 →
        (∀ e ∈ (vp8_rd_pick_best_mbsegmentation cfg ext sx sp x best_ref_mv best_rd mdcounts
            mvthresh).trace.head?, ∀ g ∈ e.groups, g.window = x.window) ∧
        ∀ e ∈ (vp8_rd_pick_best_mbsegmentation cfg ext sx sp x best_ref_mv best_rd mdcounts
            mvthresh).trace.tail, ∀ g ∈ e.groups,
          g.window = (narrowWindow cfg best_ref_mv x).window) ∧
      (newmvSearch cfg ext s).x.window = s.x.window ∧
      (newmvSearched cfg ext s).x.window = (narrowWindow cfg s.l.best_ref_mv s.x).window ∧
      (∀ (ref : int_mv) (y : MACROBLOCK W),
        (narrowWindow cfg ref y).window =
          (max y.mv_row_min (refWindowMin cfg ref.row),
            min y.mv_row_max (refWindowMax cfg ref.row),
            max y.mv_col_min (refWindowMin cfg ref.col),
            min y.mv_col_max (refWindowMax cfg ref.col))) ∧
      (∀ ref : Int, -32768 ≤ ref → ref ≤ 32767 → 0 ≤ cfg.MAX_FULL_PEL_VAL →
        cfg.MAX_FULL_PEL_VAL ≤ 1073741824 →
        refWindowMin cfg ref =
            ref / 8 - cfg.MAX_FULL_PEL_VAL + (if ref % 8 ≠ 0 then 1 else 0) ∧
          refWindowMax cfg ref = ref / 8 + cfg.MAX_FULL_PEL_VAL) := by
  have hsplit : (segmentChecks cfg ext sx sp x best_ref_mv best_rd mdcounts mvthresh).x.window =
        x.window ∧
      (∀ e ∈ (segmentChecks cfg ext sx sp x best_ref_mv best_rd mdcounts mvthresh).trace,
        ∀ g ∈ e.groups,
          g.window = x.window ∨ g.window = (narrowWindow cfg best_ref_mv x).window) ∧
      (sp.compressor_speed ≠ 0 →
        (∀ e ∈ (segmentChecks cfg ext sx sp x best_ref_mv best_rd mdcounts
            mvthresh).trace.head?, ∀ g ∈ e.groups, g.window = x.window) ∧
        ∀ e ∈ (segmentChecks cfg ext sx sp x best_ref_mv best_rd mdcounts
            mvthresh).trace.tail, ∀ g ∈ e.groups,
          g.window = (narrowWindow cfg best_ref_mv x).window) := by
    unfold segmentChecks
    dsimp only
    split
    · rename_i hsp
      obtain ⟨w, new, t, g⟩ := bestQualityChecks_window cfg ext sx sp
        { x := x, bsi := bsiInit cfg best_ref_mv best_rd mdcounts mvthresh, trace := [] }
      refine ⟨w, ?_, fun hne => absurd hsp hne⟩
      intro e he g1 hg1
      rw [t] at he
      exact Or.inl (g e (by simpa using he) g1 hg1)
    · obtain ⟨w, e1, rest, t, g1, gr⟩ := reducedEffortChecks_window cfg ext sx sp best_ref_mv
        best_rd { x := x, bsi := bsiInit cfg best_ref_mv best_rd mdcounts mvthresh, trace := [] }
      have t' : (reducedEffortChecks cfg ext sx sp best_ref_mv best_rd
          { x := x, bsi := bsiInit cfg best_ref_mv best_rd mdcounts mvthresh,
            trace := [] }).trace = e1 :: rest := t
      refine ⟨w, ?_, fun _ => ⟨?_, ?_⟩⟩
      · intro e he g hg
        rw [t'] at he
        rcases List.mem_cons.1 he with rfl | he
        · exact Or.inl (g1 g hg)
        · exact Or.inr (gr e he g hg)
      · intro e he g hg
        rw [t'] at he
        cases he
        exact g1 g hg
      · intro e he g hg
        rw [t'] at he
        exact gr e he g hg
  refine ⟨hsplit.1, hsplit.2.1, hsplit.2.2, newmvSearch_window cfg ext s hk,
    newmvSearched_window cfg ext s hk, fun ref y => narrowWindow_window cfg ref y,
    fun ref h1 h2 h3 h4 => refWindow_exact cfg ref h1 h2 h3 h4⟩

theorem c31_window_restored_witness :
    (narrowWindow stdConfig farRef (benchX 0)).window = (45, 100, -100, -45) ∧
      (benchX 0).window = (-100, 100, -100, 100) ∧
      (vp8_rd_pick_best_mbsegmentation stdConfig (benchExt bench1) (splitExt (splitBench 10))
          reducedEffort (benchX 0) farRef 1000 (fun _ => 0) 0).trace.map
            (fun e => e.groups.map (fun g => g.window)) =
        [[(-100, 100, -100, 100), (-100, 100, -100, 100), (-100, 100, -100, 100),
            (-100, 100, -100, 100)],
          [(45, 100, -100, -45), (45, 100, -100, -45)],
          [(45, 100, -100, -45), (45, 100, -100, -45)]] ∧
      (vp8_rd_pick_best_mbsegmentation stdConfig (benchExt bench1) (splitExt (splitBench 10))
        reducedEffort (benchX 0) farRef 1000 (fun _ => 0) 0).x.window = (benchX 0).window ∧
      (newmvSearch stdConfig (benchExt bench1) farRefState).x.window = farRefState.x.window ∧
      (newmvSearched stdConfig (benchExt bench1) farRefState).x.window =
        (narrowWindow stdConfig farRefState.l.best_ref_mv farRefState.x).window :=
  ⟨by decide, by decide, by decide,
    (c31_window_restored stdConfig (benchExt bench1) (splitExt (splitBench 10)) reducedEffort
      (benchX 0) farRef 1000 (fun _ => 0) 0 farRefState
      ⟨fun _ _ _ _ _ _ => rfl, fun _ _ _ _ => rfl, fun _ _ _ => rfl⟩).1,
    (c31_window_restored stdConfig (benchExt bench1) (splitExt (splitBench 10)) reducedEffort
      (benchX 0) farRef 1000 (fun _ => 0) 0 farRefState
      ⟨fun _ _ _ _ _ _ => rfl, fun _ _ _ _ => rfl, fun _ _ _ => rfl⟩).2.2.2.1,
    (c31_window_restored stdConfig (benchExt bench1) (splitExt (splitBench 10)) reducedEffort
      (benchX 0) farRef 1000 (fun _ => 0) 0 farRefState
      ⟨fun _ _ _ _ _ _ => rfl, fun _ _ _ _ => rfl, fun _ _ _ => rfl⟩).2.2.2.2.1⟩

end ClaimsWindow

/-! ## Claim on the granularity `vp8_rd_pick_intra_mode` selects -/

section ClaimsGranularity

variable {W : Type}

/-- Claim C32: for all values of the three errors in front of the comparison
of line 3156, the macroblock mode `vp8_rd_pick_intra_mode` commits is `B_PRED`,
`I8X8_PRED` or the mode the 16x16 search selected, the error of that
granularity equals the minimum of `error16x16`, `error8x8` and `error4x4`, and
the rate returned is `rate`, the chroma rate, plus the rate of exactly that
granularity (the sum of the two `int`s, the mathematical sum when that is in
the range of `int`). -/
theorem c32_minimum_error_granularity (cfg : Config) (seg : Seg) (ext : Ext W)
    (ix : IntraExt W) (x : MACROBLOCK W) (st : IntraStale) :
    ((vp8_rd_pick_intra_mode cfg seg ext ix x st).1.mbmi.mode = B_PRED ∧
        (intraCosts cfg seg ext ix x st).error4x4 =
          min (intraCosts cfg seg ext ix x st).error16x16
            (min (intraCosts cfg seg ext ix x st).error8x8
              (intraCosts cfg seg ext ix x st).error4x4) ∧
        (vp8_rd_pick_intra_mode cfg seg ext ix x st).2 =
          iadd (intraCosts cfg seg ext ix x st).rate
            (intraCosts cfg seg ext ix x st).rate4x4 ∧
        (IsInt32 ((intraCosts cfg seg ext ix x st).rate +
            (intraCosts cfg seg ext ix x st).rate4x4) →
          (vp8_rd_pick_intra_mode cfg seg ext ix x st).2 =
            (intraCosts cfg seg ext ix x st).rate +
              (intraCosts cfg seg ext ix x st).rate4x4)) ∨
      ((vp8_rd_pick_intra_mode cfg seg ext ix x st).1.mbmi.mode = I8X8_PRED ∧
        (intraCosts cfg seg ext ix x st).error8x8 =
          min (intraCosts cfg seg ext ix x st).error16x16
            (min (intraCosts cfg seg ext ix x st).error8x8
              (intraCosts cfg seg ext ix x st).error4x4) ∧
        (vp8_rd_pick_intra_mode cfg seg ext ix x st).2 =
          iadd (intraCosts cfg seg ext ix x st).rate
            (intraCosts cfg seg ext ix x st).rate8x8 ∧
        (IsInt32 ((intraCosts cfg seg ext ix x st).rate +
            (intraCosts cfg seg ext ix x st).rate8x8) →
          (vp8_rd_pick_intra_mode cfg seg ext ix x st).2 =
            (intraCosts cfg seg ext ix x st).rate +
              (intraCosts cfg seg ext ix x st).rate8x8)) ∨
      ((vp8_rd_pick_intra_mode cfg seg ext ix x st).1.mbmi.mode =
          (intraCosts cfg seg ext ix x st).mode16x16 ∧
        (intraCosts cfg seg ext ix x st).error16x16 =
          min (intraCosts cfg seg ext ix x st).error16x16
            (min (intraCosts cfg seg ext ix x st).error8x8
              (intraCosts cfg seg ext ix x st).error4x4) ∧
        (vp8_rd_pick_intra_mode cfg seg ext ix x st).2 =
          iadd (intraCosts cfg seg ext ix x st).rate
            (intraCosts cfg seg ext ix x st).rate16x16 ∧
        (IsInt32 ((intraCosts cfg seg ext ix x st).rate +
            (intraCosts cfg seg ext ix x st).rate16x16) →
          (vp8_rd_pick_intra_mode cfg seg ext ix x st).2 =
            (intraCosts cfg seg ext ix x st).rate +
              (intraCosts cfg seg ext ix x st).rate16x16)) := by
  unfold vp8_rd_pick_intra_mode
  generalize intraCosts cfg seg ext ix x st = c
  have hex : ∀ a b : Int, IsInt32 (a + b) → iadd a b = a + b :=
    fun a b h => wrap32_eq_self h
  unfold chooseIntra
  by_cases h1 : c.error8x8 > c.error16x16
  · rw [if_pos h1]
    by_cases h2 : c.error4x4 < c.error16x16
    · rw [if_pos h2]
      refine Or.inl ⟨rfl, ?_, rfl, hex _ _⟩
      rw [min_eq_right (by omega : c.error4x4 ≤ c.error8x8),
        min_eq_right (by omega : c.error4x4 ≤ c.error16x16)]
    · rw [if_neg h2]
      refine Or.inr (Or.inr ⟨rfl, ?_, rfl, hex _ _⟩)
      rw [min_eq_left]
      exact le_min (by omega) (by omega)
  · rw [if_neg h1]
    by_cases h2 : c.error4x4 < c.error8x8
    · rw [if_pos h2]
      refine Or.inl ⟨rfl, ?_, rfl, hex _ _⟩
      rw [min_eq_right (by omega : c.error4x4 ≤ c.error8x8),
        min_eq_right (by omega : c.error4x4 ≤ c.error16x16)]
    · rw [if_neg h2]
      refine Or.inr (Or.inl ⟨rfl, ?_, rfl, hex _ _⟩)
      rw [min_eq_left (by omega : c.error8x8 ≤ c.error4x4),
        min_eq_right (by omega : c.error8x8 ≤ c.error16x16)]

end ClaimsGranularity

/-! ## The left contexts of the 8x8 block search -/

section ClaimsQuad

variable {W P : Type}

/-- Claim C33: what `rd_pick_intra8x8block` does with the entropy contexts.
It reads the left contexts at `vp8_block2above[ib]` and
`vp8_block2above[ib + 4]` and writes back there and nowhere else in `l`; it
reads and writes the above contexts at `vp8_block2above[ib]` and
`vp8_block2above[ib + 1]`.  On the quadrant of block 2, with the tables of
the block layout (`vp8_block2left[2] = 0`, `vp8_block2left[6] = 1`,
`vp8_block2above[2] = vp8_block2above[6] = 2`), a left context of 1 in the
third row only and one coefficient in every block, the coefficient rate of
the best mode is 68 and `l[0]`, `l[1]` stay 0, where the calls of
`cost_coeffs` with `l[vp8_block2left[b]]`, as `vp8_rdcost_mby` makes them,
give 48 and leave `l[0] = l[1] = 1`. -/
theorem c33_left_context_read_by_above_table (k : IntraConsts) (ext : Ext W)
    (bx : BlockExt W P) (q : QuadExt W P) (ib : Nat) (mode_costs : Int → Int)
    (a l : Nat → Int) (s0 : Quad8x8 W P) :
    (∀ j, j ≠ q.vp8_block2above ib → j ≠ q.vp8_block2above (ib + 4) →
        (rd_pick_intra8x8block k ext bx q ib mode_costs a l s0).l j = l j) ∧
      (∀ j, j ≠ q.vp8_block2above ib → j ≠ q.vp8_block2above (ib + 1) →
        (rd_pick_intra8x8block k ext bx q ib mode_costs a l s0).a j = a j) ∧
      (∀ l2 : Nat → Int, l2 (q.vp8_block2above ib) = l (q.vp8_block2above ib) →
        l2 (q.vp8_block2above (ib + 4)) = l (q.vp8_block2above (ib + 4)) →
        (rd_pick_intra8x8block k ext bx q ib mode_costs a l2 s0).s =
          (rd_pick_intra8x8block k ext bx q ib mode_costs a l s0).s) ∧
      (sampleQuad.vp8_block2left 2 = 0 ∧ sampleQuad.vp8_block2left 6 = 1 ∧
        sampleQuad.vp8_block2above 2 = 2 ∧ sampleQuad.vp8_block2above 6 = 2 ∧
        (rd_pick_intra8x8block stdIntra (plainExt 1) contextBlock sampleQuad 2 (fun _ => 3)
          noContext thirdRowSet quadEntry).s.bestratey = 68 ∧
        (List.range 4).map (rd_pick_intra8x8block stdIntra (plainExt 1) contextBlock
          sampleQuad 2 (fun _ => 3) noContext thirdRowSet quadEntry).l = [0, 0, 1, 0] ∧
        (List.range 4).map (rd_pick_intra8x8block stdIntra (plainExt 1) contextBlock
          sampleQuad 2 (fun _ => 3) noContext thirdRowSet quadEntry).a = [0, 0, 1, 1] ∧
        (quadCostByRows stdIntra (plainExt 1) contextBlock sampleQuad (blockX 1) 2
          stdIntra.PLANE_TYPE_Y_WITH_DC noContext thirdRowSet).1 = 48 ∧
        (List.range 4).map (quadCostByRows stdIntra (plainExt 1) contextBlock sampleQuad
          (blockX 1) 2 stdIntra.PLANE_TYPE_Y_WITH_DC noContext thirdRowSet).2.2 =
            [1, 1, 1, 0] ∧
        (List.range 4).map (quadCostByRows stdIntra (plainExt 1) contextBlock sampleQuad
          (blockX 1) 2 stdIntra.PLANE_TYPE_Y_WITH_DC noContext thirdRowSet).2.1 =
            [0, 0, 1, 1]) := by
  refine ⟨?_, ?_, ?_, by decide⟩
  · intro j h1 h2
    unfold rd_pick_intra8x8block
    dsimp only
    rw [Function.update_noteq h2, Function.update_noteq h1]
  · intro j h1 h2
    unfold rd_pick_intra8x8block
    dsimp only
    rw [Function.update_noteq h2, Function.update_noteq h1]
  · intro l2 h1 h2
    have he : ∀ (x : MACROBLOCK W) (mode : Int),
        evalQuadMode k ext bx q x ib mode_costs a l2 mode =
          evalQuadMode k ext bx q x ib mode_costs a l mode := by
      intro x mode
      unfold evalQuadMode
      rw [h1, h2]
    have hs : quadModeStep k ext bx q ib mode_costs a l2 =
        quadModeStep k ext bx q ib mode_costs a l := by
      funext s mode
      unfold quadModeStep
      rw [he]
    unfold rd_pick_intra8x8block
    dsimp only
    rw [hs]

end ClaimsQuad

/-! ## Claim on the 4x4 search of a macroblock -/

section ClaimsMby

variable {W P : Type}

/-- Claim C34: `rd_pick_intra4x4mby_modes` returns `INT_MAX` without writing
`*Rate`, `*rate_y` or `*Distortion` exactly when the running sum of the best
RD costs `rd_pick_intra4x4block` returns for the blocks reaches or exceeds
`best_rd` after some block.  If block `n` is the first at which it does, the
function searches the blocks 0 to `n` and no later one, returns `INT_MAX`
and leaves the three outputs as they were; for a `best_rd` that is an `int`
the value returned is then not below `best_rd`, which is what the caller
tests.  If the sum stays below `best_rd`, the function searches all 16
blocks in their order and returns `RDCOST(rdmult, rddiv, cost, distortion)`
with `cost` the `int` sum of `mbmode_cost[frame_type][B_PRED]` and the 16
rates and `distortion` the `int` sum of the 16 distortions (the mathematical
sums as long as no partial sum leaves the range of `int`), and stores them.
The record of the call lists what the searches of the blocks gave. -/
theorem c34_failure_as_saturation (k : IntraConsts) (ext : Ext W) (bx : BlockExt W P)
    (q : QuadExt W P) (mb : MACROBLOCK W) (Rate rate_y Distortion best_rd : Int) :
    ((rd_pick_intra4x4mby_modes k ext bx q mb Rate rate_y Distortion best_rd).wrote = false ↔
        ∃ n, n < 16 ∧ best_rd ≤ blockSum k ext bx q mb (n + 1)) ∧
      (∀ n, n < 16 → best_rd ≤ blockSum k ext bx q mb (n + 1) →
        (∀ j, j < n → blockSum k ext bx q mb (j + 1) < best_rd) →
        (rd_pick_intra4x4mby_modes k ext bx q mb Rate rate_y Distortion best_rd).ret = INT_MAX ∧
          (rd_pick_intra4x4mby_modes k ext bx q mb Rate rate_y Distortion best_rd).rate = Rate ∧
          (rd_pick_intra4x4mby_modes k ext bx q mb Rate rate_y Distortion best_rd).rate_y =
            rate_y ∧
          (rd_pick_intra4x4mby_modes k ext bx q mb Rate rate_y Distortion best_rd).distortion =
            Distortion ∧
          (rd_pick_intra4x4mby_modes k ext bx q mb Rate rate_y Distortion best_rd).x =
            (mbySearched k ext bx q mb (n + 1)).x ∧
          (rd_pick_intra4x4mby_modes k ext bx q mb Rate rate_y Distortion best_rd).last.blocks =
            (List.range (n + 1)).map (blockResult k ext bx q mb) ∧
          (best_rd ≤ INT_MAX →
            ¬ (rd_pick_intra4x4mby_modes k ext bx q mb Rate rate_y Distortion best_rd).ret <
              best_rd)) ∧
      ((∀ n, n < 16 → blockSum k ext bx q mb (n + 1) < best_rd) →
        (rd_pick_intra4x4mby_modes k ext bx q mb Rate rate_y Distortion best_rd).ret =
            rdcost ext (mbySearched k ext bx q mb 16).x
              (rd_pick_intra4x4mby_modes k ext bx q mb Rate rate_y Distortion best_rd).rate
              (rd_pick_intra4x4mby_modes k ext bx q mb Rate rate_y Distortion
                best_rd).distortion ∧
          (rd_pick_intra4x4mby_modes k ext bx q mb Rate rate_y Distortion best_rd).rate =
            ((List.range 16).map (blockResult k ext bx q mb)).foldl
              (fun c b => iadd c b.r) (ext.mbmode_cost mb B_PRED) ∧
          (rd_pick_intra4x4mby_modes k ext bx q mb Rate rate_y Distortion best_rd).distortion =
            ((List.range 16).map (blockResult k ext bx q mb)).foldl
              (fun c b => iadd c b.d) 0 ∧
          (rd_pick_intra4x4mby_modes k ext bx q mb Rate rate_y Distortion best_rd).rate_y =
            iadd rate_y (((List.range 16).map (blockResult k ext bx q mb)).foldl
              (fun c b => iadd c b.ry) 0) ∧
          (rd_pick_intra4x4mby_modes k ext bx q mb Rate rate_y Distortion best_rd).x =
            (mbySearched k ext bx q mb 16).x ∧
          (rd_pick_intra4x4mby_modes k ext bx q mb Rate rate_y Distortion best_rd).last.blocks =
            (List.range 16).map (blockResult k ext bx q mb) ∧
          ((∀ j, j ≤ 16 → IsInt32 (ext.mbmode_cost mb B_PRED +
              ((List.range j).map (fun i => (blockResult k ext bx q mb i).r)).sum)) →
            (rd_pick_intra4x4mby_modes k ext bx q mb Rate rate_y Distortion best_rd).rate =
              ext.mbmode_cost mb B_PRED +
                ((List.range 16).map (fun i => (blockResult k ext bx q mb i).r)).sum) ∧
          ((∀ j, j ≤ 16 → IsInt32
              ((List.range j).map (fun i => (blockResult k ext bx q mb i).d)).sum) →
            (rd_pick_intra4x4mby_modes k ext bx q mb Rate rate_y Distortion best_rd).distortion =
              ((List.range 16).map (fun i => (blockResult k ext bx q mb i).d)).sum)) ∧
      ((rd_pick_intra4x4mby_modes k ext bx q mb Rate rate_y Distortion best_rd).wrote = false →
        (rd_pick_intra4x4mby_modes k ext bx q mb Rate rate_y Distortion best_rd).ret = INT_MAX ∧
          (rd_pick_intra4x4mby_modes k ext bx q mb Rate rate_y Distortion best_rd).rate = Rate ∧
          (rd_pick_intra4x4mby_modes k ext bx q mb Rate rate_y Distortion best_rd).rate_y =
            rate_y ∧
          (rd_pick_intra4x4mby_modes k ext bx q mb Rate rate_y Distortion best_rd).distortion =
            Distortion) ∧
      (rd_pick_intra4x4mby_modes k ext bx q mb Rate rate_y Distortion best_rd).last.blocks =
        (List.range (rd_pick_intra4x4mby_modes k ext bx q mb Rate rate_y Distortion
          best_rd).last.blocks.length).map (blockResult k ext bx q mb) := by
  obtain ⟨j, j0, j16, hloop, hbelow, hall⟩ := mbyLoop_all k ext bx q mb best_rd
  obtain ⟨_, _, _, i4, i5, i6⟩ := mbySearched_inv k ext bx q mb j j16
  have htot := mbySearched_total k ext bx q mb j j16
  have hblocks := mbySearched_blocks k ext bx q mb j
  have hlen := mbySearched_length k ext bx q mb j
  have hfirst : ∀ n, n < 16 → best_rd ≤ blockSum k ext bx q mb (n + 1) →
      (∀ i, i < n → blockSum k ext bx q mb (i + 1) < best_rd) →
      best_rd ≤ blockSum k ext bx q mb j → n + 1 = j := by
    intro n _ hn hpre hj
    rcases Nat.lt_trichotomy (n + 1) j with h | h | h
    · exact absurd (hbelow (n + 1) (by omega) h) (not_lt.2 hn)
    · exact h
    · have := hpre (j - 1) (by omega)
      rw [Nat.sub_add_cancel j0] at this
      exact absurd this (not_lt.2 hj)
  by_cases hge : best_rd ≤ blockSum k ext bx q mb j
  · have hR : rd_pick_intra4x4mby_modes k ext bx q mb Rate rate_y Distortion best_rd =
        { x := (mbySearched k ext bx q mb j).x, ret := INT_MAX, rate := Rate
          rate_y := rate_y, distortion := Distortion, wrote := false
          last := mbySearched k ext bx q mb j } := by
      unfold rd_pick_intra4x4mby_modes
      dsimp only
      rw [hloop, if_pos (by rw [htot]; exact hge)]
    rw [hR]
    dsimp only
    refine ⟨⟨fun _ => ⟨j - 1, by omega, by rw [Nat.sub_add_cancel j0]; exact hge⟩,
      fun _ => rfl⟩, ?_, ?_, fun _ => ⟨rfl, rfl, rfl, rfl⟩, by rw [hlen, hblocks]⟩
    · intro n hn hreach hpre
      have hj := hfirst n hn hreach hpre hge
      rw [hj]
      refine ⟨rfl, rfl, rfl, rfl, rfl, hblocks, fun hb => ?_⟩
      exact not_lt.2 hb
    · intro hnone
      have := hnone (j - 1) (by omega)
      rw [Nat.sub_add_cancel j0] at this
      exact absurd this (not_lt.2 hge)
  · have hlt : blockSum k ext bx q mb j < best_rd := not_le.1 hge
    have hj : j = 16 := hall hlt
    rw [hj] at hloop i4 i5 i6 htot hblocks hlen hlt hbelow
    have hR : rd_pick_intra4x4mby_modes k ext bx q mb Rate rate_y Distortion best_rd =
        { x := (mbySearched k ext bx q mb 16).x
          ret := rdcost ext (mbySearched k ext bx q mb 16).x
            (mbySearched k ext bx q mb 16).cost (mbySearched k ext bx q mb 16).distortion
          rate := (mbySearched k ext bx q mb 16).cost
          rate_y := iadd rate_y (mbySearched k ext bx q mb 16).tot_rate_y
          distortion := (mbySearched k ext bx q mb 16).distortion, wrote := true
          last := mbySearched k ext bx q mb 16 } := by
      unfold rd_pick_intra4x4mby_modes
      dsimp only
      rw [hloop, if_neg (by rw [htot]; exact not_le.2 hlt)]
    have hnone : ∀ n, n < 16 → blockSum k ext bx q mb (n + 1) < best_rd := by
      intro n hn
      rcases Nat.lt_or_ge (n + 1) 16 with h | h
      · exact hbelow (n + 1) (by omega) h
      · have h16 : n + 1 = 16 := by omega
        rw [h16]
        exact hlt
    rw [hR]
    dsimp only
    rw [hblocks] at i4 i5 i6
    refine ⟨⟨(fun h => by cases h), ?_⟩, ?_, ?_, (fun h => by cases h),
      by rw [hlen, hblocks]⟩
    · rintro ⟨n, hn, hreach⟩
      exact absurd (hnone n hn) (not_lt.2 hreach)
    · intro n hn hreach _
      exact absurd (hnone n hn) (not_lt.2 hreach)
    · intro _
      refine ⟨rfl, i4, i5, by rw [i6], rfl, hblocks, fun hex => ?_, fun hex => ?_⟩
      · rw [i4, foldl_iadd_sum BlockOut.r _ _ (by
          intro j hj
          rw [List.length_map, List.length_range] at hj
          have := hex j hj
          rw [← List.map_take, List.map_map, List.take_range, Nat.min_eq_left hj]
          exact this), List.map_map]
        rfl
      · rw [i5, foldl_iadd_sum BlockOut.d _ _ (by
          intro j hj
          rw [List.length_map, List.length_range] at hj
          have := hex j hj
          rw [← List.map_take, List.map_map, List.take_range, Nat.min_eq_left hj, zero_add]
          exact this), List.map_map, zero_add]
        rfl

/-- Claim C34 on a concrete macroblock in which every block has the best RD
cost 37: with `best_rd = 100` the running sums are 37, 74 and 111, the third
block is the first at which `best_rd` is reached, the function returns
`INT_MAX` and the three outputs keep their values -5, -6 and -7; with
`best_rd = 1000` all 16 blocks are searched, the rate is 272, the distortion
320 and the value returned 592. -/
theorem c34_failure_as_saturation_witness :
    (List.range 4).map (blockSum stdIntra (plainExt 1) (blockOf tenErrors) sampleQuad
        (blockX 1)) = [0, 37, 74, 111] ∧
      ((rd_pick_intra4x4mby_modes stdIntra (plainExt 1) (blockOf tenErrors) sampleQuad
          (blockX 1) (-5) (-6) (-7) 100).ret = INT_MAX ∧
        (rd_pick_intra4x4mby_modes stdIntra (plainExt 1) (blockOf tenErrors) sampleQuad
          (blockX 1) (-5) (-6) (-7) 100).rate = -5 ∧
        (rd_pick_intra4x4mby_modes stdIntra (plainExt 1) (blockOf tenErrors) sampleQuad
          (blockX 1) (-5) (-6) (-7) 100).rate_y = -6 ∧
        (rd_pick_intra4x4mby_modes stdIntra (plainExt 1) (blockOf tenErrors) sampleQuad
          (blockX 1) (-5) (-6) (-7) 100).distortion = -7) ∧
      ((rd_pick_intra4x4mby_modes stdIntra (plainExt 1) (blockOf tenErrors) sampleQuad
          (blockX 1) (-5) (-6) (-7) 1000).rate = 272 ∧
        (rd_pick_intra4x4mby_modes stdIntra (plainExt 1) (blockOf tenErrors) sampleQuad
          (blockX 1) (-5) (-6) (-7) 1000).distortion = 320 ∧
        (rd_pick_intra4x4mby_modes stdIntra (plainExt 1) (blockOf tenErrors) sampleQuad
          (blockX 1) (-5) (-6) (-7) 1000).ret = 592) :=
  ⟨by decide,
    ⟨((c34_failure_as_saturation stdIntra (plainExt 1) (blockOf tenErrors) sampleQuad
        (blockX 1) (-5) (-6) (-7) 100).2.1 2 (by decide) (by decide) (by decide)).1,
      ((c34_failure_as_saturation stdIntra (plainExt 1) (blockOf tenErrors) sampleQuad
        (blockX 1) (-5) (-6) (-7) 100).2.1 2 (by decide) (by decide) (by decide)).2.1,
      ((c34_failure_as_saturation stdIntra (plainExt 1) (blockOf tenErrors) sampleQuad
        (blockX 1) (-5) (-6) (-7) 100).2.1 2 (by decide) (by decide) (by decide)).2.2.1,
      ((c34_failure_as_saturation stdIntra (plainExt 1) (blockOf tenErrors) sampleQuad
        (blockX 1) (-5) (-6) (-7) 100).2.1 2 (by decide) (by decide) (by decide)).2.2.2.1⟩,
    ⟨(((c34_failure_as_saturation stdIntra (plainExt 1) (blockOf tenErrors) sampleQuad
        (blockX 1) (-5) (-6) (-7) 1000).2.2.1 (by decide)).2.1).trans (by decide),
      (((c34_failure_as_saturation stdIntra (plainExt 1) (blockOf tenErrors) sampleQuad
        (blockX 1) (-5) (-6) (-7) 1000).2.2.1 (by decide)).2.2.1).trans (by decide),
      by decide⟩⟩

end ClaimsMby

/-! ## Claim on the records of `labels2mode` -/

section ClaimsLabels

variable {W : Type}

/-- Claim C35, counterexample: for the upper label of the split into two rows
of eight blocks, with `ABOVE4X4` as the mode and the same vector above and to
the left of block 0, block 0 records `LEFT4X4` and the mode cost is that of
`LEFT4X4`, but block 4 of the same label, whose upper neighbour carries the
label and whose left neighbour does not exist, records `ABOVE4X4`. -/
theorem c35_propagated_mode_counterexample :
    aboveVector sameNeighbours (benchX 0) 0 = leftVector sameNeighbours (benchX 0) 0 ∧
      sample_mbsplits BLOCK_16X8 0 = 0 ∧ sample_mbsplits BLOCK_16X8 4 = 0 ∧
      (labels2mode stdConfig (benchExt bench1) sameNeighbours (benchX 0)
        (sample_mbsplits BLOCK_16X8) 0 ABOVE4X4 zero_mv zero_mv).x.partition_info.bmi_mode 0 =
          LEFT4X4.toInt stdConfig ∧
      (labels2mode stdConfig (benchExt bench1) sameNeighbours (benchX 0)
        (sample_mbsplits BLOCK_16X8) 0 ABOVE4X4 zero_mv zero_mv).x.partition_info.bmi_mode 4 =
          ABOVE4X4.toInt stdConfig ∧
      ABOVE4X4.toInt stdConfig ≠ LEFT4X4.toInt stdConfig := by
  decide

/-- Claim C35, amended: for a label that starts at block `f` and whose later
blocks each have their left or upper neighbour in the label, when the mode
is `ABOVE4X4` and the vector above block `f` equals the vector to its left,
the mode recorded for block `f` and used for the mode cost is `LEFT4X4`; the
later blocks of the label record `LEFT4X4` when their left neighbour carries
the label and `ABOVE4X4` otherwise; in every case all blocks of the label end
with the same vector `*this_mv` in both the `BLOCKD` array and
`partition_info`, and blocks of other labels are untouched. -/
theorem c35_label_records (cfg : Config) (ext : Ext W) (sx : SplitExt W) (x : MACROBLOCK W)
    (labelings : Nat → Int) (which_label : Int) (this_mode : B_PREDICTION_MODE)
    (this_mv best_ref_mv : int_mv) (f : Nat) (hf : StartsLabel labelings which_label f) :
    (this_mode = ABOVE4X4 → aboveVector sx x f = leftVector sx x f →
        (labels2mode cfg ext sx x labelings which_label this_mode this_mv
            best_ref_mv).x.partition_info.bmi_mode f = LEFT4X4.toInt cfg ∧
          (labels2mode cfg ext sx x labelings which_label this_mode this_mv
            best_ref_mv).cost = iadd (sx.inter_bmode_costs x LEFT4X4) 0) ∧
      (∀ i, i < 16 → f < i → labelings i = which_label →
        (labels2mode cfg ext sx x labelings which_label this_mode this_mv
            best_ref_mv).x.partition_info.bmi_mode i =
          (if i % 4 ≠ 0 ∧ labelings i = labelings (i - 1) then LEFT4X4
            else ABOVE4X4).toInt cfg) ∧
      (∀ i, i < 16 → labelings i = which_label →
        ((labels2mode cfg ext sx x labelings which_label this_mode this_mv
            best_ref_mv).x.block_bmi i).mv =
          (labels2mode cfg ext sx x labelings which_label this_mode this_mv
            best_ref_mv).this_mv ∧
        (labels2mode cfg ext sx x labelings which_label this_mode this_mv
            best_ref_mv).x.partition_info.bmi_mv i =
          (labels2mode cfg ext sx x labelings which_label this_mode this_mv
            best_ref_mv).this_mv) ∧
      (∀ i, labelings i ≠ which_label →
        (labels2mode cfg ext sx x labelings which_label this_mode this_mv
            best_ref_mv).x.block_bmi i = x.block_bmi i ∧
        (labels2mode cfg ext sx x labelings which_label this_mode this_mv
            best_ref_mv).x.partition_info.bmi_mode i = x.partition_info.bmi_mode i ∧
        (labels2mode cfg ext sx x labelings which_label this_mode this_mv
            best_ref_mv).x.partition_info.bmi_mv i = x.partition_info.bmi_mv i) := by
  have hinv := labelsInv_fold cfg ext sx x labelings which_label this_mode this_mv
    best_ref_mv f hf 16 (le_refl _)
  unfold LabelsInv at hinv
  rw [if_neg (by have := hf.1; omega)] at hinv
  obtain ⟨h1, h2, h3, h4⟩ := hinv
  unfold labels2mode
  dsimp only
  refine ⟨?_, ?_, ?_, ?_⟩
  · intro hm hv
    have hsv : startVector sx x this_mode this_mv f = aboveVector sx x f := by
      unfold startVector
      rw [hm, if_neg (by decide), if_pos rfl]
    have hsm : startMode sx x this_mode this_mv f = LEFT4X4 := by
      unfold startMode
      rw [hsv, if_pos ⟨hm, hv.symm⟩]
    constructor
    · rw [((h4 f).1 hf.1 hf.2.1).2.2, if_pos rfl, hsm]
    · rw [h2, h3, hsm, hm, if_neg (by decide)]
  · intro i hi hfi hl
    rw [((h4 i).1 hi hl).2.2, if_neg (by omega)]
    rfl
  · intro i hi hl
    rw [((h4 i).1 hi hl).1, ((h4 i).1 hi hl).2.1, h1]
    exact ⟨rfl, rfl⟩
  · intro i hl
    exact (h4 i).2 (Or.inr hl)

theorem c35_label_records_witness :
    StartsLabel (sample_mbsplits BLOCK_8X8) 3 10 ∧
      ∀ i, i < 16 → sample_mbsplits BLOCK_8X8 i = 3 →
        ((labels2mode stdConfig (benchExt bench1) sameNeighbours (benchX 0)
            (sample_mbsplits BLOCK_8X8) 3 ABOVE4X4 zero_mv zero_mv).x.block_bmi i).mv =
          (labels2mode stdConfig (benchExt bench1) sameNeighbours (benchX 0)
            (sample_mbsplits BLOCK_8X8) 3 ABOVE4X4 zero_mv zero_mv).this_mv ∧
        (labels2mode stdConfig (benchExt bench1) sameNeighbours (benchX 0)
            (sample_mbsplits BLOCK_8X8) 3 ABOVE4X4 zero_mv zero_mv).x.partition_info.bmi_mv i =
          (labels2mode stdConfig (benchExt bench1) sameNeighbours (benchX 0)
            (sample_mbsplits BLOCK_8X8) 3 ABOVE4X4 zero_mv zero_mv).this_mv :=
  ⟨by decide,
    (c35_label_records stdConfig (benchExt bench1) sameNeighbours (benchX 0)
      (sample_mbsplits BLOCK_8X8) 3 ABOVE4X4 zero_mv zero_mv 10 (by decide)).2.2.1⟩

end ClaimsLabels

/-! ## Claims on the speed selection, the block errors and the coefficient cost -/

section ClaimsSimple

variable {W P : Type}

/-- Claim C39: `vp8_auto_select_speed` keeps `cpi->Speed` in the range 4 to
16 whatever the timing statistics and the frame rate are, and the one read of
`auto_speed_thresh[cpi->Speed]` it can make, after the step up, is at an index
from 4 to 16, inside the 17 entries of the table: the function comes back
with a state, which it does only when the read is inside the table. -/
theorem c39_speed_stays_in_range (inp : SpeedInput) (s : SpeedState)
    (h4 : 4 ≤ s.Speed) (h16 : s.Speed ≤ 16) :
    (∃ s1, vp8_auto_select_speed inp s = some s1 ∧ 4 ≤ s1.Speed ∧ s1.Speed ≤ 16) ∧
      4 ≤ (speedUp inp s).Speed ∧ (speedUp inp s).Speed ≤ 16 ∧
      (∃ t, readSpeedThresh (speedUp inp s).Speed = some t) ∧
      auto_speed_thresh.length = 17 := by
  have hup := speedUp_range inp s h4 h16
  obtain ⟨t, ht, _, _⟩ := readSpeedThresh_some _ hup.1 hup.2
  refine ⟨?_, hup.1, hup.2, ⟨t, ht⟩, rfl⟩
  unfold vp8_auto_select_speed
  split
  · split
    · exact ⟨_, rfl, (by decide : (4 : Int) ≤ 4), (by decide : (4 : Int) ≤ 16)⟩
    · rw [ht]
      exact ⟨_, rfl, speedDown_range inp _ t hup.1 hup.2⟩
  · refine ⟨_, rfl, ?_⟩
    dsimp only
    unfold iadd wrap32
    split <;> constructor <;> omega

theorem c39_speed_stays_in_range_witness :
    (∃ s1, vp8_auto_select_speed sampleSpeedInput sampleSpeedState = some s1 ∧
        4 ≤ s1.Speed ∧ s1.Speed ≤ 16) ∧
      4 ≤ (speedUp sampleSpeedInput sampleSpeedState).Speed ∧
      (speedUp sampleSpeedInput sampleSpeedState).Speed ≤ 16 ∧
      (∃ t, readSpeedThresh (speedUp sampleSpeedInput sampleSpeedState).Speed = some t) ∧
      auto_speed_thresh.length = 17 :=
  c39_speed_stays_in_range sampleSpeedInput sampleSpeedState (by decide) (by decide)

/-- Claim C40, counterexample: the errors are accumulated in `int`. With the
coefficient 32767 against the dequantized value -32768 at position 0 the
square 65535 * 65535 wraps and `vp8_block_error_c` and
`vp8_mbblock_error_c(mb, 0)` are negative; with 16384 against -16384 at four
positions the four squares add up to 2^32 and `vp8_block_error_c` is 0 for
two blocks that differ. -/
theorem c40_wrap_counterexample :
    vp8_block_error_c (stepBlock 1 32767) (stepBlock 1 (-32768)) = -131071 ∧
      vp8_mbblock_error_c (stepMb 1 32767) (stepMb 1 (-32768)) 0 = -2097136 ∧
      squareSum (stepBlock 1 32767) (stepBlock 1 (-32768)) (positionsFrom 0) = 4294836225 ∧
      vp8_block_error_c (stepBlock 4 16384) (stepBlock 4 (-16384)) = 0 ∧
      stepBlock 4 16384 0 ≠ stepBlock 4 (-16384) 0 := by
  decide

/-- Claim C40, amended: as long as the sum of the squared differences of the
macroblock stays in the range of `int`, `vp8_mbblock_error_c(mb, dc)` is the
sum over the 16 blocks and the positions from `dc` to 15 of the squared
differences; for `dc = 0` it is the sum of `vp8_block_error_c` over the 16
blocks; for `dc = 1` it leaves out exactly the terms of position 0; both
functions are non-negative, and `vp8_block_error_c` is 0 exactly when the two
blocks agree at all 16 positions. -/
theorem c40_block_errors (coeff dqcoeff : Nat → Int → Int) (dc : Int) (hdc : 0 ≤ dc)
    (hsum : squareSumMb coeff dqcoeff 0 ≤ INT_MAX) :
    vp8_mbblock_error_c coeff dqcoeff dc = squareSumMb coeff dqcoeff dc ∧
      vp8_mbblock_error_c coeff dqcoeff 0 =
        ((List.range 16).map (fun (i : Nat) =>
          vp8_block_error_c (coeff i) (dqcoeff i))).sum ∧
      vp8_mbblock_error_c coeff dqcoeff 0 =
        vp8_mbblock_error_c coeff dqcoeff 1 +
          ((List.range 16).map (fun (i : Nat) =>
            (coeff i 0 - dqcoeff i 0) * (coeff i 0 - dqcoeff i 0))).sum ∧
      0 ≤ vp8_mbblock_error_c coeff dqcoeff dc ∧
      ∀ i : Nat, i < 16 →
        0 ≤ vp8_block_error_c (coeff i) (dqcoeff i) ∧
          (vp8_block_error_c (coeff i) (dqcoeff i) = 0 ↔
            ∀ j : Nat, j < 16 → coeff i j = dqcoeff i j) := by
  have hle := squareSumMb_le coeff dqcoeff dc hdc
  have hmb := mbblock_exact coeff dqcoeff dc (le_trans hle hsum)
  have hmb0 := mbblock_exact coeff dqcoeff 0 hsum
  have hmb1 := mbblock_exact coeff dqcoeff 1
    (le_trans (squareSumMb_le coeff dqcoeff 1 (by decide)) hsum)
  have hblock : ∀ i : Nat, i < 16 →
      vp8_block_error_c (coeff i) (dqcoeff i) =
        squareSum (coeff i) (dqcoeff i) (positionsFrom 0) := by
    intro i hi
    rw [vp8_block_error_c_eq]
    exact blockErrorFrom_exact _ _ _ (le_trans (squareSum_le_mb coeff dqcoeff 0 i hi) hsum)
  refine ⟨hmb, ?_, ?_, ?_, ?_⟩
  · rw [hmb0]
    unfold squareSumMb
    congr 1
    apply List.map_congr_left
    intro i hi
    exact (hblock i (List.mem_range.1 hi)).symm
  · rw [hmb0, hmb1]
    unfold squareSumMb
    rw [← List.sum_map_add]
    congr 1
    apply List.map_congr_left
    intro i _
    have h01 : positionsFrom 0 = 0 :: positionsFrom 1 := by decide
    rw [h01]
    unfold squareSum
    rw [List.map_cons, List.sum_cons]
    ring
  · rw [hmb]
    unfold squareSumMb
    apply List.sum_nonneg
    intro y hy
    obtain ⟨j, _, rfl⟩ := List.mem_map.1 hy
    exact squareSum_nonneg _ _ _
  · intro i hi
    rw [hblock i hi]
    refine ⟨squareSum_nonneg _ _ _, ?_⟩
    unfold squareSum
    rw [nonneg_sum_eq_zero _ (by
      intro y hy
      obtain ⟨j, _, rfl⟩ := List.mem_map.1 hy
      exact mul_self_nonneg _)]
    rw [positionsFrom_zero]
    constructor
    · intro h j hj
      have := h _ (List.mem_map.2 ⟨(j : Int),
        List.mem_map.2 ⟨j, List.mem_range.2 hj, rfl⟩, rfl⟩)
      have h0 := mul_self_eq_zero.1 this
      omega
    · intro h y hy
      obtain ⟨j, hj, rfl⟩ := List.mem_map.1 hy
      obtain ⟨n, hn, rfl⟩ := List.mem_map.1 hj
      rw [h n (List.mem_range.1 hn)]
      simp

theorem c40_block_errors_witness :
    vp8_mbblock_error_c (stepMb 2 3) (stepMb 0 0) 1 =
        squareSumMb (stepMb 2 3) (stepMb 0 0) 1 ∧
      vp8_mbblock_error_c (stepMb 2 3) (stepMb 0 0) 0 =
        ((List.range 16).map (fun (i : Nat) =>
          vp8_block_error_c (stepMb 2 3 i) (stepMb 0 0 i))).sum ∧
      vp8_mbblock_error_c (stepMb 2 3) (stepMb 0 0) 0 =
        vp8_mbblock_error_c (stepMb 2 3) (stepMb 0 0) 1 +
          ((List.range 16).map (fun (i : Nat) =>
            (stepMb 2 3 i 0 - stepMb 0 0 i 0) * (stepMb 2 3 i 0 - stepMb 0 0 i 0))).sum ∧
      0 ≤ vp8_mbblock_error_c (stepMb 2 3) (stepMb 0 0) 1 ∧
      ∀ i : Nat, i < 16 →
        0 ≤ vp8_block_error_c (stepMb 2 3 i) (stepMb 0 0 i) ∧
          (vp8_block_error_c (stepMb 2 3 i) (stepMb 0 0 i) = 0 ↔
            ∀ j : Nat, j < 16 → stepMb 2 3 i j = stepMb 0 0 i j) :=
  c40_block_errors (stepMb 2 3) (stepMb 0 0) 1 (by decide) (by decide)

/-- Claim C36: `cost_coeffs` leaves in both `*a` and `*l` the value 1 if
`eob` is greater than `first` (1 for block type 0, else 0) and 0 otherwise,
and it adds the cost of the end-of-block token exactly when the larger of
`eob` and `first`, the position its loop ends at, is below 16. -/
theorem c36_coefficient_contexts (k : IntraConsts) (ext : Ext W) (bx : BlockExt W P)
    (x : MACROBLOCK W) (i : Nat) (type a l : Int) :
    cost_coeffs k ext bx x i type a l = costCoeffsLoop k ext bx x i type a l ∧
      (cost_coeffs k ext bx x i type a l).2 =
        (if ext.block_eob x i > (if type = 0 then 1 else 0) then 1 else 0) ∧
      (coeffWhile k bx x i type (ext.block_eob x i)
          (ext.block_eob x i - (if type = 0 then 1 else 0)).toNat
          ((if type = 0 then 1 else 0), 0, k.VP8_COMBINEENTROPYCONTEXTS a l)).1 =
        max (ext.block_eob x i) (if type = 0 then 1 else 0) ∧
      (cost_coeffs k ext bx x i type a l).1 =
        (if max (ext.block_eob x i) (if type = 0 then 1 else 0) < 16 then
          iadd
            (coeffWhile k bx x i type (ext.block_eob x i)
              (ext.block_eob x i - (if type = 0 then 1 else 0)).toNat
              ((if type = 0 then 1 else 0), 0, k.VP8_COMBINEENTROPYCONTEXTS a l)).2.1
            (bx.token_costs x type
              (k.vp8_coef_bands (max (ext.block_eob x i) (if type = 0 then 1 else 0)))
              (coeffWhile k bx x i type (ext.block_eob x i)
                (ext.block_eob x i - (if type = 0 then 1 else 0)).toNat
                ((if type = 0 then 1 else 0), 0,
                  k.VP8_COMBINEENTROPYCONTEXTS a l)).2.2
              k.DCT_EOB_TOKEN)
        else
          (coeffWhile k bx x i type (ext.block_eob x i)
            (ext.block_eob x i - (if type = 0 then 1 else 0)).toNat
            ((if type = 0 then 1 else 0), 0, k.VP8_COMBINEENTROPYCONTEXTS a l)).2.1) := by
  have key : ∀ (n : Nat), ((if type = 0 then (1 : Int) else 0) = (n : Int)) →
      coeffWhile k bx x i type (ext.block_eob x i)
          (ext.block_eob x i - (if type = 0 then 1 else 0)).toNat
          ((if type = 0 then 1 else 0), 0, k.VP8_COMBINEENTROPYCONTEXTS a l) =
        ((if (if type = 0 then (1 : Int) else 0) < ext.block_eob x i then ext.block_eob x i
            else (if type = 0 then 1 else 0)),
          (List.range' (if type = 0 then (1 : Int) else 0).toNat
            (ext.block_eob x i - (if type = 0 then 1 else 0)).toNat).foldl
              (coeffStep k bx x i type) (0, k.VP8_COMBINEENTROPYCONTEXTS a l)) := by
    intro n hn
    rw [hn, Int.toNat_ofNat]
    exact coeffWhile_spec k bx x i type _ _ n _ (le_refl _)
  have hkey := key (if type = 0 then 1 else 0) (by split <;> rfl)
  have hmax : (if (if type = 0 then (1 : Int) else 0) < ext.block_eob x i then
      ext.block_eob x i else (if type = 0 then 1 else 0)) =
      max (ext.block_eob x i) (if type = 0 then 1 else 0) := by
    generalize (if type = 0 then (1 : Int) else 0) = first
    by_cases h : first < ext.block_eob x i
    · rw [if_pos h, max_eq_left (le_of_lt h)]
    · rw [if_neg h, max_eq_right (not_lt.1 h)]
  refine ⟨?_, ?_, ?_, ?_⟩
  · unfold cost_coeffs costCoeffsLoop
    dsimp only
    rw [hkey]
  · unfold cost_coeffs
    dsimp only
    by_cases h : ext.block_eob x i > (if type = 0 then 1 else 0)
    · rw [if_pos h, if_pos h, if_pos (by omega)]
    · rw [if_neg h, if_neg h, if_neg (by simp)]
  · rw [hkey, hmax]
  · unfold cost_coeffs
    dsimp only
    rw [hkey, hmax]

end ClaimsSimple

/-! ## Claim on the alt-ref overlay -/

section ClaimsOverlay

variable {W : Type}

/-- Claim C37: when neither the segment reference-frame feature nor the
segment mode feature is active for the macroblock's segment,
`cpi->is_src_frame_alt_ref` is set and `arnr_max_frames == 0`, every
candidate that is not ZEROMV on `ALTREF_FRAME` is dropped in front of the
`switch` (by its threshold, a segment constraint or the overlay rule), so only
a ZEROMV / `ALTREF_FRAME` candidate is evaluated, which without
`CONFIG_DUALPRED` is candidate 6 alone; and `vp8_rd_pick_inter_mode` ends with
`mbmi.mode == ZEROMV`, `mbmi.ref_frame == ALTREF_FRAME` and the zero vector,
the prediction and cost routines leaving the vector of the mode info as it
was written. -/
theorem c37_overlay_forces_zero_altref (cfg : Config) (seg : Seg) (ext : Ext W)
    (cpi : VP8_COMP) (x : MACROBLOCK W) (l0 : Locals) (hk : KeepsVector ext)
    (h1 : seg.segfeature_active x.mbmi.segment_id SEG_LVL_REF_FRAME = false)
    (h2 : seg.segfeature_active x.mbmi.segment_id SEG_LVL_MODE = false)
    (h3 : cpi.is_src_frame_alt_ref = true) (h4 : cpi.arnr_max_frames = 0) :
    (∀ p ∈ pickTrace cfg seg ext cpi x l0,
        ((vp8_mode_order cfg).getD p.1 DC_PRED ≠ ZEROMV ∨
            (vp8_ref_frame_order cfg).getD p.1 INTRA_FRAME ≠ ALTREF_FRAME) →
          p.2 = Event.thresholdSkip ∨ p.2 = Event.segmentSkip ∨ p.2 = Event.altrefSkip) ∧
      (∀ p ∈ pickTrace cfg seg ext cpi x l0, p.2.isEvaluated = true →
        (vp8_mode_order cfg).getD p.1 DC_PRED = ZEROMV ∧
          (vp8_ref_frame_order cfg).getD p.1 INTRA_FRAME = ALTREF_FRAME ∧
          (cfg.CONFIG_DUALPRED = false → p.1 = 6)) ∧
      (vp8_rd_pick_inter_mode cfg seg ext cpi x l0).x.mbmi.mode = ZEROMV ∧
      (vp8_rd_pick_inter_mode cfg seg ext cpi x l0).x.mbmi.ref_frame = ALTREF_FRAME ∧
      (vp8_rd_pick_inter_mode cfg seg ext cpi x l0).x.mbmi.mv = zero_mv := by
  obtain ⟨hinit, hsid0⟩ := pickInit_overlay cfg seg ext cpi x l0 h1 h2 h3 h4
  obtain ⟨hinv, hsid, htrace⟩ := modeLoop_overlay cfg seg ext hk
    (List.range (MAX_MODES cfg)) (pickInit cfg ext cpi x l0) hinit
  have hev : ∀ p ∈ pickTrace cfg seg ext cpi x l0, p.2.isEvaluated = true →
      (vp8_mode_order cfg).getD p.1 DC_PRED = ZEROMV ∧
        (vp8_ref_frame_order cfg).getD p.1 INTRA_FRAME = ALTREF_FRAME := by
    intro p hp he
    by_contra hc
    have hor : (vp8_mode_order cfg).getD p.1 DC_PRED ≠ ZEROMV ∨
        (vp8_ref_frame_order cfg).getD p.1 INTRA_FRAME ≠ ALTREF_FRAME := by
      by_cases hm : (vp8_mode_order cfg).getD p.1 DC_PRED = ZEROMV
      · exact Or.inr (fun hr => hc ⟨hm, hr⟩)
      · exact Or.inl hm
    rcases htrace p hp hor with h | h | h <;> rw [h] at he <;> cases he
  refine ⟨htrace, ?_, ?_⟩
  · intro p hp he
    obtain ⟨hm, hr⟩ := hev p hp he
    refine ⟨hm, hr, fun hd => ?_⟩
    have hmem : p.1 ∈ List.range (MAX_MODES cfg) :=
      modeTrace_index_mem cfg seg ext _ _ p.1 p.2 hp
    have hall : ∀ i ∈ List.range 21,
        vp8_mode_order_single.getD i DC_PRED = ZEROMV →
          vp8_ref_frame_order_single.getD i INTRA_FRAME = ALTREF_FRAME → i = 6 := by
      decide
    unfold MAX_MODES vp8_mode_order at hmem
    unfold vp8_mode_order at hm
    unfold vp8_ref_frame_order at hr
    rw [hd] at hmem hm hr
    exact hall p.1 hmem hm hr
  · obtain ⟨a1, a2, a3, a4⟩ := afterLoop_frame cfg (pickLoop cfg seg ext cpi x l0)
    obtain ⟨i1, i2, i3, i4, _, i6⟩ := hinv
    unfold vp8_rd_pick_inter_mode
    by_cases hf : forcesAltRef seg (afterLoop cfg (pickLoop cfg seg ext cpi x l0))
    · unfold finishPick
      rw [if_pos hf]
      exact ⟨rfl, rfl, rfl⟩
    · have hbest : (pickLoop cfg seg ext cpi x l0).l.best_mbmode.mode = ZEROMV ∧
          (pickLoop cfg seg ext cpi x l0).l.best_mbmode.ref_frame = ALTREF_FRAME := by
        by_contra hc
        apply hf
        unfold forcesAltRef
        rw [a2, a3, a4]
        refine ⟨i1, i2, i3, i4, ?_⟩
        by_cases hm : (pickLoop cfg seg ext cpi x l0).l.best_mbmode.mode = ZEROMV
        · exact Or.inr (fun hr => hc ⟨hm, hr⟩)
        · exact Or.inl hm
      obtain ⟨p1, _⟩ := finishPick_inter cfg seg _ hf (by rw [a2]; exact hbest.1)
      rw [p1, a2]
      exact ⟨hbest.1, hbest.2, i6⟩

theorem c37_overlay_forces_zero_altref_witness :
    pickTrace stdConfig noSeg (benchExt bench3) overlayCpi (benchX 0) benchLocals =
        [(0, Event.altrefSkip), (1, Event.altrefSkip), (2, Event.altrefSkip),
          (3, Event.altrefSkip), (4, Event.altrefSkip), (5, Event.altrefSkip),
          (6, Event.evaluated 5000 true true false), (7, Event.altrefSkip),
          (8, Event.altrefSkip), (9, Event.altrefSkip), (10, Event.altrefSkip),
          (11, Event.altrefSkip), (12, Event.altrefSkip), (13, Event.altrefSkip),
          (14, Event.altrefSkip), (15, Event.altrefSkip), (16, Event.altrefSkip),
          (17, Event.altrefSkip), (18, Event.altrefSkip), (19, Event.altrefSkip),
          (20, Event.altrefSkip)] ∧
      (vp8_rd_pick_inter_mode stdConfig noSeg (benchExt bench3) overlayCpi (benchX 0)
        benchLocals).x.mbmi.mode = ZEROMV ∧
      (vp8_rd_pick_inter_mode stdConfig noSeg (benchExt bench3) overlayCpi (benchX 0)
        benchLocals).x.mbmi.ref_frame = ALTREF_FRAME ∧
      (vp8_rd_pick_inter_mode stdConfig noSeg (benchExt bench3) overlayCpi (benchX 0)
        benchLocals).x.mbmi.mv = zero_mv :=
  ⟨by decide,
    (c37_overlay_forces_zero_altref stdConfig noSeg (benchExt bench3) overlayCpi (benchX 0)
      benchLocals ⟨fun _ => rfl, fun _ => rfl, fun _ => rfl, fun _ => rfl, fun _ => rfl,
        fun _ => rfl⟩ rfl rfl rfl rfl).2.2⟩

end ClaimsOverlay

/-! ## Claim on the thresholds of `vp8_initialize_rd_consts` -/

section ClaimsThreshold

/-- Claim C38, counterexample: in the `RDDIV = 100` branch the multiplier
268435455 with `q = 8` gives `INT_MAX` although the product 2147483640 fits
in an `int`, because the guard is `thresh_mult[i] < INT_MAX / q`; in the
`RDDIV = 1` branch the only guard is `thresh_mult[i] < INT_MAX`, and the
multiplier 6000000 with `q = 400` gives -18949672 through the wrapped
product, where the mathematical value 24000000 fits in an `int`. -/
theorem c38_threshold_counterexample :
    (vp8_initialize_rd_consts c9Config (fun _ _ => 1) c9Float
        (largeMultInput 268435455) 60).RDDIV = 100 ∧
      thresholdQ c9Config (fun _ _ => 1) c9Float 60 = 8 ∧
      (268435455 : Int) * 8 ≤ INT_MAX ∧
      (vp8_initialize_rd_consts c9Config (fun _ _ => 1) c9Float
        (largeMultInput 268435455) 60).rd_threshes 0 = INT_MAX ∧
      (vp8_initialize_rd_consts c9Config (fun _ _ => 100) c9Float
        (largeMultInput 6000000) 60).RDDIV = 1 ∧
      thresholdQ c9Config (fun _ _ => 100) c9Float 60 = 400 ∧
      (6000000 : Int) * 400 / 100 = 24000000 ∧
      (vp8_initialize_rd_consts c9Config (fun _ _ => 100) c9Float
        (largeMultInput 6000000) 60).rd_threshes 0 = -18949672 := by
  decide

/-- Claim C38, amended: for a multiplier `thresh_mult[i] >= 0`, with `q` the
quantizer value of the threshold loops (at least 8), the baseline threshold
equals the threshold; in the `RDDIV = 100` branch the threshold is the exact
product `thresh_mult[i] * q` when `thresh_mult[i] < INT_MAX / q` and
`INT_MAX` otherwise; in the `RDDIV = 1` branch it is `INT_MAX` for the
multiplier `INT_MAX`, and the exact `thresh_mult[i] * q / 100` for a smaller
multiplier whose product with `q` fits in an `int`. -/
theorem c38_thresholds (cfg : Config) (dcq : Int → Int → Int) (fp : FloatOps)
    (cpi : RdConstsInput) (QIndex : Int) (i : Nat) (h0 : 0 ≤ cpi.thresh_mult i) :
    8 ≤ thresholdQ cfg dcq fp QIndex ∧
      (vp8_initialize_rd_consts cfg dcq fp cpi QIndex).rd_baseline_thresh i =
        (vp8_initialize_rd_consts cfg dcq fp cpi QIndex).rd_threshes i ∧
      (((vp8_initialize_rd_consts cfg dcq fp cpi QIndex).RDDIV = 100 ∧
          (cpi.thresh_mult i < INT_MAX / thresholdQ cfg dcq fp QIndex →
            (vp8_initialize_rd_consts cfg dcq fp cpi QIndex).rd_threshes i =
              cpi.thresh_mult i * thresholdQ cfg dcq fp QIndex) ∧
          (INT_MAX / thresholdQ cfg dcq fp QIndex ≤ cpi.thresh_mult i →
            (vp8_initialize_rd_consts cfg dcq fp cpi QIndex).rd_threshes i = INT_MAX)) ∨
        ((vp8_initialize_rd_consts cfg dcq fp cpi QIndex).RDDIV = 1 ∧
          (INT_MAX ≤ cpi.thresh_mult i →
            (vp8_initialize_rd_consts cfg dcq fp cpi QIndex).rd_threshes i = INT_MAX) ∧
          (cpi.thresh_mult i < INT_MAX →
            cpi.thresh_mult i * thresholdQ cfg dcq fp QIndex ≤ INT_MAX →
            (vp8_initialize_rd_consts cfg dcq fp cpi QIndex).rd_threshes i =
              cpi.thresh_mult i * thresholdQ cfg dcq fp QIndex / 100))) := by
  have hq := thresholdQ_range cfg dcq fp QIndex
  refine ⟨hq.1, ?_, ?_⟩
  · rcases rd_consts_thresholds cfg dcq fp cpi QIndex with ⟨_, h⟩ | ⟨_, h⟩
    · rw [(h i).1, (h i).2]
    · rw [(h i).1, (h i).2]
  · rcases rd_consts_thresholds cfg dcq fp cpi QIndex with ⟨hd, h⟩ | ⟨hd, h⟩
    · refine Or.inr ⟨hd, ?_⟩
      rw [(h i).1]
      exact initThresh_div _ _ h0 hq.1
    · refine Or.inl ⟨hd, ?_⟩
      rw [(h i).1]
      exact initThresh_mul _ _ h0 hq.1

theorem c38_thresholds_witness :
    8 ≤ thresholdQ c9Config (fun _ _ => 100) c9Float 60 ∧
      (vp8_initialize_rd_consts c9Config (fun _ _ => 100) c9Float c9Input 60).rd_baseline_thresh 3 =
        (vp8_initialize_rd_consts c9Config (fun _ _ => 100) c9Float c9Input 60).rd_threshes 3 ∧
      (((vp8_initialize_rd_consts c9Config (fun _ _ => 100) c9Float c9Input 60).RDDIV = 100 ∧
          (c9Input.thresh_mult 3 < INT_MAX / thresholdQ c9Config (fun _ _ => 100) c9Float 60 →
            (vp8_initialize_rd_consts c9Config (fun _ _ => 100) c9Float c9Input 60).rd_threshes 3 =
              c9Input.thresh_mult 3 * thresholdQ c9Config (fun _ _ => 100) c9Float 60) ∧
          (INT_MAX / thresholdQ c9Config (fun _ _ => 100) c9Float 60 ≤ c9Input.thresh_mult 3 →
            (vp8_initialize_rd_consts c9Config (fun _ _ => 100) c9Float c9Input 60).rd_threshes 3 =
              INT_MAX)) ∨
        ((vp8_initialize_rd_consts c9Config (fun _ _ => 100) c9Float c9Input 60).RDDIV = 1 ∧
          (INT_MAX ≤ c9Input.thresh_mult 3 →
            (vp8_initialize_rd_consts c9Config (fun _ _ => 100) c9Float c9Input 60).rd_threshes 3 =
              INT_MAX) ∧
          (c9Input.thresh_mult 3 < INT_MAX →
            c9Input.thresh_mult 3 * thresholdQ c9Config (fun _ _ => 100) c9Float 60 ≤ INT_MAX →
            (vp8_initialize_rd_consts c9Config (fun _ _ => 100) c9Float c9Input 60).rd_threshes 3 =
              c9Input.thresh_mult 3 * thresholdQ c9Config (fun _ _ => 100) c9Float 60 / 100))) :=
  c38_thresholds c9Config (fun _ _ => 100) c9Float c9Input 60 3 (by decide)
end ClaimsThreshold

end VP8
